import Mathlib

set_option maxRecDepth 8000
set_option maxHeartbeats 4000000

/-!
Shallow embedding of the RET recursive embedded test engine
(src/ret.c together with its configuration header src/ret.h).

The engine walks a tree of test nodes.  A global tag path string records the
current position; a bounded report buffer collects output lines; an array of
setjmp environments (one per nesting level) supports non-local exits for
assertion failures and for the exact-path early termination in retExit.

The C control flow is modelled as follows: setjmp/longjmp becomes an explicit
outcome type (`Out.jump lvl v s` is a pending longjmp to the environment of
nesting level `lvl` carrying value `v`), and the mutually recursive walker is
a single fueled step function (`step`), structurally recursive on the fuel so
that concrete runs reduce inside the kernel.  Machine integers are Nat/Int;
the uint32 quantities involved (lengths, offsets, counters) stay far below
2^32 in every run considered, so no explicit wraparound is modelled.

Ghost instrumentation (fields of `St` that do not exist in the C struct but
only record what happened) is used to observe behaviour: which node tags were
entered/invoked, the per-frame recorded results, counts of I/T/S lines, the
number of dropped output characters, and whether the report buffer was ever
stored past its capacity.
-/

/-- Test function return values (ret.h, `ret_val_t`). -/
inductive RetVal where
  | pass
  | fail
  | errTimeout
  | errTag
  deriving Repr, DecidableEq

/-- Test modes (ret.h, `ret_mode_t`). -/
inductive RMode where
  | search
  | exe
  | skip
  deriving Repr, DecidableEq

/-- RET_REPORT_BUF_SIZE (ret.h line 63, 0x1000). -/
def RET_REPORT_BUF_SIZE : Nat := 4096

/-- RET_MAX_TAG_STRING_SIZE (ret.h line 64). -/
def RET_MAX_TAG_STRING_SIZE : Nat := 256

/-- RET_MAX_NEST_SIZE (ret.h line 65). -/
def RET_MAX_NEST_SIZE : Nat := 6

/-- RET_ROOT_TAG (ret.h line 70). -/
def RET_ROOT_TAG : List Char := "ROOT".toList

/-- RET_TOKEN_DELIMITER (ret.c line 100). -/
def RET_TOKEN_DELIMITER : Char := '@'

def RET_TAG_ERR_MSG : List Char := "Error: RET_MAX_TAG_STRING_SIZE exceeded".toList

def RET_LAYER_ERR_MSG : List Char := "Error: RET_MAX_NEST_SIZE exceeded".toList

def RET_PATH_ERR_MSG : List Char := "test path not found".toList

def RET_TEST_DONE_MSG : List Char := "DONE".toList

/-- RET_RETVAL_STR (ret.c line 96). -/
def RET_RETVAL_STR : RetVal → List Char
  | .pass => "PASS".toList
  | .fail => "FAIL".toList
  | .errTimeout => "TIMEOUT".toList
  | .errTag => "TAG_ID".toList

/-- A statement inside a user leaf test body: a ghost marker, a write to
`param->retval`, or a RET_ASSERT(cond) call with its call-site line/file. -/
inductive LAct where
  | mark (k : Nat)
  | setRetval (v : Int)
  | assertAct (cond : Bool) (line : Int) (file : List Char)
  deriving Repr, DecidableEq

/-- A test node (ret.h `ret_test_t`): a leaf runs user logic (its body starts
with the RET_MODE_SEARCH guard macro, then its statements, then returns its
result), while a branch function just calls retExecuteList on a sub-list. -/
inductive Node where
  | leaf (tag : List Char) (acts : List LAct) (ret : RetVal)
  | branch (tag : List Char) (children : List Node)
  deriving Repr

def nodeTag : Node → List Char
  | .leaf t _ _ => t
  | .branch t _ => t

/-- The whole mutable state of the engine: the `ret` struct (line numbers, tag
string/cursor, nesting level), the `ret_buf` struct (buffer, cursor, pause
flag, plus the list of strings transmitted so far through RET_SEND_BUF), the
`ret_env` array (tag cursors and timers per nesting level), the caller's
`ret_param_t` fields (mode, tag_found, retval), a tick counter standing for
the external RET_SYS_TICK_FUNC, and ghost observation fields. -/
structure St where
  next_line_number : Nat
  tag_str : List Char
  tag_ptr : Nat
  nest : Nat
  env_tag : List Nat
  env_timer : List Nat
  next_in : Nat
  buf_rev : List Char
  is_pause : Bool
  sent_rev : List (List Char)
  clock : Nat
  mode : RMode
  tag_found : Nat
  p_retval : Int
  invoked : List (List Char)
  entered : List (List Char)
  marks : List Nat
  frame_log : List (Nat × RetVal)
  ilines : Nat
  tlines : Nat
  slines : Nat
  dropped : Nat
  oob : Bool
  deriving Repr, DecidableEq

/-- The strings transmitted so far, oldest first. -/
def sentList (s : St) : List (List Char) := s.sent_rev.reverse

/-- The report buffer content, oldest character first. -/
def bufContent (s : St) : List Char := s.buf_rev.reverse

/-- retSendBuffer (ret.c lines 655-661): if the buffer is non-empty, append a
NUL terminator at the cursor, transmit, and reset the cursor.  The NUL store
`*ret_buf.next_in++ = '\0'` is not bounds checked; the ghost flag `oob`
records a store at an index not strictly below RET_REPORT_BUF_SIZE. -/
def retSendBuffer (s : St) : St :=
  if s.next_in ≠ 0 then
    { s with
      oob := s.oob || decide (RET_REPORT_BUF_SIZE ≤ s.next_in)
      sent_rev := s.buf_rev.reverse :: s.sent_rev
      buf_rev := []
      next_in := 0 }
  else s

/-- retPutChar (ret.c lines 607-613): store if the cursor is inside the
buffer, else silently drop (ghost-counted); a stored linefeed triggers
transmission when the pause flag is set. -/
def retPutChar (c : Char) (s : St) : St :=
  if s.next_in < RET_REPORT_BUF_SIZE then
    if c = '\n' ∧ s.is_pause = true then
      retSendBuffer { s with buf_rev := c :: s.buf_rev, next_in := s.next_in + 1 }
    else { s with buf_rev := c :: s.buf_rev, next_in := s.next_in + 1 }
  else { s with dropped := s.dropped + 1 }

/-- retPutString (ret.c lines 621-624). -/
def retPutString (str : List Char) (s : St) : St :=
  str.foldl (fun acc c => retPutChar c acc) s

/-- retPutLineFeed (ret.c lines 632-637). -/
def retPutLineFeed (s : St) : St := retPutChar '\n' s

/-- retPutCommaSeparator (ret.c lines 645-647). -/
def retPutCommaSeparator (s : St) : St := retPutChar ',' s

/-- Decimal digits of `n`, least significant first, as ASCII characters.
The first argument is fuel (any value above `n` is enough). -/
def decRevAux : Nat → Nat → List Char
  | 0, _ => []
  | f+1, n => Char.ofNat (48 + n % 10) :: (if n < 10 then [] else decRevAux f (n / 10))

/-- Decimal digits of `n`, most significant first. -/
def natDecDigits (n : Nat) : List Char := (decRevAux (n+1) n).reverse

/-- retConvIntToDecAscii (ret.c lines 540-566): signed decimal ASCII. -/
def retConvIntToDecAscii (v : Int) : List Char :=
  if v < 0 then '-' :: natDecDigits v.natAbs else natDecDigits v.natAbs

/-- The text produced by retDecimalDigits (ret.c lines 576-594): the lowest
`width` decimal digits of `value`, right justified in `width` spaces. -/
def decimalDigitsText (value width : Nat) : List Char :=
  let ds := (decRevAux (value+1) value).take width
  List.replicate (width - ds.length) ' ' ++ ds.reverse

/-- retDecimalDigits (ret.c lines 576-594): nothing at all is emitted unless
0 < width < 10 (the size of the static work area minus one). -/
def retDecimalDigits (value width : Nat) (s : St) : St :=
  if 0 < width ∧ width < 10 then retPutString (decimalDigitsText value width) s else s

/-- retFormatLine (ret.c lines 482-501): kind character, sequence number,
two padding fields, message (replaced by a placeholder when longer than
RET_MAX_TAG_STRING_SIZE), linefeed; the pause flag is forced to `pause` for
the duration of the line and then restored. -/
def retFormatLine (msg_type : Char) (str : List Char) (pause : Bool) (s : St) : St :=
  let save := s.is_pause
  let s := { s with is_pause := pause }
  let s := retPutChar msg_type s
  let s := retPutCommaSeparator s
  let seq := s.next_line_number
  let s := { s with next_line_number := s.next_line_number + 1 }
  let s := retDecimalDigits seq 4 s
  let s := retPutCommaSeparator s
  let s := retPutString "    ".toList s
  let s := retPutCommaSeparator s
  let s := retPutString "      ".toList s
  let s := retPutCommaSeparator s
  let str := if RET_MAX_TAG_STRING_SIZE < str.length then "<string exceeds length limit>".toList else str
  let s := retPutString str s
  let s := retPutLineFeed s
  { s with is_pause := save }

/-- retInfoLine (ret.c lines 460-462). -/
def retInfoLine (str : List Char) (pause : Bool) (s : St) : St :=
  retFormatLine 'I' str pause { s with ilines := s.ilines + 1 }

/-- retInfoLineFmt (ret.c lines 449-451): info line with RET_NO_PAUSE. -/
def retInfoLineFmt (str : List Char) (s : St) : St :=
  retInfoLine str false s

/-- retSearchLine (ret.c lines 470-472): an S line, passed with RET_NO_PAUSE. -/
def retSearchLine (str : List Char) (s : St) : St :=
  retFormatLine 'S' str false { s with slines := s.slines + 1 }

/-- retTestLineFormat (ret.c lines 510-521): a T result line with the result
keyword, the elapsed time and the current tag path, under the ambient pause
flag. -/
def retTestLineFormat (retval : RetVal) (elapsed : Nat) (s : St) : St :=
  let s := { s with tlines := s.tlines + 1 }
  let s := retPutChar 'T' s
  let s := retPutCommaSeparator s
  let seq := s.next_line_number
  let s := { s with next_line_number := s.next_line_number + 1 }
  let s := retDecimalDigits seq 4 s
  let s := retPutCommaSeparator s
  let s := retPutString (RET_RETVAL_STR retval) s
  let s := retPutCommaSeparator s
  let s := retDecimalDigits elapsed 6 s
  let s := retPutCommaSeparator s
  let s := retPutString s.tag_str s
  retPutLineFeed s

/-- Index of the first occurrence of `needle` in `hay` (C strstr, ret.c line
338), or none. -/
def strstrIdx (hay needle : List Char) : Option Nat :=
  if needle.isPrefixOf hay then some 0
  else
    match hay with
    | [] => none
    | _ :: t => (strstrIdx t needle).map (· + 1)

/-- The character check of retFindTagToken (ret.c lines 340-341): the
character just past an occurrence at index `i` is the token delimiter, or the
occurrence ends the string. -/
def delimOrEndB (hay needle : List Char) (i : Nat) : Bool :=
  match hay.drop (i + needle.length) with
  | [] => true
  | c :: _ => c = RET_TOKEN_DELIMITER

/-- The token test of retFindTagToken (ret.c lines 331-348) as a pure
function of the two strings: the first strstr occurrence of `needle` must be
followed by the token delimiter or by the end of the string. -/
def findTagTokenB (hay needle : List Char) : Bool :=
  match strstrIdx hay needle with
  | none => false
  | some i => delimOrEndB hay needle i

/-- retFindTagToken (ret.c lines 331-348): on success `param->tag_found` is
incremented. -/
def retFindTagToken (tt : List Char) (s : St) : Bool × St :=
  if findTagTokenB s.tag_str tt then (true, { s with tag_found := s.tag_found + 1 })
  else (false, s)

/-- retAddTag (ret.c lines 356-376): move the cursor past the delimiter and
the tag; if it would not stay strictly inside the tag buffer, restore it and
report the tag error, leaving everything unchanged; otherwise append the
delimiter and the tag at the string's terminator and increment the nesting
level. -/
def retAddTag (tag : List Char) (s : St) : RetVal × St :=
  let new_ptr := s.tag_ptr + (tag.length + 1)
  if ¬ new_ptr < RET_MAX_TAG_STRING_SIZE then (RetVal.errTag, s)
  else
    (RetVal.pass,
      { s with
        tag_str := s.tag_str ++ RET_TOKEN_DELIMITER :: tag
        tag_ptr := new_ptr
        nest := s.nest + 1 })

/-- retRemoveTag (ret.c lines 384-393): restore the cursor from the
environment slot of the requested level, truncate the string there and set
the nesting level; defensive no-op when the level is out of range. -/
def retRemoveTag (nest_val : Nat) (s : St) : St :=
  if RET_MAX_NEST_SIZE ≤ nest_val then s
  else
    let p := s.env_tag.getD nest_val 0
    { s with tag_ptr := p, tag_str := s.tag_str.take p, nest := nest_val }

/-- Outcome of a piece of straight-line engine code: normal return, or a
pending longjmp to the setjmp environment of level `lvl` with value `v`. -/
inductive ExitOut where
  | ok (s : St)
  | jump (lvl : Nat) (v : Int) (s : St)
  deriving Repr, DecidableEq

/-- The diagnostic text built by retAssert (ret.c lines 416-433, the
RET_NO_PRINTF branch, which is the one compiled: ret.h line 77 defines
RET_NO_PRINTF). -/
def assertText (line : Int) (file : List Char) (rv : Int) : List Char :=
  "Assert at line ".toList ++ retConvIntToDecAscii line ++ " of ".toList ++
    file ++ " == ".toList ++ retConvIntToDecAscii rv

/-- retAssert (ret.c lines 410-437): immediate return on a true condition;
otherwise append the diagnostic info line and longjmp -1 to the environment
of the current nesting level (ret_env[ret.nest - 1]). -/
def retAssert (cond : Bool) (line : Int) (file : List Char) (s : St) : ExitOut :=
  if cond then ExitOut.ok s
  else
    let s := retInfoLineFmt (assertText line file s.p_retval) s
    ExitOut.jump (s.nest - 1) (-1) s

/-- Run the statements of a leaf body in order; a failing assert aborts the
rest via its longjmp. -/
def runActs : List LAct → St → ExitOut
  | [], s => ExitOut.ok s
  | a :: rest, s =>
    match a with
    | .mark k => runActs rest { s with marks := s.marks ++ [k] }
    | .setRetval v => runActs rest { s with p_retval := v }
    | .assertAct c l f =>
      match retAssert c l f s with
      | .ok s1 => runActs rest s1
      | .jump lvl v s1 => ExitOut.jump lvl v s1

/-- Outcome of a node or list execution: a returned ret_val_t, a pending
longjmp, or fuel exhaustion (which in the C original is divergence). -/
inductive Out where
  | ok (r : RetVal) (s : St)
  | jump (lvl : Nat) (v : Int) (s : St)
  | spin
  deriving Repr, DecidableEq

/-- A leaf test function: the RET_MODE_SEARCH macro guard (ret.h lines
114-119) returns RET_PASS at once in search or skip mode; otherwise the body
runs (ghost-recorded in `invoked`) and returns the leaf's result. -/
def runLeafBody (tag : List Char) (acts : List LAct) (ret : RetVal) (s : St) : Out :=
  if s.mode = RMode.search ∨ s.mode = RMode.skip then Out.ok RetVal.pass s
  else
    let s := { s with invoked := s.invoked ++ [tag] }
    match runActs acts s with
    | .ok s1 => Out.ok ret s1
    | .jump lvl v s1 => Out.jump lvl v s1

/-- The value setjmp observes for a longjmp with value `v`: a zero value
arrives as 1 (ret.c lines 292-294). -/
def setjmpConv (v : Int) : Int := if v = 0 then 1 else v

/-- How the retExecuteList switch (ret.c lines 178-187) converts an observed
longjmp value into the node's result: -1 (from retAssert) is a failure,
every other value is a pass. -/
def longjmpRetval (v : Int) : RetVal :=
  if setjmpConv v = -1 then RetVal.fail else RetVal.pass

/-- The reporting part of retExit (ret.c lines 271-283): if the target token
is in the path, emit a T result line with the elapsed time (outside search
mode) or an S line carrying the full tag path (search mode). -/
def retExitReport (retval : RetVal) (found : Bool) (s : St) : St :=
  if found then
    if s.mode ≠ RMode.search then
      retTestLineFormat retval (s.clock - s.env_timer.getD (s.nest - 1) 0)
        { s with clock := s.clock + 1 }
    else retSearchLine s.tag_str s
  else s

/-- The longjmp value passed by retExit (ret.c line 295): the node's own
result value. -/
def retvalToInt : RetVal → Int
  | .pass => 0
  | .fail => 1
  | .errTimeout => 2
  | .errTag => 3

/-- The tail of retExit (ret.c lines 285-317): longjmp the node's result to
level 0 if the whole path equals the target; otherwise restore the path for
this level, and at level 0 emit the terminal report (path-not-found info
line when nothing matched and the target is not the root tag, else linefeed,
DONE and buffer transmission). -/
def retExitFinish (tt : List Char) (retval : RetVal) (s : St) : ExitOut :=
  if s.tag_str = tt then
    ExitOut.jump 0 (retvalToInt retval) (retRemoveTag 0 s)
  else
    let s := if s.nest ≠ 0 then retRemoveTag (s.nest - 1) s else s
    if s.nest = 0 then
      ExitOut.ok
        (if s.tag_found = 0 ∧ tt ≠ RET_ROOT_TAG then retInfoLine RET_PATH_ERR_MSG true s
         else retSendBuffer (retPutString RET_TEST_DONE_MSG (retPutLineFeed s)))
    else ExitOut.ok s

/-- retExit (ret.c lines 260-318).  A tag error only formats a T line and
returns without touching the path.  Otherwise: search for the target token
(incrementing tag_found on success), report, and finish. -/
def retExit (tt : List Char) (retval : RetVal) (s : St) : ExitOut :=
  if retval = RetVal.errTag then ExitOut.ok (retTestLineFormat retval 0 s)
  else
    retExitFinish tt retval
      (retExitReport retval (retFindTagToken tt s).1 (retFindTagToken tt s).2)

/-- One of the mutually recursive activations of the walker:
`enter node s` is retEnter (ret.c lines 216-246);
`list nodes s` is retExecuteList (ret.c lines 151-197);
`loop n nodes err s` is its for-loop with frame level `n` and accumulated
error flag `err`; `handle n rest err retval s` is the tail of a loop
iteration after the node's result `retval` is known (error flag update and
retExit, catching a longjmp back to this frame's setjmp). -/
inductive Call where
  | enter (node : Node) (s : St)
  | list (nodes : List Node) (s : St)
  | loop (n : Nat) (nodes : List Node) (err : RetVal) (s : St)
  | handle (n : Nat) (rest : List Node) (err : RetVal) (retval : RetVal) (s : St)

/-- The mode bookkeeping of retEnter after a successful tag append (ret.c
lines 225-242): outside search mode, test for the target token; if absent,
downgrade Execute to Skip; if present, upgrade Skip back to Execute and
record the start time for the current nesting level. -/
def retEnterMode (tt : List Char) (s : St) : St :=
  if s.mode ≠ RMode.search then
    let fs := retFindTagToken tt s
    let s := fs.2
    if ¬ fs.1 then
      if s.mode = RMode.exe then { s with mode := RMode.skip } else s
    else
      let s := if s.mode = RMode.skip then { s with mode := RMode.exe } else s
      { s with env_timer := s.env_timer.set (s.nest - 1) s.clock, clock := s.clock + 1 }
  else s

/-- One layer of the walker: `recur` is the next-lower fuel stage.
Case `.enter` is retEnter (ret.c lines 216-246), `.list` is the frame set-up
of retExecuteList (lines 151-171 and the final pause restore), `.loop` is its
for-loop with the setjmp catch (lines 173-188), and `.handle` is the tail of
one iteration: error-flag update and retExit, with a catch for a longjmp back
to this frame's setjmp (lines 189-192). -/
def stepBody (recur : Call → Out) (tt : List Char) : Call → Out
  | .enter node s =>
    match retAddTag (nodeTag node) s with
    | (RetVal.errTag, s1) => Out.ok RetVal.errTag (retInfoLineFmt RET_TAG_ERR_MSG s1)
    | (_, s1) =>
      let s2 := retEnterMode tt { s1 with entered := s1.entered ++ [nodeTag node] }
      match node with
      | .leaf tag acts ret => runLeafBody tag acts ret s2
      | .branch _ children => recur (.list children s2)
  | .list nodes s =>
    if RET_MAX_NEST_SIZE ≤ s.nest then Out.ok RetVal.fail (retInfoLineFmt RET_LAYER_ERR_MSG s)
    else
      match recur (.loop s.nest nodes RetVal.pass
          { s with env_tag := s.env_tag.set s.nest s.tag_ptr }) with
      | Out.ok r s1 => Out.ok r { s1 with is_pause := s.is_pause }
      | Out.jump lvl v s1 => Out.jump lvl v s1
      | Out.spin => Out.spin
  | .loop _ [] err s => Out.ok err s
  | .loop n (node :: rest) err s =>
    match recur (.enter node s) with
    | Out.ok retval s1 => recur (.handle n rest err retval s1)
    | Out.jump lvl v s1 =>
      if lvl = n then recur (.handle n rest err (longjmpRetval v) s1) else Out.jump lvl v s1
    | Out.spin => Out.spin
  | .handle n rest err retval s =>
    let err1 := if retval ≠ RetVal.pass then RetVal.fail else err
    match retExit tt retval { s with frame_log := s.frame_log ++ [(n, retval)] } with
    | .ok s2 => recur (.loop n rest err1 s2)
    | .jump lvl v s2 =>
      if lvl = n then recur (.handle n rest err1 (longjmpRetval v) s2) else Out.jump lvl v s2

/-- The walker, fueled for totality (the C original can in fact loop forever
when the target tag is the empty string).  `tt` is `param->test_tag`. -/
def step (tt : List Char) : Nat → Call → Out
  | 0, _ => Out.spin
  | fuel+1, c => stepBody (step tt fuel) tt c

theorem step_succ (tt : List Char) (fuel : Nat) (c : Call) :
    step tt (fuel + 1) c = stepBody (step tt fuel) tt c := rfl

/-- retExecuteList as an entry point. -/
def retExecuteList (tt : List Char) (fuel : Nat) (nodes : List Node) (s : St) : Out :=
  step tt fuel (.list nodes s)

/-- retEnter as an entry point. -/
def retEnter (tt : List Char) (fuel : Nat) (node : Node) (s : St) : Out :=
  step tt fuel (.enter node s)

/-- The initial state built by retStart (ret.c lines 130-141); the env arrays
are static and therefore zero initialised. -/
def initialSt (mode : RMode) : St where
  next_line_number := 0
  tag_str := []
  tag_ptr := 0
  nest := 0
  env_tag := [0, 0, 0, 0, 0, 0]
  env_timer := [0, 0, 0, 0, 0, 0]
  next_in := 0
  buf_rev := []
  is_pause := true
  sent_rev := []
  clock := 0
  mode := mode
  tag_found := 0
  p_retval := 0
  invoked := []
  entered := []
  marks := []
  frame_log := []
  ilines := 0
  tlines := 0
  slines := 0
  dropped := 0
  oob := false

/-- retStart (ret.c lines 130-142): initialise everything and execute the
root list, whose single node carries RET_ROOT_TAG and whose function
(RunTrunk) executes the user's top-level list — i.e. a branch node with tag
ROOT over the user's trees. -/
def retStart (tt : List Char) (mode : RMode) (children : List Node) (fuel : Nat) : Out :=
  step tt fuel (.list [Node.branch RET_ROOT_TAG children] (initialSt mode))

/-- Extract the state of an ok outcome (initialSt .exe when not ok). -/
def stOf : Out → St
  | Out.ok _ s => s
  | Out.jump _ _ s => s
  | Out.spin => initialSt RMode.exe

/-- Extract the result of an ok outcome. -/
def rvOf : Out → RetVal
  | Out.ok r _ => r
  | _ => RetVal.errTimeout

/-! ### State-preservation toolkit

The output routines only touch the report buffer, the transmission log, the
line counters and the sequence number; every other component of the engine
state passes through unchanged.  `outputOnly s s'` collects the preserved
fields. -/

def outputOnly (s s' : St) : Prop :=
  s'.tag_str = s.tag_str ∧ s'.tag_ptr = s.tag_ptr ∧ s'.nest = s.nest ∧
  s'.env_tag = s.env_tag ∧ s'.env_timer = s.env_timer ∧ s'.clock = s.clock ∧
  s'.mode = s.mode ∧ s'.tag_found = s.tag_found ∧ s'.p_retval = s.p_retval ∧
  s'.invoked = s.invoked ∧ s'.entered = s.entered ∧ s'.marks = s.marks ∧
  s'.frame_log = s.frame_log ∧ s'.is_pause = s.is_pause ∧
  s'.ilines = s.ilines ∧ s'.tlines = s.tlines ∧ s'.slines = s.slines

theorem outputOnly_refl (s : St) : outputOnly s s := by
  unfold outputOnly
  refine ⟨rfl, rfl, rfl, rfl, rfl, rfl, rfl, rfl, rfl, rfl, rfl, rfl, rfl, rfl, rfl, rfl, rfl⟩

theorem outputOnly_trans {a b c : St} (h1 : outputOnly a b) (h2 : outputOnly b c) :
    outputOnly a c := by
  unfold outputOnly at *
  obtain ⟨e1, e2, e3, e4, e5, e6, e7, e8, e9, e10, e11, e12, e13, e14, e15, e16, e17⟩ := h1
  obtain ⟨f1, f2, f3, f4, f5, f6, f7, f8, f9, f10, f11, f12, f13, f14, f15, f16, f17⟩ := h2
  exact ⟨f1.trans e1, f2.trans e2, f3.trans e3, f4.trans e4, f5.trans e5, f6.trans e6,
    f7.trans e7, f8.trans e8, f9.trans e9, f10.trans e10, f11.trans e11, f12.trans e12,
    f13.trans e13, f14.trans e14, f15.trans e15, f16.trans e16, f17.trans e17⟩

theorem retSendBuffer_outputOnly (s : St) : outputOnly s (retSendBuffer s) := by
  unfold retSendBuffer outputOnly
  split <;> simp

theorem retPutChar_outputOnly (c : Char) (s : St) : outputOnly s (retPutChar c s) := by
  unfold retPutChar
  split
  · split
    · exact outputOnly_trans (by unfold outputOnly; simp) (retSendBuffer_outputOnly _)
    · unfold outputOnly
      simp
  · unfold outputOnly
    simp

theorem retPutString_outputOnly (str : List Char) (s : St) :
    outputOnly s (retPutString str s) := by
  induction str generalizing s with
  | nil => exact outputOnly_refl s
  | cons c t ih =>
    have h1 := retPutChar_outputOnly c s
    have h2 := ih (retPutChar c s)
    simpa [retPutString] using outputOnly_trans h1 h2

theorem retPutLineFeed_outputOnly (s : St) : outputOnly s (retPutLineFeed s) :=
  retPutChar_outputOnly _ s

theorem retPutCommaSeparator_outputOnly (s : St) : outputOnly s (retPutCommaSeparator s) :=
  retPutChar_outputOnly _ s

theorem retDecimalDigits_outputOnly (v w : Nat) (s : St) :
    outputOnly s (retDecimalDigits v w s) := by
  unfold retDecimalDigits
  split
  · exact retPutString_outputOnly _ s
  · exact outputOnly_refl s

theorem outputOnly_set_nln (s : St) (k : Nat) :
    outputOnly s { s with next_line_number := k } := by
  unfold outputOnly
  simp

theorem outputOnly_pause_wrap (p : Bool) {s x : St}
    (h : outputOnly { s with is_pause := p } x) :
    outputOnly s { x with is_pause := s.is_pause } := by
  unfold outputOnly at h ⊢
  obtain ⟨e1, e2, e3, e4, e5, e6, e7, e8, e9, e10, e11, e12, e13, e14, e15, e16, e17⟩ := h
  exact ⟨e1, e2, e3, e4, e5, e6, e7, e8, e9, e10, e11, e12, e13, rfl, e15, e16, e17⟩

theorem outputOnly_putChar_right {a b : St} (c : Char) (h : outputOnly a b) :
    outputOnly a (retPutChar c b) := outputOnly_trans h (retPutChar_outputOnly c b)

theorem outputOnly_putString_right {a b : St} (str : List Char) (h : outputOnly a b) :
    outputOnly a (retPutString str b) := outputOnly_trans h (retPutString_outputOnly str b)

theorem outputOnly_comma_right {a b : St} (h : outputOnly a b) :
    outputOnly a (retPutCommaSeparator b) := outputOnly_trans h (retPutCommaSeparator_outputOnly b)

theorem outputOnly_lf_right {a b : St} (h : outputOnly a b) :
    outputOnly a (retPutLineFeed b) := outputOnly_trans h (retPutLineFeed_outputOnly b)

theorem outputOnly_decDigits_right {a b : St} (v w : Nat) (h : outputOnly a b) :
    outputOnly a (retDecimalDigits v w b) := outputOnly_trans h (retDecimalDigits_outputOnly v w b)

theorem outputOnly_set_nln_right {a b : St} (k : Nat) (h : outputOnly a b) :
    outputOnly a { b with next_line_number := k } := outputOnly_trans h (outputOnly_set_nln b k)

theorem retFormatLine_outputOnly (t : Char) (str : List Char) (p : Bool) (s : St) :
    outputOnly s (retFormatLine t str p s) := by
  simp only [retFormatLine]
  refine outputOnly_pause_wrap p ?_
  apply outputOnly_lf_right
  apply outputOnly_putString_right
  apply outputOnly_comma_right
  apply outputOnly_putString_right
  apply outputOnly_comma_right
  apply outputOnly_putString_right
  apply outputOnly_comma_right
  apply outputOnly_decDigits_right
  apply outputOnly_set_nln_right
  apply outputOnly_comma_right
  exact retPutChar_outputOnly t _

/-- The fields preserved by every line emitter (the counters ilines, tlines,
slines are excluded, since the emitters bump them). -/
def lineOnly (s s' : St) : Prop :=
  s'.tag_str = s.tag_str ∧ s'.tag_ptr = s.tag_ptr ∧ s'.nest = s.nest ∧
  s'.env_tag = s.env_tag ∧ s'.env_timer = s.env_timer ∧ s'.clock = s.clock ∧
  s'.mode = s.mode ∧ s'.tag_found = s.tag_found ∧ s'.p_retval = s.p_retval ∧
  s'.invoked = s.invoked ∧ s'.entered = s.entered ∧ s'.marks = s.marks ∧
  s'.frame_log = s.frame_log ∧ s'.is_pause = s.is_pause

theorem outputOnly_lineOnly {s s' : St} (h : outputOnly s s') : lineOnly s s' := by
  unfold outputOnly at h
  obtain ⟨e1, e2, e3, e4, e5, e6, e7, e8, e9, e10, e11, e12, e13, e14, _, _, _⟩ := h
  exact ⟨e1, e2, e3, e4, e5, e6, e7, e8, e9, e10, e11, e12, e13, e14⟩

theorem lineOnly_trans {a b c : St} (h1 : lineOnly a b) (h2 : lineOnly b c) :
    lineOnly a c := by
  unfold lineOnly at *
  obtain ⟨e1, e2, e3, e4, e5, e6, e7, e8, e9, e10, e11, e12, e13, e14⟩ := h1
  obtain ⟨f1, f2, f3, f4, f5, f6, f7, f8, f9, f10, f11, f12, f13, f14⟩ := h2
  exact ⟨f1.trans e1, f2.trans e2, f3.trans e3, f4.trans e4, f5.trans e5, f6.trans e6,
    f7.trans e7, f8.trans e8, f9.trans e9, f10.trans e10, f11.trans e11, f12.trans e12,
    f13.trans e13, f14.trans e14⟩

theorem retInfoLine_lineOnly (str : List Char) (p : Bool) (s : St) :
    lineOnly s (retInfoLine str p s) := by
  unfold retInfoLine
  have h := outputOnly_lineOnly
    (retFormatLine_outputOnly 'I' str p { s with ilines := s.ilines + 1 })
  unfold lineOnly at h ⊢
  exact h

theorem retInfoLine_ilines (str : List Char) (p : Bool) (s : St) :
    (retInfoLine str p s).ilines = s.ilines + 1 := by
  unfold retInfoLine
  have h := retFormatLine_outputOnly 'I' str p { s with ilines := s.ilines + 1 }
  unfold outputOnly at h
  exact h.2.2.2.2.2.2.2.2.2.2.2.2.2.2.1

theorem retInfoLine_tlines (str : List Char) (p : Bool) (s : St) :
    (retInfoLine str p s).tlines = s.tlines := by
  unfold retInfoLine
  have h := retFormatLine_outputOnly 'I' str p { s with ilines := s.ilines + 1 }
  unfold outputOnly at h
  exact h.2.2.2.2.2.2.2.2.2.2.2.2.2.2.2.1

theorem retInfoLine_slines (str : List Char) (p : Bool) (s : St) :
    (retInfoLine str p s).slines = s.slines := by
  unfold retInfoLine
  have h := retFormatLine_outputOnly 'I' str p { s with ilines := s.ilines + 1 }
  unfold outputOnly at h
  exact h.2.2.2.2.2.2.2.2.2.2.2.2.2.2.2.2

theorem retInfoLineFmt_lineOnly (str : List Char) (s : St) :
    lineOnly s (retInfoLineFmt str s) := retInfoLine_lineOnly str false s

theorem retInfoLineFmt_ilines (str : List Char) (s : St) :
    (retInfoLineFmt str s).ilines = s.ilines + 1 := retInfoLine_ilines str false s

theorem retInfoLineFmt_tlines (str : List Char) (s : St) :
    (retInfoLineFmt str s).tlines = s.tlines := retInfoLine_tlines str false s

theorem retSearchLine_lineOnly (str : List Char) (s : St) :
    lineOnly s (retSearchLine str s) := by
  unfold retSearchLine
  have h := outputOnly_lineOnly
    (retFormatLine_outputOnly 'S' str false { s with slines := s.slines + 1 })
  unfold lineOnly at h ⊢
  exact h

theorem retSearchLine_slines (str : List Char) (s : St) :
    (retSearchLine str s).slines = s.slines + 1 := by
  unfold retSearchLine
  have h := retFormatLine_outputOnly 'S' str false { s with slines := s.slines + 1 }
  unfold outputOnly at h
  exact h.2.2.2.2.2.2.2.2.2.2.2.2.2.2.2.2

theorem retSearchLine_tlines (str : List Char) (s : St) :
    (retSearchLine str s).tlines = s.tlines := by
  unfold retSearchLine
  have h := retFormatLine_outputOnly 'S' str false { s with slines := s.slines + 1 }
  unfold outputOnly at h
  exact h.2.2.2.2.2.2.2.2.2.2.2.2.2.2.2.1

theorem retSearchLine_ilines (str : List Char) (s : St) :
    (retSearchLine str s).ilines = s.ilines := by
  unfold retSearchLine
  have h := retFormatLine_outputOnly 'S' str false { s with slines := s.slines + 1 }
  unfold outputOnly at h
  exact h.2.2.2.2.2.2.2.2.2.2.2.2.2.2.1

theorem retTestLineFormat_outputOnly_aux (rv : RetVal) (e : Nat) (s : St) :
    outputOnly { s with tlines := s.tlines + 1 } (retTestLineFormat rv e s) := by
  simp only [retTestLineFormat]
  apply outputOnly_lf_right
  apply outputOnly_putString_right
  apply outputOnly_comma_right
  apply outputOnly_decDigits_right
  apply outputOnly_comma_right
  apply outputOnly_putString_right
  apply outputOnly_comma_right
  apply outputOnly_decDigits_right
  apply outputOnly_set_nln_right
  apply outputOnly_comma_right
  exact retPutChar_outputOnly 'T' _

theorem retTestLineFormat_lineOnly (rv : RetVal) (e : Nat) (s : St) :
    lineOnly s (retTestLineFormat rv e s) := by
  have h0 : lineOnly s { s with tlines := s.tlines + 1 } := by
    unfold lineOnly
    simp
  exact lineOnly_trans h0 (outputOnly_lineOnly (retTestLineFormat_outputOnly_aux rv e s))

theorem retTestLineFormat_tlines (rv : RetVal) (e : Nat) (s : St) :
    (retTestLineFormat rv e s).tlines = s.tlines + 1 := by
  have h := retTestLineFormat_outputOnly_aux rv e s
  unfold outputOnly at h
  exact h.2.2.2.2.2.2.2.2.2.2.2.2.2.2.2.1

theorem retTestLineFormat_ilines (rv : RetVal) (e : Nat) (s : St) :
    (retTestLineFormat rv e s).ilines = s.ilines := by
  have h := retTestLineFormat_outputOnly_aux rv e s
  unfold outputOnly at h
  exact h.2.2.2.2.2.2.2.2.2.2.2.2.2.2.1

theorem retTestLineFormat_slines (rv : RetVal) (e : Nat) (s : St) :
    (retTestLineFormat rv e s).slines = s.slines := by
  have h := retTestLineFormat_outputOnly_aux rv e s
  unfold outputOnly at h
  exact h.2.2.2.2.2.2.2.2.2.2.2.2.2.2.2.2

/-! ### Claim C1: exact-token matching -/

/-- The claim's notion of exact-token occurrence, written from the spec's
words: `needle` occurs somewhere in `hay` and that occurrence is followed by
the delimiter or by the end of the string. -/
def specExactTokenMatch (hay needle : List Char) : Prop :=
  ∃ i, needle.isPrefixOf (hay.drop i) = true ∧ delimOrEndB hay needle i = true

theorem strstrIdx_eq_some_iff (needle : List Char) :
    ∀ (hay : List Char) (i : Nat),
      strstrIdx hay needle = some i ↔
        (needle.isPrefixOf (hay.drop i) = true ∧
          ∀ j, j < i → needle.isPrefixOf (hay.drop j) = false) := by
  intro hay
  induction hay with
  | nil =>
    intro i
    simp only [strstrIdx, List.drop_nil]
    by_cases hp : needle.isPrefixOf ([] : List Char) = true
    · rw [if_pos hp]
      constructor
      · intro h
        injection h with h
        subst h
        exact ⟨hp, fun j hj => absurd hj (Nat.not_lt_zero j)⟩
      · rintro ⟨h1, h2⟩
        cases i with
        | zero => rfl
        | succ n =>
          exfalso
          have hb := h2 0 (Nat.succ_pos n)
          rw [hp] at hb
          exact Bool.noConfusion hb
    · rw [if_neg hp]
      constructor
      · intro h
        exact Option.noConfusion h
      · rintro ⟨h1, h2⟩
        exact absurd h1 hp
  | cons c t ih =>
    intro i
    by_cases hp : needle.isPrefixOf (c :: t) = true
    · have hstep : strstrIdx (c :: t) needle = some 0 := by
        simp only [strstrIdx]
        rw [if_pos hp]
      rw [hstep]
      constructor
      · intro h
        injection h with h
        subst h
        exact ⟨by simpa using hp, fun j hj => absurd hj (Nat.not_lt_zero j)⟩
      · rintro ⟨h1, h2⟩
        cases i with
        | zero => rfl
        | succ n =>
          exfalso
          have hb := h2 0 (Nat.succ_pos n)
          simp only [List.drop_zero] at hb
          rw [hp] at hb
          exact Bool.noConfusion hb
    · have hstep : strstrIdx (c :: t) needle = (strstrIdx t needle).map (· + 1) := by
        simp only [strstrIdx]
        rw [if_neg hp]
      rw [hstep]
      cases i with
      | zero =>
        constructor
        · intro h
          rcases hmap : strstrIdx t needle with _ | k
          · rw [hmap] at h
            exact Option.noConfusion h
          · rw [hmap] at h
            simp at h
        · rintro ⟨h1, h2⟩
          simp only [List.drop_zero] at h1
          exact absurd h1 hp
      | succ n =>
        have hmap_iff : ((strstrIdx t needle).map (· + 1) = some (n + 1)) ↔
            strstrIdx t needle = some n := by
          rcases hmm : strstrIdx t needle with _ | k <;> simp
        rw [hmap_iff, ih n]
        constructor
        · rintro ⟨h1, h2⟩
          refine ⟨by simpa [List.drop_succ_cons] using h1, ?_⟩
          intro j hj
          cases j with
          | zero =>
            simp only [List.drop_zero]
            exact Bool.eq_false_iff.mpr hp
          | succ m =>
            have hm : m < n := Nat.lt_of_succ_lt_succ hj
            simpa [List.drop_succ_cons] using h2 m hm
        · rintro ⟨h1, h2⟩
          refine ⟨by simpa [List.drop_succ_cons] using h1, ?_⟩
          intro j hj
          have hs := h2 (j + 1) (Nat.succ_lt_succ hj)
          simpa [List.drop_succ_cons] using hs

/-- C1 (amended): retFindTagToken's token test succeeds exactly when the
FIRST substring occurrence of the target in the tag path is followed by the
token delimiter or by the end of the string (a later exact-token occurrence
hidden behind an inexact first occurrence is not found); in particular a
sibling-leaf path built from Test12 still does not match target Test1, and a
path ending in the exact token Test1 does. -/
theorem C1_findTagToken_firstOccurrence :
    (∀ hay needle : List Char,
      findTagTokenB hay needle = true ↔
        ∃ i, (needle.isPrefixOf (hay.drop i) = true ∧
              ∀ j, j < i → needle.isPrefixOf (hay.drop j) = false) ∧
             delimOrEndB hay needle i = true) ∧
    findTagTokenB "@ROOT@Test12".toList "Test1".toList = false ∧
    findTagTokenB "@ROOT@Test1".toList "Test1".toList = true := by
  refine ⟨?_, by decide, by decide⟩
  intro hay needle
  unfold findTagTokenB
  rcases hidx : strstrIdx hay needle with _ | k
  · simp only []
    constructor
    · intro h
      exact Bool.noConfusion h
    · rintro ⟨i, hfirst, hdelim⟩
      have := (strstrIdx_eq_some_iff needle hay i).mpr hfirst
      rw [hidx] at this
      exact Option.noConfusion this
  · simp only []
    constructor
    · intro h
      exact ⟨k, (strstrIdx_eq_some_iff needle hay k).mp hidx, h⟩
    · rintro ⟨i, hfirst, hdelim⟩
      have := (strstrIdx_eq_some_iff needle hay i).mpr hfirst
      rw [hidx] at this
      injection this with this
      subst this
      exact hdelim

/-- C1 counterexample: in the reachable tag path `@ROOT@Test12@Test1` the
target `Test1` occurs as an exact token (at index 13, followed by the end of
the string), yet retFindTagToken's test returns false, because the first
strstr occurrence (inside `Test12`) is followed by `2`. -/
theorem C1_counterexample :
    specExactTokenMatch "@ROOT@Test12@Test1".toList "Test1".toList ∧
    findTagTokenB "@ROOT@Test12@Test1".toList "Test1".toList = false :=
  ⟨⟨13, by decide, by decide⟩, by decide⟩

/-! ### Claim C9: append/remove round trip -/

/-- C9: from any state whose environment slot for the current depth `d`
holds the current cursor (as the executor maintains on entering depth `d`),
a successful retAddTag followed by retRemoveTag back to depth `d` restores
the tag path content byte for byte, the cursor, and the depth. -/
theorem C9_addTag_removeTag_roundtrip (s : St) (tag : List Char) (d : Nat)
    (hd : s.nest = d) (hlt : d < RET_MAX_NEST_SIZE)
    (henv : s.env_tag.getD d 0 = s.tag_ptr)
    (hcur : s.tag_ptr = s.tag_str.length)
    (hfit : s.tag_ptr + (tag.length + 1) < RET_MAX_TAG_STRING_SIZE) :
    (retAddTag tag s).1 = RetVal.pass ∧
    (retRemoveTag d (retAddTag tag s).2).tag_str = s.tag_str ∧
    (retRemoveTag d (retAddTag tag s).2).tag_ptr = s.tag_ptr ∧
    (retRemoveTag d (retAddTag tag s).2).nest = d := by
  have hadd : retAddTag tag s =
      (RetVal.pass,
        { s with
          tag_str := s.tag_str ++ RET_TOKEN_DELIMITER :: tag
          tag_ptr := s.tag_ptr + (tag.length + 1)
          nest := s.nest + 1 }) := by
    unfold retAddTag
    rw [if_neg (fun h => h hfit)]
  rw [hadd]
  refine ⟨rfl, ?_, ?_, ?_⟩
  · unfold retRemoveTag
    rw [if_neg (Nat.not_le.mpr hlt)]
    simp only []
    rw [show ({ s with
          tag_str := s.tag_str ++ RET_TOKEN_DELIMITER :: tag
          tag_ptr := s.tag_ptr + (tag.length + 1)
          nest := s.nest + 1 } : St).env_tag.getD d 0 = s.tag_ptr from henv]
    rw [hcur]
    exact List.take_left s.tag_str (RET_TOKEN_DELIMITER :: tag)
  · unfold retRemoveTag
    rw [if_neg (Nat.not_le.mpr hlt)]
    exact henv
  · unfold retRemoveTag
    rw [if_neg (Nat.not_le.mpr hlt)]

/-- Witness for C9 at a concrete state and tag. -/
theorem C9_addTag_removeTag_roundtrip_witness :
    (retAddTag ['A'] (initialSt RMode.exe)).1 = RetVal.pass ∧
    (retRemoveTag 0 (retAddTag ['A'] (initialSt RMode.exe)).2).tag_str =
      (initialSt RMode.exe).tag_str ∧
    (retRemoveTag 0 (retAddTag ['A'] (initialSt RMode.exe)).2).tag_ptr =
      (initialSt RMode.exe).tag_ptr ∧
    (retRemoveTag 0 (retAddTag ['A'] (initialSt RMode.exe)).2).nest = 0 :=
  C9_addTag_removeTag_roundtrip (initialSt RMode.exe) ['A'] 0 rfl (by decide)
    (by decide) (by decide) (by decide)

/-! ### Claim C6: TagOverflow atomicity and sibling continuation -/

/-- Unfolding of one handle step for a tag-error result: the error flag
becomes failure, the result is recorded for this frame, retExit only formats
a T line, and the loop continues with the remaining nodes. -/
theorem handle_errTag (tt : List Char) (fuel n : Nat) (rest : List Node)
    (err : RetVal) (sI : St) :
    step tt (fuel + 1) (.handle n rest err RetVal.errTag sI) =
      step tt fuel (.loop n rest RetVal.fail
        (retTestLineFormat RetVal.errTag 0
          { sI with frame_log := sI.frame_log ++ [(n, RetVal.errTag)] })) := by
  rw [step_succ]
  simp only [stepBody]
  have hexit : retExit tt RetVal.errTag
      { sI with frame_log := sI.frame_log ++ [(n, RetVal.errTag)] } =
      ExitOut.ok (retTestLineFormat RetVal.errTag 0
        { sI with frame_log := sI.frame_log ++ [(n, RetVal.errTag)] }) := by
    unfold retExit
    rw [if_pos rfl]
  rw [hexit]
  have hne : (RetVal.errTag ≠ RetVal.pass) := by decide
  rw [if_pos hne]

/-- C6: (a) when appending a tag would make the path length reach or exceed
RET_MAX_TAG_STRING_SIZE, retAddTag returns the tag error and leaves the whole
state (path content, cursor, nesting depth) unchanged; (b) in the walker, the
offending node's function is never invoked (invoked and entered logs are
unchanged), one info line is emitted, the executor records the tag error for
the node, and the loop continues with the remaining siblings from a state
whose tag-path fields are untouched, so that a following sibling's tag is
appended to the uncorrupted path. -/
theorem C6_tagOverflow_atomic_and_continue :
    (∀ (s : St) (tag : List Char),
        RET_MAX_TAG_STRING_SIZE ≤ s.tag_ptr + (tag.length + 1) →
        retAddTag tag s = (RetVal.errTag, s)) ∧
    (∀ (tt : List Char) (fuel n : Nat) (rest : List Node) (err : RetVal) (s : St) (node : Node),
        RET_MAX_TAG_STRING_SIZE ≤ s.tag_ptr + ((nodeTag node).length + 1) →
        ∃ s1, step tt (fuel + 2) (.loop n (node :: rest) err s) =
                step tt fuel (.loop n rest RetVal.fail s1) ∧
          s1.tag_str = s.tag_str ∧ s1.tag_ptr = s.tag_ptr ∧ s1.nest = s.nest ∧
          s1.mode = s.mode ∧ s1.invoked = s.invoked ∧ s1.entered = s.entered ∧
          s1.ilines = s.ilines + 1 ∧
          s1.frame_log = s.frame_log ++ [(n, RetVal.errTag)] ∧
          ∀ tag2 : List Char, s.tag_ptr + (tag2.length + 1) < RET_MAX_TAG_STRING_SIZE →
            (retAddTag tag2 s1).1 = RetVal.pass ∧
            (retAddTag tag2 s1).2.tag_str = s.tag_str ++ RET_TOKEN_DELIMITER :: tag2) := by
  have haddfail : ∀ (s : St) (tag : List Char),
      RET_MAX_TAG_STRING_SIZE ≤ s.tag_ptr + (tag.length + 1) →
      retAddTag tag s = (RetVal.errTag, s) := by
    intro s tag h
    unfold retAddTag
    rw [if_pos (Nat.not_lt.mpr h)]
  refine ⟨haddfail, ?_⟩
  intro tt fuel n rest err s node hover
  have haddeq := haddfail s (nodeTag node) hover
  have henter : step tt (fuel + 1) (.enter node s) =
      Out.ok RetVal.errTag (retInfoLineFmt RET_TAG_ERR_MSG s) := by
    rw [step_succ]
    simp only [stepBody]
    rw [haddeq]
  have hloop1 : step tt (fuel + 2) (.loop n (node :: rest) err s) =
      step tt (fuel + 1) (.handle n rest err RetVal.errTag (retInfoLineFmt RET_TAG_ERR_MSG s)) := by
    rw [show fuel + 2 = fuel + 1 + 1 from rfl, step_succ]
    simp only [stepBody]
    rw [henter]
  obtain ⟨i1, i2, i3, i4, i5, i6, i7, i8, i9, i10, i11, i12, i13, i14⟩ :=
    retInfoLineFmt_lineOnly RET_TAG_ERR_MSG s
  have hIil := retInfoLineFmt_ilines RET_TAG_ERR_MSG s
  set sI := retInfoLineFmt RET_TAG_ERR_MSG s with hsIdef
  set sFL : St := { sI with frame_log := sI.frame_log ++ [(n, RetVal.errTag)] } with hsFLdef
  obtain ⟨t1, t2, t3, t4, t5, t6, t7, t8, t9, t10, t11, t12, t13, t14⟩ :=
    retTestLineFormat_lineOnly RetVal.errTag 0 sFL
  have hTil := retTestLineFormat_ilines RetVal.errTag 0 sFL
  set s1 := retTestLineFormat RetVal.errTag 0 sFL with hs1def
  have hstr : s1.tag_str = s.tag_str := by
    have e2 : sFL.tag_str = sI.tag_str := by rw [hsFLdef]
    exact t1.trans (e2.trans i1)
  have hptr : s1.tag_ptr = s.tag_ptr := by
    have e2 : sFL.tag_ptr = sI.tag_ptr := by rw [hsFLdef]
    exact t2.trans (e2.trans i2)
  have heq := hloop1.trans (handle_errTag tt fuel n rest err sI)
  rw [← hsFLdef, ← hs1def] at heq
  refine ⟨s1, heq, hstr, hptr, ?_, ?_, ?_, ?_, ?_, ?_, ?_⟩
  · have e2 : sFL.nest = sI.nest := by rw [hsFLdef]
    exact t3.trans (e2.trans i3)
  · have e2 : sFL.mode = sI.mode := by rw [hsFLdef]
    exact t7.trans (e2.trans i7)
  · have e2 : sFL.invoked = sI.invoked := by rw [hsFLdef]
    exact t10.trans (e2.trans i10)
  · have e2 : sFL.entered = sI.entered := by rw [hsFLdef]
    exact t11.trans (e2.trans i11)
  · have e2 : sFL.ilines = sI.ilines := by rw [hsFLdef]
    exact hTil.trans (e2.trans hIil)
  · have e2 : sFL.frame_log = sI.frame_log ++ [(n, RetVal.errTag)] := by rw [hsFLdef]
    have e3 : sI.frame_log ++ [(n, RetVal.errTag)] = s.frame_log ++ [(n, RetVal.errTag)] := by
      rw [i13]
    exact t13.trans (e2.trans e3)
  · intro tag2 hfit2
    constructor
    · unfold retAddTag
      rw [hptr]
      rw [if_neg (fun h => h hfit2)]
    · unfold retAddTag
      rw [hptr]
      rw [if_neg (fun h => h hfit2)]
      show s1.tag_str ++ RET_TOKEN_DELIMITER :: tag2 = s.tag_str ++ RET_TOKEN_DELIMITER :: tag2
      rw [hstr]

/-! ### Claim C7: assertion abort -/

theorem retFindTagToken_pos (tt : List Char) (s : St)
    (h : findTagTokenB s.tag_str tt = true) :
    retFindTagToken tt s = (true, { s with tag_found := s.tag_found + 1 }) := by
  unfold retFindTagToken
  rw [h, if_pos rfl]

theorem retFindTagToken_neg (tt : List Char) (s : St)
    (h : findTagTokenB s.tag_str tt = false) :
    retFindTagToken tt s = (false, s) := by
  unfold retFindTagToken
  rw [h, if_neg (by decide : ¬ (false : Bool) = true)]

/-- retEnterMode when the mode is Execute and the target token is present:
only tag_found, the start timer of the enclosing level and the clock move. -/
theorem retEnterMode_exe_found (tt : List Char) (s : St)
    (hmode : s.mode = RMode.exe) (hfound : findTagTokenB s.tag_str tt = true) :
    retEnterMode tt s =
      { s with
        tag_found := s.tag_found + 1
        env_timer := s.env_timer.set (s.nest - 1) s.clock
        clock := s.clock + 1 } := by
  unfold retEnterMode
  rw [retFindTagToken_pos tt s hfound]
  have hns : ¬ s.mode = RMode.search := by
    rw [hmode]
    decide
  rw [if_pos hns]
  have hnottrue : ¬ (true : Bool) = false := by decide
  rw [if_neg ?hc]
  case hc =>
    show ¬ ¬ (true : Bool) = true
    decide
  have hnskip : ¬ ({ s with tag_found := s.tag_found + 1 } : St).mode = RMode.skip := by
    show ¬ s.mode = RMode.skip
    rw [hmode]
    decide
  rw [if_neg hnskip]

/-- The leaf guard macro in Execute mode lets the body run, ghost-recording
the invocation. -/
theorem runLeafBody_exe (tag : List Char) (acts : List LAct) (ret : RetVal) (s : St)
    (hmode : s.mode = RMode.exe) :
    runLeafBody tag acts ret s =
      (match runActs acts { s with invoked := s.invoked ++ [tag] } with
       | .ok s1 => Out.ok ret s1
       | .jump lvl v s1 => Out.jump lvl v s1) := by
  unfold runLeafBody
  rw [if_neg ?hg]
  case hg =>
    rintro (h1 | h1) <;> rw [hmode] at h1 <;> exact RMode.noConfusion h1

/-- The leaf guard macro returns RET_PASS at once in Search or Skip mode,
without touching the state. -/
theorem runLeafBody_guard (tag : List Char) (acts : List LAct) (ret : RetVal) (s : St)
    (hmode : s.mode = RMode.search ∨ s.mode = RMode.skip) :
    runLeafBody tag acts ret s = Out.ok RetVal.pass s := by
  unfold runLeafBody
  rw [if_pos hmode]

/-- Whether a leaf statement can complete (its assert condition is true). -/
def actOk : LAct → Bool
  | .assertAct c _ _ => c
  | _ => true

/-- The ghost markers contributed by a list of leaf statements. -/
def marksOf (acts : List LAct) : List Nat :=
  acts.filterMap (fun a => match a with | .mark k => some k | _ => none)

/-- The state effect of running leaf statements none of which fails. -/
def applyActsNoFail : List LAct → St → St
  | [], s => s
  | .mark k :: r, s => applyActsNoFail r { s with marks := s.marks ++ [k] }
  | .setRetval v :: r, s => applyActsNoFail r { s with p_retval := v }
  | .assertAct _ _ _ :: r, s => applyActsNoFail r s

theorem applyActsNoFail_fields (pre : List LAct) :
    ∀ s : St, (applyActsNoFail pre s).tag_str = s.tag_str ∧
      (applyActsNoFail pre s).tag_ptr = s.tag_ptr ∧
      (applyActsNoFail pre s).nest = s.nest ∧
      (applyActsNoFail pre s).env_tag = s.env_tag ∧
      (applyActsNoFail pre s).env_timer = s.env_timer ∧
      (applyActsNoFail pre s).clock = s.clock ∧
      (applyActsNoFail pre s).mode = s.mode ∧
      (applyActsNoFail pre s).tag_found = s.tag_found ∧
      (applyActsNoFail pre s).invoked = s.invoked ∧
      (applyActsNoFail pre s).entered = s.entered ∧
      (applyActsNoFail pre s).frame_log = s.frame_log ∧
      (applyActsNoFail pre s).is_pause = s.is_pause ∧
      (applyActsNoFail pre s).ilines = s.ilines ∧
      (applyActsNoFail pre s).tlines = s.tlines ∧
      (applyActsNoFail pre s).slines = s.slines := by
  induction pre with
  | nil =>
    intro s
    exact ⟨rfl, rfl, rfl, rfl, rfl, rfl, rfl, rfl, rfl, rfl, rfl, rfl, rfl, rfl, rfl⟩
  | cons a r ih =>
    intro s
    cases a with
    | mark k => simpa [applyActsNoFail] using ih { s with marks := s.marks ++ [k] }
    | setRetval v => simpa [applyActsNoFail] using ih { s with p_retval := v }
    | assertAct c l f => simpa [applyActsNoFail] using ih s

theorem applyActsNoFail_marks (pre : List LAct) :
    ∀ s : St, (applyActsNoFail pre s).marks = s.marks ++ marksOf pre := by
  induction pre with
  | nil =>
    intro s
    simp [applyActsNoFail, marksOf]
  | cons a r ih =>
    intro s
    cases a with
    | mark k =>
      have h := ih { s with marks := s.marks ++ [k] }
      simp only [applyActsNoFail, marksOf, List.filterMap_cons] at h ⊢
      rw [h]
      simp [marksOf]
    | setRetval v =>
      have h := ih { s with p_retval := v }
      simp only [applyActsNoFail, marksOf, List.filterMap_cons] at h ⊢
      rw [h]
    | assertAct c l f =>
      have h := ih s
      simp only [applyActsNoFail, marksOf, List.filterMap_cons] at h ⊢
      rw [h]

/-- Running a prefix of statements none of which fails just folds their state
effects. -/
theorem runActs_pre (pre : List LAct) (hpre : ∀ a ∈ pre, actOk a = true) :
    ∀ (tail : List LAct) (s : St),
      runActs (pre ++ tail) s = runActs tail (applyActsNoFail pre s) := by
  induction pre with
  | nil =>
    intro tail s
    rfl
  | cons a r ih =>
    intro tail s
    have hr : ∀ x ∈ r, actOk x = true := fun x hx => hpre x (List.mem_cons_of_mem a hx)
    cases a with
    | mark k =>
      simp only [List.cons_append, runActs, applyActsNoFail]
      exact ih hr tail { s with marks := s.marks ++ [k] }
    | setRetval v =>
      simp only [List.cons_append, runActs, applyActsNoFail]
      exact ih hr tail { s with p_retval := v }
    | assertAct c l f =>
      have hc : c = true := hpre (LAct.assertAct c l f) (List.mem_cons_self _ _)
      subst hc
      simp only [List.cons_append, runActs, retAssert, if_pos rfl, applyActsNoFail]
      exact ih hr tail s

/-- A failing assert aborts the leaf body: the statements after it do not
run, the diagnostic info line carries the call site and the last recorded
result code, and control transfers to the current nesting level's slot with
the distinguished failure value -1. -/
theorem runActs_assertFail (pre post : List LAct) (l : Int) (f : List Char)
    (hpre : ∀ a ∈ pre, actOk a = true) (s : St) :
    runActs (pre ++ LAct.assertAct false l f :: post) s =
      ExitOut.jump ((applyActsNoFail pre s).nest - 1) (-1)
        (retInfoLineFmt (assertText l f (applyActsNoFail pre s).p_retval)
          (applyActsNoFail pre s)) := by
  rw [runActs_pre pre hpre]
  simp only [runActs, retAssert]
  rw [if_neg (by decide : ¬ (false : Bool) = true)]
  show ExitOut.jump
      ((retInfoLineFmt (assertText l f (applyActsNoFail pre s).p_retval)
          (applyActsNoFail pre s)).nest - 1) (-1)
      (retInfoLineFmt (assertText l f (applyActsNoFail pre s).p_retval)
        (applyActsNoFail pre s)) = _
  obtain ⟨_, _, hnest, _⟩ :=
    retInfoLineFmt_lineOnly (assertText l f (applyActsNoFail pre s).p_retval)
      (applyActsNoFail pre s)
  rw [hnest]

theorem retRemoveTag_eq (k : Nat) (s : St) (h : k < RET_MAX_NEST_SIZE) :
    retRemoveTag k s =
      { s with
        tag_ptr := s.env_tag.getD k 0
        tag_str := s.tag_str.take (s.env_tag.getD k 0)
        nest := k } := by
  unfold retRemoveTag
  rw [if_neg (Nat.not_le.mpr h)]

/-- retExitFinish at an inner frame: the whole path differs from the target,
and the restored depth is non-zero, so only the removeTag happens. -/
theorem retExitFinish_inner (tt : List Char) (retval : RetVal) (s : St)
    (hneq : ¬ s.tag_str = tt) (hnest2 : 2 ≤ s.nest)
    (hnest6 : s.nest - 1 < RET_MAX_NEST_SIZE) :
    retExitFinish tt retval s = ExitOut.ok (retRemoveTag (s.nest - 1) s) := by
  simp only [retExitFinish]
  rw [if_neg hneq]
  rw [if_pos (by omega : ¬ s.nest = 0)]
  rw [retRemoveTag_eq _ _ hnest6]
  rw [if_neg ?hz]
  case hz =>
    show ¬ (s.nest - 1 = 0)
    omega

/-- retExit at an inner frame in Execute mode with the target token present:
tag_found is bumped, one T line with the node's result and elapsed time is
emitted, and the path is restored for this level. -/
theorem retExit_exe_inner (tt : List Char) (retval : RetVal) (s : St)
    (hnerr : ¬ retval = RetVal.errTag)
    (hfound : findTagTokenB s.tag_str tt = true)
    (hmode : s.mode = RMode.exe)
    (hneq : ¬ s.tag_str = tt)
    (hnest2 : 2 ≤ s.nest) (hnest6 : s.nest - 1 < RET_MAX_NEST_SIZE) :
    ∃ s2, retExit tt retval s = ExitOut.ok s2 ∧
      s2.nest = s.nest - 1 ∧
      s2.tag_ptr = s.env_tag.getD (s.nest - 1) 0 ∧
      s2.tag_str = s.tag_str.take (s.env_tag.getD (s.nest - 1) 0) ∧
      s2.env_tag = s.env_tag ∧ s2.mode = s.mode ∧ s2.invoked = s.invoked ∧
      s2.entered = s.entered ∧ s2.marks = s.marks ∧ s2.frame_log = s.frame_log ∧
      s2.is_pause = s.is_pause ∧ s2.tag_found = s.tag_found + 1 ∧
      s2.ilines = s.ilines ∧ s2.tlines = s.tlines + 1 ∧ s2.slines = s.slines ∧
      s2.p_retval = s.p_retval := by
  have hft := retFindTagToken_pos tt s hfound
  have hrep : retExitReport retval (retFindTagToken tt s).1 (retFindTagToken tt s).2 =
      retTestLineFormat retval (s.clock - s.env_timer.getD (s.nest - 1) 0)
        { s with tag_found := s.tag_found + 1, clock := s.clock + 1 } := by
    rw [hft]
    show retExitReport retval true { s with tag_found := s.tag_found + 1 } = _
    unfold retExitReport
    rw [if_pos rfl]
    rw [if_pos ?hm]
    case hm =>
      show ¬ s.mode = RMode.search
      rw [hmode]
      decide
  obtain ⟨t1, t2, t3, t4, t5, t6, t7, t8, t9, t10, t11, t12, t13, t14⟩ :=
    retTestLineFormat_lineOnly retval (s.clock - s.env_timer.getD (s.nest - 1) 0)
      { s with tag_found := s.tag_found + 1, clock := s.clock + 1 }
  have hTt := retTestLineFormat_tlines retval (s.clock - s.env_timer.getD (s.nest - 1) 0)
      { s with tag_found := s.tag_found + 1, clock := s.clock + 1 }
  have hTi := retTestLineFormat_ilines retval (s.clock - s.env_timer.getD (s.nest - 1) 0)
      { s with tag_found := s.tag_found + 1, clock := s.clock + 1 }
  have hTs := retTestLineFormat_slines retval (s.clock - s.env_timer.getD (s.nest - 1) 0)
      { s with tag_found := s.tag_found + 1, clock := s.clock + 1 }
  set sT := retTestLineFormat retval (s.clock - s.env_timer.getD (s.nest - 1) 0)
      { s with tag_found := s.tag_found + 1, clock := s.clock + 1 } with hsT
  clear_value sT
  have hTstr : sT.tag_str = s.tag_str := t1
  have hTnest : sT.nest = s.nest := t3
  have hTenv : sT.env_tag = s.env_tag := t4
  have hfin := retExitFinish_inner tt retval sT
    (by rw [hTstr]; exact hneq) (by rw [hTnest]; exact hnest2) (by rw [hTnest]; exact hnest6)
  have hrm := retRemoveTag_eq (sT.nest - 1) sT (by rw [hTnest]; exact hnest6)
  refine ⟨retRemoveTag (sT.nest - 1) sT, ?_, ?_, ?_, ?_, ?_, ?_, ?_, ?_, ?_, ?_, ?_, ?_, ?_, ?_, ?_, ?_⟩
  · unfold retExit
    rw [if_neg hnerr, hrep, hfin]
  · rw [hrm]
    show sT.nest - 1 = s.nest - 1
    rw [hTnest]
  · rw [hrm]
    show sT.env_tag.getD (sT.nest - 1) 0 = s.env_tag.getD (s.nest - 1) 0
    rw [hTnest, hTenv]
  · rw [hrm]
    show sT.tag_str.take (sT.env_tag.getD (sT.nest - 1) 0) =
      s.tag_str.take (s.env_tag.getD (s.nest - 1) 0)
    rw [hTnest, hTenv, hTstr]
  · rw [hrm]
    exact hTenv
  · rw [hrm]
    exact t7
  · rw [hrm]
    exact t10
  · rw [hrm]
    exact t11
  · rw [hrm]
    exact t12
  · rw [hrm]
    exact t13
  · rw [hrm]
    exact t14
  · rw [hrm]
    exact t8
  · rw [hrm]
    exact hTi
  · rw [hrm]
    exact hTt
  · rw [hrm]
    exact hTs
  · rw [hrm]
    exact t9

/-- One handle step at an inner frame in Execute mode: the error flag is
updated, the result is recorded for the frame, retExit reports and restores
the path, and the loop continues with the remaining nodes. -/
theorem handle_exit_inner (tt : List Char) (fuel n : Nat) (rest : List Node)
    (err retval : RetVal) (s : St)
    (hnerr : ¬ retval = RetVal.errTag)
    (hfound : findTagTokenB s.tag_str tt = true)
    (hmode : s.mode = RMode.exe)
    (hneq : ¬ s.tag_str = tt)
    (hnest2 : 2 ≤ s.nest) (hnest6 : s.nest - 1 < RET_MAX_NEST_SIZE) :
    ∃ s2, step tt (fuel + 1) (.handle n rest err retval s) =
        step tt fuel (.loop n rest (if retval ≠ RetVal.pass then RetVal.fail else err) s2) ∧
      s2.nest = s.nest - 1 ∧
      s2.tag_ptr = s.env_tag.getD (s.nest - 1) 0 ∧
      s2.tag_str = s.tag_str.take (s.env_tag.getD (s.nest - 1) 0) ∧
      s2.env_tag = s.env_tag ∧ s2.mode = s.mode ∧ s2.invoked = s.invoked ∧
      s2.entered = s.entered ∧ s2.marks = s.marks ∧
      s2.frame_log = s.frame_log ++ [(n, retval)] ∧
      s2.is_pause = s.is_pause ∧ s2.tag_found = s.tag_found + 1 ∧
      s2.ilines = s.ilines ∧ s2.tlines = s.tlines + 1 ∧ s2.slines = s.slines ∧
      s2.p_retval = s.p_retval := by
  obtain ⟨s2, hex, p1, p2, p3, p4, p5, p6, p7, p8, p9, p10, p11, p12, p13, p14, p15⟩ :=
    retExit_exe_inner tt retval { s with frame_log := s.frame_log ++ [(n, retval)] }
      hnerr hfound hmode hneq hnest2 hnest6
  refine ⟨s2, ?_, p1, p2, p3, p4, p5, p6, p7, p8, p9, p10, p11, p12, p13, p14, p15⟩
  rw [step_succ]
  simp only [stepBody]
  rw [hex]

/-- C7: retAssert with a true condition returns with no effect; with a false
condition it appends an info line built from the call-site line/file and the
last recorded result code (param->retval) and longjmps -1 to the current
nesting level's environment; in the walker this means that for a leaf whose
statements contain a failing assert, the statements after it never run (only
the markers of the prefix are recorded), the leaf was invoked, exactly one
info line and one T line are emitted, the executor records failure for the
node (making the list aggregate failure: the error flag of the continuation
is RetVal.fail), the path is restored, and execution continues with the next
node of the list. -/
theorem C7_assert_abort :
    (∀ (l : Int) (f : List Char) (s : St), retAssert true l f s = ExitOut.ok s) ∧
    (∀ (l : Int) (f : List Char) (s : St),
        retAssert false l f s =
          ExitOut.jump ((retInfoLineFmt (assertText l f s.p_retval) s).nest - 1) (-1)
            (retInfoLineFmt (assertText l f s.p_retval) s)) ∧
    (∀ (tt : List Char) (fuel : Nat) (rest : List Node) (err : RetVal) (s : St)
       (tag : List Char) (pre post : List LAct) (l : Int) (f : List Char) (ret : RetVal),
        (∀ a ∈ pre, actOk a = true) →
        s.mode = RMode.exe →
        s.tag_ptr + (tag.length + 1) < RET_MAX_TAG_STRING_SIZE →
        s.tag_ptr = s.tag_str.length →
        findTagTokenB (s.tag_str ++ RET_TOKEN_DELIMITER :: tag) tt = true →
        ¬ (s.tag_str ++ RET_TOKEN_DELIMITER :: tag = tt) →
        s.env_tag.getD s.nest 0 = s.tag_ptr →
        1 ≤ s.nest → s.nest < RET_MAX_NEST_SIZE →
        ∃ s1, step tt (fuel + 2)
            (.loop s.nest (Node.leaf tag (pre ++ LAct.assertAct false l f :: post) ret :: rest)
              err s) =
            step tt fuel (.loop s.nest rest RetVal.fail s1) ∧
          s1.tag_str = s.tag_str ∧ s1.tag_ptr = s.tag_ptr ∧ s1.nest = s.nest ∧
          s1.mode = RMode.exe ∧
          s1.invoked = s.invoked ++ [tag] ∧
          s1.marks = s.marks ++ marksOf pre ∧
          s1.ilines = s.ilines + 1 ∧ s1.tlines = s.tlines + 1 ∧
          s1.frame_log = s.frame_log ++ [(s.nest, RetVal.fail)]) := by
  refine ⟨fun l f s => rfl, fun l f s => rfl, ?_⟩
  intro tt fuel rest err s tag pre post l f ret hpre hmode hfit hcur hfound hneq henv hn1 hn6
  have haddeq : retAddTag tag s =
      (RetVal.pass,
        { s with
          tag_str := s.tag_str ++ RET_TOKEN_DELIMITER :: tag
          tag_ptr := s.tag_ptr + (tag.length + 1)
          nest := s.nest + 1 }) := by
    unfold retAddTag
    rw [if_neg (fun h => h hfit)]
  set sB : St :=
      { s with
        tag_str := s.tag_str ++ RET_TOKEN_DELIMITER :: tag
        tag_ptr := s.tag_ptr + (tag.length + 1)
        nest := s.nest + 1
        entered := s.entered ++ [tag] } with hsB
  set sD : St :=
      { sB with
        tag_found := sB.tag_found + 1
        env_timer := sB.env_timer.set (sB.nest - 1) sB.clock
        clock := sB.clock + 1 } with hsD
  set sE : St := { sD with invoked := sD.invoked ++ [tag] } with hsE
  have hPf := applyActsNoFail_fields pre sE
  obtain ⟨f1, f2, f3, f4, f5, f6, f7, f8, f9, f10, f11, f12, f13, f14, f15⟩ := hPf
  have hPmk := applyActsNoFail_marks pre sE
  obtain ⟨j1, j2, j3, j4, j5, j6, j7, j8, j9, j10, j11, j12, j13, j14⟩ :=
    retInfoLineFmt_lineOnly (assertText l f (applyActsNoFail pre sE).p_retval)
      (applyActsNoFail pre sE)
  have hJil := retInfoLineFmt_ilines (assertText l f (applyActsNoFail pre sE).p_retval)
      (applyActsNoFail pre sE)
  have hJtl := retInfoLineFmt_tlines (assertText l f (applyActsNoFail pre sE).p_retval)
      (applyActsNoFail pre sE)
  set sJ : St := retInfoLineFmt (assertText l f (applyActsNoFail pre sE).p_retval)
      (applyActsNoFail pre sE) with hsJ
  clear_value sJ
  -- basic field values of the pre-assert chain
  have hBstr : sB.tag_str = s.tag_str ++ RET_TOKEN_DELIMITER :: tag := rfl
  have hEstr : sE.tag_str = s.tag_str ++ RET_TOKEN_DELIMITER :: tag := rfl
  have hEnest : sE.nest = s.nest + 1 := rfl
  have hEenv : sE.env_tag = s.env_tag := rfl
  have hEmode : sE.mode = RMode.exe := hmode
  have hEinv : sE.invoked = s.invoked ++ [tag] := rfl
  have hEmarks : sE.marks = s.marks := rfl
  have hEil : sE.ilines = s.ilines := rfl
  have hEtl : sE.tlines = s.tlines := rfl
  have hEfl : sE.frame_log = s.frame_log := rfl
  -- the jump state
  have hJstr : sJ.tag_str = s.tag_str ++ RET_TOKEN_DELIMITER :: tag := by
    rw [j1, f1, hEstr]
  have hJnest : sJ.nest = s.nest + 1 := by
    rw [j3, f3, hEnest]
  have hJenv : sJ.env_tag = s.env_tag := by
    rw [j4, f4, hEenv]
  have hJmode : sJ.mode = RMode.exe := by
    rw [j7, f7, hEmode]
  have hJinv : sJ.invoked = s.invoked ++ [tag] := by
    rw [j10, f9, hEinv]
  have hJmarks : sJ.marks = s.marks ++ marksOf pre := by
    rw [j12, hPmk, hEmarks]
  have hJil2 : sJ.ilines = s.ilines + 1 := by
    rw [hJil, f13, hEil]
  have hJtl2 : sJ.tlines = s.tlines := by
    rw [hJtl, f14, hEtl]
  have hJfl : sJ.frame_log = s.frame_log := by
    rw [j13, f11, hEfl]
  have hJfound : findTagTokenB sJ.tag_str tt = true := by
    rw [hJstr]
    exact hfound
  have hJneq : ¬ sJ.tag_str = tt := by
    rw [hJstr]
    exact hneq
  -- the enter step produces the assert longjmp
  have e1 : step tt (fuel + 1)
      (.enter (Node.leaf tag (pre ++ LAct.assertAct false l f :: post) ret) s) =
      runLeafBody tag (pre ++ LAct.assertAct false l f :: post) ret (retEnterMode tt sB) := by
    rw [step_succ]
    simp only [stepBody, nodeTag]
    rw [haddeq]
  have e2 : runLeafBody tag (pre ++ LAct.assertAct false l f :: post) ret (retEnterMode tt sB) =
      runLeafBody tag (pre ++ LAct.assertAct false l f :: post) ret sD := by
    rw [retEnterMode_exe_found tt sB hmode hfound]
  have e3 : runLeafBody tag (pre ++ LAct.assertAct false l f :: post) ret sD =
      Out.jump s.nest (-1) sJ := by
    rw [runLeafBody_exe tag (pre ++ LAct.assertAct false l f :: post) ret sD hmode]
    rw [show ({ sD with invoked := sD.invoked ++ [tag] } : St) = sE from rfl]
    rw [runActs_assertFail pre post l f hpre sE]
    rw [← hsJ]
    show Out.jump ((applyActsNoFail pre sE).nest - 1) (-1) sJ = Out.jump s.nest (-1) sJ
    rw [f3, hEnest, Nat.add_sub_cancel]
  have henter : step tt (fuel + 1)
      (.enter (Node.leaf tag (pre ++ LAct.assertAct false l f :: post) ret) s) =
      Out.jump s.nest (-1) sJ := e1.trans (e2.trans e3)
  -- the loop catches the longjmp at this frame
  have hcatch : step tt (fuel + 2)
      (.loop s.nest (Node.leaf tag (pre ++ LAct.assertAct false l f :: post) ret :: rest)
        err s) =
      step tt (fuel + 1) (.handle s.nest rest err RetVal.fail sJ) := by
    rw [show fuel + 2 = fuel + 1 + 1 from rfl, step_succ]
    simp only [stepBody]
    rw [henter]
    show (if s.nest = s.nest
        then step tt (fuel + 1) (.handle s.nest rest err (longjmpRetval (-1)) sJ)
        else Out.jump s.nest (-1) sJ) = _
    rw [if_pos rfl]
    rw [show longjmpRetval (-1) = RetVal.fail from by decide]
  obtain ⟨s2, heq2, p1, p2, p3, p4, p5, p6, p7, p8, p9, p10, p11, p12, p13, p14, p15⟩ :=
    handle_exit_inner tt fuel s.nest rest err RetVal.fail sJ (by decide)
      hJfound hJmode hJneq (by rw [hJnest]; omega) (by rw [hJnest]; simpa using hn6)
  rw [if_pos (show RetVal.fail ≠ RetVal.pass from by decide)] at heq2
  refine ⟨s2, hcatch.trans heq2, ?_, ?_, ?_, ?_, ?_, ?_, ?_, ?_, ?_⟩
  · rw [p3, hJstr, hJenv, hJnest, Nat.add_sub_cancel, henv, hcur]
    exact List.take_left s.tag_str (RET_TOKEN_DELIMITER :: tag)
  · rw [p2, hJenv, hJnest, Nat.add_sub_cancel, henv]
  · rw [p1, hJnest, Nat.add_sub_cancel]
  · rw [p5, hJmode]
  · rw [p6, hJinv]
  · rw [p8, hJmarks]
  · rw [p12, hJil2]
  · rw [p13, hJtl2]
  · rw [p9, hJfl]

/-- A concrete state one level inside the root, as the executor maintains it. -/
def c7state : St :=
  { initialSt RMode.exe with
    tag_str := "@ROOT".toList
    tag_ptr := 5
    nest := 1
    env_tag := [0, 5, 0, 0, 0, 0] }

/-- Witness for C7 at a concrete frame, leaf and assert. -/
theorem C7_assert_abort_witness :
    ∃ s1, step "L1".toList (0 + 2)
        (.loop c7state.nest
          (Node.leaf "L1".toList
            ([LAct.mark 1] ++ LAct.assertAct false 42 "f.c".toList :: [LAct.mark 2])
            RetVal.pass :: [])
          RetVal.pass c7state) =
        step "L1".toList 0 (.loop c7state.nest [] RetVal.fail s1) ∧
      s1.tag_str = c7state.tag_str ∧ s1.tag_ptr = c7state.tag_ptr ∧ s1.nest = c7state.nest ∧
      s1.mode = RMode.exe ∧
      s1.invoked = c7state.invoked ++ ["L1".toList] ∧
      s1.marks = c7state.marks ++ marksOf [LAct.mark 1] ∧
      s1.ilines = c7state.ilines + 1 ∧ s1.tlines = c7state.tlines + 1 ∧
      s1.frame_log = c7state.frame_log ++ [(c7state.nest, RetVal.fail)] :=
  C7_assert_abort.2.2 "L1".toList 0 [] RetVal.pass c7state "L1".toList
    [LAct.mark 1] [LAct.mark 2] 42 "f.c".toList RetVal.pass
    (by decide) (by decide) (by decide) (by decide) (by decide) (by decide)
    (by decide) (by decide) (by decide)

/-- Witness for C6 at a concrete overflowing tag. -/
theorem C6_tagOverflow_witness :
    retAddTag (List.replicate 256 'x') (initialSt RMode.exe) =
      (RetVal.errTag, initialSt RMode.exe) ∧
    ∃ s1, step RET_ROOT_TAG (0 + 2)
        (.loop 0 (Node.leaf (List.replicate 256 'x') [] RetVal.pass :: [])
          RetVal.pass (initialSt RMode.exe)) =
        step RET_ROOT_TAG 0 (.loop 0 [] RetVal.fail s1) ∧
      s1.tag_str = (initialSt RMode.exe).tag_str ∧
      s1.tag_ptr = (initialSt RMode.exe).tag_ptr ∧
      s1.nest = (initialSt RMode.exe).nest ∧
      s1.mode = (initialSt RMode.exe).mode ∧
      s1.invoked = (initialSt RMode.exe).invoked ∧
      s1.entered = (initialSt RMode.exe).entered ∧
      s1.ilines = (initialSt RMode.exe).ilines + 1 ∧
      s1.frame_log = (initialSt RMode.exe).frame_log ++ [(0, RetVal.errTag)] ∧
      ∀ tag2 : List Char,
        (initialSt RMode.exe).tag_ptr + (tag2.length + 1) < RET_MAX_TAG_STRING_SIZE →
        (retAddTag tag2 s1).1 = RetVal.pass ∧
        (retAddTag tag2 s1).2.tag_str =
          (initialSt RMode.exe).tag_str ++ RET_TOKEN_DELIMITER :: tag2 :=
  ⟨C6_tagOverflow_atomic_and_continue.1 (initialSt RMode.exe) (List.replicate 256 'x')
      (by decide),
   C6_tagOverflow_atomic_and_continue.2 RET_ROOT_TAG 0 0 [] RetVal.pass (initialSt RMode.exe)
      (Node.leaf (List.replicate 256 'x') [] RetVal.pass) (by decide)⟩

/-! ### Lines passed with RET_NO_PAUSE never transmit -/

/-- Relation between a state and a later one reached only through output
primitives run with the pause flag off: nothing was transmitted and the flag
is still off. -/
def noflush (s s' : St) : Prop := s'.sent_rev = s.sent_rev ∧ s'.is_pause = false

theorem retPutChar_noflush (c : Char) (s : St) (h : s.is_pause = false) :
    (retPutChar c s).sent_rev = s.sent_rev ∧ (retPutChar c s).is_pause = false := by
  unfold retPutChar
  by_cases hn : s.next_in < RET_REPORT_BUF_SIZE
  · rw [if_pos hn, if_neg (by simp [h])]
    exact ⟨rfl, h⟩
  · rw [if_neg hn]
    exact ⟨rfl, h⟩

theorem noflush_putChar_right (c : Char) {a b : St} (h : noflush a b) :
    noflush a (retPutChar c b) :=
  ⟨((retPutChar_noflush c b h.2).1).trans h.1, (retPutChar_noflush c b h.2).2⟩

theorem noflush_comma_right {a b : St} (h : noflush a b) :
    noflush a (retPutCommaSeparator b) := noflush_putChar_right ',' h

theorem noflush_lf_right {a b : St} (h : noflush a b) :
    noflush a (retPutLineFeed b) := noflush_putChar_right '\n' h

theorem noflush_putString_right (str : List Char) {a : St} :
    ∀ {b : St}, noflush a b → noflush a (retPutString str b) := by
  induction str with
  | nil => exact fun h => h
  | cons c t ih => exact fun h => ih (noflush_putChar_right c h)

theorem noflush_decDigits_right (v w : Nat) {a b : St} (h : noflush a b) :
    noflush a (retDecimalDigits v w b) := by
  unfold retDecimalDigits
  by_cases hw : 0 < w ∧ w < 10
  · rw [if_pos hw]
    exact noflush_putString_right _ h
  · rw [if_neg hw]
    exact h

theorem noflush_set_nln_right (k : Nat) {a b : St} (h : noflush a b) :
    noflush a { b with next_line_number := k } := ⟨h.1, h.2⟩

/-- A format line run with pause = RET_NO_PAUSE transmits nothing. -/
theorem retFormatLine_noflush (t : Char) (str : List Char) (s : St) :
    (retFormatLine t str false s).sent_rev = s.sent_rev := by
  simp only [retFormatLine]
  refine (?_ : noflush s _).1
  apply noflush_lf_right
  apply noflush_putString_right
  apply noflush_comma_right
  apply noflush_putString_right
  apply noflush_comma_right
  apply noflush_putString_right
  apply noflush_comma_right
  apply noflush_decDigits_right
  apply noflush_set_nln_right
  apply noflush_comma_right
  apply noflush_putChar_right
  exact ⟨rfl, rfl⟩

/-- An S line never transmits anything by itself: retSearchLine hands
RET_NO_PAUSE to the formatter (ret.c line 471). -/
theorem retSearchLine_noflush (str : List Char) (s : St) :
    sentList (retSearchLine str s) = sentList s := by
  unfold retSearchLine sentList
  rw [retFormatLine_noflush]

/-! ### Concrete test trees and runs -/











/-! ### Declared-order leaves, expected results and admissibility of a tree -/

/-- Whether running the statements of a leaf body aborts on a failed
assert. -/
def actsFail : List LAct → Bool
  | [] => false
  | .assertAct c _ _ :: rest => if c then actsFail rest else true
  | _ :: rest => actsFail rest

/-- The result a leaf body produces in Execute mode: a failed assert aborts
the body and the frame records FAIL, otherwise the declared result is
returned. -/
def leafResult (acts : List LAct) (ret : RetVal) : RetVal :=
  if actsFail acts then RetVal.fail else ret

mutual
/-- Leaf tags of a subtree, in declared depth-first order. -/
def leafTags : Node → List (List Char)
  | .leaf t _ _ => [t]
  | .branch _ cs => leafTagsL cs
/-- Leaf tags of a forest, in declared depth-first order. -/
def leafTagsL : List Node → List (List Char)
  | [] => []
  | c :: rest => leafTags c ++ leafTagsL rest
end

mutual
/-- Whether some leaf of the subtree produces a non-pass result in Execute
mode. -/
def nodeAnyFail : Node → Bool
  | .leaf _ acts ret => decide (¬ leafResult acts ret = RetVal.pass)
  | .branch _ cs => anyFailL cs
/-- Whether some leaf of the forest produces a non-pass result. -/
def anyFailL : List Node → Bool
  | [] => false
  | c :: rest => nodeAnyFail c || anyFailL rest
end

mutual
/-- Whether a subtree fits the engine's limits when entered with tag cursor
`p` at nesting level `n`: every tag append stays strictly inside the tag
string buffer, every sub-list is opened below RET_MAX_NEST_SIZE, and no
leaf declares the engine-reserved RET_ERR_TAG result. -/
def nodeFits : Node → Nat → Nat → Bool
  | .leaf t _ ret, p, _ =>
      decide (p + (t.length + 1) < RET_MAX_TAG_STRING_SIZE) &&
      decide (¬ ret = RetVal.errTag)
  | .branch t cs, p, n =>
      decide (p + (t.length + 1) < RET_MAX_TAG_STRING_SIZE) &&
      decide (n + 1 < RET_MAX_NEST_SIZE) &&
      nodeFitsL cs (p + (t.length + 1)) (n + 1)
/-- Whether every subtree of a forest fits the engine's limits. -/
def nodeFitsL : List Node → Nat → Nat → Bool
  | [], _, _ => true
  | c :: rest, p, n => nodeFits c p n && nodeFitsL rest p n
end

/-- The result an admissible node hands back to its frame in Execute mode. -/
def nodeResult : Node → RetVal
  | .leaf _ acts ret => leafResult acts ret
  | .branch _ cs => if anyFailL cs then RetVal.fail else RetVal.pass

/-- Whether entering the node aborts through the assert longjmp (only a
leaf with a failing assert does). -/
def nodeAborts : Node → Bool
  | .leaf _ acts _ => actsFail acts
  | .branch _ _ => false

theorem leafTagsL_cons (c : Node) (rest : List Node) :
    leafTagsL (c :: rest) = leafTags c ++ leafTagsL rest := rfl

theorem anyFailL_cons (c : Node) (rest : List Node) :
    anyFailL (c :: rest) = (nodeAnyFail c || anyFailL rest) := rfl

theorem nodeAnyFail_iff (node : Node) :
    nodeAnyFail node = true ↔ ¬ nodeResult node = RetVal.pass := by
  cases node with
  | leaf t acts ret =>
    show decide (¬ leafResult acts ret = RetVal.pass) = true ↔ _
    exact decide_eq_true_iff
  | branch t cs =>
    show anyFailL cs = true ↔
      ¬ (if anyFailL cs then RetVal.fail else RetVal.pass) = RetVal.pass
    by_cases h : anyFailL cs = true
    · rw [h, if_pos rfl]
      simp
    · rw [Bool.not_eq_true] at h
      rw [h, if_neg (by decide)]
      simp

theorem nodeResult_ne_errTag (node : Node) (p n : Nat)
    (h : nodeFits node p n = true) : ¬ nodeResult node = RetVal.errTag := by
  cases node with
  | leaf t acts ret =>
    show ¬ leafResult acts ret = RetVal.errTag
    unfold leafResult
    have hr : ¬ ret = RetVal.errTag := by
      have h2 := (Bool.and_eq_true _ _).mp h
      exact of_decide_eq_true h2.2
    by_cases ha : actsFail acts = true
    · rw [ha, if_pos rfl]
      decide
    · rw [Bool.not_eq_true] at ha
      rw [ha, if_neg (by decide)]
      exact hr
  | branch t cs =>
    show ¬ (if anyFailL cs then RetVal.fail else RetVal.pass) = RetVal.errTag
    by_cases hb : anyFailL cs = true
    · rw [hb, if_pos rfl]
      decide
    · rw [Bool.not_eq_true] at hb
      rw [hb, if_neg (by decide)]
      decide

theorem nodeAborts_anyFail (node : Node) (h : nodeAborts node = true) :
    nodeAnyFail node = true := by
  cases node with
  | leaf t acts ret =>
    have ha : actsFail acts = true := h
    show decide (¬ leafResult acts ret = RetVal.pass) = true
    rw [decide_eq_true_iff]
    unfold leafResult
    rw [ha, if_pos rfl]
    decide
  | branch t cs => exact Bool.noConfusion h

theorem nodeResult_of_noAbort (t : List Char) (acts : List LAct) (ret : RetVal)
    (h : actsFail acts = false) : nodeResult (Node.leaf t acts ret) = ret := by
  show leafResult acts ret = ret
  unfold leafResult
  rw [h, if_neg (by decide)]

/-! ### The tag-path shape of a root-targeted run -/

/-- Shape of every tag path reachable below the root node: the path starts
with the delimiter and the root tag, and what follows, if anything, starts
with the delimiter again. -/
def tagShape (l : List Char) : Prop :=
  ∃ rest, l = '@' :: 'R' :: 'O' :: 'O' :: 'T' :: rest ∧
    (rest = [] ∨ ∃ t, rest = '@' :: t)

theorem tagShape_append (l : List Char) (h : tagShape l) (tag : List Char) :
    tagShape (l ++ RET_TOKEN_DELIMITER :: tag) := by
  obtain ⟨rest, rfl, hr⟩ := h
  refine ⟨rest ++ RET_TOKEN_DELIMITER :: tag, rfl, Or.inr ?_⟩
  rcases hr with rfl | ⟨t, rfl⟩
  · exact ⟨tag, rfl⟩
  · exact ⟨t ++ RET_TOKEN_DELIMITER :: tag, rfl⟩

theorem tagShape_ne_root (l : List Char) (h : tagShape l) : ¬ l = RET_ROOT_TAG := by
  obtain ⟨rest, rfl, _⟩ := h
  intro he
  have h2 := congrArg List.head? he
  exact absurd (Option.some.inj h2) (by decide)

theorem findRoot_of_tagShape (l : List Char) (h : tagShape l) :
    findTagTokenB l RET_ROOT_TAG = true := by
  obtain ⟨rest, rfl, hr⟩ := h
  rcases hr with rfl | ⟨t, rfl⟩ <;> rfl

/-! ### Environment-array helpers -/

theorem getD_set_self (l : List Nat) (i v : Nat) (h : i < l.length) :
    (l.set i v).getD i 0 = v := by
  simp [List.getD, List.getElem?_set_self', h]

theorem getD_set_ne (l : List Nat) (i j v : Nat) (h : ¬ j = i) :
    (l.set i v).getD j 0 = l.getD j 0 := by
  simp [List.getD, List.getElem?_set_ne (fun hh => h hh.symm)]

/-! ### What a leaf body does to the state -/

/-- Fields a leaf body's statements never change. -/
def actsPreserve (s s' : St) : Prop :=
  s'.tag_str = s.tag_str ∧ s'.tag_ptr = s.tag_ptr ∧ s'.nest = s.nest ∧
  s'.env_tag = s.env_tag ∧ s'.mode = s.mode ∧ s'.invoked = s.invoked ∧
  s'.entered = s.entered ∧ s'.is_pause = s.is_pause

theorem actsPreserve_refl (s : St) : actsPreserve s s :=
  ⟨rfl, rfl, rfl, rfl, rfl, rfl, rfl, rfl⟩

theorem actsPreserve_trans {a b c : St} (h1 : actsPreserve a b) (h2 : actsPreserve b c) :
    actsPreserve a c := by
  obtain ⟨e1, e2, e3, e4, e5, e6, e7, e8⟩ := h1
  obtain ⟨f1, f2, f3, f4, f5, f6, f7, f8⟩ := h2
  exact ⟨f1.trans e1, f2.trans e2, f3.trans e3, f4.trans e4, f5.trans e5,
    f6.trans e6, f7.trans e7, f8.trans e8⟩

/-- Running a leaf body either completes (no assert failed) or aborts with
the longjmp of the current nesting level; either way the walking state is
untouched. -/
theorem runActs_total (acts : List LAct) :
    ∀ s : St,
      (actsFail acts = false ∧
        ∃ s', runActs acts s = ExitOut.ok s' ∧ actsPreserve s s') ∨
      (actsFail acts = true ∧
        ∃ s', runActs acts s = ExitOut.jump (s.nest - 1) (-1) s' ∧ actsPreserve s s') := by
  induction acts with
  | nil =>
    intro s
    exact Or.inl ⟨rfl, s, rfl, actsPreserve_refl s⟩
  | cons a r ih =>
    intro s
    cases a with
    | mark k =>
      rcases ih { s with marks := s.marks ++ [k] } with ⟨hf, s', heq, hp⟩ | ⟨hf, s', heq, hp⟩
      · exact Or.inl ⟨hf, s', heq,
          actsPreserve_trans (⟨rfl, rfl, rfl, rfl, rfl, rfl, rfl, rfl⟩ :
            actsPreserve s { s with marks := s.marks ++ [k] }) hp⟩
      · exact Or.inr ⟨hf, s', heq,
          actsPreserve_trans (⟨rfl, rfl, rfl, rfl, rfl, rfl, rfl, rfl⟩ :
            actsPreserve s { s with marks := s.marks ++ [k] }) hp⟩
    | setRetval v =>
      rcases ih { s with p_retval := v } with ⟨hf, s', heq, hp⟩ | ⟨hf, s', heq, hp⟩
      · exact Or.inl ⟨hf, s', heq,
          actsPreserve_trans (⟨rfl, rfl, rfl, rfl, rfl, rfl, rfl, rfl⟩ :
            actsPreserve s { s with p_retval := v }) hp⟩
      · exact Or.inr ⟨hf, s', heq,
          actsPreserve_trans (⟨rfl, rfl, rfl, rfl, rfl, rfl, rfl, rfl⟩ :
            actsPreserve s { s with p_retval := v }) hp⟩
    | assertAct c l f =>
      cases c with
      | true =>
        rcases ih s with ⟨hf, s', heq, hp⟩ | ⟨hf, s', heq, hp⟩
        · exact Or.inl ⟨hf, s', heq, hp⟩
        · exact Or.inr ⟨hf, s', heq, hp⟩
      | false =>
        refine Or.inr ⟨rfl, retInfoLineFmt (assertText l f s.p_retval) s, ?_, ?_⟩
        · obtain ⟨_, _, hnest, _⟩ := retInfoLineFmt_lineOnly (assertText l f s.p_retval) s
          show ExitOut.jump ((retInfoLineFmt (assertText l f s.p_retval) s).nest - 1) (-1)
            (retInfoLineFmt (assertText l f s.p_retval) s) = _
          rw [hnest]
        · obtain ⟨e1, e2, e3, e4, e5, e6, e7, e8, e9, e10, e11, e12, e13, e14⟩ :=
            retInfoLineFmt_lineOnly (assertText l f s.p_retval) s
          exact ⟨e1, e2, e3, e4, e7, e10, e11, e14⟩

/-! ### One walker step for each kind of activation -/

/-- Entering an admissible leaf in Execute mode: the tag is appended, the
body is invoked; it completes with the declared result or aborts with the
assert longjmp of the new nesting level. -/
theorem enter_leaf_master (tt : List Char) (fuel : Nat) (tag : List Char)
    (acts : List LAct) (ret : RetVal) (s : St)
    (hmode : s.mode = RMode.exe)
    (hfit : s.tag_ptr + (tag.length + 1) < RET_MAX_TAG_STRING_SIZE)
    (hfound : findTagTokenB (s.tag_str ++ RET_TOKEN_DELIMITER :: tag) tt = true) :
    ∃ s', ((actsFail acts = false ∧
        step tt (fuel + 1) (.enter (Node.leaf tag acts ret) s) = Out.ok ret s') ∨
      (actsFail acts = true ∧
        step tt (fuel + 1) (.enter (Node.leaf tag acts ret) s) = Out.jump s.nest (-1) s')) ∧
      s'.mode = RMode.exe ∧
      s'.tag_str = s.tag_str ++ RET_TOKEN_DELIMITER :: tag ∧
      s'.tag_ptr = s.tag_ptr + (tag.length + 1) ∧
      s'.nest = s.nest + 1 ∧
      s'.invoked = s.invoked ++ [tag] ∧
      s'.env_tag = s.env_tag ∧
      s'.is_pause = s.is_pause := by
  have haddeq : retAddTag tag s =
      (RetVal.pass,
        { s with
          tag_str := s.tag_str ++ RET_TOKEN_DELIMITER :: tag
          tag_ptr := s.tag_ptr + (tag.length + 1)
          nest := s.nest + 1 }) := by
    unfold retAddTag
    rw [if_neg (fun h => h hfit)]
  set sB : St :=
      { s with
        tag_str := s.tag_str ++ RET_TOKEN_DELIMITER :: tag
        tag_ptr := s.tag_ptr + (tag.length + 1)
        nest := s.nest + 1
        entered := s.entered ++ [tag] } with hsB
  set sD : St :=
      { sB with
        tag_found := sB.tag_found + 1
        env_timer := sB.env_timer.set (sB.nest - 1) sB.clock
        clock := sB.clock + 1 } with hsD
  set sE : St := { sD with invoked := sD.invoked ++ [tag] } with hsE
  have e1 : step tt (fuel + 1) (.enter (Node.leaf tag acts ret) s) =
      runLeafBody tag acts ret (retEnterMode tt sB) := by
    rw [step_succ]
    simp only [stepBody, nodeTag]
    rw [haddeq]
  have e2 : runLeafBody tag acts ret (retEnterMode tt sB) = runLeafBody tag acts ret sD := by
    rw [retEnterMode_exe_found tt sB hmode hfound]
  have e3 : runLeafBody tag acts ret sD =
      (match runActs acts sE with
       | .ok s1 => Out.ok ret s1
       | .jump lvl v s1 => Out.jump lvl v s1) := by
    rw [runLeafBody_exe tag acts ret sD hmode]
  have eclose := e1.trans (e2.trans e3)
  rcases runActs_total acts sE with ⟨hf, s', heq, hp⟩ | ⟨hf, s', heq, hp⟩
  · rw [heq] at eclose
    refine ⟨s', Or.inl ⟨hf, eclose.trans rfl⟩, hp.2.2.2.2.1.trans hmode, hp.1, hp.2.1,
      hp.2.2.1, hp.2.2.2.2.2.1, hp.2.2.2.1, hp.2.2.2.2.2.2.2⟩
  · rw [heq] at eclose
    refine ⟨s', Or.inr ⟨hf, eclose.trans rfl⟩, hp.2.2.2.2.1.trans hmode, hp.1, hp.2.1,
      hp.2.2.1, hp.2.2.2.2.2.1, hp.2.2.2.1, hp.2.2.2.2.2.2.2⟩

/-- Entering an admissible branch in Execute mode steps into its child
list, on the extended path one level deeper. -/
theorem enter_branch_step (tt : List Char) (fuel : Nat) (tag : List Char)
    (cs : List Node) (s : St)
    (hmode : s.mode = RMode.exe)
    (hfit : s.tag_ptr + (tag.length + 1) < RET_MAX_TAG_STRING_SIZE)
    (hfound : findTagTokenB (s.tag_str ++ RET_TOKEN_DELIMITER :: tag) tt = true) :
    step tt (fuel + 1) (.enter (Node.branch tag cs) s) =
      step tt fuel (.list cs
        { s with
          tag_str := s.tag_str ++ RET_TOKEN_DELIMITER :: tag
          tag_ptr := s.tag_ptr + (tag.length + 1)
          nest := s.nest + 1
          entered := s.entered ++ [tag]
          tag_found := s.tag_found + 1
          env_timer := s.env_timer.set s.nest s.clock
          clock := s.clock + 1 }) := by
  have haddeq : retAddTag tag s =
      (RetVal.pass,
        { s with
          tag_str := s.tag_str ++ RET_TOKEN_DELIMITER :: tag
          tag_ptr := s.tag_ptr + (tag.length + 1)
          nest := s.nest + 1 }) := by
    unfold retAddTag
    rw [if_neg (fun h => h hfit)]
  set sB : St :=
      { s with
        tag_str := s.tag_str ++ RET_TOKEN_DELIMITER :: tag
        tag_ptr := s.tag_ptr + (tag.length + 1)
        nest := s.nest + 1
        entered := s.entered ++ [tag] } with hsB
  have e1 : step tt (fuel + 1) (.enter (Node.branch tag cs) s) =
      step tt fuel (.list cs (retEnterMode tt sB)) := by
    rw [step_succ]
    simp only [stepBody, nodeTag]
    rw [haddeq]
  rw [e1, retEnterMode_exe_found tt sB hmode hfound]
  rfl

/-- One loop iteration whose node returns normally hands the result to the
handle activation. -/
theorem loop_step_ok (tt : List Char) (fuel n : Nat) (node : Node) (rest : List Node)
    (err rv : RetVal) (s s1 : St)
    (henter : step tt fuel (.enter node s) = Out.ok rv s1) :
    step tt (fuel + 1) (.loop n (node :: rest) err s) =
      step tt fuel (.handle n rest err rv s1) := by
  rw [step_succ]
  simp only [stepBody]
  rw [henter]

/-- One loop iteration whose node longjmps back to this frame is caught by
the setjmp and handled with the converted value. -/
theorem loop_step_jump_catch (tt : List Char) (fuel n : Nat) (node : Node)
    (rest : List Node) (err : RetVal) (v : Int) (s s1 : St)
    (henter : step tt fuel (.enter node s) = Out.jump n v s1) :
    step tt (fuel + 1) (.loop n (node :: rest) err s) =
      step tt fuel (.handle n rest err (longjmpRetval v) s1) := by
  rw [step_succ]
  simp only [stepBody]
  rw [henter]
  show (if n = n then step tt fuel (.handle n rest err (longjmpRetval v) s1)
      else Out.jump n v s1) = _
  rw [if_pos rfl]

theorem loop_step_spin (tt : List Char) (fuel n : Nat) (node : Node)
    (rest : List Node) (err : RetVal) (s : St)
    (henter : step tt fuel (.enter node s) = Out.spin) :
    step tt (fuel + 1) (.loop n (node :: rest) err s) = Out.spin := by
  rw [step_succ]
  simp only [stepBody]
  rw [henter]

theorem loop_nil (tt : List Char) (fuel n : Nat) (err : RetVal) (s : St) :
    step tt (fuel + 1) (.loop n [] err s) = Out.ok err s := by
  rw [step_succ]
  rfl

/-- A list activation below the nesting limit saves the tag cursor in the
environment slot of its level and runs its loop, restoring the ambient
pause flag afterwards. -/
theorem list_step (tt : List Char) (fuel : Nat) (nodes : List Node) (s : St)
    (h6 : s.nest < RET_MAX_NEST_SIZE) :
    step tt (fuel + 1) (.list nodes s) =
      (match step tt fuel (.loop s.nest nodes RetVal.pass
          { s with env_tag := s.env_tag.set s.nest s.tag_ptr }) with
        | Out.ok r s1 => Out.ok r { s1 with is_pause := s.is_pause }
        | Out.jump lvl v s1 => Out.jump lvl v s1
        | Out.spin => Out.spin) := by
  rw [step_succ]
  simp only [stepBody]
  rw [if_neg (Nat.not_le.mpr h6)]

/-- retExitFinish at depth-zero completion with a matched target emits the
linefeed and the DONE sentinel and flushes the buffer. -/
theorem retExitFinish_terminal (tt : List Char) (retval : RetVal) (x : St)
    (hneq : ¬ x.tag_str = tt) (hx : x.nest = 1) (htf : ¬ x.tag_found = 0) :
    retExitFinish tt retval x =
      ExitOut.ok (retSendBuffer (retPutString RET_TEST_DONE_MSG
        (retPutLineFeed (retRemoveTag 0 x)))) := by
  have hrm := retRemoveTag_eq 0 x (by decide)
  unfold retExitFinish
  rw [if_neg hneq]
  dsimp only []
  rw [if_pos (by omega : ¬ x.nest = 0)]
  rw [hx]
  show (if (retRemoveTag (1 - 1) x).nest = 0 then _ else _) = _
  rw [show (1 : Nat) - 1 = 0 from rfl, hrm]
  rw [if_pos rfl]
  rw [if_neg ?hc]
  case hc =>
    intro hcc
    exact htf hcc.1

/-! ### Single activation equations of the walker -/

/-- The state after retEnter appends a tag successfully: the ghost entered
record and the mode bookkeeping (ret.c lines 222-242). -/
def enterState (tt : List Char) (tag : List Char) (s : St) : St :=
  retEnterMode tt
    { (retAddTag tag s).2 with entered := (retAddTag tag s).2.entered ++ [tag] }

theorem enter_branch_ok (tt : List Char) (fuel : Nat) (tag : List Char)
    (cs : List Node) (s : St) (hok : (retAddTag tag s).1 = RetVal.pass) :
    step tt (fuel + 1) (.enter (Node.branch tag cs) s) =
      step tt fuel (.list cs (enterState tt tag s)) := by
  rw [step_succ]
  simp only [stepBody, nodeTag]
  rcases h : retAddTag tag s with ⟨rv, s1⟩
  rw [h] at hok
  cases rv with
  | errTag => exact RetVal.noConfusion hok
  | pass =>
    show step tt fuel (.list cs (retEnterMode tt { s1 with entered := s1.entered ++ [tag] })) = _
    unfold enterState
    rw [h]
  | fail =>
    show step tt fuel (.list cs (retEnterMode tt { s1 with entered := s1.entered ++ [tag] })) = _
    unfold enterState
    rw [h]
  | errTimeout =>
    show step tt fuel (.list cs (retEnterMode tt { s1 with entered := s1.entered ++ [tag] })) = _
    unfold enterState
    rw [h]

theorem list_refuse (tt : List Char) (fuel : Nat) (nodes : List Node) (s : St)
    (h : RET_MAX_NEST_SIZE ≤ s.nest) :
    step tt (fuel + 1) (.list nodes s) =
      Out.ok RetVal.fail (retInfoLineFmt RET_LAYER_ERR_MSG s) := by
  rw [step_succ]
  simp only [stepBody]
  rw [if_pos h]

theorem loop_step_jump_esc (tt : List Char) (fuel n : Nat) (node : Node)
    (rest : List Node) (err : RetVal) (lvl : Nat) (v : Int) (s s1 : St)
    (henter : step tt fuel (.enter node s) = Out.jump lvl v s1) (hne : ¬ lvl = n) :
    step tt (fuel + 1) (.loop n (node :: rest) err s) = Out.jump lvl v s1 := by
  rw [step_succ]
  simp only [stepBody]
  rw [henter]
  show (if lvl = n then step tt fuel (.handle n rest err (longjmpRetval v) s1)
      else Out.jump lvl v s1) = _
  rw [if_neg hne]

theorem handle_step_exit_ok (tt : List Char) (fuel n : Nat) (rest : List Node)
    (err retval : RetVal) (s s2 : St)
    (hex : retExit tt retval { s with frame_log := s.frame_log ++ [(n, retval)] } =
      ExitOut.ok s2) :
    step tt (fuel + 1) (.handle n rest err retval s) =
      step tt fuel (.loop n rest (if retval ≠ RetVal.pass then RetVal.fail else err) s2) := by
  rw [step_succ]
  simp only [stepBody]
  rw [hex]

theorem handle_step_exit_jump_catch (tt : List Char) (fuel n : Nat) (rest : List Node)
    (err retval : RetVal) (v : Int) (s s2 : St)
    (hex : retExit tt retval { s with frame_log := s.frame_log ++ [(n, retval)] } =
      ExitOut.jump n v s2) :
    step tt (fuel + 1) (.handle n rest err retval s) =
      step tt fuel (.handle n rest (if retval ≠ RetVal.pass then RetVal.fail else err)
        (longjmpRetval v) s2) := by
  rw [step_succ]
  simp only [stepBody]
  rw [hex]
  show (if n = n then _ else _) = _
  rw [if_pos rfl]

theorem handle_step_exit_jump_esc (tt : List Char) (fuel n : Nat) (rest : List Node)
    (err retval : RetVal) (lvl : Nat) (v : Int) (s s2 : St)
    (hex : retExit tt retval { s with frame_log := s.frame_log ++ [(n, retval)] } =
      ExitOut.jump lvl v s2) (hne : ¬ lvl = n) :
    step tt (fuel + 1) (.handle n rest err retval s) = Out.jump lvl v s2 := by
  rw [step_succ]
  simp only [stepBody]
  rw [hex]
  show (if lvl = n then step tt fuel (.handle n rest
        (if retval ≠ RetVal.pass then RetVal.fail else err) (longjmpRetval v) s2)
      else Out.jump lvl v s2) = _
  rw [if_neg hne]

theorem list_step_out_ok (tt : List Char) (fuel : Nat) (nodes : List Node)
    (s : St) (r : RetVal) (s1 : St)
    (h6 : s.nest < RET_MAX_NEST_SIZE)
    (hloop : step tt fuel (.loop s.nest nodes RetVal.pass
      { s with env_tag := s.env_tag.set s.nest s.tag_ptr }) = Out.ok r s1) :
    step tt (fuel + 1) (.list nodes s) = Out.ok r { s1 with is_pause := s.is_pause } := by
  rw [step_succ]
  simp only [stepBody]
  rw [if_neg (Nat.not_le.mpr h6)]
  rw [hloop]

theorem list_step_out_jump (tt : List Char) (fuel : Nat) (nodes : List Node)
    (s : St) (lvl : Nat) (v : Int) (s1 : St)
    (h6 : s.nest < RET_MAX_NEST_SIZE)
    (hloop : step tt fuel (.loop s.nest nodes RetVal.pass
      { s with env_tag := s.env_tag.set s.nest s.tag_ptr }) = Out.jump lvl v s1) :
    step tt (fuel + 1) (.list nodes s) = Out.jump lvl v s1 := by
  rw [step_succ]
  simp only [stepBody]
  rw [if_neg (Nat.not_le.mpr h6)]
  rw [hloop]

/-! ### The terminal retExit of a root-targeted run -/

/-- retExit at the depth-1 frame in Execute mode with the target token
present: a T line is reported, the path is restored to the depth-0 cursor,
and the terminal DONE report flushes the buffer (tag_found is positive at
this point, so the path-not-found line is impossible). -/
theorem retExit_exe_terminal (tt : List Char) (retval : RetVal) (s : St)
    (hnerr : ¬ retval = RetVal.errTag)
    (hfound : findTagTokenB s.tag_str tt = true)
    (hmode : s.mode = RMode.exe)
    (hneq : ¬ s.tag_str = tt)
    (hnest : s.nest = 1) :
    ∃ s2, retExit tt retval s = ExitOut.ok s2 ∧
      s2.nest = 0 ∧
      s2.tag_ptr = s.env_tag.getD 0 0 ∧
      s2.tag_str = s.tag_str.take (s.env_tag.getD 0 0) ∧
      s2.env_tag = s.env_tag ∧ s2.mode = s.mode ∧ s2.invoked = s.invoked ∧
      s2.entered = s.entered ∧ s2.frame_log = s.frame_log ∧
      s2.is_pause = s.is_pause := by
  have hft := retFindTagToken_pos tt s hfound
  have hrep : retExitReport retval (retFindTagToken tt s).1 (retFindTagToken tt s).2 =
      retTestLineFormat retval (s.clock - s.env_timer.getD (s.nest - 1) 0)
        { s with tag_found := s.tag_found + 1, clock := s.clock + 1 } := by
    rw [hft]
    show retExitReport retval true { s with tag_found := s.tag_found + 1 } = _
    unfold retExitReport
    rw [if_pos rfl]
    rw [if_pos ?hm]
    case hm =>
      show ¬ s.mode = RMode.search
      rw [hmode]
      decide
  obtain ⟨t1, t2, t3, t4, t5, t6, t7, t8, t9, t10, t11, t12, t13, t14⟩ :=
    retTestLineFormat_lineOnly retval (s.clock - s.env_timer.getD (s.nest - 1) 0)
      { s with tag_found := s.tag_found + 1, clock := s.clock + 1 }
  set sT := retTestLineFormat retval (s.clock - s.env_timer.getD (s.nest - 1) 0)
      { s with tag_found := s.tag_found + 1, clock := s.clock + 1 } with hsT
  clear_value sT
  have hfin := retExitFinish_terminal tt retval sT
    (by rw [t1]; exact hneq)
    (by rw [t3]; exact hnest)
    (by rw [t8]; exact Nat.succ_ne_zero s.tag_found)
  have hrm := retRemoveTag_eq 0 sT (by decide)
  have o1 := retPutLineFeed_outputOnly (retRemoveTag 0 sT)
  have o2 := outputOnly_putString_right RET_TEST_DONE_MSG o1
  have o3 := outputOnly_trans o2 (retSendBuffer_outputOnly _)
  obtain ⟨q1, q2, q3, q4, _, _, q7, _, _, q10, q11, _, q13, q14, _, _, _⟩ := o3
  refine ⟨retSendBuffer (retPutString RET_TEST_DONE_MSG
      (retPutLineFeed (retRemoveTag 0 sT))), ?_, ?_, ?_, ?_, ?_, ?_, ?_, ?_, ?_, ?_⟩
  · unfold retExit
    rw [if_neg hnerr, hrep, hfin]
  · exact q3.trans (by rw [hrm])
  · exact q2.trans (by rw [hrm, t4])
  · exact q1.trans (by rw [hrm, t1, t4])
  · exact q4.trans (by rw [hrm, t4])
  · exact q7.trans (by rw [hrm]; exact t7)
  · exact q10.trans (by rw [hrm]; exact t10)
  · exact q11.trans (by rw [hrm]; exact t11)
  · exact q13.trans (by rw [hrm]; exact t13)
  · exact q14.trans (by rw [hrm]; exact t14)

/-! ### Invariants of a root-targeted Execute run -/

/-- The standing state invariant of the walker between activations: Execute
mode, the tag cursor at the end of the tag string, and the environment array
at its static size. -/
def stInv (s : St) : Prop :=
  s.mode = RMode.exe ∧ s.tag_ptr = s.tag_str.length ∧
  s.env_tag.length = RET_MAX_NEST_SIZE

/-- Every node of the forest extends the path `l` to a shape that keeps the
root token present. -/
def tagShapeFor (l : List Char) (nodes : List Node) : Prop :=
  ∀ node ∈ nodes, tagShape (l ++ RET_TOKEN_DELIMITER :: nodeTag node)

/-- The environment slots up to `k` agree between two states. -/
def envBelow (k : Nat) (s s' : St) : Prop :=
  ∀ i, i ≤ k → s'.env_tag.getD i 0 = s.env_tag.getD i 0

/-- What entering an admissible node in a root-targeted Execute run does:
the subtree completes with its declared aggregate result (or aborts with the
assert longjmp of the frame), on the extended path one level deeper, having
invoked exactly the subtree's leaves in declared order. -/
def enterPost (node : Node) (s : St) (out : Out) : Prop :=
  out = Out.spin ∨ ∃ s',
    ((nodeAborts node = false ∧ out = Out.ok (nodeResult node) s') ∨
     (nodeAborts node = true ∧ out = Out.jump s.nest (-1) s')) ∧
    s'.mode = RMode.exe ∧
    s'.tag_str = s.tag_str ++ RET_TOKEN_DELIMITER :: nodeTag node ∧
    s'.tag_ptr = s.tag_ptr + ((nodeTag node).length + 1) ∧
    s'.nest = s.nest + 1 ∧
    s'.invoked = s.invoked ++ leafTags node ∧
    s'.env_tag.length = s.env_tag.length ∧
    envBelow s.nest s s' ∧
    s'.is_pause = s.is_pause

/-- What a list activation does: every leaf of the forest is invoked in
declared order, the aggregate is failure exactly when some leaf failed, and
the walking state comes back to the caller's frame. -/
def listPost (nodes : List Node) (s : St) (out : Out) : Prop :=
  out = Out.spin ∨ ∃ s',
    out = Out.ok (if anyFailL nodes = true then RetVal.fail else RetVal.pass) s' ∧
    s'.mode = RMode.exe ∧ s'.tag_str = s.tag_str ∧ s'.tag_ptr = s.tag_ptr ∧
    s'.nest = s.nest ∧ s'.invoked = s.invoked ++ leafTagsL nodes ∧
    s'.env_tag.length = s.env_tag.length ∧
    (∀ i, i < s.nest → s'.env_tag.getD i 0 = s.env_tag.getD i 0) ∧
    s'.is_pause = s.is_pause

/-- What the remaining loop of a frame does. -/
def loopPost (n : Nat) (nodes : List Node) (err : RetVal) (s : St) (out : Out) : Prop :=
  out = Out.spin ∨ ∃ s',
    out = Out.ok (if err = RetVal.fail ∨ anyFailL nodes = true then RetVal.fail
      else RetVal.pass) s' ∧
    s'.mode = RMode.exe ∧ s'.tag_str = s.tag_str ∧ s'.tag_ptr = s.tag_ptr ∧
    s'.nest = s.nest ∧ s'.invoked = s.invoked ++ leafTagsL nodes ∧
    s'.env_tag.length = s.env_tag.length ∧ envBelow n s s' ∧
    s'.is_pause = s.is_pause

/-- What the tail of a loop iteration does once the node's result is known:
retExit restores the path for this level and the loop finishes the remaining
nodes. -/
def handlePost (n : Nat) (rest : List Node) (err retval : RetVal) (s : St)
    (out : Out) : Prop :=
  out = Out.spin ∨ ∃ s',
    out = Out.ok (if retval = RetVal.pass
      then (if err = RetVal.fail ∨ anyFailL rest = true then RetVal.fail else RetVal.pass)
      else RetVal.fail) s' ∧
    s'.mode = RMode.exe ∧
    s'.tag_str = s.tag_str.take (s.env_tag.getD n 0) ∧
    s'.tag_ptr = s.env_tag.getD n 0 ∧
    s'.nest = n ∧
    s'.invoked = s.invoked ++ leafTagsL rest ∧
    s'.env_tag.length = s.env_tag.length ∧ envBelow n s s' ∧
    s'.is_pause = s.is_pause

/-- Precondition of entering a node in a root-targeted Execute run. -/
def enterPre (node : Node) (s : St) : Prop :=
  stInv s ∧ nodeFits node s.tag_ptr s.nest = true ∧
  tagShape (s.tag_str ++ RET_TOKEN_DELIMITER :: nodeTag node)

/-- Precondition of a list activation. -/
def listPre (nodes : List Node) (s : St) : Prop :=
  stInv s ∧ s.nest < RET_MAX_NEST_SIZE ∧
  nodeFitsL nodes s.tag_ptr s.nest = true ∧ tagShapeFor s.tag_str nodes

/-- Precondition of a loop activation. -/
def loopPre (n : Nat) (nodes : List Node) (err : RetVal) (s : St) : Prop :=
  stInv s ∧ n = s.nest ∧ s.nest < RET_MAX_NEST_SIZE ∧
  s.env_tag.getD n 0 = s.tag_ptr ∧
  nodeFitsL nodes s.tag_ptr s.nest = true ∧ tagShapeFor s.tag_str nodes ∧
  (err = RetVal.pass ∨ err = RetVal.fail)

/-- Precondition of a handle activation: the state still carries the
entered node's extension of the path, and the environment slot of the frame
holds the cursor to restore. -/
def handlePre (n : Nat) (rest : List Node) (err retval : RetVal) (s : St) : Prop :=
  s.mode = RMode.exe ∧ s.env_tag.length = RET_MAX_NEST_SIZE ∧
  s.tag_ptr = s.tag_str.length ∧ tagShape s.tag_str ∧
  s.nest = n + 1 ∧ n < RET_MAX_NEST_SIZE ∧
  s.env_tag.getD n 0 ≤ s.tag_str.length ∧
  nodeFitsL rest (s.env_tag.getD n 0) n = true ∧
  tagShapeFor (s.tag_str.take (s.env_tag.getD n 0)) rest ∧
  (err = RetVal.pass ∨ err = RetVal.fail) ∧ ¬ retval = RetVal.errTag

/-- Folding a node's result into the continuation's error flag agrees with
the forest aggregate. -/
theorem resultFold (node : Node) (rest : List Node) (err : RetVal) :
    (if nodeResult node = RetVal.pass
      then (if err = RetVal.fail ∨ anyFailL rest = true then RetVal.fail else RetVal.pass)
      else RetVal.fail) =
    (if err = RetVal.fail ∨ anyFailL (node :: rest) = true then RetVal.fail
      else RetVal.pass) := by
  by_cases hnp : nodeResult node = RetVal.pass
  · rw [if_pos hnp]
    have hnf : nodeAnyFail node = false := by
      cases hcb : nodeAnyFail node
      · rfl
      · exact absurd hnp ((nodeAnyFail_iff node).mp hcb)
    rw [anyFailL_cons, hnf, Bool.false_or]
  · rw [if_neg hnp]
    have hft : anyFailL (node :: rest) = true := by
      rw [anyFailL_cons, (nodeAnyFail_iff node).mpr hnp, Bool.true_or]
    rw [if_pos (Or.inr hft)]

/-- The updated error flag stays within pass/fail. -/
theorem err1_pf (err retval : RetVal) (herr : err = RetVal.pass ∨ err = RetVal.fail) :
    (if retval ≠ RetVal.pass then RetVal.fail else err) = RetVal.pass ∨
    (if retval ≠ RetVal.pass then RetVal.fail else err) = RetVal.fail := by
  by_cases hr : retval = RetVal.pass
  · rw [if_neg (fun hh => hh hr)]
    exact herr
  · rw [if_pos hr]
    exact Or.inr rfl

/-- Folding through the error-flag update: testing the updated flag after
the remaining loop equals the retExecuteList case split on the node's
result. -/
theorem err1Fold (err retval : RetVal) (rest : List Node) :
    (if (if retval ≠ RetVal.pass then RetVal.fail else err) = RetVal.fail ∨
        anyFailL rest = true then RetVal.fail else RetVal.pass) =
    (if retval = RetVal.pass
      then (if err = RetVal.fail ∨ anyFailL rest = true then RetVal.fail else RetVal.pass)
      else RetVal.fail) := by
  by_cases hr : retval = RetVal.pass
  · have h1 : (if retval ≠ RetVal.pass then RetVal.fail else err) = err :=
      if_neg (fun hh => hh hr)
    rw [h1, if_pos hr]
  · have h1 : (if retval ≠ RetVal.pass then RetVal.fail else err) = RetVal.fail :=
      if_pos hr
    rw [h1, if_pos (Or.inl rfl), if_neg hr]

/-- The master induction of a root-targeted Execute run: each activation of
the walker satisfies its postcondition whenever its precondition holds, at
every fuel. -/
theorem rootExeMaster : ∀ fuel : Nat,
    (∀ node s, enterPre node s →
      enterPost node s (step RET_ROOT_TAG fuel (.enter node s))) ∧
    (∀ nodes s, listPre nodes s →
      listPost nodes s (step RET_ROOT_TAG fuel (.list nodes s))) ∧
    (∀ n nodes err s, loopPre n nodes err s →
      loopPost n nodes err s (step RET_ROOT_TAG fuel (.loop n nodes err s))) ∧
    (∀ n rest err retval s, handlePre n rest err retval s →
      handlePost n rest err retval s (step RET_ROOT_TAG fuel (.handle n rest err retval s))) := by
  intro fuel
  induction fuel with
  | zero =>
    exact ⟨fun _ _ _ => Or.inl rfl, fun _ _ _ => Or.inl rfl,
      fun _ _ _ _ _ => Or.inl rfl, fun _ _ _ _ _ _ => Or.inl rfl⟩
  | succ fuel ih =>
    obtain ⟨ihEnter, ihList, ihLoop, ihHandle⟩ := ih
    refine ⟨?_, ?_, ?_, ?_⟩
    -- enter
    · intro node s hpre
      obtain ⟨⟨hmode, hptr, hlen⟩, hfits, hshape⟩ := hpre
      cases node with
      | leaf tag acts ret =>
        have hfits' : (decide (s.tag_ptr + (tag.length + 1) < RET_MAX_TAG_STRING_SIZE) &&
            decide (¬ ret = RetVal.errTag)) = true := hfits
        have hfit : s.tag_ptr + (tag.length + 1) < RET_MAX_TAG_STRING_SIZE :=
          of_decide_eq_true ((Bool.and_eq_true _ _).mp hfits').1
        obtain ⟨s1, hcase, m1, m2, m3, m4, m5, m6, m7⟩ :=
          enter_leaf_master RET_ROOT_TAG fuel tag acts ret s hmode hfit
            (findRoot_of_tagShape _ hshape)
        refine Or.inr ⟨s1, ?_, m1, m2, m3, m4, m5, ?_, ?_, m7⟩
        · rcases hcase with ⟨hf, heq⟩ | ⟨hf, heq⟩
          · exact Or.inl ⟨hf, by rw [nodeResult_of_noAbort tag acts ret hf]; exact heq⟩
          · exact Or.inr ⟨hf, heq⟩
        · rw [m6]
        · intro i _
          rw [m6]
      | branch tag cs =>
        have hfits' : (decide (s.tag_ptr + (tag.length + 1) < RET_MAX_TAG_STRING_SIZE) &&
            decide (s.nest + 1 < RET_MAX_NEST_SIZE) &&
            nodeFitsL cs (s.tag_ptr + (tag.length + 1)) (s.nest + 1)) = true := hfits
        have h12 := (Bool.and_eq_true _ _).mp hfits'
        have hfit : s.tag_ptr + (tag.length + 1) < RET_MAX_TAG_STRING_SIZE :=
          of_decide_eq_true ((Bool.and_eq_true _ _).mp h12.1).1
        have hn1 : s.nest + 1 < RET_MAX_NEST_SIZE :=
          of_decide_eq_true ((Bool.and_eq_true _ _).mp h12.1).2
        have hcs : nodeFitsL cs (s.tag_ptr + (tag.length + 1)) (s.nest + 1) = true := h12.2
        have hstep := enter_branch_step RET_ROOT_TAG fuel tag cs s hmode hfit
          (findRoot_of_tagShape _ hshape)
        rw [hstep]
        set sD : St := { s with
          tag_str := s.tag_str ++ RET_TOKEN_DELIMITER :: tag
          tag_ptr := s.tag_ptr + (tag.length + 1)
          nest := s.nest + 1
          entered := s.entered ++ [tag]
          tag_found := s.tag_found + 1
          env_timer := s.env_timer.set s.nest s.clock
          clock := s.clock + 1 } with hsD
        have hpreL : listPre cs sD := by
          refine ⟨⟨hmode, ?_, hlen⟩, hn1, hcs, ?_⟩
          · show s.tag_ptr + (tag.length + 1) =
              (s.tag_str ++ RET_TOKEN_DELIMITER :: tag).length
            rw [List.length_append, List.length_cons]
            omega
          · intro c hc
            exact tagShape_append (s.tag_str ++ RET_TOKEN_DELIMITER :: tag) hshape (nodeTag c)
        rcases ihList cs sD hpreL with hsp | ⟨s1, hout, p2, p3, p4, p5, p6, p7, p8, p9⟩
        · exact Or.inl hsp
        · refine Or.inr ⟨s1, Or.inl ⟨rfl, hout⟩, p2, p3, p4, p5, p6, p7, ?_, p9⟩
          intro i hi
          exact p8 i (Nat.lt_succ_of_le hi)
    -- list
    · intro nodes s hpre
      obtain ⟨⟨hmode, hptr, hlen⟩, hn6, hfits, hshape⟩ := hpre
      rw [list_step RET_ROOT_TAG fuel nodes s hn6]
      set sE : St := { s with env_tag := s.env_tag.set s.nest s.tag_ptr } with hsE
      have hpreL : loopPre s.nest nodes RetVal.pass sE := by
        refine ⟨⟨hmode, hptr, ?_⟩, rfl, hn6, ?_, hfits, hshape, Or.inl rfl⟩
        · show (s.env_tag.set s.nest s.tag_ptr).length = RET_MAX_NEST_SIZE
          rw [List.length_set]
          exact hlen
        · show (s.env_tag.set s.nest s.tag_ptr).getD s.nest 0 = s.tag_ptr
          exact getD_set_self s.env_tag s.nest s.tag_ptr (by rw [hlen]; exact hn6)
      rcases ihLoop s.nest nodes RetVal.pass sE hpreL with
        hsp | ⟨s1, hout, q2, q3, q4, q5, q6, q7, q8, q9⟩
      · rw [hsp]
        exact Or.inl rfl
      · rw [hout]
        have hcond : (if RetVal.pass = RetVal.fail ∨ anyFailL nodes = true then RetVal.fail
            else RetVal.pass) = (if anyFailL nodes = true then RetVal.fail
            else RetVal.pass) := by
          by_cases hA : anyFailL nodes = true
          · rw [if_pos (Or.inr hA), if_pos hA]
          · rw [if_neg ?h1, if_neg hA]
            case h1 =>
              rintro (hc | hc)
              · exact RetVal.noConfusion hc
              · exact hA hc
        rw [hcond]
        refine Or.inr ⟨{ s1 with is_pause := s.is_pause }, rfl, q2, q3, q4, q5, q6, ?_, ?_, rfl⟩
        · show s1.env_tag.length = s.env_tag.length
          rw [q7, hsE]
          exact List.length_set s.env_tag s.nest s.tag_ptr
        · intro i hi
          show s1.env_tag.getD i 0 = s.env_tag.getD i 0
          exact (q8 i (Nat.le_of_lt hi)).trans
            (getD_set_ne s.env_tag s.nest i s.tag_ptr (by omega))
    -- loop
    · intro n nodes err s hpre
      obtain ⟨⟨hmode, hptr, hlen⟩, hn, hn6, henv, hfits, hshape, herr⟩ := hpre
      cases nodes with
      | nil =>
        rw [loop_nil RET_ROOT_TAG fuel n err s]
        refine Or.inr ⟨s, ?_, hmode, rfl, rfl, rfl, (List.append_nil s.invoked).symm, rfl,
          fun i _ => rfl, rfl⟩
        rcases herr with rfl | rfl
        · rw [if_neg ?h2]
          case h2 =>
            rintro (hc | hc)
            · exact RetVal.noConfusion hc
            · exact Bool.noConfusion hc
        · rw [if_pos (Or.inl rfl)]
      | cons node rest =>
        have hfits' : (nodeFits node s.tag_ptr s.nest &&
            nodeFitsL rest s.tag_ptr s.nest) = true := hfits
        have hfN := ((Bool.and_eq_true _ _).mp hfits').1
        have hfR := ((Bool.and_eq_true _ _).mp hfits').2
        have hshN := hshape node (List.mem_cons_self node rest)
        have hshR : tagShapeFor s.tag_str rest :=
          fun c hc => hshape c (List.mem_cons_of_mem node hc)
        rcases ihEnter node s ⟨⟨hmode, hptr, hlen⟩, hfN, hshN⟩ with
          hsp | ⟨s1, hcase, e2, e3, e4, e5, e6, e7, e8, e9⟩
        · rw [loop_step_spin RET_ROOT_TAG fuel n node rest err s hsp]
          exact Or.inl rfl
        · have hgd : s1.env_tag.getD n 0 = s.tag_ptr :=
            (e8 n (by omega)).trans henv
          have hpreH : ∀ retval : RetVal, ¬ retval = RetVal.errTag →
              handlePre n rest err retval s1 := by
            intro retval hnretv
            refine ⟨e2, e7.trans hlen, ?_, ?_, ?_, by omega, ?_, ?_, ?_, herr, hnretv⟩
            · rw [e4, e3, List.length_append, List.length_cons, hptr]
            · rw [e3]
              exact hshN
            · rw [e5, hn]
            · rw [hgd, e3, List.length_append, List.length_cons, hptr]
              omega
            · rw [hgd, hn]
              exact hfR
            · rw [hgd, e3, hptr, List.take_left]
              exact hshR
          rcases hcase with ⟨hnab, heq⟩ | ⟨hab, heq⟩
          · -- normal return of the node
            rw [loop_step_ok RET_ROOT_TAG fuel n node rest err (nodeResult node) s s1 heq]
            rcases ihHandle n rest err (nodeResult node) s1
                (hpreH (nodeResult node) (nodeResult_ne_errTag node s.tag_ptr s.nest hfN)) with
              hsp | ⟨s', r1, r2, r3, r4, r5, r6, r7, r8, r9⟩
            · exact Or.inl hsp
            · refine Or.inr ⟨s', ?_, r2, ?_, ?_, ?_, ?_, ?_, ?_, r9.trans e9⟩
              · rw [← resultFold node rest err]
                exact r1
              · rw [r3, hgd, e3, hptr, List.take_left]
              · rw [r4, hgd]
              · rw [r5, hn]
              · rw [r6, e6, List.append_assoc, leafTagsL_cons]
              · rw [r7, e7]
              · intro i hi
                exact (r8 i hi).trans (e8 i (by omega))
          · -- the node aborted through the assert longjmp at this frame
            rw [← hn] at heq
            rw [loop_step_jump_catch RET_ROOT_TAG fuel n node rest err (-1) s s1 heq]
            rw [show longjmpRetval (-1) = RetVal.fail from by decide]
            rcases ihHandle n rest err RetVal.fail s1
                (hpreH RetVal.fail (by decide)) with
              hsp | ⟨s', r1, r2, r3, r4, r5, r6, r7, r8, r9⟩
            · exact Or.inl hsp
            · refine Or.inr ⟨s', ?_, r2, ?_, ?_, ?_, ?_, ?_, ?_, r9.trans e9⟩
              · have hft : anyFailL (node :: rest) = true := by
                  rw [anyFailL_cons, nodeAborts_anyFail node hab, Bool.true_or]
                rw [if_pos (Or.inr hft)]
                exact r1
              · rw [r3, hgd, e3, hptr, List.take_left]
              · rw [r4, hgd]
              · rw [r5, hn]
              · rw [r6, e6, List.append_assoc, leafTagsL_cons]
              · rw [r7, e7]
              · intro i hi
                exact (r8 i hi).trans (e8 i (by omega))
    -- handle
    · intro n rest err retval s hpre
      obtain ⟨hmode, hlen, hptr, hshape, hnest, hn6, hp0, hfitsR, hshapeR, herr, hnerr⟩ := hpre
      have hfound : findTagTokenB s.tag_str RET_ROOT_TAG = true :=
        findRoot_of_tagShape s.tag_str hshape
      have hneq : ¬ s.tag_str = RET_ROOT_TAG := tagShape_ne_root s.tag_str hshape
      by_cases hn0 : n = 0
      · subst hn0
        obtain ⟨s2, hex, t2, t3, t4, t5, t6, t7, t8, t9, t10⟩ :=
          retExit_exe_terminal RET_ROOT_TAG retval
            { s with frame_log := s.frame_log ++ [(0, retval)] } hnerr hfound hmode hneq hnest
        rw [handle_step_exit_ok RET_ROOT_TAG fuel 0 rest err retval s s2 hex]
        have hpreL : loopPre 0 rest (if retval ≠ RetVal.pass then RetVal.fail else err) s2 := by
          refine ⟨⟨t6.trans hmode, ?_, ?_⟩, t2.symm, ?_, ?_, ?_, ?_, err1_pf err retval herr⟩
          · rw [t3, t4, List.length_take]
            show s.env_tag.getD 0 0 = min (s.env_tag.getD 0 0) s.tag_str.length
            omega
          · rw [t5]
            exact hlen
          · rw [t2]
            decide
          · rw [t5, t3]
          · rw [t3, t2]
            exact hfitsR
          · rw [t4]
            exact hshapeR
        rcases ihLoop 0 rest (if retval ≠ RetVal.pass then RetVal.fail else err) s2 hpreL with
          hsp | ⟨s', u1, u2, u3, u4, u5, u6, u7, u8, u9⟩
        · exact Or.inl hsp
        · refine Or.inr ⟨s', ?_, u2, ?_, ?_, ?_, ?_, ?_, ?_, u9.trans t10⟩
          · rw [err1Fold err retval rest] at u1
            exact u1
          · rw [u3, t4]
          · rw [u4, t3]
          · rw [u5, t2]
          · rw [u6, t7]
          · rw [u7, t5]
          · intro i hi
            exact (u8 i hi).trans (by rw [t5])
      · obtain ⟨s2, hstep2, p1, p2, p3, p4, p5, p6, p7, p8, p9, p10, p11, p12, p13, p14, p15⟩ :=
          handle_exit_inner RET_ROOT_TAG fuel n rest err retval s hnerr hfound hmode hneq
            (by omega) (by omega)
        have hsn : s.nest - 1 = n := by omega
        rw [hsn] at p1 p2 p3
        rw [hstep2]
        have hpreL : loopPre n rest (if retval ≠ RetVal.pass then RetVal.fail else err) s2 := by
          refine ⟨⟨p5.trans hmode, ?_, ?_⟩, p1.symm, ?_, ?_, ?_, ?_, err1_pf err retval herr⟩
          · rw [p2, p3, List.length_take]
            omega
          · rw [p4]
            exact hlen
          · rw [p1]
            exact hn6
          · rw [p4, p2]
          · rw [p2, p1]
            exact hfitsR
          · rw [p3]
            exact hshapeR
        rcases ihLoop n rest (if retval ≠ RetVal.pass then RetVal.fail else err) s2 hpreL with
          hsp | ⟨s', u1, u2, u3, u4, u5, u6, u7, u8, u9⟩
        · exact Or.inl hsp
        · refine Or.inr ⟨s', ?_, u2, ?_, ?_, ?_, ?_, ?_, ?_, u9.trans p10⟩
          · rw [err1Fold err retval rest] at u1
            exact u1
          · rw [u3, p3]
          · rw [u4, p2]
          · rw [u5, p1]
          · rw [u6, p6]
          · rw [u7, p4]
          · intro i hi
            exact (u8 i hi).trans (by rw [p4])

/-- A root-targeted Execute run of an admissible forest invokes exactly the
leaves of the forest, in declared depth-first order, and its aggregate
result is failure exactly when some leaf produced a non-pass result. -/
theorem retStart_root_exe (children : List Node) (fuel : Nat) (r : RetVal) (s' : St)
    (hfit : nodeFitsL children 5 1 = true)
    (hrun : retStart RET_ROOT_TAG RMode.exe children fuel = Out.ok r s') :
    s'.invoked = leafTagsL children ∧
    r = (if anyFailL children = true then RetVal.fail else RetVal.pass) := by
  have hfit0 : nodeFitsL [Node.branch RET_ROOT_TAG children] (initialSt RMode.exe).tag_ptr
      (initialSt RMode.exe).nest = true := by
    show ((decide (0 + (RET_ROOT_TAG.length + 1) < RET_MAX_TAG_STRING_SIZE) &&
        decide (0 + 1 < RET_MAX_NEST_SIZE) &&
        nodeFitsL children (0 + (RET_ROOT_TAG.length + 1)) (0 + 1)) && true) = true
    rw [show (0 + (RET_ROOT_TAG.length + 1)) = 5 from rfl, show (0 + 1) = 1 from rfl, hfit]
    decide
  have hshp0 : tagShapeFor (initialSt RMode.exe).tag_str
      [Node.branch RET_ROOT_TAG children] := by
    intro node hm
    rw [List.mem_singleton] at hm
    subst hm
    exact ⟨[], rfl, Or.inl rfl⟩
  have hpre : listPre [Node.branch RET_ROOT_TAG children] (initialSt RMode.exe) :=
    ⟨⟨rfl, rfl, rfl⟩, by decide, hfit0, hshp0⟩
  have hpost := (rootExeMaster fuel).2.1 [Node.branch RET_ROOT_TAG children]
    (initialSt RMode.exe) hpre
  unfold retStart at hrun
  rcases hpost with hsp | ⟨s1, hout, _, _, _, _, q6, _, _, _⟩
  · rw [hrun] at hsp
    exact Out.noConfusion hsp
  · rw [hrun] at hout
    rw [Out.ok.injEq] at hout
    obtain ⟨hr, hs⟩ := hout
    constructor
    · rw [hs, q6, leafTagsL_cons]
      show ([] : List (List Char)) ++ (leafTagsL children ++ []) = leafTagsL children
      rw [List.nil_append, List.append_nil]
    · have hA : anyFailL [Node.branch RET_ROOT_TAG children] = anyFailL children := by
        rw [anyFailL_cons]
        show (anyFailL children || false) = anyFailL children
        rw [Bool.or_false]
      rw [hr]
      rw [hA]

/-! ### Buffer primitives: stores, drops and the terminal DONE flush -/

/-- A store into a full buffer is silently dropped (ret.c lines 608-612:
the index check guards the store; no error is raised). -/
theorem retPutChar_full (c : Char) (s : St) (h : ¬ s.next_in < RET_REPORT_BUF_SIZE) :
    retPutChar c s = { s with dropped := s.dropped + 1 } := by
  unfold retPutChar
  rw [if_neg h]

/-- A non-linefeed character with room is stored and never transmits. -/
theorem retPutChar_store (c : Char) (s : St) (hc : ¬ c = '\n')
    (hlt : s.next_in < RET_REPORT_BUF_SIZE) :
    retPutChar c s = { s with buf_rev := c :: s.buf_rev, next_in := s.next_in + 1 } := by
  unfold retPutChar
  rw [if_pos hlt, if_neg (fun hh => hc hh.1)]

/-- retSendBuffer on a non-empty buffer: NUL-terminate (out of bounds when
the cursor reached the capacity), transmit, reset. -/
theorem retSendBuffer_ne (s : St) (h : ¬ s.next_in = 0) :
    retSendBuffer s =
      { s with
        oob := s.oob || decide (RET_REPORT_BUF_SIZE ≤ s.next_in)
        sent_rev := s.buf_rev.reverse :: s.sent_rev
        buf_rev := []
        next_in := 0 } := by
  unfold retSendBuffer
  rw [if_pos h]

/-- The linefeed flushes at once when the pause flag is set. -/
theorem putLF_pause (s : St) (hp : s.is_pause = true)
    (hlt : s.next_in < RET_REPORT_BUF_SIZE) :
    retPutLineFeed s =
      retSendBuffer { s with buf_rev := '\n' :: s.buf_rev, next_in := s.next_in + 1 } := by
  show retPutChar '\n' s = _
  unfold retPutChar
  rw [if_pos hlt, if_pos ⟨rfl, hp⟩]

/-- The linefeed is only stored when the pause flag is off. -/
theorem putLF_nopause (s : St) (hp : s.is_pause = false)
    (hlt : s.next_in < RET_REPORT_BUF_SIZE) :
    retPutLineFeed s = { s with buf_rev := '\n' :: s.buf_rev, next_in := s.next_in + 1 } := by
  show retPutChar '\n' s = _
  unfold retPutChar
  rw [if_pos hlt, if_neg (fun hh => by rw [hp] at hh; exact Bool.noConfusion hh.2)]

/-- Storing a linefeed-free string that fits in the remaining room: the
characters land in the buffer in order and nothing is transmitted. -/
theorem putString_noLF_room (str : List Char) (hstr : ∀ c ∈ str, ¬ c = '\n') :
    ∀ x : St, x.next_in + str.length ≤ RET_REPORT_BUF_SIZE →
      retPutString str x =
        { x with buf_rev := str.reverse ++ x.buf_rev, next_in := x.next_in + str.length } := by
  induction str with
  | nil =>
    intro x _
    show x = { x with buf_rev := [] ++ x.buf_rev, next_in := x.next_in + 0 }
    rfl
  | cons c t ih =>
    intro x h
    rw [List.length_cons] at h
    show retPutString t (retPutChar c x) =
      { x with buf_rev := (c :: t).reverse ++ x.buf_rev, next_in := x.next_in + (t.length + 1) }
    rw [List.reverse_cons, List.append_assoc,
      show x.next_in + (t.length + 1) = x.next_in + 1 + t.length from by omega,
      retPutChar_store c x (hstr c (List.mem_cons_self c t)) (by omega),
      ih (fun c' hc' => hstr c' (List.mem_cons_of_mem c hc'))
        { x with buf_rev := c :: x.buf_rev, next_in := x.next_in + 1 }
        (by show x.next_in + 1 + t.length ≤ RET_REPORT_BUF_SIZE; omega)]
    rfl

/-- Finding the needle in a suffix finds it in the whole string. -/
theorem strstrIdx_append_isSome (h t needle : List Char)
    (ht : (strstrIdx t needle).isSome = true) :
    (strstrIdx (h ++ t) needle).isSome = true := by
  induction h with
  | nil => exact ht
  | cons a r ih =>
    show (strstrIdx (a :: (r ++ t)) needle).isSome = true
    unfold strstrIdx
    by_cases hp : needle.isPrefixOf (a :: (r ++ t)) = true
    · rw [if_pos hp]
      rfl
    · rw [if_neg hp]
      rcases ho : strstrIdx (r ++ t) needle with _ | v
      · rw [ho] at ih
        exact Bool.noConfusion ih
      · show ((strstrIdx (r ++ t) needle).map (· + 1)).isSome = true
        rw [ho]
        rfl

/-- Flushing after the DONE sentinel was stored with room: exactly one more
transmission, carrying the buffer content ending in the sentinel. -/
theorem doneFlush_core (w : St)
    (hN : w.next_in + RET_TEST_DONE_MSG.length ≤ RET_REPORT_BUF_SIZE) :
    sentList (retSendBuffer (retPutString RET_TEST_DONE_MSG w)) =
      sentList w ++ [(RET_TEST_DONE_MSG.reverse ++ w.buf_rev).reverse] := by
  rw [putString_noLF_room RET_TEST_DONE_MSG (by decide) w hN,
    retSendBuffer_ne
      ({ w with
          buf_rev := RET_TEST_DONE_MSG.reverse ++ w.buf_rev,
          next_in := w.next_in + RET_TEST_DONE_MSG.length } : St)
      (by
        show ¬ w.next_in + RET_TEST_DONE_MSG.length = 0
        rw [show RET_TEST_DONE_MSG.length = 4 from rfl]
        omega)]
  show ((RET_TEST_DONE_MSG.reverse ++ w.buf_rev).reverse :: w.sent_rev).reverse =
    w.sent_rev.reverse ++ [(RET_TEST_DONE_MSG.reverse ++ w.buf_rev).reverse]
  rw [List.reverse_cons]

/-- The terminal linefeed-DONE-flush sequence with room in the buffer: the
transmissions grow by new strings one of which contains the DONE sentinel
(one or two strings, depending on whether the linefeed itself flushed). -/
theorem sendDone_with_room (s : St) (hroom : s.next_in + 5 ≤ RET_REPORT_BUF_SIZE) :
    ∃ pre, sentList (retSendBuffer (retPutString RET_TEST_DONE_MSG (retPutLineFeed s))) =
        sentList s ++ pre ∧
      ∃ l, l ∈ pre ∧ (strstrIdx l RET_TEST_DONE_MSG).isSome = true := by
  by_cases hp : s.is_pause = true
  · have hw1 : retPutLineFeed s =
        retSendBuffer ({ s with buf_rev := '\n' :: s.buf_rev, next_in := s.next_in + 1 } : St) :=
      putLF_pause s hp (by omega)
    rw [retSendBuffer_ne ({ s with buf_rev := '\n' :: s.buf_rev, next_in := s.next_in + 1 } : St)
      (by show ¬ s.next_in + 1 = 0; omega)] at hw1
    have hcore := doneFlush_core (retPutLineFeed s)
      (by rw [hw1]; show 0 + RET_TEST_DONE_MSG.length ≤ RET_REPORT_BUF_SIZE; decide)
    refine ⟨[('\n' :: s.buf_rev).reverse,
      (RET_TEST_DONE_MSG.reverse ++ (retPutLineFeed s).buf_rev).reverse], ?_, ?_⟩
    · rw [hcore, hw1]
      show ((('\n' :: s.buf_rev).reverse :: s.sent_rev)).reverse ++
          [(RET_TEST_DONE_MSG.reverse ++ ([] : List Char)).reverse] =
        s.sent_rev.reverse ++
          [('\n' :: s.buf_rev).reverse,
            (RET_TEST_DONE_MSG.reverse ++ ([] : List Char)).reverse]
      rw [List.reverse_cons, List.append_assoc]
      rfl
    · refine ⟨(RET_TEST_DONE_MSG.reverse ++ (retPutLineFeed s).buf_rev).reverse,
        List.mem_cons_of_mem _ (List.mem_cons_self _ _), ?_⟩
      rw [hw1]
      show (strstrIdx ((RET_TEST_DONE_MSG.reverse ++ ([] : List Char)).reverse)
        RET_TEST_DONE_MSG).isSome = true
      decide
  · have hp' : s.is_pause = false := by
      cases hb : s.is_pause
      · rfl
      · exact absurd hb hp
    have hw2 : retPutLineFeed s =
        { s with buf_rev := '\n' :: s.buf_rev, next_in := s.next_in + 1 } :=
      putLF_nopause s hp' (by omega)
    have hcore := doneFlush_core (retPutLineFeed s)
      (by
        rw [hw2]
        show s.next_in + 1 + RET_TEST_DONE_MSG.length ≤ RET_REPORT_BUF_SIZE
        rw [show RET_TEST_DONE_MSG.length = 4 from rfl]
        omega)
    refine ⟨[(RET_TEST_DONE_MSG.reverse ++ (retPutLineFeed s).buf_rev).reverse], ?_, ?_⟩
    · rw [hcore, hw2]
      rfl
    · refine ⟨(RET_TEST_DONE_MSG.reverse ++ (retPutLineFeed s).buf_rev).reverse,
        List.mem_cons_self _ _, ?_⟩
      rw [hw2]
      show (strstrIdx ((RET_TEST_DONE_MSG.reverse ++ ('\n' :: s.buf_rev)).reverse)
        RET_TEST_DONE_MSG).isSome = true
      rw [List.reverse_append, List.reverse_reverse]
      exact strstrIdx_append_isSome _ _ _ (by decide)
/-- Two pass leaves under one branch. -/
def treeAB : List Node :=
  [Node.branch ("B".toList) [Node.leaf ("L1".toList) [] RetVal.pass, Node.leaf ("L2".toList) [] RetVal.pass]]

/-- A search run over treeAB targeting the root tag. -/
def c3run : Out := retStart RET_ROOT_TAG RMode.search treeAB 12

def c3s0 : St :=
  { next_line_number := 0,
    tag_str := ("".toList),
    tag_ptr := 0,
    nest := 0,
    env_tag := [0, 0, 0, 0, 0, 0],
    env_timer := [0, 0, 0, 0, 0, 0],
    next_in := 0,
    buf_rev := ("".toList),
    is_pause := true,
    sent_rev := [],
    clock := 0,
    mode := RMode.search,
    tag_found := 0,
    p_retval := 0,
    invoked := [],
    entered := [],
    marks := [],
    frame_log := [],
    ilines := 0,
    tlines := 0,
    slines := 0,
    dropped := 0,
    oob := false }

def c3s1 : St :=
  { next_line_number := 0,
    tag_str := ("".toList),
    tag_ptr := 0,
    nest := 0,
    env_tag := [0, 0, 0, 0, 0, 0],
    env_timer := [0, 0, 0, 0, 0, 0],
    next_in := 0,
    buf_rev := ("".toList),
    is_pause := true,
    sent_rev := [],
    clock := 0,
    mode := RMode.search,
    tag_found := 0,
    p_retval := 0,
    invoked := [],
    entered := [],
    marks := [],
    frame_log := [],
    ilines := 0,
    tlines := 0,
    slines := 0,
    dropped := 0,
    oob := false }

def c3s2 : St :=
  { next_line_number := 0,
    tag_str := ("@ROOT".toList),
    tag_ptr := 5,
    nest := 1,
    env_tag := [0, 0, 0, 0, 0, 0],
    env_timer := [0, 0, 0, 0, 0, 0],
    next_in := 0,
    buf_rev := ("".toList),
    is_pause := true,
    sent_rev := [],
    clock := 0,
    mode := RMode.search,
    tag_found := 0,
    p_retval := 0,
    invoked := [],
    entered := [("ROOT".toList)],
    marks := [],
    frame_log := [],
    ilines := 0,
    tlines := 0,
    slines := 0,
    dropped := 0,
    oob := false }

def c3s3 : St :=
  { next_line_number := 0,
    tag_str := ("@ROOT".toList),
    tag_ptr := 5,
    nest := 1,
    env_tag := [0, 5, 0, 0, 0, 0],
    env_timer := [0, 0, 0, 0, 0, 0],
    next_in := 0,
    buf_rev := ("".toList),
    is_pause := true,
    sent_rev := [],
    clock := 0,
    mode := RMode.search,
    tag_found := 0,
    p_retval := 0,
    invoked := [],
    entered := [("ROOT".toList)],
    marks := [],
    frame_log := [],
    ilines := 0,
    tlines := 0,
    slines := 0,
    dropped := 0,
    oob := false }

def c3s4 : St :=
  { next_line_number := 0,
    tag_str := ("@ROOT@B".toList),
    tag_ptr := 7,
    nest := 2,
    env_tag := [0, 5, 0, 0, 0, 0],
    env_timer := [0, 0, 0, 0, 0, 0],
    next_in := 0,
    buf_rev := ("".toList),
    is_pause := true,
    sent_rev := [],
    clock := 0,
    mode := RMode.search,
    tag_found := 0,
    p_retval := 0,
    invoked := [],
    entered := [("ROOT".toList), ("B".toList)],
    marks := [],
    frame_log := [],
    ilines := 0,
    tlines := 0,
    slines := 0,
    dropped := 0,
    oob := false }

def c3s5 : St :=
  { next_line_number := 0,
    tag_str := ("@ROOT@B".toList),
    tag_ptr := 7,
    nest := 2,
    env_tag := [0, 5, 7, 0, 0, 0],
    env_timer := [0, 0, 0, 0, 0, 0],
    next_in := 0,
    buf_rev := ("".toList),
    is_pause := true,
    sent_rev := [],
    clock := 0,
    mode := RMode.search,
    tag_found := 0,
    p_retval := 0,
    invoked := [],
    entered := [("ROOT".toList), ("B".toList)],
    marks := [],
    frame_log := [],
    ilines := 0,
    tlines := 0,
    slines := 0,
    dropped := 0,
    oob := false }

def c3s6 : St :=
  { next_line_number := 0,
    tag_str := ("@ROOT@B@L1".toList),
    tag_ptr := 10,
    nest := 3,
    env_tag := [0, 5, 7, 0, 0, 0],
    env_timer := [0, 0, 0, 0, 0, 0],
    next_in := 0,
    buf_rev := ("".toList),
    is_pause := true,
    sent_rev := [],
    clock := 0,
    mode := RMode.search,
    tag_found := 0,
    p_retval := 0,
    invoked := [],
    entered := [("ROOT".toList), ("B".toList), ("L1".toList)],
    marks := [],
    frame_log := [],
    ilines := 0,
    tlines := 0,
    slines := 0,
    dropped := 0,
    oob := false }

def c3s7 : St :=
  { next_line_number := 1,
    tag_str := ("@ROOT@B".toList),
    tag_ptr := 7,
    nest := 2,
    env_tag := [0, 5, 7, 0, 0, 0],
    env_timer := [0, 0, 0, 0, 0, 0],
    next_in := 30,
    buf_rev := ("\n1L@B@TOOR@,      ,    ,0   ,S".toList),
    is_pause := true,
    sent_rev := [],
    clock := 0,
    mode := RMode.search,
    tag_found := 1,
    p_retval := 0,
    invoked := [],
    entered := [("ROOT".toList), ("B".toList), ("L1".toList)],
    marks := [],
    frame_log := [(2, RetVal.pass)],
    ilines := 0,
    tlines := 0,
    slines := 1,
    dropped := 0,
    oob := false }

def c3s8 : St :=
  { next_line_number := 1,
    tag_str := ("@ROOT@B@L2".toList),
    tag_ptr := 10,
    nest := 3,
    env_tag := [0, 5, 7, 0, 0, 0],
    env_timer := [0, 0, 0, 0, 0, 0],
    next_in := 30,
    buf_rev := ("\n1L@B@TOOR@,      ,    ,0   ,S".toList),
    is_pause := true,
    sent_rev := [],
    clock := 0,
    mode := RMode.search,
    tag_found := 1,
    p_retval := 0,
    invoked := [],
    entered := [("ROOT".toList), ("B".toList), ("L1".toList), ("L2".toList)],
    marks := [],
    frame_log := [(2, RetVal.pass)],
    ilines := 0,
    tlines := 0,
    slines := 1,
    dropped := 0,
    oob := false }

def c3s9 : St :=
  { next_line_number := 2,
    tag_str := ("@ROOT@B".toList),
    tag_ptr := 7,
    nest := 2,
    env_tag := [0, 5, 7, 0, 0, 0],
    env_timer := [0, 0, 0, 0, 0, 0],
    next_in := 60,
    buf_rev := ("\n2L@B@TOOR@,      ,    ,1   ,S\n1L@B@TOOR@,      ,    ,0   ,S".toList),
    is_pause := true,
    sent_rev := [],
    clock := 0,
    mode := RMode.search,
    tag_found := 2,
    p_retval := 0,
    invoked := [],
    entered := [("ROOT".toList), ("B".toList), ("L1".toList), ("L2".toList)],
    marks := [],
    frame_log := [(2, RetVal.pass), (2, RetVal.pass)],
    ilines := 0,
    tlines := 0,
    slines := 2,
    dropped := 0,
    oob := false }

def c3s10 : St :=
  { next_line_number := 2,
    tag_str := ("@ROOT@B".toList),
    tag_ptr := 7,
    nest := 2,
    env_tag := [0, 5, 7, 0, 0, 0],
    env_timer := [0, 0, 0, 0, 0, 0],
    next_in := 60,
    buf_rev := ("\n2L@B@TOOR@,      ,    ,1   ,S\n1L@B@TOOR@,      ,    ,0   ,S".toList),
    is_pause := true,
    sent_rev := [],
    clock := 0,
    mode := RMode.search,
    tag_found := 2,
    p_retval := 0,
    invoked := [],
    entered := [("ROOT".toList), ("B".toList), ("L1".toList), ("L2".toList)],
    marks := [],
    frame_log := [(2, RetVal.pass), (2, RetVal.pass)],
    ilines := 0,
    tlines := 0,
    slines := 2,
    dropped := 0,
    oob := false }

def c3s11 : St :=
  { next_line_number := 3,
    tag_str := ("@ROOT".toList),
    tag_ptr := 5,
    nest := 1,
    env_tag := [0, 5, 7, 0, 0, 0],
    env_timer := [0, 0, 0, 0, 0, 0],
    next_in := 87,
    buf_rev := ("\nB@TOOR@,      ,    ,2   ,S\n2L@B@TOOR@,      ,    ,1   ,S\n1L@B@TOOR@,      ,    ,0   ,S".toList),
    is_pause := true,
    sent_rev := [],
    clock := 0,
    mode := RMode.search,
    tag_found := 3,
    p_retval := 0,
    invoked := [],
    entered := [("ROOT".toList), ("B".toList), ("L1".toList), ("L2".toList)],
    marks := [],
    frame_log := [(2, RetVal.pass), (2, RetVal.pass), (1, RetVal.pass)],
    ilines := 0,
    tlines := 0,
    slines := 3,
    dropped := 0,
    oob := false }

def c3s12 : St :=
  { next_line_number := 3,
    tag_str := ("@ROOT".toList),
    tag_ptr := 5,
    nest := 1,
    env_tag := [0, 5, 7, 0, 0, 0],
    env_timer := [0, 0, 0, 0, 0, 0],
    next_in := 87,
    buf_rev := ("\nB@TOOR@,      ,    ,2   ,S\n2L@B@TOOR@,      ,    ,1   ,S\n1L@B@TOOR@,      ,    ,0   ,S".toList),
    is_pause := true,
    sent_rev := [],
    clock := 0,
    mode := RMode.search,
    tag_found := 3,
    p_retval := 0,
    invoked := [],
    entered := [("ROOT".toList), ("B".toList), ("L1".toList), ("L2".toList)],
    marks := [],
    frame_log := [(2, RetVal.pass), (2, RetVal.pass), (1, RetVal.pass)],
    ilines := 0,
    tlines := 0,
    slines := 3,
    dropped := 0,
    oob := false }

def c3s13 : St :=
  { next_line_number := 4,
    tag_str := ("".toList),
    tag_ptr := 0,
    nest := 0,
    env_tag := [0, 5, 7, 0, 0, 0],
    env_timer := [0, 0, 0, 0, 0, 0],
    next_in := 0,
    buf_rev := ("".toList),
    is_pause := true,
    sent_rev := [("DONE".toList), ("S,   0,    ,      ,@ROOT@B@L1\nS,   1,    ,      ,@ROOT@B@L2\nS,   2,    ,      ,@ROOT@B\nS,   3,    ,      ,@ROOT\n\n".toList)],
    clock := 0,
    mode := RMode.search,
    tag_found := 4,
    p_retval := 0,
    invoked := [],
    entered := [("ROOT".toList), ("B".toList), ("L1".toList), ("L2".toList)],
    marks := [],
    frame_log := [(2, RetVal.pass), (2, RetVal.pass), (1, RetVal.pass), (0, RetVal.pass)],
    ilines := 0,
    tlines := 0,
    slines := 4,
    dropped := 0,
    oob := false }

def c3s14 : St :=
  { next_line_number := 4,
    tag_str := ("".toList),
    tag_ptr := 0,
    nest := 0,
    env_tag := [0, 5, 7, 0, 0, 0],
    env_timer := [0, 0, 0, 0, 0, 0],
    next_in := 0,
    buf_rev := ("".toList),
    is_pause := true,
    sent_rev := [("DONE".toList), ("S,   0,    ,      ,@ROOT@B@L1\nS,   1,    ,      ,@ROOT@B@L2\nS,   2,    ,      ,@ROOT@B\nS,   3,    ,      ,@ROOT\n\n".toList)],
    clock := 0,
    mode := RMode.search,
    tag_found := 4,
    p_retval := 0,
    invoked := [],
    entered := [("ROOT".toList), ("B".toList), ("L1".toList), ("L2".toList)],
    marks := [],
    frame_log := [(2, RetVal.pass), (2, RetVal.pass), (1, RetVal.pass), (0, RetVal.pass)],
    ilines := 0,
    tlines := 0,
    slines := 4,
    dropped := 0,
    oob := false }

theorem c3run_eq : c3run = Out.ok RetVal.pass c3s14 := by
  have e0 : step RET_ROOT_TAG 4 (.enter (Node.leaf ("L1".toList) [] RetVal.pass) c3s5) = Out.ok RetVal.pass c3s6 := by decide
  have e1 : step RET_ROOT_TAG 2 (.enter (Node.leaf ("L2".toList) [] RetVal.pass) c3s7) = Out.ok RetVal.pass c3s8 := by decide
  have e2 : step RET_ROOT_TAG 1 (.loop 2 [] RetVal.pass c3s9) = Out.ok RetVal.pass c3s9 :=
    loop_nil RET_ROOT_TAG 0 2 RetVal.pass c3s9
  have e3 : step RET_ROOT_TAG 2 (.handle 2 [] RetVal.pass RetVal.pass c3s8) = Out.ok RetVal.pass c3s9 :=
    (handle_step_exit_ok RET_ROOT_TAG 1 2 [] RetVal.pass RetVal.pass c3s8 c3s9 (by decide)).trans e2
  have e4 : step RET_ROOT_TAG 3 (.loop 2 [Node.leaf ("L2".toList) [] RetVal.pass] RetVal.pass c3s7) = Out.ok RetVal.pass c3s9 :=
    (loop_step_ok RET_ROOT_TAG 2 2 (Node.leaf ("L2".toList) [] RetVal.pass) [] RetVal.pass RetVal.pass c3s7 c3s8 e1).trans e3
  have e5 : step RET_ROOT_TAG 4 (.handle 2 [Node.leaf ("L2".toList) [] RetVal.pass] RetVal.pass RetVal.pass c3s6) = Out.ok RetVal.pass c3s9 :=
    (handle_step_exit_ok RET_ROOT_TAG 3 2 [Node.leaf ("L2".toList) [] RetVal.pass] RetVal.pass RetVal.pass c3s6 c3s7 (by decide)).trans e4
  have e6 : step RET_ROOT_TAG 5 (.loop 2 [Node.leaf ("L1".toList) [] RetVal.pass, Node.leaf ("L2".toList) [] RetVal.pass] RetVal.pass c3s5) = Out.ok RetVal.pass c3s9 :=
    (loop_step_ok RET_ROOT_TAG 4 2 (Node.leaf ("L1".toList) [] RetVal.pass) [Node.leaf ("L2".toList) [] RetVal.pass] RetVal.pass RetVal.pass c3s5 c3s6 e0).trans e5
  have e7 : step RET_ROOT_TAG 6 (.list [Node.leaf ("L1".toList) [] RetVal.pass, Node.leaf ("L2".toList) [] RetVal.pass] c3s4) = Out.ok RetVal.pass c3s10 :=
    (list_step_out_ok RET_ROOT_TAG 5 [Node.leaf ("L1".toList) [] RetVal.pass, Node.leaf ("L2".toList) [] RetVal.pass] c3s4 RetVal.pass c3s9 (by decide) e6).trans (by decide)
  have e8 : step RET_ROOT_TAG 7 (.enter (Node.branch ("B".toList) [Node.leaf ("L1".toList) [] RetVal.pass, Node.leaf ("L2".toList) [] RetVal.pass]) c3s3) = Out.ok RetVal.pass c3s10 :=
    (enter_branch_ok RET_ROOT_TAG 6 ("B".toList) [Node.leaf ("L1".toList) [] RetVal.pass, Node.leaf ("L2".toList) [] RetVal.pass] c3s3 (by decide)).trans
      (by rw [show enterState RET_ROOT_TAG ("B".toList) c3s3 = c3s4 from by decide]; exact e7)
  have e9 : step RET_ROOT_TAG 6 (.loop 1 [] RetVal.pass c3s11) = Out.ok RetVal.pass c3s11 :=
    loop_nil RET_ROOT_TAG 5 1 RetVal.pass c3s11
  have e10 : step RET_ROOT_TAG 7 (.handle 1 [] RetVal.pass RetVal.pass c3s10) = Out.ok RetVal.pass c3s11 :=
    (handle_step_exit_ok RET_ROOT_TAG 6 1 [] RetVal.pass RetVal.pass c3s10 c3s11 (by decide)).trans e9
  have e11 : step RET_ROOT_TAG 8 (.loop 1 [Node.branch ("B".toList) [Node.leaf ("L1".toList) [] RetVal.pass, Node.leaf ("L2".toList) [] RetVal.pass]] RetVal.pass c3s3) = Out.ok RetVal.pass c3s11 :=
    (loop_step_ok RET_ROOT_TAG 7 1 (Node.branch ("B".toList) [Node.leaf ("L1".toList) [] RetVal.pass, Node.leaf ("L2".toList) [] RetVal.pass]) [] RetVal.pass RetVal.pass c3s3 c3s10 e8).trans e10
  have e12 : step RET_ROOT_TAG 9 (.list [Node.branch ("B".toList) [Node.leaf ("L1".toList) [] RetVal.pass, Node.leaf ("L2".toList) [] RetVal.pass]] c3s2) = Out.ok RetVal.pass c3s12 :=
    (list_step_out_ok RET_ROOT_TAG 8 [Node.branch ("B".toList) [Node.leaf ("L1".toList) [] RetVal.pass, Node.leaf ("L2".toList) [] RetVal.pass]] c3s2 RetVal.pass c3s11 (by decide) e11).trans (by decide)
  have e13 : step RET_ROOT_TAG 10 (.enter (Node.branch RET_ROOT_TAG treeAB) c3s1) = Out.ok RetVal.pass c3s12 :=
    (enter_branch_ok RET_ROOT_TAG 9 ("ROOT".toList) [Node.branch ("B".toList) [Node.leaf ("L1".toList) [] RetVal.pass, Node.leaf ("L2".toList) [] RetVal.pass]] c3s1 (by decide)).trans
      (by rw [show enterState RET_ROOT_TAG ("ROOT".toList) c3s1 = c3s2 from by decide]; exact e12)
  have e14 : step RET_ROOT_TAG 9 (.loop 0 [] RetVal.pass c3s13) = Out.ok RetVal.pass c3s13 :=
    loop_nil RET_ROOT_TAG 8 0 RetVal.pass c3s13
  have e15 : step RET_ROOT_TAG 10 (.handle 0 [] RetVal.pass RetVal.pass c3s12) = Out.ok RetVal.pass c3s13 :=
    (handle_step_exit_ok RET_ROOT_TAG 9 0 [] RetVal.pass RetVal.pass c3s12 c3s13 (by decide)).trans e14
  have e16 : step RET_ROOT_TAG 11 (.loop 0 [Node.branch RET_ROOT_TAG treeAB] RetVal.pass c3s1) = Out.ok RetVal.pass c3s13 :=
    (loop_step_ok RET_ROOT_TAG 10 0 (Node.branch RET_ROOT_TAG treeAB) [] RetVal.pass RetVal.pass c3s1 c3s12 e13).trans e15
  have e17 : step RET_ROOT_TAG 12 (.list [Node.branch RET_ROOT_TAG treeAB] c3s0) = Out.ok RetVal.pass c3s14 :=
    (list_step_out_ok RET_ROOT_TAG 11 [Node.branch RET_ROOT_TAG treeAB] c3s0 RetVal.pass c3s13 (by decide) e16).trans (by decide)
  exact e17

def c2tt : List Char := "L1".toList

/-- An execute run over treeAB targeting the plain tag of its first leaf. -/
def c2run : Out := retStart c2tt RMode.exe treeAB 12

def c2s0 : St :=
  { next_line_number := 0,
    tag_str := ("".toList),
    tag_ptr := 0,
    nest := 0,
    env_tag := [0, 0, 0, 0, 0, 0],
    env_timer := [0, 0, 0, 0, 0, 0],
    next_in := 0,
    buf_rev := ("".toList),
    is_pause := true,
    sent_rev := [],
    clock := 0,
    mode := RMode.exe,
    tag_found := 0,
    p_retval := 0,
    invoked := [],
    entered := [],
    marks := [],
    frame_log := [],
    ilines := 0,
    tlines := 0,
    slines := 0,
    dropped := 0,
    oob := false }

def c2s1 : St :=
  { next_line_number := 0,
    tag_str := ("".toList),
    tag_ptr := 0,
    nest := 0,
    env_tag := [0, 0, 0, 0, 0, 0],
    env_timer := [0, 0, 0, 0, 0, 0],
    next_in := 0,
    buf_rev := ("".toList),
    is_pause := true,
    sent_rev := [],
    clock := 0,
    mode := RMode.exe,
    tag_found := 0,
    p_retval := 0,
    invoked := [],
    entered := [],
    marks := [],
    frame_log := [],
    ilines := 0,
    tlines := 0,
    slines := 0,
    dropped := 0,
    oob := false }

def c2s2 : St :=
  { next_line_number := 0,
    tag_str := ("@ROOT".toList),
    tag_ptr := 5,
    nest := 1,
    env_tag := [0, 0, 0, 0, 0, 0],
    env_timer := [0, 0, 0, 0, 0, 0],
    next_in := 0,
    buf_rev := ("".toList),
    is_pause := true,
    sent_rev := [],
    clock := 0,
    mode := RMode.skip,
    tag_found := 0,
    p_retval := 0,
    invoked := [],
    entered := [("ROOT".toList)],
    marks := [],
    frame_log := [],
    ilines := 0,
    tlines := 0,
    slines := 0,
    dropped := 0,
    oob := false }

def c2s3 : St :=
  { next_line_number := 0,
    tag_str := ("@ROOT".toList),
    tag_ptr := 5,
    nest := 1,
    env_tag := [0, 5, 0, 0, 0, 0],
    env_timer := [0, 0, 0, 0, 0, 0],
    next_in := 0,
    buf_rev := ("".toList),
    is_pause := true,
    sent_rev := [],
    clock := 0,
    mode := RMode.skip,
    tag_found := 0,
    p_retval := 0,
    invoked := [],
    entered := [("ROOT".toList)],
    marks := [],
    frame_log := [],
    ilines := 0,
    tlines := 0,
    slines := 0,
    dropped := 0,
    oob := false }

def c2s4 : St :=
  { next_line_number := 0,
    tag_str := ("@ROOT@B".toList),
    tag_ptr := 7,
    nest := 2,
    env_tag := [0, 5, 0, 0, 0, 0],
    env_timer := [0, 0, 0, 0, 0, 0],
    next_in := 0,
    buf_rev := ("".toList),
    is_pause := true,
    sent_rev := [],
    clock := 0,
    mode := RMode.skip,
    tag_found := 0,
    p_retval := 0,
    invoked := [],
    entered := [("ROOT".toList), ("B".toList)],
    marks := [],
    frame_log := [],
    ilines := 0,
    tlines := 0,
    slines := 0,
    dropped := 0,
    oob := false }

def c2s5 : St :=
  { next_line_number := 0,
    tag_str := ("@ROOT@B".toList),
    tag_ptr := 7,
    nest := 2,
    env_tag := [0, 5, 7, 0, 0, 0],
    env_timer := [0, 0, 0, 0, 0, 0],
    next_in := 0,
    buf_rev := ("".toList),
    is_pause := true,
    sent_rev := [],
    clock := 0,
    mode := RMode.skip,
    tag_found := 0,
    p_retval := 0,
    invoked := [],
    entered := [("ROOT".toList), ("B".toList)],
    marks := [],
    frame_log := [],
    ilines := 0,
    tlines := 0,
    slines := 0,
    dropped := 0,
    oob := false }

def c2s6 : St :=
  { next_line_number := 0,
    tag_str := ("@ROOT@B@L1".toList),
    tag_ptr := 10,
    nest := 3,
    env_tag := [0, 5, 7, 0, 0, 0],
    env_timer := [0, 0, 0, 0, 0, 0],
    next_in := 0,
    buf_rev := ("".toList),
    is_pause := true,
    sent_rev := [],
    clock := 1,
    mode := RMode.exe,
    tag_found := 1,
    p_retval := 0,
    invoked := [("L1".toList)],
    entered := [("ROOT".toList), ("B".toList), ("L1".toList)],
    marks := [],
    frame_log := [],
    ilines := 0,
    tlines := 0,
    slines := 0,
    dropped := 0,
    oob := false }

def c2s7 : St :=
  { next_line_number := 1,
    tag_str := ("@ROOT@B".toList),
    tag_ptr := 7,
    nest := 2,
    env_tag := [0, 5, 7, 0, 0, 0],
    env_timer := [0, 0, 0, 0, 0, 0],
    next_in := 0,
    buf_rev := ("".toList),
    is_pause := true,
    sent_rev := [("T,   0,PASS,     1,@ROOT@B@L1\n".toList)],
    clock := 2,
    mode := RMode.exe,
    tag_found := 2,
    p_retval := 0,
    invoked := [("L1".toList)],
    entered := [("ROOT".toList), ("B".toList), ("L1".toList)],
    marks := [],
    frame_log := [(2, RetVal.pass)],
    ilines := 0,
    tlines := 1,
    slines := 0,
    dropped := 0,
    oob := false }

def c2s8 : St :=
  { next_line_number := 1,
    tag_str := ("@ROOT@B@L2".toList),
    tag_ptr := 10,
    nest := 3,
    env_tag := [0, 5, 7, 0, 0, 0],
    env_timer := [0, 0, 0, 0, 0, 0],
    next_in := 0,
    buf_rev := ("".toList),
    is_pause := true,
    sent_rev := [("T,   0,PASS,     1,@ROOT@B@L1\n".toList)],
    clock := 2,
    mode := RMode.skip,
    tag_found := 2,
    p_retval := 0,
    invoked := [("L1".toList)],
    entered := [("ROOT".toList), ("B".toList), ("L1".toList), ("L2".toList)],
    marks := [],
    frame_log := [(2, RetVal.pass)],
    ilines := 0,
    tlines := 1,
    slines := 0,
    dropped := 0,
    oob := false }

def c2s9 : St :=
  { next_line_number := 1,
    tag_str := ("@ROOT@B".toList),
    tag_ptr := 7,
    nest := 2,
    env_tag := [0, 5, 7, 0, 0, 0],
    env_timer := [0, 0, 0, 0, 0, 0],
    next_in := 0,
    buf_rev := ("".toList),
    is_pause := true,
    sent_rev := [("T,   0,PASS,     1,@ROOT@B@L1\n".toList)],
    clock := 2,
    mode := RMode.skip,
    tag_found := 2,
    p_retval := 0,
    invoked := [("L1".toList)],
    entered := [("ROOT".toList), ("B".toList), ("L1".toList), ("L2".toList)],
    marks := [],
    frame_log := [(2, RetVal.pass), (2, RetVal.pass)],
    ilines := 0,
    tlines := 1,
    slines := 0,
    dropped := 0,
    oob := false }

def c2s10 : St :=
  { next_line_number := 1,
    tag_str := ("@ROOT@B".toList),
    tag_ptr := 7,
    nest := 2,
    env_tag := [0, 5, 7, 0, 0, 0],
    env_timer := [0, 0, 0, 0, 0, 0],
    next_in := 0,
    buf_rev := ("".toList),
    is_pause := true,
    sent_rev := [("T,   0,PASS,     1,@ROOT@B@L1\n".toList)],
    clock := 2,
    mode := RMode.skip,
    tag_found := 2,
    p_retval := 0,
    invoked := [("L1".toList)],
    entered := [("ROOT".toList), ("B".toList), ("L1".toList), ("L2".toList)],
    marks := [],
    frame_log := [(2, RetVal.pass), (2, RetVal.pass)],
    ilines := 0,
    tlines := 1,
    slines := 0,
    dropped := 0,
    oob := false }

def c2s11 : St :=
  { next_line_number := 1,
    tag_str := ("@ROOT".toList),
    tag_ptr := 5,
    nest := 1,
    env_tag := [0, 5, 7, 0, 0, 0],
    env_timer := [0, 0, 0, 0, 0, 0],
    next_in := 0,
    buf_rev := ("".toList),
    is_pause := true,
    sent_rev := [("T,   0,PASS,     1,@ROOT@B@L1\n".toList)],
    clock := 2,
    mode := RMode.skip,
    tag_found := 2,
    p_retval := 0,
    invoked := [("L1".toList)],
    entered := [("ROOT".toList), ("B".toList), ("L1".toList), ("L2".toList)],
    marks := [],
    frame_log := [(2, RetVal.pass), (2, RetVal.pass), (1, RetVal.pass)],
    ilines := 0,
    tlines := 1,
    slines := 0,
    dropped := 0,
    oob := false }

def c2s12 : St :=
  { next_line_number := 1,
    tag_str := ("@ROOT".toList),
    tag_ptr := 5,
    nest := 1,
    env_tag := [0, 5, 7, 0, 0, 0],
    env_timer := [0, 0, 0, 0, 0, 0],
    next_in := 0,
    buf_rev := ("".toList),
    is_pause := true,
    sent_rev := [("T,   0,PASS,     1,@ROOT@B@L1\n".toList)],
    clock := 2,
    mode := RMode.skip,
    tag_found := 2,
    p_retval := 0,
    invoked := [("L1".toList)],
    entered := [("ROOT".toList), ("B".toList), ("L1".toList), ("L2".toList)],
    marks := [],
    frame_log := [(2, RetVal.pass), (2, RetVal.pass), (1, RetVal.pass)],
    ilines := 0,
    tlines := 1,
    slines := 0,
    dropped := 0,
    oob := false }

def c2s13 : St :=
  { next_line_number := 1,
    tag_str := ("".toList),
    tag_ptr := 0,
    nest := 0,
    env_tag := [0, 5, 7, 0, 0, 0],
    env_timer := [0, 0, 0, 0, 0, 0],
    next_in := 0,
    buf_rev := ("".toList),
    is_pause := true,
    sent_rev := [("DONE".toList), ("\n".toList), ("T,   0,PASS,     1,@ROOT@B@L1\n".toList)],
    clock := 2,
    mode := RMode.skip,
    tag_found := 2,
    p_retval := 0,
    invoked := [("L1".toList)],
    entered := [("ROOT".toList), ("B".toList), ("L1".toList), ("L2".toList)],
    marks := [],
    frame_log := [(2, RetVal.pass), (2, RetVal.pass), (1, RetVal.pass), (0, RetVal.pass)],
    ilines := 0,
    tlines := 1,
    slines := 0,
    dropped := 0,
    oob := false }

def c2s14 : St :=
  { next_line_number := 1,
    tag_str := ("".toList),
    tag_ptr := 0,
    nest := 0,
    env_tag := [0, 5, 7, 0, 0, 0],
    env_timer := [0, 0, 0, 0, 0, 0],
    next_in := 0,
    buf_rev := ("".toList),
    is_pause := true,
    sent_rev := [("DONE".toList), ("\n".toList), ("T,   0,PASS,     1,@ROOT@B@L1\n".toList)],
    clock := 2,
    mode := RMode.skip,
    tag_found := 2,
    p_retval := 0,
    invoked := [("L1".toList)],
    entered := [("ROOT".toList), ("B".toList), ("L1".toList), ("L2".toList)],
    marks := [],
    frame_log := [(2, RetVal.pass), (2, RetVal.pass), (1, RetVal.pass), (0, RetVal.pass)],
    ilines := 0,
    tlines := 1,
    slines := 0,
    dropped := 0,
    oob := false }

theorem c2run_eq : c2run = Out.ok RetVal.pass c2s14 := by
  have e0 : step c2tt 4 (.enter (Node.leaf ("L1".toList) [] RetVal.pass) c2s5) = Out.ok RetVal.pass c2s6 := by decide
  have e1 : step c2tt 2 (.enter (Node.leaf ("L2".toList) [] RetVal.pass) c2s7) = Out.ok RetVal.pass c2s8 := by decide
  have e2 : step c2tt 1 (.loop 2 [] RetVal.pass c2s9) = Out.ok RetVal.pass c2s9 :=
    loop_nil c2tt 0 2 RetVal.pass c2s9
  have e3 : step c2tt 2 (.handle 2 [] RetVal.pass RetVal.pass c2s8) = Out.ok RetVal.pass c2s9 :=
    (handle_step_exit_ok c2tt 1 2 [] RetVal.pass RetVal.pass c2s8 c2s9 (by decide)).trans e2
  have e4 : step c2tt 3 (.loop 2 [Node.leaf ("L2".toList) [] RetVal.pass] RetVal.pass c2s7) = Out.ok RetVal.pass c2s9 :=
    (loop_step_ok c2tt 2 2 (Node.leaf ("L2".toList) [] RetVal.pass) [] RetVal.pass RetVal.pass c2s7 c2s8 e1).trans e3
  have e5 : step c2tt 4 (.handle 2 [Node.leaf ("L2".toList) [] RetVal.pass] RetVal.pass RetVal.pass c2s6) = Out.ok RetVal.pass c2s9 :=
    (handle_step_exit_ok c2tt 3 2 [Node.leaf ("L2".toList) [] RetVal.pass] RetVal.pass RetVal.pass c2s6 c2s7 (by decide)).trans e4
  have e6 : step c2tt 5 (.loop 2 [Node.leaf ("L1".toList) [] RetVal.pass, Node.leaf ("L2".toList) [] RetVal.pass] RetVal.pass c2s5) = Out.ok RetVal.pass c2s9 :=
    (loop_step_ok c2tt 4 2 (Node.leaf ("L1".toList) [] RetVal.pass) [Node.leaf ("L2".toList) [] RetVal.pass] RetVal.pass RetVal.pass c2s5 c2s6 e0).trans e5
  have e7 : step c2tt 6 (.list [Node.leaf ("L1".toList) [] RetVal.pass, Node.leaf ("L2".toList) [] RetVal.pass] c2s4) = Out.ok RetVal.pass c2s10 :=
    (list_step_out_ok c2tt 5 [Node.leaf ("L1".toList) [] RetVal.pass, Node.leaf ("L2".toList) [] RetVal.pass] c2s4 RetVal.pass c2s9 (by decide) e6).trans (by decide)
  have e8 : step c2tt 7 (.enter (Node.branch ("B".toList) [Node.leaf ("L1".toList) [] RetVal.pass, Node.leaf ("L2".toList) [] RetVal.pass]) c2s3) = Out.ok RetVal.pass c2s10 :=
    (enter_branch_ok c2tt 6 ("B".toList) [Node.leaf ("L1".toList) [] RetVal.pass, Node.leaf ("L2".toList) [] RetVal.pass] c2s3 (by decide)).trans
      (by rw [show enterState c2tt ("B".toList) c2s3 = c2s4 from by decide]; exact e7)
  have e9 : step c2tt 6 (.loop 1 [] RetVal.pass c2s11) = Out.ok RetVal.pass c2s11 :=
    loop_nil c2tt 5 1 RetVal.pass c2s11
  have e10 : step c2tt 7 (.handle 1 [] RetVal.pass RetVal.pass c2s10) = Out.ok RetVal.pass c2s11 :=
    (handle_step_exit_ok c2tt 6 1 [] RetVal.pass RetVal.pass c2s10 c2s11 (by decide)).trans e9
  have e11 : step c2tt 8 (.loop 1 [Node.branch ("B".toList) [Node.leaf ("L1".toList) [] RetVal.pass, Node.leaf ("L2".toList) [] RetVal.pass]] RetVal.pass c2s3) = Out.ok RetVal.pass c2s11 :=
    (loop_step_ok c2tt 7 1 (Node.branch ("B".toList) [Node.leaf ("L1".toList) [] RetVal.pass, Node.leaf ("L2".toList) [] RetVal.pass]) [] RetVal.pass RetVal.pass c2s3 c2s10 e8).trans e10
  have e12 : step c2tt 9 (.list [Node.branch ("B".toList) [Node.leaf ("L1".toList) [] RetVal.pass, Node.leaf ("L2".toList) [] RetVal.pass]] c2s2) = Out.ok RetVal.pass c2s12 :=
    (list_step_out_ok c2tt 8 [Node.branch ("B".toList) [Node.leaf ("L1".toList) [] RetVal.pass, Node.leaf ("L2".toList) [] RetVal.pass]] c2s2 RetVal.pass c2s11 (by decide) e11).trans (by decide)
  have e13 : step c2tt 10 (.enter (Node.branch RET_ROOT_TAG treeAB) c2s1) = Out.ok RetVal.pass c2s12 :=
    (enter_branch_ok c2tt 9 ("ROOT".toList) [Node.branch ("B".toList) [Node.leaf ("L1".toList) [] RetVal.pass, Node.leaf ("L2".toList) [] RetVal.pass]] c2s1 (by decide)).trans
      (by rw [show enterState c2tt ("ROOT".toList) c2s1 = c2s2 from by decide]; exact e12)
  have e14 : step c2tt 9 (.loop 0 [] RetVal.pass c2s13) = Out.ok RetVal.pass c2s13 :=
    loop_nil c2tt 8 0 RetVal.pass c2s13
  have e15 : step c2tt 10 (.handle 0 [] RetVal.pass RetVal.pass c2s12) = Out.ok RetVal.pass c2s13 :=
    (handle_step_exit_ok c2tt 9 0 [] RetVal.pass RetVal.pass c2s12 c2s13 (by decide)).trans e14
  have e16 : step c2tt 11 (.loop 0 [Node.branch RET_ROOT_TAG treeAB] RetVal.pass c2s1) = Out.ok RetVal.pass c2s13 :=
    (loop_step_ok c2tt 10 0 (Node.branch RET_ROOT_TAG treeAB) [] RetVal.pass RetVal.pass c2s1 c2s12 e13).trans e15
  have e17 : step c2tt 12 (.list [Node.branch RET_ROOT_TAG treeAB] c2s0) = Out.ok RetVal.pass c2s14 :=
    (list_step_out_ok c2tt 11 [Node.branch RET_ROOT_TAG treeAB] c2s0 RetVal.pass c2s13 (by decide) e16).trans (by decide)
  exact e17

/-- The same shape with a failing first leaf. -/
def treeC10 : List Node :=
  [Node.branch ("B".toList) [Node.leaf ("L1".toList) [] RetVal.fail, Node.leaf ("L2".toList) [] RetVal.pass]]

def c10tt : List Char := "@ROOT@B@L1".toList

/-- An execute run over treeC10 targeting the full path of the failing leaf. -/
def c10run : Out := retStart c10tt RMode.exe treeC10 9

def c10s0 : St :=
  { next_line_number := 0,
    tag_str := ("".toList),
    tag_ptr := 0,
    nest := 0,
    env_tag := [0, 0, 0, 0, 0, 0],
    env_timer := [0, 0, 0, 0, 0, 0],
    next_in := 0,
    buf_rev := ("".toList),
    is_pause := true,
    sent_rev := [],
    clock := 0,
    mode := RMode.exe,
    tag_found := 0,
    p_retval := 0,
    invoked := [],
    entered := [],
    marks := [],
    frame_log := [],
    ilines := 0,
    tlines := 0,
    slines := 0,
    dropped := 0,
    oob := false }

def c10s1 : St :=
  { next_line_number := 0,
    tag_str := ("".toList),
    tag_ptr := 0,
    nest := 0,
    env_tag := [0, 0, 0, 0, 0, 0],
    env_timer := [0, 0, 0, 0, 0, 0],
    next_in := 0,
    buf_rev := ("".toList),
    is_pause := true,
    sent_rev := [],
    clock := 0,
    mode := RMode.exe,
    tag_found := 0,
    p_retval := 0,
    invoked := [],
    entered := [],
    marks := [],
    frame_log := [],
    ilines := 0,
    tlines := 0,
    slines := 0,
    dropped := 0,
    oob := false }

def c10s2 : St :=
  { next_line_number := 0,
    tag_str := ("@ROOT".toList),
    tag_ptr := 5,
    nest := 1,
    env_tag := [0, 0, 0, 0, 0, 0],
    env_timer := [0, 0, 0, 0, 0, 0],
    next_in := 0,
    buf_rev := ("".toList),
    is_pause := true,
    sent_rev := [],
    clock := 0,
    mode := RMode.skip,
    tag_found := 0,
    p_retval := 0,
    invoked := [],
    entered := [("ROOT".toList)],
    marks := [],
    frame_log := [],
    ilines := 0,
    tlines := 0,
    slines := 0,
    dropped := 0,
    oob := false }

def c10s3 : St :=
  { next_line_number := 0,
    tag_str := ("@ROOT".toList),
    tag_ptr := 5,
    nest := 1,
    env_tag := [0, 5, 0, 0, 0, 0],
    env_timer := [0, 0, 0, 0, 0, 0],
    next_in := 0,
    buf_rev := ("".toList),
    is_pause := true,
    sent_rev := [],
    clock := 0,
    mode := RMode.skip,
    tag_found := 0,
    p_retval := 0,
    invoked := [],
    entered := [("ROOT".toList)],
    marks := [],
    frame_log := [],
    ilines := 0,
    tlines := 0,
    slines := 0,
    dropped := 0,
    oob := false }

def c10s4 : St :=
  { next_line_number := 0,
    tag_str := ("@ROOT@B".toList),
    tag_ptr := 7,
    nest := 2,
    env_tag := [0, 5, 0, 0, 0, 0],
    env_timer := [0, 0, 0, 0, 0, 0],
    next_in := 0,
    buf_rev := ("".toList),
    is_pause := true,
    sent_rev := [],
    clock := 0,
    mode := RMode.skip,
    tag_found := 0,
    p_retval := 0,
    invoked := [],
    entered := [("ROOT".toList), ("B".toList)],
    marks := [],
    frame_log := [],
    ilines := 0,
    tlines := 0,
    slines := 0,
    dropped := 0,
    oob := false }

def c10s5 : St :=
  { next_line_number := 0,
    tag_str := ("@ROOT@B".toList),
    tag_ptr := 7,
    nest := 2,
    env_tag := [0, 5, 7, 0, 0, 0],
    env_timer := [0, 0, 0, 0, 0, 0],
    next_in := 0,
    buf_rev := ("".toList),
    is_pause := true,
    sent_rev := [],
    clock := 0,
    mode := RMode.skip,
    tag_found := 0,
    p_retval := 0,
    invoked := [],
    entered := [("ROOT".toList), ("B".toList)],
    marks := [],
    frame_log := [],
    ilines := 0,
    tlines := 0,
    slines := 0,
    dropped := 0,
    oob := false }

def c10s6 : St :=
  { next_line_number := 0,
    tag_str := ("@ROOT@B@L1".toList),
    tag_ptr := 10,
    nest := 3,
    env_tag := [0, 5, 7, 0, 0, 0],
    env_timer := [0, 0, 0, 0, 0, 0],
    next_in := 0,
    buf_rev := ("".toList),
    is_pause := true,
    sent_rev := [],
    clock := 1,
    mode := RMode.exe,
    tag_found := 1,
    p_retval := 0,
    invoked := [("L1".toList)],
    entered := [("ROOT".toList), ("B".toList), ("L1".toList)],
    marks := [],
    frame_log := [],
    ilines := 0,
    tlines := 0,
    slines := 0,
    dropped := 0,
    oob := false }

def c10s7 : St :=
  { next_line_number := 1,
    tag_str := ("".toList),
    tag_ptr := 0,
    nest := 0,
    env_tag := [0, 5, 7, 0, 0, 0],
    env_timer := [0, 0, 0, 0, 0, 0],
    next_in := 0,
    buf_rev := ("".toList),
    is_pause := true,
    sent_rev := [("T,   0,FAIL,     1,@ROOT@B@L1\n".toList)],
    clock := 2,
    mode := RMode.exe,
    tag_found := 2,
    p_retval := 0,
    invoked := [("L1".toList)],
    entered := [("ROOT".toList), ("B".toList), ("L1".toList)],
    marks := [],
    frame_log := [(2, RetVal.fail)],
    ilines := 0,
    tlines := 1,
    slines := 0,
    dropped := 0,
    oob := false }

def c10s8 : St :=
  { next_line_number := 1,
    tag_str := ("".toList),
    tag_ptr := 0,
    nest := 0,
    env_tag := [0, 5, 7, 0, 0, 0],
    env_timer := [0, 0, 0, 0, 0, 0],
    next_in := 0,
    buf_rev := ("".toList),
    is_pause := true,
    sent_rev := [("DONE".toList), ("\n".toList), ("T,   0,FAIL,     1,@ROOT@B@L1\n".toList)],
    clock := 2,
    mode := RMode.exe,
    tag_found := 2,
    p_retval := 0,
    invoked := [("L1".toList)],
    entered := [("ROOT".toList), ("B".toList), ("L1".toList)],
    marks := [],
    frame_log := [(2, RetVal.fail), (0, RetVal.pass)],
    ilines := 0,
    tlines := 1,
    slines := 0,
    dropped := 0,
    oob := false }

def c10s9 : St :=
  { next_line_number := 1,
    tag_str := ("".toList),
    tag_ptr := 0,
    nest := 0,
    env_tag := [0, 5, 7, 0, 0, 0],
    env_timer := [0, 0, 0, 0, 0, 0],
    next_in := 0,
    buf_rev := ("".toList),
    is_pause := true,
    sent_rev := [("DONE".toList), ("\n".toList), ("T,   0,FAIL,     1,@ROOT@B@L1\n".toList)],
    clock := 2,
    mode := RMode.exe,
    tag_found := 2,
    p_retval := 0,
    invoked := [("L1".toList)],
    entered := [("ROOT".toList), ("B".toList), ("L1".toList)],
    marks := [],
    frame_log := [(2, RetVal.fail), (0, RetVal.pass)],
    ilines := 0,
    tlines := 1,
    slines := 0,
    dropped := 0,
    oob := false }

theorem c10run_eq : c10run = Out.ok RetVal.pass c10s9 := by
  have e0 : step c10tt 1 (.enter (Node.leaf ("L1".toList) [] RetVal.fail) c10s5) = Out.ok RetVal.fail c10s6 := by decide
  have e1 : step c10tt 1 (.handle 2 [Node.leaf ("L2".toList) [] RetVal.pass] RetVal.pass RetVal.fail c10s6) = Out.jump 0 (1) c10s7 :=
    handle_step_exit_jump_esc c10tt 0 2 [Node.leaf ("L2".toList) [] RetVal.pass] RetVal.pass RetVal.fail 0 (1) c10s6 c10s7 (by decide) (by decide)
  have e2 : step c10tt 2 (.loop 2 [Node.leaf ("L1".toList) [] RetVal.fail, Node.leaf ("L2".toList) [] RetVal.pass] RetVal.pass c10s5) = Out.jump 0 (1) c10s7 :=
    (loop_step_ok c10tt 1 2 (Node.leaf ("L1".toList) [] RetVal.fail) [Node.leaf ("L2".toList) [] RetVal.pass] RetVal.pass RetVal.fail c10s5 c10s6 e0).trans e1
  have e3 : step c10tt 3 (.list [Node.leaf ("L1".toList) [] RetVal.fail, Node.leaf ("L2".toList) [] RetVal.pass] c10s4) = Out.jump 0 (1) c10s7 :=
    list_step_out_jump c10tt 2 [Node.leaf ("L1".toList) [] RetVal.fail, Node.leaf ("L2".toList) [] RetVal.pass] c10s4 0 (1) c10s7 (by decide) e2
  have e4 : step c10tt 4 (.enter (Node.branch ("B".toList) [Node.leaf ("L1".toList) [] RetVal.fail, Node.leaf ("L2".toList) [] RetVal.pass]) c10s3) = Out.jump 0 (1) c10s7 :=
    (enter_branch_ok c10tt 3 ("B".toList) [Node.leaf ("L1".toList) [] RetVal.fail, Node.leaf ("L2".toList) [] RetVal.pass] c10s3 (by decide)).trans
      (by rw [show enterState c10tt ("B".toList) c10s3 = c10s4 from by decide]; exact e3)
  have e5 : step c10tt 5 (.loop 1 [Node.branch ("B".toList) [Node.leaf ("L1".toList) [] RetVal.fail, Node.leaf ("L2".toList) [] RetVal.pass]] RetVal.pass c10s3) = Out.jump 0 (1) c10s7 :=
    loop_step_jump_esc c10tt 4 1 (Node.branch ("B".toList) [Node.leaf ("L1".toList) [] RetVal.fail, Node.leaf ("L2".toList) [] RetVal.pass]) [] RetVal.pass 0 (1) c10s3 c10s7 e4 (by decide)
  have e6 : step c10tt 6 (.list [Node.branch ("B".toList) [Node.leaf ("L1".toList) [] RetVal.fail, Node.leaf ("L2".toList) [] RetVal.pass]] c10s2) = Out.jump 0 (1) c10s7 :=
    list_step_out_jump c10tt 5 [Node.branch ("B".toList) [Node.leaf ("L1".toList) [] RetVal.fail, Node.leaf ("L2".toList) [] RetVal.pass]] c10s2 0 (1) c10s7 (by decide) e5
  have e7 : step c10tt 7 (.enter (Node.branch RET_ROOT_TAG treeC10) c10s1) = Out.jump 0 (1) c10s7 :=
    (enter_branch_ok c10tt 6 ("ROOT".toList) [Node.branch ("B".toList) [Node.leaf ("L1".toList) [] RetVal.fail, Node.leaf ("L2".toList) [] RetVal.pass]] c10s1 (by decide)).trans
      (by rw [show enterState c10tt ("ROOT".toList) c10s1 = c10s2 from by decide]; exact e6)
  have e8 : step c10tt 6 (.loop 0 [] RetVal.pass c10s8) = Out.ok RetVal.pass c10s8 :=
    loop_nil c10tt 5 0 RetVal.pass c10s8
  have e9 : step c10tt 7 (.handle 0 [] RetVal.pass RetVal.pass c10s7) = Out.ok RetVal.pass c10s8 :=
    (handle_step_exit_ok c10tt 6 0 [] RetVal.pass RetVal.pass c10s7 c10s8 (by decide)).trans e8
  have e10 : step c10tt 8 (.loop 0 [Node.branch RET_ROOT_TAG treeC10] RetVal.pass c10s1) = Out.ok RetVal.pass c10s8 :=
    (loop_step_jump_catch c10tt 7 0 (Node.branch RET_ROOT_TAG treeC10) [] RetVal.pass (1) c10s1 c10s7 e7).trans e9
  have e11 : step c10tt 9 (.list [Node.branch RET_ROOT_TAG treeC10] c10s0) = Out.ok RetVal.pass c10s9 :=
    (list_step_out_ok c10tt 8 [Node.branch RET_ROOT_TAG treeC10] c10s0 RetVal.pass c10s8 (by decide) e10).trans (by decide)
  exact e11

/-- Sixteen pass leaves with 239-character tags: their 270-character
search lines overfill the 4096-byte report buffer. -/
def bigTree : List Node :=
  [Node.branch ("B".toList)
  [Node.leaf ("aaaaaaaaaaaaaaaaaaaaaaaaaaaaaaaaaaaaaaaaaaaaaaaaaaaaaaaaaaaaaaaaaaaaaaaaaaaaaaaaaaaaaaaaaaaaaaaaaaaaaaaaaaaaaaaaaaaaaaaaaaaaaaaaaaaaaaaaaaaaaaaaaaaaaaaaaaaaaaaaaaaaaaaaaaaaaaaaaaaaaaaaaaaaaaaaaaaaaaaaaaaaaaaaaaaaaaaaaaaaaaaaaaaaaaaaaaaa100".toList) [] RetVal.pass,
   Node.leaf ("aaaaaaaaaaaaaaaaaaaaaaaaaaaaaaaaaaaaaaaaaaaaaaaaaaaaaaaaaaaaaaaaaaaaaaaaaaaaaaaaaaaaaaaaaaaaaaaaaaaaaaaaaaaaaaaaaaaaaaaaaaaaaaaaaaaaaaaaaaaaaaaaaaaaaaaaaaaaaaaaaaaaaaaaaaaaaaaaaaaaaaaaaaaaaaaaaaaaaaaaaaaaaaaaaaaaaaaaaaaaaaaaaaaaaaaaaaaa101".toList) [] RetVal.pass,
   Node.leaf ("aaaaaaaaaaaaaaaaaaaaaaaaaaaaaaaaaaaaaaaaaaaaaaaaaaaaaaaaaaaaaaaaaaaaaaaaaaaaaaaaaaaaaaaaaaaaaaaaaaaaaaaaaaaaaaaaaaaaaaaaaaaaaaaaaaaaaaaaaaaaaaaaaaaaaaaaaaaaaaaaaaaaaaaaaaaaaaaaaaaaaaaaaaaaaaaaaaaaaaaaaaaaaaaaaaaaaaaaaaaaaaaaaaaaaaaaaaaa102".toList) [] RetVal.pass,
   Node.leaf ("aaaaaaaaaaaaaaaaaaaaaaaaaaaaaaaaaaaaaaaaaaaaaaaaaaaaaaaaaaaaaaaaaaaaaaaaaaaaaaaaaaaaaaaaaaaaaaaaaaaaaaaaaaaaaaaaaaaaaaaaaaaaaaaaaaaaaaaaaaaaaaaaaaaaaaaaaaaaaaaaaaaaaaaaaaaaaaaaaaaaaaaaaaaaaaaaaaaaaaaaaaaaaaaaaaaaaaaaaaaaaaaaaaaaaaaaaaaa103".toList) [] RetVal.pass,
   Node.leaf ("aaaaaaaaaaaaaaaaaaaaaaaaaaaaaaaaaaaaaaaaaaaaaaaaaaaaaaaaaaaaaaaaaaaaaaaaaaaaaaaaaaaaaaaaaaaaaaaaaaaaaaaaaaaaaaaaaaaaaaaaaaaaaaaaaaaaaaaaaaaaaaaaaaaaaaaaaaaaaaaaaaaaaaaaaaaaaaaaaaaaaaaaaaaaaaaaaaaaaaaaaaaaaaaaaaaaaaaaaaaaaaaaaaaaaaaaaaaa104".toList) [] RetVal.pass,
   Node.leaf ("aaaaaaaaaaaaaaaaaaaaaaaaaaaaaaaaaaaaaaaaaaaaaaaaaaaaaaaaaaaaaaaaaaaaaaaaaaaaaaaaaaaaaaaaaaaaaaaaaaaaaaaaaaaaaaaaaaaaaaaaaaaaaaaaaaaaaaaaaaaaaaaaaaaaaaaaaaaaaaaaaaaaaaaaaaaaaaaaaaaaaaaaaaaaaaaaaaaaaaaaaaaaaaaaaaaaaaaaaaaaaaaaaaaaaaaaaaaa105".toList) [] RetVal.pass,
   Node.leaf ("aaaaaaaaaaaaaaaaaaaaaaaaaaaaaaaaaaaaaaaaaaaaaaaaaaaaaaaaaaaaaaaaaaaaaaaaaaaaaaaaaaaaaaaaaaaaaaaaaaaaaaaaaaaaaaaaaaaaaaaaaaaaaaaaaaaaaaaaaaaaaaaaaaaaaaaaaaaaaaaaaaaaaaaaaaaaaaaaaaaaaaaaaaaaaaaaaaaaaaaaaaaaaaaaaaaaaaaaaaaaaaaaaaaaaaaaaaaa106".toList) [] RetVal.pass,
   Node.leaf ("aaaaaaaaaaaaaaaaaaaaaaaaaaaaaaaaaaaaaaaaaaaaaaaaaaaaaaaaaaaaaaaaaaaaaaaaaaaaaaaaaaaaaaaaaaaaaaaaaaaaaaaaaaaaaaaaaaaaaaaaaaaaaaaaaaaaaaaaaaaaaaaaaaaaaaaaaaaaaaaaaaaaaaaaaaaaaaaaaaaaaaaaaaaaaaaaaaaaaaaaaaaaaaaaaaaaaaaaaaaaaaaaaaaaaaaaaaaa107".toList) [] RetVal.pass,
   Node.leaf ("aaaaaaaaaaaaaaaaaaaaaaaaaaaaaaaaaaaaaaaaaaaaaaaaaaaaaaaaaaaaaaaaaaaaaaaaaaaaaaaaaaaaaaaaaaaaaaaaaaaaaaaaaaaaaaaaaaaaaaaaaaaaaaaaaaaaaaaaaaaaaaaaaaaaaaaaaaaaaaaaaaaaaaaaaaaaaaaaaaaaaaaaaaaaaaaaaaaaaaaaaaaaaaaaaaaaaaaaaaaaaaaaaaaaaaaaaaaa108".toList) [] RetVal.pass,
   Node.leaf ("aaaaaaaaaaaaaaaaaaaaaaaaaaaaaaaaaaaaaaaaaaaaaaaaaaaaaaaaaaaaaaaaaaaaaaaaaaaaaaaaaaaaaaaaaaaaaaaaaaaaaaaaaaaaaaaaaaaaaaaaaaaaaaaaaaaaaaaaaaaaaaaaaaaaaaaaaaaaaaaaaaaaaaaaaaaaaaaaaaaaaaaaaaaaaaaaaaaaaaaaaaaaaaaaaaaaaaaaaaaaaaaaaaaaaaaaaaaa109".toList) [] RetVal.pass,
   Node.leaf ("aaaaaaaaaaaaaaaaaaaaaaaaaaaaaaaaaaaaaaaaaaaaaaaaaaaaaaaaaaaaaaaaaaaaaaaaaaaaaaaaaaaaaaaaaaaaaaaaaaaaaaaaaaaaaaaaaaaaaaaaaaaaaaaaaaaaaaaaaaaaaaaaaaaaaaaaaaaaaaaaaaaaaaaaaaaaaaaaaaaaaaaaaaaaaaaaaaaaaaaaaaaaaaaaaaaaaaaaaaaaaaaaaaaaaaaaaaaa110".toList) [] RetVal.pass,
   Node.leaf ("aaaaaaaaaaaaaaaaaaaaaaaaaaaaaaaaaaaaaaaaaaaaaaaaaaaaaaaaaaaaaaaaaaaaaaaaaaaaaaaaaaaaaaaaaaaaaaaaaaaaaaaaaaaaaaaaaaaaaaaaaaaaaaaaaaaaaaaaaaaaaaaaaaaaaaaaaaaaaaaaaaaaaaaaaaaaaaaaaaaaaaaaaaaaaaaaaaaaaaaaaaaaaaaaaaaaaaaaaaaaaaaaaaaaaaaaaaaa111".toList) [] RetVal.pass,
   Node.leaf ("aaaaaaaaaaaaaaaaaaaaaaaaaaaaaaaaaaaaaaaaaaaaaaaaaaaaaaaaaaaaaaaaaaaaaaaaaaaaaaaaaaaaaaaaaaaaaaaaaaaaaaaaaaaaaaaaaaaaaaaaaaaaaaaaaaaaaaaaaaaaaaaaaaaaaaaaaaaaaaaaaaaaaaaaaaaaaaaaaaaaaaaaaaaaaaaaaaaaaaaaaaaaaaaaaaaaaaaaaaaaaaaaaaaaaaaaaaaa112".toList) [] RetVal.pass,
   Node.leaf ("aaaaaaaaaaaaaaaaaaaaaaaaaaaaaaaaaaaaaaaaaaaaaaaaaaaaaaaaaaaaaaaaaaaaaaaaaaaaaaaaaaaaaaaaaaaaaaaaaaaaaaaaaaaaaaaaaaaaaaaaaaaaaaaaaaaaaaaaaaaaaaaaaaaaaaaaaaaaaaaaaaaaaaaaaaaaaaaaaaaaaaaaaaaaaaaaaaaaaaaaaaaaaaaaaaaaaaaaaaaaaaaaaaaaaaaaaaaa113".toList) [] RetVal.pass,
   Node.leaf ("aaaaaaaaaaaaaaaaaaaaaaaaaaaaaaaaaaaaaaaaaaaaaaaaaaaaaaaaaaaaaaaaaaaaaaaaaaaaaaaaaaaaaaaaaaaaaaaaaaaaaaaaaaaaaaaaaaaaaaaaaaaaaaaaaaaaaaaaaaaaaaaaaaaaaaaaaaaaaaaaaaaaaaaaaaaaaaaaaaaaaaaaaaaaaaaaaaaaaaaaaaaaaaaaaaaaaaaaaaaaaaaaaaaaaaaaaaaa114".toList) [] RetVal.pass,
   Node.leaf ("aaaaaaaaaaaaaaaaaaaaaaaaaaaaaaaaaaaaaaaaaaaaaaaaaaaaaaaaaaaaaaaaaaaaaaaaaaaaaaaaaaaaaaaaaaaaaaaaaaaaaaaaaaaaaaaaaaaaaaaaaaaaaaaaaaaaaaaaaaaaaaaaaaaaaaaaaaaaaaaaaaaaaaaaaaaaaaaaaaaaaaaaaaaaaaaaaaaaaaaaaaaaaaaaaaaaaaaaaaaaaaaaaaaaaaaaaaaa115".toList) [] RetVal.pass]]

/-- A search run of the saturating tree. -/
def c4run : Out := retStart RET_ROOT_TAG RMode.search bigTree 40

def c4s0 : St :=
  { next_line_number := 0,
    tag_str := ("".toList),
    tag_ptr := 0,
    nest := 0,
    env_tag := [0, 0, 0, 0, 0, 0],
    env_timer := [0, 0, 0, 0, 0, 0],
    next_in := 0,
    buf_rev := ("".toList),
    is_pause := true,
    sent_rev := [],
    clock := 0,
    mode := RMode.search,
    tag_found := 0,
    p_retval := 0,
    invoked := [],
    entered := [],
    marks := [],
    frame_log := [],
    ilines := 0,
    tlines := 0,
    slines := 0,
    dropped := 0,
    oob := false }

def c4s1 : St :=
  { next_line_number := 0,
    tag_str := ("".toList),
    tag_ptr := 0,
    nest := 0,
    env_tag := [0, 0, 0, 0, 0, 0],
    env_timer := [0, 0, 0, 0, 0, 0],
    next_in := 0,
    buf_rev := ("".toList),
    is_pause := true,
    sent_rev := [],
    clock := 0,
    mode := RMode.search,
    tag_found := 0,
    p_retval := 0,
    invoked := [],
    entered := [],
    marks := [],
    frame_log := [],
    ilines := 0,
    tlines := 0,
    slines := 0,
    dropped := 0,
    oob := false }

def c4s2 : St :=
  { next_line_number := 0,
    tag_str := ("@ROOT".toList),
    tag_ptr := 5,
    nest := 1,
    env_tag := [0, 0, 0, 0, 0, 0],
    env_timer := [0, 0, 0, 0, 0, 0],
    next_in := 0,
    buf_rev := ("".toList),
    is_pause := true,
    sent_rev := [],
    clock := 0,
    mode := RMode.search,
    tag_found := 0,
    p_retval := 0,
    invoked := [],
    entered := [("ROOT".toList)],
    marks := [],
    frame_log := [],
    ilines := 0,
    tlines := 0,
    slines := 0,
    dropped := 0,
    oob := false }

def c4s3 : St :=
  { next_line_number := 0,
    tag_str := ("@ROOT".toList),
    tag_ptr := 5,
    nest := 1,
    env_tag := [0, 5, 0, 0, 0, 0],
    env_timer := [0, 0, 0, 0, 0, 0],
    next_in := 0,
    buf_rev := ("".toList),
    is_pause := true,
    sent_rev := [],
    clock := 0,
    mode := RMode.search,
    tag_found := 0,
    p_retval := 0,
    invoked := [],
    entered := [("ROOT".toList)],
    marks := [],
    frame_log := [],
    ilines := 0,
    tlines := 0,
    slines := 0,
    dropped := 0,
    oob := false }

def c4s4 : St :=
  { next_line_number := 0,
    tag_str := ("@ROOT@B".toList),
    tag_ptr := 7,
    nest := 2,
    env_tag := [0, 5, 0, 0, 0, 0],
    env_timer := [0, 0, 0, 0, 0, 0],
    next_in := 0,
    buf_rev := ("".toList),
    is_pause := true,
    sent_rev := [],
    clock := 0,
    mode := RMode.search,
    tag_found := 0,
    p_retval := 0,
    invoked := [],
    entered := [("ROOT".toList), ("B".toList)],
    marks := [],
    frame_log := [],
    ilines := 0,
    tlines := 0,
    slines := 0,
    dropped := 0,
    oob := false }

def c4s5 : St :=
  { next_line_number := 0,
    tag_str := ("@ROOT@B".toList),
    tag_ptr := 7,
    nest := 2,
    env_tag := [0, 5, 7, 0, 0, 0],
    env_timer := [0, 0, 0, 0, 0, 0],
    next_in := 0,
    buf_rev := ("".toList),
    is_pause := true,
    sent_rev := [],
    clock := 0,
    mode := RMode.search,
    tag_found := 0,
    p_retval := 0,
    invoked := [],
    entered := [("ROOT".toList), ("B".toList)],
    marks := [],
    frame_log := [],
    ilines := 0,
    tlines := 0,
    slines := 0,
    dropped := 0,
    oob := false }

def c4s6 : St :=
  { next_line_number := 0,
    tag_str := ("@ROOT@B@aaaaaaaaaaaaaaaaaaaaaaaaaaaaaaaaaaaaaaaaaaaaaaaaaaaaaaaaaaaaaaaaaaaaaaaaaaaaaaaaaaaaaaaaaaaaaaaaaaaaaaaaaaaaaaaaaaaaaaaaaaaaaaaaaaaaaaaaaaaaaaaaaaaaaaaaaaaaaaaaaaaaaaaaaaaaaaaaaaaaaaaaaaaaaaaaaaaaaaaaaaaaaaaaaaaaaaaaaaaaaaaaaaaaaaaaaaaa100".toList),
    tag_ptr := 247,
    nest := 3,
    env_tag := [0, 5, 7, 0, 0, 0],
    env_timer := [0, 0, 0, 0, 0, 0],
    next_in := 0,
    buf_rev := ("".toList),
    is_pause := true,
    sent_rev := [],
    clock := 0,
    mode := RMode.search,
    tag_found := 0,
    p_retval := 0,
    invoked := [],
    entered := [("ROOT".toList), ("B".toList), ("aaaaaaaaaaaaaaaaaaaaaaaaaaaaaaaaaaaaaaaaaaaaaaaaaaaaaaaaaaaaaaaaaaaaaaaaaaaaaaaaaaaaaaaaaaaaaaaaaaaaaaaaaaaaaaaaaaaaaaaaaaaaaaaaaaaaaaaaaaaaaaaaaaaaaaaaaaaaaaaaaaaaaaaaaaaaaaaaaaaaaaaaaaaaaaaaaaaaaaaaaaaaaaaaaaaaaaaaaaaaaaaaaaaaaaaaaaaa100".toList)],
    marks := [],
    frame_log := [],
    ilines := 0,
    tlines := 0,
    slines := 0,
    dropped := 0,
    oob := false }

/-- Report-buffer content (newest first) at stage 7. -/
def c4buf0 : List Char := ("\n001aaaaaaaaaaaaaaaaaaaaaaaaaaaaaaaaaaaaaaaaaaaaaaaaaaaaaaaaaaaaaaaaaaaaaaaaaaaaaaaaaaaaaaaaaaaaaaaaaaaaaaaaaaaaaaaaaaaaaaaaaaaaaaaaaaaaaaaaaaaaaaaaaaaaaaaaaaaaaaaaaaaaaaaaaaaaaaaaaaaaaaaaaaaaaaaaaaaaaaaaaaaaaaaaaaaaaaaaaaaaaaaaaaaaaaaaaaaa@B@TOOR@,      ,    ,0   ,S".toList)

def c4s7 : St :=
  { next_line_number := 1,
    tag_str := ("@ROOT@B".toList),
    tag_ptr := 7,
    nest := 2,
    env_tag := [0, 5, 7, 0, 0, 0],
    env_timer := [0, 0, 0, 0, 0, 0],
    next_in := 267,
    buf_rev := c4buf0,
    is_pause := true,
    sent_rev := [],
    clock := 0,
    mode := RMode.search,
    tag_found := 1,
    p_retval := 0,
    invoked := [],
    entered := [("ROOT".toList), ("B".toList), ("aaaaaaaaaaaaaaaaaaaaaaaaaaaaaaaaaaaaaaaaaaaaaaaaaaaaaaaaaaaaaaaaaaaaaaaaaaaaaaaaaaaaaaaaaaaaaaaaaaaaaaaaaaaaaaaaaaaaaaaaaaaaaaaaaaaaaaaaaaaaaaaaaaaaaaaaaaaaaaaaaaaaaaaaaaaaaaaaaaaaaaaaaaaaaaaaaaaaaaaaaaaaaaaaaaaaaaaaaaaaaaaaaaaaaaaaaaaa100".toList)],
    marks := [],
    frame_log := [(2, RetVal.pass)],
    ilines := 0,
    tlines := 0,
    slines := 1,
    dropped := 0,
    oob := false }

def c4s8 : St :=
  { next_line_number := 1,
    tag_str := ("@ROOT@B@aaaaaaaaaaaaaaaaaaaaaaaaaaaaaaaaaaaaaaaaaaaaaaaaaaaaaaaaaaaaaaaaaaaaaaaaaaaaaaaaaaaaaaaaaaaaaaaaaaaaaaaaaaaaaaaaaaaaaaaaaaaaaaaaaaaaaaaaaaaaaaaaaaaaaaaaaaaaaaaaaaaaaaaaaaaaaaaaaaaaaaaaaaaaaaaaaaaaaaaaaaaaaaaaaaaaaaaaaaaaaaaaaaaaaaaaaaaa101".toList),
    tag_ptr := 247,
    nest := 3,
    env_tag := [0, 5, 7, 0, 0, 0],
    env_timer := [0, 0, 0, 0, 0, 0],
    next_in := 267,
    buf_rev := c4buf0,
    is_pause := true,
    sent_rev := [],
    clock := 0,
    mode := RMode.search,
    tag_found := 1,
    p_retval := 0,
    invoked := [],
    entered := [("ROOT".toList), ("B".toList), ("aaaaaaaaaaaaaaaaaaaaaaaaaaaaaaaaaaaaaaaaaaaaaaaaaaaaaaaaaaaaaaaaaaaaaaaaaaaaaaaaaaaaaaaaaaaaaaaaaaaaaaaaaaaaaaaaaaaaaaaaaaaaaaaaaaaaaaaaaaaaaaaaaaaaaaaaaaaaaaaaaaaaaaaaaaaaaaaaaaaaaaaaaaaaaaaaaaaaaaaaaaaaaaaaaaaaaaaaaaaaaaaaaaaaaaaaaaaa100".toList), ("aaaaaaaaaaaaaaaaaaaaaaaaaaaaaaaaaaaaaaaaaaaaaaaaaaaaaaaaaaaaaaaaaaaaaaaaaaaaaaaaaaaaaaaaaaaaaaaaaaaaaaaaaaaaaaaaaaaaaaaaaaaaaaaaaaaaaaaaaaaaaaaaaaaaaaaaaaaaaaaaaaaaaaaaaaaaaaaaaaaaaaaaaaaaaaaaaaaaaaaaaaaaaaaaaaaaaaaaaaaaaaaaaaaaaaaaaaaa101".toList)],
    marks := [],
    frame_log := [(2, RetVal.pass)],
    ilines := 0,
    tlines := 0,
    slines := 1,
    dropped := 0,
    oob := false }

/-- Report-buffer content (newest first) at stage 9. -/
def c4buf1 : List Char := ("\n101aaaaaaaaaaaaaaaaaaaaaaaaaaaaaaaaaaaaaaaaaaaaaaaaaaaaaaaaaaaaaaaaaaaaaaaaaaaaaaaaaaaaaaaaaaaaaaaaaaaaaaaaaaaaaaaaaaaaaaaaaaaaaaaaaaaaaaaaaaaaaaaaaaaaaaaaaaaaaaaaaaaaaaaaaaaaaaaaaaaaaaaaaaaaaaaaaaaaaaaaaaaaaaaaaaaaaaaaaaaaaaaaaaaaaaaaaaaa@B@TOOR@,      ,    ,1   ,S".toList) ++ c4buf0

def c4s9 : St :=
  { next_line_number := 2,
    tag_str := ("@ROOT@B".toList),
    tag_ptr := 7,
    nest := 2,
    env_tag := [0, 5, 7, 0, 0, 0],
    env_timer := [0, 0, 0, 0, 0, 0],
    next_in := 534,
    buf_rev := c4buf1,
    is_pause := true,
    sent_rev := [],
    clock := 0,
    mode := RMode.search,
    tag_found := 2,
    p_retval := 0,
    invoked := [],
    entered := [("ROOT".toList), ("B".toList), ("aaaaaaaaaaaaaaaaaaaaaaaaaaaaaaaaaaaaaaaaaaaaaaaaaaaaaaaaaaaaaaaaaaaaaaaaaaaaaaaaaaaaaaaaaaaaaaaaaaaaaaaaaaaaaaaaaaaaaaaaaaaaaaaaaaaaaaaaaaaaaaaaaaaaaaaaaaaaaaaaaaaaaaaaaaaaaaaaaaaaaaaaaaaaaaaaaaaaaaaaaaaaaaaaaaaaaaaaaaaaaaaaaaaaaaaaaaaa100".toList), ("aaaaaaaaaaaaaaaaaaaaaaaaaaaaaaaaaaaaaaaaaaaaaaaaaaaaaaaaaaaaaaaaaaaaaaaaaaaaaaaaaaaaaaaaaaaaaaaaaaaaaaaaaaaaaaaaaaaaaaaaaaaaaaaaaaaaaaaaaaaaaaaaaaaaaaaaaaaaaaaaaaaaaaaaaaaaaaaaaaaaaaaaaaaaaaaaaaaaaaaaaaaaaaaaaaaaaaaaaaaaaaaaaaaaaaaaaaaa101".toList)],
    marks := [],
    frame_log := [(2, RetVal.pass), (2, RetVal.pass)],
    ilines := 0,
    tlines := 0,
    slines := 2,
    dropped := 0,
    oob := false }

def c4s10 : St :=
  { next_line_number := 2,
    tag_str := ("@ROOT@B@aaaaaaaaaaaaaaaaaaaaaaaaaaaaaaaaaaaaaaaaaaaaaaaaaaaaaaaaaaaaaaaaaaaaaaaaaaaaaaaaaaaaaaaaaaaaaaaaaaaaaaaaaaaaaaaaaaaaaaaaaaaaaaaaaaaaaaaaaaaaaaaaaaaaaaaaaaaaaaaaaaaaaaaaaaaaaaaaaaaaaaaaaaaaaaaaaaaaaaaaaaaaaaaaaaaaaaaaaaaaaaaaaaaaaaaaaaaa102".toList),
    tag_ptr := 247,
    nest := 3,
    env_tag := [0, 5, 7, 0, 0, 0],
    env_timer := [0, 0, 0, 0, 0, 0],
    next_in := 534,
    buf_rev := c4buf1,
    is_pause := true,
    sent_rev := [],
    clock := 0,
    mode := RMode.search,
    tag_found := 2,
    p_retval := 0,
    invoked := [],
    entered := [("ROOT".toList), ("B".toList), ("aaaaaaaaaaaaaaaaaaaaaaaaaaaaaaaaaaaaaaaaaaaaaaaaaaaaaaaaaaaaaaaaaaaaaaaaaaaaaaaaaaaaaaaaaaaaaaaaaaaaaaaaaaaaaaaaaaaaaaaaaaaaaaaaaaaaaaaaaaaaaaaaaaaaaaaaaaaaaaaaaaaaaaaaaaaaaaaaaaaaaaaaaaaaaaaaaaaaaaaaaaaaaaaaaaaaaaaaaaaaaaaaaaaaaaaaaaaa100".toList), ("aaaaaaaaaaaaaaaaaaaaaaaaaaaaaaaaaaaaaaaaaaaaaaaaaaaaaaaaaaaaaaaaaaaaaaaaaaaaaaaaaaaaaaaaaaaaaaaaaaaaaaaaaaaaaaaaaaaaaaaaaaaaaaaaaaaaaaaaaaaaaaaaaaaaaaaaaaaaaaaaaaaaaaaaaaaaaaaaaaaaaaaaaaaaaaaaaaaaaaaaaaaaaaaaaaaaaaaaaaaaaaaaaaaaaaaaaaaa101".toList), ("aaaaaaaaaaaaaaaaaaaaaaaaaaaaaaaaaaaaaaaaaaaaaaaaaaaaaaaaaaaaaaaaaaaaaaaaaaaaaaaaaaaaaaaaaaaaaaaaaaaaaaaaaaaaaaaaaaaaaaaaaaaaaaaaaaaaaaaaaaaaaaaaaaaaaaaaaaaaaaaaaaaaaaaaaaaaaaaaaaaaaaaaaaaaaaaaaaaaaaaaaaaaaaaaaaaaaaaaaaaaaaaaaaaaaaaaaaaa102".toList)],
    marks := [],
    frame_log := [(2, RetVal.pass), (2, RetVal.pass)],
    ilines := 0,
    tlines := 0,
    slines := 2,
    dropped := 0,
    oob := false }

/-- Report-buffer content (newest first) at stage 11. -/
def c4buf2 : List Char := ("\n201aaaaaaaaaaaaaaaaaaaaaaaaaaaaaaaaaaaaaaaaaaaaaaaaaaaaaaaaaaaaaaaaaaaaaaaaaaaaaaaaaaaaaaaaaaaaaaaaaaaaaaaaaaaaaaaaaaaaaaaaaaaaaaaaaaaaaaaaaaaaaaaaaaaaaaaaaaaaaaaaaaaaaaaaaaaaaaaaaaaaaaaaaaaaaaaaaaaaaaaaaaaaaaaaaaaaaaaaaaaaaaaaaaaaaaaaaaaa@B@TOOR@,      ,    ,2   ,S".toList) ++ c4buf1

def c4s11 : St :=
  { next_line_number := 3,
    tag_str := ("@ROOT@B".toList),
    tag_ptr := 7,
    nest := 2,
    env_tag := [0, 5, 7, 0, 0, 0],
    env_timer := [0, 0, 0, 0, 0, 0],
    next_in := 801,
    buf_rev := c4buf2,
    is_pause := true,
    sent_rev := [],
    clock := 0,
    mode := RMode.search,
    tag_found := 3,
    p_retval := 0,
    invoked := [],
    entered := [("ROOT".toList), ("B".toList), ("aaaaaaaaaaaaaaaaaaaaaaaaaaaaaaaaaaaaaaaaaaaaaaaaaaaaaaaaaaaaaaaaaaaaaaaaaaaaaaaaaaaaaaaaaaaaaaaaaaaaaaaaaaaaaaaaaaaaaaaaaaaaaaaaaaaaaaaaaaaaaaaaaaaaaaaaaaaaaaaaaaaaaaaaaaaaaaaaaaaaaaaaaaaaaaaaaaaaaaaaaaaaaaaaaaaaaaaaaaaaaaaaaaaaaaaaaaaa100".toList), ("aaaaaaaaaaaaaaaaaaaaaaaaaaaaaaaaaaaaaaaaaaaaaaaaaaaaaaaaaaaaaaaaaaaaaaaaaaaaaaaaaaaaaaaaaaaaaaaaaaaaaaaaaaaaaaaaaaaaaaaaaaaaaaaaaaaaaaaaaaaaaaaaaaaaaaaaaaaaaaaaaaaaaaaaaaaaaaaaaaaaaaaaaaaaaaaaaaaaaaaaaaaaaaaaaaaaaaaaaaaaaaaaaaaaaaaaaaaa101".toList), ("aaaaaaaaaaaaaaaaaaaaaaaaaaaaaaaaaaaaaaaaaaaaaaaaaaaaaaaaaaaaaaaaaaaaaaaaaaaaaaaaaaaaaaaaaaaaaaaaaaaaaaaaaaaaaaaaaaaaaaaaaaaaaaaaaaaaaaaaaaaaaaaaaaaaaaaaaaaaaaaaaaaaaaaaaaaaaaaaaaaaaaaaaaaaaaaaaaaaaaaaaaaaaaaaaaaaaaaaaaaaaaaaaaaaaaaaaaaa102".toList)],
    marks := [],
    frame_log := [(2, RetVal.pass), (2, RetVal.pass), (2, RetVal.pass)],
    ilines := 0,
    tlines := 0,
    slines := 3,
    dropped := 0,
    oob := false }

def c4s12 : St :=
  { next_line_number := 3,
    tag_str := ("@ROOT@B@aaaaaaaaaaaaaaaaaaaaaaaaaaaaaaaaaaaaaaaaaaaaaaaaaaaaaaaaaaaaaaaaaaaaaaaaaaaaaaaaaaaaaaaaaaaaaaaaaaaaaaaaaaaaaaaaaaaaaaaaaaaaaaaaaaaaaaaaaaaaaaaaaaaaaaaaaaaaaaaaaaaaaaaaaaaaaaaaaaaaaaaaaaaaaaaaaaaaaaaaaaaaaaaaaaaaaaaaaaaaaaaaaaaaaaaaaaaa103".toList),
    tag_ptr := 247,
    nest := 3,
    env_tag := [0, 5, 7, 0, 0, 0],
    env_timer := [0, 0, 0, 0, 0, 0],
    next_in := 801,
    buf_rev := c4buf2,
    is_pause := true,
    sent_rev := [],
    clock := 0,
    mode := RMode.search,
    tag_found := 3,
    p_retval := 0,
    invoked := [],
    entered := [("ROOT".toList), ("B".toList), ("aaaaaaaaaaaaaaaaaaaaaaaaaaaaaaaaaaaaaaaaaaaaaaaaaaaaaaaaaaaaaaaaaaaaaaaaaaaaaaaaaaaaaaaaaaaaaaaaaaaaaaaaaaaaaaaaaaaaaaaaaaaaaaaaaaaaaaaaaaaaaaaaaaaaaaaaaaaaaaaaaaaaaaaaaaaaaaaaaaaaaaaaaaaaaaaaaaaaaaaaaaaaaaaaaaaaaaaaaaaaaaaaaaaaaaaaaaaa100".toList), ("aaaaaaaaaaaaaaaaaaaaaaaaaaaaaaaaaaaaaaaaaaaaaaaaaaaaaaaaaaaaaaaaaaaaaaaaaaaaaaaaaaaaaaaaaaaaaaaaaaaaaaaaaaaaaaaaaaaaaaaaaaaaaaaaaaaaaaaaaaaaaaaaaaaaaaaaaaaaaaaaaaaaaaaaaaaaaaaaaaaaaaaaaaaaaaaaaaaaaaaaaaaaaaaaaaaaaaaaaaaaaaaaaaaaaaaaaaaa101".toList), ("aaaaaaaaaaaaaaaaaaaaaaaaaaaaaaaaaaaaaaaaaaaaaaaaaaaaaaaaaaaaaaaaaaaaaaaaaaaaaaaaaaaaaaaaaaaaaaaaaaaaaaaaaaaaaaaaaaaaaaaaaaaaaaaaaaaaaaaaaaaaaaaaaaaaaaaaaaaaaaaaaaaaaaaaaaaaaaaaaaaaaaaaaaaaaaaaaaaaaaaaaaaaaaaaaaaaaaaaaaaaaaaaaaaaaaaaaaaa102".toList), ("aaaaaaaaaaaaaaaaaaaaaaaaaaaaaaaaaaaaaaaaaaaaaaaaaaaaaaaaaaaaaaaaaaaaaaaaaaaaaaaaaaaaaaaaaaaaaaaaaaaaaaaaaaaaaaaaaaaaaaaaaaaaaaaaaaaaaaaaaaaaaaaaaaaaaaaaaaaaaaaaaaaaaaaaaaaaaaaaaaaaaaaaaaaaaaaaaaaaaaaaaaaaaaaaaaaaaaaaaaaaaaaaaaaaaaaaaaaa103".toList)],
    marks := [],
    frame_log := [(2, RetVal.pass), (2, RetVal.pass), (2, RetVal.pass)],
    ilines := 0,
    tlines := 0,
    slines := 3,
    dropped := 0,
    oob := false }

/-- Report-buffer content (newest first) at stage 13. -/
def c4buf3 : List Char := ("\n301aaaaaaaaaaaaaaaaaaaaaaaaaaaaaaaaaaaaaaaaaaaaaaaaaaaaaaaaaaaaaaaaaaaaaaaaaaaaaaaaaaaaaaaaaaaaaaaaaaaaaaaaaaaaaaaaaaaaaaaaaaaaaaaaaaaaaaaaaaaaaaaaaaaaaaaaaaaaaaaaaaaaaaaaaaaaaaaaaaaaaaaaaaaaaaaaaaaaaaaaaaaaaaaaaaaaaaaaaaaaaaaaaaaaaaaaaaaa@B@TOOR@,      ,    ,3   ,S".toList) ++ c4buf2

def c4s13 : St :=
  { next_line_number := 4,
    tag_str := ("@ROOT@B".toList),
    tag_ptr := 7,
    nest := 2,
    env_tag := [0, 5, 7, 0, 0, 0],
    env_timer := [0, 0, 0, 0, 0, 0],
    next_in := 1068,
    buf_rev := c4buf3,
    is_pause := true,
    sent_rev := [],
    clock := 0,
    mode := RMode.search,
    tag_found := 4,
    p_retval := 0,
    invoked := [],
    entered := [("ROOT".toList), ("B".toList), ("aaaaaaaaaaaaaaaaaaaaaaaaaaaaaaaaaaaaaaaaaaaaaaaaaaaaaaaaaaaaaaaaaaaaaaaaaaaaaaaaaaaaaaaaaaaaaaaaaaaaaaaaaaaaaaaaaaaaaaaaaaaaaaaaaaaaaaaaaaaaaaaaaaaaaaaaaaaaaaaaaaaaaaaaaaaaaaaaaaaaaaaaaaaaaaaaaaaaaaaaaaaaaaaaaaaaaaaaaaaaaaaaaaaaaaaaaaaa100".toList), ("aaaaaaaaaaaaaaaaaaaaaaaaaaaaaaaaaaaaaaaaaaaaaaaaaaaaaaaaaaaaaaaaaaaaaaaaaaaaaaaaaaaaaaaaaaaaaaaaaaaaaaaaaaaaaaaaaaaaaaaaaaaaaaaaaaaaaaaaaaaaaaaaaaaaaaaaaaaaaaaaaaaaaaaaaaaaaaaaaaaaaaaaaaaaaaaaaaaaaaaaaaaaaaaaaaaaaaaaaaaaaaaaaaaaaaaaaaaa101".toList), ("aaaaaaaaaaaaaaaaaaaaaaaaaaaaaaaaaaaaaaaaaaaaaaaaaaaaaaaaaaaaaaaaaaaaaaaaaaaaaaaaaaaaaaaaaaaaaaaaaaaaaaaaaaaaaaaaaaaaaaaaaaaaaaaaaaaaaaaaaaaaaaaaaaaaaaaaaaaaaaaaaaaaaaaaaaaaaaaaaaaaaaaaaaaaaaaaaaaaaaaaaaaaaaaaaaaaaaaaaaaaaaaaaaaaaaaaaaaa102".toList), ("aaaaaaaaaaaaaaaaaaaaaaaaaaaaaaaaaaaaaaaaaaaaaaaaaaaaaaaaaaaaaaaaaaaaaaaaaaaaaaaaaaaaaaaaaaaaaaaaaaaaaaaaaaaaaaaaaaaaaaaaaaaaaaaaaaaaaaaaaaaaaaaaaaaaaaaaaaaaaaaaaaaaaaaaaaaaaaaaaaaaaaaaaaaaaaaaaaaaaaaaaaaaaaaaaaaaaaaaaaaaaaaaaaaaaaaaaaaa103".toList)],
    marks := [],
    frame_log := [(2, RetVal.pass), (2, RetVal.pass), (2, RetVal.pass), (2, RetVal.pass)],
    ilines := 0,
    tlines := 0,
    slines := 4,
    dropped := 0,
    oob := false }

def c4s14 : St :=
  { next_line_number := 4,
    tag_str := ("@ROOT@B@aaaaaaaaaaaaaaaaaaaaaaaaaaaaaaaaaaaaaaaaaaaaaaaaaaaaaaaaaaaaaaaaaaaaaaaaaaaaaaaaaaaaaaaaaaaaaaaaaaaaaaaaaaaaaaaaaaaaaaaaaaaaaaaaaaaaaaaaaaaaaaaaaaaaaaaaaaaaaaaaaaaaaaaaaaaaaaaaaaaaaaaaaaaaaaaaaaaaaaaaaaaaaaaaaaaaaaaaaaaaaaaaaaaaaaaaaaaa104".toList),
    tag_ptr := 247,
    nest := 3,
    env_tag := [0, 5, 7, 0, 0, 0],
    env_timer := [0, 0, 0, 0, 0, 0],
    next_in := 1068,
    buf_rev := c4buf3,
    is_pause := true,
    sent_rev := [],
    clock := 0,
    mode := RMode.search,
    tag_found := 4,
    p_retval := 0,
    invoked := [],
    entered := [("ROOT".toList), ("B".toList), ("aaaaaaaaaaaaaaaaaaaaaaaaaaaaaaaaaaaaaaaaaaaaaaaaaaaaaaaaaaaaaaaaaaaaaaaaaaaaaaaaaaaaaaaaaaaaaaaaaaaaaaaaaaaaaaaaaaaaaaaaaaaaaaaaaaaaaaaaaaaaaaaaaaaaaaaaaaaaaaaaaaaaaaaaaaaaaaaaaaaaaaaaaaaaaaaaaaaaaaaaaaaaaaaaaaaaaaaaaaaaaaaaaaaaaaaaaaaa100".toList), ("aaaaaaaaaaaaaaaaaaaaaaaaaaaaaaaaaaaaaaaaaaaaaaaaaaaaaaaaaaaaaaaaaaaaaaaaaaaaaaaaaaaaaaaaaaaaaaaaaaaaaaaaaaaaaaaaaaaaaaaaaaaaaaaaaaaaaaaaaaaaaaaaaaaaaaaaaaaaaaaaaaaaaaaaaaaaaaaaaaaaaaaaaaaaaaaaaaaaaaaaaaaaaaaaaaaaaaaaaaaaaaaaaaaaaaaaaaaa101".toList), ("aaaaaaaaaaaaaaaaaaaaaaaaaaaaaaaaaaaaaaaaaaaaaaaaaaaaaaaaaaaaaaaaaaaaaaaaaaaaaaaaaaaaaaaaaaaaaaaaaaaaaaaaaaaaaaaaaaaaaaaaaaaaaaaaaaaaaaaaaaaaaaaaaaaaaaaaaaaaaaaaaaaaaaaaaaaaaaaaaaaaaaaaaaaaaaaaaaaaaaaaaaaaaaaaaaaaaaaaaaaaaaaaaaaaaaaaaaaa102".toList), ("aaaaaaaaaaaaaaaaaaaaaaaaaaaaaaaaaaaaaaaaaaaaaaaaaaaaaaaaaaaaaaaaaaaaaaaaaaaaaaaaaaaaaaaaaaaaaaaaaaaaaaaaaaaaaaaaaaaaaaaaaaaaaaaaaaaaaaaaaaaaaaaaaaaaaaaaaaaaaaaaaaaaaaaaaaaaaaaaaaaaaaaaaaaaaaaaaaaaaaaaaaaaaaaaaaaaaaaaaaaaaaaaaaaaaaaaaaaa103".toList), ("aaaaaaaaaaaaaaaaaaaaaaaaaaaaaaaaaaaaaaaaaaaaaaaaaaaaaaaaaaaaaaaaaaaaaaaaaaaaaaaaaaaaaaaaaaaaaaaaaaaaaaaaaaaaaaaaaaaaaaaaaaaaaaaaaaaaaaaaaaaaaaaaaaaaaaaaaaaaaaaaaaaaaaaaaaaaaaaaaaaaaaaaaaaaaaaaaaaaaaaaaaaaaaaaaaaaaaaaaaaaaaaaaaaaaaaaaaaa104".toList)],
    marks := [],
    frame_log := [(2, RetVal.pass), (2, RetVal.pass), (2, RetVal.pass), (2, RetVal.pass)],
    ilines := 0,
    tlines := 0,
    slines := 4,
    dropped := 0,
    oob := false }

/-- Report-buffer content (newest first) at stage 15. -/
def c4buf4 : List Char := ("\n401aaaaaaaaaaaaaaaaaaaaaaaaaaaaaaaaaaaaaaaaaaaaaaaaaaaaaaaaaaaaaaaaaaaaaaaaaaaaaaaaaaaaaaaaaaaaaaaaaaaaaaaaaaaaaaaaaaaaaaaaaaaaaaaaaaaaaaaaaaaaaaaaaaaaaaaaaaaaaaaaaaaaaaaaaaaaaaaaaaaaaaaaaaaaaaaaaaaaaaaaaaaaaaaaaaaaaaaaaaaaaaaaaaaaaaaaaaaa@B@TOOR@,      ,    ,4   ,S".toList) ++ c4buf3

def c4s15 : St :=
  { next_line_number := 5,
    tag_str := ("@ROOT@B".toList),
    tag_ptr := 7,
    nest := 2,
    env_tag := [0, 5, 7, 0, 0, 0],
    env_timer := [0, 0, 0, 0, 0, 0],
    next_in := 1335,
    buf_rev := c4buf4,
    is_pause := true,
    sent_rev := [],
    clock := 0,
    mode := RMode.search,
    tag_found := 5,
    p_retval := 0,
    invoked := [],
    entered := [("ROOT".toList), ("B".toList), ("aaaaaaaaaaaaaaaaaaaaaaaaaaaaaaaaaaaaaaaaaaaaaaaaaaaaaaaaaaaaaaaaaaaaaaaaaaaaaaaaaaaaaaaaaaaaaaaaaaaaaaaaaaaaaaaaaaaaaaaaaaaaaaaaaaaaaaaaaaaaaaaaaaaaaaaaaaaaaaaaaaaaaaaaaaaaaaaaaaaaaaaaaaaaaaaaaaaaaaaaaaaaaaaaaaaaaaaaaaaaaaaaaaaaaaaaaaaa100".toList), ("aaaaaaaaaaaaaaaaaaaaaaaaaaaaaaaaaaaaaaaaaaaaaaaaaaaaaaaaaaaaaaaaaaaaaaaaaaaaaaaaaaaaaaaaaaaaaaaaaaaaaaaaaaaaaaaaaaaaaaaaaaaaaaaaaaaaaaaaaaaaaaaaaaaaaaaaaaaaaaaaaaaaaaaaaaaaaaaaaaaaaaaaaaaaaaaaaaaaaaaaaaaaaaaaaaaaaaaaaaaaaaaaaaaaaaaaaaaa101".toList), ("aaaaaaaaaaaaaaaaaaaaaaaaaaaaaaaaaaaaaaaaaaaaaaaaaaaaaaaaaaaaaaaaaaaaaaaaaaaaaaaaaaaaaaaaaaaaaaaaaaaaaaaaaaaaaaaaaaaaaaaaaaaaaaaaaaaaaaaaaaaaaaaaaaaaaaaaaaaaaaaaaaaaaaaaaaaaaaaaaaaaaaaaaaaaaaaaaaaaaaaaaaaaaaaaaaaaaaaaaaaaaaaaaaaaaaaaaaaa102".toList), ("aaaaaaaaaaaaaaaaaaaaaaaaaaaaaaaaaaaaaaaaaaaaaaaaaaaaaaaaaaaaaaaaaaaaaaaaaaaaaaaaaaaaaaaaaaaaaaaaaaaaaaaaaaaaaaaaaaaaaaaaaaaaaaaaaaaaaaaaaaaaaaaaaaaaaaaaaaaaaaaaaaaaaaaaaaaaaaaaaaaaaaaaaaaaaaaaaaaaaaaaaaaaaaaaaaaaaaaaaaaaaaaaaaaaaaaaaaaa103".toList), ("aaaaaaaaaaaaaaaaaaaaaaaaaaaaaaaaaaaaaaaaaaaaaaaaaaaaaaaaaaaaaaaaaaaaaaaaaaaaaaaaaaaaaaaaaaaaaaaaaaaaaaaaaaaaaaaaaaaaaaaaaaaaaaaaaaaaaaaaaaaaaaaaaaaaaaaaaaaaaaaaaaaaaaaaaaaaaaaaaaaaaaaaaaaaaaaaaaaaaaaaaaaaaaaaaaaaaaaaaaaaaaaaaaaaaaaaaaaa104".toList)],
    marks := [],
    frame_log := [(2, RetVal.pass), (2, RetVal.pass), (2, RetVal.pass), (2, RetVal.pass), (2, RetVal.pass)],
    ilines := 0,
    tlines := 0,
    slines := 5,
    dropped := 0,
    oob := false }

def c4s16 : St :=
  { next_line_number := 5,
    tag_str := ("@ROOT@B@aaaaaaaaaaaaaaaaaaaaaaaaaaaaaaaaaaaaaaaaaaaaaaaaaaaaaaaaaaaaaaaaaaaaaaaaaaaaaaaaaaaaaaaaaaaaaaaaaaaaaaaaaaaaaaaaaaaaaaaaaaaaaaaaaaaaaaaaaaaaaaaaaaaaaaaaaaaaaaaaaaaaaaaaaaaaaaaaaaaaaaaaaaaaaaaaaaaaaaaaaaaaaaaaaaaaaaaaaaaaaaaaaaaaaaaaaaaa105".toList),
    tag_ptr := 247,
    nest := 3,
    env_tag := [0, 5, 7, 0, 0, 0],
    env_timer := [0, 0, 0, 0, 0, 0],
    next_in := 1335,
    buf_rev := c4buf4,
    is_pause := true,
    sent_rev := [],
    clock := 0,
    mode := RMode.search,
    tag_found := 5,
    p_retval := 0,
    invoked := [],
    entered := [("ROOT".toList), ("B".toList), ("aaaaaaaaaaaaaaaaaaaaaaaaaaaaaaaaaaaaaaaaaaaaaaaaaaaaaaaaaaaaaaaaaaaaaaaaaaaaaaaaaaaaaaaaaaaaaaaaaaaaaaaaaaaaaaaaaaaaaaaaaaaaaaaaaaaaaaaaaaaaaaaaaaaaaaaaaaaaaaaaaaaaaaaaaaaaaaaaaaaaaaaaaaaaaaaaaaaaaaaaaaaaaaaaaaaaaaaaaaaaaaaaaaaaaaaaaaaa100".toList), ("aaaaaaaaaaaaaaaaaaaaaaaaaaaaaaaaaaaaaaaaaaaaaaaaaaaaaaaaaaaaaaaaaaaaaaaaaaaaaaaaaaaaaaaaaaaaaaaaaaaaaaaaaaaaaaaaaaaaaaaaaaaaaaaaaaaaaaaaaaaaaaaaaaaaaaaaaaaaaaaaaaaaaaaaaaaaaaaaaaaaaaaaaaaaaaaaaaaaaaaaaaaaaaaaaaaaaaaaaaaaaaaaaaaaaaaaaaaa101".toList), ("aaaaaaaaaaaaaaaaaaaaaaaaaaaaaaaaaaaaaaaaaaaaaaaaaaaaaaaaaaaaaaaaaaaaaaaaaaaaaaaaaaaaaaaaaaaaaaaaaaaaaaaaaaaaaaaaaaaaaaaaaaaaaaaaaaaaaaaaaaaaaaaaaaaaaaaaaaaaaaaaaaaaaaaaaaaaaaaaaaaaaaaaaaaaaaaaaaaaaaaaaaaaaaaaaaaaaaaaaaaaaaaaaaaaaaaaaaaa102".toList), ("aaaaaaaaaaaaaaaaaaaaaaaaaaaaaaaaaaaaaaaaaaaaaaaaaaaaaaaaaaaaaaaaaaaaaaaaaaaaaaaaaaaaaaaaaaaaaaaaaaaaaaaaaaaaaaaaaaaaaaaaaaaaaaaaaaaaaaaaaaaaaaaaaaaaaaaaaaaaaaaaaaaaaaaaaaaaaaaaaaaaaaaaaaaaaaaaaaaaaaaaaaaaaaaaaaaaaaaaaaaaaaaaaaaaaaaaaaaa103".toList), ("aaaaaaaaaaaaaaaaaaaaaaaaaaaaaaaaaaaaaaaaaaaaaaaaaaaaaaaaaaaaaaaaaaaaaaaaaaaaaaaaaaaaaaaaaaaaaaaaaaaaaaaaaaaaaaaaaaaaaaaaaaaaaaaaaaaaaaaaaaaaaaaaaaaaaaaaaaaaaaaaaaaaaaaaaaaaaaaaaaaaaaaaaaaaaaaaaaaaaaaaaaaaaaaaaaaaaaaaaaaaaaaaaaaaaaaaaaaa104".toList), ("aaaaaaaaaaaaaaaaaaaaaaaaaaaaaaaaaaaaaaaaaaaaaaaaaaaaaaaaaaaaaaaaaaaaaaaaaaaaaaaaaaaaaaaaaaaaaaaaaaaaaaaaaaaaaaaaaaaaaaaaaaaaaaaaaaaaaaaaaaaaaaaaaaaaaaaaaaaaaaaaaaaaaaaaaaaaaaaaaaaaaaaaaaaaaaaaaaaaaaaaaaaaaaaaaaaaaaaaaaaaaaaaaaaaaaaaaaaa105".toList)],
    marks := [],
    frame_log := [(2, RetVal.pass), (2, RetVal.pass), (2, RetVal.pass), (2, RetVal.pass), (2, RetVal.pass)],
    ilines := 0,
    tlines := 0,
    slines := 5,
    dropped := 0,
    oob := false }

/-- Report-buffer content (newest first) at stage 17. -/
def c4buf5 : List Char := ("\n501aaaaaaaaaaaaaaaaaaaaaaaaaaaaaaaaaaaaaaaaaaaaaaaaaaaaaaaaaaaaaaaaaaaaaaaaaaaaaaaaaaaaaaaaaaaaaaaaaaaaaaaaaaaaaaaaaaaaaaaaaaaaaaaaaaaaaaaaaaaaaaaaaaaaaaaaaaaaaaaaaaaaaaaaaaaaaaaaaaaaaaaaaaaaaaaaaaaaaaaaaaaaaaaaaaaaaaaaaaaaaaaaaaaaaaaaaaaa@B@TOOR@,      ,    ,5   ,S".toList) ++ c4buf4

def c4s17 : St :=
  { next_line_number := 6,
    tag_str := ("@ROOT@B".toList),
    tag_ptr := 7,
    nest := 2,
    env_tag := [0, 5, 7, 0, 0, 0],
    env_timer := [0, 0, 0, 0, 0, 0],
    next_in := 1602,
    buf_rev := c4buf5,
    is_pause := true,
    sent_rev := [],
    clock := 0,
    mode := RMode.search,
    tag_found := 6,
    p_retval := 0,
    invoked := [],
    entered := [("ROOT".toList), ("B".toList), ("aaaaaaaaaaaaaaaaaaaaaaaaaaaaaaaaaaaaaaaaaaaaaaaaaaaaaaaaaaaaaaaaaaaaaaaaaaaaaaaaaaaaaaaaaaaaaaaaaaaaaaaaaaaaaaaaaaaaaaaaaaaaaaaaaaaaaaaaaaaaaaaaaaaaaaaaaaaaaaaaaaaaaaaaaaaaaaaaaaaaaaaaaaaaaaaaaaaaaaaaaaaaaaaaaaaaaaaaaaaaaaaaaaaaaaaaaaaa100".toList), ("aaaaaaaaaaaaaaaaaaaaaaaaaaaaaaaaaaaaaaaaaaaaaaaaaaaaaaaaaaaaaaaaaaaaaaaaaaaaaaaaaaaaaaaaaaaaaaaaaaaaaaaaaaaaaaaaaaaaaaaaaaaaaaaaaaaaaaaaaaaaaaaaaaaaaaaaaaaaaaaaaaaaaaaaaaaaaaaaaaaaaaaaaaaaaaaaaaaaaaaaaaaaaaaaaaaaaaaaaaaaaaaaaaaaaaaaaaaa101".toList), ("aaaaaaaaaaaaaaaaaaaaaaaaaaaaaaaaaaaaaaaaaaaaaaaaaaaaaaaaaaaaaaaaaaaaaaaaaaaaaaaaaaaaaaaaaaaaaaaaaaaaaaaaaaaaaaaaaaaaaaaaaaaaaaaaaaaaaaaaaaaaaaaaaaaaaaaaaaaaaaaaaaaaaaaaaaaaaaaaaaaaaaaaaaaaaaaaaaaaaaaaaaaaaaaaaaaaaaaaaaaaaaaaaaaaaaaaaaaa102".toList), ("aaaaaaaaaaaaaaaaaaaaaaaaaaaaaaaaaaaaaaaaaaaaaaaaaaaaaaaaaaaaaaaaaaaaaaaaaaaaaaaaaaaaaaaaaaaaaaaaaaaaaaaaaaaaaaaaaaaaaaaaaaaaaaaaaaaaaaaaaaaaaaaaaaaaaaaaaaaaaaaaaaaaaaaaaaaaaaaaaaaaaaaaaaaaaaaaaaaaaaaaaaaaaaaaaaaaaaaaaaaaaaaaaaaaaaaaaaaa103".toList), ("aaaaaaaaaaaaaaaaaaaaaaaaaaaaaaaaaaaaaaaaaaaaaaaaaaaaaaaaaaaaaaaaaaaaaaaaaaaaaaaaaaaaaaaaaaaaaaaaaaaaaaaaaaaaaaaaaaaaaaaaaaaaaaaaaaaaaaaaaaaaaaaaaaaaaaaaaaaaaaaaaaaaaaaaaaaaaaaaaaaaaaaaaaaaaaaaaaaaaaaaaaaaaaaaaaaaaaaaaaaaaaaaaaaaaaaaaaaa104".toList), ("aaaaaaaaaaaaaaaaaaaaaaaaaaaaaaaaaaaaaaaaaaaaaaaaaaaaaaaaaaaaaaaaaaaaaaaaaaaaaaaaaaaaaaaaaaaaaaaaaaaaaaaaaaaaaaaaaaaaaaaaaaaaaaaaaaaaaaaaaaaaaaaaaaaaaaaaaaaaaaaaaaaaaaaaaaaaaaaaaaaaaaaaaaaaaaaaaaaaaaaaaaaaaaaaaaaaaaaaaaaaaaaaaaaaaaaaaaaa105".toList)],
    marks := [],
    frame_log := [(2, RetVal.pass), (2, RetVal.pass), (2, RetVal.pass), (2, RetVal.pass), (2, RetVal.pass), (2, RetVal.pass)],
    ilines := 0,
    tlines := 0,
    slines := 6,
    dropped := 0,
    oob := false }

def c4s18 : St :=
  { next_line_number := 6,
    tag_str := ("@ROOT@B@aaaaaaaaaaaaaaaaaaaaaaaaaaaaaaaaaaaaaaaaaaaaaaaaaaaaaaaaaaaaaaaaaaaaaaaaaaaaaaaaaaaaaaaaaaaaaaaaaaaaaaaaaaaaaaaaaaaaaaaaaaaaaaaaaaaaaaaaaaaaaaaaaaaaaaaaaaaaaaaaaaaaaaaaaaaaaaaaaaaaaaaaaaaaaaaaaaaaaaaaaaaaaaaaaaaaaaaaaaaaaaaaaaaaaaaaaaaa106".toList),
    tag_ptr := 247,
    nest := 3,
    env_tag := [0, 5, 7, 0, 0, 0],
    env_timer := [0, 0, 0, 0, 0, 0],
    next_in := 1602,
    buf_rev := c4buf5,
    is_pause := true,
    sent_rev := [],
    clock := 0,
    mode := RMode.search,
    tag_found := 6,
    p_retval := 0,
    invoked := [],
    entered := [("ROOT".toList), ("B".toList), ("aaaaaaaaaaaaaaaaaaaaaaaaaaaaaaaaaaaaaaaaaaaaaaaaaaaaaaaaaaaaaaaaaaaaaaaaaaaaaaaaaaaaaaaaaaaaaaaaaaaaaaaaaaaaaaaaaaaaaaaaaaaaaaaaaaaaaaaaaaaaaaaaaaaaaaaaaaaaaaaaaaaaaaaaaaaaaaaaaaaaaaaaaaaaaaaaaaaaaaaaaaaaaaaaaaaaaaaaaaaaaaaaaaaaaaaaaaaa100".toList), ("aaaaaaaaaaaaaaaaaaaaaaaaaaaaaaaaaaaaaaaaaaaaaaaaaaaaaaaaaaaaaaaaaaaaaaaaaaaaaaaaaaaaaaaaaaaaaaaaaaaaaaaaaaaaaaaaaaaaaaaaaaaaaaaaaaaaaaaaaaaaaaaaaaaaaaaaaaaaaaaaaaaaaaaaaaaaaaaaaaaaaaaaaaaaaaaaaaaaaaaaaaaaaaaaaaaaaaaaaaaaaaaaaaaaaaaaaaaa101".toList), ("aaaaaaaaaaaaaaaaaaaaaaaaaaaaaaaaaaaaaaaaaaaaaaaaaaaaaaaaaaaaaaaaaaaaaaaaaaaaaaaaaaaaaaaaaaaaaaaaaaaaaaaaaaaaaaaaaaaaaaaaaaaaaaaaaaaaaaaaaaaaaaaaaaaaaaaaaaaaaaaaaaaaaaaaaaaaaaaaaaaaaaaaaaaaaaaaaaaaaaaaaaaaaaaaaaaaaaaaaaaaaaaaaaaaaaaaaaaa102".toList), ("aaaaaaaaaaaaaaaaaaaaaaaaaaaaaaaaaaaaaaaaaaaaaaaaaaaaaaaaaaaaaaaaaaaaaaaaaaaaaaaaaaaaaaaaaaaaaaaaaaaaaaaaaaaaaaaaaaaaaaaaaaaaaaaaaaaaaaaaaaaaaaaaaaaaaaaaaaaaaaaaaaaaaaaaaaaaaaaaaaaaaaaaaaaaaaaaaaaaaaaaaaaaaaaaaaaaaaaaaaaaaaaaaaaaaaaaaaaa103".toList), ("aaaaaaaaaaaaaaaaaaaaaaaaaaaaaaaaaaaaaaaaaaaaaaaaaaaaaaaaaaaaaaaaaaaaaaaaaaaaaaaaaaaaaaaaaaaaaaaaaaaaaaaaaaaaaaaaaaaaaaaaaaaaaaaaaaaaaaaaaaaaaaaaaaaaaaaaaaaaaaaaaaaaaaaaaaaaaaaaaaaaaaaaaaaaaaaaaaaaaaaaaaaaaaaaaaaaaaaaaaaaaaaaaaaaaaaaaaaa104".toList), ("aaaaaaaaaaaaaaaaaaaaaaaaaaaaaaaaaaaaaaaaaaaaaaaaaaaaaaaaaaaaaaaaaaaaaaaaaaaaaaaaaaaaaaaaaaaaaaaaaaaaaaaaaaaaaaaaaaaaaaaaaaaaaaaaaaaaaaaaaaaaaaaaaaaaaaaaaaaaaaaaaaaaaaaaaaaaaaaaaaaaaaaaaaaaaaaaaaaaaaaaaaaaaaaaaaaaaaaaaaaaaaaaaaaaaaaaaaaa105".toList), ("aaaaaaaaaaaaaaaaaaaaaaaaaaaaaaaaaaaaaaaaaaaaaaaaaaaaaaaaaaaaaaaaaaaaaaaaaaaaaaaaaaaaaaaaaaaaaaaaaaaaaaaaaaaaaaaaaaaaaaaaaaaaaaaaaaaaaaaaaaaaaaaaaaaaaaaaaaaaaaaaaaaaaaaaaaaaaaaaaaaaaaaaaaaaaaaaaaaaaaaaaaaaaaaaaaaaaaaaaaaaaaaaaaaaaaaaaaaa106".toList)],
    marks := [],
    frame_log := [(2, RetVal.pass), (2, RetVal.pass), (2, RetVal.pass), (2, RetVal.pass), (2, RetVal.pass), (2, RetVal.pass)],
    ilines := 0,
    tlines := 0,
    slines := 6,
    dropped := 0,
    oob := false }

/-- Report-buffer content (newest first) at stage 19. -/
def c4buf6 : List Char := ("\n601aaaaaaaaaaaaaaaaaaaaaaaaaaaaaaaaaaaaaaaaaaaaaaaaaaaaaaaaaaaaaaaaaaaaaaaaaaaaaaaaaaaaaaaaaaaaaaaaaaaaaaaaaaaaaaaaaaaaaaaaaaaaaaaaaaaaaaaaaaaaaaaaaaaaaaaaaaaaaaaaaaaaaaaaaaaaaaaaaaaaaaaaaaaaaaaaaaaaaaaaaaaaaaaaaaaaaaaaaaaaaaaaaaaaaaaaaaaa@B@TOOR@,      ,    ,6   ,S".toList) ++ c4buf5

def c4s19 : St :=
  { next_line_number := 7,
    tag_str := ("@ROOT@B".toList),
    tag_ptr := 7,
    nest := 2,
    env_tag := [0, 5, 7, 0, 0, 0],
    env_timer := [0, 0, 0, 0, 0, 0],
    next_in := 1869,
    buf_rev := c4buf6,
    is_pause := true,
    sent_rev := [],
    clock := 0,
    mode := RMode.search,
    tag_found := 7,
    p_retval := 0,
    invoked := [],
    entered := [("ROOT".toList), ("B".toList), ("aaaaaaaaaaaaaaaaaaaaaaaaaaaaaaaaaaaaaaaaaaaaaaaaaaaaaaaaaaaaaaaaaaaaaaaaaaaaaaaaaaaaaaaaaaaaaaaaaaaaaaaaaaaaaaaaaaaaaaaaaaaaaaaaaaaaaaaaaaaaaaaaaaaaaaaaaaaaaaaaaaaaaaaaaaaaaaaaaaaaaaaaaaaaaaaaaaaaaaaaaaaaaaaaaaaaaaaaaaaaaaaaaaaaaaaaaaaa100".toList), ("aaaaaaaaaaaaaaaaaaaaaaaaaaaaaaaaaaaaaaaaaaaaaaaaaaaaaaaaaaaaaaaaaaaaaaaaaaaaaaaaaaaaaaaaaaaaaaaaaaaaaaaaaaaaaaaaaaaaaaaaaaaaaaaaaaaaaaaaaaaaaaaaaaaaaaaaaaaaaaaaaaaaaaaaaaaaaaaaaaaaaaaaaaaaaaaaaaaaaaaaaaaaaaaaaaaaaaaaaaaaaaaaaaaaaaaaaaaa101".toList), ("aaaaaaaaaaaaaaaaaaaaaaaaaaaaaaaaaaaaaaaaaaaaaaaaaaaaaaaaaaaaaaaaaaaaaaaaaaaaaaaaaaaaaaaaaaaaaaaaaaaaaaaaaaaaaaaaaaaaaaaaaaaaaaaaaaaaaaaaaaaaaaaaaaaaaaaaaaaaaaaaaaaaaaaaaaaaaaaaaaaaaaaaaaaaaaaaaaaaaaaaaaaaaaaaaaaaaaaaaaaaaaaaaaaaaaaaaaaa102".toList), ("aaaaaaaaaaaaaaaaaaaaaaaaaaaaaaaaaaaaaaaaaaaaaaaaaaaaaaaaaaaaaaaaaaaaaaaaaaaaaaaaaaaaaaaaaaaaaaaaaaaaaaaaaaaaaaaaaaaaaaaaaaaaaaaaaaaaaaaaaaaaaaaaaaaaaaaaaaaaaaaaaaaaaaaaaaaaaaaaaaaaaaaaaaaaaaaaaaaaaaaaaaaaaaaaaaaaaaaaaaaaaaaaaaaaaaaaaaaa103".toList), ("aaaaaaaaaaaaaaaaaaaaaaaaaaaaaaaaaaaaaaaaaaaaaaaaaaaaaaaaaaaaaaaaaaaaaaaaaaaaaaaaaaaaaaaaaaaaaaaaaaaaaaaaaaaaaaaaaaaaaaaaaaaaaaaaaaaaaaaaaaaaaaaaaaaaaaaaaaaaaaaaaaaaaaaaaaaaaaaaaaaaaaaaaaaaaaaaaaaaaaaaaaaaaaaaaaaaaaaaaaaaaaaaaaaaaaaaaaaa104".toList), ("aaaaaaaaaaaaaaaaaaaaaaaaaaaaaaaaaaaaaaaaaaaaaaaaaaaaaaaaaaaaaaaaaaaaaaaaaaaaaaaaaaaaaaaaaaaaaaaaaaaaaaaaaaaaaaaaaaaaaaaaaaaaaaaaaaaaaaaaaaaaaaaaaaaaaaaaaaaaaaaaaaaaaaaaaaaaaaaaaaaaaaaaaaaaaaaaaaaaaaaaaaaaaaaaaaaaaaaaaaaaaaaaaaaaaaaaaaaa105".toList), ("aaaaaaaaaaaaaaaaaaaaaaaaaaaaaaaaaaaaaaaaaaaaaaaaaaaaaaaaaaaaaaaaaaaaaaaaaaaaaaaaaaaaaaaaaaaaaaaaaaaaaaaaaaaaaaaaaaaaaaaaaaaaaaaaaaaaaaaaaaaaaaaaaaaaaaaaaaaaaaaaaaaaaaaaaaaaaaaaaaaaaaaaaaaaaaaaaaaaaaaaaaaaaaaaaaaaaaaaaaaaaaaaaaaaaaaaaaaa106".toList)],
    marks := [],
    frame_log := [(2, RetVal.pass), (2, RetVal.pass), (2, RetVal.pass), (2, RetVal.pass), (2, RetVal.pass), (2, RetVal.pass), (2, RetVal.pass)],
    ilines := 0,
    tlines := 0,
    slines := 7,
    dropped := 0,
    oob := false }

def c4s20 : St :=
  { next_line_number := 7,
    tag_str := ("@ROOT@B@aaaaaaaaaaaaaaaaaaaaaaaaaaaaaaaaaaaaaaaaaaaaaaaaaaaaaaaaaaaaaaaaaaaaaaaaaaaaaaaaaaaaaaaaaaaaaaaaaaaaaaaaaaaaaaaaaaaaaaaaaaaaaaaaaaaaaaaaaaaaaaaaaaaaaaaaaaaaaaaaaaaaaaaaaaaaaaaaaaaaaaaaaaaaaaaaaaaaaaaaaaaaaaaaaaaaaaaaaaaaaaaaaaaaaaaaaaaa107".toList),
    tag_ptr := 247,
    nest := 3,
    env_tag := [0, 5, 7, 0, 0, 0],
    env_timer := [0, 0, 0, 0, 0, 0],
    next_in := 1869,
    buf_rev := c4buf6,
    is_pause := true,
    sent_rev := [],
    clock := 0,
    mode := RMode.search,
    tag_found := 7,
    p_retval := 0,
    invoked := [],
    entered := [("ROOT".toList), ("B".toList), ("aaaaaaaaaaaaaaaaaaaaaaaaaaaaaaaaaaaaaaaaaaaaaaaaaaaaaaaaaaaaaaaaaaaaaaaaaaaaaaaaaaaaaaaaaaaaaaaaaaaaaaaaaaaaaaaaaaaaaaaaaaaaaaaaaaaaaaaaaaaaaaaaaaaaaaaaaaaaaaaaaaaaaaaaaaaaaaaaaaaaaaaaaaaaaaaaaaaaaaaaaaaaaaaaaaaaaaaaaaaaaaaaaaaaaaaaaaaa100".toList), ("aaaaaaaaaaaaaaaaaaaaaaaaaaaaaaaaaaaaaaaaaaaaaaaaaaaaaaaaaaaaaaaaaaaaaaaaaaaaaaaaaaaaaaaaaaaaaaaaaaaaaaaaaaaaaaaaaaaaaaaaaaaaaaaaaaaaaaaaaaaaaaaaaaaaaaaaaaaaaaaaaaaaaaaaaaaaaaaaaaaaaaaaaaaaaaaaaaaaaaaaaaaaaaaaaaaaaaaaaaaaaaaaaaaaaaaaaaaa101".toList), ("aaaaaaaaaaaaaaaaaaaaaaaaaaaaaaaaaaaaaaaaaaaaaaaaaaaaaaaaaaaaaaaaaaaaaaaaaaaaaaaaaaaaaaaaaaaaaaaaaaaaaaaaaaaaaaaaaaaaaaaaaaaaaaaaaaaaaaaaaaaaaaaaaaaaaaaaaaaaaaaaaaaaaaaaaaaaaaaaaaaaaaaaaaaaaaaaaaaaaaaaaaaaaaaaaaaaaaaaaaaaaaaaaaaaaaaaaaaa102".toList), ("aaaaaaaaaaaaaaaaaaaaaaaaaaaaaaaaaaaaaaaaaaaaaaaaaaaaaaaaaaaaaaaaaaaaaaaaaaaaaaaaaaaaaaaaaaaaaaaaaaaaaaaaaaaaaaaaaaaaaaaaaaaaaaaaaaaaaaaaaaaaaaaaaaaaaaaaaaaaaaaaaaaaaaaaaaaaaaaaaaaaaaaaaaaaaaaaaaaaaaaaaaaaaaaaaaaaaaaaaaaaaaaaaaaaaaaaaaaa103".toList), ("aaaaaaaaaaaaaaaaaaaaaaaaaaaaaaaaaaaaaaaaaaaaaaaaaaaaaaaaaaaaaaaaaaaaaaaaaaaaaaaaaaaaaaaaaaaaaaaaaaaaaaaaaaaaaaaaaaaaaaaaaaaaaaaaaaaaaaaaaaaaaaaaaaaaaaaaaaaaaaaaaaaaaaaaaaaaaaaaaaaaaaaaaaaaaaaaaaaaaaaaaaaaaaaaaaaaaaaaaaaaaaaaaaaaaaaaaaaa104".toList), ("aaaaaaaaaaaaaaaaaaaaaaaaaaaaaaaaaaaaaaaaaaaaaaaaaaaaaaaaaaaaaaaaaaaaaaaaaaaaaaaaaaaaaaaaaaaaaaaaaaaaaaaaaaaaaaaaaaaaaaaaaaaaaaaaaaaaaaaaaaaaaaaaaaaaaaaaaaaaaaaaaaaaaaaaaaaaaaaaaaaaaaaaaaaaaaaaaaaaaaaaaaaaaaaaaaaaaaaaaaaaaaaaaaaaaaaaaaaa105".toList), ("aaaaaaaaaaaaaaaaaaaaaaaaaaaaaaaaaaaaaaaaaaaaaaaaaaaaaaaaaaaaaaaaaaaaaaaaaaaaaaaaaaaaaaaaaaaaaaaaaaaaaaaaaaaaaaaaaaaaaaaaaaaaaaaaaaaaaaaaaaaaaaaaaaaaaaaaaaaaaaaaaaaaaaaaaaaaaaaaaaaaaaaaaaaaaaaaaaaaaaaaaaaaaaaaaaaaaaaaaaaaaaaaaaaaaaaaaaaa106".toList), ("aaaaaaaaaaaaaaaaaaaaaaaaaaaaaaaaaaaaaaaaaaaaaaaaaaaaaaaaaaaaaaaaaaaaaaaaaaaaaaaaaaaaaaaaaaaaaaaaaaaaaaaaaaaaaaaaaaaaaaaaaaaaaaaaaaaaaaaaaaaaaaaaaaaaaaaaaaaaaaaaaaaaaaaaaaaaaaaaaaaaaaaaaaaaaaaaaaaaaaaaaaaaaaaaaaaaaaaaaaaaaaaaaaaaaaaaaaaa107".toList)],
    marks := [],
    frame_log := [(2, RetVal.pass), (2, RetVal.pass), (2, RetVal.pass), (2, RetVal.pass), (2, RetVal.pass), (2, RetVal.pass), (2, RetVal.pass)],
    ilines := 0,
    tlines := 0,
    slines := 7,
    dropped := 0,
    oob := false }

/-- Report-buffer content (newest first) at stage 21. -/
def c4buf7 : List Char := ("\n701aaaaaaaaaaaaaaaaaaaaaaaaaaaaaaaaaaaaaaaaaaaaaaaaaaaaaaaaaaaaaaaaaaaaaaaaaaaaaaaaaaaaaaaaaaaaaaaaaaaaaaaaaaaaaaaaaaaaaaaaaaaaaaaaaaaaaaaaaaaaaaaaaaaaaaaaaaaaaaaaaaaaaaaaaaaaaaaaaaaaaaaaaaaaaaaaaaaaaaaaaaaaaaaaaaaaaaaaaaaaaaaaaaaaaaaaaaaa@B@TOOR@,      ,    ,7   ,S".toList) ++ c4buf6

def c4s21 : St :=
  { next_line_number := 8,
    tag_str := ("@ROOT@B".toList),
    tag_ptr := 7,
    nest := 2,
    env_tag := [0, 5, 7, 0, 0, 0],
    env_timer := [0, 0, 0, 0, 0, 0],
    next_in := 2136,
    buf_rev := c4buf7,
    is_pause := true,
    sent_rev := [],
    clock := 0,
    mode := RMode.search,
    tag_found := 8,
    p_retval := 0,
    invoked := [],
    entered := [("ROOT".toList), ("B".toList), ("aaaaaaaaaaaaaaaaaaaaaaaaaaaaaaaaaaaaaaaaaaaaaaaaaaaaaaaaaaaaaaaaaaaaaaaaaaaaaaaaaaaaaaaaaaaaaaaaaaaaaaaaaaaaaaaaaaaaaaaaaaaaaaaaaaaaaaaaaaaaaaaaaaaaaaaaaaaaaaaaaaaaaaaaaaaaaaaaaaaaaaaaaaaaaaaaaaaaaaaaaaaaaaaaaaaaaaaaaaaaaaaaaaaaaaaaaaaa100".toList), ("aaaaaaaaaaaaaaaaaaaaaaaaaaaaaaaaaaaaaaaaaaaaaaaaaaaaaaaaaaaaaaaaaaaaaaaaaaaaaaaaaaaaaaaaaaaaaaaaaaaaaaaaaaaaaaaaaaaaaaaaaaaaaaaaaaaaaaaaaaaaaaaaaaaaaaaaaaaaaaaaaaaaaaaaaaaaaaaaaaaaaaaaaaaaaaaaaaaaaaaaaaaaaaaaaaaaaaaaaaaaaaaaaaaaaaaaaaaa101".toList), ("aaaaaaaaaaaaaaaaaaaaaaaaaaaaaaaaaaaaaaaaaaaaaaaaaaaaaaaaaaaaaaaaaaaaaaaaaaaaaaaaaaaaaaaaaaaaaaaaaaaaaaaaaaaaaaaaaaaaaaaaaaaaaaaaaaaaaaaaaaaaaaaaaaaaaaaaaaaaaaaaaaaaaaaaaaaaaaaaaaaaaaaaaaaaaaaaaaaaaaaaaaaaaaaaaaaaaaaaaaaaaaaaaaaaaaaaaaaa102".toList), ("aaaaaaaaaaaaaaaaaaaaaaaaaaaaaaaaaaaaaaaaaaaaaaaaaaaaaaaaaaaaaaaaaaaaaaaaaaaaaaaaaaaaaaaaaaaaaaaaaaaaaaaaaaaaaaaaaaaaaaaaaaaaaaaaaaaaaaaaaaaaaaaaaaaaaaaaaaaaaaaaaaaaaaaaaaaaaaaaaaaaaaaaaaaaaaaaaaaaaaaaaaaaaaaaaaaaaaaaaaaaaaaaaaaaaaaaaaaa103".toList), ("aaaaaaaaaaaaaaaaaaaaaaaaaaaaaaaaaaaaaaaaaaaaaaaaaaaaaaaaaaaaaaaaaaaaaaaaaaaaaaaaaaaaaaaaaaaaaaaaaaaaaaaaaaaaaaaaaaaaaaaaaaaaaaaaaaaaaaaaaaaaaaaaaaaaaaaaaaaaaaaaaaaaaaaaaaaaaaaaaaaaaaaaaaaaaaaaaaaaaaaaaaaaaaaaaaaaaaaaaaaaaaaaaaaaaaaaaaaa104".toList), ("aaaaaaaaaaaaaaaaaaaaaaaaaaaaaaaaaaaaaaaaaaaaaaaaaaaaaaaaaaaaaaaaaaaaaaaaaaaaaaaaaaaaaaaaaaaaaaaaaaaaaaaaaaaaaaaaaaaaaaaaaaaaaaaaaaaaaaaaaaaaaaaaaaaaaaaaaaaaaaaaaaaaaaaaaaaaaaaaaaaaaaaaaaaaaaaaaaaaaaaaaaaaaaaaaaaaaaaaaaaaaaaaaaaaaaaaaaaa105".toList), ("aaaaaaaaaaaaaaaaaaaaaaaaaaaaaaaaaaaaaaaaaaaaaaaaaaaaaaaaaaaaaaaaaaaaaaaaaaaaaaaaaaaaaaaaaaaaaaaaaaaaaaaaaaaaaaaaaaaaaaaaaaaaaaaaaaaaaaaaaaaaaaaaaaaaaaaaaaaaaaaaaaaaaaaaaaaaaaaaaaaaaaaaaaaaaaaaaaaaaaaaaaaaaaaaaaaaaaaaaaaaaaaaaaaaaaaaaaaa106".toList), ("aaaaaaaaaaaaaaaaaaaaaaaaaaaaaaaaaaaaaaaaaaaaaaaaaaaaaaaaaaaaaaaaaaaaaaaaaaaaaaaaaaaaaaaaaaaaaaaaaaaaaaaaaaaaaaaaaaaaaaaaaaaaaaaaaaaaaaaaaaaaaaaaaaaaaaaaaaaaaaaaaaaaaaaaaaaaaaaaaaaaaaaaaaaaaaaaaaaaaaaaaaaaaaaaaaaaaaaaaaaaaaaaaaaaaaaaaaaa107".toList)],
    marks := [],
    frame_log := [(2, RetVal.pass), (2, RetVal.pass), (2, RetVal.pass), (2, RetVal.pass), (2, RetVal.pass), (2, RetVal.pass), (2, RetVal.pass), (2, RetVal.pass)],
    ilines := 0,
    tlines := 0,
    slines := 8,
    dropped := 0,
    oob := false }

def c4s22 : St :=
  { next_line_number := 8,
    tag_str := ("@ROOT@B@aaaaaaaaaaaaaaaaaaaaaaaaaaaaaaaaaaaaaaaaaaaaaaaaaaaaaaaaaaaaaaaaaaaaaaaaaaaaaaaaaaaaaaaaaaaaaaaaaaaaaaaaaaaaaaaaaaaaaaaaaaaaaaaaaaaaaaaaaaaaaaaaaaaaaaaaaaaaaaaaaaaaaaaaaaaaaaaaaaaaaaaaaaaaaaaaaaaaaaaaaaaaaaaaaaaaaaaaaaaaaaaaaaaaaaaaaaaa108".toList),
    tag_ptr := 247,
    nest := 3,
    env_tag := [0, 5, 7, 0, 0, 0],
    env_timer := [0, 0, 0, 0, 0, 0],
    next_in := 2136,
    buf_rev := c4buf7,
    is_pause := true,
    sent_rev := [],
    clock := 0,
    mode := RMode.search,
    tag_found := 8,
    p_retval := 0,
    invoked := [],
    entered := [("ROOT".toList), ("B".toList), ("aaaaaaaaaaaaaaaaaaaaaaaaaaaaaaaaaaaaaaaaaaaaaaaaaaaaaaaaaaaaaaaaaaaaaaaaaaaaaaaaaaaaaaaaaaaaaaaaaaaaaaaaaaaaaaaaaaaaaaaaaaaaaaaaaaaaaaaaaaaaaaaaaaaaaaaaaaaaaaaaaaaaaaaaaaaaaaaaaaaaaaaaaaaaaaaaaaaaaaaaaaaaaaaaaaaaaaaaaaaaaaaaaaaaaaaaaaaa100".toList), ("aaaaaaaaaaaaaaaaaaaaaaaaaaaaaaaaaaaaaaaaaaaaaaaaaaaaaaaaaaaaaaaaaaaaaaaaaaaaaaaaaaaaaaaaaaaaaaaaaaaaaaaaaaaaaaaaaaaaaaaaaaaaaaaaaaaaaaaaaaaaaaaaaaaaaaaaaaaaaaaaaaaaaaaaaaaaaaaaaaaaaaaaaaaaaaaaaaaaaaaaaaaaaaaaaaaaaaaaaaaaaaaaaaaaaaaaaaaa101".toList), ("aaaaaaaaaaaaaaaaaaaaaaaaaaaaaaaaaaaaaaaaaaaaaaaaaaaaaaaaaaaaaaaaaaaaaaaaaaaaaaaaaaaaaaaaaaaaaaaaaaaaaaaaaaaaaaaaaaaaaaaaaaaaaaaaaaaaaaaaaaaaaaaaaaaaaaaaaaaaaaaaaaaaaaaaaaaaaaaaaaaaaaaaaaaaaaaaaaaaaaaaaaaaaaaaaaaaaaaaaaaaaaaaaaaaaaaaaaaa102".toList), ("aaaaaaaaaaaaaaaaaaaaaaaaaaaaaaaaaaaaaaaaaaaaaaaaaaaaaaaaaaaaaaaaaaaaaaaaaaaaaaaaaaaaaaaaaaaaaaaaaaaaaaaaaaaaaaaaaaaaaaaaaaaaaaaaaaaaaaaaaaaaaaaaaaaaaaaaaaaaaaaaaaaaaaaaaaaaaaaaaaaaaaaaaaaaaaaaaaaaaaaaaaaaaaaaaaaaaaaaaaaaaaaaaaaaaaaaaaaa103".toList), ("aaaaaaaaaaaaaaaaaaaaaaaaaaaaaaaaaaaaaaaaaaaaaaaaaaaaaaaaaaaaaaaaaaaaaaaaaaaaaaaaaaaaaaaaaaaaaaaaaaaaaaaaaaaaaaaaaaaaaaaaaaaaaaaaaaaaaaaaaaaaaaaaaaaaaaaaaaaaaaaaaaaaaaaaaaaaaaaaaaaaaaaaaaaaaaaaaaaaaaaaaaaaaaaaaaaaaaaaaaaaaaaaaaaaaaaaaaaa104".toList), ("aaaaaaaaaaaaaaaaaaaaaaaaaaaaaaaaaaaaaaaaaaaaaaaaaaaaaaaaaaaaaaaaaaaaaaaaaaaaaaaaaaaaaaaaaaaaaaaaaaaaaaaaaaaaaaaaaaaaaaaaaaaaaaaaaaaaaaaaaaaaaaaaaaaaaaaaaaaaaaaaaaaaaaaaaaaaaaaaaaaaaaaaaaaaaaaaaaaaaaaaaaaaaaaaaaaaaaaaaaaaaaaaaaaaaaaaaaaa105".toList), ("aaaaaaaaaaaaaaaaaaaaaaaaaaaaaaaaaaaaaaaaaaaaaaaaaaaaaaaaaaaaaaaaaaaaaaaaaaaaaaaaaaaaaaaaaaaaaaaaaaaaaaaaaaaaaaaaaaaaaaaaaaaaaaaaaaaaaaaaaaaaaaaaaaaaaaaaaaaaaaaaaaaaaaaaaaaaaaaaaaaaaaaaaaaaaaaaaaaaaaaaaaaaaaaaaaaaaaaaaaaaaaaaaaaaaaaaaaaa106".toList), ("aaaaaaaaaaaaaaaaaaaaaaaaaaaaaaaaaaaaaaaaaaaaaaaaaaaaaaaaaaaaaaaaaaaaaaaaaaaaaaaaaaaaaaaaaaaaaaaaaaaaaaaaaaaaaaaaaaaaaaaaaaaaaaaaaaaaaaaaaaaaaaaaaaaaaaaaaaaaaaaaaaaaaaaaaaaaaaaaaaaaaaaaaaaaaaaaaaaaaaaaaaaaaaaaaaaaaaaaaaaaaaaaaaaaaaaaaaaa107".toList), ("aaaaaaaaaaaaaaaaaaaaaaaaaaaaaaaaaaaaaaaaaaaaaaaaaaaaaaaaaaaaaaaaaaaaaaaaaaaaaaaaaaaaaaaaaaaaaaaaaaaaaaaaaaaaaaaaaaaaaaaaaaaaaaaaaaaaaaaaaaaaaaaaaaaaaaaaaaaaaaaaaaaaaaaaaaaaaaaaaaaaaaaaaaaaaaaaaaaaaaaaaaaaaaaaaaaaaaaaaaaaaaaaaaaaaaaaaaaa108".toList)],
    marks := [],
    frame_log := [(2, RetVal.pass), (2, RetVal.pass), (2, RetVal.pass), (2, RetVal.pass), (2, RetVal.pass), (2, RetVal.pass), (2, RetVal.pass), (2, RetVal.pass)],
    ilines := 0,
    tlines := 0,
    slines := 8,
    dropped := 0,
    oob := false }

/-- Report-buffer content (newest first) at stage 23. -/
def c4buf8 : List Char := ("\n801aaaaaaaaaaaaaaaaaaaaaaaaaaaaaaaaaaaaaaaaaaaaaaaaaaaaaaaaaaaaaaaaaaaaaaaaaaaaaaaaaaaaaaaaaaaaaaaaaaaaaaaaaaaaaaaaaaaaaaaaaaaaaaaaaaaaaaaaaaaaaaaaaaaaaaaaaaaaaaaaaaaaaaaaaaaaaaaaaaaaaaaaaaaaaaaaaaaaaaaaaaaaaaaaaaaaaaaaaaaaaaaaaaaaaaaaaaaa@B@TOOR@,      ,    ,8   ,S".toList) ++ c4buf7

def c4s23 : St :=
  { next_line_number := 9,
    tag_str := ("@ROOT@B".toList),
    tag_ptr := 7,
    nest := 2,
    env_tag := [0, 5, 7, 0, 0, 0],
    env_timer := [0, 0, 0, 0, 0, 0],
    next_in := 2403,
    buf_rev := c4buf8,
    is_pause := true,
    sent_rev := [],
    clock := 0,
    mode := RMode.search,
    tag_found := 9,
    p_retval := 0,
    invoked := [],
    entered := [("ROOT".toList), ("B".toList), ("aaaaaaaaaaaaaaaaaaaaaaaaaaaaaaaaaaaaaaaaaaaaaaaaaaaaaaaaaaaaaaaaaaaaaaaaaaaaaaaaaaaaaaaaaaaaaaaaaaaaaaaaaaaaaaaaaaaaaaaaaaaaaaaaaaaaaaaaaaaaaaaaaaaaaaaaaaaaaaaaaaaaaaaaaaaaaaaaaaaaaaaaaaaaaaaaaaaaaaaaaaaaaaaaaaaaaaaaaaaaaaaaaaaaaaaaaaaa100".toList), ("aaaaaaaaaaaaaaaaaaaaaaaaaaaaaaaaaaaaaaaaaaaaaaaaaaaaaaaaaaaaaaaaaaaaaaaaaaaaaaaaaaaaaaaaaaaaaaaaaaaaaaaaaaaaaaaaaaaaaaaaaaaaaaaaaaaaaaaaaaaaaaaaaaaaaaaaaaaaaaaaaaaaaaaaaaaaaaaaaaaaaaaaaaaaaaaaaaaaaaaaaaaaaaaaaaaaaaaaaaaaaaaaaaaaaaaaaaaa101".toList), ("aaaaaaaaaaaaaaaaaaaaaaaaaaaaaaaaaaaaaaaaaaaaaaaaaaaaaaaaaaaaaaaaaaaaaaaaaaaaaaaaaaaaaaaaaaaaaaaaaaaaaaaaaaaaaaaaaaaaaaaaaaaaaaaaaaaaaaaaaaaaaaaaaaaaaaaaaaaaaaaaaaaaaaaaaaaaaaaaaaaaaaaaaaaaaaaaaaaaaaaaaaaaaaaaaaaaaaaaaaaaaaaaaaaaaaaaaaaa102".toList), ("aaaaaaaaaaaaaaaaaaaaaaaaaaaaaaaaaaaaaaaaaaaaaaaaaaaaaaaaaaaaaaaaaaaaaaaaaaaaaaaaaaaaaaaaaaaaaaaaaaaaaaaaaaaaaaaaaaaaaaaaaaaaaaaaaaaaaaaaaaaaaaaaaaaaaaaaaaaaaaaaaaaaaaaaaaaaaaaaaaaaaaaaaaaaaaaaaaaaaaaaaaaaaaaaaaaaaaaaaaaaaaaaaaaaaaaaaaaa103".toList), ("aaaaaaaaaaaaaaaaaaaaaaaaaaaaaaaaaaaaaaaaaaaaaaaaaaaaaaaaaaaaaaaaaaaaaaaaaaaaaaaaaaaaaaaaaaaaaaaaaaaaaaaaaaaaaaaaaaaaaaaaaaaaaaaaaaaaaaaaaaaaaaaaaaaaaaaaaaaaaaaaaaaaaaaaaaaaaaaaaaaaaaaaaaaaaaaaaaaaaaaaaaaaaaaaaaaaaaaaaaaaaaaaaaaaaaaaaaaa104".toList), ("aaaaaaaaaaaaaaaaaaaaaaaaaaaaaaaaaaaaaaaaaaaaaaaaaaaaaaaaaaaaaaaaaaaaaaaaaaaaaaaaaaaaaaaaaaaaaaaaaaaaaaaaaaaaaaaaaaaaaaaaaaaaaaaaaaaaaaaaaaaaaaaaaaaaaaaaaaaaaaaaaaaaaaaaaaaaaaaaaaaaaaaaaaaaaaaaaaaaaaaaaaaaaaaaaaaaaaaaaaaaaaaaaaaaaaaaaaaa105".toList), ("aaaaaaaaaaaaaaaaaaaaaaaaaaaaaaaaaaaaaaaaaaaaaaaaaaaaaaaaaaaaaaaaaaaaaaaaaaaaaaaaaaaaaaaaaaaaaaaaaaaaaaaaaaaaaaaaaaaaaaaaaaaaaaaaaaaaaaaaaaaaaaaaaaaaaaaaaaaaaaaaaaaaaaaaaaaaaaaaaaaaaaaaaaaaaaaaaaaaaaaaaaaaaaaaaaaaaaaaaaaaaaaaaaaaaaaaaaaa106".toList), ("aaaaaaaaaaaaaaaaaaaaaaaaaaaaaaaaaaaaaaaaaaaaaaaaaaaaaaaaaaaaaaaaaaaaaaaaaaaaaaaaaaaaaaaaaaaaaaaaaaaaaaaaaaaaaaaaaaaaaaaaaaaaaaaaaaaaaaaaaaaaaaaaaaaaaaaaaaaaaaaaaaaaaaaaaaaaaaaaaaaaaaaaaaaaaaaaaaaaaaaaaaaaaaaaaaaaaaaaaaaaaaaaaaaaaaaaaaaa107".toList), ("aaaaaaaaaaaaaaaaaaaaaaaaaaaaaaaaaaaaaaaaaaaaaaaaaaaaaaaaaaaaaaaaaaaaaaaaaaaaaaaaaaaaaaaaaaaaaaaaaaaaaaaaaaaaaaaaaaaaaaaaaaaaaaaaaaaaaaaaaaaaaaaaaaaaaaaaaaaaaaaaaaaaaaaaaaaaaaaaaaaaaaaaaaaaaaaaaaaaaaaaaaaaaaaaaaaaaaaaaaaaaaaaaaaaaaaaaaaa108".toList)],
    marks := [],
    frame_log := [(2, RetVal.pass), (2, RetVal.pass), (2, RetVal.pass), (2, RetVal.pass), (2, RetVal.pass), (2, RetVal.pass), (2, RetVal.pass), (2, RetVal.pass), (2, RetVal.pass)],
    ilines := 0,
    tlines := 0,
    slines := 9,
    dropped := 0,
    oob := false }

def c4s24 : St :=
  { next_line_number := 9,
    tag_str := ("@ROOT@B@aaaaaaaaaaaaaaaaaaaaaaaaaaaaaaaaaaaaaaaaaaaaaaaaaaaaaaaaaaaaaaaaaaaaaaaaaaaaaaaaaaaaaaaaaaaaaaaaaaaaaaaaaaaaaaaaaaaaaaaaaaaaaaaaaaaaaaaaaaaaaaaaaaaaaaaaaaaaaaaaaaaaaaaaaaaaaaaaaaaaaaaaaaaaaaaaaaaaaaaaaaaaaaaaaaaaaaaaaaaaaaaaaaaaaaaaaaaa109".toList),
    tag_ptr := 247,
    nest := 3,
    env_tag := [0, 5, 7, 0, 0, 0],
    env_timer := [0, 0, 0, 0, 0, 0],
    next_in := 2403,
    buf_rev := c4buf8,
    is_pause := true,
    sent_rev := [],
    clock := 0,
    mode := RMode.search,
    tag_found := 9,
    p_retval := 0,
    invoked := [],
    entered := [("ROOT".toList), ("B".toList), ("aaaaaaaaaaaaaaaaaaaaaaaaaaaaaaaaaaaaaaaaaaaaaaaaaaaaaaaaaaaaaaaaaaaaaaaaaaaaaaaaaaaaaaaaaaaaaaaaaaaaaaaaaaaaaaaaaaaaaaaaaaaaaaaaaaaaaaaaaaaaaaaaaaaaaaaaaaaaaaaaaaaaaaaaaaaaaaaaaaaaaaaaaaaaaaaaaaaaaaaaaaaaaaaaaaaaaaaaaaaaaaaaaaaaaaaaaaaa100".toList), ("aaaaaaaaaaaaaaaaaaaaaaaaaaaaaaaaaaaaaaaaaaaaaaaaaaaaaaaaaaaaaaaaaaaaaaaaaaaaaaaaaaaaaaaaaaaaaaaaaaaaaaaaaaaaaaaaaaaaaaaaaaaaaaaaaaaaaaaaaaaaaaaaaaaaaaaaaaaaaaaaaaaaaaaaaaaaaaaaaaaaaaaaaaaaaaaaaaaaaaaaaaaaaaaaaaaaaaaaaaaaaaaaaaaaaaaaaaaa101".toList), ("aaaaaaaaaaaaaaaaaaaaaaaaaaaaaaaaaaaaaaaaaaaaaaaaaaaaaaaaaaaaaaaaaaaaaaaaaaaaaaaaaaaaaaaaaaaaaaaaaaaaaaaaaaaaaaaaaaaaaaaaaaaaaaaaaaaaaaaaaaaaaaaaaaaaaaaaaaaaaaaaaaaaaaaaaaaaaaaaaaaaaaaaaaaaaaaaaaaaaaaaaaaaaaaaaaaaaaaaaaaaaaaaaaaaaaaaaaaa102".toList), ("aaaaaaaaaaaaaaaaaaaaaaaaaaaaaaaaaaaaaaaaaaaaaaaaaaaaaaaaaaaaaaaaaaaaaaaaaaaaaaaaaaaaaaaaaaaaaaaaaaaaaaaaaaaaaaaaaaaaaaaaaaaaaaaaaaaaaaaaaaaaaaaaaaaaaaaaaaaaaaaaaaaaaaaaaaaaaaaaaaaaaaaaaaaaaaaaaaaaaaaaaaaaaaaaaaaaaaaaaaaaaaaaaaaaaaaaaaaa103".toList), ("aaaaaaaaaaaaaaaaaaaaaaaaaaaaaaaaaaaaaaaaaaaaaaaaaaaaaaaaaaaaaaaaaaaaaaaaaaaaaaaaaaaaaaaaaaaaaaaaaaaaaaaaaaaaaaaaaaaaaaaaaaaaaaaaaaaaaaaaaaaaaaaaaaaaaaaaaaaaaaaaaaaaaaaaaaaaaaaaaaaaaaaaaaaaaaaaaaaaaaaaaaaaaaaaaaaaaaaaaaaaaaaaaaaaaaaaaaaa104".toList), ("aaaaaaaaaaaaaaaaaaaaaaaaaaaaaaaaaaaaaaaaaaaaaaaaaaaaaaaaaaaaaaaaaaaaaaaaaaaaaaaaaaaaaaaaaaaaaaaaaaaaaaaaaaaaaaaaaaaaaaaaaaaaaaaaaaaaaaaaaaaaaaaaaaaaaaaaaaaaaaaaaaaaaaaaaaaaaaaaaaaaaaaaaaaaaaaaaaaaaaaaaaaaaaaaaaaaaaaaaaaaaaaaaaaaaaaaaaaa105".toList), ("aaaaaaaaaaaaaaaaaaaaaaaaaaaaaaaaaaaaaaaaaaaaaaaaaaaaaaaaaaaaaaaaaaaaaaaaaaaaaaaaaaaaaaaaaaaaaaaaaaaaaaaaaaaaaaaaaaaaaaaaaaaaaaaaaaaaaaaaaaaaaaaaaaaaaaaaaaaaaaaaaaaaaaaaaaaaaaaaaaaaaaaaaaaaaaaaaaaaaaaaaaaaaaaaaaaaaaaaaaaaaaaaaaaaaaaaaaaa106".toList), ("aaaaaaaaaaaaaaaaaaaaaaaaaaaaaaaaaaaaaaaaaaaaaaaaaaaaaaaaaaaaaaaaaaaaaaaaaaaaaaaaaaaaaaaaaaaaaaaaaaaaaaaaaaaaaaaaaaaaaaaaaaaaaaaaaaaaaaaaaaaaaaaaaaaaaaaaaaaaaaaaaaaaaaaaaaaaaaaaaaaaaaaaaaaaaaaaaaaaaaaaaaaaaaaaaaaaaaaaaaaaaaaaaaaaaaaaaaaa107".toList), ("aaaaaaaaaaaaaaaaaaaaaaaaaaaaaaaaaaaaaaaaaaaaaaaaaaaaaaaaaaaaaaaaaaaaaaaaaaaaaaaaaaaaaaaaaaaaaaaaaaaaaaaaaaaaaaaaaaaaaaaaaaaaaaaaaaaaaaaaaaaaaaaaaaaaaaaaaaaaaaaaaaaaaaaaaaaaaaaaaaaaaaaaaaaaaaaaaaaaaaaaaaaaaaaaaaaaaaaaaaaaaaaaaaaaaaaaaaaa108".toList), ("aaaaaaaaaaaaaaaaaaaaaaaaaaaaaaaaaaaaaaaaaaaaaaaaaaaaaaaaaaaaaaaaaaaaaaaaaaaaaaaaaaaaaaaaaaaaaaaaaaaaaaaaaaaaaaaaaaaaaaaaaaaaaaaaaaaaaaaaaaaaaaaaaaaaaaaaaaaaaaaaaaaaaaaaaaaaaaaaaaaaaaaaaaaaaaaaaaaaaaaaaaaaaaaaaaaaaaaaaaaaaaaaaaaaaaaaaaaa109".toList)],
    marks := [],
    frame_log := [(2, RetVal.pass), (2, RetVal.pass), (2, RetVal.pass), (2, RetVal.pass), (2, RetVal.pass), (2, RetVal.pass), (2, RetVal.pass), (2, RetVal.pass), (2, RetVal.pass)],
    ilines := 0,
    tlines := 0,
    slines := 9,
    dropped := 0,
    oob := false }

/-- Report-buffer content (newest first) at stage 25. -/
def c4buf9 : List Char := ("\n901aaaaaaaaaaaaaaaaaaaaaaaaaaaaaaaaaaaaaaaaaaaaaaaaaaaaaaaaaaaaaaaaaaaaaaaaaaaaaaaaaaaaaaaaaaaaaaaaaaaaaaaaaaaaaaaaaaaaaaaaaaaaaaaaaaaaaaaaaaaaaaaaaaaaaaaaaaaaaaaaaaaaaaaaaaaaaaaaaaaaaaaaaaaaaaaaaaaaaaaaaaaaaaaaaaaaaaaaaaaaaaaaaaaaaaaaaaaa@B@TOOR@,      ,    ,9   ,S".toList) ++ c4buf8

def c4s25 : St :=
  { next_line_number := 10,
    tag_str := ("@ROOT@B".toList),
    tag_ptr := 7,
    nest := 2,
    env_tag := [0, 5, 7, 0, 0, 0],
    env_timer := [0, 0, 0, 0, 0, 0],
    next_in := 2670,
    buf_rev := c4buf9,
    is_pause := true,
    sent_rev := [],
    clock := 0,
    mode := RMode.search,
    tag_found := 10,
    p_retval := 0,
    invoked := [],
    entered := [("ROOT".toList), ("B".toList), ("aaaaaaaaaaaaaaaaaaaaaaaaaaaaaaaaaaaaaaaaaaaaaaaaaaaaaaaaaaaaaaaaaaaaaaaaaaaaaaaaaaaaaaaaaaaaaaaaaaaaaaaaaaaaaaaaaaaaaaaaaaaaaaaaaaaaaaaaaaaaaaaaaaaaaaaaaaaaaaaaaaaaaaaaaaaaaaaaaaaaaaaaaaaaaaaaaaaaaaaaaaaaaaaaaaaaaaaaaaaaaaaaaaaaaaaaaaaa100".toList), ("aaaaaaaaaaaaaaaaaaaaaaaaaaaaaaaaaaaaaaaaaaaaaaaaaaaaaaaaaaaaaaaaaaaaaaaaaaaaaaaaaaaaaaaaaaaaaaaaaaaaaaaaaaaaaaaaaaaaaaaaaaaaaaaaaaaaaaaaaaaaaaaaaaaaaaaaaaaaaaaaaaaaaaaaaaaaaaaaaaaaaaaaaaaaaaaaaaaaaaaaaaaaaaaaaaaaaaaaaaaaaaaaaaaaaaaaaaaa101".toList), ("aaaaaaaaaaaaaaaaaaaaaaaaaaaaaaaaaaaaaaaaaaaaaaaaaaaaaaaaaaaaaaaaaaaaaaaaaaaaaaaaaaaaaaaaaaaaaaaaaaaaaaaaaaaaaaaaaaaaaaaaaaaaaaaaaaaaaaaaaaaaaaaaaaaaaaaaaaaaaaaaaaaaaaaaaaaaaaaaaaaaaaaaaaaaaaaaaaaaaaaaaaaaaaaaaaaaaaaaaaaaaaaaaaaaaaaaaaaa102".toList), ("aaaaaaaaaaaaaaaaaaaaaaaaaaaaaaaaaaaaaaaaaaaaaaaaaaaaaaaaaaaaaaaaaaaaaaaaaaaaaaaaaaaaaaaaaaaaaaaaaaaaaaaaaaaaaaaaaaaaaaaaaaaaaaaaaaaaaaaaaaaaaaaaaaaaaaaaaaaaaaaaaaaaaaaaaaaaaaaaaaaaaaaaaaaaaaaaaaaaaaaaaaaaaaaaaaaaaaaaaaaaaaaaaaaaaaaaaaaa103".toList), ("aaaaaaaaaaaaaaaaaaaaaaaaaaaaaaaaaaaaaaaaaaaaaaaaaaaaaaaaaaaaaaaaaaaaaaaaaaaaaaaaaaaaaaaaaaaaaaaaaaaaaaaaaaaaaaaaaaaaaaaaaaaaaaaaaaaaaaaaaaaaaaaaaaaaaaaaaaaaaaaaaaaaaaaaaaaaaaaaaaaaaaaaaaaaaaaaaaaaaaaaaaaaaaaaaaaaaaaaaaaaaaaaaaaaaaaaaaaa104".toList), ("aaaaaaaaaaaaaaaaaaaaaaaaaaaaaaaaaaaaaaaaaaaaaaaaaaaaaaaaaaaaaaaaaaaaaaaaaaaaaaaaaaaaaaaaaaaaaaaaaaaaaaaaaaaaaaaaaaaaaaaaaaaaaaaaaaaaaaaaaaaaaaaaaaaaaaaaaaaaaaaaaaaaaaaaaaaaaaaaaaaaaaaaaaaaaaaaaaaaaaaaaaaaaaaaaaaaaaaaaaaaaaaaaaaaaaaaaaaa105".toList), ("aaaaaaaaaaaaaaaaaaaaaaaaaaaaaaaaaaaaaaaaaaaaaaaaaaaaaaaaaaaaaaaaaaaaaaaaaaaaaaaaaaaaaaaaaaaaaaaaaaaaaaaaaaaaaaaaaaaaaaaaaaaaaaaaaaaaaaaaaaaaaaaaaaaaaaaaaaaaaaaaaaaaaaaaaaaaaaaaaaaaaaaaaaaaaaaaaaaaaaaaaaaaaaaaaaaaaaaaaaaaaaaaaaaaaaaaaaaa106".toList), ("aaaaaaaaaaaaaaaaaaaaaaaaaaaaaaaaaaaaaaaaaaaaaaaaaaaaaaaaaaaaaaaaaaaaaaaaaaaaaaaaaaaaaaaaaaaaaaaaaaaaaaaaaaaaaaaaaaaaaaaaaaaaaaaaaaaaaaaaaaaaaaaaaaaaaaaaaaaaaaaaaaaaaaaaaaaaaaaaaaaaaaaaaaaaaaaaaaaaaaaaaaaaaaaaaaaaaaaaaaaaaaaaaaaaaaaaaaaa107".toList), ("aaaaaaaaaaaaaaaaaaaaaaaaaaaaaaaaaaaaaaaaaaaaaaaaaaaaaaaaaaaaaaaaaaaaaaaaaaaaaaaaaaaaaaaaaaaaaaaaaaaaaaaaaaaaaaaaaaaaaaaaaaaaaaaaaaaaaaaaaaaaaaaaaaaaaaaaaaaaaaaaaaaaaaaaaaaaaaaaaaaaaaaaaaaaaaaaaaaaaaaaaaaaaaaaaaaaaaaaaaaaaaaaaaaaaaaaaaaa108".toList), ("aaaaaaaaaaaaaaaaaaaaaaaaaaaaaaaaaaaaaaaaaaaaaaaaaaaaaaaaaaaaaaaaaaaaaaaaaaaaaaaaaaaaaaaaaaaaaaaaaaaaaaaaaaaaaaaaaaaaaaaaaaaaaaaaaaaaaaaaaaaaaaaaaaaaaaaaaaaaaaaaaaaaaaaaaaaaaaaaaaaaaaaaaaaaaaaaaaaaaaaaaaaaaaaaaaaaaaaaaaaaaaaaaaaaaaaaaaaa109".toList)],
    marks := [],
    frame_log := [(2, RetVal.pass), (2, RetVal.pass), (2, RetVal.pass), (2, RetVal.pass), (2, RetVal.pass), (2, RetVal.pass), (2, RetVal.pass), (2, RetVal.pass), (2, RetVal.pass), (2, RetVal.pass)],
    ilines := 0,
    tlines := 0,
    slines := 10,
    dropped := 0,
    oob := false }

def c4s26 : St :=
  { next_line_number := 10,
    tag_str := ("@ROOT@B@aaaaaaaaaaaaaaaaaaaaaaaaaaaaaaaaaaaaaaaaaaaaaaaaaaaaaaaaaaaaaaaaaaaaaaaaaaaaaaaaaaaaaaaaaaaaaaaaaaaaaaaaaaaaaaaaaaaaaaaaaaaaaaaaaaaaaaaaaaaaaaaaaaaaaaaaaaaaaaaaaaaaaaaaaaaaaaaaaaaaaaaaaaaaaaaaaaaaaaaaaaaaaaaaaaaaaaaaaaaaaaaaaaaaaaaaaaaa110".toList),
    tag_ptr := 247,
    nest := 3,
    env_tag := [0, 5, 7, 0, 0, 0],
    env_timer := [0, 0, 0, 0, 0, 0],
    next_in := 2670,
    buf_rev := c4buf9,
    is_pause := true,
    sent_rev := [],
    clock := 0,
    mode := RMode.search,
    tag_found := 10,
    p_retval := 0,
    invoked := [],
    entered := [("ROOT".toList), ("B".toList), ("aaaaaaaaaaaaaaaaaaaaaaaaaaaaaaaaaaaaaaaaaaaaaaaaaaaaaaaaaaaaaaaaaaaaaaaaaaaaaaaaaaaaaaaaaaaaaaaaaaaaaaaaaaaaaaaaaaaaaaaaaaaaaaaaaaaaaaaaaaaaaaaaaaaaaaaaaaaaaaaaaaaaaaaaaaaaaaaaaaaaaaaaaaaaaaaaaaaaaaaaaaaaaaaaaaaaaaaaaaaaaaaaaaaaaaaaaaaa100".toList), ("aaaaaaaaaaaaaaaaaaaaaaaaaaaaaaaaaaaaaaaaaaaaaaaaaaaaaaaaaaaaaaaaaaaaaaaaaaaaaaaaaaaaaaaaaaaaaaaaaaaaaaaaaaaaaaaaaaaaaaaaaaaaaaaaaaaaaaaaaaaaaaaaaaaaaaaaaaaaaaaaaaaaaaaaaaaaaaaaaaaaaaaaaaaaaaaaaaaaaaaaaaaaaaaaaaaaaaaaaaaaaaaaaaaaaaaaaaaa101".toList), ("aaaaaaaaaaaaaaaaaaaaaaaaaaaaaaaaaaaaaaaaaaaaaaaaaaaaaaaaaaaaaaaaaaaaaaaaaaaaaaaaaaaaaaaaaaaaaaaaaaaaaaaaaaaaaaaaaaaaaaaaaaaaaaaaaaaaaaaaaaaaaaaaaaaaaaaaaaaaaaaaaaaaaaaaaaaaaaaaaaaaaaaaaaaaaaaaaaaaaaaaaaaaaaaaaaaaaaaaaaaaaaaaaaaaaaaaaaaa102".toList), ("aaaaaaaaaaaaaaaaaaaaaaaaaaaaaaaaaaaaaaaaaaaaaaaaaaaaaaaaaaaaaaaaaaaaaaaaaaaaaaaaaaaaaaaaaaaaaaaaaaaaaaaaaaaaaaaaaaaaaaaaaaaaaaaaaaaaaaaaaaaaaaaaaaaaaaaaaaaaaaaaaaaaaaaaaaaaaaaaaaaaaaaaaaaaaaaaaaaaaaaaaaaaaaaaaaaaaaaaaaaaaaaaaaaaaaaaaaaa103".toList), ("aaaaaaaaaaaaaaaaaaaaaaaaaaaaaaaaaaaaaaaaaaaaaaaaaaaaaaaaaaaaaaaaaaaaaaaaaaaaaaaaaaaaaaaaaaaaaaaaaaaaaaaaaaaaaaaaaaaaaaaaaaaaaaaaaaaaaaaaaaaaaaaaaaaaaaaaaaaaaaaaaaaaaaaaaaaaaaaaaaaaaaaaaaaaaaaaaaaaaaaaaaaaaaaaaaaaaaaaaaaaaaaaaaaaaaaaaaaa104".toList), ("aaaaaaaaaaaaaaaaaaaaaaaaaaaaaaaaaaaaaaaaaaaaaaaaaaaaaaaaaaaaaaaaaaaaaaaaaaaaaaaaaaaaaaaaaaaaaaaaaaaaaaaaaaaaaaaaaaaaaaaaaaaaaaaaaaaaaaaaaaaaaaaaaaaaaaaaaaaaaaaaaaaaaaaaaaaaaaaaaaaaaaaaaaaaaaaaaaaaaaaaaaaaaaaaaaaaaaaaaaaaaaaaaaaaaaaaaaaa105".toList), ("aaaaaaaaaaaaaaaaaaaaaaaaaaaaaaaaaaaaaaaaaaaaaaaaaaaaaaaaaaaaaaaaaaaaaaaaaaaaaaaaaaaaaaaaaaaaaaaaaaaaaaaaaaaaaaaaaaaaaaaaaaaaaaaaaaaaaaaaaaaaaaaaaaaaaaaaaaaaaaaaaaaaaaaaaaaaaaaaaaaaaaaaaaaaaaaaaaaaaaaaaaaaaaaaaaaaaaaaaaaaaaaaaaaaaaaaaaaa106".toList), ("aaaaaaaaaaaaaaaaaaaaaaaaaaaaaaaaaaaaaaaaaaaaaaaaaaaaaaaaaaaaaaaaaaaaaaaaaaaaaaaaaaaaaaaaaaaaaaaaaaaaaaaaaaaaaaaaaaaaaaaaaaaaaaaaaaaaaaaaaaaaaaaaaaaaaaaaaaaaaaaaaaaaaaaaaaaaaaaaaaaaaaaaaaaaaaaaaaaaaaaaaaaaaaaaaaaaaaaaaaaaaaaaaaaaaaaaaaaa107".toList), ("aaaaaaaaaaaaaaaaaaaaaaaaaaaaaaaaaaaaaaaaaaaaaaaaaaaaaaaaaaaaaaaaaaaaaaaaaaaaaaaaaaaaaaaaaaaaaaaaaaaaaaaaaaaaaaaaaaaaaaaaaaaaaaaaaaaaaaaaaaaaaaaaaaaaaaaaaaaaaaaaaaaaaaaaaaaaaaaaaaaaaaaaaaaaaaaaaaaaaaaaaaaaaaaaaaaaaaaaaaaaaaaaaaaaaaaaaaaa108".toList), ("aaaaaaaaaaaaaaaaaaaaaaaaaaaaaaaaaaaaaaaaaaaaaaaaaaaaaaaaaaaaaaaaaaaaaaaaaaaaaaaaaaaaaaaaaaaaaaaaaaaaaaaaaaaaaaaaaaaaaaaaaaaaaaaaaaaaaaaaaaaaaaaaaaaaaaaaaaaaaaaaaaaaaaaaaaaaaaaaaaaaaaaaaaaaaaaaaaaaaaaaaaaaaaaaaaaaaaaaaaaaaaaaaaaaaaaaaaaa109".toList), ("aaaaaaaaaaaaaaaaaaaaaaaaaaaaaaaaaaaaaaaaaaaaaaaaaaaaaaaaaaaaaaaaaaaaaaaaaaaaaaaaaaaaaaaaaaaaaaaaaaaaaaaaaaaaaaaaaaaaaaaaaaaaaaaaaaaaaaaaaaaaaaaaaaaaaaaaaaaaaaaaaaaaaaaaaaaaaaaaaaaaaaaaaaaaaaaaaaaaaaaaaaaaaaaaaaaaaaaaaaaaaaaaaaaaaaaaaaaa110".toList)],
    marks := [],
    frame_log := [(2, RetVal.pass), (2, RetVal.pass), (2, RetVal.pass), (2, RetVal.pass), (2, RetVal.pass), (2, RetVal.pass), (2, RetVal.pass), (2, RetVal.pass), (2, RetVal.pass), (2, RetVal.pass)],
    ilines := 0,
    tlines := 0,
    slines := 10,
    dropped := 0,
    oob := false }

/-- Report-buffer content (newest first) at stage 27. -/
def c4buf10 : List Char := ("\n011aaaaaaaaaaaaaaaaaaaaaaaaaaaaaaaaaaaaaaaaaaaaaaaaaaaaaaaaaaaaaaaaaaaaaaaaaaaaaaaaaaaaaaaaaaaaaaaaaaaaaaaaaaaaaaaaaaaaaaaaaaaaaaaaaaaaaaaaaaaaaaaaaaaaaaaaaaaaaaaaaaaaaaaaaaaaaaaaaaaaaaaaaaaaaaaaaaaaaaaaaaaaaaaaaaaaaaaaaaaaaaaaaaaaaaaaaaaa@B@TOOR@,      ,    ,01  ,S".toList) ++ c4buf9

def c4s27 : St :=
  { next_line_number := 11,
    tag_str := ("@ROOT@B".toList),
    tag_ptr := 7,
    nest := 2,
    env_tag := [0, 5, 7, 0, 0, 0],
    env_timer := [0, 0, 0, 0, 0, 0],
    next_in := 2937,
    buf_rev := c4buf10,
    is_pause := true,
    sent_rev := [],
    clock := 0,
    mode := RMode.search,
    tag_found := 11,
    p_retval := 0,
    invoked := [],
    entered := [("ROOT".toList), ("B".toList), ("aaaaaaaaaaaaaaaaaaaaaaaaaaaaaaaaaaaaaaaaaaaaaaaaaaaaaaaaaaaaaaaaaaaaaaaaaaaaaaaaaaaaaaaaaaaaaaaaaaaaaaaaaaaaaaaaaaaaaaaaaaaaaaaaaaaaaaaaaaaaaaaaaaaaaaaaaaaaaaaaaaaaaaaaaaaaaaaaaaaaaaaaaaaaaaaaaaaaaaaaaaaaaaaaaaaaaaaaaaaaaaaaaaaaaaaaaaaa100".toList), ("aaaaaaaaaaaaaaaaaaaaaaaaaaaaaaaaaaaaaaaaaaaaaaaaaaaaaaaaaaaaaaaaaaaaaaaaaaaaaaaaaaaaaaaaaaaaaaaaaaaaaaaaaaaaaaaaaaaaaaaaaaaaaaaaaaaaaaaaaaaaaaaaaaaaaaaaaaaaaaaaaaaaaaaaaaaaaaaaaaaaaaaaaaaaaaaaaaaaaaaaaaaaaaaaaaaaaaaaaaaaaaaaaaaaaaaaaaaa101".toList), ("aaaaaaaaaaaaaaaaaaaaaaaaaaaaaaaaaaaaaaaaaaaaaaaaaaaaaaaaaaaaaaaaaaaaaaaaaaaaaaaaaaaaaaaaaaaaaaaaaaaaaaaaaaaaaaaaaaaaaaaaaaaaaaaaaaaaaaaaaaaaaaaaaaaaaaaaaaaaaaaaaaaaaaaaaaaaaaaaaaaaaaaaaaaaaaaaaaaaaaaaaaaaaaaaaaaaaaaaaaaaaaaaaaaaaaaaaaaa102".toList), ("aaaaaaaaaaaaaaaaaaaaaaaaaaaaaaaaaaaaaaaaaaaaaaaaaaaaaaaaaaaaaaaaaaaaaaaaaaaaaaaaaaaaaaaaaaaaaaaaaaaaaaaaaaaaaaaaaaaaaaaaaaaaaaaaaaaaaaaaaaaaaaaaaaaaaaaaaaaaaaaaaaaaaaaaaaaaaaaaaaaaaaaaaaaaaaaaaaaaaaaaaaaaaaaaaaaaaaaaaaaaaaaaaaaaaaaaaaaa103".toList), ("aaaaaaaaaaaaaaaaaaaaaaaaaaaaaaaaaaaaaaaaaaaaaaaaaaaaaaaaaaaaaaaaaaaaaaaaaaaaaaaaaaaaaaaaaaaaaaaaaaaaaaaaaaaaaaaaaaaaaaaaaaaaaaaaaaaaaaaaaaaaaaaaaaaaaaaaaaaaaaaaaaaaaaaaaaaaaaaaaaaaaaaaaaaaaaaaaaaaaaaaaaaaaaaaaaaaaaaaaaaaaaaaaaaaaaaaaaaa104".toList), ("aaaaaaaaaaaaaaaaaaaaaaaaaaaaaaaaaaaaaaaaaaaaaaaaaaaaaaaaaaaaaaaaaaaaaaaaaaaaaaaaaaaaaaaaaaaaaaaaaaaaaaaaaaaaaaaaaaaaaaaaaaaaaaaaaaaaaaaaaaaaaaaaaaaaaaaaaaaaaaaaaaaaaaaaaaaaaaaaaaaaaaaaaaaaaaaaaaaaaaaaaaaaaaaaaaaaaaaaaaaaaaaaaaaaaaaaaaaa105".toList), ("aaaaaaaaaaaaaaaaaaaaaaaaaaaaaaaaaaaaaaaaaaaaaaaaaaaaaaaaaaaaaaaaaaaaaaaaaaaaaaaaaaaaaaaaaaaaaaaaaaaaaaaaaaaaaaaaaaaaaaaaaaaaaaaaaaaaaaaaaaaaaaaaaaaaaaaaaaaaaaaaaaaaaaaaaaaaaaaaaaaaaaaaaaaaaaaaaaaaaaaaaaaaaaaaaaaaaaaaaaaaaaaaaaaaaaaaaaaa106".toList), ("aaaaaaaaaaaaaaaaaaaaaaaaaaaaaaaaaaaaaaaaaaaaaaaaaaaaaaaaaaaaaaaaaaaaaaaaaaaaaaaaaaaaaaaaaaaaaaaaaaaaaaaaaaaaaaaaaaaaaaaaaaaaaaaaaaaaaaaaaaaaaaaaaaaaaaaaaaaaaaaaaaaaaaaaaaaaaaaaaaaaaaaaaaaaaaaaaaaaaaaaaaaaaaaaaaaaaaaaaaaaaaaaaaaaaaaaaaaa107".toList), ("aaaaaaaaaaaaaaaaaaaaaaaaaaaaaaaaaaaaaaaaaaaaaaaaaaaaaaaaaaaaaaaaaaaaaaaaaaaaaaaaaaaaaaaaaaaaaaaaaaaaaaaaaaaaaaaaaaaaaaaaaaaaaaaaaaaaaaaaaaaaaaaaaaaaaaaaaaaaaaaaaaaaaaaaaaaaaaaaaaaaaaaaaaaaaaaaaaaaaaaaaaaaaaaaaaaaaaaaaaaaaaaaaaaaaaaaaaaa108".toList), ("aaaaaaaaaaaaaaaaaaaaaaaaaaaaaaaaaaaaaaaaaaaaaaaaaaaaaaaaaaaaaaaaaaaaaaaaaaaaaaaaaaaaaaaaaaaaaaaaaaaaaaaaaaaaaaaaaaaaaaaaaaaaaaaaaaaaaaaaaaaaaaaaaaaaaaaaaaaaaaaaaaaaaaaaaaaaaaaaaaaaaaaaaaaaaaaaaaaaaaaaaaaaaaaaaaaaaaaaaaaaaaaaaaaaaaaaaaaa109".toList), ("aaaaaaaaaaaaaaaaaaaaaaaaaaaaaaaaaaaaaaaaaaaaaaaaaaaaaaaaaaaaaaaaaaaaaaaaaaaaaaaaaaaaaaaaaaaaaaaaaaaaaaaaaaaaaaaaaaaaaaaaaaaaaaaaaaaaaaaaaaaaaaaaaaaaaaaaaaaaaaaaaaaaaaaaaaaaaaaaaaaaaaaaaaaaaaaaaaaaaaaaaaaaaaaaaaaaaaaaaaaaaaaaaaaaaaaaaaaa110".toList)],
    marks := [],
    frame_log := [(2, RetVal.pass), (2, RetVal.pass), (2, RetVal.pass), (2, RetVal.pass), (2, RetVal.pass), (2, RetVal.pass), (2, RetVal.pass), (2, RetVal.pass), (2, RetVal.pass), (2, RetVal.pass), (2, RetVal.pass)],
    ilines := 0,
    tlines := 0,
    slines := 11,
    dropped := 0,
    oob := false }

def c4s28 : St :=
  { next_line_number := 11,
    tag_str := ("@ROOT@B@aaaaaaaaaaaaaaaaaaaaaaaaaaaaaaaaaaaaaaaaaaaaaaaaaaaaaaaaaaaaaaaaaaaaaaaaaaaaaaaaaaaaaaaaaaaaaaaaaaaaaaaaaaaaaaaaaaaaaaaaaaaaaaaaaaaaaaaaaaaaaaaaaaaaaaaaaaaaaaaaaaaaaaaaaaaaaaaaaaaaaaaaaaaaaaaaaaaaaaaaaaaaaaaaaaaaaaaaaaaaaaaaaaaaaaaaaaaa111".toList),
    tag_ptr := 247,
    nest := 3,
    env_tag := [0, 5, 7, 0, 0, 0],
    env_timer := [0, 0, 0, 0, 0, 0],
    next_in := 2937,
    buf_rev := c4buf10,
    is_pause := true,
    sent_rev := [],
    clock := 0,
    mode := RMode.search,
    tag_found := 11,
    p_retval := 0,
    invoked := [],
    entered := [("ROOT".toList), ("B".toList), ("aaaaaaaaaaaaaaaaaaaaaaaaaaaaaaaaaaaaaaaaaaaaaaaaaaaaaaaaaaaaaaaaaaaaaaaaaaaaaaaaaaaaaaaaaaaaaaaaaaaaaaaaaaaaaaaaaaaaaaaaaaaaaaaaaaaaaaaaaaaaaaaaaaaaaaaaaaaaaaaaaaaaaaaaaaaaaaaaaaaaaaaaaaaaaaaaaaaaaaaaaaaaaaaaaaaaaaaaaaaaaaaaaaaaaaaaaaaa100".toList), ("aaaaaaaaaaaaaaaaaaaaaaaaaaaaaaaaaaaaaaaaaaaaaaaaaaaaaaaaaaaaaaaaaaaaaaaaaaaaaaaaaaaaaaaaaaaaaaaaaaaaaaaaaaaaaaaaaaaaaaaaaaaaaaaaaaaaaaaaaaaaaaaaaaaaaaaaaaaaaaaaaaaaaaaaaaaaaaaaaaaaaaaaaaaaaaaaaaaaaaaaaaaaaaaaaaaaaaaaaaaaaaaaaaaaaaaaaaaa101".toList), ("aaaaaaaaaaaaaaaaaaaaaaaaaaaaaaaaaaaaaaaaaaaaaaaaaaaaaaaaaaaaaaaaaaaaaaaaaaaaaaaaaaaaaaaaaaaaaaaaaaaaaaaaaaaaaaaaaaaaaaaaaaaaaaaaaaaaaaaaaaaaaaaaaaaaaaaaaaaaaaaaaaaaaaaaaaaaaaaaaaaaaaaaaaaaaaaaaaaaaaaaaaaaaaaaaaaaaaaaaaaaaaaaaaaaaaaaaaaa102".toList), ("aaaaaaaaaaaaaaaaaaaaaaaaaaaaaaaaaaaaaaaaaaaaaaaaaaaaaaaaaaaaaaaaaaaaaaaaaaaaaaaaaaaaaaaaaaaaaaaaaaaaaaaaaaaaaaaaaaaaaaaaaaaaaaaaaaaaaaaaaaaaaaaaaaaaaaaaaaaaaaaaaaaaaaaaaaaaaaaaaaaaaaaaaaaaaaaaaaaaaaaaaaaaaaaaaaaaaaaaaaaaaaaaaaaaaaaaaaaa103".toList), ("aaaaaaaaaaaaaaaaaaaaaaaaaaaaaaaaaaaaaaaaaaaaaaaaaaaaaaaaaaaaaaaaaaaaaaaaaaaaaaaaaaaaaaaaaaaaaaaaaaaaaaaaaaaaaaaaaaaaaaaaaaaaaaaaaaaaaaaaaaaaaaaaaaaaaaaaaaaaaaaaaaaaaaaaaaaaaaaaaaaaaaaaaaaaaaaaaaaaaaaaaaaaaaaaaaaaaaaaaaaaaaaaaaaaaaaaaaaa104".toList), ("aaaaaaaaaaaaaaaaaaaaaaaaaaaaaaaaaaaaaaaaaaaaaaaaaaaaaaaaaaaaaaaaaaaaaaaaaaaaaaaaaaaaaaaaaaaaaaaaaaaaaaaaaaaaaaaaaaaaaaaaaaaaaaaaaaaaaaaaaaaaaaaaaaaaaaaaaaaaaaaaaaaaaaaaaaaaaaaaaaaaaaaaaaaaaaaaaaaaaaaaaaaaaaaaaaaaaaaaaaaaaaaaaaaaaaaaaaaa105".toList), ("aaaaaaaaaaaaaaaaaaaaaaaaaaaaaaaaaaaaaaaaaaaaaaaaaaaaaaaaaaaaaaaaaaaaaaaaaaaaaaaaaaaaaaaaaaaaaaaaaaaaaaaaaaaaaaaaaaaaaaaaaaaaaaaaaaaaaaaaaaaaaaaaaaaaaaaaaaaaaaaaaaaaaaaaaaaaaaaaaaaaaaaaaaaaaaaaaaaaaaaaaaaaaaaaaaaaaaaaaaaaaaaaaaaaaaaaaaaa106".toList), ("aaaaaaaaaaaaaaaaaaaaaaaaaaaaaaaaaaaaaaaaaaaaaaaaaaaaaaaaaaaaaaaaaaaaaaaaaaaaaaaaaaaaaaaaaaaaaaaaaaaaaaaaaaaaaaaaaaaaaaaaaaaaaaaaaaaaaaaaaaaaaaaaaaaaaaaaaaaaaaaaaaaaaaaaaaaaaaaaaaaaaaaaaaaaaaaaaaaaaaaaaaaaaaaaaaaaaaaaaaaaaaaaaaaaaaaaaaaa107".toList), ("aaaaaaaaaaaaaaaaaaaaaaaaaaaaaaaaaaaaaaaaaaaaaaaaaaaaaaaaaaaaaaaaaaaaaaaaaaaaaaaaaaaaaaaaaaaaaaaaaaaaaaaaaaaaaaaaaaaaaaaaaaaaaaaaaaaaaaaaaaaaaaaaaaaaaaaaaaaaaaaaaaaaaaaaaaaaaaaaaaaaaaaaaaaaaaaaaaaaaaaaaaaaaaaaaaaaaaaaaaaaaaaaaaaaaaaaaaaa108".toList), ("aaaaaaaaaaaaaaaaaaaaaaaaaaaaaaaaaaaaaaaaaaaaaaaaaaaaaaaaaaaaaaaaaaaaaaaaaaaaaaaaaaaaaaaaaaaaaaaaaaaaaaaaaaaaaaaaaaaaaaaaaaaaaaaaaaaaaaaaaaaaaaaaaaaaaaaaaaaaaaaaaaaaaaaaaaaaaaaaaaaaaaaaaaaaaaaaaaaaaaaaaaaaaaaaaaaaaaaaaaaaaaaaaaaaaaaaaaaa109".toList), ("aaaaaaaaaaaaaaaaaaaaaaaaaaaaaaaaaaaaaaaaaaaaaaaaaaaaaaaaaaaaaaaaaaaaaaaaaaaaaaaaaaaaaaaaaaaaaaaaaaaaaaaaaaaaaaaaaaaaaaaaaaaaaaaaaaaaaaaaaaaaaaaaaaaaaaaaaaaaaaaaaaaaaaaaaaaaaaaaaaaaaaaaaaaaaaaaaaaaaaaaaaaaaaaaaaaaaaaaaaaaaaaaaaaaaaaaaaaa110".toList), ("aaaaaaaaaaaaaaaaaaaaaaaaaaaaaaaaaaaaaaaaaaaaaaaaaaaaaaaaaaaaaaaaaaaaaaaaaaaaaaaaaaaaaaaaaaaaaaaaaaaaaaaaaaaaaaaaaaaaaaaaaaaaaaaaaaaaaaaaaaaaaaaaaaaaaaaaaaaaaaaaaaaaaaaaaaaaaaaaaaaaaaaaaaaaaaaaaaaaaaaaaaaaaaaaaaaaaaaaaaaaaaaaaaaaaaaaaaaa111".toList)],
    marks := [],
    frame_log := [(2, RetVal.pass), (2, RetVal.pass), (2, RetVal.pass), (2, RetVal.pass), (2, RetVal.pass), (2, RetVal.pass), (2, RetVal.pass), (2, RetVal.pass), (2, RetVal.pass), (2, RetVal.pass), (2, RetVal.pass)],
    ilines := 0,
    tlines := 0,
    slines := 11,
    dropped := 0,
    oob := false }

/-- Report-buffer content (newest first) at stage 29. -/
def c4buf11 : List Char := ("\n111aaaaaaaaaaaaaaaaaaaaaaaaaaaaaaaaaaaaaaaaaaaaaaaaaaaaaaaaaaaaaaaaaaaaaaaaaaaaaaaaaaaaaaaaaaaaaaaaaaaaaaaaaaaaaaaaaaaaaaaaaaaaaaaaaaaaaaaaaaaaaaaaaaaaaaaaaaaaaaaaaaaaaaaaaaaaaaaaaaaaaaaaaaaaaaaaaaaaaaaaaaaaaaaaaaaaaaaaaaaaaaaaaaaaaaaaaaaa@B@TOOR@,      ,    ,11  ,S".toList) ++ c4buf10

def c4s29 : St :=
  { next_line_number := 12,
    tag_str := ("@ROOT@B".toList),
    tag_ptr := 7,
    nest := 2,
    env_tag := [0, 5, 7, 0, 0, 0],
    env_timer := [0, 0, 0, 0, 0, 0],
    next_in := 3204,
    buf_rev := c4buf11,
    is_pause := true,
    sent_rev := [],
    clock := 0,
    mode := RMode.search,
    tag_found := 12,
    p_retval := 0,
    invoked := [],
    entered := [("ROOT".toList), ("B".toList), ("aaaaaaaaaaaaaaaaaaaaaaaaaaaaaaaaaaaaaaaaaaaaaaaaaaaaaaaaaaaaaaaaaaaaaaaaaaaaaaaaaaaaaaaaaaaaaaaaaaaaaaaaaaaaaaaaaaaaaaaaaaaaaaaaaaaaaaaaaaaaaaaaaaaaaaaaaaaaaaaaaaaaaaaaaaaaaaaaaaaaaaaaaaaaaaaaaaaaaaaaaaaaaaaaaaaaaaaaaaaaaaaaaaaaaaaaaaaa100".toList), ("aaaaaaaaaaaaaaaaaaaaaaaaaaaaaaaaaaaaaaaaaaaaaaaaaaaaaaaaaaaaaaaaaaaaaaaaaaaaaaaaaaaaaaaaaaaaaaaaaaaaaaaaaaaaaaaaaaaaaaaaaaaaaaaaaaaaaaaaaaaaaaaaaaaaaaaaaaaaaaaaaaaaaaaaaaaaaaaaaaaaaaaaaaaaaaaaaaaaaaaaaaaaaaaaaaaaaaaaaaaaaaaaaaaaaaaaaaaa101".toList), ("aaaaaaaaaaaaaaaaaaaaaaaaaaaaaaaaaaaaaaaaaaaaaaaaaaaaaaaaaaaaaaaaaaaaaaaaaaaaaaaaaaaaaaaaaaaaaaaaaaaaaaaaaaaaaaaaaaaaaaaaaaaaaaaaaaaaaaaaaaaaaaaaaaaaaaaaaaaaaaaaaaaaaaaaaaaaaaaaaaaaaaaaaaaaaaaaaaaaaaaaaaaaaaaaaaaaaaaaaaaaaaaaaaaaaaaaaaaa102".toList), ("aaaaaaaaaaaaaaaaaaaaaaaaaaaaaaaaaaaaaaaaaaaaaaaaaaaaaaaaaaaaaaaaaaaaaaaaaaaaaaaaaaaaaaaaaaaaaaaaaaaaaaaaaaaaaaaaaaaaaaaaaaaaaaaaaaaaaaaaaaaaaaaaaaaaaaaaaaaaaaaaaaaaaaaaaaaaaaaaaaaaaaaaaaaaaaaaaaaaaaaaaaaaaaaaaaaaaaaaaaaaaaaaaaaaaaaaaaaa103".toList), ("aaaaaaaaaaaaaaaaaaaaaaaaaaaaaaaaaaaaaaaaaaaaaaaaaaaaaaaaaaaaaaaaaaaaaaaaaaaaaaaaaaaaaaaaaaaaaaaaaaaaaaaaaaaaaaaaaaaaaaaaaaaaaaaaaaaaaaaaaaaaaaaaaaaaaaaaaaaaaaaaaaaaaaaaaaaaaaaaaaaaaaaaaaaaaaaaaaaaaaaaaaaaaaaaaaaaaaaaaaaaaaaaaaaaaaaaaaaa104".toList), ("aaaaaaaaaaaaaaaaaaaaaaaaaaaaaaaaaaaaaaaaaaaaaaaaaaaaaaaaaaaaaaaaaaaaaaaaaaaaaaaaaaaaaaaaaaaaaaaaaaaaaaaaaaaaaaaaaaaaaaaaaaaaaaaaaaaaaaaaaaaaaaaaaaaaaaaaaaaaaaaaaaaaaaaaaaaaaaaaaaaaaaaaaaaaaaaaaaaaaaaaaaaaaaaaaaaaaaaaaaaaaaaaaaaaaaaaaaaa105".toList), ("aaaaaaaaaaaaaaaaaaaaaaaaaaaaaaaaaaaaaaaaaaaaaaaaaaaaaaaaaaaaaaaaaaaaaaaaaaaaaaaaaaaaaaaaaaaaaaaaaaaaaaaaaaaaaaaaaaaaaaaaaaaaaaaaaaaaaaaaaaaaaaaaaaaaaaaaaaaaaaaaaaaaaaaaaaaaaaaaaaaaaaaaaaaaaaaaaaaaaaaaaaaaaaaaaaaaaaaaaaaaaaaaaaaaaaaaaaaa106".toList), ("aaaaaaaaaaaaaaaaaaaaaaaaaaaaaaaaaaaaaaaaaaaaaaaaaaaaaaaaaaaaaaaaaaaaaaaaaaaaaaaaaaaaaaaaaaaaaaaaaaaaaaaaaaaaaaaaaaaaaaaaaaaaaaaaaaaaaaaaaaaaaaaaaaaaaaaaaaaaaaaaaaaaaaaaaaaaaaaaaaaaaaaaaaaaaaaaaaaaaaaaaaaaaaaaaaaaaaaaaaaaaaaaaaaaaaaaaaaa107".toList), ("aaaaaaaaaaaaaaaaaaaaaaaaaaaaaaaaaaaaaaaaaaaaaaaaaaaaaaaaaaaaaaaaaaaaaaaaaaaaaaaaaaaaaaaaaaaaaaaaaaaaaaaaaaaaaaaaaaaaaaaaaaaaaaaaaaaaaaaaaaaaaaaaaaaaaaaaaaaaaaaaaaaaaaaaaaaaaaaaaaaaaaaaaaaaaaaaaaaaaaaaaaaaaaaaaaaaaaaaaaaaaaaaaaaaaaaaaaaa108".toList), ("aaaaaaaaaaaaaaaaaaaaaaaaaaaaaaaaaaaaaaaaaaaaaaaaaaaaaaaaaaaaaaaaaaaaaaaaaaaaaaaaaaaaaaaaaaaaaaaaaaaaaaaaaaaaaaaaaaaaaaaaaaaaaaaaaaaaaaaaaaaaaaaaaaaaaaaaaaaaaaaaaaaaaaaaaaaaaaaaaaaaaaaaaaaaaaaaaaaaaaaaaaaaaaaaaaaaaaaaaaaaaaaaaaaaaaaaaaaa109".toList), ("aaaaaaaaaaaaaaaaaaaaaaaaaaaaaaaaaaaaaaaaaaaaaaaaaaaaaaaaaaaaaaaaaaaaaaaaaaaaaaaaaaaaaaaaaaaaaaaaaaaaaaaaaaaaaaaaaaaaaaaaaaaaaaaaaaaaaaaaaaaaaaaaaaaaaaaaaaaaaaaaaaaaaaaaaaaaaaaaaaaaaaaaaaaaaaaaaaaaaaaaaaaaaaaaaaaaaaaaaaaaaaaaaaaaaaaaaaaa110".toList), ("aaaaaaaaaaaaaaaaaaaaaaaaaaaaaaaaaaaaaaaaaaaaaaaaaaaaaaaaaaaaaaaaaaaaaaaaaaaaaaaaaaaaaaaaaaaaaaaaaaaaaaaaaaaaaaaaaaaaaaaaaaaaaaaaaaaaaaaaaaaaaaaaaaaaaaaaaaaaaaaaaaaaaaaaaaaaaaaaaaaaaaaaaaaaaaaaaaaaaaaaaaaaaaaaaaaaaaaaaaaaaaaaaaaaaaaaaaaa111".toList)],
    marks := [],
    frame_log := [(2, RetVal.pass), (2, RetVal.pass), (2, RetVal.pass), (2, RetVal.pass), (2, RetVal.pass), (2, RetVal.pass), (2, RetVal.pass), (2, RetVal.pass), (2, RetVal.pass), (2, RetVal.pass), (2, RetVal.pass), (2, RetVal.pass)],
    ilines := 0,
    tlines := 0,
    slines := 12,
    dropped := 0,
    oob := false }

def c4s30 : St :=
  { next_line_number := 12,
    tag_str := ("@ROOT@B@aaaaaaaaaaaaaaaaaaaaaaaaaaaaaaaaaaaaaaaaaaaaaaaaaaaaaaaaaaaaaaaaaaaaaaaaaaaaaaaaaaaaaaaaaaaaaaaaaaaaaaaaaaaaaaaaaaaaaaaaaaaaaaaaaaaaaaaaaaaaaaaaaaaaaaaaaaaaaaaaaaaaaaaaaaaaaaaaaaaaaaaaaaaaaaaaaaaaaaaaaaaaaaaaaaaaaaaaaaaaaaaaaaaaaaaaaaaa112".toList),
    tag_ptr := 247,
    nest := 3,
    env_tag := [0, 5, 7, 0, 0, 0],
    env_timer := [0, 0, 0, 0, 0, 0],
    next_in := 3204,
    buf_rev := c4buf11,
    is_pause := true,
    sent_rev := [],
    clock := 0,
    mode := RMode.search,
    tag_found := 12,
    p_retval := 0,
    invoked := [],
    entered := [("ROOT".toList), ("B".toList), ("aaaaaaaaaaaaaaaaaaaaaaaaaaaaaaaaaaaaaaaaaaaaaaaaaaaaaaaaaaaaaaaaaaaaaaaaaaaaaaaaaaaaaaaaaaaaaaaaaaaaaaaaaaaaaaaaaaaaaaaaaaaaaaaaaaaaaaaaaaaaaaaaaaaaaaaaaaaaaaaaaaaaaaaaaaaaaaaaaaaaaaaaaaaaaaaaaaaaaaaaaaaaaaaaaaaaaaaaaaaaaaaaaaaaaaaaaaaa100".toList), ("aaaaaaaaaaaaaaaaaaaaaaaaaaaaaaaaaaaaaaaaaaaaaaaaaaaaaaaaaaaaaaaaaaaaaaaaaaaaaaaaaaaaaaaaaaaaaaaaaaaaaaaaaaaaaaaaaaaaaaaaaaaaaaaaaaaaaaaaaaaaaaaaaaaaaaaaaaaaaaaaaaaaaaaaaaaaaaaaaaaaaaaaaaaaaaaaaaaaaaaaaaaaaaaaaaaaaaaaaaaaaaaaaaaaaaaaaaaa101".toList), ("aaaaaaaaaaaaaaaaaaaaaaaaaaaaaaaaaaaaaaaaaaaaaaaaaaaaaaaaaaaaaaaaaaaaaaaaaaaaaaaaaaaaaaaaaaaaaaaaaaaaaaaaaaaaaaaaaaaaaaaaaaaaaaaaaaaaaaaaaaaaaaaaaaaaaaaaaaaaaaaaaaaaaaaaaaaaaaaaaaaaaaaaaaaaaaaaaaaaaaaaaaaaaaaaaaaaaaaaaaaaaaaaaaaaaaaaaaaa102".toList), ("aaaaaaaaaaaaaaaaaaaaaaaaaaaaaaaaaaaaaaaaaaaaaaaaaaaaaaaaaaaaaaaaaaaaaaaaaaaaaaaaaaaaaaaaaaaaaaaaaaaaaaaaaaaaaaaaaaaaaaaaaaaaaaaaaaaaaaaaaaaaaaaaaaaaaaaaaaaaaaaaaaaaaaaaaaaaaaaaaaaaaaaaaaaaaaaaaaaaaaaaaaaaaaaaaaaaaaaaaaaaaaaaaaaaaaaaaaaa103".toList), ("aaaaaaaaaaaaaaaaaaaaaaaaaaaaaaaaaaaaaaaaaaaaaaaaaaaaaaaaaaaaaaaaaaaaaaaaaaaaaaaaaaaaaaaaaaaaaaaaaaaaaaaaaaaaaaaaaaaaaaaaaaaaaaaaaaaaaaaaaaaaaaaaaaaaaaaaaaaaaaaaaaaaaaaaaaaaaaaaaaaaaaaaaaaaaaaaaaaaaaaaaaaaaaaaaaaaaaaaaaaaaaaaaaaaaaaaaaaa104".toList), ("aaaaaaaaaaaaaaaaaaaaaaaaaaaaaaaaaaaaaaaaaaaaaaaaaaaaaaaaaaaaaaaaaaaaaaaaaaaaaaaaaaaaaaaaaaaaaaaaaaaaaaaaaaaaaaaaaaaaaaaaaaaaaaaaaaaaaaaaaaaaaaaaaaaaaaaaaaaaaaaaaaaaaaaaaaaaaaaaaaaaaaaaaaaaaaaaaaaaaaaaaaaaaaaaaaaaaaaaaaaaaaaaaaaaaaaaaaaa105".toList), ("aaaaaaaaaaaaaaaaaaaaaaaaaaaaaaaaaaaaaaaaaaaaaaaaaaaaaaaaaaaaaaaaaaaaaaaaaaaaaaaaaaaaaaaaaaaaaaaaaaaaaaaaaaaaaaaaaaaaaaaaaaaaaaaaaaaaaaaaaaaaaaaaaaaaaaaaaaaaaaaaaaaaaaaaaaaaaaaaaaaaaaaaaaaaaaaaaaaaaaaaaaaaaaaaaaaaaaaaaaaaaaaaaaaaaaaaaaaa106".toList), ("aaaaaaaaaaaaaaaaaaaaaaaaaaaaaaaaaaaaaaaaaaaaaaaaaaaaaaaaaaaaaaaaaaaaaaaaaaaaaaaaaaaaaaaaaaaaaaaaaaaaaaaaaaaaaaaaaaaaaaaaaaaaaaaaaaaaaaaaaaaaaaaaaaaaaaaaaaaaaaaaaaaaaaaaaaaaaaaaaaaaaaaaaaaaaaaaaaaaaaaaaaaaaaaaaaaaaaaaaaaaaaaaaaaaaaaaaaaa107".toList), ("aaaaaaaaaaaaaaaaaaaaaaaaaaaaaaaaaaaaaaaaaaaaaaaaaaaaaaaaaaaaaaaaaaaaaaaaaaaaaaaaaaaaaaaaaaaaaaaaaaaaaaaaaaaaaaaaaaaaaaaaaaaaaaaaaaaaaaaaaaaaaaaaaaaaaaaaaaaaaaaaaaaaaaaaaaaaaaaaaaaaaaaaaaaaaaaaaaaaaaaaaaaaaaaaaaaaaaaaaaaaaaaaaaaaaaaaaaaa108".toList), ("aaaaaaaaaaaaaaaaaaaaaaaaaaaaaaaaaaaaaaaaaaaaaaaaaaaaaaaaaaaaaaaaaaaaaaaaaaaaaaaaaaaaaaaaaaaaaaaaaaaaaaaaaaaaaaaaaaaaaaaaaaaaaaaaaaaaaaaaaaaaaaaaaaaaaaaaaaaaaaaaaaaaaaaaaaaaaaaaaaaaaaaaaaaaaaaaaaaaaaaaaaaaaaaaaaaaaaaaaaaaaaaaaaaaaaaaaaaa109".toList), ("aaaaaaaaaaaaaaaaaaaaaaaaaaaaaaaaaaaaaaaaaaaaaaaaaaaaaaaaaaaaaaaaaaaaaaaaaaaaaaaaaaaaaaaaaaaaaaaaaaaaaaaaaaaaaaaaaaaaaaaaaaaaaaaaaaaaaaaaaaaaaaaaaaaaaaaaaaaaaaaaaaaaaaaaaaaaaaaaaaaaaaaaaaaaaaaaaaaaaaaaaaaaaaaaaaaaaaaaaaaaaaaaaaaaaaaaaaaa110".toList), ("aaaaaaaaaaaaaaaaaaaaaaaaaaaaaaaaaaaaaaaaaaaaaaaaaaaaaaaaaaaaaaaaaaaaaaaaaaaaaaaaaaaaaaaaaaaaaaaaaaaaaaaaaaaaaaaaaaaaaaaaaaaaaaaaaaaaaaaaaaaaaaaaaaaaaaaaaaaaaaaaaaaaaaaaaaaaaaaaaaaaaaaaaaaaaaaaaaaaaaaaaaaaaaaaaaaaaaaaaaaaaaaaaaaaaaaaaaaa111".toList), ("aaaaaaaaaaaaaaaaaaaaaaaaaaaaaaaaaaaaaaaaaaaaaaaaaaaaaaaaaaaaaaaaaaaaaaaaaaaaaaaaaaaaaaaaaaaaaaaaaaaaaaaaaaaaaaaaaaaaaaaaaaaaaaaaaaaaaaaaaaaaaaaaaaaaaaaaaaaaaaaaaaaaaaaaaaaaaaaaaaaaaaaaaaaaaaaaaaaaaaaaaaaaaaaaaaaaaaaaaaaaaaaaaaaaaaaaaaaa112".toList)],
    marks := [],
    frame_log := [(2, RetVal.pass), (2, RetVal.pass), (2, RetVal.pass), (2, RetVal.pass), (2, RetVal.pass), (2, RetVal.pass), (2, RetVal.pass), (2, RetVal.pass), (2, RetVal.pass), (2, RetVal.pass), (2, RetVal.pass), (2, RetVal.pass)],
    ilines := 0,
    tlines := 0,
    slines := 12,
    dropped := 0,
    oob := false }

/-- Report-buffer content (newest first) at stage 31. -/
def c4buf12 : List Char := ("\n211aaaaaaaaaaaaaaaaaaaaaaaaaaaaaaaaaaaaaaaaaaaaaaaaaaaaaaaaaaaaaaaaaaaaaaaaaaaaaaaaaaaaaaaaaaaaaaaaaaaaaaaaaaaaaaaaaaaaaaaaaaaaaaaaaaaaaaaaaaaaaaaaaaaaaaaaaaaaaaaaaaaaaaaaaaaaaaaaaaaaaaaaaaaaaaaaaaaaaaaaaaaaaaaaaaaaaaaaaaaaaaaaaaaaaaaaaaaa@B@TOOR@,      ,    ,21  ,S".toList) ++ c4buf11

def c4s31 : St :=
  { next_line_number := 13,
    tag_str := ("@ROOT@B".toList),
    tag_ptr := 7,
    nest := 2,
    env_tag := [0, 5, 7, 0, 0, 0],
    env_timer := [0, 0, 0, 0, 0, 0],
    next_in := 3471,
    buf_rev := c4buf12,
    is_pause := true,
    sent_rev := [],
    clock := 0,
    mode := RMode.search,
    tag_found := 13,
    p_retval := 0,
    invoked := [],
    entered := [("ROOT".toList), ("B".toList), ("aaaaaaaaaaaaaaaaaaaaaaaaaaaaaaaaaaaaaaaaaaaaaaaaaaaaaaaaaaaaaaaaaaaaaaaaaaaaaaaaaaaaaaaaaaaaaaaaaaaaaaaaaaaaaaaaaaaaaaaaaaaaaaaaaaaaaaaaaaaaaaaaaaaaaaaaaaaaaaaaaaaaaaaaaaaaaaaaaaaaaaaaaaaaaaaaaaaaaaaaaaaaaaaaaaaaaaaaaaaaaaaaaaaaaaaaaaaa100".toList), ("aaaaaaaaaaaaaaaaaaaaaaaaaaaaaaaaaaaaaaaaaaaaaaaaaaaaaaaaaaaaaaaaaaaaaaaaaaaaaaaaaaaaaaaaaaaaaaaaaaaaaaaaaaaaaaaaaaaaaaaaaaaaaaaaaaaaaaaaaaaaaaaaaaaaaaaaaaaaaaaaaaaaaaaaaaaaaaaaaaaaaaaaaaaaaaaaaaaaaaaaaaaaaaaaaaaaaaaaaaaaaaaaaaaaaaaaaaaa101".toList), ("aaaaaaaaaaaaaaaaaaaaaaaaaaaaaaaaaaaaaaaaaaaaaaaaaaaaaaaaaaaaaaaaaaaaaaaaaaaaaaaaaaaaaaaaaaaaaaaaaaaaaaaaaaaaaaaaaaaaaaaaaaaaaaaaaaaaaaaaaaaaaaaaaaaaaaaaaaaaaaaaaaaaaaaaaaaaaaaaaaaaaaaaaaaaaaaaaaaaaaaaaaaaaaaaaaaaaaaaaaaaaaaaaaaaaaaaaaaa102".toList), ("aaaaaaaaaaaaaaaaaaaaaaaaaaaaaaaaaaaaaaaaaaaaaaaaaaaaaaaaaaaaaaaaaaaaaaaaaaaaaaaaaaaaaaaaaaaaaaaaaaaaaaaaaaaaaaaaaaaaaaaaaaaaaaaaaaaaaaaaaaaaaaaaaaaaaaaaaaaaaaaaaaaaaaaaaaaaaaaaaaaaaaaaaaaaaaaaaaaaaaaaaaaaaaaaaaaaaaaaaaaaaaaaaaaaaaaaaaaa103".toList), ("aaaaaaaaaaaaaaaaaaaaaaaaaaaaaaaaaaaaaaaaaaaaaaaaaaaaaaaaaaaaaaaaaaaaaaaaaaaaaaaaaaaaaaaaaaaaaaaaaaaaaaaaaaaaaaaaaaaaaaaaaaaaaaaaaaaaaaaaaaaaaaaaaaaaaaaaaaaaaaaaaaaaaaaaaaaaaaaaaaaaaaaaaaaaaaaaaaaaaaaaaaaaaaaaaaaaaaaaaaaaaaaaaaaaaaaaaaaa104".toList), ("aaaaaaaaaaaaaaaaaaaaaaaaaaaaaaaaaaaaaaaaaaaaaaaaaaaaaaaaaaaaaaaaaaaaaaaaaaaaaaaaaaaaaaaaaaaaaaaaaaaaaaaaaaaaaaaaaaaaaaaaaaaaaaaaaaaaaaaaaaaaaaaaaaaaaaaaaaaaaaaaaaaaaaaaaaaaaaaaaaaaaaaaaaaaaaaaaaaaaaaaaaaaaaaaaaaaaaaaaaaaaaaaaaaaaaaaaaaa105".toList), ("aaaaaaaaaaaaaaaaaaaaaaaaaaaaaaaaaaaaaaaaaaaaaaaaaaaaaaaaaaaaaaaaaaaaaaaaaaaaaaaaaaaaaaaaaaaaaaaaaaaaaaaaaaaaaaaaaaaaaaaaaaaaaaaaaaaaaaaaaaaaaaaaaaaaaaaaaaaaaaaaaaaaaaaaaaaaaaaaaaaaaaaaaaaaaaaaaaaaaaaaaaaaaaaaaaaaaaaaaaaaaaaaaaaaaaaaaaaa106".toList), ("aaaaaaaaaaaaaaaaaaaaaaaaaaaaaaaaaaaaaaaaaaaaaaaaaaaaaaaaaaaaaaaaaaaaaaaaaaaaaaaaaaaaaaaaaaaaaaaaaaaaaaaaaaaaaaaaaaaaaaaaaaaaaaaaaaaaaaaaaaaaaaaaaaaaaaaaaaaaaaaaaaaaaaaaaaaaaaaaaaaaaaaaaaaaaaaaaaaaaaaaaaaaaaaaaaaaaaaaaaaaaaaaaaaaaaaaaaaa107".toList), ("aaaaaaaaaaaaaaaaaaaaaaaaaaaaaaaaaaaaaaaaaaaaaaaaaaaaaaaaaaaaaaaaaaaaaaaaaaaaaaaaaaaaaaaaaaaaaaaaaaaaaaaaaaaaaaaaaaaaaaaaaaaaaaaaaaaaaaaaaaaaaaaaaaaaaaaaaaaaaaaaaaaaaaaaaaaaaaaaaaaaaaaaaaaaaaaaaaaaaaaaaaaaaaaaaaaaaaaaaaaaaaaaaaaaaaaaaaaa108".toList), ("aaaaaaaaaaaaaaaaaaaaaaaaaaaaaaaaaaaaaaaaaaaaaaaaaaaaaaaaaaaaaaaaaaaaaaaaaaaaaaaaaaaaaaaaaaaaaaaaaaaaaaaaaaaaaaaaaaaaaaaaaaaaaaaaaaaaaaaaaaaaaaaaaaaaaaaaaaaaaaaaaaaaaaaaaaaaaaaaaaaaaaaaaaaaaaaaaaaaaaaaaaaaaaaaaaaaaaaaaaaaaaaaaaaaaaaaaaaa109".toList), ("aaaaaaaaaaaaaaaaaaaaaaaaaaaaaaaaaaaaaaaaaaaaaaaaaaaaaaaaaaaaaaaaaaaaaaaaaaaaaaaaaaaaaaaaaaaaaaaaaaaaaaaaaaaaaaaaaaaaaaaaaaaaaaaaaaaaaaaaaaaaaaaaaaaaaaaaaaaaaaaaaaaaaaaaaaaaaaaaaaaaaaaaaaaaaaaaaaaaaaaaaaaaaaaaaaaaaaaaaaaaaaaaaaaaaaaaaaaa110".toList), ("aaaaaaaaaaaaaaaaaaaaaaaaaaaaaaaaaaaaaaaaaaaaaaaaaaaaaaaaaaaaaaaaaaaaaaaaaaaaaaaaaaaaaaaaaaaaaaaaaaaaaaaaaaaaaaaaaaaaaaaaaaaaaaaaaaaaaaaaaaaaaaaaaaaaaaaaaaaaaaaaaaaaaaaaaaaaaaaaaaaaaaaaaaaaaaaaaaaaaaaaaaaaaaaaaaaaaaaaaaaaaaaaaaaaaaaaaaaa111".toList), ("aaaaaaaaaaaaaaaaaaaaaaaaaaaaaaaaaaaaaaaaaaaaaaaaaaaaaaaaaaaaaaaaaaaaaaaaaaaaaaaaaaaaaaaaaaaaaaaaaaaaaaaaaaaaaaaaaaaaaaaaaaaaaaaaaaaaaaaaaaaaaaaaaaaaaaaaaaaaaaaaaaaaaaaaaaaaaaaaaaaaaaaaaaaaaaaaaaaaaaaaaaaaaaaaaaaaaaaaaaaaaaaaaaaaaaaaaaaa112".toList)],
    marks := [],
    frame_log := [(2, RetVal.pass), (2, RetVal.pass), (2, RetVal.pass), (2, RetVal.pass), (2, RetVal.pass), (2, RetVal.pass), (2, RetVal.pass), (2, RetVal.pass), (2, RetVal.pass), (2, RetVal.pass), (2, RetVal.pass), (2, RetVal.pass), (2, RetVal.pass)],
    ilines := 0,
    tlines := 0,
    slines := 13,
    dropped := 0,
    oob := false }

def c4s32 : St :=
  { next_line_number := 13,
    tag_str := ("@ROOT@B@aaaaaaaaaaaaaaaaaaaaaaaaaaaaaaaaaaaaaaaaaaaaaaaaaaaaaaaaaaaaaaaaaaaaaaaaaaaaaaaaaaaaaaaaaaaaaaaaaaaaaaaaaaaaaaaaaaaaaaaaaaaaaaaaaaaaaaaaaaaaaaaaaaaaaaaaaaaaaaaaaaaaaaaaaaaaaaaaaaaaaaaaaaaaaaaaaaaaaaaaaaaaaaaaaaaaaaaaaaaaaaaaaaaaaaaaaaaa113".toList),
    tag_ptr := 247,
    nest := 3,
    env_tag := [0, 5, 7, 0, 0, 0],
    env_timer := [0, 0, 0, 0, 0, 0],
    next_in := 3471,
    buf_rev := c4buf12,
    is_pause := true,
    sent_rev := [],
    clock := 0,
    mode := RMode.search,
    tag_found := 13,
    p_retval := 0,
    invoked := [],
    entered := [("ROOT".toList), ("B".toList), ("aaaaaaaaaaaaaaaaaaaaaaaaaaaaaaaaaaaaaaaaaaaaaaaaaaaaaaaaaaaaaaaaaaaaaaaaaaaaaaaaaaaaaaaaaaaaaaaaaaaaaaaaaaaaaaaaaaaaaaaaaaaaaaaaaaaaaaaaaaaaaaaaaaaaaaaaaaaaaaaaaaaaaaaaaaaaaaaaaaaaaaaaaaaaaaaaaaaaaaaaaaaaaaaaaaaaaaaaaaaaaaaaaaaaaaaaaaaa100".toList), ("aaaaaaaaaaaaaaaaaaaaaaaaaaaaaaaaaaaaaaaaaaaaaaaaaaaaaaaaaaaaaaaaaaaaaaaaaaaaaaaaaaaaaaaaaaaaaaaaaaaaaaaaaaaaaaaaaaaaaaaaaaaaaaaaaaaaaaaaaaaaaaaaaaaaaaaaaaaaaaaaaaaaaaaaaaaaaaaaaaaaaaaaaaaaaaaaaaaaaaaaaaaaaaaaaaaaaaaaaaaaaaaaaaaaaaaaaaaa101".toList), ("aaaaaaaaaaaaaaaaaaaaaaaaaaaaaaaaaaaaaaaaaaaaaaaaaaaaaaaaaaaaaaaaaaaaaaaaaaaaaaaaaaaaaaaaaaaaaaaaaaaaaaaaaaaaaaaaaaaaaaaaaaaaaaaaaaaaaaaaaaaaaaaaaaaaaaaaaaaaaaaaaaaaaaaaaaaaaaaaaaaaaaaaaaaaaaaaaaaaaaaaaaaaaaaaaaaaaaaaaaaaaaaaaaaaaaaaaaaa102".toList), ("aaaaaaaaaaaaaaaaaaaaaaaaaaaaaaaaaaaaaaaaaaaaaaaaaaaaaaaaaaaaaaaaaaaaaaaaaaaaaaaaaaaaaaaaaaaaaaaaaaaaaaaaaaaaaaaaaaaaaaaaaaaaaaaaaaaaaaaaaaaaaaaaaaaaaaaaaaaaaaaaaaaaaaaaaaaaaaaaaaaaaaaaaaaaaaaaaaaaaaaaaaaaaaaaaaaaaaaaaaaaaaaaaaaaaaaaaaaa103".toList), ("aaaaaaaaaaaaaaaaaaaaaaaaaaaaaaaaaaaaaaaaaaaaaaaaaaaaaaaaaaaaaaaaaaaaaaaaaaaaaaaaaaaaaaaaaaaaaaaaaaaaaaaaaaaaaaaaaaaaaaaaaaaaaaaaaaaaaaaaaaaaaaaaaaaaaaaaaaaaaaaaaaaaaaaaaaaaaaaaaaaaaaaaaaaaaaaaaaaaaaaaaaaaaaaaaaaaaaaaaaaaaaaaaaaaaaaaaaaa104".toList), ("aaaaaaaaaaaaaaaaaaaaaaaaaaaaaaaaaaaaaaaaaaaaaaaaaaaaaaaaaaaaaaaaaaaaaaaaaaaaaaaaaaaaaaaaaaaaaaaaaaaaaaaaaaaaaaaaaaaaaaaaaaaaaaaaaaaaaaaaaaaaaaaaaaaaaaaaaaaaaaaaaaaaaaaaaaaaaaaaaaaaaaaaaaaaaaaaaaaaaaaaaaaaaaaaaaaaaaaaaaaaaaaaaaaaaaaaaaaa105".toList), ("aaaaaaaaaaaaaaaaaaaaaaaaaaaaaaaaaaaaaaaaaaaaaaaaaaaaaaaaaaaaaaaaaaaaaaaaaaaaaaaaaaaaaaaaaaaaaaaaaaaaaaaaaaaaaaaaaaaaaaaaaaaaaaaaaaaaaaaaaaaaaaaaaaaaaaaaaaaaaaaaaaaaaaaaaaaaaaaaaaaaaaaaaaaaaaaaaaaaaaaaaaaaaaaaaaaaaaaaaaaaaaaaaaaaaaaaaaaa106".toList), ("aaaaaaaaaaaaaaaaaaaaaaaaaaaaaaaaaaaaaaaaaaaaaaaaaaaaaaaaaaaaaaaaaaaaaaaaaaaaaaaaaaaaaaaaaaaaaaaaaaaaaaaaaaaaaaaaaaaaaaaaaaaaaaaaaaaaaaaaaaaaaaaaaaaaaaaaaaaaaaaaaaaaaaaaaaaaaaaaaaaaaaaaaaaaaaaaaaaaaaaaaaaaaaaaaaaaaaaaaaaaaaaaaaaaaaaaaaaa107".toList), ("aaaaaaaaaaaaaaaaaaaaaaaaaaaaaaaaaaaaaaaaaaaaaaaaaaaaaaaaaaaaaaaaaaaaaaaaaaaaaaaaaaaaaaaaaaaaaaaaaaaaaaaaaaaaaaaaaaaaaaaaaaaaaaaaaaaaaaaaaaaaaaaaaaaaaaaaaaaaaaaaaaaaaaaaaaaaaaaaaaaaaaaaaaaaaaaaaaaaaaaaaaaaaaaaaaaaaaaaaaaaaaaaaaaaaaaaaaaa108".toList), ("aaaaaaaaaaaaaaaaaaaaaaaaaaaaaaaaaaaaaaaaaaaaaaaaaaaaaaaaaaaaaaaaaaaaaaaaaaaaaaaaaaaaaaaaaaaaaaaaaaaaaaaaaaaaaaaaaaaaaaaaaaaaaaaaaaaaaaaaaaaaaaaaaaaaaaaaaaaaaaaaaaaaaaaaaaaaaaaaaaaaaaaaaaaaaaaaaaaaaaaaaaaaaaaaaaaaaaaaaaaaaaaaaaaaaaaaaaaa109".toList), ("aaaaaaaaaaaaaaaaaaaaaaaaaaaaaaaaaaaaaaaaaaaaaaaaaaaaaaaaaaaaaaaaaaaaaaaaaaaaaaaaaaaaaaaaaaaaaaaaaaaaaaaaaaaaaaaaaaaaaaaaaaaaaaaaaaaaaaaaaaaaaaaaaaaaaaaaaaaaaaaaaaaaaaaaaaaaaaaaaaaaaaaaaaaaaaaaaaaaaaaaaaaaaaaaaaaaaaaaaaaaaaaaaaaaaaaaaaaa110".toList), ("aaaaaaaaaaaaaaaaaaaaaaaaaaaaaaaaaaaaaaaaaaaaaaaaaaaaaaaaaaaaaaaaaaaaaaaaaaaaaaaaaaaaaaaaaaaaaaaaaaaaaaaaaaaaaaaaaaaaaaaaaaaaaaaaaaaaaaaaaaaaaaaaaaaaaaaaaaaaaaaaaaaaaaaaaaaaaaaaaaaaaaaaaaaaaaaaaaaaaaaaaaaaaaaaaaaaaaaaaaaaaaaaaaaaaaaaaaaa111".toList), ("aaaaaaaaaaaaaaaaaaaaaaaaaaaaaaaaaaaaaaaaaaaaaaaaaaaaaaaaaaaaaaaaaaaaaaaaaaaaaaaaaaaaaaaaaaaaaaaaaaaaaaaaaaaaaaaaaaaaaaaaaaaaaaaaaaaaaaaaaaaaaaaaaaaaaaaaaaaaaaaaaaaaaaaaaaaaaaaaaaaaaaaaaaaaaaaaaaaaaaaaaaaaaaaaaaaaaaaaaaaaaaaaaaaaaaaaaaaa112".toList), ("aaaaaaaaaaaaaaaaaaaaaaaaaaaaaaaaaaaaaaaaaaaaaaaaaaaaaaaaaaaaaaaaaaaaaaaaaaaaaaaaaaaaaaaaaaaaaaaaaaaaaaaaaaaaaaaaaaaaaaaaaaaaaaaaaaaaaaaaaaaaaaaaaaaaaaaaaaaaaaaaaaaaaaaaaaaaaaaaaaaaaaaaaaaaaaaaaaaaaaaaaaaaaaaaaaaaaaaaaaaaaaaaaaaaaaaaaaaa113".toList)],
    marks := [],
    frame_log := [(2, RetVal.pass), (2, RetVal.pass), (2, RetVal.pass), (2, RetVal.pass), (2, RetVal.pass), (2, RetVal.pass), (2, RetVal.pass), (2, RetVal.pass), (2, RetVal.pass), (2, RetVal.pass), (2, RetVal.pass), (2, RetVal.pass), (2, RetVal.pass)],
    ilines := 0,
    tlines := 0,
    slines := 13,
    dropped := 0,
    oob := false }

/-- Report-buffer content (newest first) at stage 33. -/
def c4buf13 : List Char := ("\n311aaaaaaaaaaaaaaaaaaaaaaaaaaaaaaaaaaaaaaaaaaaaaaaaaaaaaaaaaaaaaaaaaaaaaaaaaaaaaaaaaaaaaaaaaaaaaaaaaaaaaaaaaaaaaaaaaaaaaaaaaaaaaaaaaaaaaaaaaaaaaaaaaaaaaaaaaaaaaaaaaaaaaaaaaaaaaaaaaaaaaaaaaaaaaaaaaaaaaaaaaaaaaaaaaaaaaaaaaaaaaaaaaaaaaaaaaaaa@B@TOOR@,      ,    ,31  ,S".toList) ++ c4buf12

def c4s33 : St :=
  { next_line_number := 14,
    tag_str := ("@ROOT@B".toList),
    tag_ptr := 7,
    nest := 2,
    env_tag := [0, 5, 7, 0, 0, 0],
    env_timer := [0, 0, 0, 0, 0, 0],
    next_in := 3738,
    buf_rev := c4buf13,
    is_pause := true,
    sent_rev := [],
    clock := 0,
    mode := RMode.search,
    tag_found := 14,
    p_retval := 0,
    invoked := [],
    entered := [("ROOT".toList), ("B".toList), ("aaaaaaaaaaaaaaaaaaaaaaaaaaaaaaaaaaaaaaaaaaaaaaaaaaaaaaaaaaaaaaaaaaaaaaaaaaaaaaaaaaaaaaaaaaaaaaaaaaaaaaaaaaaaaaaaaaaaaaaaaaaaaaaaaaaaaaaaaaaaaaaaaaaaaaaaaaaaaaaaaaaaaaaaaaaaaaaaaaaaaaaaaaaaaaaaaaaaaaaaaaaaaaaaaaaaaaaaaaaaaaaaaaaaaaaaaaaa100".toList), ("aaaaaaaaaaaaaaaaaaaaaaaaaaaaaaaaaaaaaaaaaaaaaaaaaaaaaaaaaaaaaaaaaaaaaaaaaaaaaaaaaaaaaaaaaaaaaaaaaaaaaaaaaaaaaaaaaaaaaaaaaaaaaaaaaaaaaaaaaaaaaaaaaaaaaaaaaaaaaaaaaaaaaaaaaaaaaaaaaaaaaaaaaaaaaaaaaaaaaaaaaaaaaaaaaaaaaaaaaaaaaaaaaaaaaaaaaaaa101".toList), ("aaaaaaaaaaaaaaaaaaaaaaaaaaaaaaaaaaaaaaaaaaaaaaaaaaaaaaaaaaaaaaaaaaaaaaaaaaaaaaaaaaaaaaaaaaaaaaaaaaaaaaaaaaaaaaaaaaaaaaaaaaaaaaaaaaaaaaaaaaaaaaaaaaaaaaaaaaaaaaaaaaaaaaaaaaaaaaaaaaaaaaaaaaaaaaaaaaaaaaaaaaaaaaaaaaaaaaaaaaaaaaaaaaaaaaaaaaaa102".toList), ("aaaaaaaaaaaaaaaaaaaaaaaaaaaaaaaaaaaaaaaaaaaaaaaaaaaaaaaaaaaaaaaaaaaaaaaaaaaaaaaaaaaaaaaaaaaaaaaaaaaaaaaaaaaaaaaaaaaaaaaaaaaaaaaaaaaaaaaaaaaaaaaaaaaaaaaaaaaaaaaaaaaaaaaaaaaaaaaaaaaaaaaaaaaaaaaaaaaaaaaaaaaaaaaaaaaaaaaaaaaaaaaaaaaaaaaaaaaa103".toList), ("aaaaaaaaaaaaaaaaaaaaaaaaaaaaaaaaaaaaaaaaaaaaaaaaaaaaaaaaaaaaaaaaaaaaaaaaaaaaaaaaaaaaaaaaaaaaaaaaaaaaaaaaaaaaaaaaaaaaaaaaaaaaaaaaaaaaaaaaaaaaaaaaaaaaaaaaaaaaaaaaaaaaaaaaaaaaaaaaaaaaaaaaaaaaaaaaaaaaaaaaaaaaaaaaaaaaaaaaaaaaaaaaaaaaaaaaaaaa104".toList), ("aaaaaaaaaaaaaaaaaaaaaaaaaaaaaaaaaaaaaaaaaaaaaaaaaaaaaaaaaaaaaaaaaaaaaaaaaaaaaaaaaaaaaaaaaaaaaaaaaaaaaaaaaaaaaaaaaaaaaaaaaaaaaaaaaaaaaaaaaaaaaaaaaaaaaaaaaaaaaaaaaaaaaaaaaaaaaaaaaaaaaaaaaaaaaaaaaaaaaaaaaaaaaaaaaaaaaaaaaaaaaaaaaaaaaaaaaaaa105".toList), ("aaaaaaaaaaaaaaaaaaaaaaaaaaaaaaaaaaaaaaaaaaaaaaaaaaaaaaaaaaaaaaaaaaaaaaaaaaaaaaaaaaaaaaaaaaaaaaaaaaaaaaaaaaaaaaaaaaaaaaaaaaaaaaaaaaaaaaaaaaaaaaaaaaaaaaaaaaaaaaaaaaaaaaaaaaaaaaaaaaaaaaaaaaaaaaaaaaaaaaaaaaaaaaaaaaaaaaaaaaaaaaaaaaaaaaaaaaaa106".toList), ("aaaaaaaaaaaaaaaaaaaaaaaaaaaaaaaaaaaaaaaaaaaaaaaaaaaaaaaaaaaaaaaaaaaaaaaaaaaaaaaaaaaaaaaaaaaaaaaaaaaaaaaaaaaaaaaaaaaaaaaaaaaaaaaaaaaaaaaaaaaaaaaaaaaaaaaaaaaaaaaaaaaaaaaaaaaaaaaaaaaaaaaaaaaaaaaaaaaaaaaaaaaaaaaaaaaaaaaaaaaaaaaaaaaaaaaaaaaa107".toList), ("aaaaaaaaaaaaaaaaaaaaaaaaaaaaaaaaaaaaaaaaaaaaaaaaaaaaaaaaaaaaaaaaaaaaaaaaaaaaaaaaaaaaaaaaaaaaaaaaaaaaaaaaaaaaaaaaaaaaaaaaaaaaaaaaaaaaaaaaaaaaaaaaaaaaaaaaaaaaaaaaaaaaaaaaaaaaaaaaaaaaaaaaaaaaaaaaaaaaaaaaaaaaaaaaaaaaaaaaaaaaaaaaaaaaaaaaaaaa108".toList), ("aaaaaaaaaaaaaaaaaaaaaaaaaaaaaaaaaaaaaaaaaaaaaaaaaaaaaaaaaaaaaaaaaaaaaaaaaaaaaaaaaaaaaaaaaaaaaaaaaaaaaaaaaaaaaaaaaaaaaaaaaaaaaaaaaaaaaaaaaaaaaaaaaaaaaaaaaaaaaaaaaaaaaaaaaaaaaaaaaaaaaaaaaaaaaaaaaaaaaaaaaaaaaaaaaaaaaaaaaaaaaaaaaaaaaaaaaaaa109".toList), ("aaaaaaaaaaaaaaaaaaaaaaaaaaaaaaaaaaaaaaaaaaaaaaaaaaaaaaaaaaaaaaaaaaaaaaaaaaaaaaaaaaaaaaaaaaaaaaaaaaaaaaaaaaaaaaaaaaaaaaaaaaaaaaaaaaaaaaaaaaaaaaaaaaaaaaaaaaaaaaaaaaaaaaaaaaaaaaaaaaaaaaaaaaaaaaaaaaaaaaaaaaaaaaaaaaaaaaaaaaaaaaaaaaaaaaaaaaaa110".toList), ("aaaaaaaaaaaaaaaaaaaaaaaaaaaaaaaaaaaaaaaaaaaaaaaaaaaaaaaaaaaaaaaaaaaaaaaaaaaaaaaaaaaaaaaaaaaaaaaaaaaaaaaaaaaaaaaaaaaaaaaaaaaaaaaaaaaaaaaaaaaaaaaaaaaaaaaaaaaaaaaaaaaaaaaaaaaaaaaaaaaaaaaaaaaaaaaaaaaaaaaaaaaaaaaaaaaaaaaaaaaaaaaaaaaaaaaaaaaa111".toList), ("aaaaaaaaaaaaaaaaaaaaaaaaaaaaaaaaaaaaaaaaaaaaaaaaaaaaaaaaaaaaaaaaaaaaaaaaaaaaaaaaaaaaaaaaaaaaaaaaaaaaaaaaaaaaaaaaaaaaaaaaaaaaaaaaaaaaaaaaaaaaaaaaaaaaaaaaaaaaaaaaaaaaaaaaaaaaaaaaaaaaaaaaaaaaaaaaaaaaaaaaaaaaaaaaaaaaaaaaaaaaaaaaaaaaaaaaaaaa112".toList), ("aaaaaaaaaaaaaaaaaaaaaaaaaaaaaaaaaaaaaaaaaaaaaaaaaaaaaaaaaaaaaaaaaaaaaaaaaaaaaaaaaaaaaaaaaaaaaaaaaaaaaaaaaaaaaaaaaaaaaaaaaaaaaaaaaaaaaaaaaaaaaaaaaaaaaaaaaaaaaaaaaaaaaaaaaaaaaaaaaaaaaaaaaaaaaaaaaaaaaaaaaaaaaaaaaaaaaaaaaaaaaaaaaaaaaaaaaaaa113".toList)],
    marks := [],
    frame_log := [(2, RetVal.pass), (2, RetVal.pass), (2, RetVal.pass), (2, RetVal.pass), (2, RetVal.pass), (2, RetVal.pass), (2, RetVal.pass), (2, RetVal.pass), (2, RetVal.pass), (2, RetVal.pass), (2, RetVal.pass), (2, RetVal.pass), (2, RetVal.pass), (2, RetVal.pass)],
    ilines := 0,
    tlines := 0,
    slines := 14,
    dropped := 0,
    oob := false }

def c4s34 : St :=
  { next_line_number := 14,
    tag_str := ("@ROOT@B@aaaaaaaaaaaaaaaaaaaaaaaaaaaaaaaaaaaaaaaaaaaaaaaaaaaaaaaaaaaaaaaaaaaaaaaaaaaaaaaaaaaaaaaaaaaaaaaaaaaaaaaaaaaaaaaaaaaaaaaaaaaaaaaaaaaaaaaaaaaaaaaaaaaaaaaaaaaaaaaaaaaaaaaaaaaaaaaaaaaaaaaaaaaaaaaaaaaaaaaaaaaaaaaaaaaaaaaaaaaaaaaaaaaaaaaaaaaa114".toList),
    tag_ptr := 247,
    nest := 3,
    env_tag := [0, 5, 7, 0, 0, 0],
    env_timer := [0, 0, 0, 0, 0, 0],
    next_in := 3738,
    buf_rev := c4buf13,
    is_pause := true,
    sent_rev := [],
    clock := 0,
    mode := RMode.search,
    tag_found := 14,
    p_retval := 0,
    invoked := [],
    entered := [("ROOT".toList), ("B".toList), ("aaaaaaaaaaaaaaaaaaaaaaaaaaaaaaaaaaaaaaaaaaaaaaaaaaaaaaaaaaaaaaaaaaaaaaaaaaaaaaaaaaaaaaaaaaaaaaaaaaaaaaaaaaaaaaaaaaaaaaaaaaaaaaaaaaaaaaaaaaaaaaaaaaaaaaaaaaaaaaaaaaaaaaaaaaaaaaaaaaaaaaaaaaaaaaaaaaaaaaaaaaaaaaaaaaaaaaaaaaaaaaaaaaaaaaaaaaaa100".toList), ("aaaaaaaaaaaaaaaaaaaaaaaaaaaaaaaaaaaaaaaaaaaaaaaaaaaaaaaaaaaaaaaaaaaaaaaaaaaaaaaaaaaaaaaaaaaaaaaaaaaaaaaaaaaaaaaaaaaaaaaaaaaaaaaaaaaaaaaaaaaaaaaaaaaaaaaaaaaaaaaaaaaaaaaaaaaaaaaaaaaaaaaaaaaaaaaaaaaaaaaaaaaaaaaaaaaaaaaaaaaaaaaaaaaaaaaaaaaa101".toList), ("aaaaaaaaaaaaaaaaaaaaaaaaaaaaaaaaaaaaaaaaaaaaaaaaaaaaaaaaaaaaaaaaaaaaaaaaaaaaaaaaaaaaaaaaaaaaaaaaaaaaaaaaaaaaaaaaaaaaaaaaaaaaaaaaaaaaaaaaaaaaaaaaaaaaaaaaaaaaaaaaaaaaaaaaaaaaaaaaaaaaaaaaaaaaaaaaaaaaaaaaaaaaaaaaaaaaaaaaaaaaaaaaaaaaaaaaaaaa102".toList), ("aaaaaaaaaaaaaaaaaaaaaaaaaaaaaaaaaaaaaaaaaaaaaaaaaaaaaaaaaaaaaaaaaaaaaaaaaaaaaaaaaaaaaaaaaaaaaaaaaaaaaaaaaaaaaaaaaaaaaaaaaaaaaaaaaaaaaaaaaaaaaaaaaaaaaaaaaaaaaaaaaaaaaaaaaaaaaaaaaaaaaaaaaaaaaaaaaaaaaaaaaaaaaaaaaaaaaaaaaaaaaaaaaaaaaaaaaaaa103".toList), ("aaaaaaaaaaaaaaaaaaaaaaaaaaaaaaaaaaaaaaaaaaaaaaaaaaaaaaaaaaaaaaaaaaaaaaaaaaaaaaaaaaaaaaaaaaaaaaaaaaaaaaaaaaaaaaaaaaaaaaaaaaaaaaaaaaaaaaaaaaaaaaaaaaaaaaaaaaaaaaaaaaaaaaaaaaaaaaaaaaaaaaaaaaaaaaaaaaaaaaaaaaaaaaaaaaaaaaaaaaaaaaaaaaaaaaaaaaaa104".toList), ("aaaaaaaaaaaaaaaaaaaaaaaaaaaaaaaaaaaaaaaaaaaaaaaaaaaaaaaaaaaaaaaaaaaaaaaaaaaaaaaaaaaaaaaaaaaaaaaaaaaaaaaaaaaaaaaaaaaaaaaaaaaaaaaaaaaaaaaaaaaaaaaaaaaaaaaaaaaaaaaaaaaaaaaaaaaaaaaaaaaaaaaaaaaaaaaaaaaaaaaaaaaaaaaaaaaaaaaaaaaaaaaaaaaaaaaaaaaa105".toList), ("aaaaaaaaaaaaaaaaaaaaaaaaaaaaaaaaaaaaaaaaaaaaaaaaaaaaaaaaaaaaaaaaaaaaaaaaaaaaaaaaaaaaaaaaaaaaaaaaaaaaaaaaaaaaaaaaaaaaaaaaaaaaaaaaaaaaaaaaaaaaaaaaaaaaaaaaaaaaaaaaaaaaaaaaaaaaaaaaaaaaaaaaaaaaaaaaaaaaaaaaaaaaaaaaaaaaaaaaaaaaaaaaaaaaaaaaaaaa106".toList), ("aaaaaaaaaaaaaaaaaaaaaaaaaaaaaaaaaaaaaaaaaaaaaaaaaaaaaaaaaaaaaaaaaaaaaaaaaaaaaaaaaaaaaaaaaaaaaaaaaaaaaaaaaaaaaaaaaaaaaaaaaaaaaaaaaaaaaaaaaaaaaaaaaaaaaaaaaaaaaaaaaaaaaaaaaaaaaaaaaaaaaaaaaaaaaaaaaaaaaaaaaaaaaaaaaaaaaaaaaaaaaaaaaaaaaaaaaaaa107".toList), ("aaaaaaaaaaaaaaaaaaaaaaaaaaaaaaaaaaaaaaaaaaaaaaaaaaaaaaaaaaaaaaaaaaaaaaaaaaaaaaaaaaaaaaaaaaaaaaaaaaaaaaaaaaaaaaaaaaaaaaaaaaaaaaaaaaaaaaaaaaaaaaaaaaaaaaaaaaaaaaaaaaaaaaaaaaaaaaaaaaaaaaaaaaaaaaaaaaaaaaaaaaaaaaaaaaaaaaaaaaaaaaaaaaaaaaaaaaaa108".toList), ("aaaaaaaaaaaaaaaaaaaaaaaaaaaaaaaaaaaaaaaaaaaaaaaaaaaaaaaaaaaaaaaaaaaaaaaaaaaaaaaaaaaaaaaaaaaaaaaaaaaaaaaaaaaaaaaaaaaaaaaaaaaaaaaaaaaaaaaaaaaaaaaaaaaaaaaaaaaaaaaaaaaaaaaaaaaaaaaaaaaaaaaaaaaaaaaaaaaaaaaaaaaaaaaaaaaaaaaaaaaaaaaaaaaaaaaaaaaa109".toList), ("aaaaaaaaaaaaaaaaaaaaaaaaaaaaaaaaaaaaaaaaaaaaaaaaaaaaaaaaaaaaaaaaaaaaaaaaaaaaaaaaaaaaaaaaaaaaaaaaaaaaaaaaaaaaaaaaaaaaaaaaaaaaaaaaaaaaaaaaaaaaaaaaaaaaaaaaaaaaaaaaaaaaaaaaaaaaaaaaaaaaaaaaaaaaaaaaaaaaaaaaaaaaaaaaaaaaaaaaaaaaaaaaaaaaaaaaaaaa110".toList), ("aaaaaaaaaaaaaaaaaaaaaaaaaaaaaaaaaaaaaaaaaaaaaaaaaaaaaaaaaaaaaaaaaaaaaaaaaaaaaaaaaaaaaaaaaaaaaaaaaaaaaaaaaaaaaaaaaaaaaaaaaaaaaaaaaaaaaaaaaaaaaaaaaaaaaaaaaaaaaaaaaaaaaaaaaaaaaaaaaaaaaaaaaaaaaaaaaaaaaaaaaaaaaaaaaaaaaaaaaaaaaaaaaaaaaaaaaaaa111".toList), ("aaaaaaaaaaaaaaaaaaaaaaaaaaaaaaaaaaaaaaaaaaaaaaaaaaaaaaaaaaaaaaaaaaaaaaaaaaaaaaaaaaaaaaaaaaaaaaaaaaaaaaaaaaaaaaaaaaaaaaaaaaaaaaaaaaaaaaaaaaaaaaaaaaaaaaaaaaaaaaaaaaaaaaaaaaaaaaaaaaaaaaaaaaaaaaaaaaaaaaaaaaaaaaaaaaaaaaaaaaaaaaaaaaaaaaaaaaaa112".toList), ("aaaaaaaaaaaaaaaaaaaaaaaaaaaaaaaaaaaaaaaaaaaaaaaaaaaaaaaaaaaaaaaaaaaaaaaaaaaaaaaaaaaaaaaaaaaaaaaaaaaaaaaaaaaaaaaaaaaaaaaaaaaaaaaaaaaaaaaaaaaaaaaaaaaaaaaaaaaaaaaaaaaaaaaaaaaaaaaaaaaaaaaaaaaaaaaaaaaaaaaaaaaaaaaaaaaaaaaaaaaaaaaaaaaaaaaaaaaa113".toList), ("aaaaaaaaaaaaaaaaaaaaaaaaaaaaaaaaaaaaaaaaaaaaaaaaaaaaaaaaaaaaaaaaaaaaaaaaaaaaaaaaaaaaaaaaaaaaaaaaaaaaaaaaaaaaaaaaaaaaaaaaaaaaaaaaaaaaaaaaaaaaaaaaaaaaaaaaaaaaaaaaaaaaaaaaaaaaaaaaaaaaaaaaaaaaaaaaaaaaaaaaaaaaaaaaaaaaaaaaaaaaaaaaaaaaaaaaaaaa114".toList)],
    marks := [],
    frame_log := [(2, RetVal.pass), (2, RetVal.pass), (2, RetVal.pass), (2, RetVal.pass), (2, RetVal.pass), (2, RetVal.pass), (2, RetVal.pass), (2, RetVal.pass), (2, RetVal.pass), (2, RetVal.pass), (2, RetVal.pass), (2, RetVal.pass), (2, RetVal.pass), (2, RetVal.pass)],
    ilines := 0,
    tlines := 0,
    slines := 14,
    dropped := 0,
    oob := false }

/-- Report-buffer content (newest first) at stage 35. -/
def c4buf14 : List Char := ("\n411aaaaaaaaaaaaaaaaaaaaaaaaaaaaaaaaaaaaaaaaaaaaaaaaaaaaaaaaaaaaaaaaaaaaaaaaaaaaaaaaaaaaaaaaaaaaaaaaaaaaaaaaaaaaaaaaaaaaaaaaaaaaaaaaaaaaaaaaaaaaaaaaaaaaaaaaaaaaaaaaaaaaaaaaaaaaaaaaaaaaaaaaaaaaaaaaaaaaaaaaaaaaaaaaaaaaaaaaaaaaaaaaaaaaaaaaaaaa@B@TOOR@,      ,    ,41  ,S".toList) ++ c4buf13

def c4s35 : St :=
  { next_line_number := 15,
    tag_str := ("@ROOT@B".toList),
    tag_ptr := 7,
    nest := 2,
    env_tag := [0, 5, 7, 0, 0, 0],
    env_timer := [0, 0, 0, 0, 0, 0],
    next_in := 4005,
    buf_rev := c4buf14,
    is_pause := true,
    sent_rev := [],
    clock := 0,
    mode := RMode.search,
    tag_found := 15,
    p_retval := 0,
    invoked := [],
    entered := [("ROOT".toList), ("B".toList), ("aaaaaaaaaaaaaaaaaaaaaaaaaaaaaaaaaaaaaaaaaaaaaaaaaaaaaaaaaaaaaaaaaaaaaaaaaaaaaaaaaaaaaaaaaaaaaaaaaaaaaaaaaaaaaaaaaaaaaaaaaaaaaaaaaaaaaaaaaaaaaaaaaaaaaaaaaaaaaaaaaaaaaaaaaaaaaaaaaaaaaaaaaaaaaaaaaaaaaaaaaaaaaaaaaaaaaaaaaaaaaaaaaaaaaaaaaaaa100".toList), ("aaaaaaaaaaaaaaaaaaaaaaaaaaaaaaaaaaaaaaaaaaaaaaaaaaaaaaaaaaaaaaaaaaaaaaaaaaaaaaaaaaaaaaaaaaaaaaaaaaaaaaaaaaaaaaaaaaaaaaaaaaaaaaaaaaaaaaaaaaaaaaaaaaaaaaaaaaaaaaaaaaaaaaaaaaaaaaaaaaaaaaaaaaaaaaaaaaaaaaaaaaaaaaaaaaaaaaaaaaaaaaaaaaaaaaaaaaaa101".toList), ("aaaaaaaaaaaaaaaaaaaaaaaaaaaaaaaaaaaaaaaaaaaaaaaaaaaaaaaaaaaaaaaaaaaaaaaaaaaaaaaaaaaaaaaaaaaaaaaaaaaaaaaaaaaaaaaaaaaaaaaaaaaaaaaaaaaaaaaaaaaaaaaaaaaaaaaaaaaaaaaaaaaaaaaaaaaaaaaaaaaaaaaaaaaaaaaaaaaaaaaaaaaaaaaaaaaaaaaaaaaaaaaaaaaaaaaaaaaa102".toList), ("aaaaaaaaaaaaaaaaaaaaaaaaaaaaaaaaaaaaaaaaaaaaaaaaaaaaaaaaaaaaaaaaaaaaaaaaaaaaaaaaaaaaaaaaaaaaaaaaaaaaaaaaaaaaaaaaaaaaaaaaaaaaaaaaaaaaaaaaaaaaaaaaaaaaaaaaaaaaaaaaaaaaaaaaaaaaaaaaaaaaaaaaaaaaaaaaaaaaaaaaaaaaaaaaaaaaaaaaaaaaaaaaaaaaaaaaaaaa103".toList), ("aaaaaaaaaaaaaaaaaaaaaaaaaaaaaaaaaaaaaaaaaaaaaaaaaaaaaaaaaaaaaaaaaaaaaaaaaaaaaaaaaaaaaaaaaaaaaaaaaaaaaaaaaaaaaaaaaaaaaaaaaaaaaaaaaaaaaaaaaaaaaaaaaaaaaaaaaaaaaaaaaaaaaaaaaaaaaaaaaaaaaaaaaaaaaaaaaaaaaaaaaaaaaaaaaaaaaaaaaaaaaaaaaaaaaaaaaaaa104".toList), ("aaaaaaaaaaaaaaaaaaaaaaaaaaaaaaaaaaaaaaaaaaaaaaaaaaaaaaaaaaaaaaaaaaaaaaaaaaaaaaaaaaaaaaaaaaaaaaaaaaaaaaaaaaaaaaaaaaaaaaaaaaaaaaaaaaaaaaaaaaaaaaaaaaaaaaaaaaaaaaaaaaaaaaaaaaaaaaaaaaaaaaaaaaaaaaaaaaaaaaaaaaaaaaaaaaaaaaaaaaaaaaaaaaaaaaaaaaaa105".toList), ("aaaaaaaaaaaaaaaaaaaaaaaaaaaaaaaaaaaaaaaaaaaaaaaaaaaaaaaaaaaaaaaaaaaaaaaaaaaaaaaaaaaaaaaaaaaaaaaaaaaaaaaaaaaaaaaaaaaaaaaaaaaaaaaaaaaaaaaaaaaaaaaaaaaaaaaaaaaaaaaaaaaaaaaaaaaaaaaaaaaaaaaaaaaaaaaaaaaaaaaaaaaaaaaaaaaaaaaaaaaaaaaaaaaaaaaaaaaa106".toList), ("aaaaaaaaaaaaaaaaaaaaaaaaaaaaaaaaaaaaaaaaaaaaaaaaaaaaaaaaaaaaaaaaaaaaaaaaaaaaaaaaaaaaaaaaaaaaaaaaaaaaaaaaaaaaaaaaaaaaaaaaaaaaaaaaaaaaaaaaaaaaaaaaaaaaaaaaaaaaaaaaaaaaaaaaaaaaaaaaaaaaaaaaaaaaaaaaaaaaaaaaaaaaaaaaaaaaaaaaaaaaaaaaaaaaaaaaaaaa107".toList), ("aaaaaaaaaaaaaaaaaaaaaaaaaaaaaaaaaaaaaaaaaaaaaaaaaaaaaaaaaaaaaaaaaaaaaaaaaaaaaaaaaaaaaaaaaaaaaaaaaaaaaaaaaaaaaaaaaaaaaaaaaaaaaaaaaaaaaaaaaaaaaaaaaaaaaaaaaaaaaaaaaaaaaaaaaaaaaaaaaaaaaaaaaaaaaaaaaaaaaaaaaaaaaaaaaaaaaaaaaaaaaaaaaaaaaaaaaaaa108".toList), ("aaaaaaaaaaaaaaaaaaaaaaaaaaaaaaaaaaaaaaaaaaaaaaaaaaaaaaaaaaaaaaaaaaaaaaaaaaaaaaaaaaaaaaaaaaaaaaaaaaaaaaaaaaaaaaaaaaaaaaaaaaaaaaaaaaaaaaaaaaaaaaaaaaaaaaaaaaaaaaaaaaaaaaaaaaaaaaaaaaaaaaaaaaaaaaaaaaaaaaaaaaaaaaaaaaaaaaaaaaaaaaaaaaaaaaaaaaaa109".toList), ("aaaaaaaaaaaaaaaaaaaaaaaaaaaaaaaaaaaaaaaaaaaaaaaaaaaaaaaaaaaaaaaaaaaaaaaaaaaaaaaaaaaaaaaaaaaaaaaaaaaaaaaaaaaaaaaaaaaaaaaaaaaaaaaaaaaaaaaaaaaaaaaaaaaaaaaaaaaaaaaaaaaaaaaaaaaaaaaaaaaaaaaaaaaaaaaaaaaaaaaaaaaaaaaaaaaaaaaaaaaaaaaaaaaaaaaaaaaa110".toList), ("aaaaaaaaaaaaaaaaaaaaaaaaaaaaaaaaaaaaaaaaaaaaaaaaaaaaaaaaaaaaaaaaaaaaaaaaaaaaaaaaaaaaaaaaaaaaaaaaaaaaaaaaaaaaaaaaaaaaaaaaaaaaaaaaaaaaaaaaaaaaaaaaaaaaaaaaaaaaaaaaaaaaaaaaaaaaaaaaaaaaaaaaaaaaaaaaaaaaaaaaaaaaaaaaaaaaaaaaaaaaaaaaaaaaaaaaaaaa111".toList), ("aaaaaaaaaaaaaaaaaaaaaaaaaaaaaaaaaaaaaaaaaaaaaaaaaaaaaaaaaaaaaaaaaaaaaaaaaaaaaaaaaaaaaaaaaaaaaaaaaaaaaaaaaaaaaaaaaaaaaaaaaaaaaaaaaaaaaaaaaaaaaaaaaaaaaaaaaaaaaaaaaaaaaaaaaaaaaaaaaaaaaaaaaaaaaaaaaaaaaaaaaaaaaaaaaaaaaaaaaaaaaaaaaaaaaaaaaaaa112".toList), ("aaaaaaaaaaaaaaaaaaaaaaaaaaaaaaaaaaaaaaaaaaaaaaaaaaaaaaaaaaaaaaaaaaaaaaaaaaaaaaaaaaaaaaaaaaaaaaaaaaaaaaaaaaaaaaaaaaaaaaaaaaaaaaaaaaaaaaaaaaaaaaaaaaaaaaaaaaaaaaaaaaaaaaaaaaaaaaaaaaaaaaaaaaaaaaaaaaaaaaaaaaaaaaaaaaaaaaaaaaaaaaaaaaaaaaaaaaaa113".toList), ("aaaaaaaaaaaaaaaaaaaaaaaaaaaaaaaaaaaaaaaaaaaaaaaaaaaaaaaaaaaaaaaaaaaaaaaaaaaaaaaaaaaaaaaaaaaaaaaaaaaaaaaaaaaaaaaaaaaaaaaaaaaaaaaaaaaaaaaaaaaaaaaaaaaaaaaaaaaaaaaaaaaaaaaaaaaaaaaaaaaaaaaaaaaaaaaaaaaaaaaaaaaaaaaaaaaaaaaaaaaaaaaaaaaaaaaaaaaa114".toList)],
    marks := [],
    frame_log := [(2, RetVal.pass), (2, RetVal.pass), (2, RetVal.pass), (2, RetVal.pass), (2, RetVal.pass), (2, RetVal.pass), (2, RetVal.pass), (2, RetVal.pass), (2, RetVal.pass), (2, RetVal.pass), (2, RetVal.pass), (2, RetVal.pass), (2, RetVal.pass), (2, RetVal.pass), (2, RetVal.pass)],
    ilines := 0,
    tlines := 0,
    slines := 15,
    dropped := 0,
    oob := false }

def c4s36 : St :=
  { next_line_number := 15,
    tag_str := ("@ROOT@B@aaaaaaaaaaaaaaaaaaaaaaaaaaaaaaaaaaaaaaaaaaaaaaaaaaaaaaaaaaaaaaaaaaaaaaaaaaaaaaaaaaaaaaaaaaaaaaaaaaaaaaaaaaaaaaaaaaaaaaaaaaaaaaaaaaaaaaaaaaaaaaaaaaaaaaaaaaaaaaaaaaaaaaaaaaaaaaaaaaaaaaaaaaaaaaaaaaaaaaaaaaaaaaaaaaaaaaaaaaaaaaaaaaaaaaaaaaaa115".toList),
    tag_ptr := 247,
    nest := 3,
    env_tag := [0, 5, 7, 0, 0, 0],
    env_timer := [0, 0, 0, 0, 0, 0],
    next_in := 4005,
    buf_rev := c4buf14,
    is_pause := true,
    sent_rev := [],
    clock := 0,
    mode := RMode.search,
    tag_found := 15,
    p_retval := 0,
    invoked := [],
    entered := [("ROOT".toList), ("B".toList), ("aaaaaaaaaaaaaaaaaaaaaaaaaaaaaaaaaaaaaaaaaaaaaaaaaaaaaaaaaaaaaaaaaaaaaaaaaaaaaaaaaaaaaaaaaaaaaaaaaaaaaaaaaaaaaaaaaaaaaaaaaaaaaaaaaaaaaaaaaaaaaaaaaaaaaaaaaaaaaaaaaaaaaaaaaaaaaaaaaaaaaaaaaaaaaaaaaaaaaaaaaaaaaaaaaaaaaaaaaaaaaaaaaaaaaaaaaaaa100".toList), ("aaaaaaaaaaaaaaaaaaaaaaaaaaaaaaaaaaaaaaaaaaaaaaaaaaaaaaaaaaaaaaaaaaaaaaaaaaaaaaaaaaaaaaaaaaaaaaaaaaaaaaaaaaaaaaaaaaaaaaaaaaaaaaaaaaaaaaaaaaaaaaaaaaaaaaaaaaaaaaaaaaaaaaaaaaaaaaaaaaaaaaaaaaaaaaaaaaaaaaaaaaaaaaaaaaaaaaaaaaaaaaaaaaaaaaaaaaaa101".toList), ("aaaaaaaaaaaaaaaaaaaaaaaaaaaaaaaaaaaaaaaaaaaaaaaaaaaaaaaaaaaaaaaaaaaaaaaaaaaaaaaaaaaaaaaaaaaaaaaaaaaaaaaaaaaaaaaaaaaaaaaaaaaaaaaaaaaaaaaaaaaaaaaaaaaaaaaaaaaaaaaaaaaaaaaaaaaaaaaaaaaaaaaaaaaaaaaaaaaaaaaaaaaaaaaaaaaaaaaaaaaaaaaaaaaaaaaaaaaa102".toList), ("aaaaaaaaaaaaaaaaaaaaaaaaaaaaaaaaaaaaaaaaaaaaaaaaaaaaaaaaaaaaaaaaaaaaaaaaaaaaaaaaaaaaaaaaaaaaaaaaaaaaaaaaaaaaaaaaaaaaaaaaaaaaaaaaaaaaaaaaaaaaaaaaaaaaaaaaaaaaaaaaaaaaaaaaaaaaaaaaaaaaaaaaaaaaaaaaaaaaaaaaaaaaaaaaaaaaaaaaaaaaaaaaaaaaaaaaaaaa103".toList), ("aaaaaaaaaaaaaaaaaaaaaaaaaaaaaaaaaaaaaaaaaaaaaaaaaaaaaaaaaaaaaaaaaaaaaaaaaaaaaaaaaaaaaaaaaaaaaaaaaaaaaaaaaaaaaaaaaaaaaaaaaaaaaaaaaaaaaaaaaaaaaaaaaaaaaaaaaaaaaaaaaaaaaaaaaaaaaaaaaaaaaaaaaaaaaaaaaaaaaaaaaaaaaaaaaaaaaaaaaaaaaaaaaaaaaaaaaaaa104".toList), ("aaaaaaaaaaaaaaaaaaaaaaaaaaaaaaaaaaaaaaaaaaaaaaaaaaaaaaaaaaaaaaaaaaaaaaaaaaaaaaaaaaaaaaaaaaaaaaaaaaaaaaaaaaaaaaaaaaaaaaaaaaaaaaaaaaaaaaaaaaaaaaaaaaaaaaaaaaaaaaaaaaaaaaaaaaaaaaaaaaaaaaaaaaaaaaaaaaaaaaaaaaaaaaaaaaaaaaaaaaaaaaaaaaaaaaaaaaaa105".toList), ("aaaaaaaaaaaaaaaaaaaaaaaaaaaaaaaaaaaaaaaaaaaaaaaaaaaaaaaaaaaaaaaaaaaaaaaaaaaaaaaaaaaaaaaaaaaaaaaaaaaaaaaaaaaaaaaaaaaaaaaaaaaaaaaaaaaaaaaaaaaaaaaaaaaaaaaaaaaaaaaaaaaaaaaaaaaaaaaaaaaaaaaaaaaaaaaaaaaaaaaaaaaaaaaaaaaaaaaaaaaaaaaaaaaaaaaaaaaa106".toList), ("aaaaaaaaaaaaaaaaaaaaaaaaaaaaaaaaaaaaaaaaaaaaaaaaaaaaaaaaaaaaaaaaaaaaaaaaaaaaaaaaaaaaaaaaaaaaaaaaaaaaaaaaaaaaaaaaaaaaaaaaaaaaaaaaaaaaaaaaaaaaaaaaaaaaaaaaaaaaaaaaaaaaaaaaaaaaaaaaaaaaaaaaaaaaaaaaaaaaaaaaaaaaaaaaaaaaaaaaaaaaaaaaaaaaaaaaaaaa107".toList), ("aaaaaaaaaaaaaaaaaaaaaaaaaaaaaaaaaaaaaaaaaaaaaaaaaaaaaaaaaaaaaaaaaaaaaaaaaaaaaaaaaaaaaaaaaaaaaaaaaaaaaaaaaaaaaaaaaaaaaaaaaaaaaaaaaaaaaaaaaaaaaaaaaaaaaaaaaaaaaaaaaaaaaaaaaaaaaaaaaaaaaaaaaaaaaaaaaaaaaaaaaaaaaaaaaaaaaaaaaaaaaaaaaaaaaaaaaaaa108".toList), ("aaaaaaaaaaaaaaaaaaaaaaaaaaaaaaaaaaaaaaaaaaaaaaaaaaaaaaaaaaaaaaaaaaaaaaaaaaaaaaaaaaaaaaaaaaaaaaaaaaaaaaaaaaaaaaaaaaaaaaaaaaaaaaaaaaaaaaaaaaaaaaaaaaaaaaaaaaaaaaaaaaaaaaaaaaaaaaaaaaaaaaaaaaaaaaaaaaaaaaaaaaaaaaaaaaaaaaaaaaaaaaaaaaaaaaaaaaaa109".toList), ("aaaaaaaaaaaaaaaaaaaaaaaaaaaaaaaaaaaaaaaaaaaaaaaaaaaaaaaaaaaaaaaaaaaaaaaaaaaaaaaaaaaaaaaaaaaaaaaaaaaaaaaaaaaaaaaaaaaaaaaaaaaaaaaaaaaaaaaaaaaaaaaaaaaaaaaaaaaaaaaaaaaaaaaaaaaaaaaaaaaaaaaaaaaaaaaaaaaaaaaaaaaaaaaaaaaaaaaaaaaaaaaaaaaaaaaaaaaa110".toList), ("aaaaaaaaaaaaaaaaaaaaaaaaaaaaaaaaaaaaaaaaaaaaaaaaaaaaaaaaaaaaaaaaaaaaaaaaaaaaaaaaaaaaaaaaaaaaaaaaaaaaaaaaaaaaaaaaaaaaaaaaaaaaaaaaaaaaaaaaaaaaaaaaaaaaaaaaaaaaaaaaaaaaaaaaaaaaaaaaaaaaaaaaaaaaaaaaaaaaaaaaaaaaaaaaaaaaaaaaaaaaaaaaaaaaaaaaaaaa111".toList), ("aaaaaaaaaaaaaaaaaaaaaaaaaaaaaaaaaaaaaaaaaaaaaaaaaaaaaaaaaaaaaaaaaaaaaaaaaaaaaaaaaaaaaaaaaaaaaaaaaaaaaaaaaaaaaaaaaaaaaaaaaaaaaaaaaaaaaaaaaaaaaaaaaaaaaaaaaaaaaaaaaaaaaaaaaaaaaaaaaaaaaaaaaaaaaaaaaaaaaaaaaaaaaaaaaaaaaaaaaaaaaaaaaaaaaaaaaaaa112".toList), ("aaaaaaaaaaaaaaaaaaaaaaaaaaaaaaaaaaaaaaaaaaaaaaaaaaaaaaaaaaaaaaaaaaaaaaaaaaaaaaaaaaaaaaaaaaaaaaaaaaaaaaaaaaaaaaaaaaaaaaaaaaaaaaaaaaaaaaaaaaaaaaaaaaaaaaaaaaaaaaaaaaaaaaaaaaaaaaaaaaaaaaaaaaaaaaaaaaaaaaaaaaaaaaaaaaaaaaaaaaaaaaaaaaaaaaaaaaaa113".toList), ("aaaaaaaaaaaaaaaaaaaaaaaaaaaaaaaaaaaaaaaaaaaaaaaaaaaaaaaaaaaaaaaaaaaaaaaaaaaaaaaaaaaaaaaaaaaaaaaaaaaaaaaaaaaaaaaaaaaaaaaaaaaaaaaaaaaaaaaaaaaaaaaaaaaaaaaaaaaaaaaaaaaaaaaaaaaaaaaaaaaaaaaaaaaaaaaaaaaaaaaaaaaaaaaaaaaaaaaaaaaaaaaaaaaaaaaaaaaa114".toList), ("aaaaaaaaaaaaaaaaaaaaaaaaaaaaaaaaaaaaaaaaaaaaaaaaaaaaaaaaaaaaaaaaaaaaaaaaaaaaaaaaaaaaaaaaaaaaaaaaaaaaaaaaaaaaaaaaaaaaaaaaaaaaaaaaaaaaaaaaaaaaaaaaaaaaaaaaaaaaaaaaaaaaaaaaaaaaaaaaaaaaaaaaaaaaaaaaaaaaaaaaaaaaaaaaaaaaaaaaaaaaaaaaaaaaaaaaaaaa115".toList)],
    marks := [],
    frame_log := [(2, RetVal.pass), (2, RetVal.pass), (2, RetVal.pass), (2, RetVal.pass), (2, RetVal.pass), (2, RetVal.pass), (2, RetVal.pass), (2, RetVal.pass), (2, RetVal.pass), (2, RetVal.pass), (2, RetVal.pass), (2, RetVal.pass), (2, RetVal.pass), (2, RetVal.pass), (2, RetVal.pass)],
    ilines := 0,
    tlines := 0,
    slines := 15,
    dropped := 0,
    oob := false }

/-- Report-buffer content (newest first) at stage 37. -/
def c4buf15 : List Char := ("aaaaaaaaaaaaaaaaaaaaaaaaaaaaaaaaaaaaaaaaaaaaaaaaaaaaaaaaaaaaaaaa@B@TOOR@,      ,    ,51  ,S".toList) ++ c4buf14

def c4s37 : St :=
  { next_line_number := 16,
    tag_str := ("@ROOT@B".toList),
    tag_ptr := 7,
    nest := 2,
    env_tag := [0, 5, 7, 0, 0, 0],
    env_timer := [0, 0, 0, 0, 0, 0],
    next_in := 4096,
    buf_rev := c4buf15,
    is_pause := true,
    sent_rev := [],
    clock := 0,
    mode := RMode.search,
    tag_found := 16,
    p_retval := 0,
    invoked := [],
    entered := [("ROOT".toList), ("B".toList), ("aaaaaaaaaaaaaaaaaaaaaaaaaaaaaaaaaaaaaaaaaaaaaaaaaaaaaaaaaaaaaaaaaaaaaaaaaaaaaaaaaaaaaaaaaaaaaaaaaaaaaaaaaaaaaaaaaaaaaaaaaaaaaaaaaaaaaaaaaaaaaaaaaaaaaaaaaaaaaaaaaaaaaaaaaaaaaaaaaaaaaaaaaaaaaaaaaaaaaaaaaaaaaaaaaaaaaaaaaaaaaaaaaaaaaaaaaaaa100".toList), ("aaaaaaaaaaaaaaaaaaaaaaaaaaaaaaaaaaaaaaaaaaaaaaaaaaaaaaaaaaaaaaaaaaaaaaaaaaaaaaaaaaaaaaaaaaaaaaaaaaaaaaaaaaaaaaaaaaaaaaaaaaaaaaaaaaaaaaaaaaaaaaaaaaaaaaaaaaaaaaaaaaaaaaaaaaaaaaaaaaaaaaaaaaaaaaaaaaaaaaaaaaaaaaaaaaaaaaaaaaaaaaaaaaaaaaaaaaaa101".toList), ("aaaaaaaaaaaaaaaaaaaaaaaaaaaaaaaaaaaaaaaaaaaaaaaaaaaaaaaaaaaaaaaaaaaaaaaaaaaaaaaaaaaaaaaaaaaaaaaaaaaaaaaaaaaaaaaaaaaaaaaaaaaaaaaaaaaaaaaaaaaaaaaaaaaaaaaaaaaaaaaaaaaaaaaaaaaaaaaaaaaaaaaaaaaaaaaaaaaaaaaaaaaaaaaaaaaaaaaaaaaaaaaaaaaaaaaaaaaa102".toList), ("aaaaaaaaaaaaaaaaaaaaaaaaaaaaaaaaaaaaaaaaaaaaaaaaaaaaaaaaaaaaaaaaaaaaaaaaaaaaaaaaaaaaaaaaaaaaaaaaaaaaaaaaaaaaaaaaaaaaaaaaaaaaaaaaaaaaaaaaaaaaaaaaaaaaaaaaaaaaaaaaaaaaaaaaaaaaaaaaaaaaaaaaaaaaaaaaaaaaaaaaaaaaaaaaaaaaaaaaaaaaaaaaaaaaaaaaaaaa103".toList), ("aaaaaaaaaaaaaaaaaaaaaaaaaaaaaaaaaaaaaaaaaaaaaaaaaaaaaaaaaaaaaaaaaaaaaaaaaaaaaaaaaaaaaaaaaaaaaaaaaaaaaaaaaaaaaaaaaaaaaaaaaaaaaaaaaaaaaaaaaaaaaaaaaaaaaaaaaaaaaaaaaaaaaaaaaaaaaaaaaaaaaaaaaaaaaaaaaaaaaaaaaaaaaaaaaaaaaaaaaaaaaaaaaaaaaaaaaaaa104".toList), ("aaaaaaaaaaaaaaaaaaaaaaaaaaaaaaaaaaaaaaaaaaaaaaaaaaaaaaaaaaaaaaaaaaaaaaaaaaaaaaaaaaaaaaaaaaaaaaaaaaaaaaaaaaaaaaaaaaaaaaaaaaaaaaaaaaaaaaaaaaaaaaaaaaaaaaaaaaaaaaaaaaaaaaaaaaaaaaaaaaaaaaaaaaaaaaaaaaaaaaaaaaaaaaaaaaaaaaaaaaaaaaaaaaaaaaaaaaaa105".toList), ("aaaaaaaaaaaaaaaaaaaaaaaaaaaaaaaaaaaaaaaaaaaaaaaaaaaaaaaaaaaaaaaaaaaaaaaaaaaaaaaaaaaaaaaaaaaaaaaaaaaaaaaaaaaaaaaaaaaaaaaaaaaaaaaaaaaaaaaaaaaaaaaaaaaaaaaaaaaaaaaaaaaaaaaaaaaaaaaaaaaaaaaaaaaaaaaaaaaaaaaaaaaaaaaaaaaaaaaaaaaaaaaaaaaaaaaaaaaa106".toList), ("aaaaaaaaaaaaaaaaaaaaaaaaaaaaaaaaaaaaaaaaaaaaaaaaaaaaaaaaaaaaaaaaaaaaaaaaaaaaaaaaaaaaaaaaaaaaaaaaaaaaaaaaaaaaaaaaaaaaaaaaaaaaaaaaaaaaaaaaaaaaaaaaaaaaaaaaaaaaaaaaaaaaaaaaaaaaaaaaaaaaaaaaaaaaaaaaaaaaaaaaaaaaaaaaaaaaaaaaaaaaaaaaaaaaaaaaaaaa107".toList), ("aaaaaaaaaaaaaaaaaaaaaaaaaaaaaaaaaaaaaaaaaaaaaaaaaaaaaaaaaaaaaaaaaaaaaaaaaaaaaaaaaaaaaaaaaaaaaaaaaaaaaaaaaaaaaaaaaaaaaaaaaaaaaaaaaaaaaaaaaaaaaaaaaaaaaaaaaaaaaaaaaaaaaaaaaaaaaaaaaaaaaaaaaaaaaaaaaaaaaaaaaaaaaaaaaaaaaaaaaaaaaaaaaaaaaaaaaaaa108".toList), ("aaaaaaaaaaaaaaaaaaaaaaaaaaaaaaaaaaaaaaaaaaaaaaaaaaaaaaaaaaaaaaaaaaaaaaaaaaaaaaaaaaaaaaaaaaaaaaaaaaaaaaaaaaaaaaaaaaaaaaaaaaaaaaaaaaaaaaaaaaaaaaaaaaaaaaaaaaaaaaaaaaaaaaaaaaaaaaaaaaaaaaaaaaaaaaaaaaaaaaaaaaaaaaaaaaaaaaaaaaaaaaaaaaaaaaaaaaaa109".toList), ("aaaaaaaaaaaaaaaaaaaaaaaaaaaaaaaaaaaaaaaaaaaaaaaaaaaaaaaaaaaaaaaaaaaaaaaaaaaaaaaaaaaaaaaaaaaaaaaaaaaaaaaaaaaaaaaaaaaaaaaaaaaaaaaaaaaaaaaaaaaaaaaaaaaaaaaaaaaaaaaaaaaaaaaaaaaaaaaaaaaaaaaaaaaaaaaaaaaaaaaaaaaaaaaaaaaaaaaaaaaaaaaaaaaaaaaaaaaa110".toList), ("aaaaaaaaaaaaaaaaaaaaaaaaaaaaaaaaaaaaaaaaaaaaaaaaaaaaaaaaaaaaaaaaaaaaaaaaaaaaaaaaaaaaaaaaaaaaaaaaaaaaaaaaaaaaaaaaaaaaaaaaaaaaaaaaaaaaaaaaaaaaaaaaaaaaaaaaaaaaaaaaaaaaaaaaaaaaaaaaaaaaaaaaaaaaaaaaaaaaaaaaaaaaaaaaaaaaaaaaaaaaaaaaaaaaaaaaaaaa111".toList), ("aaaaaaaaaaaaaaaaaaaaaaaaaaaaaaaaaaaaaaaaaaaaaaaaaaaaaaaaaaaaaaaaaaaaaaaaaaaaaaaaaaaaaaaaaaaaaaaaaaaaaaaaaaaaaaaaaaaaaaaaaaaaaaaaaaaaaaaaaaaaaaaaaaaaaaaaaaaaaaaaaaaaaaaaaaaaaaaaaaaaaaaaaaaaaaaaaaaaaaaaaaaaaaaaaaaaaaaaaaaaaaaaaaaaaaaaaaaa112".toList), ("aaaaaaaaaaaaaaaaaaaaaaaaaaaaaaaaaaaaaaaaaaaaaaaaaaaaaaaaaaaaaaaaaaaaaaaaaaaaaaaaaaaaaaaaaaaaaaaaaaaaaaaaaaaaaaaaaaaaaaaaaaaaaaaaaaaaaaaaaaaaaaaaaaaaaaaaaaaaaaaaaaaaaaaaaaaaaaaaaaaaaaaaaaaaaaaaaaaaaaaaaaaaaaaaaaaaaaaaaaaaaaaaaaaaaaaaaaaa113".toList), ("aaaaaaaaaaaaaaaaaaaaaaaaaaaaaaaaaaaaaaaaaaaaaaaaaaaaaaaaaaaaaaaaaaaaaaaaaaaaaaaaaaaaaaaaaaaaaaaaaaaaaaaaaaaaaaaaaaaaaaaaaaaaaaaaaaaaaaaaaaaaaaaaaaaaaaaaaaaaaaaaaaaaaaaaaaaaaaaaaaaaaaaaaaaaaaaaaaaaaaaaaaaaaaaaaaaaaaaaaaaaaaaaaaaaaaaaaaaa114".toList), ("aaaaaaaaaaaaaaaaaaaaaaaaaaaaaaaaaaaaaaaaaaaaaaaaaaaaaaaaaaaaaaaaaaaaaaaaaaaaaaaaaaaaaaaaaaaaaaaaaaaaaaaaaaaaaaaaaaaaaaaaaaaaaaaaaaaaaaaaaaaaaaaaaaaaaaaaaaaaaaaaaaaaaaaaaaaaaaaaaaaaaaaaaaaaaaaaaaaaaaaaaaaaaaaaaaaaaaaaaaaaaaaaaaaaaaaaaaaa115".toList)],
    marks := [],
    frame_log := [(2, RetVal.pass), (2, RetVal.pass), (2, RetVal.pass), (2, RetVal.pass), (2, RetVal.pass), (2, RetVal.pass), (2, RetVal.pass), (2, RetVal.pass), (2, RetVal.pass), (2, RetVal.pass), (2, RetVal.pass), (2, RetVal.pass), (2, RetVal.pass), (2, RetVal.pass), (2, RetVal.pass), (2, RetVal.pass)],
    ilines := 0,
    tlines := 0,
    slines := 16,
    dropped := 176,
    oob := false }

def c4s38 : St :=
  { next_line_number := 16,
    tag_str := ("@ROOT@B".toList),
    tag_ptr := 7,
    nest := 2,
    env_tag := [0, 5, 7, 0, 0, 0],
    env_timer := [0, 0, 0, 0, 0, 0],
    next_in := 4096,
    buf_rev := c4buf15,
    is_pause := true,
    sent_rev := [],
    clock := 0,
    mode := RMode.search,
    tag_found := 16,
    p_retval := 0,
    invoked := [],
    entered := [("ROOT".toList), ("B".toList), ("aaaaaaaaaaaaaaaaaaaaaaaaaaaaaaaaaaaaaaaaaaaaaaaaaaaaaaaaaaaaaaaaaaaaaaaaaaaaaaaaaaaaaaaaaaaaaaaaaaaaaaaaaaaaaaaaaaaaaaaaaaaaaaaaaaaaaaaaaaaaaaaaaaaaaaaaaaaaaaaaaaaaaaaaaaaaaaaaaaaaaaaaaaaaaaaaaaaaaaaaaaaaaaaaaaaaaaaaaaaaaaaaaaaaaaaaaaaa100".toList), ("aaaaaaaaaaaaaaaaaaaaaaaaaaaaaaaaaaaaaaaaaaaaaaaaaaaaaaaaaaaaaaaaaaaaaaaaaaaaaaaaaaaaaaaaaaaaaaaaaaaaaaaaaaaaaaaaaaaaaaaaaaaaaaaaaaaaaaaaaaaaaaaaaaaaaaaaaaaaaaaaaaaaaaaaaaaaaaaaaaaaaaaaaaaaaaaaaaaaaaaaaaaaaaaaaaaaaaaaaaaaaaaaaaaaaaaaaaaa101".toList), ("aaaaaaaaaaaaaaaaaaaaaaaaaaaaaaaaaaaaaaaaaaaaaaaaaaaaaaaaaaaaaaaaaaaaaaaaaaaaaaaaaaaaaaaaaaaaaaaaaaaaaaaaaaaaaaaaaaaaaaaaaaaaaaaaaaaaaaaaaaaaaaaaaaaaaaaaaaaaaaaaaaaaaaaaaaaaaaaaaaaaaaaaaaaaaaaaaaaaaaaaaaaaaaaaaaaaaaaaaaaaaaaaaaaaaaaaaaaa102".toList), ("aaaaaaaaaaaaaaaaaaaaaaaaaaaaaaaaaaaaaaaaaaaaaaaaaaaaaaaaaaaaaaaaaaaaaaaaaaaaaaaaaaaaaaaaaaaaaaaaaaaaaaaaaaaaaaaaaaaaaaaaaaaaaaaaaaaaaaaaaaaaaaaaaaaaaaaaaaaaaaaaaaaaaaaaaaaaaaaaaaaaaaaaaaaaaaaaaaaaaaaaaaaaaaaaaaaaaaaaaaaaaaaaaaaaaaaaaaaa103".toList), ("aaaaaaaaaaaaaaaaaaaaaaaaaaaaaaaaaaaaaaaaaaaaaaaaaaaaaaaaaaaaaaaaaaaaaaaaaaaaaaaaaaaaaaaaaaaaaaaaaaaaaaaaaaaaaaaaaaaaaaaaaaaaaaaaaaaaaaaaaaaaaaaaaaaaaaaaaaaaaaaaaaaaaaaaaaaaaaaaaaaaaaaaaaaaaaaaaaaaaaaaaaaaaaaaaaaaaaaaaaaaaaaaaaaaaaaaaaaa104".toList), ("aaaaaaaaaaaaaaaaaaaaaaaaaaaaaaaaaaaaaaaaaaaaaaaaaaaaaaaaaaaaaaaaaaaaaaaaaaaaaaaaaaaaaaaaaaaaaaaaaaaaaaaaaaaaaaaaaaaaaaaaaaaaaaaaaaaaaaaaaaaaaaaaaaaaaaaaaaaaaaaaaaaaaaaaaaaaaaaaaaaaaaaaaaaaaaaaaaaaaaaaaaaaaaaaaaaaaaaaaaaaaaaaaaaaaaaaaaaa105".toList), ("aaaaaaaaaaaaaaaaaaaaaaaaaaaaaaaaaaaaaaaaaaaaaaaaaaaaaaaaaaaaaaaaaaaaaaaaaaaaaaaaaaaaaaaaaaaaaaaaaaaaaaaaaaaaaaaaaaaaaaaaaaaaaaaaaaaaaaaaaaaaaaaaaaaaaaaaaaaaaaaaaaaaaaaaaaaaaaaaaaaaaaaaaaaaaaaaaaaaaaaaaaaaaaaaaaaaaaaaaaaaaaaaaaaaaaaaaaaa106".toList), ("aaaaaaaaaaaaaaaaaaaaaaaaaaaaaaaaaaaaaaaaaaaaaaaaaaaaaaaaaaaaaaaaaaaaaaaaaaaaaaaaaaaaaaaaaaaaaaaaaaaaaaaaaaaaaaaaaaaaaaaaaaaaaaaaaaaaaaaaaaaaaaaaaaaaaaaaaaaaaaaaaaaaaaaaaaaaaaaaaaaaaaaaaaaaaaaaaaaaaaaaaaaaaaaaaaaaaaaaaaaaaaaaaaaaaaaaaaaa107".toList), ("aaaaaaaaaaaaaaaaaaaaaaaaaaaaaaaaaaaaaaaaaaaaaaaaaaaaaaaaaaaaaaaaaaaaaaaaaaaaaaaaaaaaaaaaaaaaaaaaaaaaaaaaaaaaaaaaaaaaaaaaaaaaaaaaaaaaaaaaaaaaaaaaaaaaaaaaaaaaaaaaaaaaaaaaaaaaaaaaaaaaaaaaaaaaaaaaaaaaaaaaaaaaaaaaaaaaaaaaaaaaaaaaaaaaaaaaaaaa108".toList), ("aaaaaaaaaaaaaaaaaaaaaaaaaaaaaaaaaaaaaaaaaaaaaaaaaaaaaaaaaaaaaaaaaaaaaaaaaaaaaaaaaaaaaaaaaaaaaaaaaaaaaaaaaaaaaaaaaaaaaaaaaaaaaaaaaaaaaaaaaaaaaaaaaaaaaaaaaaaaaaaaaaaaaaaaaaaaaaaaaaaaaaaaaaaaaaaaaaaaaaaaaaaaaaaaaaaaaaaaaaaaaaaaaaaaaaaaaaaa109".toList), ("aaaaaaaaaaaaaaaaaaaaaaaaaaaaaaaaaaaaaaaaaaaaaaaaaaaaaaaaaaaaaaaaaaaaaaaaaaaaaaaaaaaaaaaaaaaaaaaaaaaaaaaaaaaaaaaaaaaaaaaaaaaaaaaaaaaaaaaaaaaaaaaaaaaaaaaaaaaaaaaaaaaaaaaaaaaaaaaaaaaaaaaaaaaaaaaaaaaaaaaaaaaaaaaaaaaaaaaaaaaaaaaaaaaaaaaaaaaa110".toList), ("aaaaaaaaaaaaaaaaaaaaaaaaaaaaaaaaaaaaaaaaaaaaaaaaaaaaaaaaaaaaaaaaaaaaaaaaaaaaaaaaaaaaaaaaaaaaaaaaaaaaaaaaaaaaaaaaaaaaaaaaaaaaaaaaaaaaaaaaaaaaaaaaaaaaaaaaaaaaaaaaaaaaaaaaaaaaaaaaaaaaaaaaaaaaaaaaaaaaaaaaaaaaaaaaaaaaaaaaaaaaaaaaaaaaaaaaaaaa111".toList), ("aaaaaaaaaaaaaaaaaaaaaaaaaaaaaaaaaaaaaaaaaaaaaaaaaaaaaaaaaaaaaaaaaaaaaaaaaaaaaaaaaaaaaaaaaaaaaaaaaaaaaaaaaaaaaaaaaaaaaaaaaaaaaaaaaaaaaaaaaaaaaaaaaaaaaaaaaaaaaaaaaaaaaaaaaaaaaaaaaaaaaaaaaaaaaaaaaaaaaaaaaaaaaaaaaaaaaaaaaaaaaaaaaaaaaaaaaaaa112".toList), ("aaaaaaaaaaaaaaaaaaaaaaaaaaaaaaaaaaaaaaaaaaaaaaaaaaaaaaaaaaaaaaaaaaaaaaaaaaaaaaaaaaaaaaaaaaaaaaaaaaaaaaaaaaaaaaaaaaaaaaaaaaaaaaaaaaaaaaaaaaaaaaaaaaaaaaaaaaaaaaaaaaaaaaaaaaaaaaaaaaaaaaaaaaaaaaaaaaaaaaaaaaaaaaaaaaaaaaaaaaaaaaaaaaaaaaaaaaaa113".toList), ("aaaaaaaaaaaaaaaaaaaaaaaaaaaaaaaaaaaaaaaaaaaaaaaaaaaaaaaaaaaaaaaaaaaaaaaaaaaaaaaaaaaaaaaaaaaaaaaaaaaaaaaaaaaaaaaaaaaaaaaaaaaaaaaaaaaaaaaaaaaaaaaaaaaaaaaaaaaaaaaaaaaaaaaaaaaaaaaaaaaaaaaaaaaaaaaaaaaaaaaaaaaaaaaaaaaaaaaaaaaaaaaaaaaaaaaaaaaa114".toList), ("aaaaaaaaaaaaaaaaaaaaaaaaaaaaaaaaaaaaaaaaaaaaaaaaaaaaaaaaaaaaaaaaaaaaaaaaaaaaaaaaaaaaaaaaaaaaaaaaaaaaaaaaaaaaaaaaaaaaaaaaaaaaaaaaaaaaaaaaaaaaaaaaaaaaaaaaaaaaaaaaaaaaaaaaaaaaaaaaaaaaaaaaaaaaaaaaaaaaaaaaaaaaaaaaaaaaaaaaaaaaaaaaaaaaaaaaaaaa115".toList)],
    marks := [],
    frame_log := [(2, RetVal.pass), (2, RetVal.pass), (2, RetVal.pass), (2, RetVal.pass), (2, RetVal.pass), (2, RetVal.pass), (2, RetVal.pass), (2, RetVal.pass), (2, RetVal.pass), (2, RetVal.pass), (2, RetVal.pass), (2, RetVal.pass), (2, RetVal.pass), (2, RetVal.pass), (2, RetVal.pass), (2, RetVal.pass)],
    ilines := 0,
    tlines := 0,
    slines := 16,
    dropped := 176,
    oob := false }

def c4s39 : St :=
  { next_line_number := 17,
    tag_str := ("@ROOT".toList),
    tag_ptr := 5,
    nest := 1,
    env_tag := [0, 5, 7, 0, 0, 0],
    env_timer := [0, 0, 0, 0, 0, 0],
    next_in := 4096,
    buf_rev := c4buf15,
    is_pause := true,
    sent_rev := [],
    clock := 0,
    mode := RMode.search,
    tag_found := 17,
    p_retval := 0,
    invoked := [],
    entered := [("ROOT".toList), ("B".toList), ("aaaaaaaaaaaaaaaaaaaaaaaaaaaaaaaaaaaaaaaaaaaaaaaaaaaaaaaaaaaaaaaaaaaaaaaaaaaaaaaaaaaaaaaaaaaaaaaaaaaaaaaaaaaaaaaaaaaaaaaaaaaaaaaaaaaaaaaaaaaaaaaaaaaaaaaaaaaaaaaaaaaaaaaaaaaaaaaaaaaaaaaaaaaaaaaaaaaaaaaaaaaaaaaaaaaaaaaaaaaaaaaaaaaaaaaaaaaa100".toList), ("aaaaaaaaaaaaaaaaaaaaaaaaaaaaaaaaaaaaaaaaaaaaaaaaaaaaaaaaaaaaaaaaaaaaaaaaaaaaaaaaaaaaaaaaaaaaaaaaaaaaaaaaaaaaaaaaaaaaaaaaaaaaaaaaaaaaaaaaaaaaaaaaaaaaaaaaaaaaaaaaaaaaaaaaaaaaaaaaaaaaaaaaaaaaaaaaaaaaaaaaaaaaaaaaaaaaaaaaaaaaaaaaaaaaaaaaaaaa101".toList), ("aaaaaaaaaaaaaaaaaaaaaaaaaaaaaaaaaaaaaaaaaaaaaaaaaaaaaaaaaaaaaaaaaaaaaaaaaaaaaaaaaaaaaaaaaaaaaaaaaaaaaaaaaaaaaaaaaaaaaaaaaaaaaaaaaaaaaaaaaaaaaaaaaaaaaaaaaaaaaaaaaaaaaaaaaaaaaaaaaaaaaaaaaaaaaaaaaaaaaaaaaaaaaaaaaaaaaaaaaaaaaaaaaaaaaaaaaaaa102".toList), ("aaaaaaaaaaaaaaaaaaaaaaaaaaaaaaaaaaaaaaaaaaaaaaaaaaaaaaaaaaaaaaaaaaaaaaaaaaaaaaaaaaaaaaaaaaaaaaaaaaaaaaaaaaaaaaaaaaaaaaaaaaaaaaaaaaaaaaaaaaaaaaaaaaaaaaaaaaaaaaaaaaaaaaaaaaaaaaaaaaaaaaaaaaaaaaaaaaaaaaaaaaaaaaaaaaaaaaaaaaaaaaaaaaaaaaaaaaaa103".toList), ("aaaaaaaaaaaaaaaaaaaaaaaaaaaaaaaaaaaaaaaaaaaaaaaaaaaaaaaaaaaaaaaaaaaaaaaaaaaaaaaaaaaaaaaaaaaaaaaaaaaaaaaaaaaaaaaaaaaaaaaaaaaaaaaaaaaaaaaaaaaaaaaaaaaaaaaaaaaaaaaaaaaaaaaaaaaaaaaaaaaaaaaaaaaaaaaaaaaaaaaaaaaaaaaaaaaaaaaaaaaaaaaaaaaaaaaaaaaa104".toList), ("aaaaaaaaaaaaaaaaaaaaaaaaaaaaaaaaaaaaaaaaaaaaaaaaaaaaaaaaaaaaaaaaaaaaaaaaaaaaaaaaaaaaaaaaaaaaaaaaaaaaaaaaaaaaaaaaaaaaaaaaaaaaaaaaaaaaaaaaaaaaaaaaaaaaaaaaaaaaaaaaaaaaaaaaaaaaaaaaaaaaaaaaaaaaaaaaaaaaaaaaaaaaaaaaaaaaaaaaaaaaaaaaaaaaaaaaaaaa105".toList), ("aaaaaaaaaaaaaaaaaaaaaaaaaaaaaaaaaaaaaaaaaaaaaaaaaaaaaaaaaaaaaaaaaaaaaaaaaaaaaaaaaaaaaaaaaaaaaaaaaaaaaaaaaaaaaaaaaaaaaaaaaaaaaaaaaaaaaaaaaaaaaaaaaaaaaaaaaaaaaaaaaaaaaaaaaaaaaaaaaaaaaaaaaaaaaaaaaaaaaaaaaaaaaaaaaaaaaaaaaaaaaaaaaaaaaaaaaaaa106".toList), ("aaaaaaaaaaaaaaaaaaaaaaaaaaaaaaaaaaaaaaaaaaaaaaaaaaaaaaaaaaaaaaaaaaaaaaaaaaaaaaaaaaaaaaaaaaaaaaaaaaaaaaaaaaaaaaaaaaaaaaaaaaaaaaaaaaaaaaaaaaaaaaaaaaaaaaaaaaaaaaaaaaaaaaaaaaaaaaaaaaaaaaaaaaaaaaaaaaaaaaaaaaaaaaaaaaaaaaaaaaaaaaaaaaaaaaaaaaaa107".toList), ("aaaaaaaaaaaaaaaaaaaaaaaaaaaaaaaaaaaaaaaaaaaaaaaaaaaaaaaaaaaaaaaaaaaaaaaaaaaaaaaaaaaaaaaaaaaaaaaaaaaaaaaaaaaaaaaaaaaaaaaaaaaaaaaaaaaaaaaaaaaaaaaaaaaaaaaaaaaaaaaaaaaaaaaaaaaaaaaaaaaaaaaaaaaaaaaaaaaaaaaaaaaaaaaaaaaaaaaaaaaaaaaaaaaaaaaaaaaa108".toList), ("aaaaaaaaaaaaaaaaaaaaaaaaaaaaaaaaaaaaaaaaaaaaaaaaaaaaaaaaaaaaaaaaaaaaaaaaaaaaaaaaaaaaaaaaaaaaaaaaaaaaaaaaaaaaaaaaaaaaaaaaaaaaaaaaaaaaaaaaaaaaaaaaaaaaaaaaaaaaaaaaaaaaaaaaaaaaaaaaaaaaaaaaaaaaaaaaaaaaaaaaaaaaaaaaaaaaaaaaaaaaaaaaaaaaaaaaaaaa109".toList), ("aaaaaaaaaaaaaaaaaaaaaaaaaaaaaaaaaaaaaaaaaaaaaaaaaaaaaaaaaaaaaaaaaaaaaaaaaaaaaaaaaaaaaaaaaaaaaaaaaaaaaaaaaaaaaaaaaaaaaaaaaaaaaaaaaaaaaaaaaaaaaaaaaaaaaaaaaaaaaaaaaaaaaaaaaaaaaaaaaaaaaaaaaaaaaaaaaaaaaaaaaaaaaaaaaaaaaaaaaaaaaaaaaaaaaaaaaaaa110".toList), ("aaaaaaaaaaaaaaaaaaaaaaaaaaaaaaaaaaaaaaaaaaaaaaaaaaaaaaaaaaaaaaaaaaaaaaaaaaaaaaaaaaaaaaaaaaaaaaaaaaaaaaaaaaaaaaaaaaaaaaaaaaaaaaaaaaaaaaaaaaaaaaaaaaaaaaaaaaaaaaaaaaaaaaaaaaaaaaaaaaaaaaaaaaaaaaaaaaaaaaaaaaaaaaaaaaaaaaaaaaaaaaaaaaaaaaaaaaaa111".toList), ("aaaaaaaaaaaaaaaaaaaaaaaaaaaaaaaaaaaaaaaaaaaaaaaaaaaaaaaaaaaaaaaaaaaaaaaaaaaaaaaaaaaaaaaaaaaaaaaaaaaaaaaaaaaaaaaaaaaaaaaaaaaaaaaaaaaaaaaaaaaaaaaaaaaaaaaaaaaaaaaaaaaaaaaaaaaaaaaaaaaaaaaaaaaaaaaaaaaaaaaaaaaaaaaaaaaaaaaaaaaaaaaaaaaaaaaaaaaa112".toList), ("aaaaaaaaaaaaaaaaaaaaaaaaaaaaaaaaaaaaaaaaaaaaaaaaaaaaaaaaaaaaaaaaaaaaaaaaaaaaaaaaaaaaaaaaaaaaaaaaaaaaaaaaaaaaaaaaaaaaaaaaaaaaaaaaaaaaaaaaaaaaaaaaaaaaaaaaaaaaaaaaaaaaaaaaaaaaaaaaaaaaaaaaaaaaaaaaaaaaaaaaaaaaaaaaaaaaaaaaaaaaaaaaaaaaaaaaaaaa113".toList), ("aaaaaaaaaaaaaaaaaaaaaaaaaaaaaaaaaaaaaaaaaaaaaaaaaaaaaaaaaaaaaaaaaaaaaaaaaaaaaaaaaaaaaaaaaaaaaaaaaaaaaaaaaaaaaaaaaaaaaaaaaaaaaaaaaaaaaaaaaaaaaaaaaaaaaaaaaaaaaaaaaaaaaaaaaaaaaaaaaaaaaaaaaaaaaaaaaaaaaaaaaaaaaaaaaaaaaaaaaaaaaaaaaaaaaaaaaaaa114".toList), ("aaaaaaaaaaaaaaaaaaaaaaaaaaaaaaaaaaaaaaaaaaaaaaaaaaaaaaaaaaaaaaaaaaaaaaaaaaaaaaaaaaaaaaaaaaaaaaaaaaaaaaaaaaaaaaaaaaaaaaaaaaaaaaaaaaaaaaaaaaaaaaaaaaaaaaaaaaaaaaaaaaaaaaaaaaaaaaaaaaaaaaaaaaaaaaaaaaaaaaaaaaaaaaaaaaaaaaaaaaaaaaaaaaaaaaaaaaaa115".toList)],
    marks := [],
    frame_log := [(2, RetVal.pass), (2, RetVal.pass), (2, RetVal.pass), (2, RetVal.pass), (2, RetVal.pass), (2, RetVal.pass), (2, RetVal.pass), (2, RetVal.pass), (2, RetVal.pass), (2, RetVal.pass), (2, RetVal.pass), (2, RetVal.pass), (2, RetVal.pass), (2, RetVal.pass), (2, RetVal.pass), (2, RetVal.pass), (1, RetVal.pass)],
    ilines := 0,
    tlines := 0,
    slines := 17,
    dropped := 203,
    oob := false }

def c4s40 : St :=
  { next_line_number := 17,
    tag_str := ("@ROOT".toList),
    tag_ptr := 5,
    nest := 1,
    env_tag := [0, 5, 7, 0, 0, 0],
    env_timer := [0, 0, 0, 0, 0, 0],
    next_in := 4096,
    buf_rev := c4buf15,
    is_pause := true,
    sent_rev := [],
    clock := 0,
    mode := RMode.search,
    tag_found := 17,
    p_retval := 0,
    invoked := [],
    entered := [("ROOT".toList), ("B".toList), ("aaaaaaaaaaaaaaaaaaaaaaaaaaaaaaaaaaaaaaaaaaaaaaaaaaaaaaaaaaaaaaaaaaaaaaaaaaaaaaaaaaaaaaaaaaaaaaaaaaaaaaaaaaaaaaaaaaaaaaaaaaaaaaaaaaaaaaaaaaaaaaaaaaaaaaaaaaaaaaaaaaaaaaaaaaaaaaaaaaaaaaaaaaaaaaaaaaaaaaaaaaaaaaaaaaaaaaaaaaaaaaaaaaaaaaaaaaaa100".toList), ("aaaaaaaaaaaaaaaaaaaaaaaaaaaaaaaaaaaaaaaaaaaaaaaaaaaaaaaaaaaaaaaaaaaaaaaaaaaaaaaaaaaaaaaaaaaaaaaaaaaaaaaaaaaaaaaaaaaaaaaaaaaaaaaaaaaaaaaaaaaaaaaaaaaaaaaaaaaaaaaaaaaaaaaaaaaaaaaaaaaaaaaaaaaaaaaaaaaaaaaaaaaaaaaaaaaaaaaaaaaaaaaaaaaaaaaaaaaa101".toList), ("aaaaaaaaaaaaaaaaaaaaaaaaaaaaaaaaaaaaaaaaaaaaaaaaaaaaaaaaaaaaaaaaaaaaaaaaaaaaaaaaaaaaaaaaaaaaaaaaaaaaaaaaaaaaaaaaaaaaaaaaaaaaaaaaaaaaaaaaaaaaaaaaaaaaaaaaaaaaaaaaaaaaaaaaaaaaaaaaaaaaaaaaaaaaaaaaaaaaaaaaaaaaaaaaaaaaaaaaaaaaaaaaaaaaaaaaaaaa102".toList), ("aaaaaaaaaaaaaaaaaaaaaaaaaaaaaaaaaaaaaaaaaaaaaaaaaaaaaaaaaaaaaaaaaaaaaaaaaaaaaaaaaaaaaaaaaaaaaaaaaaaaaaaaaaaaaaaaaaaaaaaaaaaaaaaaaaaaaaaaaaaaaaaaaaaaaaaaaaaaaaaaaaaaaaaaaaaaaaaaaaaaaaaaaaaaaaaaaaaaaaaaaaaaaaaaaaaaaaaaaaaaaaaaaaaaaaaaaaaa103".toList), ("aaaaaaaaaaaaaaaaaaaaaaaaaaaaaaaaaaaaaaaaaaaaaaaaaaaaaaaaaaaaaaaaaaaaaaaaaaaaaaaaaaaaaaaaaaaaaaaaaaaaaaaaaaaaaaaaaaaaaaaaaaaaaaaaaaaaaaaaaaaaaaaaaaaaaaaaaaaaaaaaaaaaaaaaaaaaaaaaaaaaaaaaaaaaaaaaaaaaaaaaaaaaaaaaaaaaaaaaaaaaaaaaaaaaaaaaaaaa104".toList), ("aaaaaaaaaaaaaaaaaaaaaaaaaaaaaaaaaaaaaaaaaaaaaaaaaaaaaaaaaaaaaaaaaaaaaaaaaaaaaaaaaaaaaaaaaaaaaaaaaaaaaaaaaaaaaaaaaaaaaaaaaaaaaaaaaaaaaaaaaaaaaaaaaaaaaaaaaaaaaaaaaaaaaaaaaaaaaaaaaaaaaaaaaaaaaaaaaaaaaaaaaaaaaaaaaaaaaaaaaaaaaaaaaaaaaaaaaaaa105".toList), ("aaaaaaaaaaaaaaaaaaaaaaaaaaaaaaaaaaaaaaaaaaaaaaaaaaaaaaaaaaaaaaaaaaaaaaaaaaaaaaaaaaaaaaaaaaaaaaaaaaaaaaaaaaaaaaaaaaaaaaaaaaaaaaaaaaaaaaaaaaaaaaaaaaaaaaaaaaaaaaaaaaaaaaaaaaaaaaaaaaaaaaaaaaaaaaaaaaaaaaaaaaaaaaaaaaaaaaaaaaaaaaaaaaaaaaaaaaaa106".toList), ("aaaaaaaaaaaaaaaaaaaaaaaaaaaaaaaaaaaaaaaaaaaaaaaaaaaaaaaaaaaaaaaaaaaaaaaaaaaaaaaaaaaaaaaaaaaaaaaaaaaaaaaaaaaaaaaaaaaaaaaaaaaaaaaaaaaaaaaaaaaaaaaaaaaaaaaaaaaaaaaaaaaaaaaaaaaaaaaaaaaaaaaaaaaaaaaaaaaaaaaaaaaaaaaaaaaaaaaaaaaaaaaaaaaaaaaaaaaa107".toList), ("aaaaaaaaaaaaaaaaaaaaaaaaaaaaaaaaaaaaaaaaaaaaaaaaaaaaaaaaaaaaaaaaaaaaaaaaaaaaaaaaaaaaaaaaaaaaaaaaaaaaaaaaaaaaaaaaaaaaaaaaaaaaaaaaaaaaaaaaaaaaaaaaaaaaaaaaaaaaaaaaaaaaaaaaaaaaaaaaaaaaaaaaaaaaaaaaaaaaaaaaaaaaaaaaaaaaaaaaaaaaaaaaaaaaaaaaaaaa108".toList), ("aaaaaaaaaaaaaaaaaaaaaaaaaaaaaaaaaaaaaaaaaaaaaaaaaaaaaaaaaaaaaaaaaaaaaaaaaaaaaaaaaaaaaaaaaaaaaaaaaaaaaaaaaaaaaaaaaaaaaaaaaaaaaaaaaaaaaaaaaaaaaaaaaaaaaaaaaaaaaaaaaaaaaaaaaaaaaaaaaaaaaaaaaaaaaaaaaaaaaaaaaaaaaaaaaaaaaaaaaaaaaaaaaaaaaaaaaaaa109".toList), ("aaaaaaaaaaaaaaaaaaaaaaaaaaaaaaaaaaaaaaaaaaaaaaaaaaaaaaaaaaaaaaaaaaaaaaaaaaaaaaaaaaaaaaaaaaaaaaaaaaaaaaaaaaaaaaaaaaaaaaaaaaaaaaaaaaaaaaaaaaaaaaaaaaaaaaaaaaaaaaaaaaaaaaaaaaaaaaaaaaaaaaaaaaaaaaaaaaaaaaaaaaaaaaaaaaaaaaaaaaaaaaaaaaaaaaaaaaaa110".toList), ("aaaaaaaaaaaaaaaaaaaaaaaaaaaaaaaaaaaaaaaaaaaaaaaaaaaaaaaaaaaaaaaaaaaaaaaaaaaaaaaaaaaaaaaaaaaaaaaaaaaaaaaaaaaaaaaaaaaaaaaaaaaaaaaaaaaaaaaaaaaaaaaaaaaaaaaaaaaaaaaaaaaaaaaaaaaaaaaaaaaaaaaaaaaaaaaaaaaaaaaaaaaaaaaaaaaaaaaaaaaaaaaaaaaaaaaaaaaa111".toList), ("aaaaaaaaaaaaaaaaaaaaaaaaaaaaaaaaaaaaaaaaaaaaaaaaaaaaaaaaaaaaaaaaaaaaaaaaaaaaaaaaaaaaaaaaaaaaaaaaaaaaaaaaaaaaaaaaaaaaaaaaaaaaaaaaaaaaaaaaaaaaaaaaaaaaaaaaaaaaaaaaaaaaaaaaaaaaaaaaaaaaaaaaaaaaaaaaaaaaaaaaaaaaaaaaaaaaaaaaaaaaaaaaaaaaaaaaaaaa112".toList), ("aaaaaaaaaaaaaaaaaaaaaaaaaaaaaaaaaaaaaaaaaaaaaaaaaaaaaaaaaaaaaaaaaaaaaaaaaaaaaaaaaaaaaaaaaaaaaaaaaaaaaaaaaaaaaaaaaaaaaaaaaaaaaaaaaaaaaaaaaaaaaaaaaaaaaaaaaaaaaaaaaaaaaaaaaaaaaaaaaaaaaaaaaaaaaaaaaaaaaaaaaaaaaaaaaaaaaaaaaaaaaaaaaaaaaaaaaaaa113".toList), ("aaaaaaaaaaaaaaaaaaaaaaaaaaaaaaaaaaaaaaaaaaaaaaaaaaaaaaaaaaaaaaaaaaaaaaaaaaaaaaaaaaaaaaaaaaaaaaaaaaaaaaaaaaaaaaaaaaaaaaaaaaaaaaaaaaaaaaaaaaaaaaaaaaaaaaaaaaaaaaaaaaaaaaaaaaaaaaaaaaaaaaaaaaaaaaaaaaaaaaaaaaaaaaaaaaaaaaaaaaaaaaaaaaaaaaaaaaaa114".toList), ("aaaaaaaaaaaaaaaaaaaaaaaaaaaaaaaaaaaaaaaaaaaaaaaaaaaaaaaaaaaaaaaaaaaaaaaaaaaaaaaaaaaaaaaaaaaaaaaaaaaaaaaaaaaaaaaaaaaaaaaaaaaaaaaaaaaaaaaaaaaaaaaaaaaaaaaaaaaaaaaaaaaaaaaaaaaaaaaaaaaaaaaaaaaaaaaaaaaaaaaaaaaaaaaaaaaaaaaaaaaaaaaaaaaaaaaaaaaa115".toList)],
    marks := [],
    frame_log := [(2, RetVal.pass), (2, RetVal.pass), (2, RetVal.pass), (2, RetVal.pass), (2, RetVal.pass), (2, RetVal.pass), (2, RetVal.pass), (2, RetVal.pass), (2, RetVal.pass), (2, RetVal.pass), (2, RetVal.pass), (2, RetVal.pass), (2, RetVal.pass), (2, RetVal.pass), (2, RetVal.pass), (2, RetVal.pass), (1, RetVal.pass)],
    ilines := 0,
    tlines := 0,
    slines := 17,
    dropped := 203,
    oob := false }

/-- A transmitted blob: the reversal of the buffer it flushed. -/
def c4sent0 : List Char := c4buf15.reverse

def c4s41 : St :=
  { next_line_number := 18,
    tag_str := ("".toList),
    tag_ptr := 0,
    nest := 0,
    env_tag := [0, 5, 7, 0, 0, 0],
    env_timer := [0, 0, 0, 0, 0, 0],
    next_in := 0,
    buf_rev := ("".toList),
    is_pause := true,
    sent_rev := [c4sent0],
    clock := 0,
    mode := RMode.search,
    tag_found := 18,
    p_retval := 0,
    invoked := [],
    entered := [("ROOT".toList), ("B".toList), ("aaaaaaaaaaaaaaaaaaaaaaaaaaaaaaaaaaaaaaaaaaaaaaaaaaaaaaaaaaaaaaaaaaaaaaaaaaaaaaaaaaaaaaaaaaaaaaaaaaaaaaaaaaaaaaaaaaaaaaaaaaaaaaaaaaaaaaaaaaaaaaaaaaaaaaaaaaaaaaaaaaaaaaaaaaaaaaaaaaaaaaaaaaaaaaaaaaaaaaaaaaaaaaaaaaaaaaaaaaaaaaaaaaaaaaaaaaaa100".toList), ("aaaaaaaaaaaaaaaaaaaaaaaaaaaaaaaaaaaaaaaaaaaaaaaaaaaaaaaaaaaaaaaaaaaaaaaaaaaaaaaaaaaaaaaaaaaaaaaaaaaaaaaaaaaaaaaaaaaaaaaaaaaaaaaaaaaaaaaaaaaaaaaaaaaaaaaaaaaaaaaaaaaaaaaaaaaaaaaaaaaaaaaaaaaaaaaaaaaaaaaaaaaaaaaaaaaaaaaaaaaaaaaaaaaaaaaaaaaa101".toList), ("aaaaaaaaaaaaaaaaaaaaaaaaaaaaaaaaaaaaaaaaaaaaaaaaaaaaaaaaaaaaaaaaaaaaaaaaaaaaaaaaaaaaaaaaaaaaaaaaaaaaaaaaaaaaaaaaaaaaaaaaaaaaaaaaaaaaaaaaaaaaaaaaaaaaaaaaaaaaaaaaaaaaaaaaaaaaaaaaaaaaaaaaaaaaaaaaaaaaaaaaaaaaaaaaaaaaaaaaaaaaaaaaaaaaaaaaaaaa102".toList), ("aaaaaaaaaaaaaaaaaaaaaaaaaaaaaaaaaaaaaaaaaaaaaaaaaaaaaaaaaaaaaaaaaaaaaaaaaaaaaaaaaaaaaaaaaaaaaaaaaaaaaaaaaaaaaaaaaaaaaaaaaaaaaaaaaaaaaaaaaaaaaaaaaaaaaaaaaaaaaaaaaaaaaaaaaaaaaaaaaaaaaaaaaaaaaaaaaaaaaaaaaaaaaaaaaaaaaaaaaaaaaaaaaaaaaaaaaaaa103".toList), ("aaaaaaaaaaaaaaaaaaaaaaaaaaaaaaaaaaaaaaaaaaaaaaaaaaaaaaaaaaaaaaaaaaaaaaaaaaaaaaaaaaaaaaaaaaaaaaaaaaaaaaaaaaaaaaaaaaaaaaaaaaaaaaaaaaaaaaaaaaaaaaaaaaaaaaaaaaaaaaaaaaaaaaaaaaaaaaaaaaaaaaaaaaaaaaaaaaaaaaaaaaaaaaaaaaaaaaaaaaaaaaaaaaaaaaaaaaaa104".toList), ("aaaaaaaaaaaaaaaaaaaaaaaaaaaaaaaaaaaaaaaaaaaaaaaaaaaaaaaaaaaaaaaaaaaaaaaaaaaaaaaaaaaaaaaaaaaaaaaaaaaaaaaaaaaaaaaaaaaaaaaaaaaaaaaaaaaaaaaaaaaaaaaaaaaaaaaaaaaaaaaaaaaaaaaaaaaaaaaaaaaaaaaaaaaaaaaaaaaaaaaaaaaaaaaaaaaaaaaaaaaaaaaaaaaaaaaaaaaa105".toList), ("aaaaaaaaaaaaaaaaaaaaaaaaaaaaaaaaaaaaaaaaaaaaaaaaaaaaaaaaaaaaaaaaaaaaaaaaaaaaaaaaaaaaaaaaaaaaaaaaaaaaaaaaaaaaaaaaaaaaaaaaaaaaaaaaaaaaaaaaaaaaaaaaaaaaaaaaaaaaaaaaaaaaaaaaaaaaaaaaaaaaaaaaaaaaaaaaaaaaaaaaaaaaaaaaaaaaaaaaaaaaaaaaaaaaaaaaaaaa106".toList), ("aaaaaaaaaaaaaaaaaaaaaaaaaaaaaaaaaaaaaaaaaaaaaaaaaaaaaaaaaaaaaaaaaaaaaaaaaaaaaaaaaaaaaaaaaaaaaaaaaaaaaaaaaaaaaaaaaaaaaaaaaaaaaaaaaaaaaaaaaaaaaaaaaaaaaaaaaaaaaaaaaaaaaaaaaaaaaaaaaaaaaaaaaaaaaaaaaaaaaaaaaaaaaaaaaaaaaaaaaaaaaaaaaaaaaaaaaaaa107".toList), ("aaaaaaaaaaaaaaaaaaaaaaaaaaaaaaaaaaaaaaaaaaaaaaaaaaaaaaaaaaaaaaaaaaaaaaaaaaaaaaaaaaaaaaaaaaaaaaaaaaaaaaaaaaaaaaaaaaaaaaaaaaaaaaaaaaaaaaaaaaaaaaaaaaaaaaaaaaaaaaaaaaaaaaaaaaaaaaaaaaaaaaaaaaaaaaaaaaaaaaaaaaaaaaaaaaaaaaaaaaaaaaaaaaaaaaaaaaaa108".toList), ("aaaaaaaaaaaaaaaaaaaaaaaaaaaaaaaaaaaaaaaaaaaaaaaaaaaaaaaaaaaaaaaaaaaaaaaaaaaaaaaaaaaaaaaaaaaaaaaaaaaaaaaaaaaaaaaaaaaaaaaaaaaaaaaaaaaaaaaaaaaaaaaaaaaaaaaaaaaaaaaaaaaaaaaaaaaaaaaaaaaaaaaaaaaaaaaaaaaaaaaaaaaaaaaaaaaaaaaaaaaaaaaaaaaaaaaaaaaa109".toList), ("aaaaaaaaaaaaaaaaaaaaaaaaaaaaaaaaaaaaaaaaaaaaaaaaaaaaaaaaaaaaaaaaaaaaaaaaaaaaaaaaaaaaaaaaaaaaaaaaaaaaaaaaaaaaaaaaaaaaaaaaaaaaaaaaaaaaaaaaaaaaaaaaaaaaaaaaaaaaaaaaaaaaaaaaaaaaaaaaaaaaaaaaaaaaaaaaaaaaaaaaaaaaaaaaaaaaaaaaaaaaaaaaaaaaaaaaaaaa110".toList), ("aaaaaaaaaaaaaaaaaaaaaaaaaaaaaaaaaaaaaaaaaaaaaaaaaaaaaaaaaaaaaaaaaaaaaaaaaaaaaaaaaaaaaaaaaaaaaaaaaaaaaaaaaaaaaaaaaaaaaaaaaaaaaaaaaaaaaaaaaaaaaaaaaaaaaaaaaaaaaaaaaaaaaaaaaaaaaaaaaaaaaaaaaaaaaaaaaaaaaaaaaaaaaaaaaaaaaaaaaaaaaaaaaaaaaaaaaaaa111".toList), ("aaaaaaaaaaaaaaaaaaaaaaaaaaaaaaaaaaaaaaaaaaaaaaaaaaaaaaaaaaaaaaaaaaaaaaaaaaaaaaaaaaaaaaaaaaaaaaaaaaaaaaaaaaaaaaaaaaaaaaaaaaaaaaaaaaaaaaaaaaaaaaaaaaaaaaaaaaaaaaaaaaaaaaaaaaaaaaaaaaaaaaaaaaaaaaaaaaaaaaaaaaaaaaaaaaaaaaaaaaaaaaaaaaaaaaaaaaaa112".toList), ("aaaaaaaaaaaaaaaaaaaaaaaaaaaaaaaaaaaaaaaaaaaaaaaaaaaaaaaaaaaaaaaaaaaaaaaaaaaaaaaaaaaaaaaaaaaaaaaaaaaaaaaaaaaaaaaaaaaaaaaaaaaaaaaaaaaaaaaaaaaaaaaaaaaaaaaaaaaaaaaaaaaaaaaaaaaaaaaaaaaaaaaaaaaaaaaaaaaaaaaaaaaaaaaaaaaaaaaaaaaaaaaaaaaaaaaaaaaa113".toList), ("aaaaaaaaaaaaaaaaaaaaaaaaaaaaaaaaaaaaaaaaaaaaaaaaaaaaaaaaaaaaaaaaaaaaaaaaaaaaaaaaaaaaaaaaaaaaaaaaaaaaaaaaaaaaaaaaaaaaaaaaaaaaaaaaaaaaaaaaaaaaaaaaaaaaaaaaaaaaaaaaaaaaaaaaaaaaaaaaaaaaaaaaaaaaaaaaaaaaaaaaaaaaaaaaaaaaaaaaaaaaaaaaaaaaaaaaaaaa114".toList), ("aaaaaaaaaaaaaaaaaaaaaaaaaaaaaaaaaaaaaaaaaaaaaaaaaaaaaaaaaaaaaaaaaaaaaaaaaaaaaaaaaaaaaaaaaaaaaaaaaaaaaaaaaaaaaaaaaaaaaaaaaaaaaaaaaaaaaaaaaaaaaaaaaaaaaaaaaaaaaaaaaaaaaaaaaaaaaaaaaaaaaaaaaaaaaaaaaaaaaaaaaaaaaaaaaaaaaaaaaaaaaaaaaaaaaaaaaaaa115".toList)],
    marks := [],
    frame_log := [(2, RetVal.pass), (2, RetVal.pass), (2, RetVal.pass), (2, RetVal.pass), (2, RetVal.pass), (2, RetVal.pass), (2, RetVal.pass), (2, RetVal.pass), (2, RetVal.pass), (2, RetVal.pass), (2, RetVal.pass), (2, RetVal.pass), (2, RetVal.pass), (2, RetVal.pass), (2, RetVal.pass), (2, RetVal.pass), (1, RetVal.pass), (0, RetVal.pass)],
    ilines := 0,
    tlines := 0,
    slines := 18,
    dropped := 233,
    oob := true }

def c4s42 : St :=
  { next_line_number := 18,
    tag_str := ("".toList),
    tag_ptr := 0,
    nest := 0,
    env_tag := [0, 5, 7, 0, 0, 0],
    env_timer := [0, 0, 0, 0, 0, 0],
    next_in := 0,
    buf_rev := ("".toList),
    is_pause := true,
    sent_rev := [c4sent0],
    clock := 0,
    mode := RMode.search,
    tag_found := 18,
    p_retval := 0,
    invoked := [],
    entered := [("ROOT".toList), ("B".toList), ("aaaaaaaaaaaaaaaaaaaaaaaaaaaaaaaaaaaaaaaaaaaaaaaaaaaaaaaaaaaaaaaaaaaaaaaaaaaaaaaaaaaaaaaaaaaaaaaaaaaaaaaaaaaaaaaaaaaaaaaaaaaaaaaaaaaaaaaaaaaaaaaaaaaaaaaaaaaaaaaaaaaaaaaaaaaaaaaaaaaaaaaaaaaaaaaaaaaaaaaaaaaaaaaaaaaaaaaaaaaaaaaaaaaaaaaaaaaa100".toList), ("aaaaaaaaaaaaaaaaaaaaaaaaaaaaaaaaaaaaaaaaaaaaaaaaaaaaaaaaaaaaaaaaaaaaaaaaaaaaaaaaaaaaaaaaaaaaaaaaaaaaaaaaaaaaaaaaaaaaaaaaaaaaaaaaaaaaaaaaaaaaaaaaaaaaaaaaaaaaaaaaaaaaaaaaaaaaaaaaaaaaaaaaaaaaaaaaaaaaaaaaaaaaaaaaaaaaaaaaaaaaaaaaaaaaaaaaaaaa101".toList), ("aaaaaaaaaaaaaaaaaaaaaaaaaaaaaaaaaaaaaaaaaaaaaaaaaaaaaaaaaaaaaaaaaaaaaaaaaaaaaaaaaaaaaaaaaaaaaaaaaaaaaaaaaaaaaaaaaaaaaaaaaaaaaaaaaaaaaaaaaaaaaaaaaaaaaaaaaaaaaaaaaaaaaaaaaaaaaaaaaaaaaaaaaaaaaaaaaaaaaaaaaaaaaaaaaaaaaaaaaaaaaaaaaaaaaaaaaaaa102".toList), ("aaaaaaaaaaaaaaaaaaaaaaaaaaaaaaaaaaaaaaaaaaaaaaaaaaaaaaaaaaaaaaaaaaaaaaaaaaaaaaaaaaaaaaaaaaaaaaaaaaaaaaaaaaaaaaaaaaaaaaaaaaaaaaaaaaaaaaaaaaaaaaaaaaaaaaaaaaaaaaaaaaaaaaaaaaaaaaaaaaaaaaaaaaaaaaaaaaaaaaaaaaaaaaaaaaaaaaaaaaaaaaaaaaaaaaaaaaaa103".toList), ("aaaaaaaaaaaaaaaaaaaaaaaaaaaaaaaaaaaaaaaaaaaaaaaaaaaaaaaaaaaaaaaaaaaaaaaaaaaaaaaaaaaaaaaaaaaaaaaaaaaaaaaaaaaaaaaaaaaaaaaaaaaaaaaaaaaaaaaaaaaaaaaaaaaaaaaaaaaaaaaaaaaaaaaaaaaaaaaaaaaaaaaaaaaaaaaaaaaaaaaaaaaaaaaaaaaaaaaaaaaaaaaaaaaaaaaaaaaa104".toList), ("aaaaaaaaaaaaaaaaaaaaaaaaaaaaaaaaaaaaaaaaaaaaaaaaaaaaaaaaaaaaaaaaaaaaaaaaaaaaaaaaaaaaaaaaaaaaaaaaaaaaaaaaaaaaaaaaaaaaaaaaaaaaaaaaaaaaaaaaaaaaaaaaaaaaaaaaaaaaaaaaaaaaaaaaaaaaaaaaaaaaaaaaaaaaaaaaaaaaaaaaaaaaaaaaaaaaaaaaaaaaaaaaaaaaaaaaaaaa105".toList), ("aaaaaaaaaaaaaaaaaaaaaaaaaaaaaaaaaaaaaaaaaaaaaaaaaaaaaaaaaaaaaaaaaaaaaaaaaaaaaaaaaaaaaaaaaaaaaaaaaaaaaaaaaaaaaaaaaaaaaaaaaaaaaaaaaaaaaaaaaaaaaaaaaaaaaaaaaaaaaaaaaaaaaaaaaaaaaaaaaaaaaaaaaaaaaaaaaaaaaaaaaaaaaaaaaaaaaaaaaaaaaaaaaaaaaaaaaaaa106".toList), ("aaaaaaaaaaaaaaaaaaaaaaaaaaaaaaaaaaaaaaaaaaaaaaaaaaaaaaaaaaaaaaaaaaaaaaaaaaaaaaaaaaaaaaaaaaaaaaaaaaaaaaaaaaaaaaaaaaaaaaaaaaaaaaaaaaaaaaaaaaaaaaaaaaaaaaaaaaaaaaaaaaaaaaaaaaaaaaaaaaaaaaaaaaaaaaaaaaaaaaaaaaaaaaaaaaaaaaaaaaaaaaaaaaaaaaaaaaaa107".toList), ("aaaaaaaaaaaaaaaaaaaaaaaaaaaaaaaaaaaaaaaaaaaaaaaaaaaaaaaaaaaaaaaaaaaaaaaaaaaaaaaaaaaaaaaaaaaaaaaaaaaaaaaaaaaaaaaaaaaaaaaaaaaaaaaaaaaaaaaaaaaaaaaaaaaaaaaaaaaaaaaaaaaaaaaaaaaaaaaaaaaaaaaaaaaaaaaaaaaaaaaaaaaaaaaaaaaaaaaaaaaaaaaaaaaaaaaaaaaa108".toList), ("aaaaaaaaaaaaaaaaaaaaaaaaaaaaaaaaaaaaaaaaaaaaaaaaaaaaaaaaaaaaaaaaaaaaaaaaaaaaaaaaaaaaaaaaaaaaaaaaaaaaaaaaaaaaaaaaaaaaaaaaaaaaaaaaaaaaaaaaaaaaaaaaaaaaaaaaaaaaaaaaaaaaaaaaaaaaaaaaaaaaaaaaaaaaaaaaaaaaaaaaaaaaaaaaaaaaaaaaaaaaaaaaaaaaaaaaaaaa109".toList), ("aaaaaaaaaaaaaaaaaaaaaaaaaaaaaaaaaaaaaaaaaaaaaaaaaaaaaaaaaaaaaaaaaaaaaaaaaaaaaaaaaaaaaaaaaaaaaaaaaaaaaaaaaaaaaaaaaaaaaaaaaaaaaaaaaaaaaaaaaaaaaaaaaaaaaaaaaaaaaaaaaaaaaaaaaaaaaaaaaaaaaaaaaaaaaaaaaaaaaaaaaaaaaaaaaaaaaaaaaaaaaaaaaaaaaaaaaaaa110".toList), ("aaaaaaaaaaaaaaaaaaaaaaaaaaaaaaaaaaaaaaaaaaaaaaaaaaaaaaaaaaaaaaaaaaaaaaaaaaaaaaaaaaaaaaaaaaaaaaaaaaaaaaaaaaaaaaaaaaaaaaaaaaaaaaaaaaaaaaaaaaaaaaaaaaaaaaaaaaaaaaaaaaaaaaaaaaaaaaaaaaaaaaaaaaaaaaaaaaaaaaaaaaaaaaaaaaaaaaaaaaaaaaaaaaaaaaaaaaaa111".toList), ("aaaaaaaaaaaaaaaaaaaaaaaaaaaaaaaaaaaaaaaaaaaaaaaaaaaaaaaaaaaaaaaaaaaaaaaaaaaaaaaaaaaaaaaaaaaaaaaaaaaaaaaaaaaaaaaaaaaaaaaaaaaaaaaaaaaaaaaaaaaaaaaaaaaaaaaaaaaaaaaaaaaaaaaaaaaaaaaaaaaaaaaaaaaaaaaaaaaaaaaaaaaaaaaaaaaaaaaaaaaaaaaaaaaaaaaaaaaa112".toList), ("aaaaaaaaaaaaaaaaaaaaaaaaaaaaaaaaaaaaaaaaaaaaaaaaaaaaaaaaaaaaaaaaaaaaaaaaaaaaaaaaaaaaaaaaaaaaaaaaaaaaaaaaaaaaaaaaaaaaaaaaaaaaaaaaaaaaaaaaaaaaaaaaaaaaaaaaaaaaaaaaaaaaaaaaaaaaaaaaaaaaaaaaaaaaaaaaaaaaaaaaaaaaaaaaaaaaaaaaaaaaaaaaaaaaaaaaaaaa113".toList), ("aaaaaaaaaaaaaaaaaaaaaaaaaaaaaaaaaaaaaaaaaaaaaaaaaaaaaaaaaaaaaaaaaaaaaaaaaaaaaaaaaaaaaaaaaaaaaaaaaaaaaaaaaaaaaaaaaaaaaaaaaaaaaaaaaaaaaaaaaaaaaaaaaaaaaaaaaaaaaaaaaaaaaaaaaaaaaaaaaaaaaaaaaaaaaaaaaaaaaaaaaaaaaaaaaaaaaaaaaaaaaaaaaaaaaaaaaaaa114".toList), ("aaaaaaaaaaaaaaaaaaaaaaaaaaaaaaaaaaaaaaaaaaaaaaaaaaaaaaaaaaaaaaaaaaaaaaaaaaaaaaaaaaaaaaaaaaaaaaaaaaaaaaaaaaaaaaaaaaaaaaaaaaaaaaaaaaaaaaaaaaaaaaaaaaaaaaaaaaaaaaaaaaaaaaaaaaaaaaaaaaaaaaaaaaaaaaaaaaaaaaaaaaaaaaaaaaaaaaaaaaaaaaaaaaaaaaaaaaaa115".toList)],
    marks := [],
    frame_log := [(2, RetVal.pass), (2, RetVal.pass), (2, RetVal.pass), (2, RetVal.pass), (2, RetVal.pass), (2, RetVal.pass), (2, RetVal.pass), (2, RetVal.pass), (2, RetVal.pass), (2, RetVal.pass), (2, RetVal.pass), (2, RetVal.pass), (2, RetVal.pass), (2, RetVal.pass), (2, RetVal.pass), (2, RetVal.pass), (1, RetVal.pass), (0, RetVal.pass)],
    ilines := 0,
    tlines := 0,
    slines := 18,
    dropped := 233,
    oob := true }

theorem c4run_eq : c4run = Out.ok RetVal.pass c4s42 := by
  have e0 : step RET_ROOT_TAG 32 (.enter (Node.leaf ("aaaaaaaaaaaaaaaaaaaaaaaaaaaaaaaaaaaaaaaaaaaaaaaaaaaaaaaaaaaaaaaaaaaaaaaaaaaaaaaaaaaaaaaaaaaaaaaaaaaaaaaaaaaaaaaaaaaaaaaaaaaaaaaaaaaaaaaaaaaaaaaaaaaaaaaaaaaaaaaaaaaaaaaaaaaaaaaaaaaaaaaaaaaaaaaaaaaaaaaaaaaaaaaaaaaaaaaaaaaaaaaaaaaaaaaaaaaa100".toList) [] RetVal.pass) c4s5) = Out.ok RetVal.pass c4s6 := rfl
  have e1 : step RET_ROOT_TAG 30 (.enter (Node.leaf ("aaaaaaaaaaaaaaaaaaaaaaaaaaaaaaaaaaaaaaaaaaaaaaaaaaaaaaaaaaaaaaaaaaaaaaaaaaaaaaaaaaaaaaaaaaaaaaaaaaaaaaaaaaaaaaaaaaaaaaaaaaaaaaaaaaaaaaaaaaaaaaaaaaaaaaaaaaaaaaaaaaaaaaaaaaaaaaaaaaaaaaaaaaaaaaaaaaaaaaaaaaaaaaaaaaaaaaaaaaaaaaaaaaaaaaaaaaaa101".toList) [] RetVal.pass) c4s7) = Out.ok RetVal.pass c4s8 := rfl
  have e2 : step RET_ROOT_TAG 28 (.enter (Node.leaf ("aaaaaaaaaaaaaaaaaaaaaaaaaaaaaaaaaaaaaaaaaaaaaaaaaaaaaaaaaaaaaaaaaaaaaaaaaaaaaaaaaaaaaaaaaaaaaaaaaaaaaaaaaaaaaaaaaaaaaaaaaaaaaaaaaaaaaaaaaaaaaaaaaaaaaaaaaaaaaaaaaaaaaaaaaaaaaaaaaaaaaaaaaaaaaaaaaaaaaaaaaaaaaaaaaaaaaaaaaaaaaaaaaaaaaaaaaaaa102".toList) [] RetVal.pass) c4s9) = Out.ok RetVal.pass c4s10 := rfl
  have e3 : step RET_ROOT_TAG 26 (.enter (Node.leaf ("aaaaaaaaaaaaaaaaaaaaaaaaaaaaaaaaaaaaaaaaaaaaaaaaaaaaaaaaaaaaaaaaaaaaaaaaaaaaaaaaaaaaaaaaaaaaaaaaaaaaaaaaaaaaaaaaaaaaaaaaaaaaaaaaaaaaaaaaaaaaaaaaaaaaaaaaaaaaaaaaaaaaaaaaaaaaaaaaaaaaaaaaaaaaaaaaaaaaaaaaaaaaaaaaaaaaaaaaaaaaaaaaaaaaaaaaaaaa103".toList) [] RetVal.pass) c4s11) = Out.ok RetVal.pass c4s12 := rfl
  have e4 : step RET_ROOT_TAG 24 (.enter (Node.leaf ("aaaaaaaaaaaaaaaaaaaaaaaaaaaaaaaaaaaaaaaaaaaaaaaaaaaaaaaaaaaaaaaaaaaaaaaaaaaaaaaaaaaaaaaaaaaaaaaaaaaaaaaaaaaaaaaaaaaaaaaaaaaaaaaaaaaaaaaaaaaaaaaaaaaaaaaaaaaaaaaaaaaaaaaaaaaaaaaaaaaaaaaaaaaaaaaaaaaaaaaaaaaaaaaaaaaaaaaaaaaaaaaaaaaaaaaaaaaa104".toList) [] RetVal.pass) c4s13) = Out.ok RetVal.pass c4s14 := rfl
  have e5 : step RET_ROOT_TAG 22 (.enter (Node.leaf ("aaaaaaaaaaaaaaaaaaaaaaaaaaaaaaaaaaaaaaaaaaaaaaaaaaaaaaaaaaaaaaaaaaaaaaaaaaaaaaaaaaaaaaaaaaaaaaaaaaaaaaaaaaaaaaaaaaaaaaaaaaaaaaaaaaaaaaaaaaaaaaaaaaaaaaaaaaaaaaaaaaaaaaaaaaaaaaaaaaaaaaaaaaaaaaaaaaaaaaaaaaaaaaaaaaaaaaaaaaaaaaaaaaaaaaaaaaaa105".toList) [] RetVal.pass) c4s15) = Out.ok RetVal.pass c4s16 := rfl
  have e6 : step RET_ROOT_TAG 20 (.enter (Node.leaf ("aaaaaaaaaaaaaaaaaaaaaaaaaaaaaaaaaaaaaaaaaaaaaaaaaaaaaaaaaaaaaaaaaaaaaaaaaaaaaaaaaaaaaaaaaaaaaaaaaaaaaaaaaaaaaaaaaaaaaaaaaaaaaaaaaaaaaaaaaaaaaaaaaaaaaaaaaaaaaaaaaaaaaaaaaaaaaaaaaaaaaaaaaaaaaaaaaaaaaaaaaaaaaaaaaaaaaaaaaaaaaaaaaaaaaaaaaaaa106".toList) [] RetVal.pass) c4s17) = Out.ok RetVal.pass c4s18 := rfl
  have e7 : step RET_ROOT_TAG 18 (.enter (Node.leaf ("aaaaaaaaaaaaaaaaaaaaaaaaaaaaaaaaaaaaaaaaaaaaaaaaaaaaaaaaaaaaaaaaaaaaaaaaaaaaaaaaaaaaaaaaaaaaaaaaaaaaaaaaaaaaaaaaaaaaaaaaaaaaaaaaaaaaaaaaaaaaaaaaaaaaaaaaaaaaaaaaaaaaaaaaaaaaaaaaaaaaaaaaaaaaaaaaaaaaaaaaaaaaaaaaaaaaaaaaaaaaaaaaaaaaaaaaaaaa107".toList) [] RetVal.pass) c4s19) = Out.ok RetVal.pass c4s20 := rfl
  have e8 : step RET_ROOT_TAG 16 (.enter (Node.leaf ("aaaaaaaaaaaaaaaaaaaaaaaaaaaaaaaaaaaaaaaaaaaaaaaaaaaaaaaaaaaaaaaaaaaaaaaaaaaaaaaaaaaaaaaaaaaaaaaaaaaaaaaaaaaaaaaaaaaaaaaaaaaaaaaaaaaaaaaaaaaaaaaaaaaaaaaaaaaaaaaaaaaaaaaaaaaaaaaaaaaaaaaaaaaaaaaaaaaaaaaaaaaaaaaaaaaaaaaaaaaaaaaaaaaaaaaaaaaa108".toList) [] RetVal.pass) c4s21) = Out.ok RetVal.pass c4s22 := rfl
  have e9 : step RET_ROOT_TAG 14 (.enter (Node.leaf ("aaaaaaaaaaaaaaaaaaaaaaaaaaaaaaaaaaaaaaaaaaaaaaaaaaaaaaaaaaaaaaaaaaaaaaaaaaaaaaaaaaaaaaaaaaaaaaaaaaaaaaaaaaaaaaaaaaaaaaaaaaaaaaaaaaaaaaaaaaaaaaaaaaaaaaaaaaaaaaaaaaaaaaaaaaaaaaaaaaaaaaaaaaaaaaaaaaaaaaaaaaaaaaaaaaaaaaaaaaaaaaaaaaaaaaaaaaaa109".toList) [] RetVal.pass) c4s23) = Out.ok RetVal.pass c4s24 := rfl
  have e10 : step RET_ROOT_TAG 12 (.enter (Node.leaf ("aaaaaaaaaaaaaaaaaaaaaaaaaaaaaaaaaaaaaaaaaaaaaaaaaaaaaaaaaaaaaaaaaaaaaaaaaaaaaaaaaaaaaaaaaaaaaaaaaaaaaaaaaaaaaaaaaaaaaaaaaaaaaaaaaaaaaaaaaaaaaaaaaaaaaaaaaaaaaaaaaaaaaaaaaaaaaaaaaaaaaaaaaaaaaaaaaaaaaaaaaaaaaaaaaaaaaaaaaaaaaaaaaaaaaaaaaaaa110".toList) [] RetVal.pass) c4s25) = Out.ok RetVal.pass c4s26 := rfl
  have e11 : step RET_ROOT_TAG 10 (.enter (Node.leaf ("aaaaaaaaaaaaaaaaaaaaaaaaaaaaaaaaaaaaaaaaaaaaaaaaaaaaaaaaaaaaaaaaaaaaaaaaaaaaaaaaaaaaaaaaaaaaaaaaaaaaaaaaaaaaaaaaaaaaaaaaaaaaaaaaaaaaaaaaaaaaaaaaaaaaaaaaaaaaaaaaaaaaaaaaaaaaaaaaaaaaaaaaaaaaaaaaaaaaaaaaaaaaaaaaaaaaaaaaaaaaaaaaaaaaaaaaaaaa111".toList) [] RetVal.pass) c4s27) = Out.ok RetVal.pass c4s28 := rfl
  have e12 : step RET_ROOT_TAG 8 (.enter (Node.leaf ("aaaaaaaaaaaaaaaaaaaaaaaaaaaaaaaaaaaaaaaaaaaaaaaaaaaaaaaaaaaaaaaaaaaaaaaaaaaaaaaaaaaaaaaaaaaaaaaaaaaaaaaaaaaaaaaaaaaaaaaaaaaaaaaaaaaaaaaaaaaaaaaaaaaaaaaaaaaaaaaaaaaaaaaaaaaaaaaaaaaaaaaaaaaaaaaaaaaaaaaaaaaaaaaaaaaaaaaaaaaaaaaaaaaaaaaaaaaa112".toList) [] RetVal.pass) c4s29) = Out.ok RetVal.pass c4s30 := rfl
  have e13 : step RET_ROOT_TAG 6 (.enter (Node.leaf ("aaaaaaaaaaaaaaaaaaaaaaaaaaaaaaaaaaaaaaaaaaaaaaaaaaaaaaaaaaaaaaaaaaaaaaaaaaaaaaaaaaaaaaaaaaaaaaaaaaaaaaaaaaaaaaaaaaaaaaaaaaaaaaaaaaaaaaaaaaaaaaaaaaaaaaaaaaaaaaaaaaaaaaaaaaaaaaaaaaaaaaaaaaaaaaaaaaaaaaaaaaaaaaaaaaaaaaaaaaaaaaaaaaaaaaaaaaaa113".toList) [] RetVal.pass) c4s31) = Out.ok RetVal.pass c4s32 := rfl
  have e14 : step RET_ROOT_TAG 4 (.enter (Node.leaf ("aaaaaaaaaaaaaaaaaaaaaaaaaaaaaaaaaaaaaaaaaaaaaaaaaaaaaaaaaaaaaaaaaaaaaaaaaaaaaaaaaaaaaaaaaaaaaaaaaaaaaaaaaaaaaaaaaaaaaaaaaaaaaaaaaaaaaaaaaaaaaaaaaaaaaaaaaaaaaaaaaaaaaaaaaaaaaaaaaaaaaaaaaaaaaaaaaaaaaaaaaaaaaaaaaaaaaaaaaaaaaaaaaaaaaaaaaaaa114".toList) [] RetVal.pass) c4s33) = Out.ok RetVal.pass c4s34 := rfl
  have e15 : step RET_ROOT_TAG 2 (.enter (Node.leaf ("aaaaaaaaaaaaaaaaaaaaaaaaaaaaaaaaaaaaaaaaaaaaaaaaaaaaaaaaaaaaaaaaaaaaaaaaaaaaaaaaaaaaaaaaaaaaaaaaaaaaaaaaaaaaaaaaaaaaaaaaaaaaaaaaaaaaaaaaaaaaaaaaaaaaaaaaaaaaaaaaaaaaaaaaaaaaaaaaaaaaaaaaaaaaaaaaaaaaaaaaaaaaaaaaaaaaaaaaaaaaaaaaaaaaaaaaaaaa115".toList) [] RetVal.pass) c4s35) = Out.ok RetVal.pass c4s36 := rfl
  have e16 : step RET_ROOT_TAG 1 (.loop 2 [] RetVal.pass c4s37) = Out.ok RetVal.pass c4s37 :=
    loop_nil RET_ROOT_TAG 0 2 RetVal.pass c4s37
  have e17 : step RET_ROOT_TAG 2 (.handle 2 [] RetVal.pass RetVal.pass c4s36) = Out.ok RetVal.pass c4s37 :=
    (handle_step_exit_ok RET_ROOT_TAG 1 2 [] RetVal.pass RetVal.pass c4s36 c4s37 (rfl)).trans e16
  have e18 : step RET_ROOT_TAG 3 (.loop 2 [Node.leaf ("aaaaaaaaaaaaaaaaaaaaaaaaaaaaaaaaaaaaaaaaaaaaaaaaaaaaaaaaaaaaaaaaaaaaaaaaaaaaaaaaaaaaaaaaaaaaaaaaaaaaaaaaaaaaaaaaaaaaaaaaaaaaaaaaaaaaaaaaaaaaaaaaaaaaaaaaaaaaaaaaaaaaaaaaaaaaaaaaaaaaaaaaaaaaaaaaaaaaaaaaaaaaaaaaaaaaaaaaaaaaaaaaaaaaaaaaaaaa115".toList) [] RetVal.pass] RetVal.pass c4s35) = Out.ok RetVal.pass c4s37 :=
    (loop_step_ok RET_ROOT_TAG 2 2 (Node.leaf ("aaaaaaaaaaaaaaaaaaaaaaaaaaaaaaaaaaaaaaaaaaaaaaaaaaaaaaaaaaaaaaaaaaaaaaaaaaaaaaaaaaaaaaaaaaaaaaaaaaaaaaaaaaaaaaaaaaaaaaaaaaaaaaaaaaaaaaaaaaaaaaaaaaaaaaaaaaaaaaaaaaaaaaaaaaaaaaaaaaaaaaaaaaaaaaaaaaaaaaaaaaaaaaaaaaaaaaaaaaaaaaaaaaaaaaaaaaaa115".toList) [] RetVal.pass) [] RetVal.pass RetVal.pass c4s35 c4s36 e15).trans e17
  have e19 : step RET_ROOT_TAG 4 (.handle 2 [Node.leaf ("aaaaaaaaaaaaaaaaaaaaaaaaaaaaaaaaaaaaaaaaaaaaaaaaaaaaaaaaaaaaaaaaaaaaaaaaaaaaaaaaaaaaaaaaaaaaaaaaaaaaaaaaaaaaaaaaaaaaaaaaaaaaaaaaaaaaaaaaaaaaaaaaaaaaaaaaaaaaaaaaaaaaaaaaaaaaaaaaaaaaaaaaaaaaaaaaaaaaaaaaaaaaaaaaaaaaaaaaaaaaaaaaaaaaaaaaaaaa115".toList) [] RetVal.pass] RetVal.pass RetVal.pass c4s34) = Out.ok RetVal.pass c4s37 :=
    (handle_step_exit_ok RET_ROOT_TAG 3 2 [Node.leaf ("aaaaaaaaaaaaaaaaaaaaaaaaaaaaaaaaaaaaaaaaaaaaaaaaaaaaaaaaaaaaaaaaaaaaaaaaaaaaaaaaaaaaaaaaaaaaaaaaaaaaaaaaaaaaaaaaaaaaaaaaaaaaaaaaaaaaaaaaaaaaaaaaaaaaaaaaaaaaaaaaaaaaaaaaaaaaaaaaaaaaaaaaaaaaaaaaaaaaaaaaaaaaaaaaaaaaaaaaaaaaaaaaaaaaaaaaaaaa115".toList) [] RetVal.pass] RetVal.pass RetVal.pass c4s34 c4s35 (rfl)).trans e18
  have e20 : step RET_ROOT_TAG 5 (.loop 2 [Node.leaf ("aaaaaaaaaaaaaaaaaaaaaaaaaaaaaaaaaaaaaaaaaaaaaaaaaaaaaaaaaaaaaaaaaaaaaaaaaaaaaaaaaaaaaaaaaaaaaaaaaaaaaaaaaaaaaaaaaaaaaaaaaaaaaaaaaaaaaaaaaaaaaaaaaaaaaaaaaaaaaaaaaaaaaaaaaaaaaaaaaaaaaaaaaaaaaaaaaaaaaaaaaaaaaaaaaaaaaaaaaaaaaaaaaaaaaaaaaaaa114".toList) [] RetVal.pass, Node.leaf ("aaaaaaaaaaaaaaaaaaaaaaaaaaaaaaaaaaaaaaaaaaaaaaaaaaaaaaaaaaaaaaaaaaaaaaaaaaaaaaaaaaaaaaaaaaaaaaaaaaaaaaaaaaaaaaaaaaaaaaaaaaaaaaaaaaaaaaaaaaaaaaaaaaaaaaaaaaaaaaaaaaaaaaaaaaaaaaaaaaaaaaaaaaaaaaaaaaaaaaaaaaaaaaaaaaaaaaaaaaaaaaaaaaaaaaaaaaaa115".toList) [] RetVal.pass] RetVal.pass c4s33) = Out.ok RetVal.pass c4s37 :=
    (loop_step_ok RET_ROOT_TAG 4 2 (Node.leaf ("aaaaaaaaaaaaaaaaaaaaaaaaaaaaaaaaaaaaaaaaaaaaaaaaaaaaaaaaaaaaaaaaaaaaaaaaaaaaaaaaaaaaaaaaaaaaaaaaaaaaaaaaaaaaaaaaaaaaaaaaaaaaaaaaaaaaaaaaaaaaaaaaaaaaaaaaaaaaaaaaaaaaaaaaaaaaaaaaaaaaaaaaaaaaaaaaaaaaaaaaaaaaaaaaaaaaaaaaaaaaaaaaaaaaaaaaaaaa114".toList) [] RetVal.pass) [Node.leaf ("aaaaaaaaaaaaaaaaaaaaaaaaaaaaaaaaaaaaaaaaaaaaaaaaaaaaaaaaaaaaaaaaaaaaaaaaaaaaaaaaaaaaaaaaaaaaaaaaaaaaaaaaaaaaaaaaaaaaaaaaaaaaaaaaaaaaaaaaaaaaaaaaaaaaaaaaaaaaaaaaaaaaaaaaaaaaaaaaaaaaaaaaaaaaaaaaaaaaaaaaaaaaaaaaaaaaaaaaaaaaaaaaaaaaaaaaaaaa115".toList) [] RetVal.pass] RetVal.pass RetVal.pass c4s33 c4s34 e14).trans e19
  have e21 : step RET_ROOT_TAG 6 (.handle 2 [Node.leaf ("aaaaaaaaaaaaaaaaaaaaaaaaaaaaaaaaaaaaaaaaaaaaaaaaaaaaaaaaaaaaaaaaaaaaaaaaaaaaaaaaaaaaaaaaaaaaaaaaaaaaaaaaaaaaaaaaaaaaaaaaaaaaaaaaaaaaaaaaaaaaaaaaaaaaaaaaaaaaaaaaaaaaaaaaaaaaaaaaaaaaaaaaaaaaaaaaaaaaaaaaaaaaaaaaaaaaaaaaaaaaaaaaaaaaaaaaaaaa114".toList) [] RetVal.pass, Node.leaf ("aaaaaaaaaaaaaaaaaaaaaaaaaaaaaaaaaaaaaaaaaaaaaaaaaaaaaaaaaaaaaaaaaaaaaaaaaaaaaaaaaaaaaaaaaaaaaaaaaaaaaaaaaaaaaaaaaaaaaaaaaaaaaaaaaaaaaaaaaaaaaaaaaaaaaaaaaaaaaaaaaaaaaaaaaaaaaaaaaaaaaaaaaaaaaaaaaaaaaaaaaaaaaaaaaaaaaaaaaaaaaaaaaaaaaaaaaaaa115".toList) [] RetVal.pass] RetVal.pass RetVal.pass c4s32) = Out.ok RetVal.pass c4s37 :=
    (handle_step_exit_ok RET_ROOT_TAG 5 2 [Node.leaf ("aaaaaaaaaaaaaaaaaaaaaaaaaaaaaaaaaaaaaaaaaaaaaaaaaaaaaaaaaaaaaaaaaaaaaaaaaaaaaaaaaaaaaaaaaaaaaaaaaaaaaaaaaaaaaaaaaaaaaaaaaaaaaaaaaaaaaaaaaaaaaaaaaaaaaaaaaaaaaaaaaaaaaaaaaaaaaaaaaaaaaaaaaaaaaaaaaaaaaaaaaaaaaaaaaaaaaaaaaaaaaaaaaaaaaaaaaaaa114".toList) [] RetVal.pass, Node.leaf ("aaaaaaaaaaaaaaaaaaaaaaaaaaaaaaaaaaaaaaaaaaaaaaaaaaaaaaaaaaaaaaaaaaaaaaaaaaaaaaaaaaaaaaaaaaaaaaaaaaaaaaaaaaaaaaaaaaaaaaaaaaaaaaaaaaaaaaaaaaaaaaaaaaaaaaaaaaaaaaaaaaaaaaaaaaaaaaaaaaaaaaaaaaaaaaaaaaaaaaaaaaaaaaaaaaaaaaaaaaaaaaaaaaaaaaaaaaaa115".toList) [] RetVal.pass] RetVal.pass RetVal.pass c4s32 c4s33 (rfl)).trans e20
  have e22 : step RET_ROOT_TAG 7 (.loop 2 [Node.leaf ("aaaaaaaaaaaaaaaaaaaaaaaaaaaaaaaaaaaaaaaaaaaaaaaaaaaaaaaaaaaaaaaaaaaaaaaaaaaaaaaaaaaaaaaaaaaaaaaaaaaaaaaaaaaaaaaaaaaaaaaaaaaaaaaaaaaaaaaaaaaaaaaaaaaaaaaaaaaaaaaaaaaaaaaaaaaaaaaaaaaaaaaaaaaaaaaaaaaaaaaaaaaaaaaaaaaaaaaaaaaaaaaaaaaaaaaaaaaa113".toList) [] RetVal.pass, Node.leaf ("aaaaaaaaaaaaaaaaaaaaaaaaaaaaaaaaaaaaaaaaaaaaaaaaaaaaaaaaaaaaaaaaaaaaaaaaaaaaaaaaaaaaaaaaaaaaaaaaaaaaaaaaaaaaaaaaaaaaaaaaaaaaaaaaaaaaaaaaaaaaaaaaaaaaaaaaaaaaaaaaaaaaaaaaaaaaaaaaaaaaaaaaaaaaaaaaaaaaaaaaaaaaaaaaaaaaaaaaaaaaaaaaaaaaaaaaaaaa114".toList) [] RetVal.pass, Node.leaf ("aaaaaaaaaaaaaaaaaaaaaaaaaaaaaaaaaaaaaaaaaaaaaaaaaaaaaaaaaaaaaaaaaaaaaaaaaaaaaaaaaaaaaaaaaaaaaaaaaaaaaaaaaaaaaaaaaaaaaaaaaaaaaaaaaaaaaaaaaaaaaaaaaaaaaaaaaaaaaaaaaaaaaaaaaaaaaaaaaaaaaaaaaaaaaaaaaaaaaaaaaaaaaaaaaaaaaaaaaaaaaaaaaaaaaaaaaaaa115".toList) [] RetVal.pass] RetVal.pass c4s31) = Out.ok RetVal.pass c4s37 :=
    (loop_step_ok RET_ROOT_TAG 6 2 (Node.leaf ("aaaaaaaaaaaaaaaaaaaaaaaaaaaaaaaaaaaaaaaaaaaaaaaaaaaaaaaaaaaaaaaaaaaaaaaaaaaaaaaaaaaaaaaaaaaaaaaaaaaaaaaaaaaaaaaaaaaaaaaaaaaaaaaaaaaaaaaaaaaaaaaaaaaaaaaaaaaaaaaaaaaaaaaaaaaaaaaaaaaaaaaaaaaaaaaaaaaaaaaaaaaaaaaaaaaaaaaaaaaaaaaaaaaaaaaaaaaa113".toList) [] RetVal.pass) [Node.leaf ("aaaaaaaaaaaaaaaaaaaaaaaaaaaaaaaaaaaaaaaaaaaaaaaaaaaaaaaaaaaaaaaaaaaaaaaaaaaaaaaaaaaaaaaaaaaaaaaaaaaaaaaaaaaaaaaaaaaaaaaaaaaaaaaaaaaaaaaaaaaaaaaaaaaaaaaaaaaaaaaaaaaaaaaaaaaaaaaaaaaaaaaaaaaaaaaaaaaaaaaaaaaaaaaaaaaaaaaaaaaaaaaaaaaaaaaaaaaa114".toList) [] RetVal.pass, Node.leaf ("aaaaaaaaaaaaaaaaaaaaaaaaaaaaaaaaaaaaaaaaaaaaaaaaaaaaaaaaaaaaaaaaaaaaaaaaaaaaaaaaaaaaaaaaaaaaaaaaaaaaaaaaaaaaaaaaaaaaaaaaaaaaaaaaaaaaaaaaaaaaaaaaaaaaaaaaaaaaaaaaaaaaaaaaaaaaaaaaaaaaaaaaaaaaaaaaaaaaaaaaaaaaaaaaaaaaaaaaaaaaaaaaaaaaaaaaaaaa115".toList) [] RetVal.pass] RetVal.pass RetVal.pass c4s31 c4s32 e13).trans e21
  have e23 : step RET_ROOT_TAG 8 (.handle 2 [Node.leaf ("aaaaaaaaaaaaaaaaaaaaaaaaaaaaaaaaaaaaaaaaaaaaaaaaaaaaaaaaaaaaaaaaaaaaaaaaaaaaaaaaaaaaaaaaaaaaaaaaaaaaaaaaaaaaaaaaaaaaaaaaaaaaaaaaaaaaaaaaaaaaaaaaaaaaaaaaaaaaaaaaaaaaaaaaaaaaaaaaaaaaaaaaaaaaaaaaaaaaaaaaaaaaaaaaaaaaaaaaaaaaaaaaaaaaaaaaaaaa113".toList) [] RetVal.pass, Node.leaf ("aaaaaaaaaaaaaaaaaaaaaaaaaaaaaaaaaaaaaaaaaaaaaaaaaaaaaaaaaaaaaaaaaaaaaaaaaaaaaaaaaaaaaaaaaaaaaaaaaaaaaaaaaaaaaaaaaaaaaaaaaaaaaaaaaaaaaaaaaaaaaaaaaaaaaaaaaaaaaaaaaaaaaaaaaaaaaaaaaaaaaaaaaaaaaaaaaaaaaaaaaaaaaaaaaaaaaaaaaaaaaaaaaaaaaaaaaaaa114".toList) [] RetVal.pass, Node.leaf ("aaaaaaaaaaaaaaaaaaaaaaaaaaaaaaaaaaaaaaaaaaaaaaaaaaaaaaaaaaaaaaaaaaaaaaaaaaaaaaaaaaaaaaaaaaaaaaaaaaaaaaaaaaaaaaaaaaaaaaaaaaaaaaaaaaaaaaaaaaaaaaaaaaaaaaaaaaaaaaaaaaaaaaaaaaaaaaaaaaaaaaaaaaaaaaaaaaaaaaaaaaaaaaaaaaaaaaaaaaaaaaaaaaaaaaaaaaaa115".toList) [] RetVal.pass] RetVal.pass RetVal.pass c4s30) = Out.ok RetVal.pass c4s37 :=
    (handle_step_exit_ok RET_ROOT_TAG 7 2 [Node.leaf ("aaaaaaaaaaaaaaaaaaaaaaaaaaaaaaaaaaaaaaaaaaaaaaaaaaaaaaaaaaaaaaaaaaaaaaaaaaaaaaaaaaaaaaaaaaaaaaaaaaaaaaaaaaaaaaaaaaaaaaaaaaaaaaaaaaaaaaaaaaaaaaaaaaaaaaaaaaaaaaaaaaaaaaaaaaaaaaaaaaaaaaaaaaaaaaaaaaaaaaaaaaaaaaaaaaaaaaaaaaaaaaaaaaaaaaaaaaaa113".toList) [] RetVal.pass, Node.leaf ("aaaaaaaaaaaaaaaaaaaaaaaaaaaaaaaaaaaaaaaaaaaaaaaaaaaaaaaaaaaaaaaaaaaaaaaaaaaaaaaaaaaaaaaaaaaaaaaaaaaaaaaaaaaaaaaaaaaaaaaaaaaaaaaaaaaaaaaaaaaaaaaaaaaaaaaaaaaaaaaaaaaaaaaaaaaaaaaaaaaaaaaaaaaaaaaaaaaaaaaaaaaaaaaaaaaaaaaaaaaaaaaaaaaaaaaaaaaa114".toList) [] RetVal.pass, Node.leaf ("aaaaaaaaaaaaaaaaaaaaaaaaaaaaaaaaaaaaaaaaaaaaaaaaaaaaaaaaaaaaaaaaaaaaaaaaaaaaaaaaaaaaaaaaaaaaaaaaaaaaaaaaaaaaaaaaaaaaaaaaaaaaaaaaaaaaaaaaaaaaaaaaaaaaaaaaaaaaaaaaaaaaaaaaaaaaaaaaaaaaaaaaaaaaaaaaaaaaaaaaaaaaaaaaaaaaaaaaaaaaaaaaaaaaaaaaaaaa115".toList) [] RetVal.pass] RetVal.pass RetVal.pass c4s30 c4s31 (rfl)).trans e22
  have e24 : step RET_ROOT_TAG 9 (.loop 2 [Node.leaf ("aaaaaaaaaaaaaaaaaaaaaaaaaaaaaaaaaaaaaaaaaaaaaaaaaaaaaaaaaaaaaaaaaaaaaaaaaaaaaaaaaaaaaaaaaaaaaaaaaaaaaaaaaaaaaaaaaaaaaaaaaaaaaaaaaaaaaaaaaaaaaaaaaaaaaaaaaaaaaaaaaaaaaaaaaaaaaaaaaaaaaaaaaaaaaaaaaaaaaaaaaaaaaaaaaaaaaaaaaaaaaaaaaaaaaaaaaaaa112".toList) [] RetVal.pass, Node.leaf ("aaaaaaaaaaaaaaaaaaaaaaaaaaaaaaaaaaaaaaaaaaaaaaaaaaaaaaaaaaaaaaaaaaaaaaaaaaaaaaaaaaaaaaaaaaaaaaaaaaaaaaaaaaaaaaaaaaaaaaaaaaaaaaaaaaaaaaaaaaaaaaaaaaaaaaaaaaaaaaaaaaaaaaaaaaaaaaaaaaaaaaaaaaaaaaaaaaaaaaaaaaaaaaaaaaaaaaaaaaaaaaaaaaaaaaaaaaaa113".toList) [] RetVal.pass, Node.leaf ("aaaaaaaaaaaaaaaaaaaaaaaaaaaaaaaaaaaaaaaaaaaaaaaaaaaaaaaaaaaaaaaaaaaaaaaaaaaaaaaaaaaaaaaaaaaaaaaaaaaaaaaaaaaaaaaaaaaaaaaaaaaaaaaaaaaaaaaaaaaaaaaaaaaaaaaaaaaaaaaaaaaaaaaaaaaaaaaaaaaaaaaaaaaaaaaaaaaaaaaaaaaaaaaaaaaaaaaaaaaaaaaaaaaaaaaaaaaa114".toList) [] RetVal.pass, Node.leaf ("aaaaaaaaaaaaaaaaaaaaaaaaaaaaaaaaaaaaaaaaaaaaaaaaaaaaaaaaaaaaaaaaaaaaaaaaaaaaaaaaaaaaaaaaaaaaaaaaaaaaaaaaaaaaaaaaaaaaaaaaaaaaaaaaaaaaaaaaaaaaaaaaaaaaaaaaaaaaaaaaaaaaaaaaaaaaaaaaaaaaaaaaaaaaaaaaaaaaaaaaaaaaaaaaaaaaaaaaaaaaaaaaaaaaaaaaaaaa115".toList) [] RetVal.pass] RetVal.pass c4s29) = Out.ok RetVal.pass c4s37 :=
    (loop_step_ok RET_ROOT_TAG 8 2 (Node.leaf ("aaaaaaaaaaaaaaaaaaaaaaaaaaaaaaaaaaaaaaaaaaaaaaaaaaaaaaaaaaaaaaaaaaaaaaaaaaaaaaaaaaaaaaaaaaaaaaaaaaaaaaaaaaaaaaaaaaaaaaaaaaaaaaaaaaaaaaaaaaaaaaaaaaaaaaaaaaaaaaaaaaaaaaaaaaaaaaaaaaaaaaaaaaaaaaaaaaaaaaaaaaaaaaaaaaaaaaaaaaaaaaaaaaaaaaaaaaaa112".toList) [] RetVal.pass) [Node.leaf ("aaaaaaaaaaaaaaaaaaaaaaaaaaaaaaaaaaaaaaaaaaaaaaaaaaaaaaaaaaaaaaaaaaaaaaaaaaaaaaaaaaaaaaaaaaaaaaaaaaaaaaaaaaaaaaaaaaaaaaaaaaaaaaaaaaaaaaaaaaaaaaaaaaaaaaaaaaaaaaaaaaaaaaaaaaaaaaaaaaaaaaaaaaaaaaaaaaaaaaaaaaaaaaaaaaaaaaaaaaaaaaaaaaaaaaaaaaaa113".toList) [] RetVal.pass, Node.leaf ("aaaaaaaaaaaaaaaaaaaaaaaaaaaaaaaaaaaaaaaaaaaaaaaaaaaaaaaaaaaaaaaaaaaaaaaaaaaaaaaaaaaaaaaaaaaaaaaaaaaaaaaaaaaaaaaaaaaaaaaaaaaaaaaaaaaaaaaaaaaaaaaaaaaaaaaaaaaaaaaaaaaaaaaaaaaaaaaaaaaaaaaaaaaaaaaaaaaaaaaaaaaaaaaaaaaaaaaaaaaaaaaaaaaaaaaaaaaa114".toList) [] RetVal.pass, Node.leaf ("aaaaaaaaaaaaaaaaaaaaaaaaaaaaaaaaaaaaaaaaaaaaaaaaaaaaaaaaaaaaaaaaaaaaaaaaaaaaaaaaaaaaaaaaaaaaaaaaaaaaaaaaaaaaaaaaaaaaaaaaaaaaaaaaaaaaaaaaaaaaaaaaaaaaaaaaaaaaaaaaaaaaaaaaaaaaaaaaaaaaaaaaaaaaaaaaaaaaaaaaaaaaaaaaaaaaaaaaaaaaaaaaaaaaaaaaaaaa115".toList) [] RetVal.pass] RetVal.pass RetVal.pass c4s29 c4s30 e12).trans e23
  have e25 : step RET_ROOT_TAG 10 (.handle 2 [Node.leaf ("aaaaaaaaaaaaaaaaaaaaaaaaaaaaaaaaaaaaaaaaaaaaaaaaaaaaaaaaaaaaaaaaaaaaaaaaaaaaaaaaaaaaaaaaaaaaaaaaaaaaaaaaaaaaaaaaaaaaaaaaaaaaaaaaaaaaaaaaaaaaaaaaaaaaaaaaaaaaaaaaaaaaaaaaaaaaaaaaaaaaaaaaaaaaaaaaaaaaaaaaaaaaaaaaaaaaaaaaaaaaaaaaaaaaaaaaaaaa112".toList) [] RetVal.pass, Node.leaf ("aaaaaaaaaaaaaaaaaaaaaaaaaaaaaaaaaaaaaaaaaaaaaaaaaaaaaaaaaaaaaaaaaaaaaaaaaaaaaaaaaaaaaaaaaaaaaaaaaaaaaaaaaaaaaaaaaaaaaaaaaaaaaaaaaaaaaaaaaaaaaaaaaaaaaaaaaaaaaaaaaaaaaaaaaaaaaaaaaaaaaaaaaaaaaaaaaaaaaaaaaaaaaaaaaaaaaaaaaaaaaaaaaaaaaaaaaaaa113".toList) [] RetVal.pass, Node.leaf ("aaaaaaaaaaaaaaaaaaaaaaaaaaaaaaaaaaaaaaaaaaaaaaaaaaaaaaaaaaaaaaaaaaaaaaaaaaaaaaaaaaaaaaaaaaaaaaaaaaaaaaaaaaaaaaaaaaaaaaaaaaaaaaaaaaaaaaaaaaaaaaaaaaaaaaaaaaaaaaaaaaaaaaaaaaaaaaaaaaaaaaaaaaaaaaaaaaaaaaaaaaaaaaaaaaaaaaaaaaaaaaaaaaaaaaaaaaaa114".toList) [] RetVal.pass, Node.leaf ("aaaaaaaaaaaaaaaaaaaaaaaaaaaaaaaaaaaaaaaaaaaaaaaaaaaaaaaaaaaaaaaaaaaaaaaaaaaaaaaaaaaaaaaaaaaaaaaaaaaaaaaaaaaaaaaaaaaaaaaaaaaaaaaaaaaaaaaaaaaaaaaaaaaaaaaaaaaaaaaaaaaaaaaaaaaaaaaaaaaaaaaaaaaaaaaaaaaaaaaaaaaaaaaaaaaaaaaaaaaaaaaaaaaaaaaaaaaa115".toList) [] RetVal.pass] RetVal.pass RetVal.pass c4s28) = Out.ok RetVal.pass c4s37 :=
    (handle_step_exit_ok RET_ROOT_TAG 9 2 [Node.leaf ("aaaaaaaaaaaaaaaaaaaaaaaaaaaaaaaaaaaaaaaaaaaaaaaaaaaaaaaaaaaaaaaaaaaaaaaaaaaaaaaaaaaaaaaaaaaaaaaaaaaaaaaaaaaaaaaaaaaaaaaaaaaaaaaaaaaaaaaaaaaaaaaaaaaaaaaaaaaaaaaaaaaaaaaaaaaaaaaaaaaaaaaaaaaaaaaaaaaaaaaaaaaaaaaaaaaaaaaaaaaaaaaaaaaaaaaaaaaa112".toList) [] RetVal.pass, Node.leaf ("aaaaaaaaaaaaaaaaaaaaaaaaaaaaaaaaaaaaaaaaaaaaaaaaaaaaaaaaaaaaaaaaaaaaaaaaaaaaaaaaaaaaaaaaaaaaaaaaaaaaaaaaaaaaaaaaaaaaaaaaaaaaaaaaaaaaaaaaaaaaaaaaaaaaaaaaaaaaaaaaaaaaaaaaaaaaaaaaaaaaaaaaaaaaaaaaaaaaaaaaaaaaaaaaaaaaaaaaaaaaaaaaaaaaaaaaaaaa113".toList) [] RetVal.pass, Node.leaf ("aaaaaaaaaaaaaaaaaaaaaaaaaaaaaaaaaaaaaaaaaaaaaaaaaaaaaaaaaaaaaaaaaaaaaaaaaaaaaaaaaaaaaaaaaaaaaaaaaaaaaaaaaaaaaaaaaaaaaaaaaaaaaaaaaaaaaaaaaaaaaaaaaaaaaaaaaaaaaaaaaaaaaaaaaaaaaaaaaaaaaaaaaaaaaaaaaaaaaaaaaaaaaaaaaaaaaaaaaaaaaaaaaaaaaaaaaaaa114".toList) [] RetVal.pass, Node.leaf ("aaaaaaaaaaaaaaaaaaaaaaaaaaaaaaaaaaaaaaaaaaaaaaaaaaaaaaaaaaaaaaaaaaaaaaaaaaaaaaaaaaaaaaaaaaaaaaaaaaaaaaaaaaaaaaaaaaaaaaaaaaaaaaaaaaaaaaaaaaaaaaaaaaaaaaaaaaaaaaaaaaaaaaaaaaaaaaaaaaaaaaaaaaaaaaaaaaaaaaaaaaaaaaaaaaaaaaaaaaaaaaaaaaaaaaaaaaaa115".toList) [] RetVal.pass] RetVal.pass RetVal.pass c4s28 c4s29 (rfl)).trans e24
  have e26 : step RET_ROOT_TAG 11 (.loop 2 [Node.leaf ("aaaaaaaaaaaaaaaaaaaaaaaaaaaaaaaaaaaaaaaaaaaaaaaaaaaaaaaaaaaaaaaaaaaaaaaaaaaaaaaaaaaaaaaaaaaaaaaaaaaaaaaaaaaaaaaaaaaaaaaaaaaaaaaaaaaaaaaaaaaaaaaaaaaaaaaaaaaaaaaaaaaaaaaaaaaaaaaaaaaaaaaaaaaaaaaaaaaaaaaaaaaaaaaaaaaaaaaaaaaaaaaaaaaaaaaaaaaa111".toList) [] RetVal.pass, Node.leaf ("aaaaaaaaaaaaaaaaaaaaaaaaaaaaaaaaaaaaaaaaaaaaaaaaaaaaaaaaaaaaaaaaaaaaaaaaaaaaaaaaaaaaaaaaaaaaaaaaaaaaaaaaaaaaaaaaaaaaaaaaaaaaaaaaaaaaaaaaaaaaaaaaaaaaaaaaaaaaaaaaaaaaaaaaaaaaaaaaaaaaaaaaaaaaaaaaaaaaaaaaaaaaaaaaaaaaaaaaaaaaaaaaaaaaaaaaaaaa112".toList) [] RetVal.pass, Node.leaf ("aaaaaaaaaaaaaaaaaaaaaaaaaaaaaaaaaaaaaaaaaaaaaaaaaaaaaaaaaaaaaaaaaaaaaaaaaaaaaaaaaaaaaaaaaaaaaaaaaaaaaaaaaaaaaaaaaaaaaaaaaaaaaaaaaaaaaaaaaaaaaaaaaaaaaaaaaaaaaaaaaaaaaaaaaaaaaaaaaaaaaaaaaaaaaaaaaaaaaaaaaaaaaaaaaaaaaaaaaaaaaaaaaaaaaaaaaaaa113".toList) [] RetVal.pass, Node.leaf ("aaaaaaaaaaaaaaaaaaaaaaaaaaaaaaaaaaaaaaaaaaaaaaaaaaaaaaaaaaaaaaaaaaaaaaaaaaaaaaaaaaaaaaaaaaaaaaaaaaaaaaaaaaaaaaaaaaaaaaaaaaaaaaaaaaaaaaaaaaaaaaaaaaaaaaaaaaaaaaaaaaaaaaaaaaaaaaaaaaaaaaaaaaaaaaaaaaaaaaaaaaaaaaaaaaaaaaaaaaaaaaaaaaaaaaaaaaaa114".toList) [] RetVal.pass, Node.leaf ("aaaaaaaaaaaaaaaaaaaaaaaaaaaaaaaaaaaaaaaaaaaaaaaaaaaaaaaaaaaaaaaaaaaaaaaaaaaaaaaaaaaaaaaaaaaaaaaaaaaaaaaaaaaaaaaaaaaaaaaaaaaaaaaaaaaaaaaaaaaaaaaaaaaaaaaaaaaaaaaaaaaaaaaaaaaaaaaaaaaaaaaaaaaaaaaaaaaaaaaaaaaaaaaaaaaaaaaaaaaaaaaaaaaaaaaaaaaa115".toList) [] RetVal.pass] RetVal.pass c4s27) = Out.ok RetVal.pass c4s37 :=
    (loop_step_ok RET_ROOT_TAG 10 2 (Node.leaf ("aaaaaaaaaaaaaaaaaaaaaaaaaaaaaaaaaaaaaaaaaaaaaaaaaaaaaaaaaaaaaaaaaaaaaaaaaaaaaaaaaaaaaaaaaaaaaaaaaaaaaaaaaaaaaaaaaaaaaaaaaaaaaaaaaaaaaaaaaaaaaaaaaaaaaaaaaaaaaaaaaaaaaaaaaaaaaaaaaaaaaaaaaaaaaaaaaaaaaaaaaaaaaaaaaaaaaaaaaaaaaaaaaaaaaaaaaaaa111".toList) [] RetVal.pass) [Node.leaf ("aaaaaaaaaaaaaaaaaaaaaaaaaaaaaaaaaaaaaaaaaaaaaaaaaaaaaaaaaaaaaaaaaaaaaaaaaaaaaaaaaaaaaaaaaaaaaaaaaaaaaaaaaaaaaaaaaaaaaaaaaaaaaaaaaaaaaaaaaaaaaaaaaaaaaaaaaaaaaaaaaaaaaaaaaaaaaaaaaaaaaaaaaaaaaaaaaaaaaaaaaaaaaaaaaaaaaaaaaaaaaaaaaaaaaaaaaaaa112".toList) [] RetVal.pass, Node.leaf ("aaaaaaaaaaaaaaaaaaaaaaaaaaaaaaaaaaaaaaaaaaaaaaaaaaaaaaaaaaaaaaaaaaaaaaaaaaaaaaaaaaaaaaaaaaaaaaaaaaaaaaaaaaaaaaaaaaaaaaaaaaaaaaaaaaaaaaaaaaaaaaaaaaaaaaaaaaaaaaaaaaaaaaaaaaaaaaaaaaaaaaaaaaaaaaaaaaaaaaaaaaaaaaaaaaaaaaaaaaaaaaaaaaaaaaaaaaaa113".toList) [] RetVal.pass, Node.leaf ("aaaaaaaaaaaaaaaaaaaaaaaaaaaaaaaaaaaaaaaaaaaaaaaaaaaaaaaaaaaaaaaaaaaaaaaaaaaaaaaaaaaaaaaaaaaaaaaaaaaaaaaaaaaaaaaaaaaaaaaaaaaaaaaaaaaaaaaaaaaaaaaaaaaaaaaaaaaaaaaaaaaaaaaaaaaaaaaaaaaaaaaaaaaaaaaaaaaaaaaaaaaaaaaaaaaaaaaaaaaaaaaaaaaaaaaaaaaa114".toList) [] RetVal.pass, Node.leaf ("aaaaaaaaaaaaaaaaaaaaaaaaaaaaaaaaaaaaaaaaaaaaaaaaaaaaaaaaaaaaaaaaaaaaaaaaaaaaaaaaaaaaaaaaaaaaaaaaaaaaaaaaaaaaaaaaaaaaaaaaaaaaaaaaaaaaaaaaaaaaaaaaaaaaaaaaaaaaaaaaaaaaaaaaaaaaaaaaaaaaaaaaaaaaaaaaaaaaaaaaaaaaaaaaaaaaaaaaaaaaaaaaaaaaaaaaaaaa115".toList) [] RetVal.pass] RetVal.pass RetVal.pass c4s27 c4s28 e11).trans e25
  have e27 : step RET_ROOT_TAG 12 (.handle 2 [Node.leaf ("aaaaaaaaaaaaaaaaaaaaaaaaaaaaaaaaaaaaaaaaaaaaaaaaaaaaaaaaaaaaaaaaaaaaaaaaaaaaaaaaaaaaaaaaaaaaaaaaaaaaaaaaaaaaaaaaaaaaaaaaaaaaaaaaaaaaaaaaaaaaaaaaaaaaaaaaaaaaaaaaaaaaaaaaaaaaaaaaaaaaaaaaaaaaaaaaaaaaaaaaaaaaaaaaaaaaaaaaaaaaaaaaaaaaaaaaaaaa111".toList) [] RetVal.pass, Node.leaf ("aaaaaaaaaaaaaaaaaaaaaaaaaaaaaaaaaaaaaaaaaaaaaaaaaaaaaaaaaaaaaaaaaaaaaaaaaaaaaaaaaaaaaaaaaaaaaaaaaaaaaaaaaaaaaaaaaaaaaaaaaaaaaaaaaaaaaaaaaaaaaaaaaaaaaaaaaaaaaaaaaaaaaaaaaaaaaaaaaaaaaaaaaaaaaaaaaaaaaaaaaaaaaaaaaaaaaaaaaaaaaaaaaaaaaaaaaaaa112".toList) [] RetVal.pass, Node.leaf ("aaaaaaaaaaaaaaaaaaaaaaaaaaaaaaaaaaaaaaaaaaaaaaaaaaaaaaaaaaaaaaaaaaaaaaaaaaaaaaaaaaaaaaaaaaaaaaaaaaaaaaaaaaaaaaaaaaaaaaaaaaaaaaaaaaaaaaaaaaaaaaaaaaaaaaaaaaaaaaaaaaaaaaaaaaaaaaaaaaaaaaaaaaaaaaaaaaaaaaaaaaaaaaaaaaaaaaaaaaaaaaaaaaaaaaaaaaaa113".toList) [] RetVal.pass, Node.leaf ("aaaaaaaaaaaaaaaaaaaaaaaaaaaaaaaaaaaaaaaaaaaaaaaaaaaaaaaaaaaaaaaaaaaaaaaaaaaaaaaaaaaaaaaaaaaaaaaaaaaaaaaaaaaaaaaaaaaaaaaaaaaaaaaaaaaaaaaaaaaaaaaaaaaaaaaaaaaaaaaaaaaaaaaaaaaaaaaaaaaaaaaaaaaaaaaaaaaaaaaaaaaaaaaaaaaaaaaaaaaaaaaaaaaaaaaaaaaa114".toList) [] RetVal.pass, Node.leaf ("aaaaaaaaaaaaaaaaaaaaaaaaaaaaaaaaaaaaaaaaaaaaaaaaaaaaaaaaaaaaaaaaaaaaaaaaaaaaaaaaaaaaaaaaaaaaaaaaaaaaaaaaaaaaaaaaaaaaaaaaaaaaaaaaaaaaaaaaaaaaaaaaaaaaaaaaaaaaaaaaaaaaaaaaaaaaaaaaaaaaaaaaaaaaaaaaaaaaaaaaaaaaaaaaaaaaaaaaaaaaaaaaaaaaaaaaaaaa115".toList) [] RetVal.pass] RetVal.pass RetVal.pass c4s26) = Out.ok RetVal.pass c4s37 :=
    (handle_step_exit_ok RET_ROOT_TAG 11 2 [Node.leaf ("aaaaaaaaaaaaaaaaaaaaaaaaaaaaaaaaaaaaaaaaaaaaaaaaaaaaaaaaaaaaaaaaaaaaaaaaaaaaaaaaaaaaaaaaaaaaaaaaaaaaaaaaaaaaaaaaaaaaaaaaaaaaaaaaaaaaaaaaaaaaaaaaaaaaaaaaaaaaaaaaaaaaaaaaaaaaaaaaaaaaaaaaaaaaaaaaaaaaaaaaaaaaaaaaaaaaaaaaaaaaaaaaaaaaaaaaaaaa111".toList) [] RetVal.pass, Node.leaf ("aaaaaaaaaaaaaaaaaaaaaaaaaaaaaaaaaaaaaaaaaaaaaaaaaaaaaaaaaaaaaaaaaaaaaaaaaaaaaaaaaaaaaaaaaaaaaaaaaaaaaaaaaaaaaaaaaaaaaaaaaaaaaaaaaaaaaaaaaaaaaaaaaaaaaaaaaaaaaaaaaaaaaaaaaaaaaaaaaaaaaaaaaaaaaaaaaaaaaaaaaaaaaaaaaaaaaaaaaaaaaaaaaaaaaaaaaaaa112".toList) [] RetVal.pass, Node.leaf ("aaaaaaaaaaaaaaaaaaaaaaaaaaaaaaaaaaaaaaaaaaaaaaaaaaaaaaaaaaaaaaaaaaaaaaaaaaaaaaaaaaaaaaaaaaaaaaaaaaaaaaaaaaaaaaaaaaaaaaaaaaaaaaaaaaaaaaaaaaaaaaaaaaaaaaaaaaaaaaaaaaaaaaaaaaaaaaaaaaaaaaaaaaaaaaaaaaaaaaaaaaaaaaaaaaaaaaaaaaaaaaaaaaaaaaaaaaaa113".toList) [] RetVal.pass, Node.leaf ("aaaaaaaaaaaaaaaaaaaaaaaaaaaaaaaaaaaaaaaaaaaaaaaaaaaaaaaaaaaaaaaaaaaaaaaaaaaaaaaaaaaaaaaaaaaaaaaaaaaaaaaaaaaaaaaaaaaaaaaaaaaaaaaaaaaaaaaaaaaaaaaaaaaaaaaaaaaaaaaaaaaaaaaaaaaaaaaaaaaaaaaaaaaaaaaaaaaaaaaaaaaaaaaaaaaaaaaaaaaaaaaaaaaaaaaaaaaa114".toList) [] RetVal.pass, Node.leaf ("aaaaaaaaaaaaaaaaaaaaaaaaaaaaaaaaaaaaaaaaaaaaaaaaaaaaaaaaaaaaaaaaaaaaaaaaaaaaaaaaaaaaaaaaaaaaaaaaaaaaaaaaaaaaaaaaaaaaaaaaaaaaaaaaaaaaaaaaaaaaaaaaaaaaaaaaaaaaaaaaaaaaaaaaaaaaaaaaaaaaaaaaaaaaaaaaaaaaaaaaaaaaaaaaaaaaaaaaaaaaaaaaaaaaaaaaaaaa115".toList) [] RetVal.pass] RetVal.pass RetVal.pass c4s26 c4s27 (rfl)).trans e26
  have e28 : step RET_ROOT_TAG 13 (.loop 2 [Node.leaf ("aaaaaaaaaaaaaaaaaaaaaaaaaaaaaaaaaaaaaaaaaaaaaaaaaaaaaaaaaaaaaaaaaaaaaaaaaaaaaaaaaaaaaaaaaaaaaaaaaaaaaaaaaaaaaaaaaaaaaaaaaaaaaaaaaaaaaaaaaaaaaaaaaaaaaaaaaaaaaaaaaaaaaaaaaaaaaaaaaaaaaaaaaaaaaaaaaaaaaaaaaaaaaaaaaaaaaaaaaaaaaaaaaaaaaaaaaaaa110".toList) [] RetVal.pass, Node.leaf ("aaaaaaaaaaaaaaaaaaaaaaaaaaaaaaaaaaaaaaaaaaaaaaaaaaaaaaaaaaaaaaaaaaaaaaaaaaaaaaaaaaaaaaaaaaaaaaaaaaaaaaaaaaaaaaaaaaaaaaaaaaaaaaaaaaaaaaaaaaaaaaaaaaaaaaaaaaaaaaaaaaaaaaaaaaaaaaaaaaaaaaaaaaaaaaaaaaaaaaaaaaaaaaaaaaaaaaaaaaaaaaaaaaaaaaaaaaaa111".toList) [] RetVal.pass, Node.leaf ("aaaaaaaaaaaaaaaaaaaaaaaaaaaaaaaaaaaaaaaaaaaaaaaaaaaaaaaaaaaaaaaaaaaaaaaaaaaaaaaaaaaaaaaaaaaaaaaaaaaaaaaaaaaaaaaaaaaaaaaaaaaaaaaaaaaaaaaaaaaaaaaaaaaaaaaaaaaaaaaaaaaaaaaaaaaaaaaaaaaaaaaaaaaaaaaaaaaaaaaaaaaaaaaaaaaaaaaaaaaaaaaaaaaaaaaaaaaa112".toList) [] RetVal.pass, Node.leaf ("aaaaaaaaaaaaaaaaaaaaaaaaaaaaaaaaaaaaaaaaaaaaaaaaaaaaaaaaaaaaaaaaaaaaaaaaaaaaaaaaaaaaaaaaaaaaaaaaaaaaaaaaaaaaaaaaaaaaaaaaaaaaaaaaaaaaaaaaaaaaaaaaaaaaaaaaaaaaaaaaaaaaaaaaaaaaaaaaaaaaaaaaaaaaaaaaaaaaaaaaaaaaaaaaaaaaaaaaaaaaaaaaaaaaaaaaaaaa113".toList) [] RetVal.pass, Node.leaf ("aaaaaaaaaaaaaaaaaaaaaaaaaaaaaaaaaaaaaaaaaaaaaaaaaaaaaaaaaaaaaaaaaaaaaaaaaaaaaaaaaaaaaaaaaaaaaaaaaaaaaaaaaaaaaaaaaaaaaaaaaaaaaaaaaaaaaaaaaaaaaaaaaaaaaaaaaaaaaaaaaaaaaaaaaaaaaaaaaaaaaaaaaaaaaaaaaaaaaaaaaaaaaaaaaaaaaaaaaaaaaaaaaaaaaaaaaaaa114".toList) [] RetVal.pass, Node.leaf ("aaaaaaaaaaaaaaaaaaaaaaaaaaaaaaaaaaaaaaaaaaaaaaaaaaaaaaaaaaaaaaaaaaaaaaaaaaaaaaaaaaaaaaaaaaaaaaaaaaaaaaaaaaaaaaaaaaaaaaaaaaaaaaaaaaaaaaaaaaaaaaaaaaaaaaaaaaaaaaaaaaaaaaaaaaaaaaaaaaaaaaaaaaaaaaaaaaaaaaaaaaaaaaaaaaaaaaaaaaaaaaaaaaaaaaaaaaaa115".toList) [] RetVal.pass] RetVal.pass c4s25) = Out.ok RetVal.pass c4s37 :=
    (loop_step_ok RET_ROOT_TAG 12 2 (Node.leaf ("aaaaaaaaaaaaaaaaaaaaaaaaaaaaaaaaaaaaaaaaaaaaaaaaaaaaaaaaaaaaaaaaaaaaaaaaaaaaaaaaaaaaaaaaaaaaaaaaaaaaaaaaaaaaaaaaaaaaaaaaaaaaaaaaaaaaaaaaaaaaaaaaaaaaaaaaaaaaaaaaaaaaaaaaaaaaaaaaaaaaaaaaaaaaaaaaaaaaaaaaaaaaaaaaaaaaaaaaaaaaaaaaaaaaaaaaaaaa110".toList) [] RetVal.pass) [Node.leaf ("aaaaaaaaaaaaaaaaaaaaaaaaaaaaaaaaaaaaaaaaaaaaaaaaaaaaaaaaaaaaaaaaaaaaaaaaaaaaaaaaaaaaaaaaaaaaaaaaaaaaaaaaaaaaaaaaaaaaaaaaaaaaaaaaaaaaaaaaaaaaaaaaaaaaaaaaaaaaaaaaaaaaaaaaaaaaaaaaaaaaaaaaaaaaaaaaaaaaaaaaaaaaaaaaaaaaaaaaaaaaaaaaaaaaaaaaaaaa111".toList) [] RetVal.pass, Node.leaf ("aaaaaaaaaaaaaaaaaaaaaaaaaaaaaaaaaaaaaaaaaaaaaaaaaaaaaaaaaaaaaaaaaaaaaaaaaaaaaaaaaaaaaaaaaaaaaaaaaaaaaaaaaaaaaaaaaaaaaaaaaaaaaaaaaaaaaaaaaaaaaaaaaaaaaaaaaaaaaaaaaaaaaaaaaaaaaaaaaaaaaaaaaaaaaaaaaaaaaaaaaaaaaaaaaaaaaaaaaaaaaaaaaaaaaaaaaaaa112".toList) [] RetVal.pass, Node.leaf ("aaaaaaaaaaaaaaaaaaaaaaaaaaaaaaaaaaaaaaaaaaaaaaaaaaaaaaaaaaaaaaaaaaaaaaaaaaaaaaaaaaaaaaaaaaaaaaaaaaaaaaaaaaaaaaaaaaaaaaaaaaaaaaaaaaaaaaaaaaaaaaaaaaaaaaaaaaaaaaaaaaaaaaaaaaaaaaaaaaaaaaaaaaaaaaaaaaaaaaaaaaaaaaaaaaaaaaaaaaaaaaaaaaaaaaaaaaaa113".toList) [] RetVal.pass, Node.leaf ("aaaaaaaaaaaaaaaaaaaaaaaaaaaaaaaaaaaaaaaaaaaaaaaaaaaaaaaaaaaaaaaaaaaaaaaaaaaaaaaaaaaaaaaaaaaaaaaaaaaaaaaaaaaaaaaaaaaaaaaaaaaaaaaaaaaaaaaaaaaaaaaaaaaaaaaaaaaaaaaaaaaaaaaaaaaaaaaaaaaaaaaaaaaaaaaaaaaaaaaaaaaaaaaaaaaaaaaaaaaaaaaaaaaaaaaaaaaa114".toList) [] RetVal.pass, Node.leaf ("aaaaaaaaaaaaaaaaaaaaaaaaaaaaaaaaaaaaaaaaaaaaaaaaaaaaaaaaaaaaaaaaaaaaaaaaaaaaaaaaaaaaaaaaaaaaaaaaaaaaaaaaaaaaaaaaaaaaaaaaaaaaaaaaaaaaaaaaaaaaaaaaaaaaaaaaaaaaaaaaaaaaaaaaaaaaaaaaaaaaaaaaaaaaaaaaaaaaaaaaaaaaaaaaaaaaaaaaaaaaaaaaaaaaaaaaaaaa115".toList) [] RetVal.pass] RetVal.pass RetVal.pass c4s25 c4s26 e10).trans e27
  have e29 : step RET_ROOT_TAG 14 (.handle 2 [Node.leaf ("aaaaaaaaaaaaaaaaaaaaaaaaaaaaaaaaaaaaaaaaaaaaaaaaaaaaaaaaaaaaaaaaaaaaaaaaaaaaaaaaaaaaaaaaaaaaaaaaaaaaaaaaaaaaaaaaaaaaaaaaaaaaaaaaaaaaaaaaaaaaaaaaaaaaaaaaaaaaaaaaaaaaaaaaaaaaaaaaaaaaaaaaaaaaaaaaaaaaaaaaaaaaaaaaaaaaaaaaaaaaaaaaaaaaaaaaaaaa110".toList) [] RetVal.pass, Node.leaf ("aaaaaaaaaaaaaaaaaaaaaaaaaaaaaaaaaaaaaaaaaaaaaaaaaaaaaaaaaaaaaaaaaaaaaaaaaaaaaaaaaaaaaaaaaaaaaaaaaaaaaaaaaaaaaaaaaaaaaaaaaaaaaaaaaaaaaaaaaaaaaaaaaaaaaaaaaaaaaaaaaaaaaaaaaaaaaaaaaaaaaaaaaaaaaaaaaaaaaaaaaaaaaaaaaaaaaaaaaaaaaaaaaaaaaaaaaaaa111".toList) [] RetVal.pass, Node.leaf ("aaaaaaaaaaaaaaaaaaaaaaaaaaaaaaaaaaaaaaaaaaaaaaaaaaaaaaaaaaaaaaaaaaaaaaaaaaaaaaaaaaaaaaaaaaaaaaaaaaaaaaaaaaaaaaaaaaaaaaaaaaaaaaaaaaaaaaaaaaaaaaaaaaaaaaaaaaaaaaaaaaaaaaaaaaaaaaaaaaaaaaaaaaaaaaaaaaaaaaaaaaaaaaaaaaaaaaaaaaaaaaaaaaaaaaaaaaaa112".toList) [] RetVal.pass, Node.leaf ("aaaaaaaaaaaaaaaaaaaaaaaaaaaaaaaaaaaaaaaaaaaaaaaaaaaaaaaaaaaaaaaaaaaaaaaaaaaaaaaaaaaaaaaaaaaaaaaaaaaaaaaaaaaaaaaaaaaaaaaaaaaaaaaaaaaaaaaaaaaaaaaaaaaaaaaaaaaaaaaaaaaaaaaaaaaaaaaaaaaaaaaaaaaaaaaaaaaaaaaaaaaaaaaaaaaaaaaaaaaaaaaaaaaaaaaaaaaa113".toList) [] RetVal.pass, Node.leaf ("aaaaaaaaaaaaaaaaaaaaaaaaaaaaaaaaaaaaaaaaaaaaaaaaaaaaaaaaaaaaaaaaaaaaaaaaaaaaaaaaaaaaaaaaaaaaaaaaaaaaaaaaaaaaaaaaaaaaaaaaaaaaaaaaaaaaaaaaaaaaaaaaaaaaaaaaaaaaaaaaaaaaaaaaaaaaaaaaaaaaaaaaaaaaaaaaaaaaaaaaaaaaaaaaaaaaaaaaaaaaaaaaaaaaaaaaaaaa114".toList) [] RetVal.pass, Node.leaf ("aaaaaaaaaaaaaaaaaaaaaaaaaaaaaaaaaaaaaaaaaaaaaaaaaaaaaaaaaaaaaaaaaaaaaaaaaaaaaaaaaaaaaaaaaaaaaaaaaaaaaaaaaaaaaaaaaaaaaaaaaaaaaaaaaaaaaaaaaaaaaaaaaaaaaaaaaaaaaaaaaaaaaaaaaaaaaaaaaaaaaaaaaaaaaaaaaaaaaaaaaaaaaaaaaaaaaaaaaaaaaaaaaaaaaaaaaaaa115".toList) [] RetVal.pass] RetVal.pass RetVal.pass c4s24) = Out.ok RetVal.pass c4s37 :=
    (handle_step_exit_ok RET_ROOT_TAG 13 2 [Node.leaf ("aaaaaaaaaaaaaaaaaaaaaaaaaaaaaaaaaaaaaaaaaaaaaaaaaaaaaaaaaaaaaaaaaaaaaaaaaaaaaaaaaaaaaaaaaaaaaaaaaaaaaaaaaaaaaaaaaaaaaaaaaaaaaaaaaaaaaaaaaaaaaaaaaaaaaaaaaaaaaaaaaaaaaaaaaaaaaaaaaaaaaaaaaaaaaaaaaaaaaaaaaaaaaaaaaaaaaaaaaaaaaaaaaaaaaaaaaaaa110".toList) [] RetVal.pass, Node.leaf ("aaaaaaaaaaaaaaaaaaaaaaaaaaaaaaaaaaaaaaaaaaaaaaaaaaaaaaaaaaaaaaaaaaaaaaaaaaaaaaaaaaaaaaaaaaaaaaaaaaaaaaaaaaaaaaaaaaaaaaaaaaaaaaaaaaaaaaaaaaaaaaaaaaaaaaaaaaaaaaaaaaaaaaaaaaaaaaaaaaaaaaaaaaaaaaaaaaaaaaaaaaaaaaaaaaaaaaaaaaaaaaaaaaaaaaaaaaaa111".toList) [] RetVal.pass, Node.leaf ("aaaaaaaaaaaaaaaaaaaaaaaaaaaaaaaaaaaaaaaaaaaaaaaaaaaaaaaaaaaaaaaaaaaaaaaaaaaaaaaaaaaaaaaaaaaaaaaaaaaaaaaaaaaaaaaaaaaaaaaaaaaaaaaaaaaaaaaaaaaaaaaaaaaaaaaaaaaaaaaaaaaaaaaaaaaaaaaaaaaaaaaaaaaaaaaaaaaaaaaaaaaaaaaaaaaaaaaaaaaaaaaaaaaaaaaaaaaa112".toList) [] RetVal.pass, Node.leaf ("aaaaaaaaaaaaaaaaaaaaaaaaaaaaaaaaaaaaaaaaaaaaaaaaaaaaaaaaaaaaaaaaaaaaaaaaaaaaaaaaaaaaaaaaaaaaaaaaaaaaaaaaaaaaaaaaaaaaaaaaaaaaaaaaaaaaaaaaaaaaaaaaaaaaaaaaaaaaaaaaaaaaaaaaaaaaaaaaaaaaaaaaaaaaaaaaaaaaaaaaaaaaaaaaaaaaaaaaaaaaaaaaaaaaaaaaaaaa113".toList) [] RetVal.pass, Node.leaf ("aaaaaaaaaaaaaaaaaaaaaaaaaaaaaaaaaaaaaaaaaaaaaaaaaaaaaaaaaaaaaaaaaaaaaaaaaaaaaaaaaaaaaaaaaaaaaaaaaaaaaaaaaaaaaaaaaaaaaaaaaaaaaaaaaaaaaaaaaaaaaaaaaaaaaaaaaaaaaaaaaaaaaaaaaaaaaaaaaaaaaaaaaaaaaaaaaaaaaaaaaaaaaaaaaaaaaaaaaaaaaaaaaaaaaaaaaaaa114".toList) [] RetVal.pass, Node.leaf ("aaaaaaaaaaaaaaaaaaaaaaaaaaaaaaaaaaaaaaaaaaaaaaaaaaaaaaaaaaaaaaaaaaaaaaaaaaaaaaaaaaaaaaaaaaaaaaaaaaaaaaaaaaaaaaaaaaaaaaaaaaaaaaaaaaaaaaaaaaaaaaaaaaaaaaaaaaaaaaaaaaaaaaaaaaaaaaaaaaaaaaaaaaaaaaaaaaaaaaaaaaaaaaaaaaaaaaaaaaaaaaaaaaaaaaaaaaaa115".toList) [] RetVal.pass] RetVal.pass RetVal.pass c4s24 c4s25 (rfl)).trans e28
  have e30 : step RET_ROOT_TAG 15 (.loop 2 [Node.leaf ("aaaaaaaaaaaaaaaaaaaaaaaaaaaaaaaaaaaaaaaaaaaaaaaaaaaaaaaaaaaaaaaaaaaaaaaaaaaaaaaaaaaaaaaaaaaaaaaaaaaaaaaaaaaaaaaaaaaaaaaaaaaaaaaaaaaaaaaaaaaaaaaaaaaaaaaaaaaaaaaaaaaaaaaaaaaaaaaaaaaaaaaaaaaaaaaaaaaaaaaaaaaaaaaaaaaaaaaaaaaaaaaaaaaaaaaaaaaa109".toList) [] RetVal.pass, Node.leaf ("aaaaaaaaaaaaaaaaaaaaaaaaaaaaaaaaaaaaaaaaaaaaaaaaaaaaaaaaaaaaaaaaaaaaaaaaaaaaaaaaaaaaaaaaaaaaaaaaaaaaaaaaaaaaaaaaaaaaaaaaaaaaaaaaaaaaaaaaaaaaaaaaaaaaaaaaaaaaaaaaaaaaaaaaaaaaaaaaaaaaaaaaaaaaaaaaaaaaaaaaaaaaaaaaaaaaaaaaaaaaaaaaaaaaaaaaaaaa110".toList) [] RetVal.pass, Node.leaf ("aaaaaaaaaaaaaaaaaaaaaaaaaaaaaaaaaaaaaaaaaaaaaaaaaaaaaaaaaaaaaaaaaaaaaaaaaaaaaaaaaaaaaaaaaaaaaaaaaaaaaaaaaaaaaaaaaaaaaaaaaaaaaaaaaaaaaaaaaaaaaaaaaaaaaaaaaaaaaaaaaaaaaaaaaaaaaaaaaaaaaaaaaaaaaaaaaaaaaaaaaaaaaaaaaaaaaaaaaaaaaaaaaaaaaaaaaaaa111".toList) [] RetVal.pass, Node.leaf ("aaaaaaaaaaaaaaaaaaaaaaaaaaaaaaaaaaaaaaaaaaaaaaaaaaaaaaaaaaaaaaaaaaaaaaaaaaaaaaaaaaaaaaaaaaaaaaaaaaaaaaaaaaaaaaaaaaaaaaaaaaaaaaaaaaaaaaaaaaaaaaaaaaaaaaaaaaaaaaaaaaaaaaaaaaaaaaaaaaaaaaaaaaaaaaaaaaaaaaaaaaaaaaaaaaaaaaaaaaaaaaaaaaaaaaaaaaaa112".toList) [] RetVal.pass, Node.leaf ("aaaaaaaaaaaaaaaaaaaaaaaaaaaaaaaaaaaaaaaaaaaaaaaaaaaaaaaaaaaaaaaaaaaaaaaaaaaaaaaaaaaaaaaaaaaaaaaaaaaaaaaaaaaaaaaaaaaaaaaaaaaaaaaaaaaaaaaaaaaaaaaaaaaaaaaaaaaaaaaaaaaaaaaaaaaaaaaaaaaaaaaaaaaaaaaaaaaaaaaaaaaaaaaaaaaaaaaaaaaaaaaaaaaaaaaaaaaa113".toList) [] RetVal.pass, Node.leaf ("aaaaaaaaaaaaaaaaaaaaaaaaaaaaaaaaaaaaaaaaaaaaaaaaaaaaaaaaaaaaaaaaaaaaaaaaaaaaaaaaaaaaaaaaaaaaaaaaaaaaaaaaaaaaaaaaaaaaaaaaaaaaaaaaaaaaaaaaaaaaaaaaaaaaaaaaaaaaaaaaaaaaaaaaaaaaaaaaaaaaaaaaaaaaaaaaaaaaaaaaaaaaaaaaaaaaaaaaaaaaaaaaaaaaaaaaaaaa114".toList) [] RetVal.pass, Node.leaf ("aaaaaaaaaaaaaaaaaaaaaaaaaaaaaaaaaaaaaaaaaaaaaaaaaaaaaaaaaaaaaaaaaaaaaaaaaaaaaaaaaaaaaaaaaaaaaaaaaaaaaaaaaaaaaaaaaaaaaaaaaaaaaaaaaaaaaaaaaaaaaaaaaaaaaaaaaaaaaaaaaaaaaaaaaaaaaaaaaaaaaaaaaaaaaaaaaaaaaaaaaaaaaaaaaaaaaaaaaaaaaaaaaaaaaaaaaaaa115".toList) [] RetVal.pass] RetVal.pass c4s23) = Out.ok RetVal.pass c4s37 :=
    (loop_step_ok RET_ROOT_TAG 14 2 (Node.leaf ("aaaaaaaaaaaaaaaaaaaaaaaaaaaaaaaaaaaaaaaaaaaaaaaaaaaaaaaaaaaaaaaaaaaaaaaaaaaaaaaaaaaaaaaaaaaaaaaaaaaaaaaaaaaaaaaaaaaaaaaaaaaaaaaaaaaaaaaaaaaaaaaaaaaaaaaaaaaaaaaaaaaaaaaaaaaaaaaaaaaaaaaaaaaaaaaaaaaaaaaaaaaaaaaaaaaaaaaaaaaaaaaaaaaaaaaaaaaa109".toList) [] RetVal.pass) [Node.leaf ("aaaaaaaaaaaaaaaaaaaaaaaaaaaaaaaaaaaaaaaaaaaaaaaaaaaaaaaaaaaaaaaaaaaaaaaaaaaaaaaaaaaaaaaaaaaaaaaaaaaaaaaaaaaaaaaaaaaaaaaaaaaaaaaaaaaaaaaaaaaaaaaaaaaaaaaaaaaaaaaaaaaaaaaaaaaaaaaaaaaaaaaaaaaaaaaaaaaaaaaaaaaaaaaaaaaaaaaaaaaaaaaaaaaaaaaaaaaa110".toList) [] RetVal.pass, Node.leaf ("aaaaaaaaaaaaaaaaaaaaaaaaaaaaaaaaaaaaaaaaaaaaaaaaaaaaaaaaaaaaaaaaaaaaaaaaaaaaaaaaaaaaaaaaaaaaaaaaaaaaaaaaaaaaaaaaaaaaaaaaaaaaaaaaaaaaaaaaaaaaaaaaaaaaaaaaaaaaaaaaaaaaaaaaaaaaaaaaaaaaaaaaaaaaaaaaaaaaaaaaaaaaaaaaaaaaaaaaaaaaaaaaaaaaaaaaaaaa111".toList) [] RetVal.pass, Node.leaf ("aaaaaaaaaaaaaaaaaaaaaaaaaaaaaaaaaaaaaaaaaaaaaaaaaaaaaaaaaaaaaaaaaaaaaaaaaaaaaaaaaaaaaaaaaaaaaaaaaaaaaaaaaaaaaaaaaaaaaaaaaaaaaaaaaaaaaaaaaaaaaaaaaaaaaaaaaaaaaaaaaaaaaaaaaaaaaaaaaaaaaaaaaaaaaaaaaaaaaaaaaaaaaaaaaaaaaaaaaaaaaaaaaaaaaaaaaaaa112".toList) [] RetVal.pass, Node.leaf ("aaaaaaaaaaaaaaaaaaaaaaaaaaaaaaaaaaaaaaaaaaaaaaaaaaaaaaaaaaaaaaaaaaaaaaaaaaaaaaaaaaaaaaaaaaaaaaaaaaaaaaaaaaaaaaaaaaaaaaaaaaaaaaaaaaaaaaaaaaaaaaaaaaaaaaaaaaaaaaaaaaaaaaaaaaaaaaaaaaaaaaaaaaaaaaaaaaaaaaaaaaaaaaaaaaaaaaaaaaaaaaaaaaaaaaaaaaaa113".toList) [] RetVal.pass, Node.leaf ("aaaaaaaaaaaaaaaaaaaaaaaaaaaaaaaaaaaaaaaaaaaaaaaaaaaaaaaaaaaaaaaaaaaaaaaaaaaaaaaaaaaaaaaaaaaaaaaaaaaaaaaaaaaaaaaaaaaaaaaaaaaaaaaaaaaaaaaaaaaaaaaaaaaaaaaaaaaaaaaaaaaaaaaaaaaaaaaaaaaaaaaaaaaaaaaaaaaaaaaaaaaaaaaaaaaaaaaaaaaaaaaaaaaaaaaaaaaa114".toList) [] RetVal.pass, Node.leaf ("aaaaaaaaaaaaaaaaaaaaaaaaaaaaaaaaaaaaaaaaaaaaaaaaaaaaaaaaaaaaaaaaaaaaaaaaaaaaaaaaaaaaaaaaaaaaaaaaaaaaaaaaaaaaaaaaaaaaaaaaaaaaaaaaaaaaaaaaaaaaaaaaaaaaaaaaaaaaaaaaaaaaaaaaaaaaaaaaaaaaaaaaaaaaaaaaaaaaaaaaaaaaaaaaaaaaaaaaaaaaaaaaaaaaaaaaaaaa115".toList) [] RetVal.pass] RetVal.pass RetVal.pass c4s23 c4s24 e9).trans e29
  have e31 : step RET_ROOT_TAG 16 (.handle 2 [Node.leaf ("aaaaaaaaaaaaaaaaaaaaaaaaaaaaaaaaaaaaaaaaaaaaaaaaaaaaaaaaaaaaaaaaaaaaaaaaaaaaaaaaaaaaaaaaaaaaaaaaaaaaaaaaaaaaaaaaaaaaaaaaaaaaaaaaaaaaaaaaaaaaaaaaaaaaaaaaaaaaaaaaaaaaaaaaaaaaaaaaaaaaaaaaaaaaaaaaaaaaaaaaaaaaaaaaaaaaaaaaaaaaaaaaaaaaaaaaaaaa109".toList) [] RetVal.pass, Node.leaf ("aaaaaaaaaaaaaaaaaaaaaaaaaaaaaaaaaaaaaaaaaaaaaaaaaaaaaaaaaaaaaaaaaaaaaaaaaaaaaaaaaaaaaaaaaaaaaaaaaaaaaaaaaaaaaaaaaaaaaaaaaaaaaaaaaaaaaaaaaaaaaaaaaaaaaaaaaaaaaaaaaaaaaaaaaaaaaaaaaaaaaaaaaaaaaaaaaaaaaaaaaaaaaaaaaaaaaaaaaaaaaaaaaaaaaaaaaaaa110".toList) [] RetVal.pass, Node.leaf ("aaaaaaaaaaaaaaaaaaaaaaaaaaaaaaaaaaaaaaaaaaaaaaaaaaaaaaaaaaaaaaaaaaaaaaaaaaaaaaaaaaaaaaaaaaaaaaaaaaaaaaaaaaaaaaaaaaaaaaaaaaaaaaaaaaaaaaaaaaaaaaaaaaaaaaaaaaaaaaaaaaaaaaaaaaaaaaaaaaaaaaaaaaaaaaaaaaaaaaaaaaaaaaaaaaaaaaaaaaaaaaaaaaaaaaaaaaaa111".toList) [] RetVal.pass, Node.leaf ("aaaaaaaaaaaaaaaaaaaaaaaaaaaaaaaaaaaaaaaaaaaaaaaaaaaaaaaaaaaaaaaaaaaaaaaaaaaaaaaaaaaaaaaaaaaaaaaaaaaaaaaaaaaaaaaaaaaaaaaaaaaaaaaaaaaaaaaaaaaaaaaaaaaaaaaaaaaaaaaaaaaaaaaaaaaaaaaaaaaaaaaaaaaaaaaaaaaaaaaaaaaaaaaaaaaaaaaaaaaaaaaaaaaaaaaaaaaa112".toList) [] RetVal.pass, Node.leaf ("aaaaaaaaaaaaaaaaaaaaaaaaaaaaaaaaaaaaaaaaaaaaaaaaaaaaaaaaaaaaaaaaaaaaaaaaaaaaaaaaaaaaaaaaaaaaaaaaaaaaaaaaaaaaaaaaaaaaaaaaaaaaaaaaaaaaaaaaaaaaaaaaaaaaaaaaaaaaaaaaaaaaaaaaaaaaaaaaaaaaaaaaaaaaaaaaaaaaaaaaaaaaaaaaaaaaaaaaaaaaaaaaaaaaaaaaaaaa113".toList) [] RetVal.pass, Node.leaf ("aaaaaaaaaaaaaaaaaaaaaaaaaaaaaaaaaaaaaaaaaaaaaaaaaaaaaaaaaaaaaaaaaaaaaaaaaaaaaaaaaaaaaaaaaaaaaaaaaaaaaaaaaaaaaaaaaaaaaaaaaaaaaaaaaaaaaaaaaaaaaaaaaaaaaaaaaaaaaaaaaaaaaaaaaaaaaaaaaaaaaaaaaaaaaaaaaaaaaaaaaaaaaaaaaaaaaaaaaaaaaaaaaaaaaaaaaaaa114".toList) [] RetVal.pass, Node.leaf ("aaaaaaaaaaaaaaaaaaaaaaaaaaaaaaaaaaaaaaaaaaaaaaaaaaaaaaaaaaaaaaaaaaaaaaaaaaaaaaaaaaaaaaaaaaaaaaaaaaaaaaaaaaaaaaaaaaaaaaaaaaaaaaaaaaaaaaaaaaaaaaaaaaaaaaaaaaaaaaaaaaaaaaaaaaaaaaaaaaaaaaaaaaaaaaaaaaaaaaaaaaaaaaaaaaaaaaaaaaaaaaaaaaaaaaaaaaaa115".toList) [] RetVal.pass] RetVal.pass RetVal.pass c4s22) = Out.ok RetVal.pass c4s37 :=
    (handle_step_exit_ok RET_ROOT_TAG 15 2 [Node.leaf ("aaaaaaaaaaaaaaaaaaaaaaaaaaaaaaaaaaaaaaaaaaaaaaaaaaaaaaaaaaaaaaaaaaaaaaaaaaaaaaaaaaaaaaaaaaaaaaaaaaaaaaaaaaaaaaaaaaaaaaaaaaaaaaaaaaaaaaaaaaaaaaaaaaaaaaaaaaaaaaaaaaaaaaaaaaaaaaaaaaaaaaaaaaaaaaaaaaaaaaaaaaaaaaaaaaaaaaaaaaaaaaaaaaaaaaaaaaaa109".toList) [] RetVal.pass, Node.leaf ("aaaaaaaaaaaaaaaaaaaaaaaaaaaaaaaaaaaaaaaaaaaaaaaaaaaaaaaaaaaaaaaaaaaaaaaaaaaaaaaaaaaaaaaaaaaaaaaaaaaaaaaaaaaaaaaaaaaaaaaaaaaaaaaaaaaaaaaaaaaaaaaaaaaaaaaaaaaaaaaaaaaaaaaaaaaaaaaaaaaaaaaaaaaaaaaaaaaaaaaaaaaaaaaaaaaaaaaaaaaaaaaaaaaaaaaaaaaa110".toList) [] RetVal.pass, Node.leaf ("aaaaaaaaaaaaaaaaaaaaaaaaaaaaaaaaaaaaaaaaaaaaaaaaaaaaaaaaaaaaaaaaaaaaaaaaaaaaaaaaaaaaaaaaaaaaaaaaaaaaaaaaaaaaaaaaaaaaaaaaaaaaaaaaaaaaaaaaaaaaaaaaaaaaaaaaaaaaaaaaaaaaaaaaaaaaaaaaaaaaaaaaaaaaaaaaaaaaaaaaaaaaaaaaaaaaaaaaaaaaaaaaaaaaaaaaaaaa111".toList) [] RetVal.pass, Node.leaf ("aaaaaaaaaaaaaaaaaaaaaaaaaaaaaaaaaaaaaaaaaaaaaaaaaaaaaaaaaaaaaaaaaaaaaaaaaaaaaaaaaaaaaaaaaaaaaaaaaaaaaaaaaaaaaaaaaaaaaaaaaaaaaaaaaaaaaaaaaaaaaaaaaaaaaaaaaaaaaaaaaaaaaaaaaaaaaaaaaaaaaaaaaaaaaaaaaaaaaaaaaaaaaaaaaaaaaaaaaaaaaaaaaaaaaaaaaaaa112".toList) [] RetVal.pass, Node.leaf ("aaaaaaaaaaaaaaaaaaaaaaaaaaaaaaaaaaaaaaaaaaaaaaaaaaaaaaaaaaaaaaaaaaaaaaaaaaaaaaaaaaaaaaaaaaaaaaaaaaaaaaaaaaaaaaaaaaaaaaaaaaaaaaaaaaaaaaaaaaaaaaaaaaaaaaaaaaaaaaaaaaaaaaaaaaaaaaaaaaaaaaaaaaaaaaaaaaaaaaaaaaaaaaaaaaaaaaaaaaaaaaaaaaaaaaaaaaaa113".toList) [] RetVal.pass, Node.leaf ("aaaaaaaaaaaaaaaaaaaaaaaaaaaaaaaaaaaaaaaaaaaaaaaaaaaaaaaaaaaaaaaaaaaaaaaaaaaaaaaaaaaaaaaaaaaaaaaaaaaaaaaaaaaaaaaaaaaaaaaaaaaaaaaaaaaaaaaaaaaaaaaaaaaaaaaaaaaaaaaaaaaaaaaaaaaaaaaaaaaaaaaaaaaaaaaaaaaaaaaaaaaaaaaaaaaaaaaaaaaaaaaaaaaaaaaaaaaa114".toList) [] RetVal.pass, Node.leaf ("aaaaaaaaaaaaaaaaaaaaaaaaaaaaaaaaaaaaaaaaaaaaaaaaaaaaaaaaaaaaaaaaaaaaaaaaaaaaaaaaaaaaaaaaaaaaaaaaaaaaaaaaaaaaaaaaaaaaaaaaaaaaaaaaaaaaaaaaaaaaaaaaaaaaaaaaaaaaaaaaaaaaaaaaaaaaaaaaaaaaaaaaaaaaaaaaaaaaaaaaaaaaaaaaaaaaaaaaaaaaaaaaaaaaaaaaaaaa115".toList) [] RetVal.pass] RetVal.pass RetVal.pass c4s22 c4s23 (rfl)).trans e30
  have e32 : step RET_ROOT_TAG 17 (.loop 2 [Node.leaf ("aaaaaaaaaaaaaaaaaaaaaaaaaaaaaaaaaaaaaaaaaaaaaaaaaaaaaaaaaaaaaaaaaaaaaaaaaaaaaaaaaaaaaaaaaaaaaaaaaaaaaaaaaaaaaaaaaaaaaaaaaaaaaaaaaaaaaaaaaaaaaaaaaaaaaaaaaaaaaaaaaaaaaaaaaaaaaaaaaaaaaaaaaaaaaaaaaaaaaaaaaaaaaaaaaaaaaaaaaaaaaaaaaaaaaaaaaaaa108".toList) [] RetVal.pass, Node.leaf ("aaaaaaaaaaaaaaaaaaaaaaaaaaaaaaaaaaaaaaaaaaaaaaaaaaaaaaaaaaaaaaaaaaaaaaaaaaaaaaaaaaaaaaaaaaaaaaaaaaaaaaaaaaaaaaaaaaaaaaaaaaaaaaaaaaaaaaaaaaaaaaaaaaaaaaaaaaaaaaaaaaaaaaaaaaaaaaaaaaaaaaaaaaaaaaaaaaaaaaaaaaaaaaaaaaaaaaaaaaaaaaaaaaaaaaaaaaaa109".toList) [] RetVal.pass, Node.leaf ("aaaaaaaaaaaaaaaaaaaaaaaaaaaaaaaaaaaaaaaaaaaaaaaaaaaaaaaaaaaaaaaaaaaaaaaaaaaaaaaaaaaaaaaaaaaaaaaaaaaaaaaaaaaaaaaaaaaaaaaaaaaaaaaaaaaaaaaaaaaaaaaaaaaaaaaaaaaaaaaaaaaaaaaaaaaaaaaaaaaaaaaaaaaaaaaaaaaaaaaaaaaaaaaaaaaaaaaaaaaaaaaaaaaaaaaaaaaa110".toList) [] RetVal.pass, Node.leaf ("aaaaaaaaaaaaaaaaaaaaaaaaaaaaaaaaaaaaaaaaaaaaaaaaaaaaaaaaaaaaaaaaaaaaaaaaaaaaaaaaaaaaaaaaaaaaaaaaaaaaaaaaaaaaaaaaaaaaaaaaaaaaaaaaaaaaaaaaaaaaaaaaaaaaaaaaaaaaaaaaaaaaaaaaaaaaaaaaaaaaaaaaaaaaaaaaaaaaaaaaaaaaaaaaaaaaaaaaaaaaaaaaaaaaaaaaaaaa111".toList) [] RetVal.pass, Node.leaf ("aaaaaaaaaaaaaaaaaaaaaaaaaaaaaaaaaaaaaaaaaaaaaaaaaaaaaaaaaaaaaaaaaaaaaaaaaaaaaaaaaaaaaaaaaaaaaaaaaaaaaaaaaaaaaaaaaaaaaaaaaaaaaaaaaaaaaaaaaaaaaaaaaaaaaaaaaaaaaaaaaaaaaaaaaaaaaaaaaaaaaaaaaaaaaaaaaaaaaaaaaaaaaaaaaaaaaaaaaaaaaaaaaaaaaaaaaaaa112".toList) [] RetVal.pass, Node.leaf ("aaaaaaaaaaaaaaaaaaaaaaaaaaaaaaaaaaaaaaaaaaaaaaaaaaaaaaaaaaaaaaaaaaaaaaaaaaaaaaaaaaaaaaaaaaaaaaaaaaaaaaaaaaaaaaaaaaaaaaaaaaaaaaaaaaaaaaaaaaaaaaaaaaaaaaaaaaaaaaaaaaaaaaaaaaaaaaaaaaaaaaaaaaaaaaaaaaaaaaaaaaaaaaaaaaaaaaaaaaaaaaaaaaaaaaaaaaaa113".toList) [] RetVal.pass, Node.leaf ("aaaaaaaaaaaaaaaaaaaaaaaaaaaaaaaaaaaaaaaaaaaaaaaaaaaaaaaaaaaaaaaaaaaaaaaaaaaaaaaaaaaaaaaaaaaaaaaaaaaaaaaaaaaaaaaaaaaaaaaaaaaaaaaaaaaaaaaaaaaaaaaaaaaaaaaaaaaaaaaaaaaaaaaaaaaaaaaaaaaaaaaaaaaaaaaaaaaaaaaaaaaaaaaaaaaaaaaaaaaaaaaaaaaaaaaaaaaa114".toList) [] RetVal.pass, Node.leaf ("aaaaaaaaaaaaaaaaaaaaaaaaaaaaaaaaaaaaaaaaaaaaaaaaaaaaaaaaaaaaaaaaaaaaaaaaaaaaaaaaaaaaaaaaaaaaaaaaaaaaaaaaaaaaaaaaaaaaaaaaaaaaaaaaaaaaaaaaaaaaaaaaaaaaaaaaaaaaaaaaaaaaaaaaaaaaaaaaaaaaaaaaaaaaaaaaaaaaaaaaaaaaaaaaaaaaaaaaaaaaaaaaaaaaaaaaaaaa115".toList) [] RetVal.pass] RetVal.pass c4s21) = Out.ok RetVal.pass c4s37 :=
    (loop_step_ok RET_ROOT_TAG 16 2 (Node.leaf ("aaaaaaaaaaaaaaaaaaaaaaaaaaaaaaaaaaaaaaaaaaaaaaaaaaaaaaaaaaaaaaaaaaaaaaaaaaaaaaaaaaaaaaaaaaaaaaaaaaaaaaaaaaaaaaaaaaaaaaaaaaaaaaaaaaaaaaaaaaaaaaaaaaaaaaaaaaaaaaaaaaaaaaaaaaaaaaaaaaaaaaaaaaaaaaaaaaaaaaaaaaaaaaaaaaaaaaaaaaaaaaaaaaaaaaaaaaaa108".toList) [] RetVal.pass) [Node.leaf ("aaaaaaaaaaaaaaaaaaaaaaaaaaaaaaaaaaaaaaaaaaaaaaaaaaaaaaaaaaaaaaaaaaaaaaaaaaaaaaaaaaaaaaaaaaaaaaaaaaaaaaaaaaaaaaaaaaaaaaaaaaaaaaaaaaaaaaaaaaaaaaaaaaaaaaaaaaaaaaaaaaaaaaaaaaaaaaaaaaaaaaaaaaaaaaaaaaaaaaaaaaaaaaaaaaaaaaaaaaaaaaaaaaaaaaaaaaaa109".toList) [] RetVal.pass, Node.leaf ("aaaaaaaaaaaaaaaaaaaaaaaaaaaaaaaaaaaaaaaaaaaaaaaaaaaaaaaaaaaaaaaaaaaaaaaaaaaaaaaaaaaaaaaaaaaaaaaaaaaaaaaaaaaaaaaaaaaaaaaaaaaaaaaaaaaaaaaaaaaaaaaaaaaaaaaaaaaaaaaaaaaaaaaaaaaaaaaaaaaaaaaaaaaaaaaaaaaaaaaaaaaaaaaaaaaaaaaaaaaaaaaaaaaaaaaaaaaa110".toList) [] RetVal.pass, Node.leaf ("aaaaaaaaaaaaaaaaaaaaaaaaaaaaaaaaaaaaaaaaaaaaaaaaaaaaaaaaaaaaaaaaaaaaaaaaaaaaaaaaaaaaaaaaaaaaaaaaaaaaaaaaaaaaaaaaaaaaaaaaaaaaaaaaaaaaaaaaaaaaaaaaaaaaaaaaaaaaaaaaaaaaaaaaaaaaaaaaaaaaaaaaaaaaaaaaaaaaaaaaaaaaaaaaaaaaaaaaaaaaaaaaaaaaaaaaaaaa111".toList) [] RetVal.pass, Node.leaf ("aaaaaaaaaaaaaaaaaaaaaaaaaaaaaaaaaaaaaaaaaaaaaaaaaaaaaaaaaaaaaaaaaaaaaaaaaaaaaaaaaaaaaaaaaaaaaaaaaaaaaaaaaaaaaaaaaaaaaaaaaaaaaaaaaaaaaaaaaaaaaaaaaaaaaaaaaaaaaaaaaaaaaaaaaaaaaaaaaaaaaaaaaaaaaaaaaaaaaaaaaaaaaaaaaaaaaaaaaaaaaaaaaaaaaaaaaaaa112".toList) [] RetVal.pass, Node.leaf ("aaaaaaaaaaaaaaaaaaaaaaaaaaaaaaaaaaaaaaaaaaaaaaaaaaaaaaaaaaaaaaaaaaaaaaaaaaaaaaaaaaaaaaaaaaaaaaaaaaaaaaaaaaaaaaaaaaaaaaaaaaaaaaaaaaaaaaaaaaaaaaaaaaaaaaaaaaaaaaaaaaaaaaaaaaaaaaaaaaaaaaaaaaaaaaaaaaaaaaaaaaaaaaaaaaaaaaaaaaaaaaaaaaaaaaaaaaaa113".toList) [] RetVal.pass, Node.leaf ("aaaaaaaaaaaaaaaaaaaaaaaaaaaaaaaaaaaaaaaaaaaaaaaaaaaaaaaaaaaaaaaaaaaaaaaaaaaaaaaaaaaaaaaaaaaaaaaaaaaaaaaaaaaaaaaaaaaaaaaaaaaaaaaaaaaaaaaaaaaaaaaaaaaaaaaaaaaaaaaaaaaaaaaaaaaaaaaaaaaaaaaaaaaaaaaaaaaaaaaaaaaaaaaaaaaaaaaaaaaaaaaaaaaaaaaaaaaa114".toList) [] RetVal.pass, Node.leaf ("aaaaaaaaaaaaaaaaaaaaaaaaaaaaaaaaaaaaaaaaaaaaaaaaaaaaaaaaaaaaaaaaaaaaaaaaaaaaaaaaaaaaaaaaaaaaaaaaaaaaaaaaaaaaaaaaaaaaaaaaaaaaaaaaaaaaaaaaaaaaaaaaaaaaaaaaaaaaaaaaaaaaaaaaaaaaaaaaaaaaaaaaaaaaaaaaaaaaaaaaaaaaaaaaaaaaaaaaaaaaaaaaaaaaaaaaaaaa115".toList) [] RetVal.pass] RetVal.pass RetVal.pass c4s21 c4s22 e8).trans e31
  have e33 : step RET_ROOT_TAG 18 (.handle 2 [Node.leaf ("aaaaaaaaaaaaaaaaaaaaaaaaaaaaaaaaaaaaaaaaaaaaaaaaaaaaaaaaaaaaaaaaaaaaaaaaaaaaaaaaaaaaaaaaaaaaaaaaaaaaaaaaaaaaaaaaaaaaaaaaaaaaaaaaaaaaaaaaaaaaaaaaaaaaaaaaaaaaaaaaaaaaaaaaaaaaaaaaaaaaaaaaaaaaaaaaaaaaaaaaaaaaaaaaaaaaaaaaaaaaaaaaaaaaaaaaaaaa108".toList) [] RetVal.pass, Node.leaf ("aaaaaaaaaaaaaaaaaaaaaaaaaaaaaaaaaaaaaaaaaaaaaaaaaaaaaaaaaaaaaaaaaaaaaaaaaaaaaaaaaaaaaaaaaaaaaaaaaaaaaaaaaaaaaaaaaaaaaaaaaaaaaaaaaaaaaaaaaaaaaaaaaaaaaaaaaaaaaaaaaaaaaaaaaaaaaaaaaaaaaaaaaaaaaaaaaaaaaaaaaaaaaaaaaaaaaaaaaaaaaaaaaaaaaaaaaaaa109".toList) [] RetVal.pass, Node.leaf ("aaaaaaaaaaaaaaaaaaaaaaaaaaaaaaaaaaaaaaaaaaaaaaaaaaaaaaaaaaaaaaaaaaaaaaaaaaaaaaaaaaaaaaaaaaaaaaaaaaaaaaaaaaaaaaaaaaaaaaaaaaaaaaaaaaaaaaaaaaaaaaaaaaaaaaaaaaaaaaaaaaaaaaaaaaaaaaaaaaaaaaaaaaaaaaaaaaaaaaaaaaaaaaaaaaaaaaaaaaaaaaaaaaaaaaaaaaaa110".toList) [] RetVal.pass, Node.leaf ("aaaaaaaaaaaaaaaaaaaaaaaaaaaaaaaaaaaaaaaaaaaaaaaaaaaaaaaaaaaaaaaaaaaaaaaaaaaaaaaaaaaaaaaaaaaaaaaaaaaaaaaaaaaaaaaaaaaaaaaaaaaaaaaaaaaaaaaaaaaaaaaaaaaaaaaaaaaaaaaaaaaaaaaaaaaaaaaaaaaaaaaaaaaaaaaaaaaaaaaaaaaaaaaaaaaaaaaaaaaaaaaaaaaaaaaaaaaa111".toList) [] RetVal.pass, Node.leaf ("aaaaaaaaaaaaaaaaaaaaaaaaaaaaaaaaaaaaaaaaaaaaaaaaaaaaaaaaaaaaaaaaaaaaaaaaaaaaaaaaaaaaaaaaaaaaaaaaaaaaaaaaaaaaaaaaaaaaaaaaaaaaaaaaaaaaaaaaaaaaaaaaaaaaaaaaaaaaaaaaaaaaaaaaaaaaaaaaaaaaaaaaaaaaaaaaaaaaaaaaaaaaaaaaaaaaaaaaaaaaaaaaaaaaaaaaaaaa112".toList) [] RetVal.pass, Node.leaf ("aaaaaaaaaaaaaaaaaaaaaaaaaaaaaaaaaaaaaaaaaaaaaaaaaaaaaaaaaaaaaaaaaaaaaaaaaaaaaaaaaaaaaaaaaaaaaaaaaaaaaaaaaaaaaaaaaaaaaaaaaaaaaaaaaaaaaaaaaaaaaaaaaaaaaaaaaaaaaaaaaaaaaaaaaaaaaaaaaaaaaaaaaaaaaaaaaaaaaaaaaaaaaaaaaaaaaaaaaaaaaaaaaaaaaaaaaaaa113".toList) [] RetVal.pass, Node.leaf ("aaaaaaaaaaaaaaaaaaaaaaaaaaaaaaaaaaaaaaaaaaaaaaaaaaaaaaaaaaaaaaaaaaaaaaaaaaaaaaaaaaaaaaaaaaaaaaaaaaaaaaaaaaaaaaaaaaaaaaaaaaaaaaaaaaaaaaaaaaaaaaaaaaaaaaaaaaaaaaaaaaaaaaaaaaaaaaaaaaaaaaaaaaaaaaaaaaaaaaaaaaaaaaaaaaaaaaaaaaaaaaaaaaaaaaaaaaaa114".toList) [] RetVal.pass, Node.leaf ("aaaaaaaaaaaaaaaaaaaaaaaaaaaaaaaaaaaaaaaaaaaaaaaaaaaaaaaaaaaaaaaaaaaaaaaaaaaaaaaaaaaaaaaaaaaaaaaaaaaaaaaaaaaaaaaaaaaaaaaaaaaaaaaaaaaaaaaaaaaaaaaaaaaaaaaaaaaaaaaaaaaaaaaaaaaaaaaaaaaaaaaaaaaaaaaaaaaaaaaaaaaaaaaaaaaaaaaaaaaaaaaaaaaaaaaaaaaa115".toList) [] RetVal.pass] RetVal.pass RetVal.pass c4s20) = Out.ok RetVal.pass c4s37 :=
    (handle_step_exit_ok RET_ROOT_TAG 17 2 [Node.leaf ("aaaaaaaaaaaaaaaaaaaaaaaaaaaaaaaaaaaaaaaaaaaaaaaaaaaaaaaaaaaaaaaaaaaaaaaaaaaaaaaaaaaaaaaaaaaaaaaaaaaaaaaaaaaaaaaaaaaaaaaaaaaaaaaaaaaaaaaaaaaaaaaaaaaaaaaaaaaaaaaaaaaaaaaaaaaaaaaaaaaaaaaaaaaaaaaaaaaaaaaaaaaaaaaaaaaaaaaaaaaaaaaaaaaaaaaaaaaa108".toList) [] RetVal.pass, Node.leaf ("aaaaaaaaaaaaaaaaaaaaaaaaaaaaaaaaaaaaaaaaaaaaaaaaaaaaaaaaaaaaaaaaaaaaaaaaaaaaaaaaaaaaaaaaaaaaaaaaaaaaaaaaaaaaaaaaaaaaaaaaaaaaaaaaaaaaaaaaaaaaaaaaaaaaaaaaaaaaaaaaaaaaaaaaaaaaaaaaaaaaaaaaaaaaaaaaaaaaaaaaaaaaaaaaaaaaaaaaaaaaaaaaaaaaaaaaaaaa109".toList) [] RetVal.pass, Node.leaf ("aaaaaaaaaaaaaaaaaaaaaaaaaaaaaaaaaaaaaaaaaaaaaaaaaaaaaaaaaaaaaaaaaaaaaaaaaaaaaaaaaaaaaaaaaaaaaaaaaaaaaaaaaaaaaaaaaaaaaaaaaaaaaaaaaaaaaaaaaaaaaaaaaaaaaaaaaaaaaaaaaaaaaaaaaaaaaaaaaaaaaaaaaaaaaaaaaaaaaaaaaaaaaaaaaaaaaaaaaaaaaaaaaaaaaaaaaaaa110".toList) [] RetVal.pass, Node.leaf ("aaaaaaaaaaaaaaaaaaaaaaaaaaaaaaaaaaaaaaaaaaaaaaaaaaaaaaaaaaaaaaaaaaaaaaaaaaaaaaaaaaaaaaaaaaaaaaaaaaaaaaaaaaaaaaaaaaaaaaaaaaaaaaaaaaaaaaaaaaaaaaaaaaaaaaaaaaaaaaaaaaaaaaaaaaaaaaaaaaaaaaaaaaaaaaaaaaaaaaaaaaaaaaaaaaaaaaaaaaaaaaaaaaaaaaaaaaaa111".toList) [] RetVal.pass, Node.leaf ("aaaaaaaaaaaaaaaaaaaaaaaaaaaaaaaaaaaaaaaaaaaaaaaaaaaaaaaaaaaaaaaaaaaaaaaaaaaaaaaaaaaaaaaaaaaaaaaaaaaaaaaaaaaaaaaaaaaaaaaaaaaaaaaaaaaaaaaaaaaaaaaaaaaaaaaaaaaaaaaaaaaaaaaaaaaaaaaaaaaaaaaaaaaaaaaaaaaaaaaaaaaaaaaaaaaaaaaaaaaaaaaaaaaaaaaaaaaa112".toList) [] RetVal.pass, Node.leaf ("aaaaaaaaaaaaaaaaaaaaaaaaaaaaaaaaaaaaaaaaaaaaaaaaaaaaaaaaaaaaaaaaaaaaaaaaaaaaaaaaaaaaaaaaaaaaaaaaaaaaaaaaaaaaaaaaaaaaaaaaaaaaaaaaaaaaaaaaaaaaaaaaaaaaaaaaaaaaaaaaaaaaaaaaaaaaaaaaaaaaaaaaaaaaaaaaaaaaaaaaaaaaaaaaaaaaaaaaaaaaaaaaaaaaaaaaaaaa113".toList) [] RetVal.pass, Node.leaf ("aaaaaaaaaaaaaaaaaaaaaaaaaaaaaaaaaaaaaaaaaaaaaaaaaaaaaaaaaaaaaaaaaaaaaaaaaaaaaaaaaaaaaaaaaaaaaaaaaaaaaaaaaaaaaaaaaaaaaaaaaaaaaaaaaaaaaaaaaaaaaaaaaaaaaaaaaaaaaaaaaaaaaaaaaaaaaaaaaaaaaaaaaaaaaaaaaaaaaaaaaaaaaaaaaaaaaaaaaaaaaaaaaaaaaaaaaaaa114".toList) [] RetVal.pass, Node.leaf ("aaaaaaaaaaaaaaaaaaaaaaaaaaaaaaaaaaaaaaaaaaaaaaaaaaaaaaaaaaaaaaaaaaaaaaaaaaaaaaaaaaaaaaaaaaaaaaaaaaaaaaaaaaaaaaaaaaaaaaaaaaaaaaaaaaaaaaaaaaaaaaaaaaaaaaaaaaaaaaaaaaaaaaaaaaaaaaaaaaaaaaaaaaaaaaaaaaaaaaaaaaaaaaaaaaaaaaaaaaaaaaaaaaaaaaaaaaaa115".toList) [] RetVal.pass] RetVal.pass RetVal.pass c4s20 c4s21 (rfl)).trans e32
  have e34 : step RET_ROOT_TAG 19 (.loop 2 [Node.leaf ("aaaaaaaaaaaaaaaaaaaaaaaaaaaaaaaaaaaaaaaaaaaaaaaaaaaaaaaaaaaaaaaaaaaaaaaaaaaaaaaaaaaaaaaaaaaaaaaaaaaaaaaaaaaaaaaaaaaaaaaaaaaaaaaaaaaaaaaaaaaaaaaaaaaaaaaaaaaaaaaaaaaaaaaaaaaaaaaaaaaaaaaaaaaaaaaaaaaaaaaaaaaaaaaaaaaaaaaaaaaaaaaaaaaaaaaaaaaa107".toList) [] RetVal.pass, Node.leaf ("aaaaaaaaaaaaaaaaaaaaaaaaaaaaaaaaaaaaaaaaaaaaaaaaaaaaaaaaaaaaaaaaaaaaaaaaaaaaaaaaaaaaaaaaaaaaaaaaaaaaaaaaaaaaaaaaaaaaaaaaaaaaaaaaaaaaaaaaaaaaaaaaaaaaaaaaaaaaaaaaaaaaaaaaaaaaaaaaaaaaaaaaaaaaaaaaaaaaaaaaaaaaaaaaaaaaaaaaaaaaaaaaaaaaaaaaaaaa108".toList) [] RetVal.pass, Node.leaf ("aaaaaaaaaaaaaaaaaaaaaaaaaaaaaaaaaaaaaaaaaaaaaaaaaaaaaaaaaaaaaaaaaaaaaaaaaaaaaaaaaaaaaaaaaaaaaaaaaaaaaaaaaaaaaaaaaaaaaaaaaaaaaaaaaaaaaaaaaaaaaaaaaaaaaaaaaaaaaaaaaaaaaaaaaaaaaaaaaaaaaaaaaaaaaaaaaaaaaaaaaaaaaaaaaaaaaaaaaaaaaaaaaaaaaaaaaaaa109".toList) [] RetVal.pass, Node.leaf ("aaaaaaaaaaaaaaaaaaaaaaaaaaaaaaaaaaaaaaaaaaaaaaaaaaaaaaaaaaaaaaaaaaaaaaaaaaaaaaaaaaaaaaaaaaaaaaaaaaaaaaaaaaaaaaaaaaaaaaaaaaaaaaaaaaaaaaaaaaaaaaaaaaaaaaaaaaaaaaaaaaaaaaaaaaaaaaaaaaaaaaaaaaaaaaaaaaaaaaaaaaaaaaaaaaaaaaaaaaaaaaaaaaaaaaaaaaaa110".toList) [] RetVal.pass, Node.leaf ("aaaaaaaaaaaaaaaaaaaaaaaaaaaaaaaaaaaaaaaaaaaaaaaaaaaaaaaaaaaaaaaaaaaaaaaaaaaaaaaaaaaaaaaaaaaaaaaaaaaaaaaaaaaaaaaaaaaaaaaaaaaaaaaaaaaaaaaaaaaaaaaaaaaaaaaaaaaaaaaaaaaaaaaaaaaaaaaaaaaaaaaaaaaaaaaaaaaaaaaaaaaaaaaaaaaaaaaaaaaaaaaaaaaaaaaaaaaa111".toList) [] RetVal.pass, Node.leaf ("aaaaaaaaaaaaaaaaaaaaaaaaaaaaaaaaaaaaaaaaaaaaaaaaaaaaaaaaaaaaaaaaaaaaaaaaaaaaaaaaaaaaaaaaaaaaaaaaaaaaaaaaaaaaaaaaaaaaaaaaaaaaaaaaaaaaaaaaaaaaaaaaaaaaaaaaaaaaaaaaaaaaaaaaaaaaaaaaaaaaaaaaaaaaaaaaaaaaaaaaaaaaaaaaaaaaaaaaaaaaaaaaaaaaaaaaaaaa112".toList) [] RetVal.pass, Node.leaf ("aaaaaaaaaaaaaaaaaaaaaaaaaaaaaaaaaaaaaaaaaaaaaaaaaaaaaaaaaaaaaaaaaaaaaaaaaaaaaaaaaaaaaaaaaaaaaaaaaaaaaaaaaaaaaaaaaaaaaaaaaaaaaaaaaaaaaaaaaaaaaaaaaaaaaaaaaaaaaaaaaaaaaaaaaaaaaaaaaaaaaaaaaaaaaaaaaaaaaaaaaaaaaaaaaaaaaaaaaaaaaaaaaaaaaaaaaaaa113".toList) [] RetVal.pass, Node.leaf ("aaaaaaaaaaaaaaaaaaaaaaaaaaaaaaaaaaaaaaaaaaaaaaaaaaaaaaaaaaaaaaaaaaaaaaaaaaaaaaaaaaaaaaaaaaaaaaaaaaaaaaaaaaaaaaaaaaaaaaaaaaaaaaaaaaaaaaaaaaaaaaaaaaaaaaaaaaaaaaaaaaaaaaaaaaaaaaaaaaaaaaaaaaaaaaaaaaaaaaaaaaaaaaaaaaaaaaaaaaaaaaaaaaaaaaaaaaaa114".toList) [] RetVal.pass, Node.leaf ("aaaaaaaaaaaaaaaaaaaaaaaaaaaaaaaaaaaaaaaaaaaaaaaaaaaaaaaaaaaaaaaaaaaaaaaaaaaaaaaaaaaaaaaaaaaaaaaaaaaaaaaaaaaaaaaaaaaaaaaaaaaaaaaaaaaaaaaaaaaaaaaaaaaaaaaaaaaaaaaaaaaaaaaaaaaaaaaaaaaaaaaaaaaaaaaaaaaaaaaaaaaaaaaaaaaaaaaaaaaaaaaaaaaaaaaaaaaa115".toList) [] RetVal.pass] RetVal.pass c4s19) = Out.ok RetVal.pass c4s37 :=
    (loop_step_ok RET_ROOT_TAG 18 2 (Node.leaf ("aaaaaaaaaaaaaaaaaaaaaaaaaaaaaaaaaaaaaaaaaaaaaaaaaaaaaaaaaaaaaaaaaaaaaaaaaaaaaaaaaaaaaaaaaaaaaaaaaaaaaaaaaaaaaaaaaaaaaaaaaaaaaaaaaaaaaaaaaaaaaaaaaaaaaaaaaaaaaaaaaaaaaaaaaaaaaaaaaaaaaaaaaaaaaaaaaaaaaaaaaaaaaaaaaaaaaaaaaaaaaaaaaaaaaaaaaaaa107".toList) [] RetVal.pass) [Node.leaf ("aaaaaaaaaaaaaaaaaaaaaaaaaaaaaaaaaaaaaaaaaaaaaaaaaaaaaaaaaaaaaaaaaaaaaaaaaaaaaaaaaaaaaaaaaaaaaaaaaaaaaaaaaaaaaaaaaaaaaaaaaaaaaaaaaaaaaaaaaaaaaaaaaaaaaaaaaaaaaaaaaaaaaaaaaaaaaaaaaaaaaaaaaaaaaaaaaaaaaaaaaaaaaaaaaaaaaaaaaaaaaaaaaaaaaaaaaaaa108".toList) [] RetVal.pass, Node.leaf ("aaaaaaaaaaaaaaaaaaaaaaaaaaaaaaaaaaaaaaaaaaaaaaaaaaaaaaaaaaaaaaaaaaaaaaaaaaaaaaaaaaaaaaaaaaaaaaaaaaaaaaaaaaaaaaaaaaaaaaaaaaaaaaaaaaaaaaaaaaaaaaaaaaaaaaaaaaaaaaaaaaaaaaaaaaaaaaaaaaaaaaaaaaaaaaaaaaaaaaaaaaaaaaaaaaaaaaaaaaaaaaaaaaaaaaaaaaaa109".toList) [] RetVal.pass, Node.leaf ("aaaaaaaaaaaaaaaaaaaaaaaaaaaaaaaaaaaaaaaaaaaaaaaaaaaaaaaaaaaaaaaaaaaaaaaaaaaaaaaaaaaaaaaaaaaaaaaaaaaaaaaaaaaaaaaaaaaaaaaaaaaaaaaaaaaaaaaaaaaaaaaaaaaaaaaaaaaaaaaaaaaaaaaaaaaaaaaaaaaaaaaaaaaaaaaaaaaaaaaaaaaaaaaaaaaaaaaaaaaaaaaaaaaaaaaaaaaa110".toList) [] RetVal.pass, Node.leaf ("aaaaaaaaaaaaaaaaaaaaaaaaaaaaaaaaaaaaaaaaaaaaaaaaaaaaaaaaaaaaaaaaaaaaaaaaaaaaaaaaaaaaaaaaaaaaaaaaaaaaaaaaaaaaaaaaaaaaaaaaaaaaaaaaaaaaaaaaaaaaaaaaaaaaaaaaaaaaaaaaaaaaaaaaaaaaaaaaaaaaaaaaaaaaaaaaaaaaaaaaaaaaaaaaaaaaaaaaaaaaaaaaaaaaaaaaaaaa111".toList) [] RetVal.pass, Node.leaf ("aaaaaaaaaaaaaaaaaaaaaaaaaaaaaaaaaaaaaaaaaaaaaaaaaaaaaaaaaaaaaaaaaaaaaaaaaaaaaaaaaaaaaaaaaaaaaaaaaaaaaaaaaaaaaaaaaaaaaaaaaaaaaaaaaaaaaaaaaaaaaaaaaaaaaaaaaaaaaaaaaaaaaaaaaaaaaaaaaaaaaaaaaaaaaaaaaaaaaaaaaaaaaaaaaaaaaaaaaaaaaaaaaaaaaaaaaaaa112".toList) [] RetVal.pass, Node.leaf ("aaaaaaaaaaaaaaaaaaaaaaaaaaaaaaaaaaaaaaaaaaaaaaaaaaaaaaaaaaaaaaaaaaaaaaaaaaaaaaaaaaaaaaaaaaaaaaaaaaaaaaaaaaaaaaaaaaaaaaaaaaaaaaaaaaaaaaaaaaaaaaaaaaaaaaaaaaaaaaaaaaaaaaaaaaaaaaaaaaaaaaaaaaaaaaaaaaaaaaaaaaaaaaaaaaaaaaaaaaaaaaaaaaaaaaaaaaaa113".toList) [] RetVal.pass, Node.leaf ("aaaaaaaaaaaaaaaaaaaaaaaaaaaaaaaaaaaaaaaaaaaaaaaaaaaaaaaaaaaaaaaaaaaaaaaaaaaaaaaaaaaaaaaaaaaaaaaaaaaaaaaaaaaaaaaaaaaaaaaaaaaaaaaaaaaaaaaaaaaaaaaaaaaaaaaaaaaaaaaaaaaaaaaaaaaaaaaaaaaaaaaaaaaaaaaaaaaaaaaaaaaaaaaaaaaaaaaaaaaaaaaaaaaaaaaaaaaa114".toList) [] RetVal.pass, Node.leaf ("aaaaaaaaaaaaaaaaaaaaaaaaaaaaaaaaaaaaaaaaaaaaaaaaaaaaaaaaaaaaaaaaaaaaaaaaaaaaaaaaaaaaaaaaaaaaaaaaaaaaaaaaaaaaaaaaaaaaaaaaaaaaaaaaaaaaaaaaaaaaaaaaaaaaaaaaaaaaaaaaaaaaaaaaaaaaaaaaaaaaaaaaaaaaaaaaaaaaaaaaaaaaaaaaaaaaaaaaaaaaaaaaaaaaaaaaaaaa115".toList) [] RetVal.pass] RetVal.pass RetVal.pass c4s19 c4s20 e7).trans e33
  have e35 : step RET_ROOT_TAG 20 (.handle 2 [Node.leaf ("aaaaaaaaaaaaaaaaaaaaaaaaaaaaaaaaaaaaaaaaaaaaaaaaaaaaaaaaaaaaaaaaaaaaaaaaaaaaaaaaaaaaaaaaaaaaaaaaaaaaaaaaaaaaaaaaaaaaaaaaaaaaaaaaaaaaaaaaaaaaaaaaaaaaaaaaaaaaaaaaaaaaaaaaaaaaaaaaaaaaaaaaaaaaaaaaaaaaaaaaaaaaaaaaaaaaaaaaaaaaaaaaaaaaaaaaaaaa107".toList) [] RetVal.pass, Node.leaf ("aaaaaaaaaaaaaaaaaaaaaaaaaaaaaaaaaaaaaaaaaaaaaaaaaaaaaaaaaaaaaaaaaaaaaaaaaaaaaaaaaaaaaaaaaaaaaaaaaaaaaaaaaaaaaaaaaaaaaaaaaaaaaaaaaaaaaaaaaaaaaaaaaaaaaaaaaaaaaaaaaaaaaaaaaaaaaaaaaaaaaaaaaaaaaaaaaaaaaaaaaaaaaaaaaaaaaaaaaaaaaaaaaaaaaaaaaaaa108".toList) [] RetVal.pass, Node.leaf ("aaaaaaaaaaaaaaaaaaaaaaaaaaaaaaaaaaaaaaaaaaaaaaaaaaaaaaaaaaaaaaaaaaaaaaaaaaaaaaaaaaaaaaaaaaaaaaaaaaaaaaaaaaaaaaaaaaaaaaaaaaaaaaaaaaaaaaaaaaaaaaaaaaaaaaaaaaaaaaaaaaaaaaaaaaaaaaaaaaaaaaaaaaaaaaaaaaaaaaaaaaaaaaaaaaaaaaaaaaaaaaaaaaaaaaaaaaaa109".toList) [] RetVal.pass, Node.leaf ("aaaaaaaaaaaaaaaaaaaaaaaaaaaaaaaaaaaaaaaaaaaaaaaaaaaaaaaaaaaaaaaaaaaaaaaaaaaaaaaaaaaaaaaaaaaaaaaaaaaaaaaaaaaaaaaaaaaaaaaaaaaaaaaaaaaaaaaaaaaaaaaaaaaaaaaaaaaaaaaaaaaaaaaaaaaaaaaaaaaaaaaaaaaaaaaaaaaaaaaaaaaaaaaaaaaaaaaaaaaaaaaaaaaaaaaaaaaa110".toList) [] RetVal.pass, Node.leaf ("aaaaaaaaaaaaaaaaaaaaaaaaaaaaaaaaaaaaaaaaaaaaaaaaaaaaaaaaaaaaaaaaaaaaaaaaaaaaaaaaaaaaaaaaaaaaaaaaaaaaaaaaaaaaaaaaaaaaaaaaaaaaaaaaaaaaaaaaaaaaaaaaaaaaaaaaaaaaaaaaaaaaaaaaaaaaaaaaaaaaaaaaaaaaaaaaaaaaaaaaaaaaaaaaaaaaaaaaaaaaaaaaaaaaaaaaaaaa111".toList) [] RetVal.pass, Node.leaf ("aaaaaaaaaaaaaaaaaaaaaaaaaaaaaaaaaaaaaaaaaaaaaaaaaaaaaaaaaaaaaaaaaaaaaaaaaaaaaaaaaaaaaaaaaaaaaaaaaaaaaaaaaaaaaaaaaaaaaaaaaaaaaaaaaaaaaaaaaaaaaaaaaaaaaaaaaaaaaaaaaaaaaaaaaaaaaaaaaaaaaaaaaaaaaaaaaaaaaaaaaaaaaaaaaaaaaaaaaaaaaaaaaaaaaaaaaaaa112".toList) [] RetVal.pass, Node.leaf ("aaaaaaaaaaaaaaaaaaaaaaaaaaaaaaaaaaaaaaaaaaaaaaaaaaaaaaaaaaaaaaaaaaaaaaaaaaaaaaaaaaaaaaaaaaaaaaaaaaaaaaaaaaaaaaaaaaaaaaaaaaaaaaaaaaaaaaaaaaaaaaaaaaaaaaaaaaaaaaaaaaaaaaaaaaaaaaaaaaaaaaaaaaaaaaaaaaaaaaaaaaaaaaaaaaaaaaaaaaaaaaaaaaaaaaaaaaaa113".toList) [] RetVal.pass, Node.leaf ("aaaaaaaaaaaaaaaaaaaaaaaaaaaaaaaaaaaaaaaaaaaaaaaaaaaaaaaaaaaaaaaaaaaaaaaaaaaaaaaaaaaaaaaaaaaaaaaaaaaaaaaaaaaaaaaaaaaaaaaaaaaaaaaaaaaaaaaaaaaaaaaaaaaaaaaaaaaaaaaaaaaaaaaaaaaaaaaaaaaaaaaaaaaaaaaaaaaaaaaaaaaaaaaaaaaaaaaaaaaaaaaaaaaaaaaaaaaa114".toList) [] RetVal.pass, Node.leaf ("aaaaaaaaaaaaaaaaaaaaaaaaaaaaaaaaaaaaaaaaaaaaaaaaaaaaaaaaaaaaaaaaaaaaaaaaaaaaaaaaaaaaaaaaaaaaaaaaaaaaaaaaaaaaaaaaaaaaaaaaaaaaaaaaaaaaaaaaaaaaaaaaaaaaaaaaaaaaaaaaaaaaaaaaaaaaaaaaaaaaaaaaaaaaaaaaaaaaaaaaaaaaaaaaaaaaaaaaaaaaaaaaaaaaaaaaaaaa115".toList) [] RetVal.pass] RetVal.pass RetVal.pass c4s18) = Out.ok RetVal.pass c4s37 :=
    (handle_step_exit_ok RET_ROOT_TAG 19 2 [Node.leaf ("aaaaaaaaaaaaaaaaaaaaaaaaaaaaaaaaaaaaaaaaaaaaaaaaaaaaaaaaaaaaaaaaaaaaaaaaaaaaaaaaaaaaaaaaaaaaaaaaaaaaaaaaaaaaaaaaaaaaaaaaaaaaaaaaaaaaaaaaaaaaaaaaaaaaaaaaaaaaaaaaaaaaaaaaaaaaaaaaaaaaaaaaaaaaaaaaaaaaaaaaaaaaaaaaaaaaaaaaaaaaaaaaaaaaaaaaaaaa107".toList) [] RetVal.pass, Node.leaf ("aaaaaaaaaaaaaaaaaaaaaaaaaaaaaaaaaaaaaaaaaaaaaaaaaaaaaaaaaaaaaaaaaaaaaaaaaaaaaaaaaaaaaaaaaaaaaaaaaaaaaaaaaaaaaaaaaaaaaaaaaaaaaaaaaaaaaaaaaaaaaaaaaaaaaaaaaaaaaaaaaaaaaaaaaaaaaaaaaaaaaaaaaaaaaaaaaaaaaaaaaaaaaaaaaaaaaaaaaaaaaaaaaaaaaaaaaaaa108".toList) [] RetVal.pass, Node.leaf ("aaaaaaaaaaaaaaaaaaaaaaaaaaaaaaaaaaaaaaaaaaaaaaaaaaaaaaaaaaaaaaaaaaaaaaaaaaaaaaaaaaaaaaaaaaaaaaaaaaaaaaaaaaaaaaaaaaaaaaaaaaaaaaaaaaaaaaaaaaaaaaaaaaaaaaaaaaaaaaaaaaaaaaaaaaaaaaaaaaaaaaaaaaaaaaaaaaaaaaaaaaaaaaaaaaaaaaaaaaaaaaaaaaaaaaaaaaaa109".toList) [] RetVal.pass, Node.leaf ("aaaaaaaaaaaaaaaaaaaaaaaaaaaaaaaaaaaaaaaaaaaaaaaaaaaaaaaaaaaaaaaaaaaaaaaaaaaaaaaaaaaaaaaaaaaaaaaaaaaaaaaaaaaaaaaaaaaaaaaaaaaaaaaaaaaaaaaaaaaaaaaaaaaaaaaaaaaaaaaaaaaaaaaaaaaaaaaaaaaaaaaaaaaaaaaaaaaaaaaaaaaaaaaaaaaaaaaaaaaaaaaaaaaaaaaaaaaa110".toList) [] RetVal.pass, Node.leaf ("aaaaaaaaaaaaaaaaaaaaaaaaaaaaaaaaaaaaaaaaaaaaaaaaaaaaaaaaaaaaaaaaaaaaaaaaaaaaaaaaaaaaaaaaaaaaaaaaaaaaaaaaaaaaaaaaaaaaaaaaaaaaaaaaaaaaaaaaaaaaaaaaaaaaaaaaaaaaaaaaaaaaaaaaaaaaaaaaaaaaaaaaaaaaaaaaaaaaaaaaaaaaaaaaaaaaaaaaaaaaaaaaaaaaaaaaaaaa111".toList) [] RetVal.pass, Node.leaf ("aaaaaaaaaaaaaaaaaaaaaaaaaaaaaaaaaaaaaaaaaaaaaaaaaaaaaaaaaaaaaaaaaaaaaaaaaaaaaaaaaaaaaaaaaaaaaaaaaaaaaaaaaaaaaaaaaaaaaaaaaaaaaaaaaaaaaaaaaaaaaaaaaaaaaaaaaaaaaaaaaaaaaaaaaaaaaaaaaaaaaaaaaaaaaaaaaaaaaaaaaaaaaaaaaaaaaaaaaaaaaaaaaaaaaaaaaaaa112".toList) [] RetVal.pass, Node.leaf ("aaaaaaaaaaaaaaaaaaaaaaaaaaaaaaaaaaaaaaaaaaaaaaaaaaaaaaaaaaaaaaaaaaaaaaaaaaaaaaaaaaaaaaaaaaaaaaaaaaaaaaaaaaaaaaaaaaaaaaaaaaaaaaaaaaaaaaaaaaaaaaaaaaaaaaaaaaaaaaaaaaaaaaaaaaaaaaaaaaaaaaaaaaaaaaaaaaaaaaaaaaaaaaaaaaaaaaaaaaaaaaaaaaaaaaaaaaaa113".toList) [] RetVal.pass, Node.leaf ("aaaaaaaaaaaaaaaaaaaaaaaaaaaaaaaaaaaaaaaaaaaaaaaaaaaaaaaaaaaaaaaaaaaaaaaaaaaaaaaaaaaaaaaaaaaaaaaaaaaaaaaaaaaaaaaaaaaaaaaaaaaaaaaaaaaaaaaaaaaaaaaaaaaaaaaaaaaaaaaaaaaaaaaaaaaaaaaaaaaaaaaaaaaaaaaaaaaaaaaaaaaaaaaaaaaaaaaaaaaaaaaaaaaaaaaaaaaa114".toList) [] RetVal.pass, Node.leaf ("aaaaaaaaaaaaaaaaaaaaaaaaaaaaaaaaaaaaaaaaaaaaaaaaaaaaaaaaaaaaaaaaaaaaaaaaaaaaaaaaaaaaaaaaaaaaaaaaaaaaaaaaaaaaaaaaaaaaaaaaaaaaaaaaaaaaaaaaaaaaaaaaaaaaaaaaaaaaaaaaaaaaaaaaaaaaaaaaaaaaaaaaaaaaaaaaaaaaaaaaaaaaaaaaaaaaaaaaaaaaaaaaaaaaaaaaaaaa115".toList) [] RetVal.pass] RetVal.pass RetVal.pass c4s18 c4s19 (rfl)).trans e34
  have e36 : step RET_ROOT_TAG 21 (.loop 2 [Node.leaf ("aaaaaaaaaaaaaaaaaaaaaaaaaaaaaaaaaaaaaaaaaaaaaaaaaaaaaaaaaaaaaaaaaaaaaaaaaaaaaaaaaaaaaaaaaaaaaaaaaaaaaaaaaaaaaaaaaaaaaaaaaaaaaaaaaaaaaaaaaaaaaaaaaaaaaaaaaaaaaaaaaaaaaaaaaaaaaaaaaaaaaaaaaaaaaaaaaaaaaaaaaaaaaaaaaaaaaaaaaaaaaaaaaaaaaaaaaaaa106".toList) [] RetVal.pass, Node.leaf ("aaaaaaaaaaaaaaaaaaaaaaaaaaaaaaaaaaaaaaaaaaaaaaaaaaaaaaaaaaaaaaaaaaaaaaaaaaaaaaaaaaaaaaaaaaaaaaaaaaaaaaaaaaaaaaaaaaaaaaaaaaaaaaaaaaaaaaaaaaaaaaaaaaaaaaaaaaaaaaaaaaaaaaaaaaaaaaaaaaaaaaaaaaaaaaaaaaaaaaaaaaaaaaaaaaaaaaaaaaaaaaaaaaaaaaaaaaaa107".toList) [] RetVal.pass, Node.leaf ("aaaaaaaaaaaaaaaaaaaaaaaaaaaaaaaaaaaaaaaaaaaaaaaaaaaaaaaaaaaaaaaaaaaaaaaaaaaaaaaaaaaaaaaaaaaaaaaaaaaaaaaaaaaaaaaaaaaaaaaaaaaaaaaaaaaaaaaaaaaaaaaaaaaaaaaaaaaaaaaaaaaaaaaaaaaaaaaaaaaaaaaaaaaaaaaaaaaaaaaaaaaaaaaaaaaaaaaaaaaaaaaaaaaaaaaaaaaa108".toList) [] RetVal.pass, Node.leaf ("aaaaaaaaaaaaaaaaaaaaaaaaaaaaaaaaaaaaaaaaaaaaaaaaaaaaaaaaaaaaaaaaaaaaaaaaaaaaaaaaaaaaaaaaaaaaaaaaaaaaaaaaaaaaaaaaaaaaaaaaaaaaaaaaaaaaaaaaaaaaaaaaaaaaaaaaaaaaaaaaaaaaaaaaaaaaaaaaaaaaaaaaaaaaaaaaaaaaaaaaaaaaaaaaaaaaaaaaaaaaaaaaaaaaaaaaaaaa109".toList) [] RetVal.pass, Node.leaf ("aaaaaaaaaaaaaaaaaaaaaaaaaaaaaaaaaaaaaaaaaaaaaaaaaaaaaaaaaaaaaaaaaaaaaaaaaaaaaaaaaaaaaaaaaaaaaaaaaaaaaaaaaaaaaaaaaaaaaaaaaaaaaaaaaaaaaaaaaaaaaaaaaaaaaaaaaaaaaaaaaaaaaaaaaaaaaaaaaaaaaaaaaaaaaaaaaaaaaaaaaaaaaaaaaaaaaaaaaaaaaaaaaaaaaaaaaaaa110".toList) [] RetVal.pass, Node.leaf ("aaaaaaaaaaaaaaaaaaaaaaaaaaaaaaaaaaaaaaaaaaaaaaaaaaaaaaaaaaaaaaaaaaaaaaaaaaaaaaaaaaaaaaaaaaaaaaaaaaaaaaaaaaaaaaaaaaaaaaaaaaaaaaaaaaaaaaaaaaaaaaaaaaaaaaaaaaaaaaaaaaaaaaaaaaaaaaaaaaaaaaaaaaaaaaaaaaaaaaaaaaaaaaaaaaaaaaaaaaaaaaaaaaaaaaaaaaaa111".toList) [] RetVal.pass, Node.leaf ("aaaaaaaaaaaaaaaaaaaaaaaaaaaaaaaaaaaaaaaaaaaaaaaaaaaaaaaaaaaaaaaaaaaaaaaaaaaaaaaaaaaaaaaaaaaaaaaaaaaaaaaaaaaaaaaaaaaaaaaaaaaaaaaaaaaaaaaaaaaaaaaaaaaaaaaaaaaaaaaaaaaaaaaaaaaaaaaaaaaaaaaaaaaaaaaaaaaaaaaaaaaaaaaaaaaaaaaaaaaaaaaaaaaaaaaaaaaa112".toList) [] RetVal.pass, Node.leaf ("aaaaaaaaaaaaaaaaaaaaaaaaaaaaaaaaaaaaaaaaaaaaaaaaaaaaaaaaaaaaaaaaaaaaaaaaaaaaaaaaaaaaaaaaaaaaaaaaaaaaaaaaaaaaaaaaaaaaaaaaaaaaaaaaaaaaaaaaaaaaaaaaaaaaaaaaaaaaaaaaaaaaaaaaaaaaaaaaaaaaaaaaaaaaaaaaaaaaaaaaaaaaaaaaaaaaaaaaaaaaaaaaaaaaaaaaaaaa113".toList) [] RetVal.pass, Node.leaf ("aaaaaaaaaaaaaaaaaaaaaaaaaaaaaaaaaaaaaaaaaaaaaaaaaaaaaaaaaaaaaaaaaaaaaaaaaaaaaaaaaaaaaaaaaaaaaaaaaaaaaaaaaaaaaaaaaaaaaaaaaaaaaaaaaaaaaaaaaaaaaaaaaaaaaaaaaaaaaaaaaaaaaaaaaaaaaaaaaaaaaaaaaaaaaaaaaaaaaaaaaaaaaaaaaaaaaaaaaaaaaaaaaaaaaaaaaaaa114".toList) [] RetVal.pass, Node.leaf ("aaaaaaaaaaaaaaaaaaaaaaaaaaaaaaaaaaaaaaaaaaaaaaaaaaaaaaaaaaaaaaaaaaaaaaaaaaaaaaaaaaaaaaaaaaaaaaaaaaaaaaaaaaaaaaaaaaaaaaaaaaaaaaaaaaaaaaaaaaaaaaaaaaaaaaaaaaaaaaaaaaaaaaaaaaaaaaaaaaaaaaaaaaaaaaaaaaaaaaaaaaaaaaaaaaaaaaaaaaaaaaaaaaaaaaaaaaaa115".toList) [] RetVal.pass] RetVal.pass c4s17) = Out.ok RetVal.pass c4s37 :=
    (loop_step_ok RET_ROOT_TAG 20 2 (Node.leaf ("aaaaaaaaaaaaaaaaaaaaaaaaaaaaaaaaaaaaaaaaaaaaaaaaaaaaaaaaaaaaaaaaaaaaaaaaaaaaaaaaaaaaaaaaaaaaaaaaaaaaaaaaaaaaaaaaaaaaaaaaaaaaaaaaaaaaaaaaaaaaaaaaaaaaaaaaaaaaaaaaaaaaaaaaaaaaaaaaaaaaaaaaaaaaaaaaaaaaaaaaaaaaaaaaaaaaaaaaaaaaaaaaaaaaaaaaaaaa106".toList) [] RetVal.pass) [Node.leaf ("aaaaaaaaaaaaaaaaaaaaaaaaaaaaaaaaaaaaaaaaaaaaaaaaaaaaaaaaaaaaaaaaaaaaaaaaaaaaaaaaaaaaaaaaaaaaaaaaaaaaaaaaaaaaaaaaaaaaaaaaaaaaaaaaaaaaaaaaaaaaaaaaaaaaaaaaaaaaaaaaaaaaaaaaaaaaaaaaaaaaaaaaaaaaaaaaaaaaaaaaaaaaaaaaaaaaaaaaaaaaaaaaaaaaaaaaaaaa107".toList) [] RetVal.pass, Node.leaf ("aaaaaaaaaaaaaaaaaaaaaaaaaaaaaaaaaaaaaaaaaaaaaaaaaaaaaaaaaaaaaaaaaaaaaaaaaaaaaaaaaaaaaaaaaaaaaaaaaaaaaaaaaaaaaaaaaaaaaaaaaaaaaaaaaaaaaaaaaaaaaaaaaaaaaaaaaaaaaaaaaaaaaaaaaaaaaaaaaaaaaaaaaaaaaaaaaaaaaaaaaaaaaaaaaaaaaaaaaaaaaaaaaaaaaaaaaaaa108".toList) [] RetVal.pass, Node.leaf ("aaaaaaaaaaaaaaaaaaaaaaaaaaaaaaaaaaaaaaaaaaaaaaaaaaaaaaaaaaaaaaaaaaaaaaaaaaaaaaaaaaaaaaaaaaaaaaaaaaaaaaaaaaaaaaaaaaaaaaaaaaaaaaaaaaaaaaaaaaaaaaaaaaaaaaaaaaaaaaaaaaaaaaaaaaaaaaaaaaaaaaaaaaaaaaaaaaaaaaaaaaaaaaaaaaaaaaaaaaaaaaaaaaaaaaaaaaaa109".toList) [] RetVal.pass, Node.leaf ("aaaaaaaaaaaaaaaaaaaaaaaaaaaaaaaaaaaaaaaaaaaaaaaaaaaaaaaaaaaaaaaaaaaaaaaaaaaaaaaaaaaaaaaaaaaaaaaaaaaaaaaaaaaaaaaaaaaaaaaaaaaaaaaaaaaaaaaaaaaaaaaaaaaaaaaaaaaaaaaaaaaaaaaaaaaaaaaaaaaaaaaaaaaaaaaaaaaaaaaaaaaaaaaaaaaaaaaaaaaaaaaaaaaaaaaaaaaa110".toList) [] RetVal.pass, Node.leaf ("aaaaaaaaaaaaaaaaaaaaaaaaaaaaaaaaaaaaaaaaaaaaaaaaaaaaaaaaaaaaaaaaaaaaaaaaaaaaaaaaaaaaaaaaaaaaaaaaaaaaaaaaaaaaaaaaaaaaaaaaaaaaaaaaaaaaaaaaaaaaaaaaaaaaaaaaaaaaaaaaaaaaaaaaaaaaaaaaaaaaaaaaaaaaaaaaaaaaaaaaaaaaaaaaaaaaaaaaaaaaaaaaaaaaaaaaaaaa111".toList) [] RetVal.pass, Node.leaf ("aaaaaaaaaaaaaaaaaaaaaaaaaaaaaaaaaaaaaaaaaaaaaaaaaaaaaaaaaaaaaaaaaaaaaaaaaaaaaaaaaaaaaaaaaaaaaaaaaaaaaaaaaaaaaaaaaaaaaaaaaaaaaaaaaaaaaaaaaaaaaaaaaaaaaaaaaaaaaaaaaaaaaaaaaaaaaaaaaaaaaaaaaaaaaaaaaaaaaaaaaaaaaaaaaaaaaaaaaaaaaaaaaaaaaaaaaaaa112".toList) [] RetVal.pass, Node.leaf ("aaaaaaaaaaaaaaaaaaaaaaaaaaaaaaaaaaaaaaaaaaaaaaaaaaaaaaaaaaaaaaaaaaaaaaaaaaaaaaaaaaaaaaaaaaaaaaaaaaaaaaaaaaaaaaaaaaaaaaaaaaaaaaaaaaaaaaaaaaaaaaaaaaaaaaaaaaaaaaaaaaaaaaaaaaaaaaaaaaaaaaaaaaaaaaaaaaaaaaaaaaaaaaaaaaaaaaaaaaaaaaaaaaaaaaaaaaaa113".toList) [] RetVal.pass, Node.leaf ("aaaaaaaaaaaaaaaaaaaaaaaaaaaaaaaaaaaaaaaaaaaaaaaaaaaaaaaaaaaaaaaaaaaaaaaaaaaaaaaaaaaaaaaaaaaaaaaaaaaaaaaaaaaaaaaaaaaaaaaaaaaaaaaaaaaaaaaaaaaaaaaaaaaaaaaaaaaaaaaaaaaaaaaaaaaaaaaaaaaaaaaaaaaaaaaaaaaaaaaaaaaaaaaaaaaaaaaaaaaaaaaaaaaaaaaaaaaa114".toList) [] RetVal.pass, Node.leaf ("aaaaaaaaaaaaaaaaaaaaaaaaaaaaaaaaaaaaaaaaaaaaaaaaaaaaaaaaaaaaaaaaaaaaaaaaaaaaaaaaaaaaaaaaaaaaaaaaaaaaaaaaaaaaaaaaaaaaaaaaaaaaaaaaaaaaaaaaaaaaaaaaaaaaaaaaaaaaaaaaaaaaaaaaaaaaaaaaaaaaaaaaaaaaaaaaaaaaaaaaaaaaaaaaaaaaaaaaaaaaaaaaaaaaaaaaaaaa115".toList) [] RetVal.pass] RetVal.pass RetVal.pass c4s17 c4s18 e6).trans e35
  have e37 : step RET_ROOT_TAG 22 (.handle 2 [Node.leaf ("aaaaaaaaaaaaaaaaaaaaaaaaaaaaaaaaaaaaaaaaaaaaaaaaaaaaaaaaaaaaaaaaaaaaaaaaaaaaaaaaaaaaaaaaaaaaaaaaaaaaaaaaaaaaaaaaaaaaaaaaaaaaaaaaaaaaaaaaaaaaaaaaaaaaaaaaaaaaaaaaaaaaaaaaaaaaaaaaaaaaaaaaaaaaaaaaaaaaaaaaaaaaaaaaaaaaaaaaaaaaaaaaaaaaaaaaaaaa106".toList) [] RetVal.pass, Node.leaf ("aaaaaaaaaaaaaaaaaaaaaaaaaaaaaaaaaaaaaaaaaaaaaaaaaaaaaaaaaaaaaaaaaaaaaaaaaaaaaaaaaaaaaaaaaaaaaaaaaaaaaaaaaaaaaaaaaaaaaaaaaaaaaaaaaaaaaaaaaaaaaaaaaaaaaaaaaaaaaaaaaaaaaaaaaaaaaaaaaaaaaaaaaaaaaaaaaaaaaaaaaaaaaaaaaaaaaaaaaaaaaaaaaaaaaaaaaaaa107".toList) [] RetVal.pass, Node.leaf ("aaaaaaaaaaaaaaaaaaaaaaaaaaaaaaaaaaaaaaaaaaaaaaaaaaaaaaaaaaaaaaaaaaaaaaaaaaaaaaaaaaaaaaaaaaaaaaaaaaaaaaaaaaaaaaaaaaaaaaaaaaaaaaaaaaaaaaaaaaaaaaaaaaaaaaaaaaaaaaaaaaaaaaaaaaaaaaaaaaaaaaaaaaaaaaaaaaaaaaaaaaaaaaaaaaaaaaaaaaaaaaaaaaaaaaaaaaaa108".toList) [] RetVal.pass, Node.leaf ("aaaaaaaaaaaaaaaaaaaaaaaaaaaaaaaaaaaaaaaaaaaaaaaaaaaaaaaaaaaaaaaaaaaaaaaaaaaaaaaaaaaaaaaaaaaaaaaaaaaaaaaaaaaaaaaaaaaaaaaaaaaaaaaaaaaaaaaaaaaaaaaaaaaaaaaaaaaaaaaaaaaaaaaaaaaaaaaaaaaaaaaaaaaaaaaaaaaaaaaaaaaaaaaaaaaaaaaaaaaaaaaaaaaaaaaaaaaa109".toList) [] RetVal.pass, Node.leaf ("aaaaaaaaaaaaaaaaaaaaaaaaaaaaaaaaaaaaaaaaaaaaaaaaaaaaaaaaaaaaaaaaaaaaaaaaaaaaaaaaaaaaaaaaaaaaaaaaaaaaaaaaaaaaaaaaaaaaaaaaaaaaaaaaaaaaaaaaaaaaaaaaaaaaaaaaaaaaaaaaaaaaaaaaaaaaaaaaaaaaaaaaaaaaaaaaaaaaaaaaaaaaaaaaaaaaaaaaaaaaaaaaaaaaaaaaaaaa110".toList) [] RetVal.pass, Node.leaf ("aaaaaaaaaaaaaaaaaaaaaaaaaaaaaaaaaaaaaaaaaaaaaaaaaaaaaaaaaaaaaaaaaaaaaaaaaaaaaaaaaaaaaaaaaaaaaaaaaaaaaaaaaaaaaaaaaaaaaaaaaaaaaaaaaaaaaaaaaaaaaaaaaaaaaaaaaaaaaaaaaaaaaaaaaaaaaaaaaaaaaaaaaaaaaaaaaaaaaaaaaaaaaaaaaaaaaaaaaaaaaaaaaaaaaaaaaaaa111".toList) [] RetVal.pass, Node.leaf ("aaaaaaaaaaaaaaaaaaaaaaaaaaaaaaaaaaaaaaaaaaaaaaaaaaaaaaaaaaaaaaaaaaaaaaaaaaaaaaaaaaaaaaaaaaaaaaaaaaaaaaaaaaaaaaaaaaaaaaaaaaaaaaaaaaaaaaaaaaaaaaaaaaaaaaaaaaaaaaaaaaaaaaaaaaaaaaaaaaaaaaaaaaaaaaaaaaaaaaaaaaaaaaaaaaaaaaaaaaaaaaaaaaaaaaaaaaaa112".toList) [] RetVal.pass, Node.leaf ("aaaaaaaaaaaaaaaaaaaaaaaaaaaaaaaaaaaaaaaaaaaaaaaaaaaaaaaaaaaaaaaaaaaaaaaaaaaaaaaaaaaaaaaaaaaaaaaaaaaaaaaaaaaaaaaaaaaaaaaaaaaaaaaaaaaaaaaaaaaaaaaaaaaaaaaaaaaaaaaaaaaaaaaaaaaaaaaaaaaaaaaaaaaaaaaaaaaaaaaaaaaaaaaaaaaaaaaaaaaaaaaaaaaaaaaaaaaa113".toList) [] RetVal.pass, Node.leaf ("aaaaaaaaaaaaaaaaaaaaaaaaaaaaaaaaaaaaaaaaaaaaaaaaaaaaaaaaaaaaaaaaaaaaaaaaaaaaaaaaaaaaaaaaaaaaaaaaaaaaaaaaaaaaaaaaaaaaaaaaaaaaaaaaaaaaaaaaaaaaaaaaaaaaaaaaaaaaaaaaaaaaaaaaaaaaaaaaaaaaaaaaaaaaaaaaaaaaaaaaaaaaaaaaaaaaaaaaaaaaaaaaaaaaaaaaaaaa114".toList) [] RetVal.pass, Node.leaf ("aaaaaaaaaaaaaaaaaaaaaaaaaaaaaaaaaaaaaaaaaaaaaaaaaaaaaaaaaaaaaaaaaaaaaaaaaaaaaaaaaaaaaaaaaaaaaaaaaaaaaaaaaaaaaaaaaaaaaaaaaaaaaaaaaaaaaaaaaaaaaaaaaaaaaaaaaaaaaaaaaaaaaaaaaaaaaaaaaaaaaaaaaaaaaaaaaaaaaaaaaaaaaaaaaaaaaaaaaaaaaaaaaaaaaaaaaaaa115".toList) [] RetVal.pass] RetVal.pass RetVal.pass c4s16) = Out.ok RetVal.pass c4s37 :=
    (handle_step_exit_ok RET_ROOT_TAG 21 2 [Node.leaf ("aaaaaaaaaaaaaaaaaaaaaaaaaaaaaaaaaaaaaaaaaaaaaaaaaaaaaaaaaaaaaaaaaaaaaaaaaaaaaaaaaaaaaaaaaaaaaaaaaaaaaaaaaaaaaaaaaaaaaaaaaaaaaaaaaaaaaaaaaaaaaaaaaaaaaaaaaaaaaaaaaaaaaaaaaaaaaaaaaaaaaaaaaaaaaaaaaaaaaaaaaaaaaaaaaaaaaaaaaaaaaaaaaaaaaaaaaaaa106".toList) [] RetVal.pass, Node.leaf ("aaaaaaaaaaaaaaaaaaaaaaaaaaaaaaaaaaaaaaaaaaaaaaaaaaaaaaaaaaaaaaaaaaaaaaaaaaaaaaaaaaaaaaaaaaaaaaaaaaaaaaaaaaaaaaaaaaaaaaaaaaaaaaaaaaaaaaaaaaaaaaaaaaaaaaaaaaaaaaaaaaaaaaaaaaaaaaaaaaaaaaaaaaaaaaaaaaaaaaaaaaaaaaaaaaaaaaaaaaaaaaaaaaaaaaaaaaaa107".toList) [] RetVal.pass, Node.leaf ("aaaaaaaaaaaaaaaaaaaaaaaaaaaaaaaaaaaaaaaaaaaaaaaaaaaaaaaaaaaaaaaaaaaaaaaaaaaaaaaaaaaaaaaaaaaaaaaaaaaaaaaaaaaaaaaaaaaaaaaaaaaaaaaaaaaaaaaaaaaaaaaaaaaaaaaaaaaaaaaaaaaaaaaaaaaaaaaaaaaaaaaaaaaaaaaaaaaaaaaaaaaaaaaaaaaaaaaaaaaaaaaaaaaaaaaaaaaa108".toList) [] RetVal.pass, Node.leaf ("aaaaaaaaaaaaaaaaaaaaaaaaaaaaaaaaaaaaaaaaaaaaaaaaaaaaaaaaaaaaaaaaaaaaaaaaaaaaaaaaaaaaaaaaaaaaaaaaaaaaaaaaaaaaaaaaaaaaaaaaaaaaaaaaaaaaaaaaaaaaaaaaaaaaaaaaaaaaaaaaaaaaaaaaaaaaaaaaaaaaaaaaaaaaaaaaaaaaaaaaaaaaaaaaaaaaaaaaaaaaaaaaaaaaaaaaaaaa109".toList) [] RetVal.pass, Node.leaf ("aaaaaaaaaaaaaaaaaaaaaaaaaaaaaaaaaaaaaaaaaaaaaaaaaaaaaaaaaaaaaaaaaaaaaaaaaaaaaaaaaaaaaaaaaaaaaaaaaaaaaaaaaaaaaaaaaaaaaaaaaaaaaaaaaaaaaaaaaaaaaaaaaaaaaaaaaaaaaaaaaaaaaaaaaaaaaaaaaaaaaaaaaaaaaaaaaaaaaaaaaaaaaaaaaaaaaaaaaaaaaaaaaaaaaaaaaaaa110".toList) [] RetVal.pass, Node.leaf ("aaaaaaaaaaaaaaaaaaaaaaaaaaaaaaaaaaaaaaaaaaaaaaaaaaaaaaaaaaaaaaaaaaaaaaaaaaaaaaaaaaaaaaaaaaaaaaaaaaaaaaaaaaaaaaaaaaaaaaaaaaaaaaaaaaaaaaaaaaaaaaaaaaaaaaaaaaaaaaaaaaaaaaaaaaaaaaaaaaaaaaaaaaaaaaaaaaaaaaaaaaaaaaaaaaaaaaaaaaaaaaaaaaaaaaaaaaaa111".toList) [] RetVal.pass, Node.leaf ("aaaaaaaaaaaaaaaaaaaaaaaaaaaaaaaaaaaaaaaaaaaaaaaaaaaaaaaaaaaaaaaaaaaaaaaaaaaaaaaaaaaaaaaaaaaaaaaaaaaaaaaaaaaaaaaaaaaaaaaaaaaaaaaaaaaaaaaaaaaaaaaaaaaaaaaaaaaaaaaaaaaaaaaaaaaaaaaaaaaaaaaaaaaaaaaaaaaaaaaaaaaaaaaaaaaaaaaaaaaaaaaaaaaaaaaaaaaa112".toList) [] RetVal.pass, Node.leaf ("aaaaaaaaaaaaaaaaaaaaaaaaaaaaaaaaaaaaaaaaaaaaaaaaaaaaaaaaaaaaaaaaaaaaaaaaaaaaaaaaaaaaaaaaaaaaaaaaaaaaaaaaaaaaaaaaaaaaaaaaaaaaaaaaaaaaaaaaaaaaaaaaaaaaaaaaaaaaaaaaaaaaaaaaaaaaaaaaaaaaaaaaaaaaaaaaaaaaaaaaaaaaaaaaaaaaaaaaaaaaaaaaaaaaaaaaaaaa113".toList) [] RetVal.pass, Node.leaf ("aaaaaaaaaaaaaaaaaaaaaaaaaaaaaaaaaaaaaaaaaaaaaaaaaaaaaaaaaaaaaaaaaaaaaaaaaaaaaaaaaaaaaaaaaaaaaaaaaaaaaaaaaaaaaaaaaaaaaaaaaaaaaaaaaaaaaaaaaaaaaaaaaaaaaaaaaaaaaaaaaaaaaaaaaaaaaaaaaaaaaaaaaaaaaaaaaaaaaaaaaaaaaaaaaaaaaaaaaaaaaaaaaaaaaaaaaaaa114".toList) [] RetVal.pass, Node.leaf ("aaaaaaaaaaaaaaaaaaaaaaaaaaaaaaaaaaaaaaaaaaaaaaaaaaaaaaaaaaaaaaaaaaaaaaaaaaaaaaaaaaaaaaaaaaaaaaaaaaaaaaaaaaaaaaaaaaaaaaaaaaaaaaaaaaaaaaaaaaaaaaaaaaaaaaaaaaaaaaaaaaaaaaaaaaaaaaaaaaaaaaaaaaaaaaaaaaaaaaaaaaaaaaaaaaaaaaaaaaaaaaaaaaaaaaaaaaaa115".toList) [] RetVal.pass] RetVal.pass RetVal.pass c4s16 c4s17 (rfl)).trans e36
  have e38 : step RET_ROOT_TAG 23 (.loop 2 [Node.leaf ("aaaaaaaaaaaaaaaaaaaaaaaaaaaaaaaaaaaaaaaaaaaaaaaaaaaaaaaaaaaaaaaaaaaaaaaaaaaaaaaaaaaaaaaaaaaaaaaaaaaaaaaaaaaaaaaaaaaaaaaaaaaaaaaaaaaaaaaaaaaaaaaaaaaaaaaaaaaaaaaaaaaaaaaaaaaaaaaaaaaaaaaaaaaaaaaaaaaaaaaaaaaaaaaaaaaaaaaaaaaaaaaaaaaaaaaaaaaa105".toList) [] RetVal.pass, Node.leaf ("aaaaaaaaaaaaaaaaaaaaaaaaaaaaaaaaaaaaaaaaaaaaaaaaaaaaaaaaaaaaaaaaaaaaaaaaaaaaaaaaaaaaaaaaaaaaaaaaaaaaaaaaaaaaaaaaaaaaaaaaaaaaaaaaaaaaaaaaaaaaaaaaaaaaaaaaaaaaaaaaaaaaaaaaaaaaaaaaaaaaaaaaaaaaaaaaaaaaaaaaaaaaaaaaaaaaaaaaaaaaaaaaaaaaaaaaaaaa106".toList) [] RetVal.pass, Node.leaf ("aaaaaaaaaaaaaaaaaaaaaaaaaaaaaaaaaaaaaaaaaaaaaaaaaaaaaaaaaaaaaaaaaaaaaaaaaaaaaaaaaaaaaaaaaaaaaaaaaaaaaaaaaaaaaaaaaaaaaaaaaaaaaaaaaaaaaaaaaaaaaaaaaaaaaaaaaaaaaaaaaaaaaaaaaaaaaaaaaaaaaaaaaaaaaaaaaaaaaaaaaaaaaaaaaaaaaaaaaaaaaaaaaaaaaaaaaaaa107".toList) [] RetVal.pass, Node.leaf ("aaaaaaaaaaaaaaaaaaaaaaaaaaaaaaaaaaaaaaaaaaaaaaaaaaaaaaaaaaaaaaaaaaaaaaaaaaaaaaaaaaaaaaaaaaaaaaaaaaaaaaaaaaaaaaaaaaaaaaaaaaaaaaaaaaaaaaaaaaaaaaaaaaaaaaaaaaaaaaaaaaaaaaaaaaaaaaaaaaaaaaaaaaaaaaaaaaaaaaaaaaaaaaaaaaaaaaaaaaaaaaaaaaaaaaaaaaaa108".toList) [] RetVal.pass, Node.leaf ("aaaaaaaaaaaaaaaaaaaaaaaaaaaaaaaaaaaaaaaaaaaaaaaaaaaaaaaaaaaaaaaaaaaaaaaaaaaaaaaaaaaaaaaaaaaaaaaaaaaaaaaaaaaaaaaaaaaaaaaaaaaaaaaaaaaaaaaaaaaaaaaaaaaaaaaaaaaaaaaaaaaaaaaaaaaaaaaaaaaaaaaaaaaaaaaaaaaaaaaaaaaaaaaaaaaaaaaaaaaaaaaaaaaaaaaaaaaa109".toList) [] RetVal.pass, Node.leaf ("aaaaaaaaaaaaaaaaaaaaaaaaaaaaaaaaaaaaaaaaaaaaaaaaaaaaaaaaaaaaaaaaaaaaaaaaaaaaaaaaaaaaaaaaaaaaaaaaaaaaaaaaaaaaaaaaaaaaaaaaaaaaaaaaaaaaaaaaaaaaaaaaaaaaaaaaaaaaaaaaaaaaaaaaaaaaaaaaaaaaaaaaaaaaaaaaaaaaaaaaaaaaaaaaaaaaaaaaaaaaaaaaaaaaaaaaaaaa110".toList) [] RetVal.pass, Node.leaf ("aaaaaaaaaaaaaaaaaaaaaaaaaaaaaaaaaaaaaaaaaaaaaaaaaaaaaaaaaaaaaaaaaaaaaaaaaaaaaaaaaaaaaaaaaaaaaaaaaaaaaaaaaaaaaaaaaaaaaaaaaaaaaaaaaaaaaaaaaaaaaaaaaaaaaaaaaaaaaaaaaaaaaaaaaaaaaaaaaaaaaaaaaaaaaaaaaaaaaaaaaaaaaaaaaaaaaaaaaaaaaaaaaaaaaaaaaaaa111".toList) [] RetVal.pass, Node.leaf ("aaaaaaaaaaaaaaaaaaaaaaaaaaaaaaaaaaaaaaaaaaaaaaaaaaaaaaaaaaaaaaaaaaaaaaaaaaaaaaaaaaaaaaaaaaaaaaaaaaaaaaaaaaaaaaaaaaaaaaaaaaaaaaaaaaaaaaaaaaaaaaaaaaaaaaaaaaaaaaaaaaaaaaaaaaaaaaaaaaaaaaaaaaaaaaaaaaaaaaaaaaaaaaaaaaaaaaaaaaaaaaaaaaaaaaaaaaaa112".toList) [] RetVal.pass, Node.leaf ("aaaaaaaaaaaaaaaaaaaaaaaaaaaaaaaaaaaaaaaaaaaaaaaaaaaaaaaaaaaaaaaaaaaaaaaaaaaaaaaaaaaaaaaaaaaaaaaaaaaaaaaaaaaaaaaaaaaaaaaaaaaaaaaaaaaaaaaaaaaaaaaaaaaaaaaaaaaaaaaaaaaaaaaaaaaaaaaaaaaaaaaaaaaaaaaaaaaaaaaaaaaaaaaaaaaaaaaaaaaaaaaaaaaaaaaaaaaa113".toList) [] RetVal.pass, Node.leaf ("aaaaaaaaaaaaaaaaaaaaaaaaaaaaaaaaaaaaaaaaaaaaaaaaaaaaaaaaaaaaaaaaaaaaaaaaaaaaaaaaaaaaaaaaaaaaaaaaaaaaaaaaaaaaaaaaaaaaaaaaaaaaaaaaaaaaaaaaaaaaaaaaaaaaaaaaaaaaaaaaaaaaaaaaaaaaaaaaaaaaaaaaaaaaaaaaaaaaaaaaaaaaaaaaaaaaaaaaaaaaaaaaaaaaaaaaaaaa114".toList) [] RetVal.pass, Node.leaf ("aaaaaaaaaaaaaaaaaaaaaaaaaaaaaaaaaaaaaaaaaaaaaaaaaaaaaaaaaaaaaaaaaaaaaaaaaaaaaaaaaaaaaaaaaaaaaaaaaaaaaaaaaaaaaaaaaaaaaaaaaaaaaaaaaaaaaaaaaaaaaaaaaaaaaaaaaaaaaaaaaaaaaaaaaaaaaaaaaaaaaaaaaaaaaaaaaaaaaaaaaaaaaaaaaaaaaaaaaaaaaaaaaaaaaaaaaaaa115".toList) [] RetVal.pass] RetVal.pass c4s15) = Out.ok RetVal.pass c4s37 :=
    (loop_step_ok RET_ROOT_TAG 22 2 (Node.leaf ("aaaaaaaaaaaaaaaaaaaaaaaaaaaaaaaaaaaaaaaaaaaaaaaaaaaaaaaaaaaaaaaaaaaaaaaaaaaaaaaaaaaaaaaaaaaaaaaaaaaaaaaaaaaaaaaaaaaaaaaaaaaaaaaaaaaaaaaaaaaaaaaaaaaaaaaaaaaaaaaaaaaaaaaaaaaaaaaaaaaaaaaaaaaaaaaaaaaaaaaaaaaaaaaaaaaaaaaaaaaaaaaaaaaaaaaaaaaa105".toList) [] RetVal.pass) [Node.leaf ("aaaaaaaaaaaaaaaaaaaaaaaaaaaaaaaaaaaaaaaaaaaaaaaaaaaaaaaaaaaaaaaaaaaaaaaaaaaaaaaaaaaaaaaaaaaaaaaaaaaaaaaaaaaaaaaaaaaaaaaaaaaaaaaaaaaaaaaaaaaaaaaaaaaaaaaaaaaaaaaaaaaaaaaaaaaaaaaaaaaaaaaaaaaaaaaaaaaaaaaaaaaaaaaaaaaaaaaaaaaaaaaaaaaaaaaaaaaa106".toList) [] RetVal.pass, Node.leaf ("aaaaaaaaaaaaaaaaaaaaaaaaaaaaaaaaaaaaaaaaaaaaaaaaaaaaaaaaaaaaaaaaaaaaaaaaaaaaaaaaaaaaaaaaaaaaaaaaaaaaaaaaaaaaaaaaaaaaaaaaaaaaaaaaaaaaaaaaaaaaaaaaaaaaaaaaaaaaaaaaaaaaaaaaaaaaaaaaaaaaaaaaaaaaaaaaaaaaaaaaaaaaaaaaaaaaaaaaaaaaaaaaaaaaaaaaaaaa107".toList) [] RetVal.pass, Node.leaf ("aaaaaaaaaaaaaaaaaaaaaaaaaaaaaaaaaaaaaaaaaaaaaaaaaaaaaaaaaaaaaaaaaaaaaaaaaaaaaaaaaaaaaaaaaaaaaaaaaaaaaaaaaaaaaaaaaaaaaaaaaaaaaaaaaaaaaaaaaaaaaaaaaaaaaaaaaaaaaaaaaaaaaaaaaaaaaaaaaaaaaaaaaaaaaaaaaaaaaaaaaaaaaaaaaaaaaaaaaaaaaaaaaaaaaaaaaaaa108".toList) [] RetVal.pass, Node.leaf ("aaaaaaaaaaaaaaaaaaaaaaaaaaaaaaaaaaaaaaaaaaaaaaaaaaaaaaaaaaaaaaaaaaaaaaaaaaaaaaaaaaaaaaaaaaaaaaaaaaaaaaaaaaaaaaaaaaaaaaaaaaaaaaaaaaaaaaaaaaaaaaaaaaaaaaaaaaaaaaaaaaaaaaaaaaaaaaaaaaaaaaaaaaaaaaaaaaaaaaaaaaaaaaaaaaaaaaaaaaaaaaaaaaaaaaaaaaaa109".toList) [] RetVal.pass, Node.leaf ("aaaaaaaaaaaaaaaaaaaaaaaaaaaaaaaaaaaaaaaaaaaaaaaaaaaaaaaaaaaaaaaaaaaaaaaaaaaaaaaaaaaaaaaaaaaaaaaaaaaaaaaaaaaaaaaaaaaaaaaaaaaaaaaaaaaaaaaaaaaaaaaaaaaaaaaaaaaaaaaaaaaaaaaaaaaaaaaaaaaaaaaaaaaaaaaaaaaaaaaaaaaaaaaaaaaaaaaaaaaaaaaaaaaaaaaaaaaa110".toList) [] RetVal.pass, Node.leaf ("aaaaaaaaaaaaaaaaaaaaaaaaaaaaaaaaaaaaaaaaaaaaaaaaaaaaaaaaaaaaaaaaaaaaaaaaaaaaaaaaaaaaaaaaaaaaaaaaaaaaaaaaaaaaaaaaaaaaaaaaaaaaaaaaaaaaaaaaaaaaaaaaaaaaaaaaaaaaaaaaaaaaaaaaaaaaaaaaaaaaaaaaaaaaaaaaaaaaaaaaaaaaaaaaaaaaaaaaaaaaaaaaaaaaaaaaaaaa111".toList) [] RetVal.pass, Node.leaf ("aaaaaaaaaaaaaaaaaaaaaaaaaaaaaaaaaaaaaaaaaaaaaaaaaaaaaaaaaaaaaaaaaaaaaaaaaaaaaaaaaaaaaaaaaaaaaaaaaaaaaaaaaaaaaaaaaaaaaaaaaaaaaaaaaaaaaaaaaaaaaaaaaaaaaaaaaaaaaaaaaaaaaaaaaaaaaaaaaaaaaaaaaaaaaaaaaaaaaaaaaaaaaaaaaaaaaaaaaaaaaaaaaaaaaaaaaaaa112".toList) [] RetVal.pass, Node.leaf ("aaaaaaaaaaaaaaaaaaaaaaaaaaaaaaaaaaaaaaaaaaaaaaaaaaaaaaaaaaaaaaaaaaaaaaaaaaaaaaaaaaaaaaaaaaaaaaaaaaaaaaaaaaaaaaaaaaaaaaaaaaaaaaaaaaaaaaaaaaaaaaaaaaaaaaaaaaaaaaaaaaaaaaaaaaaaaaaaaaaaaaaaaaaaaaaaaaaaaaaaaaaaaaaaaaaaaaaaaaaaaaaaaaaaaaaaaaaa113".toList) [] RetVal.pass, Node.leaf ("aaaaaaaaaaaaaaaaaaaaaaaaaaaaaaaaaaaaaaaaaaaaaaaaaaaaaaaaaaaaaaaaaaaaaaaaaaaaaaaaaaaaaaaaaaaaaaaaaaaaaaaaaaaaaaaaaaaaaaaaaaaaaaaaaaaaaaaaaaaaaaaaaaaaaaaaaaaaaaaaaaaaaaaaaaaaaaaaaaaaaaaaaaaaaaaaaaaaaaaaaaaaaaaaaaaaaaaaaaaaaaaaaaaaaaaaaaaa114".toList) [] RetVal.pass, Node.leaf ("aaaaaaaaaaaaaaaaaaaaaaaaaaaaaaaaaaaaaaaaaaaaaaaaaaaaaaaaaaaaaaaaaaaaaaaaaaaaaaaaaaaaaaaaaaaaaaaaaaaaaaaaaaaaaaaaaaaaaaaaaaaaaaaaaaaaaaaaaaaaaaaaaaaaaaaaaaaaaaaaaaaaaaaaaaaaaaaaaaaaaaaaaaaaaaaaaaaaaaaaaaaaaaaaaaaaaaaaaaaaaaaaaaaaaaaaaaaa115".toList) [] RetVal.pass] RetVal.pass RetVal.pass c4s15 c4s16 e5).trans e37
  have e39 : step RET_ROOT_TAG 24 (.handle 2 [Node.leaf ("aaaaaaaaaaaaaaaaaaaaaaaaaaaaaaaaaaaaaaaaaaaaaaaaaaaaaaaaaaaaaaaaaaaaaaaaaaaaaaaaaaaaaaaaaaaaaaaaaaaaaaaaaaaaaaaaaaaaaaaaaaaaaaaaaaaaaaaaaaaaaaaaaaaaaaaaaaaaaaaaaaaaaaaaaaaaaaaaaaaaaaaaaaaaaaaaaaaaaaaaaaaaaaaaaaaaaaaaaaaaaaaaaaaaaaaaaaaa105".toList) [] RetVal.pass, Node.leaf ("aaaaaaaaaaaaaaaaaaaaaaaaaaaaaaaaaaaaaaaaaaaaaaaaaaaaaaaaaaaaaaaaaaaaaaaaaaaaaaaaaaaaaaaaaaaaaaaaaaaaaaaaaaaaaaaaaaaaaaaaaaaaaaaaaaaaaaaaaaaaaaaaaaaaaaaaaaaaaaaaaaaaaaaaaaaaaaaaaaaaaaaaaaaaaaaaaaaaaaaaaaaaaaaaaaaaaaaaaaaaaaaaaaaaaaaaaaaa106".toList) [] RetVal.pass, Node.leaf ("aaaaaaaaaaaaaaaaaaaaaaaaaaaaaaaaaaaaaaaaaaaaaaaaaaaaaaaaaaaaaaaaaaaaaaaaaaaaaaaaaaaaaaaaaaaaaaaaaaaaaaaaaaaaaaaaaaaaaaaaaaaaaaaaaaaaaaaaaaaaaaaaaaaaaaaaaaaaaaaaaaaaaaaaaaaaaaaaaaaaaaaaaaaaaaaaaaaaaaaaaaaaaaaaaaaaaaaaaaaaaaaaaaaaaaaaaaaa107".toList) [] RetVal.pass, Node.leaf ("aaaaaaaaaaaaaaaaaaaaaaaaaaaaaaaaaaaaaaaaaaaaaaaaaaaaaaaaaaaaaaaaaaaaaaaaaaaaaaaaaaaaaaaaaaaaaaaaaaaaaaaaaaaaaaaaaaaaaaaaaaaaaaaaaaaaaaaaaaaaaaaaaaaaaaaaaaaaaaaaaaaaaaaaaaaaaaaaaaaaaaaaaaaaaaaaaaaaaaaaaaaaaaaaaaaaaaaaaaaaaaaaaaaaaaaaaaaa108".toList) [] RetVal.pass, Node.leaf ("aaaaaaaaaaaaaaaaaaaaaaaaaaaaaaaaaaaaaaaaaaaaaaaaaaaaaaaaaaaaaaaaaaaaaaaaaaaaaaaaaaaaaaaaaaaaaaaaaaaaaaaaaaaaaaaaaaaaaaaaaaaaaaaaaaaaaaaaaaaaaaaaaaaaaaaaaaaaaaaaaaaaaaaaaaaaaaaaaaaaaaaaaaaaaaaaaaaaaaaaaaaaaaaaaaaaaaaaaaaaaaaaaaaaaaaaaaaa109".toList) [] RetVal.pass, Node.leaf ("aaaaaaaaaaaaaaaaaaaaaaaaaaaaaaaaaaaaaaaaaaaaaaaaaaaaaaaaaaaaaaaaaaaaaaaaaaaaaaaaaaaaaaaaaaaaaaaaaaaaaaaaaaaaaaaaaaaaaaaaaaaaaaaaaaaaaaaaaaaaaaaaaaaaaaaaaaaaaaaaaaaaaaaaaaaaaaaaaaaaaaaaaaaaaaaaaaaaaaaaaaaaaaaaaaaaaaaaaaaaaaaaaaaaaaaaaaaa110".toList) [] RetVal.pass, Node.leaf ("aaaaaaaaaaaaaaaaaaaaaaaaaaaaaaaaaaaaaaaaaaaaaaaaaaaaaaaaaaaaaaaaaaaaaaaaaaaaaaaaaaaaaaaaaaaaaaaaaaaaaaaaaaaaaaaaaaaaaaaaaaaaaaaaaaaaaaaaaaaaaaaaaaaaaaaaaaaaaaaaaaaaaaaaaaaaaaaaaaaaaaaaaaaaaaaaaaaaaaaaaaaaaaaaaaaaaaaaaaaaaaaaaaaaaaaaaaaa111".toList) [] RetVal.pass, Node.leaf ("aaaaaaaaaaaaaaaaaaaaaaaaaaaaaaaaaaaaaaaaaaaaaaaaaaaaaaaaaaaaaaaaaaaaaaaaaaaaaaaaaaaaaaaaaaaaaaaaaaaaaaaaaaaaaaaaaaaaaaaaaaaaaaaaaaaaaaaaaaaaaaaaaaaaaaaaaaaaaaaaaaaaaaaaaaaaaaaaaaaaaaaaaaaaaaaaaaaaaaaaaaaaaaaaaaaaaaaaaaaaaaaaaaaaaaaaaaaa112".toList) [] RetVal.pass, Node.leaf ("aaaaaaaaaaaaaaaaaaaaaaaaaaaaaaaaaaaaaaaaaaaaaaaaaaaaaaaaaaaaaaaaaaaaaaaaaaaaaaaaaaaaaaaaaaaaaaaaaaaaaaaaaaaaaaaaaaaaaaaaaaaaaaaaaaaaaaaaaaaaaaaaaaaaaaaaaaaaaaaaaaaaaaaaaaaaaaaaaaaaaaaaaaaaaaaaaaaaaaaaaaaaaaaaaaaaaaaaaaaaaaaaaaaaaaaaaaaa113".toList) [] RetVal.pass, Node.leaf ("aaaaaaaaaaaaaaaaaaaaaaaaaaaaaaaaaaaaaaaaaaaaaaaaaaaaaaaaaaaaaaaaaaaaaaaaaaaaaaaaaaaaaaaaaaaaaaaaaaaaaaaaaaaaaaaaaaaaaaaaaaaaaaaaaaaaaaaaaaaaaaaaaaaaaaaaaaaaaaaaaaaaaaaaaaaaaaaaaaaaaaaaaaaaaaaaaaaaaaaaaaaaaaaaaaaaaaaaaaaaaaaaaaaaaaaaaaaa114".toList) [] RetVal.pass, Node.leaf ("aaaaaaaaaaaaaaaaaaaaaaaaaaaaaaaaaaaaaaaaaaaaaaaaaaaaaaaaaaaaaaaaaaaaaaaaaaaaaaaaaaaaaaaaaaaaaaaaaaaaaaaaaaaaaaaaaaaaaaaaaaaaaaaaaaaaaaaaaaaaaaaaaaaaaaaaaaaaaaaaaaaaaaaaaaaaaaaaaaaaaaaaaaaaaaaaaaaaaaaaaaaaaaaaaaaaaaaaaaaaaaaaaaaaaaaaaaaa115".toList) [] RetVal.pass] RetVal.pass RetVal.pass c4s14) = Out.ok RetVal.pass c4s37 :=
    (handle_step_exit_ok RET_ROOT_TAG 23 2 [Node.leaf ("aaaaaaaaaaaaaaaaaaaaaaaaaaaaaaaaaaaaaaaaaaaaaaaaaaaaaaaaaaaaaaaaaaaaaaaaaaaaaaaaaaaaaaaaaaaaaaaaaaaaaaaaaaaaaaaaaaaaaaaaaaaaaaaaaaaaaaaaaaaaaaaaaaaaaaaaaaaaaaaaaaaaaaaaaaaaaaaaaaaaaaaaaaaaaaaaaaaaaaaaaaaaaaaaaaaaaaaaaaaaaaaaaaaaaaaaaaaa105".toList) [] RetVal.pass, Node.leaf ("aaaaaaaaaaaaaaaaaaaaaaaaaaaaaaaaaaaaaaaaaaaaaaaaaaaaaaaaaaaaaaaaaaaaaaaaaaaaaaaaaaaaaaaaaaaaaaaaaaaaaaaaaaaaaaaaaaaaaaaaaaaaaaaaaaaaaaaaaaaaaaaaaaaaaaaaaaaaaaaaaaaaaaaaaaaaaaaaaaaaaaaaaaaaaaaaaaaaaaaaaaaaaaaaaaaaaaaaaaaaaaaaaaaaaaaaaaaa106".toList) [] RetVal.pass, Node.leaf ("aaaaaaaaaaaaaaaaaaaaaaaaaaaaaaaaaaaaaaaaaaaaaaaaaaaaaaaaaaaaaaaaaaaaaaaaaaaaaaaaaaaaaaaaaaaaaaaaaaaaaaaaaaaaaaaaaaaaaaaaaaaaaaaaaaaaaaaaaaaaaaaaaaaaaaaaaaaaaaaaaaaaaaaaaaaaaaaaaaaaaaaaaaaaaaaaaaaaaaaaaaaaaaaaaaaaaaaaaaaaaaaaaaaaaaaaaaaa107".toList) [] RetVal.pass, Node.leaf ("aaaaaaaaaaaaaaaaaaaaaaaaaaaaaaaaaaaaaaaaaaaaaaaaaaaaaaaaaaaaaaaaaaaaaaaaaaaaaaaaaaaaaaaaaaaaaaaaaaaaaaaaaaaaaaaaaaaaaaaaaaaaaaaaaaaaaaaaaaaaaaaaaaaaaaaaaaaaaaaaaaaaaaaaaaaaaaaaaaaaaaaaaaaaaaaaaaaaaaaaaaaaaaaaaaaaaaaaaaaaaaaaaaaaaaaaaaaa108".toList) [] RetVal.pass, Node.leaf ("aaaaaaaaaaaaaaaaaaaaaaaaaaaaaaaaaaaaaaaaaaaaaaaaaaaaaaaaaaaaaaaaaaaaaaaaaaaaaaaaaaaaaaaaaaaaaaaaaaaaaaaaaaaaaaaaaaaaaaaaaaaaaaaaaaaaaaaaaaaaaaaaaaaaaaaaaaaaaaaaaaaaaaaaaaaaaaaaaaaaaaaaaaaaaaaaaaaaaaaaaaaaaaaaaaaaaaaaaaaaaaaaaaaaaaaaaaaa109".toList) [] RetVal.pass, Node.leaf ("aaaaaaaaaaaaaaaaaaaaaaaaaaaaaaaaaaaaaaaaaaaaaaaaaaaaaaaaaaaaaaaaaaaaaaaaaaaaaaaaaaaaaaaaaaaaaaaaaaaaaaaaaaaaaaaaaaaaaaaaaaaaaaaaaaaaaaaaaaaaaaaaaaaaaaaaaaaaaaaaaaaaaaaaaaaaaaaaaaaaaaaaaaaaaaaaaaaaaaaaaaaaaaaaaaaaaaaaaaaaaaaaaaaaaaaaaaaa110".toList) [] RetVal.pass, Node.leaf ("aaaaaaaaaaaaaaaaaaaaaaaaaaaaaaaaaaaaaaaaaaaaaaaaaaaaaaaaaaaaaaaaaaaaaaaaaaaaaaaaaaaaaaaaaaaaaaaaaaaaaaaaaaaaaaaaaaaaaaaaaaaaaaaaaaaaaaaaaaaaaaaaaaaaaaaaaaaaaaaaaaaaaaaaaaaaaaaaaaaaaaaaaaaaaaaaaaaaaaaaaaaaaaaaaaaaaaaaaaaaaaaaaaaaaaaaaaaa111".toList) [] RetVal.pass, Node.leaf ("aaaaaaaaaaaaaaaaaaaaaaaaaaaaaaaaaaaaaaaaaaaaaaaaaaaaaaaaaaaaaaaaaaaaaaaaaaaaaaaaaaaaaaaaaaaaaaaaaaaaaaaaaaaaaaaaaaaaaaaaaaaaaaaaaaaaaaaaaaaaaaaaaaaaaaaaaaaaaaaaaaaaaaaaaaaaaaaaaaaaaaaaaaaaaaaaaaaaaaaaaaaaaaaaaaaaaaaaaaaaaaaaaaaaaaaaaaaa112".toList) [] RetVal.pass, Node.leaf ("aaaaaaaaaaaaaaaaaaaaaaaaaaaaaaaaaaaaaaaaaaaaaaaaaaaaaaaaaaaaaaaaaaaaaaaaaaaaaaaaaaaaaaaaaaaaaaaaaaaaaaaaaaaaaaaaaaaaaaaaaaaaaaaaaaaaaaaaaaaaaaaaaaaaaaaaaaaaaaaaaaaaaaaaaaaaaaaaaaaaaaaaaaaaaaaaaaaaaaaaaaaaaaaaaaaaaaaaaaaaaaaaaaaaaaaaaaaa113".toList) [] RetVal.pass, Node.leaf ("aaaaaaaaaaaaaaaaaaaaaaaaaaaaaaaaaaaaaaaaaaaaaaaaaaaaaaaaaaaaaaaaaaaaaaaaaaaaaaaaaaaaaaaaaaaaaaaaaaaaaaaaaaaaaaaaaaaaaaaaaaaaaaaaaaaaaaaaaaaaaaaaaaaaaaaaaaaaaaaaaaaaaaaaaaaaaaaaaaaaaaaaaaaaaaaaaaaaaaaaaaaaaaaaaaaaaaaaaaaaaaaaaaaaaaaaaaaa114".toList) [] RetVal.pass, Node.leaf ("aaaaaaaaaaaaaaaaaaaaaaaaaaaaaaaaaaaaaaaaaaaaaaaaaaaaaaaaaaaaaaaaaaaaaaaaaaaaaaaaaaaaaaaaaaaaaaaaaaaaaaaaaaaaaaaaaaaaaaaaaaaaaaaaaaaaaaaaaaaaaaaaaaaaaaaaaaaaaaaaaaaaaaaaaaaaaaaaaaaaaaaaaaaaaaaaaaaaaaaaaaaaaaaaaaaaaaaaaaaaaaaaaaaaaaaaaaaa115".toList) [] RetVal.pass] RetVal.pass RetVal.pass c4s14 c4s15 (rfl)).trans e38
  have e40 : step RET_ROOT_TAG 25 (.loop 2 [Node.leaf ("aaaaaaaaaaaaaaaaaaaaaaaaaaaaaaaaaaaaaaaaaaaaaaaaaaaaaaaaaaaaaaaaaaaaaaaaaaaaaaaaaaaaaaaaaaaaaaaaaaaaaaaaaaaaaaaaaaaaaaaaaaaaaaaaaaaaaaaaaaaaaaaaaaaaaaaaaaaaaaaaaaaaaaaaaaaaaaaaaaaaaaaaaaaaaaaaaaaaaaaaaaaaaaaaaaaaaaaaaaaaaaaaaaaaaaaaaaaa104".toList) [] RetVal.pass, Node.leaf ("aaaaaaaaaaaaaaaaaaaaaaaaaaaaaaaaaaaaaaaaaaaaaaaaaaaaaaaaaaaaaaaaaaaaaaaaaaaaaaaaaaaaaaaaaaaaaaaaaaaaaaaaaaaaaaaaaaaaaaaaaaaaaaaaaaaaaaaaaaaaaaaaaaaaaaaaaaaaaaaaaaaaaaaaaaaaaaaaaaaaaaaaaaaaaaaaaaaaaaaaaaaaaaaaaaaaaaaaaaaaaaaaaaaaaaaaaaaa105".toList) [] RetVal.pass, Node.leaf ("aaaaaaaaaaaaaaaaaaaaaaaaaaaaaaaaaaaaaaaaaaaaaaaaaaaaaaaaaaaaaaaaaaaaaaaaaaaaaaaaaaaaaaaaaaaaaaaaaaaaaaaaaaaaaaaaaaaaaaaaaaaaaaaaaaaaaaaaaaaaaaaaaaaaaaaaaaaaaaaaaaaaaaaaaaaaaaaaaaaaaaaaaaaaaaaaaaaaaaaaaaaaaaaaaaaaaaaaaaaaaaaaaaaaaaaaaaaa106".toList) [] RetVal.pass, Node.leaf ("aaaaaaaaaaaaaaaaaaaaaaaaaaaaaaaaaaaaaaaaaaaaaaaaaaaaaaaaaaaaaaaaaaaaaaaaaaaaaaaaaaaaaaaaaaaaaaaaaaaaaaaaaaaaaaaaaaaaaaaaaaaaaaaaaaaaaaaaaaaaaaaaaaaaaaaaaaaaaaaaaaaaaaaaaaaaaaaaaaaaaaaaaaaaaaaaaaaaaaaaaaaaaaaaaaaaaaaaaaaaaaaaaaaaaaaaaaaa107".toList) [] RetVal.pass, Node.leaf ("aaaaaaaaaaaaaaaaaaaaaaaaaaaaaaaaaaaaaaaaaaaaaaaaaaaaaaaaaaaaaaaaaaaaaaaaaaaaaaaaaaaaaaaaaaaaaaaaaaaaaaaaaaaaaaaaaaaaaaaaaaaaaaaaaaaaaaaaaaaaaaaaaaaaaaaaaaaaaaaaaaaaaaaaaaaaaaaaaaaaaaaaaaaaaaaaaaaaaaaaaaaaaaaaaaaaaaaaaaaaaaaaaaaaaaaaaaaa108".toList) [] RetVal.pass, Node.leaf ("aaaaaaaaaaaaaaaaaaaaaaaaaaaaaaaaaaaaaaaaaaaaaaaaaaaaaaaaaaaaaaaaaaaaaaaaaaaaaaaaaaaaaaaaaaaaaaaaaaaaaaaaaaaaaaaaaaaaaaaaaaaaaaaaaaaaaaaaaaaaaaaaaaaaaaaaaaaaaaaaaaaaaaaaaaaaaaaaaaaaaaaaaaaaaaaaaaaaaaaaaaaaaaaaaaaaaaaaaaaaaaaaaaaaaaaaaaaa109".toList) [] RetVal.pass, Node.leaf ("aaaaaaaaaaaaaaaaaaaaaaaaaaaaaaaaaaaaaaaaaaaaaaaaaaaaaaaaaaaaaaaaaaaaaaaaaaaaaaaaaaaaaaaaaaaaaaaaaaaaaaaaaaaaaaaaaaaaaaaaaaaaaaaaaaaaaaaaaaaaaaaaaaaaaaaaaaaaaaaaaaaaaaaaaaaaaaaaaaaaaaaaaaaaaaaaaaaaaaaaaaaaaaaaaaaaaaaaaaaaaaaaaaaaaaaaaaaa110".toList) [] RetVal.pass, Node.leaf ("aaaaaaaaaaaaaaaaaaaaaaaaaaaaaaaaaaaaaaaaaaaaaaaaaaaaaaaaaaaaaaaaaaaaaaaaaaaaaaaaaaaaaaaaaaaaaaaaaaaaaaaaaaaaaaaaaaaaaaaaaaaaaaaaaaaaaaaaaaaaaaaaaaaaaaaaaaaaaaaaaaaaaaaaaaaaaaaaaaaaaaaaaaaaaaaaaaaaaaaaaaaaaaaaaaaaaaaaaaaaaaaaaaaaaaaaaaaa111".toList) [] RetVal.pass, Node.leaf ("aaaaaaaaaaaaaaaaaaaaaaaaaaaaaaaaaaaaaaaaaaaaaaaaaaaaaaaaaaaaaaaaaaaaaaaaaaaaaaaaaaaaaaaaaaaaaaaaaaaaaaaaaaaaaaaaaaaaaaaaaaaaaaaaaaaaaaaaaaaaaaaaaaaaaaaaaaaaaaaaaaaaaaaaaaaaaaaaaaaaaaaaaaaaaaaaaaaaaaaaaaaaaaaaaaaaaaaaaaaaaaaaaaaaaaaaaaaa112".toList) [] RetVal.pass, Node.leaf ("aaaaaaaaaaaaaaaaaaaaaaaaaaaaaaaaaaaaaaaaaaaaaaaaaaaaaaaaaaaaaaaaaaaaaaaaaaaaaaaaaaaaaaaaaaaaaaaaaaaaaaaaaaaaaaaaaaaaaaaaaaaaaaaaaaaaaaaaaaaaaaaaaaaaaaaaaaaaaaaaaaaaaaaaaaaaaaaaaaaaaaaaaaaaaaaaaaaaaaaaaaaaaaaaaaaaaaaaaaaaaaaaaaaaaaaaaaaa113".toList) [] RetVal.pass, Node.leaf ("aaaaaaaaaaaaaaaaaaaaaaaaaaaaaaaaaaaaaaaaaaaaaaaaaaaaaaaaaaaaaaaaaaaaaaaaaaaaaaaaaaaaaaaaaaaaaaaaaaaaaaaaaaaaaaaaaaaaaaaaaaaaaaaaaaaaaaaaaaaaaaaaaaaaaaaaaaaaaaaaaaaaaaaaaaaaaaaaaaaaaaaaaaaaaaaaaaaaaaaaaaaaaaaaaaaaaaaaaaaaaaaaaaaaaaaaaaaa114".toList) [] RetVal.pass, Node.leaf ("aaaaaaaaaaaaaaaaaaaaaaaaaaaaaaaaaaaaaaaaaaaaaaaaaaaaaaaaaaaaaaaaaaaaaaaaaaaaaaaaaaaaaaaaaaaaaaaaaaaaaaaaaaaaaaaaaaaaaaaaaaaaaaaaaaaaaaaaaaaaaaaaaaaaaaaaaaaaaaaaaaaaaaaaaaaaaaaaaaaaaaaaaaaaaaaaaaaaaaaaaaaaaaaaaaaaaaaaaaaaaaaaaaaaaaaaaaaa115".toList) [] RetVal.pass] RetVal.pass c4s13) = Out.ok RetVal.pass c4s37 :=
    (loop_step_ok RET_ROOT_TAG 24 2 (Node.leaf ("aaaaaaaaaaaaaaaaaaaaaaaaaaaaaaaaaaaaaaaaaaaaaaaaaaaaaaaaaaaaaaaaaaaaaaaaaaaaaaaaaaaaaaaaaaaaaaaaaaaaaaaaaaaaaaaaaaaaaaaaaaaaaaaaaaaaaaaaaaaaaaaaaaaaaaaaaaaaaaaaaaaaaaaaaaaaaaaaaaaaaaaaaaaaaaaaaaaaaaaaaaaaaaaaaaaaaaaaaaaaaaaaaaaaaaaaaaaa104".toList) [] RetVal.pass) [Node.leaf ("aaaaaaaaaaaaaaaaaaaaaaaaaaaaaaaaaaaaaaaaaaaaaaaaaaaaaaaaaaaaaaaaaaaaaaaaaaaaaaaaaaaaaaaaaaaaaaaaaaaaaaaaaaaaaaaaaaaaaaaaaaaaaaaaaaaaaaaaaaaaaaaaaaaaaaaaaaaaaaaaaaaaaaaaaaaaaaaaaaaaaaaaaaaaaaaaaaaaaaaaaaaaaaaaaaaaaaaaaaaaaaaaaaaaaaaaaaaa105".toList) [] RetVal.pass, Node.leaf ("aaaaaaaaaaaaaaaaaaaaaaaaaaaaaaaaaaaaaaaaaaaaaaaaaaaaaaaaaaaaaaaaaaaaaaaaaaaaaaaaaaaaaaaaaaaaaaaaaaaaaaaaaaaaaaaaaaaaaaaaaaaaaaaaaaaaaaaaaaaaaaaaaaaaaaaaaaaaaaaaaaaaaaaaaaaaaaaaaaaaaaaaaaaaaaaaaaaaaaaaaaaaaaaaaaaaaaaaaaaaaaaaaaaaaaaaaaaa106".toList) [] RetVal.pass, Node.leaf ("aaaaaaaaaaaaaaaaaaaaaaaaaaaaaaaaaaaaaaaaaaaaaaaaaaaaaaaaaaaaaaaaaaaaaaaaaaaaaaaaaaaaaaaaaaaaaaaaaaaaaaaaaaaaaaaaaaaaaaaaaaaaaaaaaaaaaaaaaaaaaaaaaaaaaaaaaaaaaaaaaaaaaaaaaaaaaaaaaaaaaaaaaaaaaaaaaaaaaaaaaaaaaaaaaaaaaaaaaaaaaaaaaaaaaaaaaaaa107".toList) [] RetVal.pass, Node.leaf ("aaaaaaaaaaaaaaaaaaaaaaaaaaaaaaaaaaaaaaaaaaaaaaaaaaaaaaaaaaaaaaaaaaaaaaaaaaaaaaaaaaaaaaaaaaaaaaaaaaaaaaaaaaaaaaaaaaaaaaaaaaaaaaaaaaaaaaaaaaaaaaaaaaaaaaaaaaaaaaaaaaaaaaaaaaaaaaaaaaaaaaaaaaaaaaaaaaaaaaaaaaaaaaaaaaaaaaaaaaaaaaaaaaaaaaaaaaaa108".toList) [] RetVal.pass, Node.leaf ("aaaaaaaaaaaaaaaaaaaaaaaaaaaaaaaaaaaaaaaaaaaaaaaaaaaaaaaaaaaaaaaaaaaaaaaaaaaaaaaaaaaaaaaaaaaaaaaaaaaaaaaaaaaaaaaaaaaaaaaaaaaaaaaaaaaaaaaaaaaaaaaaaaaaaaaaaaaaaaaaaaaaaaaaaaaaaaaaaaaaaaaaaaaaaaaaaaaaaaaaaaaaaaaaaaaaaaaaaaaaaaaaaaaaaaaaaaaa109".toList) [] RetVal.pass, Node.leaf ("aaaaaaaaaaaaaaaaaaaaaaaaaaaaaaaaaaaaaaaaaaaaaaaaaaaaaaaaaaaaaaaaaaaaaaaaaaaaaaaaaaaaaaaaaaaaaaaaaaaaaaaaaaaaaaaaaaaaaaaaaaaaaaaaaaaaaaaaaaaaaaaaaaaaaaaaaaaaaaaaaaaaaaaaaaaaaaaaaaaaaaaaaaaaaaaaaaaaaaaaaaaaaaaaaaaaaaaaaaaaaaaaaaaaaaaaaaaa110".toList) [] RetVal.pass, Node.leaf ("aaaaaaaaaaaaaaaaaaaaaaaaaaaaaaaaaaaaaaaaaaaaaaaaaaaaaaaaaaaaaaaaaaaaaaaaaaaaaaaaaaaaaaaaaaaaaaaaaaaaaaaaaaaaaaaaaaaaaaaaaaaaaaaaaaaaaaaaaaaaaaaaaaaaaaaaaaaaaaaaaaaaaaaaaaaaaaaaaaaaaaaaaaaaaaaaaaaaaaaaaaaaaaaaaaaaaaaaaaaaaaaaaaaaaaaaaaaa111".toList) [] RetVal.pass, Node.leaf ("aaaaaaaaaaaaaaaaaaaaaaaaaaaaaaaaaaaaaaaaaaaaaaaaaaaaaaaaaaaaaaaaaaaaaaaaaaaaaaaaaaaaaaaaaaaaaaaaaaaaaaaaaaaaaaaaaaaaaaaaaaaaaaaaaaaaaaaaaaaaaaaaaaaaaaaaaaaaaaaaaaaaaaaaaaaaaaaaaaaaaaaaaaaaaaaaaaaaaaaaaaaaaaaaaaaaaaaaaaaaaaaaaaaaaaaaaaaa112".toList) [] RetVal.pass, Node.leaf ("aaaaaaaaaaaaaaaaaaaaaaaaaaaaaaaaaaaaaaaaaaaaaaaaaaaaaaaaaaaaaaaaaaaaaaaaaaaaaaaaaaaaaaaaaaaaaaaaaaaaaaaaaaaaaaaaaaaaaaaaaaaaaaaaaaaaaaaaaaaaaaaaaaaaaaaaaaaaaaaaaaaaaaaaaaaaaaaaaaaaaaaaaaaaaaaaaaaaaaaaaaaaaaaaaaaaaaaaaaaaaaaaaaaaaaaaaaaa113".toList) [] RetVal.pass, Node.leaf ("aaaaaaaaaaaaaaaaaaaaaaaaaaaaaaaaaaaaaaaaaaaaaaaaaaaaaaaaaaaaaaaaaaaaaaaaaaaaaaaaaaaaaaaaaaaaaaaaaaaaaaaaaaaaaaaaaaaaaaaaaaaaaaaaaaaaaaaaaaaaaaaaaaaaaaaaaaaaaaaaaaaaaaaaaaaaaaaaaaaaaaaaaaaaaaaaaaaaaaaaaaaaaaaaaaaaaaaaaaaaaaaaaaaaaaaaaaaa114".toList) [] RetVal.pass, Node.leaf ("aaaaaaaaaaaaaaaaaaaaaaaaaaaaaaaaaaaaaaaaaaaaaaaaaaaaaaaaaaaaaaaaaaaaaaaaaaaaaaaaaaaaaaaaaaaaaaaaaaaaaaaaaaaaaaaaaaaaaaaaaaaaaaaaaaaaaaaaaaaaaaaaaaaaaaaaaaaaaaaaaaaaaaaaaaaaaaaaaaaaaaaaaaaaaaaaaaaaaaaaaaaaaaaaaaaaaaaaaaaaaaaaaaaaaaaaaaaa115".toList) [] RetVal.pass] RetVal.pass RetVal.pass c4s13 c4s14 e4).trans e39
  have e41 : step RET_ROOT_TAG 26 (.handle 2 [Node.leaf ("aaaaaaaaaaaaaaaaaaaaaaaaaaaaaaaaaaaaaaaaaaaaaaaaaaaaaaaaaaaaaaaaaaaaaaaaaaaaaaaaaaaaaaaaaaaaaaaaaaaaaaaaaaaaaaaaaaaaaaaaaaaaaaaaaaaaaaaaaaaaaaaaaaaaaaaaaaaaaaaaaaaaaaaaaaaaaaaaaaaaaaaaaaaaaaaaaaaaaaaaaaaaaaaaaaaaaaaaaaaaaaaaaaaaaaaaaaaa104".toList) [] RetVal.pass, Node.leaf ("aaaaaaaaaaaaaaaaaaaaaaaaaaaaaaaaaaaaaaaaaaaaaaaaaaaaaaaaaaaaaaaaaaaaaaaaaaaaaaaaaaaaaaaaaaaaaaaaaaaaaaaaaaaaaaaaaaaaaaaaaaaaaaaaaaaaaaaaaaaaaaaaaaaaaaaaaaaaaaaaaaaaaaaaaaaaaaaaaaaaaaaaaaaaaaaaaaaaaaaaaaaaaaaaaaaaaaaaaaaaaaaaaaaaaaaaaaaa105".toList) [] RetVal.pass, Node.leaf ("aaaaaaaaaaaaaaaaaaaaaaaaaaaaaaaaaaaaaaaaaaaaaaaaaaaaaaaaaaaaaaaaaaaaaaaaaaaaaaaaaaaaaaaaaaaaaaaaaaaaaaaaaaaaaaaaaaaaaaaaaaaaaaaaaaaaaaaaaaaaaaaaaaaaaaaaaaaaaaaaaaaaaaaaaaaaaaaaaaaaaaaaaaaaaaaaaaaaaaaaaaaaaaaaaaaaaaaaaaaaaaaaaaaaaaaaaaaa106".toList) [] RetVal.pass, Node.leaf ("aaaaaaaaaaaaaaaaaaaaaaaaaaaaaaaaaaaaaaaaaaaaaaaaaaaaaaaaaaaaaaaaaaaaaaaaaaaaaaaaaaaaaaaaaaaaaaaaaaaaaaaaaaaaaaaaaaaaaaaaaaaaaaaaaaaaaaaaaaaaaaaaaaaaaaaaaaaaaaaaaaaaaaaaaaaaaaaaaaaaaaaaaaaaaaaaaaaaaaaaaaaaaaaaaaaaaaaaaaaaaaaaaaaaaaaaaaaa107".toList) [] RetVal.pass, Node.leaf ("aaaaaaaaaaaaaaaaaaaaaaaaaaaaaaaaaaaaaaaaaaaaaaaaaaaaaaaaaaaaaaaaaaaaaaaaaaaaaaaaaaaaaaaaaaaaaaaaaaaaaaaaaaaaaaaaaaaaaaaaaaaaaaaaaaaaaaaaaaaaaaaaaaaaaaaaaaaaaaaaaaaaaaaaaaaaaaaaaaaaaaaaaaaaaaaaaaaaaaaaaaaaaaaaaaaaaaaaaaaaaaaaaaaaaaaaaaaa108".toList) [] RetVal.pass, Node.leaf ("aaaaaaaaaaaaaaaaaaaaaaaaaaaaaaaaaaaaaaaaaaaaaaaaaaaaaaaaaaaaaaaaaaaaaaaaaaaaaaaaaaaaaaaaaaaaaaaaaaaaaaaaaaaaaaaaaaaaaaaaaaaaaaaaaaaaaaaaaaaaaaaaaaaaaaaaaaaaaaaaaaaaaaaaaaaaaaaaaaaaaaaaaaaaaaaaaaaaaaaaaaaaaaaaaaaaaaaaaaaaaaaaaaaaaaaaaaaa109".toList) [] RetVal.pass, Node.leaf ("aaaaaaaaaaaaaaaaaaaaaaaaaaaaaaaaaaaaaaaaaaaaaaaaaaaaaaaaaaaaaaaaaaaaaaaaaaaaaaaaaaaaaaaaaaaaaaaaaaaaaaaaaaaaaaaaaaaaaaaaaaaaaaaaaaaaaaaaaaaaaaaaaaaaaaaaaaaaaaaaaaaaaaaaaaaaaaaaaaaaaaaaaaaaaaaaaaaaaaaaaaaaaaaaaaaaaaaaaaaaaaaaaaaaaaaaaaaa110".toList) [] RetVal.pass, Node.leaf ("aaaaaaaaaaaaaaaaaaaaaaaaaaaaaaaaaaaaaaaaaaaaaaaaaaaaaaaaaaaaaaaaaaaaaaaaaaaaaaaaaaaaaaaaaaaaaaaaaaaaaaaaaaaaaaaaaaaaaaaaaaaaaaaaaaaaaaaaaaaaaaaaaaaaaaaaaaaaaaaaaaaaaaaaaaaaaaaaaaaaaaaaaaaaaaaaaaaaaaaaaaaaaaaaaaaaaaaaaaaaaaaaaaaaaaaaaaaa111".toList) [] RetVal.pass, Node.leaf ("aaaaaaaaaaaaaaaaaaaaaaaaaaaaaaaaaaaaaaaaaaaaaaaaaaaaaaaaaaaaaaaaaaaaaaaaaaaaaaaaaaaaaaaaaaaaaaaaaaaaaaaaaaaaaaaaaaaaaaaaaaaaaaaaaaaaaaaaaaaaaaaaaaaaaaaaaaaaaaaaaaaaaaaaaaaaaaaaaaaaaaaaaaaaaaaaaaaaaaaaaaaaaaaaaaaaaaaaaaaaaaaaaaaaaaaaaaaa112".toList) [] RetVal.pass, Node.leaf ("aaaaaaaaaaaaaaaaaaaaaaaaaaaaaaaaaaaaaaaaaaaaaaaaaaaaaaaaaaaaaaaaaaaaaaaaaaaaaaaaaaaaaaaaaaaaaaaaaaaaaaaaaaaaaaaaaaaaaaaaaaaaaaaaaaaaaaaaaaaaaaaaaaaaaaaaaaaaaaaaaaaaaaaaaaaaaaaaaaaaaaaaaaaaaaaaaaaaaaaaaaaaaaaaaaaaaaaaaaaaaaaaaaaaaaaaaaaa113".toList) [] RetVal.pass, Node.leaf ("aaaaaaaaaaaaaaaaaaaaaaaaaaaaaaaaaaaaaaaaaaaaaaaaaaaaaaaaaaaaaaaaaaaaaaaaaaaaaaaaaaaaaaaaaaaaaaaaaaaaaaaaaaaaaaaaaaaaaaaaaaaaaaaaaaaaaaaaaaaaaaaaaaaaaaaaaaaaaaaaaaaaaaaaaaaaaaaaaaaaaaaaaaaaaaaaaaaaaaaaaaaaaaaaaaaaaaaaaaaaaaaaaaaaaaaaaaaa114".toList) [] RetVal.pass, Node.leaf ("aaaaaaaaaaaaaaaaaaaaaaaaaaaaaaaaaaaaaaaaaaaaaaaaaaaaaaaaaaaaaaaaaaaaaaaaaaaaaaaaaaaaaaaaaaaaaaaaaaaaaaaaaaaaaaaaaaaaaaaaaaaaaaaaaaaaaaaaaaaaaaaaaaaaaaaaaaaaaaaaaaaaaaaaaaaaaaaaaaaaaaaaaaaaaaaaaaaaaaaaaaaaaaaaaaaaaaaaaaaaaaaaaaaaaaaaaaaa115".toList) [] RetVal.pass] RetVal.pass RetVal.pass c4s12) = Out.ok RetVal.pass c4s37 :=
    (handle_step_exit_ok RET_ROOT_TAG 25 2 [Node.leaf ("aaaaaaaaaaaaaaaaaaaaaaaaaaaaaaaaaaaaaaaaaaaaaaaaaaaaaaaaaaaaaaaaaaaaaaaaaaaaaaaaaaaaaaaaaaaaaaaaaaaaaaaaaaaaaaaaaaaaaaaaaaaaaaaaaaaaaaaaaaaaaaaaaaaaaaaaaaaaaaaaaaaaaaaaaaaaaaaaaaaaaaaaaaaaaaaaaaaaaaaaaaaaaaaaaaaaaaaaaaaaaaaaaaaaaaaaaaaa104".toList) [] RetVal.pass, Node.leaf ("aaaaaaaaaaaaaaaaaaaaaaaaaaaaaaaaaaaaaaaaaaaaaaaaaaaaaaaaaaaaaaaaaaaaaaaaaaaaaaaaaaaaaaaaaaaaaaaaaaaaaaaaaaaaaaaaaaaaaaaaaaaaaaaaaaaaaaaaaaaaaaaaaaaaaaaaaaaaaaaaaaaaaaaaaaaaaaaaaaaaaaaaaaaaaaaaaaaaaaaaaaaaaaaaaaaaaaaaaaaaaaaaaaaaaaaaaaaa105".toList) [] RetVal.pass, Node.leaf ("aaaaaaaaaaaaaaaaaaaaaaaaaaaaaaaaaaaaaaaaaaaaaaaaaaaaaaaaaaaaaaaaaaaaaaaaaaaaaaaaaaaaaaaaaaaaaaaaaaaaaaaaaaaaaaaaaaaaaaaaaaaaaaaaaaaaaaaaaaaaaaaaaaaaaaaaaaaaaaaaaaaaaaaaaaaaaaaaaaaaaaaaaaaaaaaaaaaaaaaaaaaaaaaaaaaaaaaaaaaaaaaaaaaaaaaaaaaa106".toList) [] RetVal.pass, Node.leaf ("aaaaaaaaaaaaaaaaaaaaaaaaaaaaaaaaaaaaaaaaaaaaaaaaaaaaaaaaaaaaaaaaaaaaaaaaaaaaaaaaaaaaaaaaaaaaaaaaaaaaaaaaaaaaaaaaaaaaaaaaaaaaaaaaaaaaaaaaaaaaaaaaaaaaaaaaaaaaaaaaaaaaaaaaaaaaaaaaaaaaaaaaaaaaaaaaaaaaaaaaaaaaaaaaaaaaaaaaaaaaaaaaaaaaaaaaaaaa107".toList) [] RetVal.pass, Node.leaf ("aaaaaaaaaaaaaaaaaaaaaaaaaaaaaaaaaaaaaaaaaaaaaaaaaaaaaaaaaaaaaaaaaaaaaaaaaaaaaaaaaaaaaaaaaaaaaaaaaaaaaaaaaaaaaaaaaaaaaaaaaaaaaaaaaaaaaaaaaaaaaaaaaaaaaaaaaaaaaaaaaaaaaaaaaaaaaaaaaaaaaaaaaaaaaaaaaaaaaaaaaaaaaaaaaaaaaaaaaaaaaaaaaaaaaaaaaaaa108".toList) [] RetVal.pass, Node.leaf ("aaaaaaaaaaaaaaaaaaaaaaaaaaaaaaaaaaaaaaaaaaaaaaaaaaaaaaaaaaaaaaaaaaaaaaaaaaaaaaaaaaaaaaaaaaaaaaaaaaaaaaaaaaaaaaaaaaaaaaaaaaaaaaaaaaaaaaaaaaaaaaaaaaaaaaaaaaaaaaaaaaaaaaaaaaaaaaaaaaaaaaaaaaaaaaaaaaaaaaaaaaaaaaaaaaaaaaaaaaaaaaaaaaaaaaaaaaaa109".toList) [] RetVal.pass, Node.leaf ("aaaaaaaaaaaaaaaaaaaaaaaaaaaaaaaaaaaaaaaaaaaaaaaaaaaaaaaaaaaaaaaaaaaaaaaaaaaaaaaaaaaaaaaaaaaaaaaaaaaaaaaaaaaaaaaaaaaaaaaaaaaaaaaaaaaaaaaaaaaaaaaaaaaaaaaaaaaaaaaaaaaaaaaaaaaaaaaaaaaaaaaaaaaaaaaaaaaaaaaaaaaaaaaaaaaaaaaaaaaaaaaaaaaaaaaaaaaa110".toList) [] RetVal.pass, Node.leaf ("aaaaaaaaaaaaaaaaaaaaaaaaaaaaaaaaaaaaaaaaaaaaaaaaaaaaaaaaaaaaaaaaaaaaaaaaaaaaaaaaaaaaaaaaaaaaaaaaaaaaaaaaaaaaaaaaaaaaaaaaaaaaaaaaaaaaaaaaaaaaaaaaaaaaaaaaaaaaaaaaaaaaaaaaaaaaaaaaaaaaaaaaaaaaaaaaaaaaaaaaaaaaaaaaaaaaaaaaaaaaaaaaaaaaaaaaaaaa111".toList) [] RetVal.pass, Node.leaf ("aaaaaaaaaaaaaaaaaaaaaaaaaaaaaaaaaaaaaaaaaaaaaaaaaaaaaaaaaaaaaaaaaaaaaaaaaaaaaaaaaaaaaaaaaaaaaaaaaaaaaaaaaaaaaaaaaaaaaaaaaaaaaaaaaaaaaaaaaaaaaaaaaaaaaaaaaaaaaaaaaaaaaaaaaaaaaaaaaaaaaaaaaaaaaaaaaaaaaaaaaaaaaaaaaaaaaaaaaaaaaaaaaaaaaaaaaaaa112".toList) [] RetVal.pass, Node.leaf ("aaaaaaaaaaaaaaaaaaaaaaaaaaaaaaaaaaaaaaaaaaaaaaaaaaaaaaaaaaaaaaaaaaaaaaaaaaaaaaaaaaaaaaaaaaaaaaaaaaaaaaaaaaaaaaaaaaaaaaaaaaaaaaaaaaaaaaaaaaaaaaaaaaaaaaaaaaaaaaaaaaaaaaaaaaaaaaaaaaaaaaaaaaaaaaaaaaaaaaaaaaaaaaaaaaaaaaaaaaaaaaaaaaaaaaaaaaaa113".toList) [] RetVal.pass, Node.leaf ("aaaaaaaaaaaaaaaaaaaaaaaaaaaaaaaaaaaaaaaaaaaaaaaaaaaaaaaaaaaaaaaaaaaaaaaaaaaaaaaaaaaaaaaaaaaaaaaaaaaaaaaaaaaaaaaaaaaaaaaaaaaaaaaaaaaaaaaaaaaaaaaaaaaaaaaaaaaaaaaaaaaaaaaaaaaaaaaaaaaaaaaaaaaaaaaaaaaaaaaaaaaaaaaaaaaaaaaaaaaaaaaaaaaaaaaaaaaa114".toList) [] RetVal.pass, Node.leaf ("aaaaaaaaaaaaaaaaaaaaaaaaaaaaaaaaaaaaaaaaaaaaaaaaaaaaaaaaaaaaaaaaaaaaaaaaaaaaaaaaaaaaaaaaaaaaaaaaaaaaaaaaaaaaaaaaaaaaaaaaaaaaaaaaaaaaaaaaaaaaaaaaaaaaaaaaaaaaaaaaaaaaaaaaaaaaaaaaaaaaaaaaaaaaaaaaaaaaaaaaaaaaaaaaaaaaaaaaaaaaaaaaaaaaaaaaaaaa115".toList) [] RetVal.pass] RetVal.pass RetVal.pass c4s12 c4s13 (rfl)).trans e40
  have e42 : step RET_ROOT_TAG 27 (.loop 2 [Node.leaf ("aaaaaaaaaaaaaaaaaaaaaaaaaaaaaaaaaaaaaaaaaaaaaaaaaaaaaaaaaaaaaaaaaaaaaaaaaaaaaaaaaaaaaaaaaaaaaaaaaaaaaaaaaaaaaaaaaaaaaaaaaaaaaaaaaaaaaaaaaaaaaaaaaaaaaaaaaaaaaaaaaaaaaaaaaaaaaaaaaaaaaaaaaaaaaaaaaaaaaaaaaaaaaaaaaaaaaaaaaaaaaaaaaaaaaaaaaaaa103".toList) [] RetVal.pass, Node.leaf ("aaaaaaaaaaaaaaaaaaaaaaaaaaaaaaaaaaaaaaaaaaaaaaaaaaaaaaaaaaaaaaaaaaaaaaaaaaaaaaaaaaaaaaaaaaaaaaaaaaaaaaaaaaaaaaaaaaaaaaaaaaaaaaaaaaaaaaaaaaaaaaaaaaaaaaaaaaaaaaaaaaaaaaaaaaaaaaaaaaaaaaaaaaaaaaaaaaaaaaaaaaaaaaaaaaaaaaaaaaaaaaaaaaaaaaaaaaaa104".toList) [] RetVal.pass, Node.leaf ("aaaaaaaaaaaaaaaaaaaaaaaaaaaaaaaaaaaaaaaaaaaaaaaaaaaaaaaaaaaaaaaaaaaaaaaaaaaaaaaaaaaaaaaaaaaaaaaaaaaaaaaaaaaaaaaaaaaaaaaaaaaaaaaaaaaaaaaaaaaaaaaaaaaaaaaaaaaaaaaaaaaaaaaaaaaaaaaaaaaaaaaaaaaaaaaaaaaaaaaaaaaaaaaaaaaaaaaaaaaaaaaaaaaaaaaaaaaa105".toList) [] RetVal.pass, Node.leaf ("aaaaaaaaaaaaaaaaaaaaaaaaaaaaaaaaaaaaaaaaaaaaaaaaaaaaaaaaaaaaaaaaaaaaaaaaaaaaaaaaaaaaaaaaaaaaaaaaaaaaaaaaaaaaaaaaaaaaaaaaaaaaaaaaaaaaaaaaaaaaaaaaaaaaaaaaaaaaaaaaaaaaaaaaaaaaaaaaaaaaaaaaaaaaaaaaaaaaaaaaaaaaaaaaaaaaaaaaaaaaaaaaaaaaaaaaaaaa106".toList) [] RetVal.pass, Node.leaf ("aaaaaaaaaaaaaaaaaaaaaaaaaaaaaaaaaaaaaaaaaaaaaaaaaaaaaaaaaaaaaaaaaaaaaaaaaaaaaaaaaaaaaaaaaaaaaaaaaaaaaaaaaaaaaaaaaaaaaaaaaaaaaaaaaaaaaaaaaaaaaaaaaaaaaaaaaaaaaaaaaaaaaaaaaaaaaaaaaaaaaaaaaaaaaaaaaaaaaaaaaaaaaaaaaaaaaaaaaaaaaaaaaaaaaaaaaaaa107".toList) [] RetVal.pass, Node.leaf ("aaaaaaaaaaaaaaaaaaaaaaaaaaaaaaaaaaaaaaaaaaaaaaaaaaaaaaaaaaaaaaaaaaaaaaaaaaaaaaaaaaaaaaaaaaaaaaaaaaaaaaaaaaaaaaaaaaaaaaaaaaaaaaaaaaaaaaaaaaaaaaaaaaaaaaaaaaaaaaaaaaaaaaaaaaaaaaaaaaaaaaaaaaaaaaaaaaaaaaaaaaaaaaaaaaaaaaaaaaaaaaaaaaaaaaaaaaaa108".toList) [] RetVal.pass, Node.leaf ("aaaaaaaaaaaaaaaaaaaaaaaaaaaaaaaaaaaaaaaaaaaaaaaaaaaaaaaaaaaaaaaaaaaaaaaaaaaaaaaaaaaaaaaaaaaaaaaaaaaaaaaaaaaaaaaaaaaaaaaaaaaaaaaaaaaaaaaaaaaaaaaaaaaaaaaaaaaaaaaaaaaaaaaaaaaaaaaaaaaaaaaaaaaaaaaaaaaaaaaaaaaaaaaaaaaaaaaaaaaaaaaaaaaaaaaaaaaa109".toList) [] RetVal.pass, Node.leaf ("aaaaaaaaaaaaaaaaaaaaaaaaaaaaaaaaaaaaaaaaaaaaaaaaaaaaaaaaaaaaaaaaaaaaaaaaaaaaaaaaaaaaaaaaaaaaaaaaaaaaaaaaaaaaaaaaaaaaaaaaaaaaaaaaaaaaaaaaaaaaaaaaaaaaaaaaaaaaaaaaaaaaaaaaaaaaaaaaaaaaaaaaaaaaaaaaaaaaaaaaaaaaaaaaaaaaaaaaaaaaaaaaaaaaaaaaaaaa110".toList) [] RetVal.pass, Node.leaf ("aaaaaaaaaaaaaaaaaaaaaaaaaaaaaaaaaaaaaaaaaaaaaaaaaaaaaaaaaaaaaaaaaaaaaaaaaaaaaaaaaaaaaaaaaaaaaaaaaaaaaaaaaaaaaaaaaaaaaaaaaaaaaaaaaaaaaaaaaaaaaaaaaaaaaaaaaaaaaaaaaaaaaaaaaaaaaaaaaaaaaaaaaaaaaaaaaaaaaaaaaaaaaaaaaaaaaaaaaaaaaaaaaaaaaaaaaaaa111".toList) [] RetVal.pass, Node.leaf ("aaaaaaaaaaaaaaaaaaaaaaaaaaaaaaaaaaaaaaaaaaaaaaaaaaaaaaaaaaaaaaaaaaaaaaaaaaaaaaaaaaaaaaaaaaaaaaaaaaaaaaaaaaaaaaaaaaaaaaaaaaaaaaaaaaaaaaaaaaaaaaaaaaaaaaaaaaaaaaaaaaaaaaaaaaaaaaaaaaaaaaaaaaaaaaaaaaaaaaaaaaaaaaaaaaaaaaaaaaaaaaaaaaaaaaaaaaaa112".toList) [] RetVal.pass, Node.leaf ("aaaaaaaaaaaaaaaaaaaaaaaaaaaaaaaaaaaaaaaaaaaaaaaaaaaaaaaaaaaaaaaaaaaaaaaaaaaaaaaaaaaaaaaaaaaaaaaaaaaaaaaaaaaaaaaaaaaaaaaaaaaaaaaaaaaaaaaaaaaaaaaaaaaaaaaaaaaaaaaaaaaaaaaaaaaaaaaaaaaaaaaaaaaaaaaaaaaaaaaaaaaaaaaaaaaaaaaaaaaaaaaaaaaaaaaaaaaa113".toList) [] RetVal.pass, Node.leaf ("aaaaaaaaaaaaaaaaaaaaaaaaaaaaaaaaaaaaaaaaaaaaaaaaaaaaaaaaaaaaaaaaaaaaaaaaaaaaaaaaaaaaaaaaaaaaaaaaaaaaaaaaaaaaaaaaaaaaaaaaaaaaaaaaaaaaaaaaaaaaaaaaaaaaaaaaaaaaaaaaaaaaaaaaaaaaaaaaaaaaaaaaaaaaaaaaaaaaaaaaaaaaaaaaaaaaaaaaaaaaaaaaaaaaaaaaaaaa114".toList) [] RetVal.pass, Node.leaf ("aaaaaaaaaaaaaaaaaaaaaaaaaaaaaaaaaaaaaaaaaaaaaaaaaaaaaaaaaaaaaaaaaaaaaaaaaaaaaaaaaaaaaaaaaaaaaaaaaaaaaaaaaaaaaaaaaaaaaaaaaaaaaaaaaaaaaaaaaaaaaaaaaaaaaaaaaaaaaaaaaaaaaaaaaaaaaaaaaaaaaaaaaaaaaaaaaaaaaaaaaaaaaaaaaaaaaaaaaaaaaaaaaaaaaaaaaaaa115".toList) [] RetVal.pass] RetVal.pass c4s11) = Out.ok RetVal.pass c4s37 :=
    (loop_step_ok RET_ROOT_TAG 26 2 (Node.leaf ("aaaaaaaaaaaaaaaaaaaaaaaaaaaaaaaaaaaaaaaaaaaaaaaaaaaaaaaaaaaaaaaaaaaaaaaaaaaaaaaaaaaaaaaaaaaaaaaaaaaaaaaaaaaaaaaaaaaaaaaaaaaaaaaaaaaaaaaaaaaaaaaaaaaaaaaaaaaaaaaaaaaaaaaaaaaaaaaaaaaaaaaaaaaaaaaaaaaaaaaaaaaaaaaaaaaaaaaaaaaaaaaaaaaaaaaaaaaa103".toList) [] RetVal.pass) [Node.leaf ("aaaaaaaaaaaaaaaaaaaaaaaaaaaaaaaaaaaaaaaaaaaaaaaaaaaaaaaaaaaaaaaaaaaaaaaaaaaaaaaaaaaaaaaaaaaaaaaaaaaaaaaaaaaaaaaaaaaaaaaaaaaaaaaaaaaaaaaaaaaaaaaaaaaaaaaaaaaaaaaaaaaaaaaaaaaaaaaaaaaaaaaaaaaaaaaaaaaaaaaaaaaaaaaaaaaaaaaaaaaaaaaaaaaaaaaaaaaa104".toList) [] RetVal.pass, Node.leaf ("aaaaaaaaaaaaaaaaaaaaaaaaaaaaaaaaaaaaaaaaaaaaaaaaaaaaaaaaaaaaaaaaaaaaaaaaaaaaaaaaaaaaaaaaaaaaaaaaaaaaaaaaaaaaaaaaaaaaaaaaaaaaaaaaaaaaaaaaaaaaaaaaaaaaaaaaaaaaaaaaaaaaaaaaaaaaaaaaaaaaaaaaaaaaaaaaaaaaaaaaaaaaaaaaaaaaaaaaaaaaaaaaaaaaaaaaaaaa105".toList) [] RetVal.pass, Node.leaf ("aaaaaaaaaaaaaaaaaaaaaaaaaaaaaaaaaaaaaaaaaaaaaaaaaaaaaaaaaaaaaaaaaaaaaaaaaaaaaaaaaaaaaaaaaaaaaaaaaaaaaaaaaaaaaaaaaaaaaaaaaaaaaaaaaaaaaaaaaaaaaaaaaaaaaaaaaaaaaaaaaaaaaaaaaaaaaaaaaaaaaaaaaaaaaaaaaaaaaaaaaaaaaaaaaaaaaaaaaaaaaaaaaaaaaaaaaaaa106".toList) [] RetVal.pass, Node.leaf ("aaaaaaaaaaaaaaaaaaaaaaaaaaaaaaaaaaaaaaaaaaaaaaaaaaaaaaaaaaaaaaaaaaaaaaaaaaaaaaaaaaaaaaaaaaaaaaaaaaaaaaaaaaaaaaaaaaaaaaaaaaaaaaaaaaaaaaaaaaaaaaaaaaaaaaaaaaaaaaaaaaaaaaaaaaaaaaaaaaaaaaaaaaaaaaaaaaaaaaaaaaaaaaaaaaaaaaaaaaaaaaaaaaaaaaaaaaaa107".toList) [] RetVal.pass, Node.leaf ("aaaaaaaaaaaaaaaaaaaaaaaaaaaaaaaaaaaaaaaaaaaaaaaaaaaaaaaaaaaaaaaaaaaaaaaaaaaaaaaaaaaaaaaaaaaaaaaaaaaaaaaaaaaaaaaaaaaaaaaaaaaaaaaaaaaaaaaaaaaaaaaaaaaaaaaaaaaaaaaaaaaaaaaaaaaaaaaaaaaaaaaaaaaaaaaaaaaaaaaaaaaaaaaaaaaaaaaaaaaaaaaaaaaaaaaaaaaa108".toList) [] RetVal.pass, Node.leaf ("aaaaaaaaaaaaaaaaaaaaaaaaaaaaaaaaaaaaaaaaaaaaaaaaaaaaaaaaaaaaaaaaaaaaaaaaaaaaaaaaaaaaaaaaaaaaaaaaaaaaaaaaaaaaaaaaaaaaaaaaaaaaaaaaaaaaaaaaaaaaaaaaaaaaaaaaaaaaaaaaaaaaaaaaaaaaaaaaaaaaaaaaaaaaaaaaaaaaaaaaaaaaaaaaaaaaaaaaaaaaaaaaaaaaaaaaaaaa109".toList) [] RetVal.pass, Node.leaf ("aaaaaaaaaaaaaaaaaaaaaaaaaaaaaaaaaaaaaaaaaaaaaaaaaaaaaaaaaaaaaaaaaaaaaaaaaaaaaaaaaaaaaaaaaaaaaaaaaaaaaaaaaaaaaaaaaaaaaaaaaaaaaaaaaaaaaaaaaaaaaaaaaaaaaaaaaaaaaaaaaaaaaaaaaaaaaaaaaaaaaaaaaaaaaaaaaaaaaaaaaaaaaaaaaaaaaaaaaaaaaaaaaaaaaaaaaaaa110".toList) [] RetVal.pass, Node.leaf ("aaaaaaaaaaaaaaaaaaaaaaaaaaaaaaaaaaaaaaaaaaaaaaaaaaaaaaaaaaaaaaaaaaaaaaaaaaaaaaaaaaaaaaaaaaaaaaaaaaaaaaaaaaaaaaaaaaaaaaaaaaaaaaaaaaaaaaaaaaaaaaaaaaaaaaaaaaaaaaaaaaaaaaaaaaaaaaaaaaaaaaaaaaaaaaaaaaaaaaaaaaaaaaaaaaaaaaaaaaaaaaaaaaaaaaaaaaaa111".toList) [] RetVal.pass, Node.leaf ("aaaaaaaaaaaaaaaaaaaaaaaaaaaaaaaaaaaaaaaaaaaaaaaaaaaaaaaaaaaaaaaaaaaaaaaaaaaaaaaaaaaaaaaaaaaaaaaaaaaaaaaaaaaaaaaaaaaaaaaaaaaaaaaaaaaaaaaaaaaaaaaaaaaaaaaaaaaaaaaaaaaaaaaaaaaaaaaaaaaaaaaaaaaaaaaaaaaaaaaaaaaaaaaaaaaaaaaaaaaaaaaaaaaaaaaaaaaa112".toList) [] RetVal.pass, Node.leaf ("aaaaaaaaaaaaaaaaaaaaaaaaaaaaaaaaaaaaaaaaaaaaaaaaaaaaaaaaaaaaaaaaaaaaaaaaaaaaaaaaaaaaaaaaaaaaaaaaaaaaaaaaaaaaaaaaaaaaaaaaaaaaaaaaaaaaaaaaaaaaaaaaaaaaaaaaaaaaaaaaaaaaaaaaaaaaaaaaaaaaaaaaaaaaaaaaaaaaaaaaaaaaaaaaaaaaaaaaaaaaaaaaaaaaaaaaaaaa113".toList) [] RetVal.pass, Node.leaf ("aaaaaaaaaaaaaaaaaaaaaaaaaaaaaaaaaaaaaaaaaaaaaaaaaaaaaaaaaaaaaaaaaaaaaaaaaaaaaaaaaaaaaaaaaaaaaaaaaaaaaaaaaaaaaaaaaaaaaaaaaaaaaaaaaaaaaaaaaaaaaaaaaaaaaaaaaaaaaaaaaaaaaaaaaaaaaaaaaaaaaaaaaaaaaaaaaaaaaaaaaaaaaaaaaaaaaaaaaaaaaaaaaaaaaaaaaaaa114".toList) [] RetVal.pass, Node.leaf ("aaaaaaaaaaaaaaaaaaaaaaaaaaaaaaaaaaaaaaaaaaaaaaaaaaaaaaaaaaaaaaaaaaaaaaaaaaaaaaaaaaaaaaaaaaaaaaaaaaaaaaaaaaaaaaaaaaaaaaaaaaaaaaaaaaaaaaaaaaaaaaaaaaaaaaaaaaaaaaaaaaaaaaaaaaaaaaaaaaaaaaaaaaaaaaaaaaaaaaaaaaaaaaaaaaaaaaaaaaaaaaaaaaaaaaaaaaaa115".toList) [] RetVal.pass] RetVal.pass RetVal.pass c4s11 c4s12 e3).trans e41
  have e43 : step RET_ROOT_TAG 28 (.handle 2 [Node.leaf ("aaaaaaaaaaaaaaaaaaaaaaaaaaaaaaaaaaaaaaaaaaaaaaaaaaaaaaaaaaaaaaaaaaaaaaaaaaaaaaaaaaaaaaaaaaaaaaaaaaaaaaaaaaaaaaaaaaaaaaaaaaaaaaaaaaaaaaaaaaaaaaaaaaaaaaaaaaaaaaaaaaaaaaaaaaaaaaaaaaaaaaaaaaaaaaaaaaaaaaaaaaaaaaaaaaaaaaaaaaaaaaaaaaaaaaaaaaaa103".toList) [] RetVal.pass, Node.leaf ("aaaaaaaaaaaaaaaaaaaaaaaaaaaaaaaaaaaaaaaaaaaaaaaaaaaaaaaaaaaaaaaaaaaaaaaaaaaaaaaaaaaaaaaaaaaaaaaaaaaaaaaaaaaaaaaaaaaaaaaaaaaaaaaaaaaaaaaaaaaaaaaaaaaaaaaaaaaaaaaaaaaaaaaaaaaaaaaaaaaaaaaaaaaaaaaaaaaaaaaaaaaaaaaaaaaaaaaaaaaaaaaaaaaaaaaaaaaa104".toList) [] RetVal.pass, Node.leaf ("aaaaaaaaaaaaaaaaaaaaaaaaaaaaaaaaaaaaaaaaaaaaaaaaaaaaaaaaaaaaaaaaaaaaaaaaaaaaaaaaaaaaaaaaaaaaaaaaaaaaaaaaaaaaaaaaaaaaaaaaaaaaaaaaaaaaaaaaaaaaaaaaaaaaaaaaaaaaaaaaaaaaaaaaaaaaaaaaaaaaaaaaaaaaaaaaaaaaaaaaaaaaaaaaaaaaaaaaaaaaaaaaaaaaaaaaaaaa105".toList) [] RetVal.pass, Node.leaf ("aaaaaaaaaaaaaaaaaaaaaaaaaaaaaaaaaaaaaaaaaaaaaaaaaaaaaaaaaaaaaaaaaaaaaaaaaaaaaaaaaaaaaaaaaaaaaaaaaaaaaaaaaaaaaaaaaaaaaaaaaaaaaaaaaaaaaaaaaaaaaaaaaaaaaaaaaaaaaaaaaaaaaaaaaaaaaaaaaaaaaaaaaaaaaaaaaaaaaaaaaaaaaaaaaaaaaaaaaaaaaaaaaaaaaaaaaaaa106".toList) [] RetVal.pass, Node.leaf ("aaaaaaaaaaaaaaaaaaaaaaaaaaaaaaaaaaaaaaaaaaaaaaaaaaaaaaaaaaaaaaaaaaaaaaaaaaaaaaaaaaaaaaaaaaaaaaaaaaaaaaaaaaaaaaaaaaaaaaaaaaaaaaaaaaaaaaaaaaaaaaaaaaaaaaaaaaaaaaaaaaaaaaaaaaaaaaaaaaaaaaaaaaaaaaaaaaaaaaaaaaaaaaaaaaaaaaaaaaaaaaaaaaaaaaaaaaaa107".toList) [] RetVal.pass, Node.leaf ("aaaaaaaaaaaaaaaaaaaaaaaaaaaaaaaaaaaaaaaaaaaaaaaaaaaaaaaaaaaaaaaaaaaaaaaaaaaaaaaaaaaaaaaaaaaaaaaaaaaaaaaaaaaaaaaaaaaaaaaaaaaaaaaaaaaaaaaaaaaaaaaaaaaaaaaaaaaaaaaaaaaaaaaaaaaaaaaaaaaaaaaaaaaaaaaaaaaaaaaaaaaaaaaaaaaaaaaaaaaaaaaaaaaaaaaaaaaa108".toList) [] RetVal.pass, Node.leaf ("aaaaaaaaaaaaaaaaaaaaaaaaaaaaaaaaaaaaaaaaaaaaaaaaaaaaaaaaaaaaaaaaaaaaaaaaaaaaaaaaaaaaaaaaaaaaaaaaaaaaaaaaaaaaaaaaaaaaaaaaaaaaaaaaaaaaaaaaaaaaaaaaaaaaaaaaaaaaaaaaaaaaaaaaaaaaaaaaaaaaaaaaaaaaaaaaaaaaaaaaaaaaaaaaaaaaaaaaaaaaaaaaaaaaaaaaaaaa109".toList) [] RetVal.pass, Node.leaf ("aaaaaaaaaaaaaaaaaaaaaaaaaaaaaaaaaaaaaaaaaaaaaaaaaaaaaaaaaaaaaaaaaaaaaaaaaaaaaaaaaaaaaaaaaaaaaaaaaaaaaaaaaaaaaaaaaaaaaaaaaaaaaaaaaaaaaaaaaaaaaaaaaaaaaaaaaaaaaaaaaaaaaaaaaaaaaaaaaaaaaaaaaaaaaaaaaaaaaaaaaaaaaaaaaaaaaaaaaaaaaaaaaaaaaaaaaaaa110".toList) [] RetVal.pass, Node.leaf ("aaaaaaaaaaaaaaaaaaaaaaaaaaaaaaaaaaaaaaaaaaaaaaaaaaaaaaaaaaaaaaaaaaaaaaaaaaaaaaaaaaaaaaaaaaaaaaaaaaaaaaaaaaaaaaaaaaaaaaaaaaaaaaaaaaaaaaaaaaaaaaaaaaaaaaaaaaaaaaaaaaaaaaaaaaaaaaaaaaaaaaaaaaaaaaaaaaaaaaaaaaaaaaaaaaaaaaaaaaaaaaaaaaaaaaaaaaaa111".toList) [] RetVal.pass, Node.leaf ("aaaaaaaaaaaaaaaaaaaaaaaaaaaaaaaaaaaaaaaaaaaaaaaaaaaaaaaaaaaaaaaaaaaaaaaaaaaaaaaaaaaaaaaaaaaaaaaaaaaaaaaaaaaaaaaaaaaaaaaaaaaaaaaaaaaaaaaaaaaaaaaaaaaaaaaaaaaaaaaaaaaaaaaaaaaaaaaaaaaaaaaaaaaaaaaaaaaaaaaaaaaaaaaaaaaaaaaaaaaaaaaaaaaaaaaaaaaa112".toList) [] RetVal.pass, Node.leaf ("aaaaaaaaaaaaaaaaaaaaaaaaaaaaaaaaaaaaaaaaaaaaaaaaaaaaaaaaaaaaaaaaaaaaaaaaaaaaaaaaaaaaaaaaaaaaaaaaaaaaaaaaaaaaaaaaaaaaaaaaaaaaaaaaaaaaaaaaaaaaaaaaaaaaaaaaaaaaaaaaaaaaaaaaaaaaaaaaaaaaaaaaaaaaaaaaaaaaaaaaaaaaaaaaaaaaaaaaaaaaaaaaaaaaaaaaaaaa113".toList) [] RetVal.pass, Node.leaf ("aaaaaaaaaaaaaaaaaaaaaaaaaaaaaaaaaaaaaaaaaaaaaaaaaaaaaaaaaaaaaaaaaaaaaaaaaaaaaaaaaaaaaaaaaaaaaaaaaaaaaaaaaaaaaaaaaaaaaaaaaaaaaaaaaaaaaaaaaaaaaaaaaaaaaaaaaaaaaaaaaaaaaaaaaaaaaaaaaaaaaaaaaaaaaaaaaaaaaaaaaaaaaaaaaaaaaaaaaaaaaaaaaaaaaaaaaaaa114".toList) [] RetVal.pass, Node.leaf ("aaaaaaaaaaaaaaaaaaaaaaaaaaaaaaaaaaaaaaaaaaaaaaaaaaaaaaaaaaaaaaaaaaaaaaaaaaaaaaaaaaaaaaaaaaaaaaaaaaaaaaaaaaaaaaaaaaaaaaaaaaaaaaaaaaaaaaaaaaaaaaaaaaaaaaaaaaaaaaaaaaaaaaaaaaaaaaaaaaaaaaaaaaaaaaaaaaaaaaaaaaaaaaaaaaaaaaaaaaaaaaaaaaaaaaaaaaaa115".toList) [] RetVal.pass] RetVal.pass RetVal.pass c4s10) = Out.ok RetVal.pass c4s37 :=
    (handle_step_exit_ok RET_ROOT_TAG 27 2 [Node.leaf ("aaaaaaaaaaaaaaaaaaaaaaaaaaaaaaaaaaaaaaaaaaaaaaaaaaaaaaaaaaaaaaaaaaaaaaaaaaaaaaaaaaaaaaaaaaaaaaaaaaaaaaaaaaaaaaaaaaaaaaaaaaaaaaaaaaaaaaaaaaaaaaaaaaaaaaaaaaaaaaaaaaaaaaaaaaaaaaaaaaaaaaaaaaaaaaaaaaaaaaaaaaaaaaaaaaaaaaaaaaaaaaaaaaaaaaaaaaaa103".toList) [] RetVal.pass, Node.leaf ("aaaaaaaaaaaaaaaaaaaaaaaaaaaaaaaaaaaaaaaaaaaaaaaaaaaaaaaaaaaaaaaaaaaaaaaaaaaaaaaaaaaaaaaaaaaaaaaaaaaaaaaaaaaaaaaaaaaaaaaaaaaaaaaaaaaaaaaaaaaaaaaaaaaaaaaaaaaaaaaaaaaaaaaaaaaaaaaaaaaaaaaaaaaaaaaaaaaaaaaaaaaaaaaaaaaaaaaaaaaaaaaaaaaaaaaaaaaa104".toList) [] RetVal.pass, Node.leaf ("aaaaaaaaaaaaaaaaaaaaaaaaaaaaaaaaaaaaaaaaaaaaaaaaaaaaaaaaaaaaaaaaaaaaaaaaaaaaaaaaaaaaaaaaaaaaaaaaaaaaaaaaaaaaaaaaaaaaaaaaaaaaaaaaaaaaaaaaaaaaaaaaaaaaaaaaaaaaaaaaaaaaaaaaaaaaaaaaaaaaaaaaaaaaaaaaaaaaaaaaaaaaaaaaaaaaaaaaaaaaaaaaaaaaaaaaaaaa105".toList) [] RetVal.pass, Node.leaf ("aaaaaaaaaaaaaaaaaaaaaaaaaaaaaaaaaaaaaaaaaaaaaaaaaaaaaaaaaaaaaaaaaaaaaaaaaaaaaaaaaaaaaaaaaaaaaaaaaaaaaaaaaaaaaaaaaaaaaaaaaaaaaaaaaaaaaaaaaaaaaaaaaaaaaaaaaaaaaaaaaaaaaaaaaaaaaaaaaaaaaaaaaaaaaaaaaaaaaaaaaaaaaaaaaaaaaaaaaaaaaaaaaaaaaaaaaaaa106".toList) [] RetVal.pass, Node.leaf ("aaaaaaaaaaaaaaaaaaaaaaaaaaaaaaaaaaaaaaaaaaaaaaaaaaaaaaaaaaaaaaaaaaaaaaaaaaaaaaaaaaaaaaaaaaaaaaaaaaaaaaaaaaaaaaaaaaaaaaaaaaaaaaaaaaaaaaaaaaaaaaaaaaaaaaaaaaaaaaaaaaaaaaaaaaaaaaaaaaaaaaaaaaaaaaaaaaaaaaaaaaaaaaaaaaaaaaaaaaaaaaaaaaaaaaaaaaaa107".toList) [] RetVal.pass, Node.leaf ("aaaaaaaaaaaaaaaaaaaaaaaaaaaaaaaaaaaaaaaaaaaaaaaaaaaaaaaaaaaaaaaaaaaaaaaaaaaaaaaaaaaaaaaaaaaaaaaaaaaaaaaaaaaaaaaaaaaaaaaaaaaaaaaaaaaaaaaaaaaaaaaaaaaaaaaaaaaaaaaaaaaaaaaaaaaaaaaaaaaaaaaaaaaaaaaaaaaaaaaaaaaaaaaaaaaaaaaaaaaaaaaaaaaaaaaaaaaa108".toList) [] RetVal.pass, Node.leaf ("aaaaaaaaaaaaaaaaaaaaaaaaaaaaaaaaaaaaaaaaaaaaaaaaaaaaaaaaaaaaaaaaaaaaaaaaaaaaaaaaaaaaaaaaaaaaaaaaaaaaaaaaaaaaaaaaaaaaaaaaaaaaaaaaaaaaaaaaaaaaaaaaaaaaaaaaaaaaaaaaaaaaaaaaaaaaaaaaaaaaaaaaaaaaaaaaaaaaaaaaaaaaaaaaaaaaaaaaaaaaaaaaaaaaaaaaaaaa109".toList) [] RetVal.pass, Node.leaf ("aaaaaaaaaaaaaaaaaaaaaaaaaaaaaaaaaaaaaaaaaaaaaaaaaaaaaaaaaaaaaaaaaaaaaaaaaaaaaaaaaaaaaaaaaaaaaaaaaaaaaaaaaaaaaaaaaaaaaaaaaaaaaaaaaaaaaaaaaaaaaaaaaaaaaaaaaaaaaaaaaaaaaaaaaaaaaaaaaaaaaaaaaaaaaaaaaaaaaaaaaaaaaaaaaaaaaaaaaaaaaaaaaaaaaaaaaaaa110".toList) [] RetVal.pass, Node.leaf ("aaaaaaaaaaaaaaaaaaaaaaaaaaaaaaaaaaaaaaaaaaaaaaaaaaaaaaaaaaaaaaaaaaaaaaaaaaaaaaaaaaaaaaaaaaaaaaaaaaaaaaaaaaaaaaaaaaaaaaaaaaaaaaaaaaaaaaaaaaaaaaaaaaaaaaaaaaaaaaaaaaaaaaaaaaaaaaaaaaaaaaaaaaaaaaaaaaaaaaaaaaaaaaaaaaaaaaaaaaaaaaaaaaaaaaaaaaaa111".toList) [] RetVal.pass, Node.leaf ("aaaaaaaaaaaaaaaaaaaaaaaaaaaaaaaaaaaaaaaaaaaaaaaaaaaaaaaaaaaaaaaaaaaaaaaaaaaaaaaaaaaaaaaaaaaaaaaaaaaaaaaaaaaaaaaaaaaaaaaaaaaaaaaaaaaaaaaaaaaaaaaaaaaaaaaaaaaaaaaaaaaaaaaaaaaaaaaaaaaaaaaaaaaaaaaaaaaaaaaaaaaaaaaaaaaaaaaaaaaaaaaaaaaaaaaaaaaa112".toList) [] RetVal.pass, Node.leaf ("aaaaaaaaaaaaaaaaaaaaaaaaaaaaaaaaaaaaaaaaaaaaaaaaaaaaaaaaaaaaaaaaaaaaaaaaaaaaaaaaaaaaaaaaaaaaaaaaaaaaaaaaaaaaaaaaaaaaaaaaaaaaaaaaaaaaaaaaaaaaaaaaaaaaaaaaaaaaaaaaaaaaaaaaaaaaaaaaaaaaaaaaaaaaaaaaaaaaaaaaaaaaaaaaaaaaaaaaaaaaaaaaaaaaaaaaaaaa113".toList) [] RetVal.pass, Node.leaf ("aaaaaaaaaaaaaaaaaaaaaaaaaaaaaaaaaaaaaaaaaaaaaaaaaaaaaaaaaaaaaaaaaaaaaaaaaaaaaaaaaaaaaaaaaaaaaaaaaaaaaaaaaaaaaaaaaaaaaaaaaaaaaaaaaaaaaaaaaaaaaaaaaaaaaaaaaaaaaaaaaaaaaaaaaaaaaaaaaaaaaaaaaaaaaaaaaaaaaaaaaaaaaaaaaaaaaaaaaaaaaaaaaaaaaaaaaaaa114".toList) [] RetVal.pass, Node.leaf ("aaaaaaaaaaaaaaaaaaaaaaaaaaaaaaaaaaaaaaaaaaaaaaaaaaaaaaaaaaaaaaaaaaaaaaaaaaaaaaaaaaaaaaaaaaaaaaaaaaaaaaaaaaaaaaaaaaaaaaaaaaaaaaaaaaaaaaaaaaaaaaaaaaaaaaaaaaaaaaaaaaaaaaaaaaaaaaaaaaaaaaaaaaaaaaaaaaaaaaaaaaaaaaaaaaaaaaaaaaaaaaaaaaaaaaaaaaaa115".toList) [] RetVal.pass] RetVal.pass RetVal.pass c4s10 c4s11 (rfl)).trans e42
  have e44 : step RET_ROOT_TAG 29 (.loop 2 [Node.leaf ("aaaaaaaaaaaaaaaaaaaaaaaaaaaaaaaaaaaaaaaaaaaaaaaaaaaaaaaaaaaaaaaaaaaaaaaaaaaaaaaaaaaaaaaaaaaaaaaaaaaaaaaaaaaaaaaaaaaaaaaaaaaaaaaaaaaaaaaaaaaaaaaaaaaaaaaaaaaaaaaaaaaaaaaaaaaaaaaaaaaaaaaaaaaaaaaaaaaaaaaaaaaaaaaaaaaaaaaaaaaaaaaaaaaaaaaaaaaa102".toList) [] RetVal.pass, Node.leaf ("aaaaaaaaaaaaaaaaaaaaaaaaaaaaaaaaaaaaaaaaaaaaaaaaaaaaaaaaaaaaaaaaaaaaaaaaaaaaaaaaaaaaaaaaaaaaaaaaaaaaaaaaaaaaaaaaaaaaaaaaaaaaaaaaaaaaaaaaaaaaaaaaaaaaaaaaaaaaaaaaaaaaaaaaaaaaaaaaaaaaaaaaaaaaaaaaaaaaaaaaaaaaaaaaaaaaaaaaaaaaaaaaaaaaaaaaaaaa103".toList) [] RetVal.pass, Node.leaf ("aaaaaaaaaaaaaaaaaaaaaaaaaaaaaaaaaaaaaaaaaaaaaaaaaaaaaaaaaaaaaaaaaaaaaaaaaaaaaaaaaaaaaaaaaaaaaaaaaaaaaaaaaaaaaaaaaaaaaaaaaaaaaaaaaaaaaaaaaaaaaaaaaaaaaaaaaaaaaaaaaaaaaaaaaaaaaaaaaaaaaaaaaaaaaaaaaaaaaaaaaaaaaaaaaaaaaaaaaaaaaaaaaaaaaaaaaaaa104".toList) [] RetVal.pass, Node.leaf ("aaaaaaaaaaaaaaaaaaaaaaaaaaaaaaaaaaaaaaaaaaaaaaaaaaaaaaaaaaaaaaaaaaaaaaaaaaaaaaaaaaaaaaaaaaaaaaaaaaaaaaaaaaaaaaaaaaaaaaaaaaaaaaaaaaaaaaaaaaaaaaaaaaaaaaaaaaaaaaaaaaaaaaaaaaaaaaaaaaaaaaaaaaaaaaaaaaaaaaaaaaaaaaaaaaaaaaaaaaaaaaaaaaaaaaaaaaaa105".toList) [] RetVal.pass, Node.leaf ("aaaaaaaaaaaaaaaaaaaaaaaaaaaaaaaaaaaaaaaaaaaaaaaaaaaaaaaaaaaaaaaaaaaaaaaaaaaaaaaaaaaaaaaaaaaaaaaaaaaaaaaaaaaaaaaaaaaaaaaaaaaaaaaaaaaaaaaaaaaaaaaaaaaaaaaaaaaaaaaaaaaaaaaaaaaaaaaaaaaaaaaaaaaaaaaaaaaaaaaaaaaaaaaaaaaaaaaaaaaaaaaaaaaaaaaaaaaa106".toList) [] RetVal.pass, Node.leaf ("aaaaaaaaaaaaaaaaaaaaaaaaaaaaaaaaaaaaaaaaaaaaaaaaaaaaaaaaaaaaaaaaaaaaaaaaaaaaaaaaaaaaaaaaaaaaaaaaaaaaaaaaaaaaaaaaaaaaaaaaaaaaaaaaaaaaaaaaaaaaaaaaaaaaaaaaaaaaaaaaaaaaaaaaaaaaaaaaaaaaaaaaaaaaaaaaaaaaaaaaaaaaaaaaaaaaaaaaaaaaaaaaaaaaaaaaaaaa107".toList) [] RetVal.pass, Node.leaf ("aaaaaaaaaaaaaaaaaaaaaaaaaaaaaaaaaaaaaaaaaaaaaaaaaaaaaaaaaaaaaaaaaaaaaaaaaaaaaaaaaaaaaaaaaaaaaaaaaaaaaaaaaaaaaaaaaaaaaaaaaaaaaaaaaaaaaaaaaaaaaaaaaaaaaaaaaaaaaaaaaaaaaaaaaaaaaaaaaaaaaaaaaaaaaaaaaaaaaaaaaaaaaaaaaaaaaaaaaaaaaaaaaaaaaaaaaaaa108".toList) [] RetVal.pass, Node.leaf ("aaaaaaaaaaaaaaaaaaaaaaaaaaaaaaaaaaaaaaaaaaaaaaaaaaaaaaaaaaaaaaaaaaaaaaaaaaaaaaaaaaaaaaaaaaaaaaaaaaaaaaaaaaaaaaaaaaaaaaaaaaaaaaaaaaaaaaaaaaaaaaaaaaaaaaaaaaaaaaaaaaaaaaaaaaaaaaaaaaaaaaaaaaaaaaaaaaaaaaaaaaaaaaaaaaaaaaaaaaaaaaaaaaaaaaaaaaaa109".toList) [] RetVal.pass, Node.leaf ("aaaaaaaaaaaaaaaaaaaaaaaaaaaaaaaaaaaaaaaaaaaaaaaaaaaaaaaaaaaaaaaaaaaaaaaaaaaaaaaaaaaaaaaaaaaaaaaaaaaaaaaaaaaaaaaaaaaaaaaaaaaaaaaaaaaaaaaaaaaaaaaaaaaaaaaaaaaaaaaaaaaaaaaaaaaaaaaaaaaaaaaaaaaaaaaaaaaaaaaaaaaaaaaaaaaaaaaaaaaaaaaaaaaaaaaaaaaa110".toList) [] RetVal.pass, Node.leaf ("aaaaaaaaaaaaaaaaaaaaaaaaaaaaaaaaaaaaaaaaaaaaaaaaaaaaaaaaaaaaaaaaaaaaaaaaaaaaaaaaaaaaaaaaaaaaaaaaaaaaaaaaaaaaaaaaaaaaaaaaaaaaaaaaaaaaaaaaaaaaaaaaaaaaaaaaaaaaaaaaaaaaaaaaaaaaaaaaaaaaaaaaaaaaaaaaaaaaaaaaaaaaaaaaaaaaaaaaaaaaaaaaaaaaaaaaaaaa111".toList) [] RetVal.pass, Node.leaf ("aaaaaaaaaaaaaaaaaaaaaaaaaaaaaaaaaaaaaaaaaaaaaaaaaaaaaaaaaaaaaaaaaaaaaaaaaaaaaaaaaaaaaaaaaaaaaaaaaaaaaaaaaaaaaaaaaaaaaaaaaaaaaaaaaaaaaaaaaaaaaaaaaaaaaaaaaaaaaaaaaaaaaaaaaaaaaaaaaaaaaaaaaaaaaaaaaaaaaaaaaaaaaaaaaaaaaaaaaaaaaaaaaaaaaaaaaaaa112".toList) [] RetVal.pass, Node.leaf ("aaaaaaaaaaaaaaaaaaaaaaaaaaaaaaaaaaaaaaaaaaaaaaaaaaaaaaaaaaaaaaaaaaaaaaaaaaaaaaaaaaaaaaaaaaaaaaaaaaaaaaaaaaaaaaaaaaaaaaaaaaaaaaaaaaaaaaaaaaaaaaaaaaaaaaaaaaaaaaaaaaaaaaaaaaaaaaaaaaaaaaaaaaaaaaaaaaaaaaaaaaaaaaaaaaaaaaaaaaaaaaaaaaaaaaaaaaaa113".toList) [] RetVal.pass, Node.leaf ("aaaaaaaaaaaaaaaaaaaaaaaaaaaaaaaaaaaaaaaaaaaaaaaaaaaaaaaaaaaaaaaaaaaaaaaaaaaaaaaaaaaaaaaaaaaaaaaaaaaaaaaaaaaaaaaaaaaaaaaaaaaaaaaaaaaaaaaaaaaaaaaaaaaaaaaaaaaaaaaaaaaaaaaaaaaaaaaaaaaaaaaaaaaaaaaaaaaaaaaaaaaaaaaaaaaaaaaaaaaaaaaaaaaaaaaaaaaa114".toList) [] RetVal.pass, Node.leaf ("aaaaaaaaaaaaaaaaaaaaaaaaaaaaaaaaaaaaaaaaaaaaaaaaaaaaaaaaaaaaaaaaaaaaaaaaaaaaaaaaaaaaaaaaaaaaaaaaaaaaaaaaaaaaaaaaaaaaaaaaaaaaaaaaaaaaaaaaaaaaaaaaaaaaaaaaaaaaaaaaaaaaaaaaaaaaaaaaaaaaaaaaaaaaaaaaaaaaaaaaaaaaaaaaaaaaaaaaaaaaaaaaaaaaaaaaaaaa115".toList) [] RetVal.pass] RetVal.pass c4s9) = Out.ok RetVal.pass c4s37 :=
    (loop_step_ok RET_ROOT_TAG 28 2 (Node.leaf ("aaaaaaaaaaaaaaaaaaaaaaaaaaaaaaaaaaaaaaaaaaaaaaaaaaaaaaaaaaaaaaaaaaaaaaaaaaaaaaaaaaaaaaaaaaaaaaaaaaaaaaaaaaaaaaaaaaaaaaaaaaaaaaaaaaaaaaaaaaaaaaaaaaaaaaaaaaaaaaaaaaaaaaaaaaaaaaaaaaaaaaaaaaaaaaaaaaaaaaaaaaaaaaaaaaaaaaaaaaaaaaaaaaaaaaaaaaaa102".toList) [] RetVal.pass) [Node.leaf ("aaaaaaaaaaaaaaaaaaaaaaaaaaaaaaaaaaaaaaaaaaaaaaaaaaaaaaaaaaaaaaaaaaaaaaaaaaaaaaaaaaaaaaaaaaaaaaaaaaaaaaaaaaaaaaaaaaaaaaaaaaaaaaaaaaaaaaaaaaaaaaaaaaaaaaaaaaaaaaaaaaaaaaaaaaaaaaaaaaaaaaaaaaaaaaaaaaaaaaaaaaaaaaaaaaaaaaaaaaaaaaaaaaaaaaaaaaaa103".toList) [] RetVal.pass, Node.leaf ("aaaaaaaaaaaaaaaaaaaaaaaaaaaaaaaaaaaaaaaaaaaaaaaaaaaaaaaaaaaaaaaaaaaaaaaaaaaaaaaaaaaaaaaaaaaaaaaaaaaaaaaaaaaaaaaaaaaaaaaaaaaaaaaaaaaaaaaaaaaaaaaaaaaaaaaaaaaaaaaaaaaaaaaaaaaaaaaaaaaaaaaaaaaaaaaaaaaaaaaaaaaaaaaaaaaaaaaaaaaaaaaaaaaaaaaaaaaa104".toList) [] RetVal.pass, Node.leaf ("aaaaaaaaaaaaaaaaaaaaaaaaaaaaaaaaaaaaaaaaaaaaaaaaaaaaaaaaaaaaaaaaaaaaaaaaaaaaaaaaaaaaaaaaaaaaaaaaaaaaaaaaaaaaaaaaaaaaaaaaaaaaaaaaaaaaaaaaaaaaaaaaaaaaaaaaaaaaaaaaaaaaaaaaaaaaaaaaaaaaaaaaaaaaaaaaaaaaaaaaaaaaaaaaaaaaaaaaaaaaaaaaaaaaaaaaaaaa105".toList) [] RetVal.pass, Node.leaf ("aaaaaaaaaaaaaaaaaaaaaaaaaaaaaaaaaaaaaaaaaaaaaaaaaaaaaaaaaaaaaaaaaaaaaaaaaaaaaaaaaaaaaaaaaaaaaaaaaaaaaaaaaaaaaaaaaaaaaaaaaaaaaaaaaaaaaaaaaaaaaaaaaaaaaaaaaaaaaaaaaaaaaaaaaaaaaaaaaaaaaaaaaaaaaaaaaaaaaaaaaaaaaaaaaaaaaaaaaaaaaaaaaaaaaaaaaaaa106".toList) [] RetVal.pass, Node.leaf ("aaaaaaaaaaaaaaaaaaaaaaaaaaaaaaaaaaaaaaaaaaaaaaaaaaaaaaaaaaaaaaaaaaaaaaaaaaaaaaaaaaaaaaaaaaaaaaaaaaaaaaaaaaaaaaaaaaaaaaaaaaaaaaaaaaaaaaaaaaaaaaaaaaaaaaaaaaaaaaaaaaaaaaaaaaaaaaaaaaaaaaaaaaaaaaaaaaaaaaaaaaaaaaaaaaaaaaaaaaaaaaaaaaaaaaaaaaaa107".toList) [] RetVal.pass, Node.leaf ("aaaaaaaaaaaaaaaaaaaaaaaaaaaaaaaaaaaaaaaaaaaaaaaaaaaaaaaaaaaaaaaaaaaaaaaaaaaaaaaaaaaaaaaaaaaaaaaaaaaaaaaaaaaaaaaaaaaaaaaaaaaaaaaaaaaaaaaaaaaaaaaaaaaaaaaaaaaaaaaaaaaaaaaaaaaaaaaaaaaaaaaaaaaaaaaaaaaaaaaaaaaaaaaaaaaaaaaaaaaaaaaaaaaaaaaaaaaa108".toList) [] RetVal.pass, Node.leaf ("aaaaaaaaaaaaaaaaaaaaaaaaaaaaaaaaaaaaaaaaaaaaaaaaaaaaaaaaaaaaaaaaaaaaaaaaaaaaaaaaaaaaaaaaaaaaaaaaaaaaaaaaaaaaaaaaaaaaaaaaaaaaaaaaaaaaaaaaaaaaaaaaaaaaaaaaaaaaaaaaaaaaaaaaaaaaaaaaaaaaaaaaaaaaaaaaaaaaaaaaaaaaaaaaaaaaaaaaaaaaaaaaaaaaaaaaaaaa109".toList) [] RetVal.pass, Node.leaf ("aaaaaaaaaaaaaaaaaaaaaaaaaaaaaaaaaaaaaaaaaaaaaaaaaaaaaaaaaaaaaaaaaaaaaaaaaaaaaaaaaaaaaaaaaaaaaaaaaaaaaaaaaaaaaaaaaaaaaaaaaaaaaaaaaaaaaaaaaaaaaaaaaaaaaaaaaaaaaaaaaaaaaaaaaaaaaaaaaaaaaaaaaaaaaaaaaaaaaaaaaaaaaaaaaaaaaaaaaaaaaaaaaaaaaaaaaaaa110".toList) [] RetVal.pass, Node.leaf ("aaaaaaaaaaaaaaaaaaaaaaaaaaaaaaaaaaaaaaaaaaaaaaaaaaaaaaaaaaaaaaaaaaaaaaaaaaaaaaaaaaaaaaaaaaaaaaaaaaaaaaaaaaaaaaaaaaaaaaaaaaaaaaaaaaaaaaaaaaaaaaaaaaaaaaaaaaaaaaaaaaaaaaaaaaaaaaaaaaaaaaaaaaaaaaaaaaaaaaaaaaaaaaaaaaaaaaaaaaaaaaaaaaaaaaaaaaaa111".toList) [] RetVal.pass, Node.leaf ("aaaaaaaaaaaaaaaaaaaaaaaaaaaaaaaaaaaaaaaaaaaaaaaaaaaaaaaaaaaaaaaaaaaaaaaaaaaaaaaaaaaaaaaaaaaaaaaaaaaaaaaaaaaaaaaaaaaaaaaaaaaaaaaaaaaaaaaaaaaaaaaaaaaaaaaaaaaaaaaaaaaaaaaaaaaaaaaaaaaaaaaaaaaaaaaaaaaaaaaaaaaaaaaaaaaaaaaaaaaaaaaaaaaaaaaaaaaa112".toList) [] RetVal.pass, Node.leaf ("aaaaaaaaaaaaaaaaaaaaaaaaaaaaaaaaaaaaaaaaaaaaaaaaaaaaaaaaaaaaaaaaaaaaaaaaaaaaaaaaaaaaaaaaaaaaaaaaaaaaaaaaaaaaaaaaaaaaaaaaaaaaaaaaaaaaaaaaaaaaaaaaaaaaaaaaaaaaaaaaaaaaaaaaaaaaaaaaaaaaaaaaaaaaaaaaaaaaaaaaaaaaaaaaaaaaaaaaaaaaaaaaaaaaaaaaaaaa113".toList) [] RetVal.pass, Node.leaf ("aaaaaaaaaaaaaaaaaaaaaaaaaaaaaaaaaaaaaaaaaaaaaaaaaaaaaaaaaaaaaaaaaaaaaaaaaaaaaaaaaaaaaaaaaaaaaaaaaaaaaaaaaaaaaaaaaaaaaaaaaaaaaaaaaaaaaaaaaaaaaaaaaaaaaaaaaaaaaaaaaaaaaaaaaaaaaaaaaaaaaaaaaaaaaaaaaaaaaaaaaaaaaaaaaaaaaaaaaaaaaaaaaaaaaaaaaaaa114".toList) [] RetVal.pass, Node.leaf ("aaaaaaaaaaaaaaaaaaaaaaaaaaaaaaaaaaaaaaaaaaaaaaaaaaaaaaaaaaaaaaaaaaaaaaaaaaaaaaaaaaaaaaaaaaaaaaaaaaaaaaaaaaaaaaaaaaaaaaaaaaaaaaaaaaaaaaaaaaaaaaaaaaaaaaaaaaaaaaaaaaaaaaaaaaaaaaaaaaaaaaaaaaaaaaaaaaaaaaaaaaaaaaaaaaaaaaaaaaaaaaaaaaaaaaaaaaaa115".toList) [] RetVal.pass] RetVal.pass RetVal.pass c4s9 c4s10 e2).trans e43
  have e45 : step RET_ROOT_TAG 30 (.handle 2 [Node.leaf ("aaaaaaaaaaaaaaaaaaaaaaaaaaaaaaaaaaaaaaaaaaaaaaaaaaaaaaaaaaaaaaaaaaaaaaaaaaaaaaaaaaaaaaaaaaaaaaaaaaaaaaaaaaaaaaaaaaaaaaaaaaaaaaaaaaaaaaaaaaaaaaaaaaaaaaaaaaaaaaaaaaaaaaaaaaaaaaaaaaaaaaaaaaaaaaaaaaaaaaaaaaaaaaaaaaaaaaaaaaaaaaaaaaaaaaaaaaaa102".toList) [] RetVal.pass, Node.leaf ("aaaaaaaaaaaaaaaaaaaaaaaaaaaaaaaaaaaaaaaaaaaaaaaaaaaaaaaaaaaaaaaaaaaaaaaaaaaaaaaaaaaaaaaaaaaaaaaaaaaaaaaaaaaaaaaaaaaaaaaaaaaaaaaaaaaaaaaaaaaaaaaaaaaaaaaaaaaaaaaaaaaaaaaaaaaaaaaaaaaaaaaaaaaaaaaaaaaaaaaaaaaaaaaaaaaaaaaaaaaaaaaaaaaaaaaaaaaa103".toList) [] RetVal.pass, Node.leaf ("aaaaaaaaaaaaaaaaaaaaaaaaaaaaaaaaaaaaaaaaaaaaaaaaaaaaaaaaaaaaaaaaaaaaaaaaaaaaaaaaaaaaaaaaaaaaaaaaaaaaaaaaaaaaaaaaaaaaaaaaaaaaaaaaaaaaaaaaaaaaaaaaaaaaaaaaaaaaaaaaaaaaaaaaaaaaaaaaaaaaaaaaaaaaaaaaaaaaaaaaaaaaaaaaaaaaaaaaaaaaaaaaaaaaaaaaaaaa104".toList) [] RetVal.pass, Node.leaf ("aaaaaaaaaaaaaaaaaaaaaaaaaaaaaaaaaaaaaaaaaaaaaaaaaaaaaaaaaaaaaaaaaaaaaaaaaaaaaaaaaaaaaaaaaaaaaaaaaaaaaaaaaaaaaaaaaaaaaaaaaaaaaaaaaaaaaaaaaaaaaaaaaaaaaaaaaaaaaaaaaaaaaaaaaaaaaaaaaaaaaaaaaaaaaaaaaaaaaaaaaaaaaaaaaaaaaaaaaaaaaaaaaaaaaaaaaaaa105".toList) [] RetVal.pass, Node.leaf ("aaaaaaaaaaaaaaaaaaaaaaaaaaaaaaaaaaaaaaaaaaaaaaaaaaaaaaaaaaaaaaaaaaaaaaaaaaaaaaaaaaaaaaaaaaaaaaaaaaaaaaaaaaaaaaaaaaaaaaaaaaaaaaaaaaaaaaaaaaaaaaaaaaaaaaaaaaaaaaaaaaaaaaaaaaaaaaaaaaaaaaaaaaaaaaaaaaaaaaaaaaaaaaaaaaaaaaaaaaaaaaaaaaaaaaaaaaaa106".toList) [] RetVal.pass, Node.leaf ("aaaaaaaaaaaaaaaaaaaaaaaaaaaaaaaaaaaaaaaaaaaaaaaaaaaaaaaaaaaaaaaaaaaaaaaaaaaaaaaaaaaaaaaaaaaaaaaaaaaaaaaaaaaaaaaaaaaaaaaaaaaaaaaaaaaaaaaaaaaaaaaaaaaaaaaaaaaaaaaaaaaaaaaaaaaaaaaaaaaaaaaaaaaaaaaaaaaaaaaaaaaaaaaaaaaaaaaaaaaaaaaaaaaaaaaaaaaa107".toList) [] RetVal.pass, Node.leaf ("aaaaaaaaaaaaaaaaaaaaaaaaaaaaaaaaaaaaaaaaaaaaaaaaaaaaaaaaaaaaaaaaaaaaaaaaaaaaaaaaaaaaaaaaaaaaaaaaaaaaaaaaaaaaaaaaaaaaaaaaaaaaaaaaaaaaaaaaaaaaaaaaaaaaaaaaaaaaaaaaaaaaaaaaaaaaaaaaaaaaaaaaaaaaaaaaaaaaaaaaaaaaaaaaaaaaaaaaaaaaaaaaaaaaaaaaaaaa108".toList) [] RetVal.pass, Node.leaf ("aaaaaaaaaaaaaaaaaaaaaaaaaaaaaaaaaaaaaaaaaaaaaaaaaaaaaaaaaaaaaaaaaaaaaaaaaaaaaaaaaaaaaaaaaaaaaaaaaaaaaaaaaaaaaaaaaaaaaaaaaaaaaaaaaaaaaaaaaaaaaaaaaaaaaaaaaaaaaaaaaaaaaaaaaaaaaaaaaaaaaaaaaaaaaaaaaaaaaaaaaaaaaaaaaaaaaaaaaaaaaaaaaaaaaaaaaaaa109".toList) [] RetVal.pass, Node.leaf ("aaaaaaaaaaaaaaaaaaaaaaaaaaaaaaaaaaaaaaaaaaaaaaaaaaaaaaaaaaaaaaaaaaaaaaaaaaaaaaaaaaaaaaaaaaaaaaaaaaaaaaaaaaaaaaaaaaaaaaaaaaaaaaaaaaaaaaaaaaaaaaaaaaaaaaaaaaaaaaaaaaaaaaaaaaaaaaaaaaaaaaaaaaaaaaaaaaaaaaaaaaaaaaaaaaaaaaaaaaaaaaaaaaaaaaaaaaaa110".toList) [] RetVal.pass, Node.leaf ("aaaaaaaaaaaaaaaaaaaaaaaaaaaaaaaaaaaaaaaaaaaaaaaaaaaaaaaaaaaaaaaaaaaaaaaaaaaaaaaaaaaaaaaaaaaaaaaaaaaaaaaaaaaaaaaaaaaaaaaaaaaaaaaaaaaaaaaaaaaaaaaaaaaaaaaaaaaaaaaaaaaaaaaaaaaaaaaaaaaaaaaaaaaaaaaaaaaaaaaaaaaaaaaaaaaaaaaaaaaaaaaaaaaaaaaaaaaa111".toList) [] RetVal.pass, Node.leaf ("aaaaaaaaaaaaaaaaaaaaaaaaaaaaaaaaaaaaaaaaaaaaaaaaaaaaaaaaaaaaaaaaaaaaaaaaaaaaaaaaaaaaaaaaaaaaaaaaaaaaaaaaaaaaaaaaaaaaaaaaaaaaaaaaaaaaaaaaaaaaaaaaaaaaaaaaaaaaaaaaaaaaaaaaaaaaaaaaaaaaaaaaaaaaaaaaaaaaaaaaaaaaaaaaaaaaaaaaaaaaaaaaaaaaaaaaaaaa112".toList) [] RetVal.pass, Node.leaf ("aaaaaaaaaaaaaaaaaaaaaaaaaaaaaaaaaaaaaaaaaaaaaaaaaaaaaaaaaaaaaaaaaaaaaaaaaaaaaaaaaaaaaaaaaaaaaaaaaaaaaaaaaaaaaaaaaaaaaaaaaaaaaaaaaaaaaaaaaaaaaaaaaaaaaaaaaaaaaaaaaaaaaaaaaaaaaaaaaaaaaaaaaaaaaaaaaaaaaaaaaaaaaaaaaaaaaaaaaaaaaaaaaaaaaaaaaaaa113".toList) [] RetVal.pass, Node.leaf ("aaaaaaaaaaaaaaaaaaaaaaaaaaaaaaaaaaaaaaaaaaaaaaaaaaaaaaaaaaaaaaaaaaaaaaaaaaaaaaaaaaaaaaaaaaaaaaaaaaaaaaaaaaaaaaaaaaaaaaaaaaaaaaaaaaaaaaaaaaaaaaaaaaaaaaaaaaaaaaaaaaaaaaaaaaaaaaaaaaaaaaaaaaaaaaaaaaaaaaaaaaaaaaaaaaaaaaaaaaaaaaaaaaaaaaaaaaaa114".toList) [] RetVal.pass, Node.leaf ("aaaaaaaaaaaaaaaaaaaaaaaaaaaaaaaaaaaaaaaaaaaaaaaaaaaaaaaaaaaaaaaaaaaaaaaaaaaaaaaaaaaaaaaaaaaaaaaaaaaaaaaaaaaaaaaaaaaaaaaaaaaaaaaaaaaaaaaaaaaaaaaaaaaaaaaaaaaaaaaaaaaaaaaaaaaaaaaaaaaaaaaaaaaaaaaaaaaaaaaaaaaaaaaaaaaaaaaaaaaaaaaaaaaaaaaaaaaa115".toList) [] RetVal.pass] RetVal.pass RetVal.pass c4s8) = Out.ok RetVal.pass c4s37 :=
    (handle_step_exit_ok RET_ROOT_TAG 29 2 [Node.leaf ("aaaaaaaaaaaaaaaaaaaaaaaaaaaaaaaaaaaaaaaaaaaaaaaaaaaaaaaaaaaaaaaaaaaaaaaaaaaaaaaaaaaaaaaaaaaaaaaaaaaaaaaaaaaaaaaaaaaaaaaaaaaaaaaaaaaaaaaaaaaaaaaaaaaaaaaaaaaaaaaaaaaaaaaaaaaaaaaaaaaaaaaaaaaaaaaaaaaaaaaaaaaaaaaaaaaaaaaaaaaaaaaaaaaaaaaaaaaa102".toList) [] RetVal.pass, Node.leaf ("aaaaaaaaaaaaaaaaaaaaaaaaaaaaaaaaaaaaaaaaaaaaaaaaaaaaaaaaaaaaaaaaaaaaaaaaaaaaaaaaaaaaaaaaaaaaaaaaaaaaaaaaaaaaaaaaaaaaaaaaaaaaaaaaaaaaaaaaaaaaaaaaaaaaaaaaaaaaaaaaaaaaaaaaaaaaaaaaaaaaaaaaaaaaaaaaaaaaaaaaaaaaaaaaaaaaaaaaaaaaaaaaaaaaaaaaaaaa103".toList) [] RetVal.pass, Node.leaf ("aaaaaaaaaaaaaaaaaaaaaaaaaaaaaaaaaaaaaaaaaaaaaaaaaaaaaaaaaaaaaaaaaaaaaaaaaaaaaaaaaaaaaaaaaaaaaaaaaaaaaaaaaaaaaaaaaaaaaaaaaaaaaaaaaaaaaaaaaaaaaaaaaaaaaaaaaaaaaaaaaaaaaaaaaaaaaaaaaaaaaaaaaaaaaaaaaaaaaaaaaaaaaaaaaaaaaaaaaaaaaaaaaaaaaaaaaaaa104".toList) [] RetVal.pass, Node.leaf ("aaaaaaaaaaaaaaaaaaaaaaaaaaaaaaaaaaaaaaaaaaaaaaaaaaaaaaaaaaaaaaaaaaaaaaaaaaaaaaaaaaaaaaaaaaaaaaaaaaaaaaaaaaaaaaaaaaaaaaaaaaaaaaaaaaaaaaaaaaaaaaaaaaaaaaaaaaaaaaaaaaaaaaaaaaaaaaaaaaaaaaaaaaaaaaaaaaaaaaaaaaaaaaaaaaaaaaaaaaaaaaaaaaaaaaaaaaaa105".toList) [] RetVal.pass, Node.leaf ("aaaaaaaaaaaaaaaaaaaaaaaaaaaaaaaaaaaaaaaaaaaaaaaaaaaaaaaaaaaaaaaaaaaaaaaaaaaaaaaaaaaaaaaaaaaaaaaaaaaaaaaaaaaaaaaaaaaaaaaaaaaaaaaaaaaaaaaaaaaaaaaaaaaaaaaaaaaaaaaaaaaaaaaaaaaaaaaaaaaaaaaaaaaaaaaaaaaaaaaaaaaaaaaaaaaaaaaaaaaaaaaaaaaaaaaaaaaa106".toList) [] RetVal.pass, Node.leaf ("aaaaaaaaaaaaaaaaaaaaaaaaaaaaaaaaaaaaaaaaaaaaaaaaaaaaaaaaaaaaaaaaaaaaaaaaaaaaaaaaaaaaaaaaaaaaaaaaaaaaaaaaaaaaaaaaaaaaaaaaaaaaaaaaaaaaaaaaaaaaaaaaaaaaaaaaaaaaaaaaaaaaaaaaaaaaaaaaaaaaaaaaaaaaaaaaaaaaaaaaaaaaaaaaaaaaaaaaaaaaaaaaaaaaaaaaaaaa107".toList) [] RetVal.pass, Node.leaf ("aaaaaaaaaaaaaaaaaaaaaaaaaaaaaaaaaaaaaaaaaaaaaaaaaaaaaaaaaaaaaaaaaaaaaaaaaaaaaaaaaaaaaaaaaaaaaaaaaaaaaaaaaaaaaaaaaaaaaaaaaaaaaaaaaaaaaaaaaaaaaaaaaaaaaaaaaaaaaaaaaaaaaaaaaaaaaaaaaaaaaaaaaaaaaaaaaaaaaaaaaaaaaaaaaaaaaaaaaaaaaaaaaaaaaaaaaaaa108".toList) [] RetVal.pass, Node.leaf ("aaaaaaaaaaaaaaaaaaaaaaaaaaaaaaaaaaaaaaaaaaaaaaaaaaaaaaaaaaaaaaaaaaaaaaaaaaaaaaaaaaaaaaaaaaaaaaaaaaaaaaaaaaaaaaaaaaaaaaaaaaaaaaaaaaaaaaaaaaaaaaaaaaaaaaaaaaaaaaaaaaaaaaaaaaaaaaaaaaaaaaaaaaaaaaaaaaaaaaaaaaaaaaaaaaaaaaaaaaaaaaaaaaaaaaaaaaaa109".toList) [] RetVal.pass, Node.leaf ("aaaaaaaaaaaaaaaaaaaaaaaaaaaaaaaaaaaaaaaaaaaaaaaaaaaaaaaaaaaaaaaaaaaaaaaaaaaaaaaaaaaaaaaaaaaaaaaaaaaaaaaaaaaaaaaaaaaaaaaaaaaaaaaaaaaaaaaaaaaaaaaaaaaaaaaaaaaaaaaaaaaaaaaaaaaaaaaaaaaaaaaaaaaaaaaaaaaaaaaaaaaaaaaaaaaaaaaaaaaaaaaaaaaaaaaaaaaa110".toList) [] RetVal.pass, Node.leaf ("aaaaaaaaaaaaaaaaaaaaaaaaaaaaaaaaaaaaaaaaaaaaaaaaaaaaaaaaaaaaaaaaaaaaaaaaaaaaaaaaaaaaaaaaaaaaaaaaaaaaaaaaaaaaaaaaaaaaaaaaaaaaaaaaaaaaaaaaaaaaaaaaaaaaaaaaaaaaaaaaaaaaaaaaaaaaaaaaaaaaaaaaaaaaaaaaaaaaaaaaaaaaaaaaaaaaaaaaaaaaaaaaaaaaaaaaaaaa111".toList) [] RetVal.pass, Node.leaf ("aaaaaaaaaaaaaaaaaaaaaaaaaaaaaaaaaaaaaaaaaaaaaaaaaaaaaaaaaaaaaaaaaaaaaaaaaaaaaaaaaaaaaaaaaaaaaaaaaaaaaaaaaaaaaaaaaaaaaaaaaaaaaaaaaaaaaaaaaaaaaaaaaaaaaaaaaaaaaaaaaaaaaaaaaaaaaaaaaaaaaaaaaaaaaaaaaaaaaaaaaaaaaaaaaaaaaaaaaaaaaaaaaaaaaaaaaaaa112".toList) [] RetVal.pass, Node.leaf ("aaaaaaaaaaaaaaaaaaaaaaaaaaaaaaaaaaaaaaaaaaaaaaaaaaaaaaaaaaaaaaaaaaaaaaaaaaaaaaaaaaaaaaaaaaaaaaaaaaaaaaaaaaaaaaaaaaaaaaaaaaaaaaaaaaaaaaaaaaaaaaaaaaaaaaaaaaaaaaaaaaaaaaaaaaaaaaaaaaaaaaaaaaaaaaaaaaaaaaaaaaaaaaaaaaaaaaaaaaaaaaaaaaaaaaaaaaaa113".toList) [] RetVal.pass, Node.leaf ("aaaaaaaaaaaaaaaaaaaaaaaaaaaaaaaaaaaaaaaaaaaaaaaaaaaaaaaaaaaaaaaaaaaaaaaaaaaaaaaaaaaaaaaaaaaaaaaaaaaaaaaaaaaaaaaaaaaaaaaaaaaaaaaaaaaaaaaaaaaaaaaaaaaaaaaaaaaaaaaaaaaaaaaaaaaaaaaaaaaaaaaaaaaaaaaaaaaaaaaaaaaaaaaaaaaaaaaaaaaaaaaaaaaaaaaaaaaa114".toList) [] RetVal.pass, Node.leaf ("aaaaaaaaaaaaaaaaaaaaaaaaaaaaaaaaaaaaaaaaaaaaaaaaaaaaaaaaaaaaaaaaaaaaaaaaaaaaaaaaaaaaaaaaaaaaaaaaaaaaaaaaaaaaaaaaaaaaaaaaaaaaaaaaaaaaaaaaaaaaaaaaaaaaaaaaaaaaaaaaaaaaaaaaaaaaaaaaaaaaaaaaaaaaaaaaaaaaaaaaaaaaaaaaaaaaaaaaaaaaaaaaaaaaaaaaaaaa115".toList) [] RetVal.pass] RetVal.pass RetVal.pass c4s8 c4s9 (rfl)).trans e44
  have e46 : step RET_ROOT_TAG 31 (.loop 2 [Node.leaf ("aaaaaaaaaaaaaaaaaaaaaaaaaaaaaaaaaaaaaaaaaaaaaaaaaaaaaaaaaaaaaaaaaaaaaaaaaaaaaaaaaaaaaaaaaaaaaaaaaaaaaaaaaaaaaaaaaaaaaaaaaaaaaaaaaaaaaaaaaaaaaaaaaaaaaaaaaaaaaaaaaaaaaaaaaaaaaaaaaaaaaaaaaaaaaaaaaaaaaaaaaaaaaaaaaaaaaaaaaaaaaaaaaaaaaaaaaaaa101".toList) [] RetVal.pass, Node.leaf ("aaaaaaaaaaaaaaaaaaaaaaaaaaaaaaaaaaaaaaaaaaaaaaaaaaaaaaaaaaaaaaaaaaaaaaaaaaaaaaaaaaaaaaaaaaaaaaaaaaaaaaaaaaaaaaaaaaaaaaaaaaaaaaaaaaaaaaaaaaaaaaaaaaaaaaaaaaaaaaaaaaaaaaaaaaaaaaaaaaaaaaaaaaaaaaaaaaaaaaaaaaaaaaaaaaaaaaaaaaaaaaaaaaaaaaaaaaaa102".toList) [] RetVal.pass, Node.leaf ("aaaaaaaaaaaaaaaaaaaaaaaaaaaaaaaaaaaaaaaaaaaaaaaaaaaaaaaaaaaaaaaaaaaaaaaaaaaaaaaaaaaaaaaaaaaaaaaaaaaaaaaaaaaaaaaaaaaaaaaaaaaaaaaaaaaaaaaaaaaaaaaaaaaaaaaaaaaaaaaaaaaaaaaaaaaaaaaaaaaaaaaaaaaaaaaaaaaaaaaaaaaaaaaaaaaaaaaaaaaaaaaaaaaaaaaaaaaa103".toList) [] RetVal.pass, Node.leaf ("aaaaaaaaaaaaaaaaaaaaaaaaaaaaaaaaaaaaaaaaaaaaaaaaaaaaaaaaaaaaaaaaaaaaaaaaaaaaaaaaaaaaaaaaaaaaaaaaaaaaaaaaaaaaaaaaaaaaaaaaaaaaaaaaaaaaaaaaaaaaaaaaaaaaaaaaaaaaaaaaaaaaaaaaaaaaaaaaaaaaaaaaaaaaaaaaaaaaaaaaaaaaaaaaaaaaaaaaaaaaaaaaaaaaaaaaaaaa104".toList) [] RetVal.pass, Node.leaf ("aaaaaaaaaaaaaaaaaaaaaaaaaaaaaaaaaaaaaaaaaaaaaaaaaaaaaaaaaaaaaaaaaaaaaaaaaaaaaaaaaaaaaaaaaaaaaaaaaaaaaaaaaaaaaaaaaaaaaaaaaaaaaaaaaaaaaaaaaaaaaaaaaaaaaaaaaaaaaaaaaaaaaaaaaaaaaaaaaaaaaaaaaaaaaaaaaaaaaaaaaaaaaaaaaaaaaaaaaaaaaaaaaaaaaaaaaaaa105".toList) [] RetVal.pass, Node.leaf ("aaaaaaaaaaaaaaaaaaaaaaaaaaaaaaaaaaaaaaaaaaaaaaaaaaaaaaaaaaaaaaaaaaaaaaaaaaaaaaaaaaaaaaaaaaaaaaaaaaaaaaaaaaaaaaaaaaaaaaaaaaaaaaaaaaaaaaaaaaaaaaaaaaaaaaaaaaaaaaaaaaaaaaaaaaaaaaaaaaaaaaaaaaaaaaaaaaaaaaaaaaaaaaaaaaaaaaaaaaaaaaaaaaaaaaaaaaaa106".toList) [] RetVal.pass, Node.leaf ("aaaaaaaaaaaaaaaaaaaaaaaaaaaaaaaaaaaaaaaaaaaaaaaaaaaaaaaaaaaaaaaaaaaaaaaaaaaaaaaaaaaaaaaaaaaaaaaaaaaaaaaaaaaaaaaaaaaaaaaaaaaaaaaaaaaaaaaaaaaaaaaaaaaaaaaaaaaaaaaaaaaaaaaaaaaaaaaaaaaaaaaaaaaaaaaaaaaaaaaaaaaaaaaaaaaaaaaaaaaaaaaaaaaaaaaaaaaa107".toList) [] RetVal.pass, Node.leaf ("aaaaaaaaaaaaaaaaaaaaaaaaaaaaaaaaaaaaaaaaaaaaaaaaaaaaaaaaaaaaaaaaaaaaaaaaaaaaaaaaaaaaaaaaaaaaaaaaaaaaaaaaaaaaaaaaaaaaaaaaaaaaaaaaaaaaaaaaaaaaaaaaaaaaaaaaaaaaaaaaaaaaaaaaaaaaaaaaaaaaaaaaaaaaaaaaaaaaaaaaaaaaaaaaaaaaaaaaaaaaaaaaaaaaaaaaaaaa108".toList) [] RetVal.pass, Node.leaf ("aaaaaaaaaaaaaaaaaaaaaaaaaaaaaaaaaaaaaaaaaaaaaaaaaaaaaaaaaaaaaaaaaaaaaaaaaaaaaaaaaaaaaaaaaaaaaaaaaaaaaaaaaaaaaaaaaaaaaaaaaaaaaaaaaaaaaaaaaaaaaaaaaaaaaaaaaaaaaaaaaaaaaaaaaaaaaaaaaaaaaaaaaaaaaaaaaaaaaaaaaaaaaaaaaaaaaaaaaaaaaaaaaaaaaaaaaaaa109".toList) [] RetVal.pass, Node.leaf ("aaaaaaaaaaaaaaaaaaaaaaaaaaaaaaaaaaaaaaaaaaaaaaaaaaaaaaaaaaaaaaaaaaaaaaaaaaaaaaaaaaaaaaaaaaaaaaaaaaaaaaaaaaaaaaaaaaaaaaaaaaaaaaaaaaaaaaaaaaaaaaaaaaaaaaaaaaaaaaaaaaaaaaaaaaaaaaaaaaaaaaaaaaaaaaaaaaaaaaaaaaaaaaaaaaaaaaaaaaaaaaaaaaaaaaaaaaaa110".toList) [] RetVal.pass, Node.leaf ("aaaaaaaaaaaaaaaaaaaaaaaaaaaaaaaaaaaaaaaaaaaaaaaaaaaaaaaaaaaaaaaaaaaaaaaaaaaaaaaaaaaaaaaaaaaaaaaaaaaaaaaaaaaaaaaaaaaaaaaaaaaaaaaaaaaaaaaaaaaaaaaaaaaaaaaaaaaaaaaaaaaaaaaaaaaaaaaaaaaaaaaaaaaaaaaaaaaaaaaaaaaaaaaaaaaaaaaaaaaaaaaaaaaaaaaaaaaa111".toList) [] RetVal.pass, Node.leaf ("aaaaaaaaaaaaaaaaaaaaaaaaaaaaaaaaaaaaaaaaaaaaaaaaaaaaaaaaaaaaaaaaaaaaaaaaaaaaaaaaaaaaaaaaaaaaaaaaaaaaaaaaaaaaaaaaaaaaaaaaaaaaaaaaaaaaaaaaaaaaaaaaaaaaaaaaaaaaaaaaaaaaaaaaaaaaaaaaaaaaaaaaaaaaaaaaaaaaaaaaaaaaaaaaaaaaaaaaaaaaaaaaaaaaaaaaaaaa112".toList) [] RetVal.pass, Node.leaf ("aaaaaaaaaaaaaaaaaaaaaaaaaaaaaaaaaaaaaaaaaaaaaaaaaaaaaaaaaaaaaaaaaaaaaaaaaaaaaaaaaaaaaaaaaaaaaaaaaaaaaaaaaaaaaaaaaaaaaaaaaaaaaaaaaaaaaaaaaaaaaaaaaaaaaaaaaaaaaaaaaaaaaaaaaaaaaaaaaaaaaaaaaaaaaaaaaaaaaaaaaaaaaaaaaaaaaaaaaaaaaaaaaaaaaaaaaaaa113".toList) [] RetVal.pass, Node.leaf ("aaaaaaaaaaaaaaaaaaaaaaaaaaaaaaaaaaaaaaaaaaaaaaaaaaaaaaaaaaaaaaaaaaaaaaaaaaaaaaaaaaaaaaaaaaaaaaaaaaaaaaaaaaaaaaaaaaaaaaaaaaaaaaaaaaaaaaaaaaaaaaaaaaaaaaaaaaaaaaaaaaaaaaaaaaaaaaaaaaaaaaaaaaaaaaaaaaaaaaaaaaaaaaaaaaaaaaaaaaaaaaaaaaaaaaaaaaaa114".toList) [] RetVal.pass, Node.leaf ("aaaaaaaaaaaaaaaaaaaaaaaaaaaaaaaaaaaaaaaaaaaaaaaaaaaaaaaaaaaaaaaaaaaaaaaaaaaaaaaaaaaaaaaaaaaaaaaaaaaaaaaaaaaaaaaaaaaaaaaaaaaaaaaaaaaaaaaaaaaaaaaaaaaaaaaaaaaaaaaaaaaaaaaaaaaaaaaaaaaaaaaaaaaaaaaaaaaaaaaaaaaaaaaaaaaaaaaaaaaaaaaaaaaaaaaaaaaa115".toList) [] RetVal.pass] RetVal.pass c4s7) = Out.ok RetVal.pass c4s37 :=
    (loop_step_ok RET_ROOT_TAG 30 2 (Node.leaf ("aaaaaaaaaaaaaaaaaaaaaaaaaaaaaaaaaaaaaaaaaaaaaaaaaaaaaaaaaaaaaaaaaaaaaaaaaaaaaaaaaaaaaaaaaaaaaaaaaaaaaaaaaaaaaaaaaaaaaaaaaaaaaaaaaaaaaaaaaaaaaaaaaaaaaaaaaaaaaaaaaaaaaaaaaaaaaaaaaaaaaaaaaaaaaaaaaaaaaaaaaaaaaaaaaaaaaaaaaaaaaaaaaaaaaaaaaaaa101".toList) [] RetVal.pass) [Node.leaf ("aaaaaaaaaaaaaaaaaaaaaaaaaaaaaaaaaaaaaaaaaaaaaaaaaaaaaaaaaaaaaaaaaaaaaaaaaaaaaaaaaaaaaaaaaaaaaaaaaaaaaaaaaaaaaaaaaaaaaaaaaaaaaaaaaaaaaaaaaaaaaaaaaaaaaaaaaaaaaaaaaaaaaaaaaaaaaaaaaaaaaaaaaaaaaaaaaaaaaaaaaaaaaaaaaaaaaaaaaaaaaaaaaaaaaaaaaaaa102".toList) [] RetVal.pass, Node.leaf ("aaaaaaaaaaaaaaaaaaaaaaaaaaaaaaaaaaaaaaaaaaaaaaaaaaaaaaaaaaaaaaaaaaaaaaaaaaaaaaaaaaaaaaaaaaaaaaaaaaaaaaaaaaaaaaaaaaaaaaaaaaaaaaaaaaaaaaaaaaaaaaaaaaaaaaaaaaaaaaaaaaaaaaaaaaaaaaaaaaaaaaaaaaaaaaaaaaaaaaaaaaaaaaaaaaaaaaaaaaaaaaaaaaaaaaaaaaaa103".toList) [] RetVal.pass, Node.leaf ("aaaaaaaaaaaaaaaaaaaaaaaaaaaaaaaaaaaaaaaaaaaaaaaaaaaaaaaaaaaaaaaaaaaaaaaaaaaaaaaaaaaaaaaaaaaaaaaaaaaaaaaaaaaaaaaaaaaaaaaaaaaaaaaaaaaaaaaaaaaaaaaaaaaaaaaaaaaaaaaaaaaaaaaaaaaaaaaaaaaaaaaaaaaaaaaaaaaaaaaaaaaaaaaaaaaaaaaaaaaaaaaaaaaaaaaaaaaa104".toList) [] RetVal.pass, Node.leaf ("aaaaaaaaaaaaaaaaaaaaaaaaaaaaaaaaaaaaaaaaaaaaaaaaaaaaaaaaaaaaaaaaaaaaaaaaaaaaaaaaaaaaaaaaaaaaaaaaaaaaaaaaaaaaaaaaaaaaaaaaaaaaaaaaaaaaaaaaaaaaaaaaaaaaaaaaaaaaaaaaaaaaaaaaaaaaaaaaaaaaaaaaaaaaaaaaaaaaaaaaaaaaaaaaaaaaaaaaaaaaaaaaaaaaaaaaaaaa105".toList) [] RetVal.pass, Node.leaf ("aaaaaaaaaaaaaaaaaaaaaaaaaaaaaaaaaaaaaaaaaaaaaaaaaaaaaaaaaaaaaaaaaaaaaaaaaaaaaaaaaaaaaaaaaaaaaaaaaaaaaaaaaaaaaaaaaaaaaaaaaaaaaaaaaaaaaaaaaaaaaaaaaaaaaaaaaaaaaaaaaaaaaaaaaaaaaaaaaaaaaaaaaaaaaaaaaaaaaaaaaaaaaaaaaaaaaaaaaaaaaaaaaaaaaaaaaaaa106".toList) [] RetVal.pass, Node.leaf ("aaaaaaaaaaaaaaaaaaaaaaaaaaaaaaaaaaaaaaaaaaaaaaaaaaaaaaaaaaaaaaaaaaaaaaaaaaaaaaaaaaaaaaaaaaaaaaaaaaaaaaaaaaaaaaaaaaaaaaaaaaaaaaaaaaaaaaaaaaaaaaaaaaaaaaaaaaaaaaaaaaaaaaaaaaaaaaaaaaaaaaaaaaaaaaaaaaaaaaaaaaaaaaaaaaaaaaaaaaaaaaaaaaaaaaaaaaaa107".toList) [] RetVal.pass, Node.leaf ("aaaaaaaaaaaaaaaaaaaaaaaaaaaaaaaaaaaaaaaaaaaaaaaaaaaaaaaaaaaaaaaaaaaaaaaaaaaaaaaaaaaaaaaaaaaaaaaaaaaaaaaaaaaaaaaaaaaaaaaaaaaaaaaaaaaaaaaaaaaaaaaaaaaaaaaaaaaaaaaaaaaaaaaaaaaaaaaaaaaaaaaaaaaaaaaaaaaaaaaaaaaaaaaaaaaaaaaaaaaaaaaaaaaaaaaaaaaa108".toList) [] RetVal.pass, Node.leaf ("aaaaaaaaaaaaaaaaaaaaaaaaaaaaaaaaaaaaaaaaaaaaaaaaaaaaaaaaaaaaaaaaaaaaaaaaaaaaaaaaaaaaaaaaaaaaaaaaaaaaaaaaaaaaaaaaaaaaaaaaaaaaaaaaaaaaaaaaaaaaaaaaaaaaaaaaaaaaaaaaaaaaaaaaaaaaaaaaaaaaaaaaaaaaaaaaaaaaaaaaaaaaaaaaaaaaaaaaaaaaaaaaaaaaaaaaaaaa109".toList) [] RetVal.pass, Node.leaf ("aaaaaaaaaaaaaaaaaaaaaaaaaaaaaaaaaaaaaaaaaaaaaaaaaaaaaaaaaaaaaaaaaaaaaaaaaaaaaaaaaaaaaaaaaaaaaaaaaaaaaaaaaaaaaaaaaaaaaaaaaaaaaaaaaaaaaaaaaaaaaaaaaaaaaaaaaaaaaaaaaaaaaaaaaaaaaaaaaaaaaaaaaaaaaaaaaaaaaaaaaaaaaaaaaaaaaaaaaaaaaaaaaaaaaaaaaaaa110".toList) [] RetVal.pass, Node.leaf ("aaaaaaaaaaaaaaaaaaaaaaaaaaaaaaaaaaaaaaaaaaaaaaaaaaaaaaaaaaaaaaaaaaaaaaaaaaaaaaaaaaaaaaaaaaaaaaaaaaaaaaaaaaaaaaaaaaaaaaaaaaaaaaaaaaaaaaaaaaaaaaaaaaaaaaaaaaaaaaaaaaaaaaaaaaaaaaaaaaaaaaaaaaaaaaaaaaaaaaaaaaaaaaaaaaaaaaaaaaaaaaaaaaaaaaaaaaaa111".toList) [] RetVal.pass, Node.leaf ("aaaaaaaaaaaaaaaaaaaaaaaaaaaaaaaaaaaaaaaaaaaaaaaaaaaaaaaaaaaaaaaaaaaaaaaaaaaaaaaaaaaaaaaaaaaaaaaaaaaaaaaaaaaaaaaaaaaaaaaaaaaaaaaaaaaaaaaaaaaaaaaaaaaaaaaaaaaaaaaaaaaaaaaaaaaaaaaaaaaaaaaaaaaaaaaaaaaaaaaaaaaaaaaaaaaaaaaaaaaaaaaaaaaaaaaaaaaa112".toList) [] RetVal.pass, Node.leaf ("aaaaaaaaaaaaaaaaaaaaaaaaaaaaaaaaaaaaaaaaaaaaaaaaaaaaaaaaaaaaaaaaaaaaaaaaaaaaaaaaaaaaaaaaaaaaaaaaaaaaaaaaaaaaaaaaaaaaaaaaaaaaaaaaaaaaaaaaaaaaaaaaaaaaaaaaaaaaaaaaaaaaaaaaaaaaaaaaaaaaaaaaaaaaaaaaaaaaaaaaaaaaaaaaaaaaaaaaaaaaaaaaaaaaaaaaaaaa113".toList) [] RetVal.pass, Node.leaf ("aaaaaaaaaaaaaaaaaaaaaaaaaaaaaaaaaaaaaaaaaaaaaaaaaaaaaaaaaaaaaaaaaaaaaaaaaaaaaaaaaaaaaaaaaaaaaaaaaaaaaaaaaaaaaaaaaaaaaaaaaaaaaaaaaaaaaaaaaaaaaaaaaaaaaaaaaaaaaaaaaaaaaaaaaaaaaaaaaaaaaaaaaaaaaaaaaaaaaaaaaaaaaaaaaaaaaaaaaaaaaaaaaaaaaaaaaaaa114".toList) [] RetVal.pass, Node.leaf ("aaaaaaaaaaaaaaaaaaaaaaaaaaaaaaaaaaaaaaaaaaaaaaaaaaaaaaaaaaaaaaaaaaaaaaaaaaaaaaaaaaaaaaaaaaaaaaaaaaaaaaaaaaaaaaaaaaaaaaaaaaaaaaaaaaaaaaaaaaaaaaaaaaaaaaaaaaaaaaaaaaaaaaaaaaaaaaaaaaaaaaaaaaaaaaaaaaaaaaaaaaaaaaaaaaaaaaaaaaaaaaaaaaaaaaaaaaaa115".toList) [] RetVal.pass] RetVal.pass RetVal.pass c4s7 c4s8 e1).trans e45
  have e47 : step RET_ROOT_TAG 32 (.handle 2 [Node.leaf ("aaaaaaaaaaaaaaaaaaaaaaaaaaaaaaaaaaaaaaaaaaaaaaaaaaaaaaaaaaaaaaaaaaaaaaaaaaaaaaaaaaaaaaaaaaaaaaaaaaaaaaaaaaaaaaaaaaaaaaaaaaaaaaaaaaaaaaaaaaaaaaaaaaaaaaaaaaaaaaaaaaaaaaaaaaaaaaaaaaaaaaaaaaaaaaaaaaaaaaaaaaaaaaaaaaaaaaaaaaaaaaaaaaaaaaaaaaaa101".toList) [] RetVal.pass, Node.leaf ("aaaaaaaaaaaaaaaaaaaaaaaaaaaaaaaaaaaaaaaaaaaaaaaaaaaaaaaaaaaaaaaaaaaaaaaaaaaaaaaaaaaaaaaaaaaaaaaaaaaaaaaaaaaaaaaaaaaaaaaaaaaaaaaaaaaaaaaaaaaaaaaaaaaaaaaaaaaaaaaaaaaaaaaaaaaaaaaaaaaaaaaaaaaaaaaaaaaaaaaaaaaaaaaaaaaaaaaaaaaaaaaaaaaaaaaaaaaa102".toList) [] RetVal.pass, Node.leaf ("aaaaaaaaaaaaaaaaaaaaaaaaaaaaaaaaaaaaaaaaaaaaaaaaaaaaaaaaaaaaaaaaaaaaaaaaaaaaaaaaaaaaaaaaaaaaaaaaaaaaaaaaaaaaaaaaaaaaaaaaaaaaaaaaaaaaaaaaaaaaaaaaaaaaaaaaaaaaaaaaaaaaaaaaaaaaaaaaaaaaaaaaaaaaaaaaaaaaaaaaaaaaaaaaaaaaaaaaaaaaaaaaaaaaaaaaaaaa103".toList) [] RetVal.pass, Node.leaf ("aaaaaaaaaaaaaaaaaaaaaaaaaaaaaaaaaaaaaaaaaaaaaaaaaaaaaaaaaaaaaaaaaaaaaaaaaaaaaaaaaaaaaaaaaaaaaaaaaaaaaaaaaaaaaaaaaaaaaaaaaaaaaaaaaaaaaaaaaaaaaaaaaaaaaaaaaaaaaaaaaaaaaaaaaaaaaaaaaaaaaaaaaaaaaaaaaaaaaaaaaaaaaaaaaaaaaaaaaaaaaaaaaaaaaaaaaaaa104".toList) [] RetVal.pass, Node.leaf ("aaaaaaaaaaaaaaaaaaaaaaaaaaaaaaaaaaaaaaaaaaaaaaaaaaaaaaaaaaaaaaaaaaaaaaaaaaaaaaaaaaaaaaaaaaaaaaaaaaaaaaaaaaaaaaaaaaaaaaaaaaaaaaaaaaaaaaaaaaaaaaaaaaaaaaaaaaaaaaaaaaaaaaaaaaaaaaaaaaaaaaaaaaaaaaaaaaaaaaaaaaaaaaaaaaaaaaaaaaaaaaaaaaaaaaaaaaaa105".toList) [] RetVal.pass, Node.leaf ("aaaaaaaaaaaaaaaaaaaaaaaaaaaaaaaaaaaaaaaaaaaaaaaaaaaaaaaaaaaaaaaaaaaaaaaaaaaaaaaaaaaaaaaaaaaaaaaaaaaaaaaaaaaaaaaaaaaaaaaaaaaaaaaaaaaaaaaaaaaaaaaaaaaaaaaaaaaaaaaaaaaaaaaaaaaaaaaaaaaaaaaaaaaaaaaaaaaaaaaaaaaaaaaaaaaaaaaaaaaaaaaaaaaaaaaaaaaa106".toList) [] RetVal.pass, Node.leaf ("aaaaaaaaaaaaaaaaaaaaaaaaaaaaaaaaaaaaaaaaaaaaaaaaaaaaaaaaaaaaaaaaaaaaaaaaaaaaaaaaaaaaaaaaaaaaaaaaaaaaaaaaaaaaaaaaaaaaaaaaaaaaaaaaaaaaaaaaaaaaaaaaaaaaaaaaaaaaaaaaaaaaaaaaaaaaaaaaaaaaaaaaaaaaaaaaaaaaaaaaaaaaaaaaaaaaaaaaaaaaaaaaaaaaaaaaaaaa107".toList) [] RetVal.pass, Node.leaf ("aaaaaaaaaaaaaaaaaaaaaaaaaaaaaaaaaaaaaaaaaaaaaaaaaaaaaaaaaaaaaaaaaaaaaaaaaaaaaaaaaaaaaaaaaaaaaaaaaaaaaaaaaaaaaaaaaaaaaaaaaaaaaaaaaaaaaaaaaaaaaaaaaaaaaaaaaaaaaaaaaaaaaaaaaaaaaaaaaaaaaaaaaaaaaaaaaaaaaaaaaaaaaaaaaaaaaaaaaaaaaaaaaaaaaaaaaaaa108".toList) [] RetVal.pass, Node.leaf ("aaaaaaaaaaaaaaaaaaaaaaaaaaaaaaaaaaaaaaaaaaaaaaaaaaaaaaaaaaaaaaaaaaaaaaaaaaaaaaaaaaaaaaaaaaaaaaaaaaaaaaaaaaaaaaaaaaaaaaaaaaaaaaaaaaaaaaaaaaaaaaaaaaaaaaaaaaaaaaaaaaaaaaaaaaaaaaaaaaaaaaaaaaaaaaaaaaaaaaaaaaaaaaaaaaaaaaaaaaaaaaaaaaaaaaaaaaaa109".toList) [] RetVal.pass, Node.leaf ("aaaaaaaaaaaaaaaaaaaaaaaaaaaaaaaaaaaaaaaaaaaaaaaaaaaaaaaaaaaaaaaaaaaaaaaaaaaaaaaaaaaaaaaaaaaaaaaaaaaaaaaaaaaaaaaaaaaaaaaaaaaaaaaaaaaaaaaaaaaaaaaaaaaaaaaaaaaaaaaaaaaaaaaaaaaaaaaaaaaaaaaaaaaaaaaaaaaaaaaaaaaaaaaaaaaaaaaaaaaaaaaaaaaaaaaaaaaa110".toList) [] RetVal.pass, Node.leaf ("aaaaaaaaaaaaaaaaaaaaaaaaaaaaaaaaaaaaaaaaaaaaaaaaaaaaaaaaaaaaaaaaaaaaaaaaaaaaaaaaaaaaaaaaaaaaaaaaaaaaaaaaaaaaaaaaaaaaaaaaaaaaaaaaaaaaaaaaaaaaaaaaaaaaaaaaaaaaaaaaaaaaaaaaaaaaaaaaaaaaaaaaaaaaaaaaaaaaaaaaaaaaaaaaaaaaaaaaaaaaaaaaaaaaaaaaaaaa111".toList) [] RetVal.pass, Node.leaf ("aaaaaaaaaaaaaaaaaaaaaaaaaaaaaaaaaaaaaaaaaaaaaaaaaaaaaaaaaaaaaaaaaaaaaaaaaaaaaaaaaaaaaaaaaaaaaaaaaaaaaaaaaaaaaaaaaaaaaaaaaaaaaaaaaaaaaaaaaaaaaaaaaaaaaaaaaaaaaaaaaaaaaaaaaaaaaaaaaaaaaaaaaaaaaaaaaaaaaaaaaaaaaaaaaaaaaaaaaaaaaaaaaaaaaaaaaaaa112".toList) [] RetVal.pass, Node.leaf ("aaaaaaaaaaaaaaaaaaaaaaaaaaaaaaaaaaaaaaaaaaaaaaaaaaaaaaaaaaaaaaaaaaaaaaaaaaaaaaaaaaaaaaaaaaaaaaaaaaaaaaaaaaaaaaaaaaaaaaaaaaaaaaaaaaaaaaaaaaaaaaaaaaaaaaaaaaaaaaaaaaaaaaaaaaaaaaaaaaaaaaaaaaaaaaaaaaaaaaaaaaaaaaaaaaaaaaaaaaaaaaaaaaaaaaaaaaaa113".toList) [] RetVal.pass, Node.leaf ("aaaaaaaaaaaaaaaaaaaaaaaaaaaaaaaaaaaaaaaaaaaaaaaaaaaaaaaaaaaaaaaaaaaaaaaaaaaaaaaaaaaaaaaaaaaaaaaaaaaaaaaaaaaaaaaaaaaaaaaaaaaaaaaaaaaaaaaaaaaaaaaaaaaaaaaaaaaaaaaaaaaaaaaaaaaaaaaaaaaaaaaaaaaaaaaaaaaaaaaaaaaaaaaaaaaaaaaaaaaaaaaaaaaaaaaaaaaa114".toList) [] RetVal.pass, Node.leaf ("aaaaaaaaaaaaaaaaaaaaaaaaaaaaaaaaaaaaaaaaaaaaaaaaaaaaaaaaaaaaaaaaaaaaaaaaaaaaaaaaaaaaaaaaaaaaaaaaaaaaaaaaaaaaaaaaaaaaaaaaaaaaaaaaaaaaaaaaaaaaaaaaaaaaaaaaaaaaaaaaaaaaaaaaaaaaaaaaaaaaaaaaaaaaaaaaaaaaaaaaaaaaaaaaaaaaaaaaaaaaaaaaaaaaaaaaaaaa115".toList) [] RetVal.pass] RetVal.pass RetVal.pass c4s6) = Out.ok RetVal.pass c4s37 :=
    (handle_step_exit_ok RET_ROOT_TAG 31 2 [Node.leaf ("aaaaaaaaaaaaaaaaaaaaaaaaaaaaaaaaaaaaaaaaaaaaaaaaaaaaaaaaaaaaaaaaaaaaaaaaaaaaaaaaaaaaaaaaaaaaaaaaaaaaaaaaaaaaaaaaaaaaaaaaaaaaaaaaaaaaaaaaaaaaaaaaaaaaaaaaaaaaaaaaaaaaaaaaaaaaaaaaaaaaaaaaaaaaaaaaaaaaaaaaaaaaaaaaaaaaaaaaaaaaaaaaaaaaaaaaaaaa101".toList) [] RetVal.pass, Node.leaf ("aaaaaaaaaaaaaaaaaaaaaaaaaaaaaaaaaaaaaaaaaaaaaaaaaaaaaaaaaaaaaaaaaaaaaaaaaaaaaaaaaaaaaaaaaaaaaaaaaaaaaaaaaaaaaaaaaaaaaaaaaaaaaaaaaaaaaaaaaaaaaaaaaaaaaaaaaaaaaaaaaaaaaaaaaaaaaaaaaaaaaaaaaaaaaaaaaaaaaaaaaaaaaaaaaaaaaaaaaaaaaaaaaaaaaaaaaaaa102".toList) [] RetVal.pass, Node.leaf ("aaaaaaaaaaaaaaaaaaaaaaaaaaaaaaaaaaaaaaaaaaaaaaaaaaaaaaaaaaaaaaaaaaaaaaaaaaaaaaaaaaaaaaaaaaaaaaaaaaaaaaaaaaaaaaaaaaaaaaaaaaaaaaaaaaaaaaaaaaaaaaaaaaaaaaaaaaaaaaaaaaaaaaaaaaaaaaaaaaaaaaaaaaaaaaaaaaaaaaaaaaaaaaaaaaaaaaaaaaaaaaaaaaaaaaaaaaaa103".toList) [] RetVal.pass, Node.leaf ("aaaaaaaaaaaaaaaaaaaaaaaaaaaaaaaaaaaaaaaaaaaaaaaaaaaaaaaaaaaaaaaaaaaaaaaaaaaaaaaaaaaaaaaaaaaaaaaaaaaaaaaaaaaaaaaaaaaaaaaaaaaaaaaaaaaaaaaaaaaaaaaaaaaaaaaaaaaaaaaaaaaaaaaaaaaaaaaaaaaaaaaaaaaaaaaaaaaaaaaaaaaaaaaaaaaaaaaaaaaaaaaaaaaaaaaaaaaa104".toList) [] RetVal.pass, Node.leaf ("aaaaaaaaaaaaaaaaaaaaaaaaaaaaaaaaaaaaaaaaaaaaaaaaaaaaaaaaaaaaaaaaaaaaaaaaaaaaaaaaaaaaaaaaaaaaaaaaaaaaaaaaaaaaaaaaaaaaaaaaaaaaaaaaaaaaaaaaaaaaaaaaaaaaaaaaaaaaaaaaaaaaaaaaaaaaaaaaaaaaaaaaaaaaaaaaaaaaaaaaaaaaaaaaaaaaaaaaaaaaaaaaaaaaaaaaaaaa105".toList) [] RetVal.pass, Node.leaf ("aaaaaaaaaaaaaaaaaaaaaaaaaaaaaaaaaaaaaaaaaaaaaaaaaaaaaaaaaaaaaaaaaaaaaaaaaaaaaaaaaaaaaaaaaaaaaaaaaaaaaaaaaaaaaaaaaaaaaaaaaaaaaaaaaaaaaaaaaaaaaaaaaaaaaaaaaaaaaaaaaaaaaaaaaaaaaaaaaaaaaaaaaaaaaaaaaaaaaaaaaaaaaaaaaaaaaaaaaaaaaaaaaaaaaaaaaaaa106".toList) [] RetVal.pass, Node.leaf ("aaaaaaaaaaaaaaaaaaaaaaaaaaaaaaaaaaaaaaaaaaaaaaaaaaaaaaaaaaaaaaaaaaaaaaaaaaaaaaaaaaaaaaaaaaaaaaaaaaaaaaaaaaaaaaaaaaaaaaaaaaaaaaaaaaaaaaaaaaaaaaaaaaaaaaaaaaaaaaaaaaaaaaaaaaaaaaaaaaaaaaaaaaaaaaaaaaaaaaaaaaaaaaaaaaaaaaaaaaaaaaaaaaaaaaaaaaaa107".toList) [] RetVal.pass, Node.leaf ("aaaaaaaaaaaaaaaaaaaaaaaaaaaaaaaaaaaaaaaaaaaaaaaaaaaaaaaaaaaaaaaaaaaaaaaaaaaaaaaaaaaaaaaaaaaaaaaaaaaaaaaaaaaaaaaaaaaaaaaaaaaaaaaaaaaaaaaaaaaaaaaaaaaaaaaaaaaaaaaaaaaaaaaaaaaaaaaaaaaaaaaaaaaaaaaaaaaaaaaaaaaaaaaaaaaaaaaaaaaaaaaaaaaaaaaaaaaa108".toList) [] RetVal.pass, Node.leaf ("aaaaaaaaaaaaaaaaaaaaaaaaaaaaaaaaaaaaaaaaaaaaaaaaaaaaaaaaaaaaaaaaaaaaaaaaaaaaaaaaaaaaaaaaaaaaaaaaaaaaaaaaaaaaaaaaaaaaaaaaaaaaaaaaaaaaaaaaaaaaaaaaaaaaaaaaaaaaaaaaaaaaaaaaaaaaaaaaaaaaaaaaaaaaaaaaaaaaaaaaaaaaaaaaaaaaaaaaaaaaaaaaaaaaaaaaaaaa109".toList) [] RetVal.pass, Node.leaf ("aaaaaaaaaaaaaaaaaaaaaaaaaaaaaaaaaaaaaaaaaaaaaaaaaaaaaaaaaaaaaaaaaaaaaaaaaaaaaaaaaaaaaaaaaaaaaaaaaaaaaaaaaaaaaaaaaaaaaaaaaaaaaaaaaaaaaaaaaaaaaaaaaaaaaaaaaaaaaaaaaaaaaaaaaaaaaaaaaaaaaaaaaaaaaaaaaaaaaaaaaaaaaaaaaaaaaaaaaaaaaaaaaaaaaaaaaaaa110".toList) [] RetVal.pass, Node.leaf ("aaaaaaaaaaaaaaaaaaaaaaaaaaaaaaaaaaaaaaaaaaaaaaaaaaaaaaaaaaaaaaaaaaaaaaaaaaaaaaaaaaaaaaaaaaaaaaaaaaaaaaaaaaaaaaaaaaaaaaaaaaaaaaaaaaaaaaaaaaaaaaaaaaaaaaaaaaaaaaaaaaaaaaaaaaaaaaaaaaaaaaaaaaaaaaaaaaaaaaaaaaaaaaaaaaaaaaaaaaaaaaaaaaaaaaaaaaaa111".toList) [] RetVal.pass, Node.leaf ("aaaaaaaaaaaaaaaaaaaaaaaaaaaaaaaaaaaaaaaaaaaaaaaaaaaaaaaaaaaaaaaaaaaaaaaaaaaaaaaaaaaaaaaaaaaaaaaaaaaaaaaaaaaaaaaaaaaaaaaaaaaaaaaaaaaaaaaaaaaaaaaaaaaaaaaaaaaaaaaaaaaaaaaaaaaaaaaaaaaaaaaaaaaaaaaaaaaaaaaaaaaaaaaaaaaaaaaaaaaaaaaaaaaaaaaaaaaa112".toList) [] RetVal.pass, Node.leaf ("aaaaaaaaaaaaaaaaaaaaaaaaaaaaaaaaaaaaaaaaaaaaaaaaaaaaaaaaaaaaaaaaaaaaaaaaaaaaaaaaaaaaaaaaaaaaaaaaaaaaaaaaaaaaaaaaaaaaaaaaaaaaaaaaaaaaaaaaaaaaaaaaaaaaaaaaaaaaaaaaaaaaaaaaaaaaaaaaaaaaaaaaaaaaaaaaaaaaaaaaaaaaaaaaaaaaaaaaaaaaaaaaaaaaaaaaaaaa113".toList) [] RetVal.pass, Node.leaf ("aaaaaaaaaaaaaaaaaaaaaaaaaaaaaaaaaaaaaaaaaaaaaaaaaaaaaaaaaaaaaaaaaaaaaaaaaaaaaaaaaaaaaaaaaaaaaaaaaaaaaaaaaaaaaaaaaaaaaaaaaaaaaaaaaaaaaaaaaaaaaaaaaaaaaaaaaaaaaaaaaaaaaaaaaaaaaaaaaaaaaaaaaaaaaaaaaaaaaaaaaaaaaaaaaaaaaaaaaaaaaaaaaaaaaaaaaaaa114".toList) [] RetVal.pass, Node.leaf ("aaaaaaaaaaaaaaaaaaaaaaaaaaaaaaaaaaaaaaaaaaaaaaaaaaaaaaaaaaaaaaaaaaaaaaaaaaaaaaaaaaaaaaaaaaaaaaaaaaaaaaaaaaaaaaaaaaaaaaaaaaaaaaaaaaaaaaaaaaaaaaaaaaaaaaaaaaaaaaaaaaaaaaaaaaaaaaaaaaaaaaaaaaaaaaaaaaaaaaaaaaaaaaaaaaaaaaaaaaaaaaaaaaaaaaaaaaaa115".toList) [] RetVal.pass] RetVal.pass RetVal.pass c4s6 c4s7 (rfl)).trans e46
  have e48 : step RET_ROOT_TAG 33 (.loop 2 [Node.leaf ("aaaaaaaaaaaaaaaaaaaaaaaaaaaaaaaaaaaaaaaaaaaaaaaaaaaaaaaaaaaaaaaaaaaaaaaaaaaaaaaaaaaaaaaaaaaaaaaaaaaaaaaaaaaaaaaaaaaaaaaaaaaaaaaaaaaaaaaaaaaaaaaaaaaaaaaaaaaaaaaaaaaaaaaaaaaaaaaaaaaaaaaaaaaaaaaaaaaaaaaaaaaaaaaaaaaaaaaaaaaaaaaaaaaaaaaaaaaa100".toList) [] RetVal.pass, Node.leaf ("aaaaaaaaaaaaaaaaaaaaaaaaaaaaaaaaaaaaaaaaaaaaaaaaaaaaaaaaaaaaaaaaaaaaaaaaaaaaaaaaaaaaaaaaaaaaaaaaaaaaaaaaaaaaaaaaaaaaaaaaaaaaaaaaaaaaaaaaaaaaaaaaaaaaaaaaaaaaaaaaaaaaaaaaaaaaaaaaaaaaaaaaaaaaaaaaaaaaaaaaaaaaaaaaaaaaaaaaaaaaaaaaaaaaaaaaaaaa101".toList) [] RetVal.pass, Node.leaf ("aaaaaaaaaaaaaaaaaaaaaaaaaaaaaaaaaaaaaaaaaaaaaaaaaaaaaaaaaaaaaaaaaaaaaaaaaaaaaaaaaaaaaaaaaaaaaaaaaaaaaaaaaaaaaaaaaaaaaaaaaaaaaaaaaaaaaaaaaaaaaaaaaaaaaaaaaaaaaaaaaaaaaaaaaaaaaaaaaaaaaaaaaaaaaaaaaaaaaaaaaaaaaaaaaaaaaaaaaaaaaaaaaaaaaaaaaaaa102".toList) [] RetVal.pass, Node.leaf ("aaaaaaaaaaaaaaaaaaaaaaaaaaaaaaaaaaaaaaaaaaaaaaaaaaaaaaaaaaaaaaaaaaaaaaaaaaaaaaaaaaaaaaaaaaaaaaaaaaaaaaaaaaaaaaaaaaaaaaaaaaaaaaaaaaaaaaaaaaaaaaaaaaaaaaaaaaaaaaaaaaaaaaaaaaaaaaaaaaaaaaaaaaaaaaaaaaaaaaaaaaaaaaaaaaaaaaaaaaaaaaaaaaaaaaaaaaaa103".toList) [] RetVal.pass, Node.leaf ("aaaaaaaaaaaaaaaaaaaaaaaaaaaaaaaaaaaaaaaaaaaaaaaaaaaaaaaaaaaaaaaaaaaaaaaaaaaaaaaaaaaaaaaaaaaaaaaaaaaaaaaaaaaaaaaaaaaaaaaaaaaaaaaaaaaaaaaaaaaaaaaaaaaaaaaaaaaaaaaaaaaaaaaaaaaaaaaaaaaaaaaaaaaaaaaaaaaaaaaaaaaaaaaaaaaaaaaaaaaaaaaaaaaaaaaaaaaa104".toList) [] RetVal.pass, Node.leaf ("aaaaaaaaaaaaaaaaaaaaaaaaaaaaaaaaaaaaaaaaaaaaaaaaaaaaaaaaaaaaaaaaaaaaaaaaaaaaaaaaaaaaaaaaaaaaaaaaaaaaaaaaaaaaaaaaaaaaaaaaaaaaaaaaaaaaaaaaaaaaaaaaaaaaaaaaaaaaaaaaaaaaaaaaaaaaaaaaaaaaaaaaaaaaaaaaaaaaaaaaaaaaaaaaaaaaaaaaaaaaaaaaaaaaaaaaaaaa105".toList) [] RetVal.pass, Node.leaf ("aaaaaaaaaaaaaaaaaaaaaaaaaaaaaaaaaaaaaaaaaaaaaaaaaaaaaaaaaaaaaaaaaaaaaaaaaaaaaaaaaaaaaaaaaaaaaaaaaaaaaaaaaaaaaaaaaaaaaaaaaaaaaaaaaaaaaaaaaaaaaaaaaaaaaaaaaaaaaaaaaaaaaaaaaaaaaaaaaaaaaaaaaaaaaaaaaaaaaaaaaaaaaaaaaaaaaaaaaaaaaaaaaaaaaaaaaaaa106".toList) [] RetVal.pass, Node.leaf ("aaaaaaaaaaaaaaaaaaaaaaaaaaaaaaaaaaaaaaaaaaaaaaaaaaaaaaaaaaaaaaaaaaaaaaaaaaaaaaaaaaaaaaaaaaaaaaaaaaaaaaaaaaaaaaaaaaaaaaaaaaaaaaaaaaaaaaaaaaaaaaaaaaaaaaaaaaaaaaaaaaaaaaaaaaaaaaaaaaaaaaaaaaaaaaaaaaaaaaaaaaaaaaaaaaaaaaaaaaaaaaaaaaaaaaaaaaaa107".toList) [] RetVal.pass, Node.leaf ("aaaaaaaaaaaaaaaaaaaaaaaaaaaaaaaaaaaaaaaaaaaaaaaaaaaaaaaaaaaaaaaaaaaaaaaaaaaaaaaaaaaaaaaaaaaaaaaaaaaaaaaaaaaaaaaaaaaaaaaaaaaaaaaaaaaaaaaaaaaaaaaaaaaaaaaaaaaaaaaaaaaaaaaaaaaaaaaaaaaaaaaaaaaaaaaaaaaaaaaaaaaaaaaaaaaaaaaaaaaaaaaaaaaaaaaaaaaa108".toList) [] RetVal.pass, Node.leaf ("aaaaaaaaaaaaaaaaaaaaaaaaaaaaaaaaaaaaaaaaaaaaaaaaaaaaaaaaaaaaaaaaaaaaaaaaaaaaaaaaaaaaaaaaaaaaaaaaaaaaaaaaaaaaaaaaaaaaaaaaaaaaaaaaaaaaaaaaaaaaaaaaaaaaaaaaaaaaaaaaaaaaaaaaaaaaaaaaaaaaaaaaaaaaaaaaaaaaaaaaaaaaaaaaaaaaaaaaaaaaaaaaaaaaaaaaaaaa109".toList) [] RetVal.pass, Node.leaf ("aaaaaaaaaaaaaaaaaaaaaaaaaaaaaaaaaaaaaaaaaaaaaaaaaaaaaaaaaaaaaaaaaaaaaaaaaaaaaaaaaaaaaaaaaaaaaaaaaaaaaaaaaaaaaaaaaaaaaaaaaaaaaaaaaaaaaaaaaaaaaaaaaaaaaaaaaaaaaaaaaaaaaaaaaaaaaaaaaaaaaaaaaaaaaaaaaaaaaaaaaaaaaaaaaaaaaaaaaaaaaaaaaaaaaaaaaaaa110".toList) [] RetVal.pass, Node.leaf ("aaaaaaaaaaaaaaaaaaaaaaaaaaaaaaaaaaaaaaaaaaaaaaaaaaaaaaaaaaaaaaaaaaaaaaaaaaaaaaaaaaaaaaaaaaaaaaaaaaaaaaaaaaaaaaaaaaaaaaaaaaaaaaaaaaaaaaaaaaaaaaaaaaaaaaaaaaaaaaaaaaaaaaaaaaaaaaaaaaaaaaaaaaaaaaaaaaaaaaaaaaaaaaaaaaaaaaaaaaaaaaaaaaaaaaaaaaaa111".toList) [] RetVal.pass, Node.leaf ("aaaaaaaaaaaaaaaaaaaaaaaaaaaaaaaaaaaaaaaaaaaaaaaaaaaaaaaaaaaaaaaaaaaaaaaaaaaaaaaaaaaaaaaaaaaaaaaaaaaaaaaaaaaaaaaaaaaaaaaaaaaaaaaaaaaaaaaaaaaaaaaaaaaaaaaaaaaaaaaaaaaaaaaaaaaaaaaaaaaaaaaaaaaaaaaaaaaaaaaaaaaaaaaaaaaaaaaaaaaaaaaaaaaaaaaaaaaa112".toList) [] RetVal.pass, Node.leaf ("aaaaaaaaaaaaaaaaaaaaaaaaaaaaaaaaaaaaaaaaaaaaaaaaaaaaaaaaaaaaaaaaaaaaaaaaaaaaaaaaaaaaaaaaaaaaaaaaaaaaaaaaaaaaaaaaaaaaaaaaaaaaaaaaaaaaaaaaaaaaaaaaaaaaaaaaaaaaaaaaaaaaaaaaaaaaaaaaaaaaaaaaaaaaaaaaaaaaaaaaaaaaaaaaaaaaaaaaaaaaaaaaaaaaaaaaaaaa113".toList) [] RetVal.pass, Node.leaf ("aaaaaaaaaaaaaaaaaaaaaaaaaaaaaaaaaaaaaaaaaaaaaaaaaaaaaaaaaaaaaaaaaaaaaaaaaaaaaaaaaaaaaaaaaaaaaaaaaaaaaaaaaaaaaaaaaaaaaaaaaaaaaaaaaaaaaaaaaaaaaaaaaaaaaaaaaaaaaaaaaaaaaaaaaaaaaaaaaaaaaaaaaaaaaaaaaaaaaaaaaaaaaaaaaaaaaaaaaaaaaaaaaaaaaaaaaaaa114".toList) [] RetVal.pass, Node.leaf ("aaaaaaaaaaaaaaaaaaaaaaaaaaaaaaaaaaaaaaaaaaaaaaaaaaaaaaaaaaaaaaaaaaaaaaaaaaaaaaaaaaaaaaaaaaaaaaaaaaaaaaaaaaaaaaaaaaaaaaaaaaaaaaaaaaaaaaaaaaaaaaaaaaaaaaaaaaaaaaaaaaaaaaaaaaaaaaaaaaaaaaaaaaaaaaaaaaaaaaaaaaaaaaaaaaaaaaaaaaaaaaaaaaaaaaaaaaaa115".toList) [] RetVal.pass] RetVal.pass c4s5) = Out.ok RetVal.pass c4s37 :=
    (loop_step_ok RET_ROOT_TAG 32 2 (Node.leaf ("aaaaaaaaaaaaaaaaaaaaaaaaaaaaaaaaaaaaaaaaaaaaaaaaaaaaaaaaaaaaaaaaaaaaaaaaaaaaaaaaaaaaaaaaaaaaaaaaaaaaaaaaaaaaaaaaaaaaaaaaaaaaaaaaaaaaaaaaaaaaaaaaaaaaaaaaaaaaaaaaaaaaaaaaaaaaaaaaaaaaaaaaaaaaaaaaaaaaaaaaaaaaaaaaaaaaaaaaaaaaaaaaaaaaaaaaaaaa100".toList) [] RetVal.pass) [Node.leaf ("aaaaaaaaaaaaaaaaaaaaaaaaaaaaaaaaaaaaaaaaaaaaaaaaaaaaaaaaaaaaaaaaaaaaaaaaaaaaaaaaaaaaaaaaaaaaaaaaaaaaaaaaaaaaaaaaaaaaaaaaaaaaaaaaaaaaaaaaaaaaaaaaaaaaaaaaaaaaaaaaaaaaaaaaaaaaaaaaaaaaaaaaaaaaaaaaaaaaaaaaaaaaaaaaaaaaaaaaaaaaaaaaaaaaaaaaaaaa101".toList) [] RetVal.pass, Node.leaf ("aaaaaaaaaaaaaaaaaaaaaaaaaaaaaaaaaaaaaaaaaaaaaaaaaaaaaaaaaaaaaaaaaaaaaaaaaaaaaaaaaaaaaaaaaaaaaaaaaaaaaaaaaaaaaaaaaaaaaaaaaaaaaaaaaaaaaaaaaaaaaaaaaaaaaaaaaaaaaaaaaaaaaaaaaaaaaaaaaaaaaaaaaaaaaaaaaaaaaaaaaaaaaaaaaaaaaaaaaaaaaaaaaaaaaaaaaaaa102".toList) [] RetVal.pass, Node.leaf ("aaaaaaaaaaaaaaaaaaaaaaaaaaaaaaaaaaaaaaaaaaaaaaaaaaaaaaaaaaaaaaaaaaaaaaaaaaaaaaaaaaaaaaaaaaaaaaaaaaaaaaaaaaaaaaaaaaaaaaaaaaaaaaaaaaaaaaaaaaaaaaaaaaaaaaaaaaaaaaaaaaaaaaaaaaaaaaaaaaaaaaaaaaaaaaaaaaaaaaaaaaaaaaaaaaaaaaaaaaaaaaaaaaaaaaaaaaaa103".toList) [] RetVal.pass, Node.leaf ("aaaaaaaaaaaaaaaaaaaaaaaaaaaaaaaaaaaaaaaaaaaaaaaaaaaaaaaaaaaaaaaaaaaaaaaaaaaaaaaaaaaaaaaaaaaaaaaaaaaaaaaaaaaaaaaaaaaaaaaaaaaaaaaaaaaaaaaaaaaaaaaaaaaaaaaaaaaaaaaaaaaaaaaaaaaaaaaaaaaaaaaaaaaaaaaaaaaaaaaaaaaaaaaaaaaaaaaaaaaaaaaaaaaaaaaaaaaa104".toList) [] RetVal.pass, Node.leaf ("aaaaaaaaaaaaaaaaaaaaaaaaaaaaaaaaaaaaaaaaaaaaaaaaaaaaaaaaaaaaaaaaaaaaaaaaaaaaaaaaaaaaaaaaaaaaaaaaaaaaaaaaaaaaaaaaaaaaaaaaaaaaaaaaaaaaaaaaaaaaaaaaaaaaaaaaaaaaaaaaaaaaaaaaaaaaaaaaaaaaaaaaaaaaaaaaaaaaaaaaaaaaaaaaaaaaaaaaaaaaaaaaaaaaaaaaaaaa105".toList) [] RetVal.pass, Node.leaf ("aaaaaaaaaaaaaaaaaaaaaaaaaaaaaaaaaaaaaaaaaaaaaaaaaaaaaaaaaaaaaaaaaaaaaaaaaaaaaaaaaaaaaaaaaaaaaaaaaaaaaaaaaaaaaaaaaaaaaaaaaaaaaaaaaaaaaaaaaaaaaaaaaaaaaaaaaaaaaaaaaaaaaaaaaaaaaaaaaaaaaaaaaaaaaaaaaaaaaaaaaaaaaaaaaaaaaaaaaaaaaaaaaaaaaaaaaaaa106".toList) [] RetVal.pass, Node.leaf ("aaaaaaaaaaaaaaaaaaaaaaaaaaaaaaaaaaaaaaaaaaaaaaaaaaaaaaaaaaaaaaaaaaaaaaaaaaaaaaaaaaaaaaaaaaaaaaaaaaaaaaaaaaaaaaaaaaaaaaaaaaaaaaaaaaaaaaaaaaaaaaaaaaaaaaaaaaaaaaaaaaaaaaaaaaaaaaaaaaaaaaaaaaaaaaaaaaaaaaaaaaaaaaaaaaaaaaaaaaaaaaaaaaaaaaaaaaaa107".toList) [] RetVal.pass, Node.leaf ("aaaaaaaaaaaaaaaaaaaaaaaaaaaaaaaaaaaaaaaaaaaaaaaaaaaaaaaaaaaaaaaaaaaaaaaaaaaaaaaaaaaaaaaaaaaaaaaaaaaaaaaaaaaaaaaaaaaaaaaaaaaaaaaaaaaaaaaaaaaaaaaaaaaaaaaaaaaaaaaaaaaaaaaaaaaaaaaaaaaaaaaaaaaaaaaaaaaaaaaaaaaaaaaaaaaaaaaaaaaaaaaaaaaaaaaaaaaa108".toList) [] RetVal.pass, Node.leaf ("aaaaaaaaaaaaaaaaaaaaaaaaaaaaaaaaaaaaaaaaaaaaaaaaaaaaaaaaaaaaaaaaaaaaaaaaaaaaaaaaaaaaaaaaaaaaaaaaaaaaaaaaaaaaaaaaaaaaaaaaaaaaaaaaaaaaaaaaaaaaaaaaaaaaaaaaaaaaaaaaaaaaaaaaaaaaaaaaaaaaaaaaaaaaaaaaaaaaaaaaaaaaaaaaaaaaaaaaaaaaaaaaaaaaaaaaaaaa109".toList) [] RetVal.pass, Node.leaf ("aaaaaaaaaaaaaaaaaaaaaaaaaaaaaaaaaaaaaaaaaaaaaaaaaaaaaaaaaaaaaaaaaaaaaaaaaaaaaaaaaaaaaaaaaaaaaaaaaaaaaaaaaaaaaaaaaaaaaaaaaaaaaaaaaaaaaaaaaaaaaaaaaaaaaaaaaaaaaaaaaaaaaaaaaaaaaaaaaaaaaaaaaaaaaaaaaaaaaaaaaaaaaaaaaaaaaaaaaaaaaaaaaaaaaaaaaaaa110".toList) [] RetVal.pass, Node.leaf ("aaaaaaaaaaaaaaaaaaaaaaaaaaaaaaaaaaaaaaaaaaaaaaaaaaaaaaaaaaaaaaaaaaaaaaaaaaaaaaaaaaaaaaaaaaaaaaaaaaaaaaaaaaaaaaaaaaaaaaaaaaaaaaaaaaaaaaaaaaaaaaaaaaaaaaaaaaaaaaaaaaaaaaaaaaaaaaaaaaaaaaaaaaaaaaaaaaaaaaaaaaaaaaaaaaaaaaaaaaaaaaaaaaaaaaaaaaaa111".toList) [] RetVal.pass, Node.leaf ("aaaaaaaaaaaaaaaaaaaaaaaaaaaaaaaaaaaaaaaaaaaaaaaaaaaaaaaaaaaaaaaaaaaaaaaaaaaaaaaaaaaaaaaaaaaaaaaaaaaaaaaaaaaaaaaaaaaaaaaaaaaaaaaaaaaaaaaaaaaaaaaaaaaaaaaaaaaaaaaaaaaaaaaaaaaaaaaaaaaaaaaaaaaaaaaaaaaaaaaaaaaaaaaaaaaaaaaaaaaaaaaaaaaaaaaaaaaa112".toList) [] RetVal.pass, Node.leaf ("aaaaaaaaaaaaaaaaaaaaaaaaaaaaaaaaaaaaaaaaaaaaaaaaaaaaaaaaaaaaaaaaaaaaaaaaaaaaaaaaaaaaaaaaaaaaaaaaaaaaaaaaaaaaaaaaaaaaaaaaaaaaaaaaaaaaaaaaaaaaaaaaaaaaaaaaaaaaaaaaaaaaaaaaaaaaaaaaaaaaaaaaaaaaaaaaaaaaaaaaaaaaaaaaaaaaaaaaaaaaaaaaaaaaaaaaaaaa113".toList) [] RetVal.pass, Node.leaf ("aaaaaaaaaaaaaaaaaaaaaaaaaaaaaaaaaaaaaaaaaaaaaaaaaaaaaaaaaaaaaaaaaaaaaaaaaaaaaaaaaaaaaaaaaaaaaaaaaaaaaaaaaaaaaaaaaaaaaaaaaaaaaaaaaaaaaaaaaaaaaaaaaaaaaaaaaaaaaaaaaaaaaaaaaaaaaaaaaaaaaaaaaaaaaaaaaaaaaaaaaaaaaaaaaaaaaaaaaaaaaaaaaaaaaaaaaaaa114".toList) [] RetVal.pass, Node.leaf ("aaaaaaaaaaaaaaaaaaaaaaaaaaaaaaaaaaaaaaaaaaaaaaaaaaaaaaaaaaaaaaaaaaaaaaaaaaaaaaaaaaaaaaaaaaaaaaaaaaaaaaaaaaaaaaaaaaaaaaaaaaaaaaaaaaaaaaaaaaaaaaaaaaaaaaaaaaaaaaaaaaaaaaaaaaaaaaaaaaaaaaaaaaaaaaaaaaaaaaaaaaaaaaaaaaaaaaaaaaaaaaaaaaaaaaaaaaaa115".toList) [] RetVal.pass] RetVal.pass RetVal.pass c4s5 c4s6 e0).trans e47
  have e49 : step RET_ROOT_TAG 34 (.list [Node.leaf ("aaaaaaaaaaaaaaaaaaaaaaaaaaaaaaaaaaaaaaaaaaaaaaaaaaaaaaaaaaaaaaaaaaaaaaaaaaaaaaaaaaaaaaaaaaaaaaaaaaaaaaaaaaaaaaaaaaaaaaaaaaaaaaaaaaaaaaaaaaaaaaaaaaaaaaaaaaaaaaaaaaaaaaaaaaaaaaaaaaaaaaaaaaaaaaaaaaaaaaaaaaaaaaaaaaaaaaaaaaaaaaaaaaaaaaaaaaaa100".toList) [] RetVal.pass, Node.leaf ("aaaaaaaaaaaaaaaaaaaaaaaaaaaaaaaaaaaaaaaaaaaaaaaaaaaaaaaaaaaaaaaaaaaaaaaaaaaaaaaaaaaaaaaaaaaaaaaaaaaaaaaaaaaaaaaaaaaaaaaaaaaaaaaaaaaaaaaaaaaaaaaaaaaaaaaaaaaaaaaaaaaaaaaaaaaaaaaaaaaaaaaaaaaaaaaaaaaaaaaaaaaaaaaaaaaaaaaaaaaaaaaaaaaaaaaaaaaa101".toList) [] RetVal.pass, Node.leaf ("aaaaaaaaaaaaaaaaaaaaaaaaaaaaaaaaaaaaaaaaaaaaaaaaaaaaaaaaaaaaaaaaaaaaaaaaaaaaaaaaaaaaaaaaaaaaaaaaaaaaaaaaaaaaaaaaaaaaaaaaaaaaaaaaaaaaaaaaaaaaaaaaaaaaaaaaaaaaaaaaaaaaaaaaaaaaaaaaaaaaaaaaaaaaaaaaaaaaaaaaaaaaaaaaaaaaaaaaaaaaaaaaaaaaaaaaaaaa102".toList) [] RetVal.pass, Node.leaf ("aaaaaaaaaaaaaaaaaaaaaaaaaaaaaaaaaaaaaaaaaaaaaaaaaaaaaaaaaaaaaaaaaaaaaaaaaaaaaaaaaaaaaaaaaaaaaaaaaaaaaaaaaaaaaaaaaaaaaaaaaaaaaaaaaaaaaaaaaaaaaaaaaaaaaaaaaaaaaaaaaaaaaaaaaaaaaaaaaaaaaaaaaaaaaaaaaaaaaaaaaaaaaaaaaaaaaaaaaaaaaaaaaaaaaaaaaaaa103".toList) [] RetVal.pass, Node.leaf ("aaaaaaaaaaaaaaaaaaaaaaaaaaaaaaaaaaaaaaaaaaaaaaaaaaaaaaaaaaaaaaaaaaaaaaaaaaaaaaaaaaaaaaaaaaaaaaaaaaaaaaaaaaaaaaaaaaaaaaaaaaaaaaaaaaaaaaaaaaaaaaaaaaaaaaaaaaaaaaaaaaaaaaaaaaaaaaaaaaaaaaaaaaaaaaaaaaaaaaaaaaaaaaaaaaaaaaaaaaaaaaaaaaaaaaaaaaaa104".toList) [] RetVal.pass, Node.leaf ("aaaaaaaaaaaaaaaaaaaaaaaaaaaaaaaaaaaaaaaaaaaaaaaaaaaaaaaaaaaaaaaaaaaaaaaaaaaaaaaaaaaaaaaaaaaaaaaaaaaaaaaaaaaaaaaaaaaaaaaaaaaaaaaaaaaaaaaaaaaaaaaaaaaaaaaaaaaaaaaaaaaaaaaaaaaaaaaaaaaaaaaaaaaaaaaaaaaaaaaaaaaaaaaaaaaaaaaaaaaaaaaaaaaaaaaaaaaa105".toList) [] RetVal.pass, Node.leaf ("aaaaaaaaaaaaaaaaaaaaaaaaaaaaaaaaaaaaaaaaaaaaaaaaaaaaaaaaaaaaaaaaaaaaaaaaaaaaaaaaaaaaaaaaaaaaaaaaaaaaaaaaaaaaaaaaaaaaaaaaaaaaaaaaaaaaaaaaaaaaaaaaaaaaaaaaaaaaaaaaaaaaaaaaaaaaaaaaaaaaaaaaaaaaaaaaaaaaaaaaaaaaaaaaaaaaaaaaaaaaaaaaaaaaaaaaaaaa106".toList) [] RetVal.pass, Node.leaf ("aaaaaaaaaaaaaaaaaaaaaaaaaaaaaaaaaaaaaaaaaaaaaaaaaaaaaaaaaaaaaaaaaaaaaaaaaaaaaaaaaaaaaaaaaaaaaaaaaaaaaaaaaaaaaaaaaaaaaaaaaaaaaaaaaaaaaaaaaaaaaaaaaaaaaaaaaaaaaaaaaaaaaaaaaaaaaaaaaaaaaaaaaaaaaaaaaaaaaaaaaaaaaaaaaaaaaaaaaaaaaaaaaaaaaaaaaaaa107".toList) [] RetVal.pass, Node.leaf ("aaaaaaaaaaaaaaaaaaaaaaaaaaaaaaaaaaaaaaaaaaaaaaaaaaaaaaaaaaaaaaaaaaaaaaaaaaaaaaaaaaaaaaaaaaaaaaaaaaaaaaaaaaaaaaaaaaaaaaaaaaaaaaaaaaaaaaaaaaaaaaaaaaaaaaaaaaaaaaaaaaaaaaaaaaaaaaaaaaaaaaaaaaaaaaaaaaaaaaaaaaaaaaaaaaaaaaaaaaaaaaaaaaaaaaaaaaaa108".toList) [] RetVal.pass, Node.leaf ("aaaaaaaaaaaaaaaaaaaaaaaaaaaaaaaaaaaaaaaaaaaaaaaaaaaaaaaaaaaaaaaaaaaaaaaaaaaaaaaaaaaaaaaaaaaaaaaaaaaaaaaaaaaaaaaaaaaaaaaaaaaaaaaaaaaaaaaaaaaaaaaaaaaaaaaaaaaaaaaaaaaaaaaaaaaaaaaaaaaaaaaaaaaaaaaaaaaaaaaaaaaaaaaaaaaaaaaaaaaaaaaaaaaaaaaaaaaa109".toList) [] RetVal.pass, Node.leaf ("aaaaaaaaaaaaaaaaaaaaaaaaaaaaaaaaaaaaaaaaaaaaaaaaaaaaaaaaaaaaaaaaaaaaaaaaaaaaaaaaaaaaaaaaaaaaaaaaaaaaaaaaaaaaaaaaaaaaaaaaaaaaaaaaaaaaaaaaaaaaaaaaaaaaaaaaaaaaaaaaaaaaaaaaaaaaaaaaaaaaaaaaaaaaaaaaaaaaaaaaaaaaaaaaaaaaaaaaaaaaaaaaaaaaaaaaaaaa110".toList) [] RetVal.pass, Node.leaf ("aaaaaaaaaaaaaaaaaaaaaaaaaaaaaaaaaaaaaaaaaaaaaaaaaaaaaaaaaaaaaaaaaaaaaaaaaaaaaaaaaaaaaaaaaaaaaaaaaaaaaaaaaaaaaaaaaaaaaaaaaaaaaaaaaaaaaaaaaaaaaaaaaaaaaaaaaaaaaaaaaaaaaaaaaaaaaaaaaaaaaaaaaaaaaaaaaaaaaaaaaaaaaaaaaaaaaaaaaaaaaaaaaaaaaaaaaaaa111".toList) [] RetVal.pass, Node.leaf ("aaaaaaaaaaaaaaaaaaaaaaaaaaaaaaaaaaaaaaaaaaaaaaaaaaaaaaaaaaaaaaaaaaaaaaaaaaaaaaaaaaaaaaaaaaaaaaaaaaaaaaaaaaaaaaaaaaaaaaaaaaaaaaaaaaaaaaaaaaaaaaaaaaaaaaaaaaaaaaaaaaaaaaaaaaaaaaaaaaaaaaaaaaaaaaaaaaaaaaaaaaaaaaaaaaaaaaaaaaaaaaaaaaaaaaaaaaaa112".toList) [] RetVal.pass, Node.leaf ("aaaaaaaaaaaaaaaaaaaaaaaaaaaaaaaaaaaaaaaaaaaaaaaaaaaaaaaaaaaaaaaaaaaaaaaaaaaaaaaaaaaaaaaaaaaaaaaaaaaaaaaaaaaaaaaaaaaaaaaaaaaaaaaaaaaaaaaaaaaaaaaaaaaaaaaaaaaaaaaaaaaaaaaaaaaaaaaaaaaaaaaaaaaaaaaaaaaaaaaaaaaaaaaaaaaaaaaaaaaaaaaaaaaaaaaaaaaa113".toList) [] RetVal.pass, Node.leaf ("aaaaaaaaaaaaaaaaaaaaaaaaaaaaaaaaaaaaaaaaaaaaaaaaaaaaaaaaaaaaaaaaaaaaaaaaaaaaaaaaaaaaaaaaaaaaaaaaaaaaaaaaaaaaaaaaaaaaaaaaaaaaaaaaaaaaaaaaaaaaaaaaaaaaaaaaaaaaaaaaaaaaaaaaaaaaaaaaaaaaaaaaaaaaaaaaaaaaaaaaaaaaaaaaaaaaaaaaaaaaaaaaaaaaaaaaaaaa114".toList) [] RetVal.pass, Node.leaf ("aaaaaaaaaaaaaaaaaaaaaaaaaaaaaaaaaaaaaaaaaaaaaaaaaaaaaaaaaaaaaaaaaaaaaaaaaaaaaaaaaaaaaaaaaaaaaaaaaaaaaaaaaaaaaaaaaaaaaaaaaaaaaaaaaaaaaaaaaaaaaaaaaaaaaaaaaaaaaaaaaaaaaaaaaaaaaaaaaaaaaaaaaaaaaaaaaaaaaaaaaaaaaaaaaaaaaaaaaaaaaaaaaaaaaaaaaaaa115".toList) [] RetVal.pass] c4s4) = Out.ok RetVal.pass c4s38 :=
    (list_step_out_ok RET_ROOT_TAG 33 [Node.leaf ("aaaaaaaaaaaaaaaaaaaaaaaaaaaaaaaaaaaaaaaaaaaaaaaaaaaaaaaaaaaaaaaaaaaaaaaaaaaaaaaaaaaaaaaaaaaaaaaaaaaaaaaaaaaaaaaaaaaaaaaaaaaaaaaaaaaaaaaaaaaaaaaaaaaaaaaaaaaaaaaaaaaaaaaaaaaaaaaaaaaaaaaaaaaaaaaaaaaaaaaaaaaaaaaaaaaaaaaaaaaaaaaaaaaaaaaaaaaa100".toList) [] RetVal.pass, Node.leaf ("aaaaaaaaaaaaaaaaaaaaaaaaaaaaaaaaaaaaaaaaaaaaaaaaaaaaaaaaaaaaaaaaaaaaaaaaaaaaaaaaaaaaaaaaaaaaaaaaaaaaaaaaaaaaaaaaaaaaaaaaaaaaaaaaaaaaaaaaaaaaaaaaaaaaaaaaaaaaaaaaaaaaaaaaaaaaaaaaaaaaaaaaaaaaaaaaaaaaaaaaaaaaaaaaaaaaaaaaaaaaaaaaaaaaaaaaaaaa101".toList) [] RetVal.pass, Node.leaf ("aaaaaaaaaaaaaaaaaaaaaaaaaaaaaaaaaaaaaaaaaaaaaaaaaaaaaaaaaaaaaaaaaaaaaaaaaaaaaaaaaaaaaaaaaaaaaaaaaaaaaaaaaaaaaaaaaaaaaaaaaaaaaaaaaaaaaaaaaaaaaaaaaaaaaaaaaaaaaaaaaaaaaaaaaaaaaaaaaaaaaaaaaaaaaaaaaaaaaaaaaaaaaaaaaaaaaaaaaaaaaaaaaaaaaaaaaaaa102".toList) [] RetVal.pass, Node.leaf ("aaaaaaaaaaaaaaaaaaaaaaaaaaaaaaaaaaaaaaaaaaaaaaaaaaaaaaaaaaaaaaaaaaaaaaaaaaaaaaaaaaaaaaaaaaaaaaaaaaaaaaaaaaaaaaaaaaaaaaaaaaaaaaaaaaaaaaaaaaaaaaaaaaaaaaaaaaaaaaaaaaaaaaaaaaaaaaaaaaaaaaaaaaaaaaaaaaaaaaaaaaaaaaaaaaaaaaaaaaaaaaaaaaaaaaaaaaaa103".toList) [] RetVal.pass, Node.leaf ("aaaaaaaaaaaaaaaaaaaaaaaaaaaaaaaaaaaaaaaaaaaaaaaaaaaaaaaaaaaaaaaaaaaaaaaaaaaaaaaaaaaaaaaaaaaaaaaaaaaaaaaaaaaaaaaaaaaaaaaaaaaaaaaaaaaaaaaaaaaaaaaaaaaaaaaaaaaaaaaaaaaaaaaaaaaaaaaaaaaaaaaaaaaaaaaaaaaaaaaaaaaaaaaaaaaaaaaaaaaaaaaaaaaaaaaaaaaa104".toList) [] RetVal.pass, Node.leaf ("aaaaaaaaaaaaaaaaaaaaaaaaaaaaaaaaaaaaaaaaaaaaaaaaaaaaaaaaaaaaaaaaaaaaaaaaaaaaaaaaaaaaaaaaaaaaaaaaaaaaaaaaaaaaaaaaaaaaaaaaaaaaaaaaaaaaaaaaaaaaaaaaaaaaaaaaaaaaaaaaaaaaaaaaaaaaaaaaaaaaaaaaaaaaaaaaaaaaaaaaaaaaaaaaaaaaaaaaaaaaaaaaaaaaaaaaaaaa105".toList) [] RetVal.pass, Node.leaf ("aaaaaaaaaaaaaaaaaaaaaaaaaaaaaaaaaaaaaaaaaaaaaaaaaaaaaaaaaaaaaaaaaaaaaaaaaaaaaaaaaaaaaaaaaaaaaaaaaaaaaaaaaaaaaaaaaaaaaaaaaaaaaaaaaaaaaaaaaaaaaaaaaaaaaaaaaaaaaaaaaaaaaaaaaaaaaaaaaaaaaaaaaaaaaaaaaaaaaaaaaaaaaaaaaaaaaaaaaaaaaaaaaaaaaaaaaaaa106".toList) [] RetVal.pass, Node.leaf ("aaaaaaaaaaaaaaaaaaaaaaaaaaaaaaaaaaaaaaaaaaaaaaaaaaaaaaaaaaaaaaaaaaaaaaaaaaaaaaaaaaaaaaaaaaaaaaaaaaaaaaaaaaaaaaaaaaaaaaaaaaaaaaaaaaaaaaaaaaaaaaaaaaaaaaaaaaaaaaaaaaaaaaaaaaaaaaaaaaaaaaaaaaaaaaaaaaaaaaaaaaaaaaaaaaaaaaaaaaaaaaaaaaaaaaaaaaaa107".toList) [] RetVal.pass, Node.leaf ("aaaaaaaaaaaaaaaaaaaaaaaaaaaaaaaaaaaaaaaaaaaaaaaaaaaaaaaaaaaaaaaaaaaaaaaaaaaaaaaaaaaaaaaaaaaaaaaaaaaaaaaaaaaaaaaaaaaaaaaaaaaaaaaaaaaaaaaaaaaaaaaaaaaaaaaaaaaaaaaaaaaaaaaaaaaaaaaaaaaaaaaaaaaaaaaaaaaaaaaaaaaaaaaaaaaaaaaaaaaaaaaaaaaaaaaaaaaa108".toList) [] RetVal.pass, Node.leaf ("aaaaaaaaaaaaaaaaaaaaaaaaaaaaaaaaaaaaaaaaaaaaaaaaaaaaaaaaaaaaaaaaaaaaaaaaaaaaaaaaaaaaaaaaaaaaaaaaaaaaaaaaaaaaaaaaaaaaaaaaaaaaaaaaaaaaaaaaaaaaaaaaaaaaaaaaaaaaaaaaaaaaaaaaaaaaaaaaaaaaaaaaaaaaaaaaaaaaaaaaaaaaaaaaaaaaaaaaaaaaaaaaaaaaaaaaaaaa109".toList) [] RetVal.pass, Node.leaf ("aaaaaaaaaaaaaaaaaaaaaaaaaaaaaaaaaaaaaaaaaaaaaaaaaaaaaaaaaaaaaaaaaaaaaaaaaaaaaaaaaaaaaaaaaaaaaaaaaaaaaaaaaaaaaaaaaaaaaaaaaaaaaaaaaaaaaaaaaaaaaaaaaaaaaaaaaaaaaaaaaaaaaaaaaaaaaaaaaaaaaaaaaaaaaaaaaaaaaaaaaaaaaaaaaaaaaaaaaaaaaaaaaaaaaaaaaaaa110".toList) [] RetVal.pass, Node.leaf ("aaaaaaaaaaaaaaaaaaaaaaaaaaaaaaaaaaaaaaaaaaaaaaaaaaaaaaaaaaaaaaaaaaaaaaaaaaaaaaaaaaaaaaaaaaaaaaaaaaaaaaaaaaaaaaaaaaaaaaaaaaaaaaaaaaaaaaaaaaaaaaaaaaaaaaaaaaaaaaaaaaaaaaaaaaaaaaaaaaaaaaaaaaaaaaaaaaaaaaaaaaaaaaaaaaaaaaaaaaaaaaaaaaaaaaaaaaaa111".toList) [] RetVal.pass, Node.leaf ("aaaaaaaaaaaaaaaaaaaaaaaaaaaaaaaaaaaaaaaaaaaaaaaaaaaaaaaaaaaaaaaaaaaaaaaaaaaaaaaaaaaaaaaaaaaaaaaaaaaaaaaaaaaaaaaaaaaaaaaaaaaaaaaaaaaaaaaaaaaaaaaaaaaaaaaaaaaaaaaaaaaaaaaaaaaaaaaaaaaaaaaaaaaaaaaaaaaaaaaaaaaaaaaaaaaaaaaaaaaaaaaaaaaaaaaaaaaa112".toList) [] RetVal.pass, Node.leaf ("aaaaaaaaaaaaaaaaaaaaaaaaaaaaaaaaaaaaaaaaaaaaaaaaaaaaaaaaaaaaaaaaaaaaaaaaaaaaaaaaaaaaaaaaaaaaaaaaaaaaaaaaaaaaaaaaaaaaaaaaaaaaaaaaaaaaaaaaaaaaaaaaaaaaaaaaaaaaaaaaaaaaaaaaaaaaaaaaaaaaaaaaaaaaaaaaaaaaaaaaaaaaaaaaaaaaaaaaaaaaaaaaaaaaaaaaaaaa113".toList) [] RetVal.pass, Node.leaf ("aaaaaaaaaaaaaaaaaaaaaaaaaaaaaaaaaaaaaaaaaaaaaaaaaaaaaaaaaaaaaaaaaaaaaaaaaaaaaaaaaaaaaaaaaaaaaaaaaaaaaaaaaaaaaaaaaaaaaaaaaaaaaaaaaaaaaaaaaaaaaaaaaaaaaaaaaaaaaaaaaaaaaaaaaaaaaaaaaaaaaaaaaaaaaaaaaaaaaaaaaaaaaaaaaaaaaaaaaaaaaaaaaaaaaaaaaaaa114".toList) [] RetVal.pass, Node.leaf ("aaaaaaaaaaaaaaaaaaaaaaaaaaaaaaaaaaaaaaaaaaaaaaaaaaaaaaaaaaaaaaaaaaaaaaaaaaaaaaaaaaaaaaaaaaaaaaaaaaaaaaaaaaaaaaaaaaaaaaaaaaaaaaaaaaaaaaaaaaaaaaaaaaaaaaaaaaaaaaaaaaaaaaaaaaaaaaaaaaaaaaaaaaaaaaaaaaaaaaaaaaaaaaaaaaaaaaaaaaaaaaaaaaaaaaaaaaaa115".toList) [] RetVal.pass] c4s4 RetVal.pass c4s37 (by decide) e48).trans rfl
  have e50 : step RET_ROOT_TAG 35 (.enter (Node.branch ("B".toList) [Node.leaf ("aaaaaaaaaaaaaaaaaaaaaaaaaaaaaaaaaaaaaaaaaaaaaaaaaaaaaaaaaaaaaaaaaaaaaaaaaaaaaaaaaaaaaaaaaaaaaaaaaaaaaaaaaaaaaaaaaaaaaaaaaaaaaaaaaaaaaaaaaaaaaaaaaaaaaaaaaaaaaaaaaaaaaaaaaaaaaaaaaaaaaaaaaaaaaaaaaaaaaaaaaaaaaaaaaaaaaaaaaaaaaaaaaaaaaaaaaaaa100".toList) [] RetVal.pass, Node.leaf ("aaaaaaaaaaaaaaaaaaaaaaaaaaaaaaaaaaaaaaaaaaaaaaaaaaaaaaaaaaaaaaaaaaaaaaaaaaaaaaaaaaaaaaaaaaaaaaaaaaaaaaaaaaaaaaaaaaaaaaaaaaaaaaaaaaaaaaaaaaaaaaaaaaaaaaaaaaaaaaaaaaaaaaaaaaaaaaaaaaaaaaaaaaaaaaaaaaaaaaaaaaaaaaaaaaaaaaaaaaaaaaaaaaaaaaaaaaaa101".toList) [] RetVal.pass, Node.leaf ("aaaaaaaaaaaaaaaaaaaaaaaaaaaaaaaaaaaaaaaaaaaaaaaaaaaaaaaaaaaaaaaaaaaaaaaaaaaaaaaaaaaaaaaaaaaaaaaaaaaaaaaaaaaaaaaaaaaaaaaaaaaaaaaaaaaaaaaaaaaaaaaaaaaaaaaaaaaaaaaaaaaaaaaaaaaaaaaaaaaaaaaaaaaaaaaaaaaaaaaaaaaaaaaaaaaaaaaaaaaaaaaaaaaaaaaaaaaa102".toList) [] RetVal.pass, Node.leaf ("aaaaaaaaaaaaaaaaaaaaaaaaaaaaaaaaaaaaaaaaaaaaaaaaaaaaaaaaaaaaaaaaaaaaaaaaaaaaaaaaaaaaaaaaaaaaaaaaaaaaaaaaaaaaaaaaaaaaaaaaaaaaaaaaaaaaaaaaaaaaaaaaaaaaaaaaaaaaaaaaaaaaaaaaaaaaaaaaaaaaaaaaaaaaaaaaaaaaaaaaaaaaaaaaaaaaaaaaaaaaaaaaaaaaaaaaaaaa103".toList) [] RetVal.pass, Node.leaf ("aaaaaaaaaaaaaaaaaaaaaaaaaaaaaaaaaaaaaaaaaaaaaaaaaaaaaaaaaaaaaaaaaaaaaaaaaaaaaaaaaaaaaaaaaaaaaaaaaaaaaaaaaaaaaaaaaaaaaaaaaaaaaaaaaaaaaaaaaaaaaaaaaaaaaaaaaaaaaaaaaaaaaaaaaaaaaaaaaaaaaaaaaaaaaaaaaaaaaaaaaaaaaaaaaaaaaaaaaaaaaaaaaaaaaaaaaaaa104".toList) [] RetVal.pass, Node.leaf ("aaaaaaaaaaaaaaaaaaaaaaaaaaaaaaaaaaaaaaaaaaaaaaaaaaaaaaaaaaaaaaaaaaaaaaaaaaaaaaaaaaaaaaaaaaaaaaaaaaaaaaaaaaaaaaaaaaaaaaaaaaaaaaaaaaaaaaaaaaaaaaaaaaaaaaaaaaaaaaaaaaaaaaaaaaaaaaaaaaaaaaaaaaaaaaaaaaaaaaaaaaaaaaaaaaaaaaaaaaaaaaaaaaaaaaaaaaaa105".toList) [] RetVal.pass, Node.leaf ("aaaaaaaaaaaaaaaaaaaaaaaaaaaaaaaaaaaaaaaaaaaaaaaaaaaaaaaaaaaaaaaaaaaaaaaaaaaaaaaaaaaaaaaaaaaaaaaaaaaaaaaaaaaaaaaaaaaaaaaaaaaaaaaaaaaaaaaaaaaaaaaaaaaaaaaaaaaaaaaaaaaaaaaaaaaaaaaaaaaaaaaaaaaaaaaaaaaaaaaaaaaaaaaaaaaaaaaaaaaaaaaaaaaaaaaaaaaa106".toList) [] RetVal.pass, Node.leaf ("aaaaaaaaaaaaaaaaaaaaaaaaaaaaaaaaaaaaaaaaaaaaaaaaaaaaaaaaaaaaaaaaaaaaaaaaaaaaaaaaaaaaaaaaaaaaaaaaaaaaaaaaaaaaaaaaaaaaaaaaaaaaaaaaaaaaaaaaaaaaaaaaaaaaaaaaaaaaaaaaaaaaaaaaaaaaaaaaaaaaaaaaaaaaaaaaaaaaaaaaaaaaaaaaaaaaaaaaaaaaaaaaaaaaaaaaaaaa107".toList) [] RetVal.pass, Node.leaf ("aaaaaaaaaaaaaaaaaaaaaaaaaaaaaaaaaaaaaaaaaaaaaaaaaaaaaaaaaaaaaaaaaaaaaaaaaaaaaaaaaaaaaaaaaaaaaaaaaaaaaaaaaaaaaaaaaaaaaaaaaaaaaaaaaaaaaaaaaaaaaaaaaaaaaaaaaaaaaaaaaaaaaaaaaaaaaaaaaaaaaaaaaaaaaaaaaaaaaaaaaaaaaaaaaaaaaaaaaaaaaaaaaaaaaaaaaaaa108".toList) [] RetVal.pass, Node.leaf ("aaaaaaaaaaaaaaaaaaaaaaaaaaaaaaaaaaaaaaaaaaaaaaaaaaaaaaaaaaaaaaaaaaaaaaaaaaaaaaaaaaaaaaaaaaaaaaaaaaaaaaaaaaaaaaaaaaaaaaaaaaaaaaaaaaaaaaaaaaaaaaaaaaaaaaaaaaaaaaaaaaaaaaaaaaaaaaaaaaaaaaaaaaaaaaaaaaaaaaaaaaaaaaaaaaaaaaaaaaaaaaaaaaaaaaaaaaaa109".toList) [] RetVal.pass, Node.leaf ("aaaaaaaaaaaaaaaaaaaaaaaaaaaaaaaaaaaaaaaaaaaaaaaaaaaaaaaaaaaaaaaaaaaaaaaaaaaaaaaaaaaaaaaaaaaaaaaaaaaaaaaaaaaaaaaaaaaaaaaaaaaaaaaaaaaaaaaaaaaaaaaaaaaaaaaaaaaaaaaaaaaaaaaaaaaaaaaaaaaaaaaaaaaaaaaaaaaaaaaaaaaaaaaaaaaaaaaaaaaaaaaaaaaaaaaaaaaa110".toList) [] RetVal.pass, Node.leaf ("aaaaaaaaaaaaaaaaaaaaaaaaaaaaaaaaaaaaaaaaaaaaaaaaaaaaaaaaaaaaaaaaaaaaaaaaaaaaaaaaaaaaaaaaaaaaaaaaaaaaaaaaaaaaaaaaaaaaaaaaaaaaaaaaaaaaaaaaaaaaaaaaaaaaaaaaaaaaaaaaaaaaaaaaaaaaaaaaaaaaaaaaaaaaaaaaaaaaaaaaaaaaaaaaaaaaaaaaaaaaaaaaaaaaaaaaaaaa111".toList) [] RetVal.pass, Node.leaf ("aaaaaaaaaaaaaaaaaaaaaaaaaaaaaaaaaaaaaaaaaaaaaaaaaaaaaaaaaaaaaaaaaaaaaaaaaaaaaaaaaaaaaaaaaaaaaaaaaaaaaaaaaaaaaaaaaaaaaaaaaaaaaaaaaaaaaaaaaaaaaaaaaaaaaaaaaaaaaaaaaaaaaaaaaaaaaaaaaaaaaaaaaaaaaaaaaaaaaaaaaaaaaaaaaaaaaaaaaaaaaaaaaaaaaaaaaaaa112".toList) [] RetVal.pass, Node.leaf ("aaaaaaaaaaaaaaaaaaaaaaaaaaaaaaaaaaaaaaaaaaaaaaaaaaaaaaaaaaaaaaaaaaaaaaaaaaaaaaaaaaaaaaaaaaaaaaaaaaaaaaaaaaaaaaaaaaaaaaaaaaaaaaaaaaaaaaaaaaaaaaaaaaaaaaaaaaaaaaaaaaaaaaaaaaaaaaaaaaaaaaaaaaaaaaaaaaaaaaaaaaaaaaaaaaaaaaaaaaaaaaaaaaaaaaaaaaaa113".toList) [] RetVal.pass, Node.leaf ("aaaaaaaaaaaaaaaaaaaaaaaaaaaaaaaaaaaaaaaaaaaaaaaaaaaaaaaaaaaaaaaaaaaaaaaaaaaaaaaaaaaaaaaaaaaaaaaaaaaaaaaaaaaaaaaaaaaaaaaaaaaaaaaaaaaaaaaaaaaaaaaaaaaaaaaaaaaaaaaaaaaaaaaaaaaaaaaaaaaaaaaaaaaaaaaaaaaaaaaaaaaaaaaaaaaaaaaaaaaaaaaaaaaaaaaaaaaa114".toList) [] RetVal.pass, Node.leaf ("aaaaaaaaaaaaaaaaaaaaaaaaaaaaaaaaaaaaaaaaaaaaaaaaaaaaaaaaaaaaaaaaaaaaaaaaaaaaaaaaaaaaaaaaaaaaaaaaaaaaaaaaaaaaaaaaaaaaaaaaaaaaaaaaaaaaaaaaaaaaaaaaaaaaaaaaaaaaaaaaaaaaaaaaaaaaaaaaaaaaaaaaaaaaaaaaaaaaaaaaaaaaaaaaaaaaaaaaaaaaaaaaaaaaaaaaaaaa115".toList) [] RetVal.pass]) c4s3) = Out.ok RetVal.pass c4s38 :=
    (enter_branch_ok RET_ROOT_TAG 34 ("B".toList) [Node.leaf ("aaaaaaaaaaaaaaaaaaaaaaaaaaaaaaaaaaaaaaaaaaaaaaaaaaaaaaaaaaaaaaaaaaaaaaaaaaaaaaaaaaaaaaaaaaaaaaaaaaaaaaaaaaaaaaaaaaaaaaaaaaaaaaaaaaaaaaaaaaaaaaaaaaaaaaaaaaaaaaaaaaaaaaaaaaaaaaaaaaaaaaaaaaaaaaaaaaaaaaaaaaaaaaaaaaaaaaaaaaaaaaaaaaaaaaaaaaaa100".toList) [] RetVal.pass, Node.leaf ("aaaaaaaaaaaaaaaaaaaaaaaaaaaaaaaaaaaaaaaaaaaaaaaaaaaaaaaaaaaaaaaaaaaaaaaaaaaaaaaaaaaaaaaaaaaaaaaaaaaaaaaaaaaaaaaaaaaaaaaaaaaaaaaaaaaaaaaaaaaaaaaaaaaaaaaaaaaaaaaaaaaaaaaaaaaaaaaaaaaaaaaaaaaaaaaaaaaaaaaaaaaaaaaaaaaaaaaaaaaaaaaaaaaaaaaaaaaa101".toList) [] RetVal.pass, Node.leaf ("aaaaaaaaaaaaaaaaaaaaaaaaaaaaaaaaaaaaaaaaaaaaaaaaaaaaaaaaaaaaaaaaaaaaaaaaaaaaaaaaaaaaaaaaaaaaaaaaaaaaaaaaaaaaaaaaaaaaaaaaaaaaaaaaaaaaaaaaaaaaaaaaaaaaaaaaaaaaaaaaaaaaaaaaaaaaaaaaaaaaaaaaaaaaaaaaaaaaaaaaaaaaaaaaaaaaaaaaaaaaaaaaaaaaaaaaaaaa102".toList) [] RetVal.pass, Node.leaf ("aaaaaaaaaaaaaaaaaaaaaaaaaaaaaaaaaaaaaaaaaaaaaaaaaaaaaaaaaaaaaaaaaaaaaaaaaaaaaaaaaaaaaaaaaaaaaaaaaaaaaaaaaaaaaaaaaaaaaaaaaaaaaaaaaaaaaaaaaaaaaaaaaaaaaaaaaaaaaaaaaaaaaaaaaaaaaaaaaaaaaaaaaaaaaaaaaaaaaaaaaaaaaaaaaaaaaaaaaaaaaaaaaaaaaaaaaaaa103".toList) [] RetVal.pass, Node.leaf ("aaaaaaaaaaaaaaaaaaaaaaaaaaaaaaaaaaaaaaaaaaaaaaaaaaaaaaaaaaaaaaaaaaaaaaaaaaaaaaaaaaaaaaaaaaaaaaaaaaaaaaaaaaaaaaaaaaaaaaaaaaaaaaaaaaaaaaaaaaaaaaaaaaaaaaaaaaaaaaaaaaaaaaaaaaaaaaaaaaaaaaaaaaaaaaaaaaaaaaaaaaaaaaaaaaaaaaaaaaaaaaaaaaaaaaaaaaaa104".toList) [] RetVal.pass, Node.leaf ("aaaaaaaaaaaaaaaaaaaaaaaaaaaaaaaaaaaaaaaaaaaaaaaaaaaaaaaaaaaaaaaaaaaaaaaaaaaaaaaaaaaaaaaaaaaaaaaaaaaaaaaaaaaaaaaaaaaaaaaaaaaaaaaaaaaaaaaaaaaaaaaaaaaaaaaaaaaaaaaaaaaaaaaaaaaaaaaaaaaaaaaaaaaaaaaaaaaaaaaaaaaaaaaaaaaaaaaaaaaaaaaaaaaaaaaaaaaa105".toList) [] RetVal.pass, Node.leaf ("aaaaaaaaaaaaaaaaaaaaaaaaaaaaaaaaaaaaaaaaaaaaaaaaaaaaaaaaaaaaaaaaaaaaaaaaaaaaaaaaaaaaaaaaaaaaaaaaaaaaaaaaaaaaaaaaaaaaaaaaaaaaaaaaaaaaaaaaaaaaaaaaaaaaaaaaaaaaaaaaaaaaaaaaaaaaaaaaaaaaaaaaaaaaaaaaaaaaaaaaaaaaaaaaaaaaaaaaaaaaaaaaaaaaaaaaaaaa106".toList) [] RetVal.pass, Node.leaf ("aaaaaaaaaaaaaaaaaaaaaaaaaaaaaaaaaaaaaaaaaaaaaaaaaaaaaaaaaaaaaaaaaaaaaaaaaaaaaaaaaaaaaaaaaaaaaaaaaaaaaaaaaaaaaaaaaaaaaaaaaaaaaaaaaaaaaaaaaaaaaaaaaaaaaaaaaaaaaaaaaaaaaaaaaaaaaaaaaaaaaaaaaaaaaaaaaaaaaaaaaaaaaaaaaaaaaaaaaaaaaaaaaaaaaaaaaaaa107".toList) [] RetVal.pass, Node.leaf ("aaaaaaaaaaaaaaaaaaaaaaaaaaaaaaaaaaaaaaaaaaaaaaaaaaaaaaaaaaaaaaaaaaaaaaaaaaaaaaaaaaaaaaaaaaaaaaaaaaaaaaaaaaaaaaaaaaaaaaaaaaaaaaaaaaaaaaaaaaaaaaaaaaaaaaaaaaaaaaaaaaaaaaaaaaaaaaaaaaaaaaaaaaaaaaaaaaaaaaaaaaaaaaaaaaaaaaaaaaaaaaaaaaaaaaaaaaaa108".toList) [] RetVal.pass, Node.leaf ("aaaaaaaaaaaaaaaaaaaaaaaaaaaaaaaaaaaaaaaaaaaaaaaaaaaaaaaaaaaaaaaaaaaaaaaaaaaaaaaaaaaaaaaaaaaaaaaaaaaaaaaaaaaaaaaaaaaaaaaaaaaaaaaaaaaaaaaaaaaaaaaaaaaaaaaaaaaaaaaaaaaaaaaaaaaaaaaaaaaaaaaaaaaaaaaaaaaaaaaaaaaaaaaaaaaaaaaaaaaaaaaaaaaaaaaaaaaa109".toList) [] RetVal.pass, Node.leaf ("aaaaaaaaaaaaaaaaaaaaaaaaaaaaaaaaaaaaaaaaaaaaaaaaaaaaaaaaaaaaaaaaaaaaaaaaaaaaaaaaaaaaaaaaaaaaaaaaaaaaaaaaaaaaaaaaaaaaaaaaaaaaaaaaaaaaaaaaaaaaaaaaaaaaaaaaaaaaaaaaaaaaaaaaaaaaaaaaaaaaaaaaaaaaaaaaaaaaaaaaaaaaaaaaaaaaaaaaaaaaaaaaaaaaaaaaaaaa110".toList) [] RetVal.pass, Node.leaf ("aaaaaaaaaaaaaaaaaaaaaaaaaaaaaaaaaaaaaaaaaaaaaaaaaaaaaaaaaaaaaaaaaaaaaaaaaaaaaaaaaaaaaaaaaaaaaaaaaaaaaaaaaaaaaaaaaaaaaaaaaaaaaaaaaaaaaaaaaaaaaaaaaaaaaaaaaaaaaaaaaaaaaaaaaaaaaaaaaaaaaaaaaaaaaaaaaaaaaaaaaaaaaaaaaaaaaaaaaaaaaaaaaaaaaaaaaaaa111".toList) [] RetVal.pass, Node.leaf ("aaaaaaaaaaaaaaaaaaaaaaaaaaaaaaaaaaaaaaaaaaaaaaaaaaaaaaaaaaaaaaaaaaaaaaaaaaaaaaaaaaaaaaaaaaaaaaaaaaaaaaaaaaaaaaaaaaaaaaaaaaaaaaaaaaaaaaaaaaaaaaaaaaaaaaaaaaaaaaaaaaaaaaaaaaaaaaaaaaaaaaaaaaaaaaaaaaaaaaaaaaaaaaaaaaaaaaaaaaaaaaaaaaaaaaaaaaaa112".toList) [] RetVal.pass, Node.leaf ("aaaaaaaaaaaaaaaaaaaaaaaaaaaaaaaaaaaaaaaaaaaaaaaaaaaaaaaaaaaaaaaaaaaaaaaaaaaaaaaaaaaaaaaaaaaaaaaaaaaaaaaaaaaaaaaaaaaaaaaaaaaaaaaaaaaaaaaaaaaaaaaaaaaaaaaaaaaaaaaaaaaaaaaaaaaaaaaaaaaaaaaaaaaaaaaaaaaaaaaaaaaaaaaaaaaaaaaaaaaaaaaaaaaaaaaaaaaa113".toList) [] RetVal.pass, Node.leaf ("aaaaaaaaaaaaaaaaaaaaaaaaaaaaaaaaaaaaaaaaaaaaaaaaaaaaaaaaaaaaaaaaaaaaaaaaaaaaaaaaaaaaaaaaaaaaaaaaaaaaaaaaaaaaaaaaaaaaaaaaaaaaaaaaaaaaaaaaaaaaaaaaaaaaaaaaaaaaaaaaaaaaaaaaaaaaaaaaaaaaaaaaaaaaaaaaaaaaaaaaaaaaaaaaaaaaaaaaaaaaaaaaaaaaaaaaaaaa114".toList) [] RetVal.pass, Node.leaf ("aaaaaaaaaaaaaaaaaaaaaaaaaaaaaaaaaaaaaaaaaaaaaaaaaaaaaaaaaaaaaaaaaaaaaaaaaaaaaaaaaaaaaaaaaaaaaaaaaaaaaaaaaaaaaaaaaaaaaaaaaaaaaaaaaaaaaaaaaaaaaaaaaaaaaaaaaaaaaaaaaaaaaaaaaaaaaaaaaaaaaaaaaaaaaaaaaaaaaaaaaaaaaaaaaaaaaaaaaaaaaaaaaaaaaaaaaaaa115".toList) [] RetVal.pass] c4s3 (by decide)).trans
      (by rw [show enterState RET_ROOT_TAG ("B".toList) c4s3 = c4s4 from rfl]; exact e49)
  have e51 : step RET_ROOT_TAG 34 (.loop 1 [] RetVal.pass c4s39) = Out.ok RetVal.pass c4s39 :=
    loop_nil RET_ROOT_TAG 33 1 RetVal.pass c4s39
  have e52 : step RET_ROOT_TAG 35 (.handle 1 [] RetVal.pass RetVal.pass c4s38) = Out.ok RetVal.pass c4s39 :=
    (handle_step_exit_ok RET_ROOT_TAG 34 1 [] RetVal.pass RetVal.pass c4s38 c4s39 (rfl)).trans e51
  have e53 : step RET_ROOT_TAG 36 (.loop 1 [Node.branch ("B".toList) [Node.leaf ("aaaaaaaaaaaaaaaaaaaaaaaaaaaaaaaaaaaaaaaaaaaaaaaaaaaaaaaaaaaaaaaaaaaaaaaaaaaaaaaaaaaaaaaaaaaaaaaaaaaaaaaaaaaaaaaaaaaaaaaaaaaaaaaaaaaaaaaaaaaaaaaaaaaaaaaaaaaaaaaaaaaaaaaaaaaaaaaaaaaaaaaaaaaaaaaaaaaaaaaaaaaaaaaaaaaaaaaaaaaaaaaaaaaaaaaaaaaa100".toList) [] RetVal.pass, Node.leaf ("aaaaaaaaaaaaaaaaaaaaaaaaaaaaaaaaaaaaaaaaaaaaaaaaaaaaaaaaaaaaaaaaaaaaaaaaaaaaaaaaaaaaaaaaaaaaaaaaaaaaaaaaaaaaaaaaaaaaaaaaaaaaaaaaaaaaaaaaaaaaaaaaaaaaaaaaaaaaaaaaaaaaaaaaaaaaaaaaaaaaaaaaaaaaaaaaaaaaaaaaaaaaaaaaaaaaaaaaaaaaaaaaaaaaaaaaaaaa101".toList) [] RetVal.pass, Node.leaf ("aaaaaaaaaaaaaaaaaaaaaaaaaaaaaaaaaaaaaaaaaaaaaaaaaaaaaaaaaaaaaaaaaaaaaaaaaaaaaaaaaaaaaaaaaaaaaaaaaaaaaaaaaaaaaaaaaaaaaaaaaaaaaaaaaaaaaaaaaaaaaaaaaaaaaaaaaaaaaaaaaaaaaaaaaaaaaaaaaaaaaaaaaaaaaaaaaaaaaaaaaaaaaaaaaaaaaaaaaaaaaaaaaaaaaaaaaaaa102".toList) [] RetVal.pass, Node.leaf ("aaaaaaaaaaaaaaaaaaaaaaaaaaaaaaaaaaaaaaaaaaaaaaaaaaaaaaaaaaaaaaaaaaaaaaaaaaaaaaaaaaaaaaaaaaaaaaaaaaaaaaaaaaaaaaaaaaaaaaaaaaaaaaaaaaaaaaaaaaaaaaaaaaaaaaaaaaaaaaaaaaaaaaaaaaaaaaaaaaaaaaaaaaaaaaaaaaaaaaaaaaaaaaaaaaaaaaaaaaaaaaaaaaaaaaaaaaaa103".toList) [] RetVal.pass, Node.leaf ("aaaaaaaaaaaaaaaaaaaaaaaaaaaaaaaaaaaaaaaaaaaaaaaaaaaaaaaaaaaaaaaaaaaaaaaaaaaaaaaaaaaaaaaaaaaaaaaaaaaaaaaaaaaaaaaaaaaaaaaaaaaaaaaaaaaaaaaaaaaaaaaaaaaaaaaaaaaaaaaaaaaaaaaaaaaaaaaaaaaaaaaaaaaaaaaaaaaaaaaaaaaaaaaaaaaaaaaaaaaaaaaaaaaaaaaaaaaa104".toList) [] RetVal.pass, Node.leaf ("aaaaaaaaaaaaaaaaaaaaaaaaaaaaaaaaaaaaaaaaaaaaaaaaaaaaaaaaaaaaaaaaaaaaaaaaaaaaaaaaaaaaaaaaaaaaaaaaaaaaaaaaaaaaaaaaaaaaaaaaaaaaaaaaaaaaaaaaaaaaaaaaaaaaaaaaaaaaaaaaaaaaaaaaaaaaaaaaaaaaaaaaaaaaaaaaaaaaaaaaaaaaaaaaaaaaaaaaaaaaaaaaaaaaaaaaaaaa105".toList) [] RetVal.pass, Node.leaf ("aaaaaaaaaaaaaaaaaaaaaaaaaaaaaaaaaaaaaaaaaaaaaaaaaaaaaaaaaaaaaaaaaaaaaaaaaaaaaaaaaaaaaaaaaaaaaaaaaaaaaaaaaaaaaaaaaaaaaaaaaaaaaaaaaaaaaaaaaaaaaaaaaaaaaaaaaaaaaaaaaaaaaaaaaaaaaaaaaaaaaaaaaaaaaaaaaaaaaaaaaaaaaaaaaaaaaaaaaaaaaaaaaaaaaaaaaaaa106".toList) [] RetVal.pass, Node.leaf ("aaaaaaaaaaaaaaaaaaaaaaaaaaaaaaaaaaaaaaaaaaaaaaaaaaaaaaaaaaaaaaaaaaaaaaaaaaaaaaaaaaaaaaaaaaaaaaaaaaaaaaaaaaaaaaaaaaaaaaaaaaaaaaaaaaaaaaaaaaaaaaaaaaaaaaaaaaaaaaaaaaaaaaaaaaaaaaaaaaaaaaaaaaaaaaaaaaaaaaaaaaaaaaaaaaaaaaaaaaaaaaaaaaaaaaaaaaaa107".toList) [] RetVal.pass, Node.leaf ("aaaaaaaaaaaaaaaaaaaaaaaaaaaaaaaaaaaaaaaaaaaaaaaaaaaaaaaaaaaaaaaaaaaaaaaaaaaaaaaaaaaaaaaaaaaaaaaaaaaaaaaaaaaaaaaaaaaaaaaaaaaaaaaaaaaaaaaaaaaaaaaaaaaaaaaaaaaaaaaaaaaaaaaaaaaaaaaaaaaaaaaaaaaaaaaaaaaaaaaaaaaaaaaaaaaaaaaaaaaaaaaaaaaaaaaaaaaa108".toList) [] RetVal.pass, Node.leaf ("aaaaaaaaaaaaaaaaaaaaaaaaaaaaaaaaaaaaaaaaaaaaaaaaaaaaaaaaaaaaaaaaaaaaaaaaaaaaaaaaaaaaaaaaaaaaaaaaaaaaaaaaaaaaaaaaaaaaaaaaaaaaaaaaaaaaaaaaaaaaaaaaaaaaaaaaaaaaaaaaaaaaaaaaaaaaaaaaaaaaaaaaaaaaaaaaaaaaaaaaaaaaaaaaaaaaaaaaaaaaaaaaaaaaaaaaaaaa109".toList) [] RetVal.pass, Node.leaf ("aaaaaaaaaaaaaaaaaaaaaaaaaaaaaaaaaaaaaaaaaaaaaaaaaaaaaaaaaaaaaaaaaaaaaaaaaaaaaaaaaaaaaaaaaaaaaaaaaaaaaaaaaaaaaaaaaaaaaaaaaaaaaaaaaaaaaaaaaaaaaaaaaaaaaaaaaaaaaaaaaaaaaaaaaaaaaaaaaaaaaaaaaaaaaaaaaaaaaaaaaaaaaaaaaaaaaaaaaaaaaaaaaaaaaaaaaaaa110".toList) [] RetVal.pass, Node.leaf ("aaaaaaaaaaaaaaaaaaaaaaaaaaaaaaaaaaaaaaaaaaaaaaaaaaaaaaaaaaaaaaaaaaaaaaaaaaaaaaaaaaaaaaaaaaaaaaaaaaaaaaaaaaaaaaaaaaaaaaaaaaaaaaaaaaaaaaaaaaaaaaaaaaaaaaaaaaaaaaaaaaaaaaaaaaaaaaaaaaaaaaaaaaaaaaaaaaaaaaaaaaaaaaaaaaaaaaaaaaaaaaaaaaaaaaaaaaaa111".toList) [] RetVal.pass, Node.leaf ("aaaaaaaaaaaaaaaaaaaaaaaaaaaaaaaaaaaaaaaaaaaaaaaaaaaaaaaaaaaaaaaaaaaaaaaaaaaaaaaaaaaaaaaaaaaaaaaaaaaaaaaaaaaaaaaaaaaaaaaaaaaaaaaaaaaaaaaaaaaaaaaaaaaaaaaaaaaaaaaaaaaaaaaaaaaaaaaaaaaaaaaaaaaaaaaaaaaaaaaaaaaaaaaaaaaaaaaaaaaaaaaaaaaaaaaaaaaa112".toList) [] RetVal.pass, Node.leaf ("aaaaaaaaaaaaaaaaaaaaaaaaaaaaaaaaaaaaaaaaaaaaaaaaaaaaaaaaaaaaaaaaaaaaaaaaaaaaaaaaaaaaaaaaaaaaaaaaaaaaaaaaaaaaaaaaaaaaaaaaaaaaaaaaaaaaaaaaaaaaaaaaaaaaaaaaaaaaaaaaaaaaaaaaaaaaaaaaaaaaaaaaaaaaaaaaaaaaaaaaaaaaaaaaaaaaaaaaaaaaaaaaaaaaaaaaaaaa113".toList) [] RetVal.pass, Node.leaf ("aaaaaaaaaaaaaaaaaaaaaaaaaaaaaaaaaaaaaaaaaaaaaaaaaaaaaaaaaaaaaaaaaaaaaaaaaaaaaaaaaaaaaaaaaaaaaaaaaaaaaaaaaaaaaaaaaaaaaaaaaaaaaaaaaaaaaaaaaaaaaaaaaaaaaaaaaaaaaaaaaaaaaaaaaaaaaaaaaaaaaaaaaaaaaaaaaaaaaaaaaaaaaaaaaaaaaaaaaaaaaaaaaaaaaaaaaaaa114".toList) [] RetVal.pass, Node.leaf ("aaaaaaaaaaaaaaaaaaaaaaaaaaaaaaaaaaaaaaaaaaaaaaaaaaaaaaaaaaaaaaaaaaaaaaaaaaaaaaaaaaaaaaaaaaaaaaaaaaaaaaaaaaaaaaaaaaaaaaaaaaaaaaaaaaaaaaaaaaaaaaaaaaaaaaaaaaaaaaaaaaaaaaaaaaaaaaaaaaaaaaaaaaaaaaaaaaaaaaaaaaaaaaaaaaaaaaaaaaaaaaaaaaaaaaaaaaaa115".toList) [] RetVal.pass]] RetVal.pass c4s3) = Out.ok RetVal.pass c4s39 :=
    (loop_step_ok RET_ROOT_TAG 35 1 (Node.branch ("B".toList) [Node.leaf ("aaaaaaaaaaaaaaaaaaaaaaaaaaaaaaaaaaaaaaaaaaaaaaaaaaaaaaaaaaaaaaaaaaaaaaaaaaaaaaaaaaaaaaaaaaaaaaaaaaaaaaaaaaaaaaaaaaaaaaaaaaaaaaaaaaaaaaaaaaaaaaaaaaaaaaaaaaaaaaaaaaaaaaaaaaaaaaaaaaaaaaaaaaaaaaaaaaaaaaaaaaaaaaaaaaaaaaaaaaaaaaaaaaaaaaaaaaaa100".toList) [] RetVal.pass, Node.leaf ("aaaaaaaaaaaaaaaaaaaaaaaaaaaaaaaaaaaaaaaaaaaaaaaaaaaaaaaaaaaaaaaaaaaaaaaaaaaaaaaaaaaaaaaaaaaaaaaaaaaaaaaaaaaaaaaaaaaaaaaaaaaaaaaaaaaaaaaaaaaaaaaaaaaaaaaaaaaaaaaaaaaaaaaaaaaaaaaaaaaaaaaaaaaaaaaaaaaaaaaaaaaaaaaaaaaaaaaaaaaaaaaaaaaaaaaaaaaa101".toList) [] RetVal.pass, Node.leaf ("aaaaaaaaaaaaaaaaaaaaaaaaaaaaaaaaaaaaaaaaaaaaaaaaaaaaaaaaaaaaaaaaaaaaaaaaaaaaaaaaaaaaaaaaaaaaaaaaaaaaaaaaaaaaaaaaaaaaaaaaaaaaaaaaaaaaaaaaaaaaaaaaaaaaaaaaaaaaaaaaaaaaaaaaaaaaaaaaaaaaaaaaaaaaaaaaaaaaaaaaaaaaaaaaaaaaaaaaaaaaaaaaaaaaaaaaaaaa102".toList) [] RetVal.pass, Node.leaf ("aaaaaaaaaaaaaaaaaaaaaaaaaaaaaaaaaaaaaaaaaaaaaaaaaaaaaaaaaaaaaaaaaaaaaaaaaaaaaaaaaaaaaaaaaaaaaaaaaaaaaaaaaaaaaaaaaaaaaaaaaaaaaaaaaaaaaaaaaaaaaaaaaaaaaaaaaaaaaaaaaaaaaaaaaaaaaaaaaaaaaaaaaaaaaaaaaaaaaaaaaaaaaaaaaaaaaaaaaaaaaaaaaaaaaaaaaaaa103".toList) [] RetVal.pass, Node.leaf ("aaaaaaaaaaaaaaaaaaaaaaaaaaaaaaaaaaaaaaaaaaaaaaaaaaaaaaaaaaaaaaaaaaaaaaaaaaaaaaaaaaaaaaaaaaaaaaaaaaaaaaaaaaaaaaaaaaaaaaaaaaaaaaaaaaaaaaaaaaaaaaaaaaaaaaaaaaaaaaaaaaaaaaaaaaaaaaaaaaaaaaaaaaaaaaaaaaaaaaaaaaaaaaaaaaaaaaaaaaaaaaaaaaaaaaaaaaaa104".toList) [] RetVal.pass, Node.leaf ("aaaaaaaaaaaaaaaaaaaaaaaaaaaaaaaaaaaaaaaaaaaaaaaaaaaaaaaaaaaaaaaaaaaaaaaaaaaaaaaaaaaaaaaaaaaaaaaaaaaaaaaaaaaaaaaaaaaaaaaaaaaaaaaaaaaaaaaaaaaaaaaaaaaaaaaaaaaaaaaaaaaaaaaaaaaaaaaaaaaaaaaaaaaaaaaaaaaaaaaaaaaaaaaaaaaaaaaaaaaaaaaaaaaaaaaaaaaa105".toList) [] RetVal.pass, Node.leaf ("aaaaaaaaaaaaaaaaaaaaaaaaaaaaaaaaaaaaaaaaaaaaaaaaaaaaaaaaaaaaaaaaaaaaaaaaaaaaaaaaaaaaaaaaaaaaaaaaaaaaaaaaaaaaaaaaaaaaaaaaaaaaaaaaaaaaaaaaaaaaaaaaaaaaaaaaaaaaaaaaaaaaaaaaaaaaaaaaaaaaaaaaaaaaaaaaaaaaaaaaaaaaaaaaaaaaaaaaaaaaaaaaaaaaaaaaaaaa106".toList) [] RetVal.pass, Node.leaf ("aaaaaaaaaaaaaaaaaaaaaaaaaaaaaaaaaaaaaaaaaaaaaaaaaaaaaaaaaaaaaaaaaaaaaaaaaaaaaaaaaaaaaaaaaaaaaaaaaaaaaaaaaaaaaaaaaaaaaaaaaaaaaaaaaaaaaaaaaaaaaaaaaaaaaaaaaaaaaaaaaaaaaaaaaaaaaaaaaaaaaaaaaaaaaaaaaaaaaaaaaaaaaaaaaaaaaaaaaaaaaaaaaaaaaaaaaaaa107".toList) [] RetVal.pass, Node.leaf ("aaaaaaaaaaaaaaaaaaaaaaaaaaaaaaaaaaaaaaaaaaaaaaaaaaaaaaaaaaaaaaaaaaaaaaaaaaaaaaaaaaaaaaaaaaaaaaaaaaaaaaaaaaaaaaaaaaaaaaaaaaaaaaaaaaaaaaaaaaaaaaaaaaaaaaaaaaaaaaaaaaaaaaaaaaaaaaaaaaaaaaaaaaaaaaaaaaaaaaaaaaaaaaaaaaaaaaaaaaaaaaaaaaaaaaaaaaaa108".toList) [] RetVal.pass, Node.leaf ("aaaaaaaaaaaaaaaaaaaaaaaaaaaaaaaaaaaaaaaaaaaaaaaaaaaaaaaaaaaaaaaaaaaaaaaaaaaaaaaaaaaaaaaaaaaaaaaaaaaaaaaaaaaaaaaaaaaaaaaaaaaaaaaaaaaaaaaaaaaaaaaaaaaaaaaaaaaaaaaaaaaaaaaaaaaaaaaaaaaaaaaaaaaaaaaaaaaaaaaaaaaaaaaaaaaaaaaaaaaaaaaaaaaaaaaaaaaa109".toList) [] RetVal.pass, Node.leaf ("aaaaaaaaaaaaaaaaaaaaaaaaaaaaaaaaaaaaaaaaaaaaaaaaaaaaaaaaaaaaaaaaaaaaaaaaaaaaaaaaaaaaaaaaaaaaaaaaaaaaaaaaaaaaaaaaaaaaaaaaaaaaaaaaaaaaaaaaaaaaaaaaaaaaaaaaaaaaaaaaaaaaaaaaaaaaaaaaaaaaaaaaaaaaaaaaaaaaaaaaaaaaaaaaaaaaaaaaaaaaaaaaaaaaaaaaaaaa110".toList) [] RetVal.pass, Node.leaf ("aaaaaaaaaaaaaaaaaaaaaaaaaaaaaaaaaaaaaaaaaaaaaaaaaaaaaaaaaaaaaaaaaaaaaaaaaaaaaaaaaaaaaaaaaaaaaaaaaaaaaaaaaaaaaaaaaaaaaaaaaaaaaaaaaaaaaaaaaaaaaaaaaaaaaaaaaaaaaaaaaaaaaaaaaaaaaaaaaaaaaaaaaaaaaaaaaaaaaaaaaaaaaaaaaaaaaaaaaaaaaaaaaaaaaaaaaaaa111".toList) [] RetVal.pass, Node.leaf ("aaaaaaaaaaaaaaaaaaaaaaaaaaaaaaaaaaaaaaaaaaaaaaaaaaaaaaaaaaaaaaaaaaaaaaaaaaaaaaaaaaaaaaaaaaaaaaaaaaaaaaaaaaaaaaaaaaaaaaaaaaaaaaaaaaaaaaaaaaaaaaaaaaaaaaaaaaaaaaaaaaaaaaaaaaaaaaaaaaaaaaaaaaaaaaaaaaaaaaaaaaaaaaaaaaaaaaaaaaaaaaaaaaaaaaaaaaaa112".toList) [] RetVal.pass, Node.leaf ("aaaaaaaaaaaaaaaaaaaaaaaaaaaaaaaaaaaaaaaaaaaaaaaaaaaaaaaaaaaaaaaaaaaaaaaaaaaaaaaaaaaaaaaaaaaaaaaaaaaaaaaaaaaaaaaaaaaaaaaaaaaaaaaaaaaaaaaaaaaaaaaaaaaaaaaaaaaaaaaaaaaaaaaaaaaaaaaaaaaaaaaaaaaaaaaaaaaaaaaaaaaaaaaaaaaaaaaaaaaaaaaaaaaaaaaaaaaa113".toList) [] RetVal.pass, Node.leaf ("aaaaaaaaaaaaaaaaaaaaaaaaaaaaaaaaaaaaaaaaaaaaaaaaaaaaaaaaaaaaaaaaaaaaaaaaaaaaaaaaaaaaaaaaaaaaaaaaaaaaaaaaaaaaaaaaaaaaaaaaaaaaaaaaaaaaaaaaaaaaaaaaaaaaaaaaaaaaaaaaaaaaaaaaaaaaaaaaaaaaaaaaaaaaaaaaaaaaaaaaaaaaaaaaaaaaaaaaaaaaaaaaaaaaaaaaaaaa114".toList) [] RetVal.pass, Node.leaf ("aaaaaaaaaaaaaaaaaaaaaaaaaaaaaaaaaaaaaaaaaaaaaaaaaaaaaaaaaaaaaaaaaaaaaaaaaaaaaaaaaaaaaaaaaaaaaaaaaaaaaaaaaaaaaaaaaaaaaaaaaaaaaaaaaaaaaaaaaaaaaaaaaaaaaaaaaaaaaaaaaaaaaaaaaaaaaaaaaaaaaaaaaaaaaaaaaaaaaaaaaaaaaaaaaaaaaaaaaaaaaaaaaaaaaaaaaaaa115".toList) [] RetVal.pass]) [] RetVal.pass RetVal.pass c4s3 c4s38 e50).trans e52
  have e54 : step RET_ROOT_TAG 37 (.list [Node.branch ("B".toList) [Node.leaf ("aaaaaaaaaaaaaaaaaaaaaaaaaaaaaaaaaaaaaaaaaaaaaaaaaaaaaaaaaaaaaaaaaaaaaaaaaaaaaaaaaaaaaaaaaaaaaaaaaaaaaaaaaaaaaaaaaaaaaaaaaaaaaaaaaaaaaaaaaaaaaaaaaaaaaaaaaaaaaaaaaaaaaaaaaaaaaaaaaaaaaaaaaaaaaaaaaaaaaaaaaaaaaaaaaaaaaaaaaaaaaaaaaaaaaaaaaaaa100".toList) [] RetVal.pass, Node.leaf ("aaaaaaaaaaaaaaaaaaaaaaaaaaaaaaaaaaaaaaaaaaaaaaaaaaaaaaaaaaaaaaaaaaaaaaaaaaaaaaaaaaaaaaaaaaaaaaaaaaaaaaaaaaaaaaaaaaaaaaaaaaaaaaaaaaaaaaaaaaaaaaaaaaaaaaaaaaaaaaaaaaaaaaaaaaaaaaaaaaaaaaaaaaaaaaaaaaaaaaaaaaaaaaaaaaaaaaaaaaaaaaaaaaaaaaaaaaaa101".toList) [] RetVal.pass, Node.leaf ("aaaaaaaaaaaaaaaaaaaaaaaaaaaaaaaaaaaaaaaaaaaaaaaaaaaaaaaaaaaaaaaaaaaaaaaaaaaaaaaaaaaaaaaaaaaaaaaaaaaaaaaaaaaaaaaaaaaaaaaaaaaaaaaaaaaaaaaaaaaaaaaaaaaaaaaaaaaaaaaaaaaaaaaaaaaaaaaaaaaaaaaaaaaaaaaaaaaaaaaaaaaaaaaaaaaaaaaaaaaaaaaaaaaaaaaaaaaa102".toList) [] RetVal.pass, Node.leaf ("aaaaaaaaaaaaaaaaaaaaaaaaaaaaaaaaaaaaaaaaaaaaaaaaaaaaaaaaaaaaaaaaaaaaaaaaaaaaaaaaaaaaaaaaaaaaaaaaaaaaaaaaaaaaaaaaaaaaaaaaaaaaaaaaaaaaaaaaaaaaaaaaaaaaaaaaaaaaaaaaaaaaaaaaaaaaaaaaaaaaaaaaaaaaaaaaaaaaaaaaaaaaaaaaaaaaaaaaaaaaaaaaaaaaaaaaaaaa103".toList) [] RetVal.pass, Node.leaf ("aaaaaaaaaaaaaaaaaaaaaaaaaaaaaaaaaaaaaaaaaaaaaaaaaaaaaaaaaaaaaaaaaaaaaaaaaaaaaaaaaaaaaaaaaaaaaaaaaaaaaaaaaaaaaaaaaaaaaaaaaaaaaaaaaaaaaaaaaaaaaaaaaaaaaaaaaaaaaaaaaaaaaaaaaaaaaaaaaaaaaaaaaaaaaaaaaaaaaaaaaaaaaaaaaaaaaaaaaaaaaaaaaaaaaaaaaaaa104".toList) [] RetVal.pass, Node.leaf ("aaaaaaaaaaaaaaaaaaaaaaaaaaaaaaaaaaaaaaaaaaaaaaaaaaaaaaaaaaaaaaaaaaaaaaaaaaaaaaaaaaaaaaaaaaaaaaaaaaaaaaaaaaaaaaaaaaaaaaaaaaaaaaaaaaaaaaaaaaaaaaaaaaaaaaaaaaaaaaaaaaaaaaaaaaaaaaaaaaaaaaaaaaaaaaaaaaaaaaaaaaaaaaaaaaaaaaaaaaaaaaaaaaaaaaaaaaaa105".toList) [] RetVal.pass, Node.leaf ("aaaaaaaaaaaaaaaaaaaaaaaaaaaaaaaaaaaaaaaaaaaaaaaaaaaaaaaaaaaaaaaaaaaaaaaaaaaaaaaaaaaaaaaaaaaaaaaaaaaaaaaaaaaaaaaaaaaaaaaaaaaaaaaaaaaaaaaaaaaaaaaaaaaaaaaaaaaaaaaaaaaaaaaaaaaaaaaaaaaaaaaaaaaaaaaaaaaaaaaaaaaaaaaaaaaaaaaaaaaaaaaaaaaaaaaaaaaa106".toList) [] RetVal.pass, Node.leaf ("aaaaaaaaaaaaaaaaaaaaaaaaaaaaaaaaaaaaaaaaaaaaaaaaaaaaaaaaaaaaaaaaaaaaaaaaaaaaaaaaaaaaaaaaaaaaaaaaaaaaaaaaaaaaaaaaaaaaaaaaaaaaaaaaaaaaaaaaaaaaaaaaaaaaaaaaaaaaaaaaaaaaaaaaaaaaaaaaaaaaaaaaaaaaaaaaaaaaaaaaaaaaaaaaaaaaaaaaaaaaaaaaaaaaaaaaaaaa107".toList) [] RetVal.pass, Node.leaf ("aaaaaaaaaaaaaaaaaaaaaaaaaaaaaaaaaaaaaaaaaaaaaaaaaaaaaaaaaaaaaaaaaaaaaaaaaaaaaaaaaaaaaaaaaaaaaaaaaaaaaaaaaaaaaaaaaaaaaaaaaaaaaaaaaaaaaaaaaaaaaaaaaaaaaaaaaaaaaaaaaaaaaaaaaaaaaaaaaaaaaaaaaaaaaaaaaaaaaaaaaaaaaaaaaaaaaaaaaaaaaaaaaaaaaaaaaaaa108".toList) [] RetVal.pass, Node.leaf ("aaaaaaaaaaaaaaaaaaaaaaaaaaaaaaaaaaaaaaaaaaaaaaaaaaaaaaaaaaaaaaaaaaaaaaaaaaaaaaaaaaaaaaaaaaaaaaaaaaaaaaaaaaaaaaaaaaaaaaaaaaaaaaaaaaaaaaaaaaaaaaaaaaaaaaaaaaaaaaaaaaaaaaaaaaaaaaaaaaaaaaaaaaaaaaaaaaaaaaaaaaaaaaaaaaaaaaaaaaaaaaaaaaaaaaaaaaaa109".toList) [] RetVal.pass, Node.leaf ("aaaaaaaaaaaaaaaaaaaaaaaaaaaaaaaaaaaaaaaaaaaaaaaaaaaaaaaaaaaaaaaaaaaaaaaaaaaaaaaaaaaaaaaaaaaaaaaaaaaaaaaaaaaaaaaaaaaaaaaaaaaaaaaaaaaaaaaaaaaaaaaaaaaaaaaaaaaaaaaaaaaaaaaaaaaaaaaaaaaaaaaaaaaaaaaaaaaaaaaaaaaaaaaaaaaaaaaaaaaaaaaaaaaaaaaaaaaa110".toList) [] RetVal.pass, Node.leaf ("aaaaaaaaaaaaaaaaaaaaaaaaaaaaaaaaaaaaaaaaaaaaaaaaaaaaaaaaaaaaaaaaaaaaaaaaaaaaaaaaaaaaaaaaaaaaaaaaaaaaaaaaaaaaaaaaaaaaaaaaaaaaaaaaaaaaaaaaaaaaaaaaaaaaaaaaaaaaaaaaaaaaaaaaaaaaaaaaaaaaaaaaaaaaaaaaaaaaaaaaaaaaaaaaaaaaaaaaaaaaaaaaaaaaaaaaaaaa111".toList) [] RetVal.pass, Node.leaf ("aaaaaaaaaaaaaaaaaaaaaaaaaaaaaaaaaaaaaaaaaaaaaaaaaaaaaaaaaaaaaaaaaaaaaaaaaaaaaaaaaaaaaaaaaaaaaaaaaaaaaaaaaaaaaaaaaaaaaaaaaaaaaaaaaaaaaaaaaaaaaaaaaaaaaaaaaaaaaaaaaaaaaaaaaaaaaaaaaaaaaaaaaaaaaaaaaaaaaaaaaaaaaaaaaaaaaaaaaaaaaaaaaaaaaaaaaaaa112".toList) [] RetVal.pass, Node.leaf ("aaaaaaaaaaaaaaaaaaaaaaaaaaaaaaaaaaaaaaaaaaaaaaaaaaaaaaaaaaaaaaaaaaaaaaaaaaaaaaaaaaaaaaaaaaaaaaaaaaaaaaaaaaaaaaaaaaaaaaaaaaaaaaaaaaaaaaaaaaaaaaaaaaaaaaaaaaaaaaaaaaaaaaaaaaaaaaaaaaaaaaaaaaaaaaaaaaaaaaaaaaaaaaaaaaaaaaaaaaaaaaaaaaaaaaaaaaaa113".toList) [] RetVal.pass, Node.leaf ("aaaaaaaaaaaaaaaaaaaaaaaaaaaaaaaaaaaaaaaaaaaaaaaaaaaaaaaaaaaaaaaaaaaaaaaaaaaaaaaaaaaaaaaaaaaaaaaaaaaaaaaaaaaaaaaaaaaaaaaaaaaaaaaaaaaaaaaaaaaaaaaaaaaaaaaaaaaaaaaaaaaaaaaaaaaaaaaaaaaaaaaaaaaaaaaaaaaaaaaaaaaaaaaaaaaaaaaaaaaaaaaaaaaaaaaaaaaa114".toList) [] RetVal.pass, Node.leaf ("aaaaaaaaaaaaaaaaaaaaaaaaaaaaaaaaaaaaaaaaaaaaaaaaaaaaaaaaaaaaaaaaaaaaaaaaaaaaaaaaaaaaaaaaaaaaaaaaaaaaaaaaaaaaaaaaaaaaaaaaaaaaaaaaaaaaaaaaaaaaaaaaaaaaaaaaaaaaaaaaaaaaaaaaaaaaaaaaaaaaaaaaaaaaaaaaaaaaaaaaaaaaaaaaaaaaaaaaaaaaaaaaaaaaaaaaaaaa115".toList) [] RetVal.pass]] c4s2) = Out.ok RetVal.pass c4s40 :=
    (list_step_out_ok RET_ROOT_TAG 36 [Node.branch ("B".toList) [Node.leaf ("aaaaaaaaaaaaaaaaaaaaaaaaaaaaaaaaaaaaaaaaaaaaaaaaaaaaaaaaaaaaaaaaaaaaaaaaaaaaaaaaaaaaaaaaaaaaaaaaaaaaaaaaaaaaaaaaaaaaaaaaaaaaaaaaaaaaaaaaaaaaaaaaaaaaaaaaaaaaaaaaaaaaaaaaaaaaaaaaaaaaaaaaaaaaaaaaaaaaaaaaaaaaaaaaaaaaaaaaaaaaaaaaaaaaaaaaaaaa100".toList) [] RetVal.pass, Node.leaf ("aaaaaaaaaaaaaaaaaaaaaaaaaaaaaaaaaaaaaaaaaaaaaaaaaaaaaaaaaaaaaaaaaaaaaaaaaaaaaaaaaaaaaaaaaaaaaaaaaaaaaaaaaaaaaaaaaaaaaaaaaaaaaaaaaaaaaaaaaaaaaaaaaaaaaaaaaaaaaaaaaaaaaaaaaaaaaaaaaaaaaaaaaaaaaaaaaaaaaaaaaaaaaaaaaaaaaaaaaaaaaaaaaaaaaaaaaaaa101".toList) [] RetVal.pass, Node.leaf ("aaaaaaaaaaaaaaaaaaaaaaaaaaaaaaaaaaaaaaaaaaaaaaaaaaaaaaaaaaaaaaaaaaaaaaaaaaaaaaaaaaaaaaaaaaaaaaaaaaaaaaaaaaaaaaaaaaaaaaaaaaaaaaaaaaaaaaaaaaaaaaaaaaaaaaaaaaaaaaaaaaaaaaaaaaaaaaaaaaaaaaaaaaaaaaaaaaaaaaaaaaaaaaaaaaaaaaaaaaaaaaaaaaaaaaaaaaaa102".toList) [] RetVal.pass, Node.leaf ("aaaaaaaaaaaaaaaaaaaaaaaaaaaaaaaaaaaaaaaaaaaaaaaaaaaaaaaaaaaaaaaaaaaaaaaaaaaaaaaaaaaaaaaaaaaaaaaaaaaaaaaaaaaaaaaaaaaaaaaaaaaaaaaaaaaaaaaaaaaaaaaaaaaaaaaaaaaaaaaaaaaaaaaaaaaaaaaaaaaaaaaaaaaaaaaaaaaaaaaaaaaaaaaaaaaaaaaaaaaaaaaaaaaaaaaaaaaa103".toList) [] RetVal.pass, Node.leaf ("aaaaaaaaaaaaaaaaaaaaaaaaaaaaaaaaaaaaaaaaaaaaaaaaaaaaaaaaaaaaaaaaaaaaaaaaaaaaaaaaaaaaaaaaaaaaaaaaaaaaaaaaaaaaaaaaaaaaaaaaaaaaaaaaaaaaaaaaaaaaaaaaaaaaaaaaaaaaaaaaaaaaaaaaaaaaaaaaaaaaaaaaaaaaaaaaaaaaaaaaaaaaaaaaaaaaaaaaaaaaaaaaaaaaaaaaaaaa104".toList) [] RetVal.pass, Node.leaf ("aaaaaaaaaaaaaaaaaaaaaaaaaaaaaaaaaaaaaaaaaaaaaaaaaaaaaaaaaaaaaaaaaaaaaaaaaaaaaaaaaaaaaaaaaaaaaaaaaaaaaaaaaaaaaaaaaaaaaaaaaaaaaaaaaaaaaaaaaaaaaaaaaaaaaaaaaaaaaaaaaaaaaaaaaaaaaaaaaaaaaaaaaaaaaaaaaaaaaaaaaaaaaaaaaaaaaaaaaaaaaaaaaaaaaaaaaaaa105".toList) [] RetVal.pass, Node.leaf ("aaaaaaaaaaaaaaaaaaaaaaaaaaaaaaaaaaaaaaaaaaaaaaaaaaaaaaaaaaaaaaaaaaaaaaaaaaaaaaaaaaaaaaaaaaaaaaaaaaaaaaaaaaaaaaaaaaaaaaaaaaaaaaaaaaaaaaaaaaaaaaaaaaaaaaaaaaaaaaaaaaaaaaaaaaaaaaaaaaaaaaaaaaaaaaaaaaaaaaaaaaaaaaaaaaaaaaaaaaaaaaaaaaaaaaaaaaaa106".toList) [] RetVal.pass, Node.leaf ("aaaaaaaaaaaaaaaaaaaaaaaaaaaaaaaaaaaaaaaaaaaaaaaaaaaaaaaaaaaaaaaaaaaaaaaaaaaaaaaaaaaaaaaaaaaaaaaaaaaaaaaaaaaaaaaaaaaaaaaaaaaaaaaaaaaaaaaaaaaaaaaaaaaaaaaaaaaaaaaaaaaaaaaaaaaaaaaaaaaaaaaaaaaaaaaaaaaaaaaaaaaaaaaaaaaaaaaaaaaaaaaaaaaaaaaaaaaa107".toList) [] RetVal.pass, Node.leaf ("aaaaaaaaaaaaaaaaaaaaaaaaaaaaaaaaaaaaaaaaaaaaaaaaaaaaaaaaaaaaaaaaaaaaaaaaaaaaaaaaaaaaaaaaaaaaaaaaaaaaaaaaaaaaaaaaaaaaaaaaaaaaaaaaaaaaaaaaaaaaaaaaaaaaaaaaaaaaaaaaaaaaaaaaaaaaaaaaaaaaaaaaaaaaaaaaaaaaaaaaaaaaaaaaaaaaaaaaaaaaaaaaaaaaaaaaaaaa108".toList) [] RetVal.pass, Node.leaf ("aaaaaaaaaaaaaaaaaaaaaaaaaaaaaaaaaaaaaaaaaaaaaaaaaaaaaaaaaaaaaaaaaaaaaaaaaaaaaaaaaaaaaaaaaaaaaaaaaaaaaaaaaaaaaaaaaaaaaaaaaaaaaaaaaaaaaaaaaaaaaaaaaaaaaaaaaaaaaaaaaaaaaaaaaaaaaaaaaaaaaaaaaaaaaaaaaaaaaaaaaaaaaaaaaaaaaaaaaaaaaaaaaaaaaaaaaaaa109".toList) [] RetVal.pass, Node.leaf ("aaaaaaaaaaaaaaaaaaaaaaaaaaaaaaaaaaaaaaaaaaaaaaaaaaaaaaaaaaaaaaaaaaaaaaaaaaaaaaaaaaaaaaaaaaaaaaaaaaaaaaaaaaaaaaaaaaaaaaaaaaaaaaaaaaaaaaaaaaaaaaaaaaaaaaaaaaaaaaaaaaaaaaaaaaaaaaaaaaaaaaaaaaaaaaaaaaaaaaaaaaaaaaaaaaaaaaaaaaaaaaaaaaaaaaaaaaaa110".toList) [] RetVal.pass, Node.leaf ("aaaaaaaaaaaaaaaaaaaaaaaaaaaaaaaaaaaaaaaaaaaaaaaaaaaaaaaaaaaaaaaaaaaaaaaaaaaaaaaaaaaaaaaaaaaaaaaaaaaaaaaaaaaaaaaaaaaaaaaaaaaaaaaaaaaaaaaaaaaaaaaaaaaaaaaaaaaaaaaaaaaaaaaaaaaaaaaaaaaaaaaaaaaaaaaaaaaaaaaaaaaaaaaaaaaaaaaaaaaaaaaaaaaaaaaaaaaa111".toList) [] RetVal.pass, Node.leaf ("aaaaaaaaaaaaaaaaaaaaaaaaaaaaaaaaaaaaaaaaaaaaaaaaaaaaaaaaaaaaaaaaaaaaaaaaaaaaaaaaaaaaaaaaaaaaaaaaaaaaaaaaaaaaaaaaaaaaaaaaaaaaaaaaaaaaaaaaaaaaaaaaaaaaaaaaaaaaaaaaaaaaaaaaaaaaaaaaaaaaaaaaaaaaaaaaaaaaaaaaaaaaaaaaaaaaaaaaaaaaaaaaaaaaaaaaaaaa112".toList) [] RetVal.pass, Node.leaf ("aaaaaaaaaaaaaaaaaaaaaaaaaaaaaaaaaaaaaaaaaaaaaaaaaaaaaaaaaaaaaaaaaaaaaaaaaaaaaaaaaaaaaaaaaaaaaaaaaaaaaaaaaaaaaaaaaaaaaaaaaaaaaaaaaaaaaaaaaaaaaaaaaaaaaaaaaaaaaaaaaaaaaaaaaaaaaaaaaaaaaaaaaaaaaaaaaaaaaaaaaaaaaaaaaaaaaaaaaaaaaaaaaaaaaaaaaaaa113".toList) [] RetVal.pass, Node.leaf ("aaaaaaaaaaaaaaaaaaaaaaaaaaaaaaaaaaaaaaaaaaaaaaaaaaaaaaaaaaaaaaaaaaaaaaaaaaaaaaaaaaaaaaaaaaaaaaaaaaaaaaaaaaaaaaaaaaaaaaaaaaaaaaaaaaaaaaaaaaaaaaaaaaaaaaaaaaaaaaaaaaaaaaaaaaaaaaaaaaaaaaaaaaaaaaaaaaaaaaaaaaaaaaaaaaaaaaaaaaaaaaaaaaaaaaaaaaaa114".toList) [] RetVal.pass, Node.leaf ("aaaaaaaaaaaaaaaaaaaaaaaaaaaaaaaaaaaaaaaaaaaaaaaaaaaaaaaaaaaaaaaaaaaaaaaaaaaaaaaaaaaaaaaaaaaaaaaaaaaaaaaaaaaaaaaaaaaaaaaaaaaaaaaaaaaaaaaaaaaaaaaaaaaaaaaaaaaaaaaaaaaaaaaaaaaaaaaaaaaaaaaaaaaaaaaaaaaaaaaaaaaaaaaaaaaaaaaaaaaaaaaaaaaaaaaaaaaa115".toList) [] RetVal.pass]] c4s2 RetVal.pass c4s39 (by decide) e53).trans rfl
  have e55 : step RET_ROOT_TAG 38 (.enter (Node.branch RET_ROOT_TAG bigTree) c4s1) = Out.ok RetVal.pass c4s40 :=
    (enter_branch_ok RET_ROOT_TAG 37 ("ROOT".toList) [Node.branch ("B".toList) [Node.leaf ("aaaaaaaaaaaaaaaaaaaaaaaaaaaaaaaaaaaaaaaaaaaaaaaaaaaaaaaaaaaaaaaaaaaaaaaaaaaaaaaaaaaaaaaaaaaaaaaaaaaaaaaaaaaaaaaaaaaaaaaaaaaaaaaaaaaaaaaaaaaaaaaaaaaaaaaaaaaaaaaaaaaaaaaaaaaaaaaaaaaaaaaaaaaaaaaaaaaaaaaaaaaaaaaaaaaaaaaaaaaaaaaaaaaaaaaaaaaa100".toList) [] RetVal.pass, Node.leaf ("aaaaaaaaaaaaaaaaaaaaaaaaaaaaaaaaaaaaaaaaaaaaaaaaaaaaaaaaaaaaaaaaaaaaaaaaaaaaaaaaaaaaaaaaaaaaaaaaaaaaaaaaaaaaaaaaaaaaaaaaaaaaaaaaaaaaaaaaaaaaaaaaaaaaaaaaaaaaaaaaaaaaaaaaaaaaaaaaaaaaaaaaaaaaaaaaaaaaaaaaaaaaaaaaaaaaaaaaaaaaaaaaaaaaaaaaaaaa101".toList) [] RetVal.pass, Node.leaf ("aaaaaaaaaaaaaaaaaaaaaaaaaaaaaaaaaaaaaaaaaaaaaaaaaaaaaaaaaaaaaaaaaaaaaaaaaaaaaaaaaaaaaaaaaaaaaaaaaaaaaaaaaaaaaaaaaaaaaaaaaaaaaaaaaaaaaaaaaaaaaaaaaaaaaaaaaaaaaaaaaaaaaaaaaaaaaaaaaaaaaaaaaaaaaaaaaaaaaaaaaaaaaaaaaaaaaaaaaaaaaaaaaaaaaaaaaaaa102".toList) [] RetVal.pass, Node.leaf ("aaaaaaaaaaaaaaaaaaaaaaaaaaaaaaaaaaaaaaaaaaaaaaaaaaaaaaaaaaaaaaaaaaaaaaaaaaaaaaaaaaaaaaaaaaaaaaaaaaaaaaaaaaaaaaaaaaaaaaaaaaaaaaaaaaaaaaaaaaaaaaaaaaaaaaaaaaaaaaaaaaaaaaaaaaaaaaaaaaaaaaaaaaaaaaaaaaaaaaaaaaaaaaaaaaaaaaaaaaaaaaaaaaaaaaaaaaaa103".toList) [] RetVal.pass, Node.leaf ("aaaaaaaaaaaaaaaaaaaaaaaaaaaaaaaaaaaaaaaaaaaaaaaaaaaaaaaaaaaaaaaaaaaaaaaaaaaaaaaaaaaaaaaaaaaaaaaaaaaaaaaaaaaaaaaaaaaaaaaaaaaaaaaaaaaaaaaaaaaaaaaaaaaaaaaaaaaaaaaaaaaaaaaaaaaaaaaaaaaaaaaaaaaaaaaaaaaaaaaaaaaaaaaaaaaaaaaaaaaaaaaaaaaaaaaaaaaa104".toList) [] RetVal.pass, Node.leaf ("aaaaaaaaaaaaaaaaaaaaaaaaaaaaaaaaaaaaaaaaaaaaaaaaaaaaaaaaaaaaaaaaaaaaaaaaaaaaaaaaaaaaaaaaaaaaaaaaaaaaaaaaaaaaaaaaaaaaaaaaaaaaaaaaaaaaaaaaaaaaaaaaaaaaaaaaaaaaaaaaaaaaaaaaaaaaaaaaaaaaaaaaaaaaaaaaaaaaaaaaaaaaaaaaaaaaaaaaaaaaaaaaaaaaaaaaaaaa105".toList) [] RetVal.pass, Node.leaf ("aaaaaaaaaaaaaaaaaaaaaaaaaaaaaaaaaaaaaaaaaaaaaaaaaaaaaaaaaaaaaaaaaaaaaaaaaaaaaaaaaaaaaaaaaaaaaaaaaaaaaaaaaaaaaaaaaaaaaaaaaaaaaaaaaaaaaaaaaaaaaaaaaaaaaaaaaaaaaaaaaaaaaaaaaaaaaaaaaaaaaaaaaaaaaaaaaaaaaaaaaaaaaaaaaaaaaaaaaaaaaaaaaaaaaaaaaaaa106".toList) [] RetVal.pass, Node.leaf ("aaaaaaaaaaaaaaaaaaaaaaaaaaaaaaaaaaaaaaaaaaaaaaaaaaaaaaaaaaaaaaaaaaaaaaaaaaaaaaaaaaaaaaaaaaaaaaaaaaaaaaaaaaaaaaaaaaaaaaaaaaaaaaaaaaaaaaaaaaaaaaaaaaaaaaaaaaaaaaaaaaaaaaaaaaaaaaaaaaaaaaaaaaaaaaaaaaaaaaaaaaaaaaaaaaaaaaaaaaaaaaaaaaaaaaaaaaaa107".toList) [] RetVal.pass, Node.leaf ("aaaaaaaaaaaaaaaaaaaaaaaaaaaaaaaaaaaaaaaaaaaaaaaaaaaaaaaaaaaaaaaaaaaaaaaaaaaaaaaaaaaaaaaaaaaaaaaaaaaaaaaaaaaaaaaaaaaaaaaaaaaaaaaaaaaaaaaaaaaaaaaaaaaaaaaaaaaaaaaaaaaaaaaaaaaaaaaaaaaaaaaaaaaaaaaaaaaaaaaaaaaaaaaaaaaaaaaaaaaaaaaaaaaaaaaaaaaa108".toList) [] RetVal.pass, Node.leaf ("aaaaaaaaaaaaaaaaaaaaaaaaaaaaaaaaaaaaaaaaaaaaaaaaaaaaaaaaaaaaaaaaaaaaaaaaaaaaaaaaaaaaaaaaaaaaaaaaaaaaaaaaaaaaaaaaaaaaaaaaaaaaaaaaaaaaaaaaaaaaaaaaaaaaaaaaaaaaaaaaaaaaaaaaaaaaaaaaaaaaaaaaaaaaaaaaaaaaaaaaaaaaaaaaaaaaaaaaaaaaaaaaaaaaaaaaaaaa109".toList) [] RetVal.pass, Node.leaf ("aaaaaaaaaaaaaaaaaaaaaaaaaaaaaaaaaaaaaaaaaaaaaaaaaaaaaaaaaaaaaaaaaaaaaaaaaaaaaaaaaaaaaaaaaaaaaaaaaaaaaaaaaaaaaaaaaaaaaaaaaaaaaaaaaaaaaaaaaaaaaaaaaaaaaaaaaaaaaaaaaaaaaaaaaaaaaaaaaaaaaaaaaaaaaaaaaaaaaaaaaaaaaaaaaaaaaaaaaaaaaaaaaaaaaaaaaaaa110".toList) [] RetVal.pass, Node.leaf ("aaaaaaaaaaaaaaaaaaaaaaaaaaaaaaaaaaaaaaaaaaaaaaaaaaaaaaaaaaaaaaaaaaaaaaaaaaaaaaaaaaaaaaaaaaaaaaaaaaaaaaaaaaaaaaaaaaaaaaaaaaaaaaaaaaaaaaaaaaaaaaaaaaaaaaaaaaaaaaaaaaaaaaaaaaaaaaaaaaaaaaaaaaaaaaaaaaaaaaaaaaaaaaaaaaaaaaaaaaaaaaaaaaaaaaaaaaaa111".toList) [] RetVal.pass, Node.leaf ("aaaaaaaaaaaaaaaaaaaaaaaaaaaaaaaaaaaaaaaaaaaaaaaaaaaaaaaaaaaaaaaaaaaaaaaaaaaaaaaaaaaaaaaaaaaaaaaaaaaaaaaaaaaaaaaaaaaaaaaaaaaaaaaaaaaaaaaaaaaaaaaaaaaaaaaaaaaaaaaaaaaaaaaaaaaaaaaaaaaaaaaaaaaaaaaaaaaaaaaaaaaaaaaaaaaaaaaaaaaaaaaaaaaaaaaaaaaa112".toList) [] RetVal.pass, Node.leaf ("aaaaaaaaaaaaaaaaaaaaaaaaaaaaaaaaaaaaaaaaaaaaaaaaaaaaaaaaaaaaaaaaaaaaaaaaaaaaaaaaaaaaaaaaaaaaaaaaaaaaaaaaaaaaaaaaaaaaaaaaaaaaaaaaaaaaaaaaaaaaaaaaaaaaaaaaaaaaaaaaaaaaaaaaaaaaaaaaaaaaaaaaaaaaaaaaaaaaaaaaaaaaaaaaaaaaaaaaaaaaaaaaaaaaaaaaaaaa113".toList) [] RetVal.pass, Node.leaf ("aaaaaaaaaaaaaaaaaaaaaaaaaaaaaaaaaaaaaaaaaaaaaaaaaaaaaaaaaaaaaaaaaaaaaaaaaaaaaaaaaaaaaaaaaaaaaaaaaaaaaaaaaaaaaaaaaaaaaaaaaaaaaaaaaaaaaaaaaaaaaaaaaaaaaaaaaaaaaaaaaaaaaaaaaaaaaaaaaaaaaaaaaaaaaaaaaaaaaaaaaaaaaaaaaaaaaaaaaaaaaaaaaaaaaaaaaaaa114".toList) [] RetVal.pass, Node.leaf ("aaaaaaaaaaaaaaaaaaaaaaaaaaaaaaaaaaaaaaaaaaaaaaaaaaaaaaaaaaaaaaaaaaaaaaaaaaaaaaaaaaaaaaaaaaaaaaaaaaaaaaaaaaaaaaaaaaaaaaaaaaaaaaaaaaaaaaaaaaaaaaaaaaaaaaaaaaaaaaaaaaaaaaaaaaaaaaaaaaaaaaaaaaaaaaaaaaaaaaaaaaaaaaaaaaaaaaaaaaaaaaaaaaaaaaaaaaaa115".toList) [] RetVal.pass]] c4s1 (by decide)).trans
      (by rw [show enterState RET_ROOT_TAG ("ROOT".toList) c4s1 = c4s2 from rfl]; exact e54)
  have e56 : step RET_ROOT_TAG 37 (.loop 0 [] RetVal.pass c4s41) = Out.ok RetVal.pass c4s41 :=
    loop_nil RET_ROOT_TAG 36 0 RetVal.pass c4s41
  have e57 : step RET_ROOT_TAG 38 (.handle 0 [] RetVal.pass RetVal.pass c4s40) = Out.ok RetVal.pass c4s41 :=
    (handle_step_exit_ok RET_ROOT_TAG 37 0 [] RetVal.pass RetVal.pass c4s40 c4s41 (rfl)).trans e56
  have e58 : step RET_ROOT_TAG 39 (.loop 0 [Node.branch RET_ROOT_TAG bigTree] RetVal.pass c4s1) = Out.ok RetVal.pass c4s41 :=
    (loop_step_ok RET_ROOT_TAG 38 0 (Node.branch RET_ROOT_TAG bigTree) [] RetVal.pass RetVal.pass c4s1 c4s40 e55).trans e57
  have e59 : step RET_ROOT_TAG 40 (.list [Node.branch RET_ROOT_TAG bigTree] c4s0) = Out.ok RetVal.pass c4s42 :=
    (list_step_out_ok RET_ROOT_TAG 39 [Node.branch RET_ROOT_TAG bigTree] c4s0 RetVal.pass c4s41 (by decide) e58).trans rfl
  exact e59

/-- A chain of five branches over a single pass leaf: entering the leaf
list would be the seventh frame, beyond RET_MAX_NEST_SIZE. -/
def chainTree : List Node :=
  [Node.branch ("B1".toList) [Node.branch ("B2".toList) [Node.branch ("B3".toList) [Node.branch ("B4".toList) [Node.branch ("B5".toList) [Node.leaf ("LF".toList) [] RetVal.pass]]]]]]

/-- A root-targeted execute run of the deep chain. -/
def c5crun : Out := retStart RET_ROOT_TAG RMode.exe chainTree 19

def c5cs0 : St :=
  { next_line_number := 0,
    tag_str := ("".toList),
    tag_ptr := 0,
    nest := 0,
    env_tag := [0, 0, 0, 0, 0, 0],
    env_timer := [0, 0, 0, 0, 0, 0],
    next_in := 0,
    buf_rev := ("".toList),
    is_pause := true,
    sent_rev := [],
    clock := 0,
    mode := RMode.exe,
    tag_found := 0,
    p_retval := 0,
    invoked := [],
    entered := [],
    marks := [],
    frame_log := [],
    ilines := 0,
    tlines := 0,
    slines := 0,
    dropped := 0,
    oob := false }

def c5cs1 : St :=
  { next_line_number := 0,
    tag_str := ("".toList),
    tag_ptr := 0,
    nest := 0,
    env_tag := [0, 0, 0, 0, 0, 0],
    env_timer := [0, 0, 0, 0, 0, 0],
    next_in := 0,
    buf_rev := ("".toList),
    is_pause := true,
    sent_rev := [],
    clock := 0,
    mode := RMode.exe,
    tag_found := 0,
    p_retval := 0,
    invoked := [],
    entered := [],
    marks := [],
    frame_log := [],
    ilines := 0,
    tlines := 0,
    slines := 0,
    dropped := 0,
    oob := false }

def c5cs2 : St :=
  { next_line_number := 0,
    tag_str := ("@ROOT".toList),
    tag_ptr := 5,
    nest := 1,
    env_tag := [0, 0, 0, 0, 0, 0],
    env_timer := [0, 0, 0, 0, 0, 0],
    next_in := 0,
    buf_rev := ("".toList),
    is_pause := true,
    sent_rev := [],
    clock := 1,
    mode := RMode.exe,
    tag_found := 1,
    p_retval := 0,
    invoked := [],
    entered := [("ROOT".toList)],
    marks := [],
    frame_log := [],
    ilines := 0,
    tlines := 0,
    slines := 0,
    dropped := 0,
    oob := false }

def c5cs3 : St :=
  { next_line_number := 0,
    tag_str := ("@ROOT".toList),
    tag_ptr := 5,
    nest := 1,
    env_tag := [0, 5, 0, 0, 0, 0],
    env_timer := [0, 0, 0, 0, 0, 0],
    next_in := 0,
    buf_rev := ("".toList),
    is_pause := true,
    sent_rev := [],
    clock := 1,
    mode := RMode.exe,
    tag_found := 1,
    p_retval := 0,
    invoked := [],
    entered := [("ROOT".toList)],
    marks := [],
    frame_log := [],
    ilines := 0,
    tlines := 0,
    slines := 0,
    dropped := 0,
    oob := false }

def c5cs4 : St :=
  { next_line_number := 0,
    tag_str := ("@ROOT@B1".toList),
    tag_ptr := 8,
    nest := 2,
    env_tag := [0, 5, 0, 0, 0, 0],
    env_timer := [0, 1, 0, 0, 0, 0],
    next_in := 0,
    buf_rev := ("".toList),
    is_pause := true,
    sent_rev := [],
    clock := 2,
    mode := RMode.exe,
    tag_found := 2,
    p_retval := 0,
    invoked := [],
    entered := [("ROOT".toList), ("B1".toList)],
    marks := [],
    frame_log := [],
    ilines := 0,
    tlines := 0,
    slines := 0,
    dropped := 0,
    oob := false }

def c5cs5 : St :=
  { next_line_number := 0,
    tag_str := ("@ROOT@B1".toList),
    tag_ptr := 8,
    nest := 2,
    env_tag := [0, 5, 8, 0, 0, 0],
    env_timer := [0, 1, 0, 0, 0, 0],
    next_in := 0,
    buf_rev := ("".toList),
    is_pause := true,
    sent_rev := [],
    clock := 2,
    mode := RMode.exe,
    tag_found := 2,
    p_retval := 0,
    invoked := [],
    entered := [("ROOT".toList), ("B1".toList)],
    marks := [],
    frame_log := [],
    ilines := 0,
    tlines := 0,
    slines := 0,
    dropped := 0,
    oob := false }

def c5cs6 : St :=
  { next_line_number := 0,
    tag_str := ("@ROOT@B1@B2".toList),
    tag_ptr := 11,
    nest := 3,
    env_tag := [0, 5, 8, 0, 0, 0],
    env_timer := [0, 1, 2, 0, 0, 0],
    next_in := 0,
    buf_rev := ("".toList),
    is_pause := true,
    sent_rev := [],
    clock := 3,
    mode := RMode.exe,
    tag_found := 3,
    p_retval := 0,
    invoked := [],
    entered := [("ROOT".toList), ("B1".toList), ("B2".toList)],
    marks := [],
    frame_log := [],
    ilines := 0,
    tlines := 0,
    slines := 0,
    dropped := 0,
    oob := false }

def c5cs7 : St :=
  { next_line_number := 0,
    tag_str := ("@ROOT@B1@B2".toList),
    tag_ptr := 11,
    nest := 3,
    env_tag := [0, 5, 8, 11, 0, 0],
    env_timer := [0, 1, 2, 0, 0, 0],
    next_in := 0,
    buf_rev := ("".toList),
    is_pause := true,
    sent_rev := [],
    clock := 3,
    mode := RMode.exe,
    tag_found := 3,
    p_retval := 0,
    invoked := [],
    entered := [("ROOT".toList), ("B1".toList), ("B2".toList)],
    marks := [],
    frame_log := [],
    ilines := 0,
    tlines := 0,
    slines := 0,
    dropped := 0,
    oob := false }

def c5cs8 : St :=
  { next_line_number := 0,
    tag_str := ("@ROOT@B1@B2@B3".toList),
    tag_ptr := 14,
    nest := 4,
    env_tag := [0, 5, 8, 11, 0, 0],
    env_timer := [0, 1, 2, 3, 0, 0],
    next_in := 0,
    buf_rev := ("".toList),
    is_pause := true,
    sent_rev := [],
    clock := 4,
    mode := RMode.exe,
    tag_found := 4,
    p_retval := 0,
    invoked := [],
    entered := [("ROOT".toList), ("B1".toList), ("B2".toList), ("B3".toList)],
    marks := [],
    frame_log := [],
    ilines := 0,
    tlines := 0,
    slines := 0,
    dropped := 0,
    oob := false }

def c5cs9 : St :=
  { next_line_number := 0,
    tag_str := ("@ROOT@B1@B2@B3".toList),
    tag_ptr := 14,
    nest := 4,
    env_tag := [0, 5, 8, 11, 14, 0],
    env_timer := [0, 1, 2, 3, 0, 0],
    next_in := 0,
    buf_rev := ("".toList),
    is_pause := true,
    sent_rev := [],
    clock := 4,
    mode := RMode.exe,
    tag_found := 4,
    p_retval := 0,
    invoked := [],
    entered := [("ROOT".toList), ("B1".toList), ("B2".toList), ("B3".toList)],
    marks := [],
    frame_log := [],
    ilines := 0,
    tlines := 0,
    slines := 0,
    dropped := 0,
    oob := false }

def c5cs10 : St :=
  { next_line_number := 0,
    tag_str := ("@ROOT@B1@B2@B3@B4".toList),
    tag_ptr := 17,
    nest := 5,
    env_tag := [0, 5, 8, 11, 14, 0],
    env_timer := [0, 1, 2, 3, 4, 0],
    next_in := 0,
    buf_rev := ("".toList),
    is_pause := true,
    sent_rev := [],
    clock := 5,
    mode := RMode.exe,
    tag_found := 5,
    p_retval := 0,
    invoked := [],
    entered := [("ROOT".toList), ("B1".toList), ("B2".toList), ("B3".toList), ("B4".toList)],
    marks := [],
    frame_log := [],
    ilines := 0,
    tlines := 0,
    slines := 0,
    dropped := 0,
    oob := false }

def c5cs11 : St :=
  { next_line_number := 0,
    tag_str := ("@ROOT@B1@B2@B3@B4".toList),
    tag_ptr := 17,
    nest := 5,
    env_tag := [0, 5, 8, 11, 14, 17],
    env_timer := [0, 1, 2, 3, 4, 0],
    next_in := 0,
    buf_rev := ("".toList),
    is_pause := true,
    sent_rev := [],
    clock := 5,
    mode := RMode.exe,
    tag_found := 5,
    p_retval := 0,
    invoked := [],
    entered := [("ROOT".toList), ("B1".toList), ("B2".toList), ("B3".toList), ("B4".toList)],
    marks := [],
    frame_log := [],
    ilines := 0,
    tlines := 0,
    slines := 0,
    dropped := 0,
    oob := false }

def c5cs12 : St :=
  { next_line_number := 0,
    tag_str := ("@ROOT@B1@B2@B3@B4@B5".toList),
    tag_ptr := 20,
    nest := 6,
    env_tag := [0, 5, 8, 11, 14, 17],
    env_timer := [0, 1, 2, 3, 4, 5],
    next_in := 0,
    buf_rev := ("".toList),
    is_pause := true,
    sent_rev := [],
    clock := 6,
    mode := RMode.exe,
    tag_found := 6,
    p_retval := 0,
    invoked := [],
    entered := [("ROOT".toList), ("B1".toList), ("B2".toList), ("B3".toList), ("B4".toList), ("B5".toList)],
    marks := [],
    frame_log := [],
    ilines := 0,
    tlines := 0,
    slines := 0,
    dropped := 0,
    oob := false }

def c5cs13 : St :=
  { next_line_number := 1,
    tag_str := ("@ROOT@B1@B2@B3@B4@B5".toList),
    tag_ptr := 20,
    nest := 6,
    env_tag := [0, 5, 8, 11, 14, 17],
    env_timer := [0, 1, 2, 3, 4, 5],
    next_in := 53,
    buf_rev := ("\ndedeecxe EZIS_TSEN_XAM_TER :rorrE,      ,    ,0   ,I".toList),
    is_pause := true,
    sent_rev := [],
    clock := 6,
    mode := RMode.exe,
    tag_found := 6,
    p_retval := 0,
    invoked := [],
    entered := [("ROOT".toList), ("B1".toList), ("B2".toList), ("B3".toList), ("B4".toList), ("B5".toList)],
    marks := [],
    frame_log := [],
    ilines := 1,
    tlines := 0,
    slines := 0,
    dropped := 0,
    oob := false }

def c5cs14 : St :=
  { next_line_number := 2,
    tag_str := ("@ROOT@B1@B2@B3@B4".toList),
    tag_ptr := 17,
    nest := 5,
    env_tag := [0, 5, 8, 11, 14, 17],
    env_timer := [0, 1, 2, 3, 4, 5],
    next_in := 0,
    buf_rev := ("".toList),
    is_pause := true,
    sent_rev := [("I,   0,    ,      ,Error: RET_MAX_NEST_SIZE exceeded\nT,   1,FAIL,     1,@ROOT@B1@B2@B3@B4@B5\n".toList)],
    clock := 7,
    mode := RMode.exe,
    tag_found := 7,
    p_retval := 0,
    invoked := [],
    entered := [("ROOT".toList), ("B1".toList), ("B2".toList), ("B3".toList), ("B4".toList), ("B5".toList)],
    marks := [],
    frame_log := [(5, RetVal.fail)],
    ilines := 1,
    tlines := 1,
    slines := 0,
    dropped := 0,
    oob := false }

def c5cs15 : St :=
  { next_line_number := 2,
    tag_str := ("@ROOT@B1@B2@B3@B4".toList),
    tag_ptr := 17,
    nest := 5,
    env_tag := [0, 5, 8, 11, 14, 17],
    env_timer := [0, 1, 2, 3, 4, 5],
    next_in := 0,
    buf_rev := ("".toList),
    is_pause := true,
    sent_rev := [("I,   0,    ,      ,Error: RET_MAX_NEST_SIZE exceeded\nT,   1,FAIL,     1,@ROOT@B1@B2@B3@B4@B5\n".toList)],
    clock := 7,
    mode := RMode.exe,
    tag_found := 7,
    p_retval := 0,
    invoked := [],
    entered := [("ROOT".toList), ("B1".toList), ("B2".toList), ("B3".toList), ("B4".toList), ("B5".toList)],
    marks := [],
    frame_log := [(5, RetVal.fail)],
    ilines := 1,
    tlines := 1,
    slines := 0,
    dropped := 0,
    oob := false }

def c5cs16 : St :=
  { next_line_number := 3,
    tag_str := ("@ROOT@B1@B2@B3".toList),
    tag_ptr := 14,
    nest := 4,
    env_tag := [0, 5, 8, 11, 14, 17],
    env_timer := [0, 1, 2, 3, 4, 5],
    next_in := 0,
    buf_rev := ("".toList),
    is_pause := true,
    sent_rev := [("T,   2,FAIL,     3,@ROOT@B1@B2@B3@B4\n".toList), ("I,   0,    ,      ,Error: RET_MAX_NEST_SIZE exceeded\nT,   1,FAIL,     1,@ROOT@B1@B2@B3@B4@B5\n".toList)],
    clock := 8,
    mode := RMode.exe,
    tag_found := 8,
    p_retval := 0,
    invoked := [],
    entered := [("ROOT".toList), ("B1".toList), ("B2".toList), ("B3".toList), ("B4".toList), ("B5".toList)],
    marks := [],
    frame_log := [(5, RetVal.fail), (4, RetVal.fail)],
    ilines := 1,
    tlines := 2,
    slines := 0,
    dropped := 0,
    oob := false }

def c5cs17 : St :=
  { next_line_number := 3,
    tag_str := ("@ROOT@B1@B2@B3".toList),
    tag_ptr := 14,
    nest := 4,
    env_tag := [0, 5, 8, 11, 14, 17],
    env_timer := [0, 1, 2, 3, 4, 5],
    next_in := 0,
    buf_rev := ("".toList),
    is_pause := true,
    sent_rev := [("T,   2,FAIL,     3,@ROOT@B1@B2@B3@B4\n".toList), ("I,   0,    ,      ,Error: RET_MAX_NEST_SIZE exceeded\nT,   1,FAIL,     1,@ROOT@B1@B2@B3@B4@B5\n".toList)],
    clock := 8,
    mode := RMode.exe,
    tag_found := 8,
    p_retval := 0,
    invoked := [],
    entered := [("ROOT".toList), ("B1".toList), ("B2".toList), ("B3".toList), ("B4".toList), ("B5".toList)],
    marks := [],
    frame_log := [(5, RetVal.fail), (4, RetVal.fail)],
    ilines := 1,
    tlines := 2,
    slines := 0,
    dropped := 0,
    oob := false }

def c5cs18 : St :=
  { next_line_number := 4,
    tag_str := ("@ROOT@B1@B2".toList),
    tag_ptr := 11,
    nest := 3,
    env_tag := [0, 5, 8, 11, 14, 17],
    env_timer := [0, 1, 2, 3, 4, 5],
    next_in := 0,
    buf_rev := ("".toList),
    is_pause := true,
    sent_rev := [("T,   3,FAIL,     5,@ROOT@B1@B2@B3\n".toList), ("T,   2,FAIL,     3,@ROOT@B1@B2@B3@B4\n".toList), ("I,   0,    ,      ,Error: RET_MAX_NEST_SIZE exceeded\nT,   1,FAIL,     1,@ROOT@B1@B2@B3@B4@B5\n".toList)],
    clock := 9,
    mode := RMode.exe,
    tag_found := 9,
    p_retval := 0,
    invoked := [],
    entered := [("ROOT".toList), ("B1".toList), ("B2".toList), ("B3".toList), ("B4".toList), ("B5".toList)],
    marks := [],
    frame_log := [(5, RetVal.fail), (4, RetVal.fail), (3, RetVal.fail)],
    ilines := 1,
    tlines := 3,
    slines := 0,
    dropped := 0,
    oob := false }

def c5cs19 : St :=
  { next_line_number := 4,
    tag_str := ("@ROOT@B1@B2".toList),
    tag_ptr := 11,
    nest := 3,
    env_tag := [0, 5, 8, 11, 14, 17],
    env_timer := [0, 1, 2, 3, 4, 5],
    next_in := 0,
    buf_rev := ("".toList),
    is_pause := true,
    sent_rev := [("T,   3,FAIL,     5,@ROOT@B1@B2@B3\n".toList), ("T,   2,FAIL,     3,@ROOT@B1@B2@B3@B4\n".toList), ("I,   0,    ,      ,Error: RET_MAX_NEST_SIZE exceeded\nT,   1,FAIL,     1,@ROOT@B1@B2@B3@B4@B5\n".toList)],
    clock := 9,
    mode := RMode.exe,
    tag_found := 9,
    p_retval := 0,
    invoked := [],
    entered := [("ROOT".toList), ("B1".toList), ("B2".toList), ("B3".toList), ("B4".toList), ("B5".toList)],
    marks := [],
    frame_log := [(5, RetVal.fail), (4, RetVal.fail), (3, RetVal.fail)],
    ilines := 1,
    tlines := 3,
    slines := 0,
    dropped := 0,
    oob := false }

def c5cs20 : St :=
  { next_line_number := 5,
    tag_str := ("@ROOT@B1".toList),
    tag_ptr := 8,
    nest := 2,
    env_tag := [0, 5, 8, 11, 14, 17],
    env_timer := [0, 1, 2, 3, 4, 5],
    next_in := 0,
    buf_rev := ("".toList),
    is_pause := true,
    sent_rev := [("T,   4,FAIL,     7,@ROOT@B1@B2\n".toList), ("T,   3,FAIL,     5,@ROOT@B1@B2@B3\n".toList), ("T,   2,FAIL,     3,@ROOT@B1@B2@B3@B4\n".toList), ("I,   0,    ,      ,Error: RET_MAX_NEST_SIZE exceeded\nT,   1,FAIL,     1,@ROOT@B1@B2@B3@B4@B5\n".toList)],
    clock := 10,
    mode := RMode.exe,
    tag_found := 10,
    p_retval := 0,
    invoked := [],
    entered := [("ROOT".toList), ("B1".toList), ("B2".toList), ("B3".toList), ("B4".toList), ("B5".toList)],
    marks := [],
    frame_log := [(5, RetVal.fail), (4, RetVal.fail), (3, RetVal.fail), (2, RetVal.fail)],
    ilines := 1,
    tlines := 4,
    slines := 0,
    dropped := 0,
    oob := false }

def c5cs21 : St :=
  { next_line_number := 5,
    tag_str := ("@ROOT@B1".toList),
    tag_ptr := 8,
    nest := 2,
    env_tag := [0, 5, 8, 11, 14, 17],
    env_timer := [0, 1, 2, 3, 4, 5],
    next_in := 0,
    buf_rev := ("".toList),
    is_pause := true,
    sent_rev := [("T,   4,FAIL,     7,@ROOT@B1@B2\n".toList), ("T,   3,FAIL,     5,@ROOT@B1@B2@B3\n".toList), ("T,   2,FAIL,     3,@ROOT@B1@B2@B3@B4\n".toList), ("I,   0,    ,      ,Error: RET_MAX_NEST_SIZE exceeded\nT,   1,FAIL,     1,@ROOT@B1@B2@B3@B4@B5\n".toList)],
    clock := 10,
    mode := RMode.exe,
    tag_found := 10,
    p_retval := 0,
    invoked := [],
    entered := [("ROOT".toList), ("B1".toList), ("B2".toList), ("B3".toList), ("B4".toList), ("B5".toList)],
    marks := [],
    frame_log := [(5, RetVal.fail), (4, RetVal.fail), (3, RetVal.fail), (2, RetVal.fail)],
    ilines := 1,
    tlines := 4,
    slines := 0,
    dropped := 0,
    oob := false }

def c5cs22 : St :=
  { next_line_number := 6,
    tag_str := ("@ROOT".toList),
    tag_ptr := 5,
    nest := 1,
    env_tag := [0, 5, 8, 11, 14, 17],
    env_timer := [0, 1, 2, 3, 4, 5],
    next_in := 0,
    buf_rev := ("".toList),
    is_pause := true,
    sent_rev := [("T,   5,FAIL,     9,@ROOT@B1\n".toList), ("T,   4,FAIL,     7,@ROOT@B1@B2\n".toList), ("T,   3,FAIL,     5,@ROOT@B1@B2@B3\n".toList), ("T,   2,FAIL,     3,@ROOT@B1@B2@B3@B4\n".toList), ("I,   0,    ,      ,Error: RET_MAX_NEST_SIZE exceeded\nT,   1,FAIL,     1,@ROOT@B1@B2@B3@B4@B5\n".toList)],
    clock := 11,
    mode := RMode.exe,
    tag_found := 11,
    p_retval := 0,
    invoked := [],
    entered := [("ROOT".toList), ("B1".toList), ("B2".toList), ("B3".toList), ("B4".toList), ("B5".toList)],
    marks := [],
    frame_log := [(5, RetVal.fail), (4, RetVal.fail), (3, RetVal.fail), (2, RetVal.fail), (1, RetVal.fail)],
    ilines := 1,
    tlines := 5,
    slines := 0,
    dropped := 0,
    oob := false }

def c5cs23 : St :=
  { next_line_number := 6,
    tag_str := ("@ROOT".toList),
    tag_ptr := 5,
    nest := 1,
    env_tag := [0, 5, 8, 11, 14, 17],
    env_timer := [0, 1, 2, 3, 4, 5],
    next_in := 0,
    buf_rev := ("".toList),
    is_pause := true,
    sent_rev := [("T,   5,FAIL,     9,@ROOT@B1\n".toList), ("T,   4,FAIL,     7,@ROOT@B1@B2\n".toList), ("T,   3,FAIL,     5,@ROOT@B1@B2@B3\n".toList), ("T,   2,FAIL,     3,@ROOT@B1@B2@B3@B4\n".toList), ("I,   0,    ,      ,Error: RET_MAX_NEST_SIZE exceeded\nT,   1,FAIL,     1,@ROOT@B1@B2@B3@B4@B5\n".toList)],
    clock := 11,
    mode := RMode.exe,
    tag_found := 11,
    p_retval := 0,
    invoked := [],
    entered := [("ROOT".toList), ("B1".toList), ("B2".toList), ("B3".toList), ("B4".toList), ("B5".toList)],
    marks := [],
    frame_log := [(5, RetVal.fail), (4, RetVal.fail), (3, RetVal.fail), (2, RetVal.fail), (1, RetVal.fail)],
    ilines := 1,
    tlines := 5,
    slines := 0,
    dropped := 0,
    oob := false }

def c5cs24 : St :=
  { next_line_number := 7,
    tag_str := ("".toList),
    tag_ptr := 0,
    nest := 0,
    env_tag := [0, 5, 8, 11, 14, 17],
    env_timer := [0, 1, 2, 3, 4, 5],
    next_in := 0,
    buf_rev := ("".toList),
    is_pause := true,
    sent_rev := [("DONE".toList), ("\n".toList), ("T,   6,FAIL,    11,@ROOT\n".toList), ("T,   5,FAIL,     9,@ROOT@B1\n".toList), ("T,   4,FAIL,     7,@ROOT@B1@B2\n".toList), ("T,   3,FAIL,     5,@ROOT@B1@B2@B3\n".toList), ("T,   2,FAIL,     3,@ROOT@B1@B2@B3@B4\n".toList), ("I,   0,    ,      ,Error: RET_MAX_NEST_SIZE exceeded\nT,   1,FAIL,     1,@ROOT@B1@B2@B3@B4@B5\n".toList)],
    clock := 12,
    mode := RMode.exe,
    tag_found := 12,
    p_retval := 0,
    invoked := [],
    entered := [("ROOT".toList), ("B1".toList), ("B2".toList), ("B3".toList), ("B4".toList), ("B5".toList)],
    marks := [],
    frame_log := [(5, RetVal.fail), (4, RetVal.fail), (3, RetVal.fail), (2, RetVal.fail), (1, RetVal.fail), (0, RetVal.fail)],
    ilines := 1,
    tlines := 6,
    slines := 0,
    dropped := 0,
    oob := false }

def c5cs25 : St :=
  { next_line_number := 7,
    tag_str := ("".toList),
    tag_ptr := 0,
    nest := 0,
    env_tag := [0, 5, 8, 11, 14, 17],
    env_timer := [0, 1, 2, 3, 4, 5],
    next_in := 0,
    buf_rev := ("".toList),
    is_pause := true,
    sent_rev := [("DONE".toList), ("\n".toList), ("T,   6,FAIL,    11,@ROOT\n".toList), ("T,   5,FAIL,     9,@ROOT@B1\n".toList), ("T,   4,FAIL,     7,@ROOT@B1@B2\n".toList), ("T,   3,FAIL,     5,@ROOT@B1@B2@B3\n".toList), ("T,   2,FAIL,     3,@ROOT@B1@B2@B3@B4\n".toList), ("I,   0,    ,      ,Error: RET_MAX_NEST_SIZE exceeded\nT,   1,FAIL,     1,@ROOT@B1@B2@B3@B4@B5\n".toList)],
    clock := 12,
    mode := RMode.exe,
    tag_found := 12,
    p_retval := 0,
    invoked := [],
    entered := [("ROOT".toList), ("B1".toList), ("B2".toList), ("B3".toList), ("B4".toList), ("B5".toList)],
    marks := [],
    frame_log := [(5, RetVal.fail), (4, RetVal.fail), (3, RetVal.fail), (2, RetVal.fail), (1, RetVal.fail), (0, RetVal.fail)],
    ilines := 1,
    tlines := 6,
    slines := 0,
    dropped := 0,
    oob := false }

theorem c5crun_eq : c5crun = Out.ok RetVal.fail c5cs25 := by
  have e0 : step RET_ROOT_TAG 1 (.list [Node.leaf ("LF".toList) [] RetVal.pass] c5cs12) = Out.ok RetVal.fail c5cs13 :=
    (list_refuse RET_ROOT_TAG 0 [Node.leaf ("LF".toList) [] RetVal.pass] c5cs12 (by decide)).trans (by decide)
  have e1 : step RET_ROOT_TAG 2 (.enter (Node.branch ("B5".toList) [Node.leaf ("LF".toList) [] RetVal.pass]) c5cs11) = Out.ok RetVal.fail c5cs13 :=
    (enter_branch_ok RET_ROOT_TAG 1 ("B5".toList) [Node.leaf ("LF".toList) [] RetVal.pass] c5cs11 (by decide)).trans
      (by rw [show enterState RET_ROOT_TAG ("B5".toList) c5cs11 = c5cs12 from by decide]; exact e0)
  have e2 : step RET_ROOT_TAG 1 (.loop 5 [] RetVal.fail c5cs14) = Out.ok RetVal.fail c5cs14 :=
    loop_nil RET_ROOT_TAG 0 5 RetVal.fail c5cs14
  have e3 : step RET_ROOT_TAG 2 (.handle 5 [] RetVal.pass RetVal.fail c5cs13) = Out.ok RetVal.fail c5cs14 :=
    (handle_step_exit_ok RET_ROOT_TAG 1 5 [] RetVal.pass RetVal.fail c5cs13 c5cs14 (by decide)).trans e2
  have e4 : step RET_ROOT_TAG 3 (.loop 5 [Node.branch ("B5".toList) [Node.leaf ("LF".toList) [] RetVal.pass]] RetVal.pass c5cs11) = Out.ok RetVal.fail c5cs14 :=
    (loop_step_ok RET_ROOT_TAG 2 5 (Node.branch ("B5".toList) [Node.leaf ("LF".toList) [] RetVal.pass]) [] RetVal.pass RetVal.fail c5cs11 c5cs13 e1).trans e3
  have e5 : step RET_ROOT_TAG 4 (.list [Node.branch ("B5".toList) [Node.leaf ("LF".toList) [] RetVal.pass]] c5cs10) = Out.ok RetVal.fail c5cs15 :=
    (list_step_out_ok RET_ROOT_TAG 3 [Node.branch ("B5".toList) [Node.leaf ("LF".toList) [] RetVal.pass]] c5cs10 RetVal.fail c5cs14 (by decide) e4).trans (by decide)
  have e6 : step RET_ROOT_TAG 5 (.enter (Node.branch ("B4".toList) [Node.branch ("B5".toList) [Node.leaf ("LF".toList) [] RetVal.pass]]) c5cs9) = Out.ok RetVal.fail c5cs15 :=
    (enter_branch_ok RET_ROOT_TAG 4 ("B4".toList) [Node.branch ("B5".toList) [Node.leaf ("LF".toList) [] RetVal.pass]] c5cs9 (by decide)).trans
      (by rw [show enterState RET_ROOT_TAG ("B4".toList) c5cs9 = c5cs10 from by decide]; exact e5)
  have e7 : step RET_ROOT_TAG 4 (.loop 4 [] RetVal.fail c5cs16) = Out.ok RetVal.fail c5cs16 :=
    loop_nil RET_ROOT_TAG 3 4 RetVal.fail c5cs16
  have e8 : step RET_ROOT_TAG 5 (.handle 4 [] RetVal.pass RetVal.fail c5cs15) = Out.ok RetVal.fail c5cs16 :=
    (handle_step_exit_ok RET_ROOT_TAG 4 4 [] RetVal.pass RetVal.fail c5cs15 c5cs16 (by decide)).trans e7
  have e9 : step RET_ROOT_TAG 6 (.loop 4 [Node.branch ("B4".toList) [Node.branch ("B5".toList) [Node.leaf ("LF".toList) [] RetVal.pass]]] RetVal.pass c5cs9) = Out.ok RetVal.fail c5cs16 :=
    (loop_step_ok RET_ROOT_TAG 5 4 (Node.branch ("B4".toList) [Node.branch ("B5".toList) [Node.leaf ("LF".toList) [] RetVal.pass]]) [] RetVal.pass RetVal.fail c5cs9 c5cs15 e6).trans e8
  have e10 : step RET_ROOT_TAG 7 (.list [Node.branch ("B4".toList) [Node.branch ("B5".toList) [Node.leaf ("LF".toList) [] RetVal.pass]]] c5cs8) = Out.ok RetVal.fail c5cs17 :=
    (list_step_out_ok RET_ROOT_TAG 6 [Node.branch ("B4".toList) [Node.branch ("B5".toList) [Node.leaf ("LF".toList) [] RetVal.pass]]] c5cs8 RetVal.fail c5cs16 (by decide) e9).trans (by decide)
  have e11 : step RET_ROOT_TAG 8 (.enter (Node.branch ("B3".toList) [Node.branch ("B4".toList) [Node.branch ("B5".toList) [Node.leaf ("LF".toList) [] RetVal.pass]]]) c5cs7) = Out.ok RetVal.fail c5cs17 :=
    (enter_branch_ok RET_ROOT_TAG 7 ("B3".toList) [Node.branch ("B4".toList) [Node.branch ("B5".toList) [Node.leaf ("LF".toList) [] RetVal.pass]]] c5cs7 (by decide)).trans
      (by rw [show enterState RET_ROOT_TAG ("B3".toList) c5cs7 = c5cs8 from by decide]; exact e10)
  have e12 : step RET_ROOT_TAG 7 (.loop 3 [] RetVal.fail c5cs18) = Out.ok RetVal.fail c5cs18 :=
    loop_nil RET_ROOT_TAG 6 3 RetVal.fail c5cs18
  have e13 : step RET_ROOT_TAG 8 (.handle 3 [] RetVal.pass RetVal.fail c5cs17) = Out.ok RetVal.fail c5cs18 :=
    (handle_step_exit_ok RET_ROOT_TAG 7 3 [] RetVal.pass RetVal.fail c5cs17 c5cs18 (by decide)).trans e12
  have e14 : step RET_ROOT_TAG 9 (.loop 3 [Node.branch ("B3".toList) [Node.branch ("B4".toList) [Node.branch ("B5".toList) [Node.leaf ("LF".toList) [] RetVal.pass]]]] RetVal.pass c5cs7) = Out.ok RetVal.fail c5cs18 :=
    (loop_step_ok RET_ROOT_TAG 8 3 (Node.branch ("B3".toList) [Node.branch ("B4".toList) [Node.branch ("B5".toList) [Node.leaf ("LF".toList) [] RetVal.pass]]]) [] RetVal.pass RetVal.fail c5cs7 c5cs17 e11).trans e13
  have e15 : step RET_ROOT_TAG 10 (.list [Node.branch ("B3".toList) [Node.branch ("B4".toList) [Node.branch ("B5".toList) [Node.leaf ("LF".toList) [] RetVal.pass]]]] c5cs6) = Out.ok RetVal.fail c5cs19 :=
    (list_step_out_ok RET_ROOT_TAG 9 [Node.branch ("B3".toList) [Node.branch ("B4".toList) [Node.branch ("B5".toList) [Node.leaf ("LF".toList) [] RetVal.pass]]]] c5cs6 RetVal.fail c5cs18 (by decide) e14).trans (by decide)
  have e16 : step RET_ROOT_TAG 11 (.enter (Node.branch ("B2".toList) [Node.branch ("B3".toList) [Node.branch ("B4".toList) [Node.branch ("B5".toList) [Node.leaf ("LF".toList) [] RetVal.pass]]]]) c5cs5) = Out.ok RetVal.fail c5cs19 :=
    (enter_branch_ok RET_ROOT_TAG 10 ("B2".toList) [Node.branch ("B3".toList) [Node.branch ("B4".toList) [Node.branch ("B5".toList) [Node.leaf ("LF".toList) [] RetVal.pass]]]] c5cs5 (by decide)).trans
      (by rw [show enterState RET_ROOT_TAG ("B2".toList) c5cs5 = c5cs6 from by decide]; exact e15)
  have e17 : step RET_ROOT_TAG 10 (.loop 2 [] RetVal.fail c5cs20) = Out.ok RetVal.fail c5cs20 :=
    loop_nil RET_ROOT_TAG 9 2 RetVal.fail c5cs20
  have e18 : step RET_ROOT_TAG 11 (.handle 2 [] RetVal.pass RetVal.fail c5cs19) = Out.ok RetVal.fail c5cs20 :=
    (handle_step_exit_ok RET_ROOT_TAG 10 2 [] RetVal.pass RetVal.fail c5cs19 c5cs20 (by decide)).trans e17
  have e19 : step RET_ROOT_TAG 12 (.loop 2 [Node.branch ("B2".toList) [Node.branch ("B3".toList) [Node.branch ("B4".toList) [Node.branch ("B5".toList) [Node.leaf ("LF".toList) [] RetVal.pass]]]]] RetVal.pass c5cs5) = Out.ok RetVal.fail c5cs20 :=
    (loop_step_ok RET_ROOT_TAG 11 2 (Node.branch ("B2".toList) [Node.branch ("B3".toList) [Node.branch ("B4".toList) [Node.branch ("B5".toList) [Node.leaf ("LF".toList) [] RetVal.pass]]]]) [] RetVal.pass RetVal.fail c5cs5 c5cs19 e16).trans e18
  have e20 : step RET_ROOT_TAG 13 (.list [Node.branch ("B2".toList) [Node.branch ("B3".toList) [Node.branch ("B4".toList) [Node.branch ("B5".toList) [Node.leaf ("LF".toList) [] RetVal.pass]]]]] c5cs4) = Out.ok RetVal.fail c5cs21 :=
    (list_step_out_ok RET_ROOT_TAG 12 [Node.branch ("B2".toList) [Node.branch ("B3".toList) [Node.branch ("B4".toList) [Node.branch ("B5".toList) [Node.leaf ("LF".toList) [] RetVal.pass]]]]] c5cs4 RetVal.fail c5cs20 (by decide) e19).trans (by decide)
  have e21 : step RET_ROOT_TAG 14 (.enter (Node.branch ("B1".toList) [Node.branch ("B2".toList) [Node.branch ("B3".toList) [Node.branch ("B4".toList) [Node.branch ("B5".toList) [Node.leaf ("LF".toList) [] RetVal.pass]]]]]) c5cs3) = Out.ok RetVal.fail c5cs21 :=
    (enter_branch_ok RET_ROOT_TAG 13 ("B1".toList) [Node.branch ("B2".toList) [Node.branch ("B3".toList) [Node.branch ("B4".toList) [Node.branch ("B5".toList) [Node.leaf ("LF".toList) [] RetVal.pass]]]]] c5cs3 (by decide)).trans
      (by rw [show enterState RET_ROOT_TAG ("B1".toList) c5cs3 = c5cs4 from by decide]; exact e20)
  have e22 : step RET_ROOT_TAG 13 (.loop 1 [] RetVal.fail c5cs22) = Out.ok RetVal.fail c5cs22 :=
    loop_nil RET_ROOT_TAG 12 1 RetVal.fail c5cs22
  have e23 : step RET_ROOT_TAG 14 (.handle 1 [] RetVal.pass RetVal.fail c5cs21) = Out.ok RetVal.fail c5cs22 :=
    (handle_step_exit_ok RET_ROOT_TAG 13 1 [] RetVal.pass RetVal.fail c5cs21 c5cs22 (by decide)).trans e22
  have e24 : step RET_ROOT_TAG 15 (.loop 1 [Node.branch ("B1".toList) [Node.branch ("B2".toList) [Node.branch ("B3".toList) [Node.branch ("B4".toList) [Node.branch ("B5".toList) [Node.leaf ("LF".toList) [] RetVal.pass]]]]]] RetVal.pass c5cs3) = Out.ok RetVal.fail c5cs22 :=
    (loop_step_ok RET_ROOT_TAG 14 1 (Node.branch ("B1".toList) [Node.branch ("B2".toList) [Node.branch ("B3".toList) [Node.branch ("B4".toList) [Node.branch ("B5".toList) [Node.leaf ("LF".toList) [] RetVal.pass]]]]]) [] RetVal.pass RetVal.fail c5cs3 c5cs21 e21).trans e23
  have e25 : step RET_ROOT_TAG 16 (.list [Node.branch ("B1".toList) [Node.branch ("B2".toList) [Node.branch ("B3".toList) [Node.branch ("B4".toList) [Node.branch ("B5".toList) [Node.leaf ("LF".toList) [] RetVal.pass]]]]]] c5cs2) = Out.ok RetVal.fail c5cs23 :=
    (list_step_out_ok RET_ROOT_TAG 15 [Node.branch ("B1".toList) [Node.branch ("B2".toList) [Node.branch ("B3".toList) [Node.branch ("B4".toList) [Node.branch ("B5".toList) [Node.leaf ("LF".toList) [] RetVal.pass]]]]]] c5cs2 RetVal.fail c5cs22 (by decide) e24).trans (by decide)
  have e26 : step RET_ROOT_TAG 17 (.enter (Node.branch RET_ROOT_TAG chainTree) c5cs1) = Out.ok RetVal.fail c5cs23 :=
    (enter_branch_ok RET_ROOT_TAG 16 ("ROOT".toList) [Node.branch ("B1".toList) [Node.branch ("B2".toList) [Node.branch ("B3".toList) [Node.branch ("B4".toList) [Node.branch ("B5".toList) [Node.leaf ("LF".toList) [] RetVal.pass]]]]]] c5cs1 (by decide)).trans
      (by rw [show enterState RET_ROOT_TAG ("ROOT".toList) c5cs1 = c5cs2 from by decide]; exact e25)
  have e27 : step RET_ROOT_TAG 16 (.loop 0 [] RetVal.fail c5cs24) = Out.ok RetVal.fail c5cs24 :=
    loop_nil RET_ROOT_TAG 15 0 RetVal.fail c5cs24
  have e28 : step RET_ROOT_TAG 17 (.handle 0 [] RetVal.pass RetVal.fail c5cs23) = Out.ok RetVal.fail c5cs24 :=
    (handle_step_exit_ok RET_ROOT_TAG 16 0 [] RetVal.pass RetVal.fail c5cs23 c5cs24 (by decide)).trans e27
  have e29 : step RET_ROOT_TAG 18 (.loop 0 [Node.branch RET_ROOT_TAG chainTree] RetVal.pass c5cs1) = Out.ok RetVal.fail c5cs24 :=
    (loop_step_ok RET_ROOT_TAG 17 0 (Node.branch RET_ROOT_TAG chainTree) [] RetVal.pass RetVal.fail c5cs1 c5cs23 e26).trans e28
  have e30 : step RET_ROOT_TAG 19 (.list [Node.branch RET_ROOT_TAG chainTree] c5cs0) = Out.ok RetVal.fail c5cs25 :=
    (list_step_out_ok RET_ROOT_TAG 18 [Node.branch RET_ROOT_TAG chainTree] c5cs0 RetVal.fail c5cs24 (by decide) e29).trans (by decide)
  exact e30

/-- A root-targeted execute run over treeAB: both leaves are invoked. -/
def c5wrun : Out := retStart RET_ROOT_TAG RMode.exe treeAB 12

def c5ws0 : St :=
  { next_line_number := 0,
    tag_str := ("".toList),
    tag_ptr := 0,
    nest := 0,
    env_tag := [0, 0, 0, 0, 0, 0],
    env_timer := [0, 0, 0, 0, 0, 0],
    next_in := 0,
    buf_rev := ("".toList),
    is_pause := true,
    sent_rev := [],
    clock := 0,
    mode := RMode.exe,
    tag_found := 0,
    p_retval := 0,
    invoked := [],
    entered := [],
    marks := [],
    frame_log := [],
    ilines := 0,
    tlines := 0,
    slines := 0,
    dropped := 0,
    oob := false }

def c5ws1 : St :=
  { next_line_number := 0,
    tag_str := ("".toList),
    tag_ptr := 0,
    nest := 0,
    env_tag := [0, 0, 0, 0, 0, 0],
    env_timer := [0, 0, 0, 0, 0, 0],
    next_in := 0,
    buf_rev := ("".toList),
    is_pause := true,
    sent_rev := [],
    clock := 0,
    mode := RMode.exe,
    tag_found := 0,
    p_retval := 0,
    invoked := [],
    entered := [],
    marks := [],
    frame_log := [],
    ilines := 0,
    tlines := 0,
    slines := 0,
    dropped := 0,
    oob := false }

def c5ws2 : St :=
  { next_line_number := 0,
    tag_str := ("@ROOT".toList),
    tag_ptr := 5,
    nest := 1,
    env_tag := [0, 0, 0, 0, 0, 0],
    env_timer := [0, 0, 0, 0, 0, 0],
    next_in := 0,
    buf_rev := ("".toList),
    is_pause := true,
    sent_rev := [],
    clock := 1,
    mode := RMode.exe,
    tag_found := 1,
    p_retval := 0,
    invoked := [],
    entered := [("ROOT".toList)],
    marks := [],
    frame_log := [],
    ilines := 0,
    tlines := 0,
    slines := 0,
    dropped := 0,
    oob := false }

def c5ws3 : St :=
  { next_line_number := 0,
    tag_str := ("@ROOT".toList),
    tag_ptr := 5,
    nest := 1,
    env_tag := [0, 5, 0, 0, 0, 0],
    env_timer := [0, 0, 0, 0, 0, 0],
    next_in := 0,
    buf_rev := ("".toList),
    is_pause := true,
    sent_rev := [],
    clock := 1,
    mode := RMode.exe,
    tag_found := 1,
    p_retval := 0,
    invoked := [],
    entered := [("ROOT".toList)],
    marks := [],
    frame_log := [],
    ilines := 0,
    tlines := 0,
    slines := 0,
    dropped := 0,
    oob := false }

def c5ws4 : St :=
  { next_line_number := 0,
    tag_str := ("@ROOT@B".toList),
    tag_ptr := 7,
    nest := 2,
    env_tag := [0, 5, 0, 0, 0, 0],
    env_timer := [0, 1, 0, 0, 0, 0],
    next_in := 0,
    buf_rev := ("".toList),
    is_pause := true,
    sent_rev := [],
    clock := 2,
    mode := RMode.exe,
    tag_found := 2,
    p_retval := 0,
    invoked := [],
    entered := [("ROOT".toList), ("B".toList)],
    marks := [],
    frame_log := [],
    ilines := 0,
    tlines := 0,
    slines := 0,
    dropped := 0,
    oob := false }

def c5ws5 : St :=
  { next_line_number := 0,
    tag_str := ("@ROOT@B".toList),
    tag_ptr := 7,
    nest := 2,
    env_tag := [0, 5, 7, 0, 0, 0],
    env_timer := [0, 1, 0, 0, 0, 0],
    next_in := 0,
    buf_rev := ("".toList),
    is_pause := true,
    sent_rev := [],
    clock := 2,
    mode := RMode.exe,
    tag_found := 2,
    p_retval := 0,
    invoked := [],
    entered := [("ROOT".toList), ("B".toList)],
    marks := [],
    frame_log := [],
    ilines := 0,
    tlines := 0,
    slines := 0,
    dropped := 0,
    oob := false }

def c5ws6 : St :=
  { next_line_number := 0,
    tag_str := ("@ROOT@B@L1".toList),
    tag_ptr := 10,
    nest := 3,
    env_tag := [0, 5, 7, 0, 0, 0],
    env_timer := [0, 1, 2, 0, 0, 0],
    next_in := 0,
    buf_rev := ("".toList),
    is_pause := true,
    sent_rev := [],
    clock := 3,
    mode := RMode.exe,
    tag_found := 3,
    p_retval := 0,
    invoked := [("L1".toList)],
    entered := [("ROOT".toList), ("B".toList), ("L1".toList)],
    marks := [],
    frame_log := [],
    ilines := 0,
    tlines := 0,
    slines := 0,
    dropped := 0,
    oob := false }

def c5ws7 : St :=
  { next_line_number := 1,
    tag_str := ("@ROOT@B".toList),
    tag_ptr := 7,
    nest := 2,
    env_tag := [0, 5, 7, 0, 0, 0],
    env_timer := [0, 1, 2, 0, 0, 0],
    next_in := 0,
    buf_rev := ("".toList),
    is_pause := true,
    sent_rev := [("T,   0,PASS,     1,@ROOT@B@L1\n".toList)],
    clock := 4,
    mode := RMode.exe,
    tag_found := 4,
    p_retval := 0,
    invoked := [("L1".toList)],
    entered := [("ROOT".toList), ("B".toList), ("L1".toList)],
    marks := [],
    frame_log := [(2, RetVal.pass)],
    ilines := 0,
    tlines := 1,
    slines := 0,
    dropped := 0,
    oob := false }

def c5ws8 : St :=
  { next_line_number := 1,
    tag_str := ("@ROOT@B@L2".toList),
    tag_ptr := 10,
    nest := 3,
    env_tag := [0, 5, 7, 0, 0, 0],
    env_timer := [0, 1, 4, 0, 0, 0],
    next_in := 0,
    buf_rev := ("".toList),
    is_pause := true,
    sent_rev := [("T,   0,PASS,     1,@ROOT@B@L1\n".toList)],
    clock := 5,
    mode := RMode.exe,
    tag_found := 5,
    p_retval := 0,
    invoked := [("L1".toList), ("L2".toList)],
    entered := [("ROOT".toList), ("B".toList), ("L1".toList), ("L2".toList)],
    marks := [],
    frame_log := [(2, RetVal.pass)],
    ilines := 0,
    tlines := 1,
    slines := 0,
    dropped := 0,
    oob := false }

def c5ws9 : St :=
  { next_line_number := 2,
    tag_str := ("@ROOT@B".toList),
    tag_ptr := 7,
    nest := 2,
    env_tag := [0, 5, 7, 0, 0, 0],
    env_timer := [0, 1, 4, 0, 0, 0],
    next_in := 0,
    buf_rev := ("".toList),
    is_pause := true,
    sent_rev := [("T,   1,PASS,     1,@ROOT@B@L2\n".toList), ("T,   0,PASS,     1,@ROOT@B@L1\n".toList)],
    clock := 6,
    mode := RMode.exe,
    tag_found := 6,
    p_retval := 0,
    invoked := [("L1".toList), ("L2".toList)],
    entered := [("ROOT".toList), ("B".toList), ("L1".toList), ("L2".toList)],
    marks := [],
    frame_log := [(2, RetVal.pass), (2, RetVal.pass)],
    ilines := 0,
    tlines := 2,
    slines := 0,
    dropped := 0,
    oob := false }

def c5ws10 : St :=
  { next_line_number := 2,
    tag_str := ("@ROOT@B".toList),
    tag_ptr := 7,
    nest := 2,
    env_tag := [0, 5, 7, 0, 0, 0],
    env_timer := [0, 1, 4, 0, 0, 0],
    next_in := 0,
    buf_rev := ("".toList),
    is_pause := true,
    sent_rev := [("T,   1,PASS,     1,@ROOT@B@L2\n".toList), ("T,   0,PASS,     1,@ROOT@B@L1\n".toList)],
    clock := 6,
    mode := RMode.exe,
    tag_found := 6,
    p_retval := 0,
    invoked := [("L1".toList), ("L2".toList)],
    entered := [("ROOT".toList), ("B".toList), ("L1".toList), ("L2".toList)],
    marks := [],
    frame_log := [(2, RetVal.pass), (2, RetVal.pass)],
    ilines := 0,
    tlines := 2,
    slines := 0,
    dropped := 0,
    oob := false }

def c5ws11 : St :=
  { next_line_number := 3,
    tag_str := ("@ROOT".toList),
    tag_ptr := 5,
    nest := 1,
    env_tag := [0, 5, 7, 0, 0, 0],
    env_timer := [0, 1, 4, 0, 0, 0],
    next_in := 0,
    buf_rev := ("".toList),
    is_pause := true,
    sent_rev := [("T,   2,PASS,     5,@ROOT@B\n".toList), ("T,   1,PASS,     1,@ROOT@B@L2\n".toList), ("T,   0,PASS,     1,@ROOT@B@L1\n".toList)],
    clock := 7,
    mode := RMode.exe,
    tag_found := 7,
    p_retval := 0,
    invoked := [("L1".toList), ("L2".toList)],
    entered := [("ROOT".toList), ("B".toList), ("L1".toList), ("L2".toList)],
    marks := [],
    frame_log := [(2, RetVal.pass), (2, RetVal.pass), (1, RetVal.pass)],
    ilines := 0,
    tlines := 3,
    slines := 0,
    dropped := 0,
    oob := false }

def c5ws12 : St :=
  { next_line_number := 3,
    tag_str := ("@ROOT".toList),
    tag_ptr := 5,
    nest := 1,
    env_tag := [0, 5, 7, 0, 0, 0],
    env_timer := [0, 1, 4, 0, 0, 0],
    next_in := 0,
    buf_rev := ("".toList),
    is_pause := true,
    sent_rev := [("T,   2,PASS,     5,@ROOT@B\n".toList), ("T,   1,PASS,     1,@ROOT@B@L2\n".toList), ("T,   0,PASS,     1,@ROOT@B@L1\n".toList)],
    clock := 7,
    mode := RMode.exe,
    tag_found := 7,
    p_retval := 0,
    invoked := [("L1".toList), ("L2".toList)],
    entered := [("ROOT".toList), ("B".toList), ("L1".toList), ("L2".toList)],
    marks := [],
    frame_log := [(2, RetVal.pass), (2, RetVal.pass), (1, RetVal.pass)],
    ilines := 0,
    tlines := 3,
    slines := 0,
    dropped := 0,
    oob := false }

def c5ws13 : St :=
  { next_line_number := 4,
    tag_str := ("".toList),
    tag_ptr := 0,
    nest := 0,
    env_tag := [0, 5, 7, 0, 0, 0],
    env_timer := [0, 1, 4, 0, 0, 0],
    next_in := 0,
    buf_rev := ("".toList),
    is_pause := true,
    sent_rev := [("DONE".toList), ("\n".toList), ("T,   3,PASS,     7,@ROOT\n".toList), ("T,   2,PASS,     5,@ROOT@B\n".toList), ("T,   1,PASS,     1,@ROOT@B@L2\n".toList), ("T,   0,PASS,     1,@ROOT@B@L1\n".toList)],
    clock := 8,
    mode := RMode.exe,
    tag_found := 8,
    p_retval := 0,
    invoked := [("L1".toList), ("L2".toList)],
    entered := [("ROOT".toList), ("B".toList), ("L1".toList), ("L2".toList)],
    marks := [],
    frame_log := [(2, RetVal.pass), (2, RetVal.pass), (1, RetVal.pass), (0, RetVal.pass)],
    ilines := 0,
    tlines := 4,
    slines := 0,
    dropped := 0,
    oob := false }

def c5ws14 : St :=
  { next_line_number := 4,
    tag_str := ("".toList),
    tag_ptr := 0,
    nest := 0,
    env_tag := [0, 5, 7, 0, 0, 0],
    env_timer := [0, 1, 4, 0, 0, 0],
    next_in := 0,
    buf_rev := ("".toList),
    is_pause := true,
    sent_rev := [("DONE".toList), ("\n".toList), ("T,   3,PASS,     7,@ROOT\n".toList), ("T,   2,PASS,     5,@ROOT@B\n".toList), ("T,   1,PASS,     1,@ROOT@B@L2\n".toList), ("T,   0,PASS,     1,@ROOT@B@L1\n".toList)],
    clock := 8,
    mode := RMode.exe,
    tag_found := 8,
    p_retval := 0,
    invoked := [("L1".toList), ("L2".toList)],
    entered := [("ROOT".toList), ("B".toList), ("L1".toList), ("L2".toList)],
    marks := [],
    frame_log := [(2, RetVal.pass), (2, RetVal.pass), (1, RetVal.pass), (0, RetVal.pass)],
    ilines := 0,
    tlines := 4,
    slines := 0,
    dropped := 0,
    oob := false }

theorem c5wrun_eq : c5wrun = Out.ok RetVal.pass c5ws14 := by
  have e0 : step RET_ROOT_TAG 4 (.enter (Node.leaf ("L1".toList) [] RetVal.pass) c5ws5) = Out.ok RetVal.pass c5ws6 := by decide
  have e1 : step RET_ROOT_TAG 2 (.enter (Node.leaf ("L2".toList) [] RetVal.pass) c5ws7) = Out.ok RetVal.pass c5ws8 := by decide
  have e2 : step RET_ROOT_TAG 1 (.loop 2 [] RetVal.pass c5ws9) = Out.ok RetVal.pass c5ws9 :=
    loop_nil RET_ROOT_TAG 0 2 RetVal.pass c5ws9
  have e3 : step RET_ROOT_TAG 2 (.handle 2 [] RetVal.pass RetVal.pass c5ws8) = Out.ok RetVal.pass c5ws9 :=
    (handle_step_exit_ok RET_ROOT_TAG 1 2 [] RetVal.pass RetVal.pass c5ws8 c5ws9 (by decide)).trans e2
  have e4 : step RET_ROOT_TAG 3 (.loop 2 [Node.leaf ("L2".toList) [] RetVal.pass] RetVal.pass c5ws7) = Out.ok RetVal.pass c5ws9 :=
    (loop_step_ok RET_ROOT_TAG 2 2 (Node.leaf ("L2".toList) [] RetVal.pass) [] RetVal.pass RetVal.pass c5ws7 c5ws8 e1).trans e3
  have e5 : step RET_ROOT_TAG 4 (.handle 2 [Node.leaf ("L2".toList) [] RetVal.pass] RetVal.pass RetVal.pass c5ws6) = Out.ok RetVal.pass c5ws9 :=
    (handle_step_exit_ok RET_ROOT_TAG 3 2 [Node.leaf ("L2".toList) [] RetVal.pass] RetVal.pass RetVal.pass c5ws6 c5ws7 (by decide)).trans e4
  have e6 : step RET_ROOT_TAG 5 (.loop 2 [Node.leaf ("L1".toList) [] RetVal.pass, Node.leaf ("L2".toList) [] RetVal.pass] RetVal.pass c5ws5) = Out.ok RetVal.pass c5ws9 :=
    (loop_step_ok RET_ROOT_TAG 4 2 (Node.leaf ("L1".toList) [] RetVal.pass) [Node.leaf ("L2".toList) [] RetVal.pass] RetVal.pass RetVal.pass c5ws5 c5ws6 e0).trans e5
  have e7 : step RET_ROOT_TAG 6 (.list [Node.leaf ("L1".toList) [] RetVal.pass, Node.leaf ("L2".toList) [] RetVal.pass] c5ws4) = Out.ok RetVal.pass c5ws10 :=
    (list_step_out_ok RET_ROOT_TAG 5 [Node.leaf ("L1".toList) [] RetVal.pass, Node.leaf ("L2".toList) [] RetVal.pass] c5ws4 RetVal.pass c5ws9 (by decide) e6).trans (by decide)
  have e8 : step RET_ROOT_TAG 7 (.enter (Node.branch ("B".toList) [Node.leaf ("L1".toList) [] RetVal.pass, Node.leaf ("L2".toList) [] RetVal.pass]) c5ws3) = Out.ok RetVal.pass c5ws10 :=
    (enter_branch_ok RET_ROOT_TAG 6 ("B".toList) [Node.leaf ("L1".toList) [] RetVal.pass, Node.leaf ("L2".toList) [] RetVal.pass] c5ws3 (by decide)).trans
      (by rw [show enterState RET_ROOT_TAG ("B".toList) c5ws3 = c5ws4 from by decide]; exact e7)
  have e9 : step RET_ROOT_TAG 6 (.loop 1 [] RetVal.pass c5ws11) = Out.ok RetVal.pass c5ws11 :=
    loop_nil RET_ROOT_TAG 5 1 RetVal.pass c5ws11
  have e10 : step RET_ROOT_TAG 7 (.handle 1 [] RetVal.pass RetVal.pass c5ws10) = Out.ok RetVal.pass c5ws11 :=
    (handle_step_exit_ok RET_ROOT_TAG 6 1 [] RetVal.pass RetVal.pass c5ws10 c5ws11 (by decide)).trans e9
  have e11 : step RET_ROOT_TAG 8 (.loop 1 [Node.branch ("B".toList) [Node.leaf ("L1".toList) [] RetVal.pass, Node.leaf ("L2".toList) [] RetVal.pass]] RetVal.pass c5ws3) = Out.ok RetVal.pass c5ws11 :=
    (loop_step_ok RET_ROOT_TAG 7 1 (Node.branch ("B".toList) [Node.leaf ("L1".toList) [] RetVal.pass, Node.leaf ("L2".toList) [] RetVal.pass]) [] RetVal.pass RetVal.pass c5ws3 c5ws10 e8).trans e10
  have e12 : step RET_ROOT_TAG 9 (.list [Node.branch ("B".toList) [Node.leaf ("L1".toList) [] RetVal.pass, Node.leaf ("L2".toList) [] RetVal.pass]] c5ws2) = Out.ok RetVal.pass c5ws12 :=
    (list_step_out_ok RET_ROOT_TAG 8 [Node.branch ("B".toList) [Node.leaf ("L1".toList) [] RetVal.pass, Node.leaf ("L2".toList) [] RetVal.pass]] c5ws2 RetVal.pass c5ws11 (by decide) e11).trans (by decide)
  have e13 : step RET_ROOT_TAG 10 (.enter (Node.branch RET_ROOT_TAG treeAB) c5ws1) = Out.ok RetVal.pass c5ws12 :=
    (enter_branch_ok RET_ROOT_TAG 9 ("ROOT".toList) [Node.branch ("B".toList) [Node.leaf ("L1".toList) [] RetVal.pass, Node.leaf ("L2".toList) [] RetVal.pass]] c5ws1 (by decide)).trans
      (by rw [show enterState RET_ROOT_TAG ("ROOT".toList) c5ws1 = c5ws2 from by decide]; exact e12)
  have e14 : step RET_ROOT_TAG 9 (.loop 0 [] RetVal.pass c5ws13) = Out.ok RetVal.pass c5ws13 :=
    loop_nil RET_ROOT_TAG 8 0 RetVal.pass c5ws13
  have e15 : step RET_ROOT_TAG 10 (.handle 0 [] RetVal.pass RetVal.pass c5ws12) = Out.ok RetVal.pass c5ws13 :=
    (handle_step_exit_ok RET_ROOT_TAG 9 0 [] RetVal.pass RetVal.pass c5ws12 c5ws13 (by decide)).trans e14
  have e16 : step RET_ROOT_TAG 11 (.loop 0 [Node.branch RET_ROOT_TAG treeAB] RetVal.pass c5ws1) = Out.ok RetVal.pass c5ws13 :=
    (loop_step_ok RET_ROOT_TAG 10 0 (Node.branch RET_ROOT_TAG treeAB) [] RetVal.pass RetVal.pass c5ws1 c5ws12 e13).trans e15
  have e17 : step RET_ROOT_TAG 12 (.list [Node.branch RET_ROOT_TAG treeAB] c5ws0) = Out.ok RetVal.pass c5ws14 :=
    (list_step_out_ok RET_ROOT_TAG 11 [Node.branch RET_ROOT_TAG treeAB] c5ws0 RetVal.pass c5ws13 (by decide) e16).trans (by decide)
  exact e17

/-! ### Claim theorems settled against the runs and the toolkit -/

/-- C2: the only early-exit mechanism of retExit compares the ENTIRE tag
path to the target (strcmp, ret.c line 286): a longjmp-to-root unwind is
possible only when tag_str equals the target verbatim.  Hence for the plain
deep tag L1 of treeAB the c2 execute run never unwinds: it invokes only L1
and emits exactly one T line (this part of the claim holds), but the sibling
L2 is still entered after L1 completes, and every enclosing frame finishes
normally (four frame completions), contradicting the claimed immediate
one-step termination after the targeted leaf. -/
theorem C2_no_early_termination :
    (∀ (tt : List Char) (retval : RetVal) (s : St) (lvl : Nat) (v : Int) (s2 : St),
        retExitFinish tt retval s = ExitOut.jump lvl v s2 → s.tag_str = tt) ∧
    rvOf c2run = RetVal.pass ∧
    (stOf c2run).invoked = ["L1".toList] ∧
    (stOf c2run).entered = [RET_ROOT_TAG, "B".toList, "L1".toList, "L2".toList] ∧
    (stOf c2run).frame_log =
      [(2, RetVal.pass), (2, RetVal.pass), (1, RetVal.pass), (0, RetVal.pass)] ∧
    (stOf c2run).tlines = 1 := by
  refine ⟨fun tt retval s lvl v s2 h => ?_, ?_⟩
  · by_cases he : s.tag_str = tt
    · exact he
    · exfalso
      unfold retExitFinish at h
      rw [if_neg he] at h
      dsimp only [] at h
      split at h <;> split at h <;> exact ExitOut.noConfusion h
  · rw [c2run_eq]
    decide

/-- C3: a search run never invokes leaf bodies and emits one S line per
discovered node (slines = 4 for treeAB), but retSearchLine hands
RET_NO_PAUSE to the formatter (ret.c line 471), so no S line is transmitted
when its terminator is written: the whole c3 run transmits all four S lines
in a single terminal flush followed by the DONE blob, contradicting the
claimed per-line transmission. -/
theorem C3_search_lines_buffered :
    (∀ (str : List Char) (s : St), sentList (retSearchLine str s) = sentList s) ∧
    rvOf c3run = RetVal.pass ∧
    (stOf c3run).invoked = [] ∧
    (stOf c3run).slines = 4 ∧
    sentList (stOf c3run) =
      [("S,   0,    ,      ,@ROOT@B@L1\nS,   1,    ,      ,@ROOT@B@L2\nS,   2,    ,      ,@ROOT@B\nS,   3,    ,      ,@ROOT\n\n".toList),
        ("DONE".toList)] := by
  refine ⟨retSearchLine_noflush, ?_⟩
  rw [c3run_eq]
  decide

/-- C4: a character arriving at a full buffer is silently dropped
(retPutChar guards the store), but the NUL terminator stored by
retSendBuffer (`*ret_buf.next_in++ = '\0'`, ret.c line 658) is not bounds
checked: when the cursor has reached RET_REPORT_BUF_SIZE the store is out
of bounds (ghost flag oob).  The c4 search run of bigTree reaches exactly
this state: 233 characters dropped, and its single transmission's flush
performed the out-of-bounds NUL store. -/
theorem C4_nul_store_unbounded :
    (∀ (c : Char) (s : St), ¬ s.next_in < RET_REPORT_BUF_SIZE →
        retPutChar c s = { s with dropped := s.dropped + 1 }) ∧
    (∀ s : St, ¬ s.next_in = 0 → RET_REPORT_BUF_SIZE ≤ s.next_in →
        (retSendBuffer s).oob = true) ∧
    (stOf c4run).oob = true ∧
    (stOf c4run).dropped = 233 ∧
    rvOf c4run = RetVal.pass := by
  refine ⟨retPutChar_full, fun s h1 h2 => ?_, ?_⟩
  · unfold retSendBuffer
    rw [if_pos h1]
    show (s.oob || decide (RET_REPORT_BUF_SIZE ≤ s.next_in)) = true
    rw [decide_eq_true h2, Bool.or_true]
  · rw [c4run_eq]
    decide

/-- C5 (amended): a leaf traversed in Search or Skip mode returns pass at
once without running its body; and for a root-targeted Execute run of a
forest that fits the engine's limits (every tag append inside the tag
buffer, every list below RET_MAX_NEST_SIZE, no reserved result), the leaves
are invoked exactly once each, in declared depth-first order, and the
aggregate result is failure exactly when some leaf produced a non-pass
result. -/
theorem C5_aggregate_and_order :
    (∀ (tag : List Char) (acts : List LAct) (ret : RetVal) (s : St),
        s.mode = RMode.search ∨ s.mode = RMode.skip →
        runLeafBody tag acts ret s = Out.ok RetVal.pass s) ∧
    (∀ (children : List Node) (fuel : Nat) (r : RetVal) (s' : St),
        nodeFitsL children 5 1 = true →
        retStart RET_ROOT_TAG RMode.exe children fuel = Out.ok r s' →
        s'.invoked = leafTagsL children ∧
        r = (if anyFailL children = true then RetVal.fail else RetVal.pass)) :=
  ⟨fun tag acts ret s h => runLeafBody_guard tag acts ret s h,
   fun children fuel r s' hfit hrun => retStart_root_exe children fuel r s' hfit hrun⟩

/-- C5 witness: the root-targeted execute run of treeAB invokes exactly its
two leaves in order and aggregates to pass, by the amended theorem applied
at the staged run equation. -/
theorem C5_root_exe_witness :
    c5ws14.invoked = leafTagsL treeAB ∧
    RetVal.pass = (if anyFailL treeAB = true then RetVal.fail else RetVal.pass) :=
  C5_aggregate_and_order.2 treeAB 12 RetVal.pass c5ws14 (by decide) c5wrun_eq

/-- C5 counterexample: chainTree nests its only leaf seven frames deep,
beyond RET_MAX_NEST_SIZE, so the root-targeted execute run REFUSES the
deepest list: the run returns failure although no leaf body was invoked and
no leaf of the tree produces a non-pass result — the original claim's
"failure exactly when at least one visited node produced a non-pass result,
and every leaf invoked" is false without an admissibility proviso. -/
theorem C5_counterexample :
    rvOf c5crun = RetVal.fail ∧
    (stOf c5crun).invoked = [] ∧
    (stOf c5crun).ilines = 1 ∧
    (stOf c5crun).entered = [RET_ROOT_TAG, "B1".toList, "B2".toList, "B3".toList,
      "B4".toList, "B5".toList] ∧
    anyFailL chainTree = false ∧
    nodeFitsL chainTree 5 1 = false := by
  rw [c5crun_eq]
  decide

/-- C8 (amended): at depth-0 completion retExit reaches exactly one of the
two terminal reports — the path-not-found info line when nothing matched
and the target is not the root, else the linefeed-DONE-flush sequence; a
character arriving at a full buffer is silently dropped; and whenever the
buffer has room for the five terminal characters, the flush transmits a
string carrying the DONE sentinel.  (Without room the sentinel characters
are dropped and the claimed DONE line never reaches the sink.) -/
theorem C8_terminal_report :
    (∀ (tt : List Char) (retval : RetVal) (x : St),
        ¬ x.tag_str = tt → x.nest = 1 →
        ((x.tag_found = 0 ∧ ¬ tt = RET_ROOT_TAG →
          retExitFinish tt retval x =
            ExitOut.ok (retInfoLine RET_PATH_ERR_MSG true (retRemoveTag 0 x))) ∧
         (¬ (x.tag_found = 0 ∧ ¬ tt = RET_ROOT_TAG) →
          retExitFinish tt retval x =
            ExitOut.ok (retSendBuffer (retPutString RET_TEST_DONE_MSG
              (retPutLineFeed (retRemoveTag 0 x))))))) ∧
    (∀ (c : Char) (s : St), ¬ s.next_in < RET_REPORT_BUF_SIZE →
        retPutChar c s = { s with dropped := s.dropped + 1 }) ∧
    (∀ s : St, s.next_in + 5 ≤ RET_REPORT_BUF_SIZE →
        ∃ pre, sentList (retSendBuffer (retPutString RET_TEST_DONE_MSG
            (retPutLineFeed s))) = sentList s ++ pre ∧
          ∃ l, l ∈ pre ∧ (strstrIdx l RET_TEST_DONE_MSG).isSome = true) := by
  refine ⟨fun tt retval x hneq hx => ?_, retPutChar_full, sendDone_with_room⟩
  have hbase : retExitFinish tt retval x =
      ExitOut.ok (if (retRemoveTag 0 x).tag_found = 0 ∧ tt ≠ RET_ROOT_TAG
        then retInfoLine RET_PATH_ERR_MSG true (retRemoveTag 0 x)
        else retSendBuffer (retPutString RET_TEST_DONE_MSG
          (retPutLineFeed (retRemoveTag 0 x)))) := by
    unfold retExitFinish
    rw [if_neg hneq]
    dsimp only []
    rw [if_pos (by omega : ¬ x.nest = 0)]
    rw [hx]
    show (if (retRemoveTag (1 - 1) x).nest = 0 then _ else _) = _
    rw [show (1 : Nat) - 1 = 0 from rfl]
    rw [if_pos (by rw [retRemoveTag_eq 0 x (by decide)] : (retRemoveTag 0 x).nest = 0)]
  constructor
  · intro hcond
    rw [hbase, if_pos (⟨hcond.1, hcond.2⟩ :
      (retRemoveTag 0 x).tag_found = 0 ∧ tt ≠ RET_ROOT_TAG)]
  · intro hncond
    rw [hbase, if_neg (fun hc => hncond ⟨hc.1, hc.2⟩)]

/-- A depth-1 completion state whose report buffer is full: the terminal
flush of retExit transmits the buffer as it stands and drops the linefeed
and the four DONE characters. -/
def c8full : St where
  next_line_number := 7
  tag_str := "@ROOT@B".toList
  tag_ptr := 7
  nest := 1
  env_tag := [0, 0, 0, 0, 0, 0]
  env_timer := [0, 0, 0, 0, 0, 0]
  next_in := RET_REPORT_BUF_SIZE
  buf_rev := ['X']
  is_pause := false
  sent_rev := []
  clock := 9
  mode := RMode.exe
  tag_found := 1
  p_retval := 0
  invoked := []
  entered := []
  marks := []
  frame_log := []
  ilines := 0
  tlines := 0
  slines := 0
  dropped := 0
  oob := false

/-- C8 counterexample: with the report buffer full at depth-0 completion,
the terminal sequence transmits a blob that does not contain the DONE
sentinel and silently drops the five terminal characters; the c4 search run
shows a real run reaching a full buffer (its flush's NUL store went out of
bounds, 233 characters were dropped, and its entire output is a single
4096-byte transmission). -/
theorem C8_counterexample :
    sentList (retSendBuffer (retPutString RET_TEST_DONE_MSG
        (retPutLineFeed (retRemoveTag 0 c8full)))) = [['X']] ∧
    (strstrIdx ['X'] RET_TEST_DONE_MSG).isNone = true ∧
    (retSendBuffer (retPutString RET_TEST_DONE_MSG
        (retPutLineFeed (retRemoveTag 0 c8full)))).dropped = 5 ∧
    (stOf c4run).oob = true ∧
    (stOf c4run).dropped = 233 ∧
    ¬ (stOf c4run).tag_found = 0 ∧
    (stOf c4run).sent_rev = [c4sent0] ∧
    rvOf c4run = RetVal.pass := by
  refine ⟨by decide, by decide, by decide, ?_⟩
  rw [c4run_eq]
  refine ⟨rfl, by decide, by decide, rfl, rfl⟩

/-- C10: the retExecuteList switch maps an observed longjmp value of -1 to
a failed result and every other value to a pass; the early-termination
unwind passes the node's own result value through retvalToInt (0 for pass,
arriving at setjmp as 1), so the catching frame records pass for the
targeted test even when it failed: the c10 run targets the full path of a
FAILING leaf, its frame 2 records the failure, yet the root frame that
catches the termination logs (0, pass) and the whole run returns pass. -/
theorem C10_abort_value_mapping :
    longjmpRetval (-1) = RetVal.fail ∧
    (∀ v : Int, ¬ v = -1 → longjmpRetval v = RetVal.pass) ∧
    (∀ r : RetVal, longjmpRetval (retvalToInt r) = RetVal.pass) ∧
    rvOf c10run = RetVal.pass ∧
    (stOf c10run).frame_log = [(2, RetVal.fail), (0, RetVal.pass)] ∧
    (stOf c10run).entered = [RET_ROOT_TAG, "B".toList, "L1".toList] ∧
    sentList (stOf c10run) =
      [("T,   0,FAIL,     1,@ROOT@B@L1\n".toList), ("\n".toList), ("DONE".toList)] := by
  refine ⟨by decide, fun v hv => ?_, fun r => by cases r <;> decide, ?_⟩
  · unfold longjmpRetval setjmpConv
    by_cases h0 : v = 0
    · rw [if_pos h0, if_neg (by decide : ¬ (1 : Int) = -1)]
    · rw [if_neg h0, if_neg hv]
  · rw [c10run_eq]
    decide
